import Mathlib

/-!
The jscript bytecode compiler (`dlls/jscript/compile.c`)

A shallow embedding of the AST-to-bytecode compiler and theorems about it.

Conventions of the embedding.

* Every C function becomes a function from the compiler state `compiler_ctx_t`
  to a result and the new state.  An `HRESULT` is an `Int` (a signed 32-bit
  value); the `unsigned` returned by `push_instr` and `alloc_label` is a `Nat`
  and `(unsigned)-1` is `UINT_MAX`.
* The instruction buffer `code->instrs` and the label table `labels` are total
  maps from an index to the cell content: cells that were never written hold
  whatever the map holds there, which stands for uninitialised heap memory.
  `code_size` and `labels_size` are the allocated capacities.
* The counters `code_off`, `code_size`, `labels_cnt`, `labels_size` are natural
  numbers that do not wrap; the theorems that depend on 32-bit effects (the
  `LABEL_FLAG` bit, the cast of an offset to `HRESULT`) bound the capacities.
* Allocation is fallible: the field `heap` lists the outcome of the next
  allocation requests (`true`: the request is served); when the list is
  exhausted every request is served.
* The AST is a tree.  A C struct that embeds a header (`binary_expression_t`,
  `while_statement_t`, ...) is a type of its own and `expression_t` /
  `statement_t` is the tagged pointer to one of them.  A list type with a `NULL`
  constructor (`argument_t`, `statement_list`, ...) is a possibly-NULL pointer
  to a node together with the chain reached through `next`.  A node of a
  statement chain carries its address, which is what a comparison of two
  statement pointers compares.
* `label_log` is a history variable: the labels passed to `label_set_addr`, most
  recent first.  `stat_eval` records the assignments to `stat->eval`.
-/

namespace JsCompile

/-! ## Results and constants -/

abbrev HRESULT := Int

def S_OK : HRESULT := 0
def E_NOTIMPL : HRESULT := 0x80004001 - 0x100000000
def E_OUTOFMEMORY : HRESULT := 0x8007000E - 0x100000000

def FAILED (hr : HRESULT) : Bool := hr < 0
def SUCCEEDED (hr : HRESULT) : Bool := 0 ≤ hr

/-- The value `(unsigned)-1`. -/
def UINT_MAX : Nat := 0xFFFFFFFF

/-- Conversion of an `unsigned` to a 32-bit signed `HRESULT`. -/
def unsigned_to_HRESULT (n : Nat) : HRESULT :=
  if n % 0x100000000 < 0x80000000 then (n % 0x100000000 : Nat) else ((n % 0x100000000 : Nat) : Int) - 0x100000000

def LABEL_FLAG : Nat := 0x80000000

/-- Modelled from the spec: the dispatch flag `fdexNameEnsure` of dispex.h, which is not part of
the sources at hand; only its identity matters to the compiler. -/
def fdexNameEnsure : Nat := 2

/-- Modelled from the spec: `DISPID_STARTENUM` of oaidl.h, the sentinel that seeds an enumeration. -/
def DISPID_STARTENUM : Int := -1

/-- Modelled from the spec: the run-time error code `JS_E_ILLEGAL_ASSIGN` declared in jscript.h,
which is not part of the sources at hand; only its identity matters to the compiler. -/
def JS_E_ILLEGAL_ASSIGN : Nat := 0x800A1390

/-- Modelled from the spec: the run-time error code `JS_E_INVALID_DELETE` declared in jscript.h,
which is not part of the sources at hand; only its identity matters to the compiler. -/
def JS_E_INVALID_DELETE : Nat := 0x800A138C

/-! ## Opcodes -/

/-- The opcodes that compile.c emits (`OP_LIST` of engine.h), and the marker `OP_LAST`. -/
inductive jsop_t where
  | OP_add | OP_and | OP_array | OP_assign | OP_bool | OP_bneg | OP_call | OP_call_member
  | OP_carray | OP_case | OP_cnd_nz | OP_cnd_z | OP_delete | OP_delete_ident | OP_div
  | OP_double | OP_end_finally | OP_eq | OP_eq2 | OP_forin | OP_func | OP_gt | OP_gteq
  | OP_ident | OP_identid | OP_in | OP_instanceof | OP_int | OP_jmp | OP_jmp_z | OP_label
  | OP_lshift | OP_lt | OP_lteq | OP_member | OP_memberid | OP_minus | OP_mod | OP_mul
  | OP_neg | OP_neq | OP_neq2 | OP_new | OP_new_obj | OP_null | OP_obj_prop | OP_or | OP_pop
  | OP_pop_except | OP_pop_scope | OP_postinc | OP_preinc | OP_push_except | OP_push_scope
  | OP_refval | OP_regexp | OP_ret | OP_rshift | OP_rshift2 | OP_str | OP_sub | OP_this
  | OP_throw | OP_throw_ref | OP_throw_type | OP_tonum | OP_tree | OP_typeof | OP_typeofid
  | OP_typeofident | OP_undefined | OP_var_set | OP_void | OP_xor | OP_LAST
  deriving DecidableEq

inductive instr_arg_type_t where
  | ARG_NONE | ARG_ADDR | ARG_BSTR | ARG_DBL | ARG_FUNC | ARG_INT | ARG_STAT | ARG_STR | ARG_UINT
  deriving DecidableEq

open jsop_t instr_arg_type_t

/-- Modelled from the spec: the first-operand column of `instr_info`, which compile.c generates
from `OP_LIST` (engine.h, not part of the sources at hand).  An opcode is address-typed when
compile.c stores a jump target (an offset or a label token) in its first operand; the other
entries follow the union member compile.c writes. -/
def instr_info_arg1_type : jsop_t → instr_arg_type_t
  | OP_case | OP_cnd_nz | OP_cnd_z | OP_forin | OP_jmp | OP_jmp_z | OP_push_except => ARG_ADDR
  | OP_delete_ident | OP_ident | OP_identid | OP_member | OP_obj_prop | OP_var_set => ARG_BSTR
  | OP_double => ARG_DBL
  | OP_func => ARG_FUNC
  | OP_bool | OP_int | OP_new | OP_postinc | OP_preinc => ARG_INT
  | OP_tree => ARG_STAT
  | OP_regexp | OP_str | OP_typeofident => ARG_STR
  | OP_call | OP_call_member | OP_carray | OP_memberid | OP_throw_ref | OP_throw_type => ARG_UINT
  | _ => ARG_NONE

/-- Modelled from the spec: the second-operand column of `instr_info` (see
`instr_info_arg1_type`); no opcode has an address as second operand. -/
def instr_info_arg2_type : jsop_t → instr_arg_type_t
  | OP_push_except => ARG_BSTR
  | OP_call | OP_call_member | OP_regexp => ARG_INT
  | OP_identid => ARG_UINT
  | OP_throw_type => ARG_STR
  | _ => ARG_NONE

/-! ## Expressions -/

/-- A double constant.  The compiler only stores doubles and prints them as property names, so a
double is represented by its canonical string form. -/
structure DOUBLE where
  canon : String
  deriving DecidableEq

inductive literal_t where
  | LT_BOOL (bval : Int)
  | LT_DOUBLE (dval : DOUBLE)
  | LT_INT (lval : Int)
  | LT_NULL
  | LT_STRING (wstr : String)
  | LT_REGEXP (str : String) (str_len : Nat) (flags : Int)
  deriving DecidableEq

inductive expression_type_t where
  | EXPR_COMMA | EXPR_OR | EXPR_AND | EXPR_BOR | EXPR_BXOR | EXPR_BAND | EXPR_INSTANCEOF
  | EXPR_IN | EXPR_ADD | EXPR_SUB | EXPR_MUL | EXPR_DIV | EXPR_MOD | EXPR_DELETE | EXPR_VOID
  | EXPR_TYPEOF | EXPR_MINUS | EXPR_PLUS | EXPR_POSTINC | EXPR_POSTDEC | EXPR_PREINC
  | EXPR_PREDEC | EXPR_EQ | EXPR_EQEQ | EXPR_NOTEQ | EXPR_NOTEQEQ | EXPR_LESS | EXPR_LESSEQ
  | EXPR_GREATER | EXPR_GREATEREQ | EXPR_BITNEG | EXPR_LOGNEG | EXPR_LSHIFT | EXPR_RSHIFT
  | EXPR_RRSHIFT | EXPR_ASSIGN | EXPR_ASSIGNLSHIFT | EXPR_ASSIGNRSHIFT | EXPR_ASSIGNRRSHIFT
  | EXPR_ASSIGNADD | EXPR_ASSIGNSUB | EXPR_ASSIGNMUL | EXPR_ASSIGNDIV | EXPR_ASSIGNMOD
  | EXPR_ASSIGNAND | EXPR_ASSIGNOR | EXPR_ASSIGNXOR | EXPR_COND | EXPR_ARRAY | EXPR_MEMBER
  | EXPR_NEW | EXPR_CALL | EXPR_THIS | EXPR_FUNC | EXPR_IDENT | EXPR_ARRAYLIT | EXPR_PROPVAL
  | EXPR_LITERAL
  deriving DecidableEq

/-- The type tags of the expressions laid out as a `binary_expression_t`. -/
inductive binary_type_t where
  | EXPR_COMMA | EXPR_OR | EXPR_AND | EXPR_BOR | EXPR_BXOR | EXPR_BAND | EXPR_INSTANCEOF
  | EXPR_IN | EXPR_ADD | EXPR_SUB | EXPR_MUL | EXPR_DIV | EXPR_MOD | EXPR_EQ | EXPR_EQEQ
  | EXPR_NOTEQ | EXPR_NOTEQEQ | EXPR_LESS | EXPR_LESSEQ | EXPR_GREATER | EXPR_GREATEREQ
  | EXPR_LSHIFT | EXPR_RSHIFT | EXPR_RRSHIFT | EXPR_ASSIGN | EXPR_ASSIGNLSHIFT
  | EXPR_ASSIGNRSHIFT | EXPR_ASSIGNRRSHIFT | EXPR_ASSIGNADD | EXPR_ASSIGNSUB | EXPR_ASSIGNMUL
  | EXPR_ASSIGNDIV | EXPR_ASSIGNMOD | EXPR_ASSIGNAND | EXPR_ASSIGNOR | EXPR_ASSIGNXOR
  | EXPR_ARRAY
  deriving DecidableEq

/-- The type tags of the expressions laid out as a `unary_expression_t`. -/
inductive unary_type_t where
  | EXPR_DELETE | EXPR_VOID | EXPR_TYPEOF | EXPR_MINUS | EXPR_PLUS | EXPR_POSTINC
  | EXPR_POSTDEC | EXPR_PREINC | EXPR_PREDEC | EXPR_BITNEG | EXPR_LOGNEG
  deriving DecidableEq

def binary_type_t.type : binary_type_t → expression_type_t
  | EXPR_COMMA => .EXPR_COMMA | EXPR_OR => .EXPR_OR | EXPR_AND => .EXPR_AND
  | EXPR_BOR => .EXPR_BOR | EXPR_BXOR => .EXPR_BXOR | EXPR_BAND => .EXPR_BAND
  | EXPR_INSTANCEOF => .EXPR_INSTANCEOF | EXPR_IN => .EXPR_IN | EXPR_ADD => .EXPR_ADD
  | EXPR_SUB => .EXPR_SUB | EXPR_MUL => .EXPR_MUL | EXPR_DIV => .EXPR_DIV
  | EXPR_MOD => .EXPR_MOD | EXPR_EQ => .EXPR_EQ | EXPR_EQEQ => .EXPR_EQEQ
  | EXPR_NOTEQ => .EXPR_NOTEQ | EXPR_NOTEQEQ => .EXPR_NOTEQEQ | EXPR_LESS => .EXPR_LESS
  | EXPR_LESSEQ => .EXPR_LESSEQ | EXPR_GREATER => .EXPR_GREATER
  | EXPR_GREATEREQ => .EXPR_GREATEREQ | EXPR_LSHIFT => .EXPR_LSHIFT
  | EXPR_RSHIFT => .EXPR_RSHIFT | EXPR_RRSHIFT => .EXPR_RRSHIFT | EXPR_ASSIGN => .EXPR_ASSIGN
  | EXPR_ASSIGNLSHIFT => .EXPR_ASSIGNLSHIFT | EXPR_ASSIGNRSHIFT => .EXPR_ASSIGNRSHIFT
  | EXPR_ASSIGNRRSHIFT => .EXPR_ASSIGNRRSHIFT | EXPR_ASSIGNADD => .EXPR_ASSIGNADD
  | EXPR_ASSIGNSUB => .EXPR_ASSIGNSUB | EXPR_ASSIGNMUL => .EXPR_ASSIGNMUL
  | EXPR_ASSIGNDIV => .EXPR_ASSIGNDIV | EXPR_ASSIGNMOD => .EXPR_ASSIGNMOD
  | EXPR_ASSIGNAND => .EXPR_ASSIGNAND | EXPR_ASSIGNOR => .EXPR_ASSIGNOR
  | EXPR_ASSIGNXOR => .EXPR_ASSIGNXOR | EXPR_ARRAY => .EXPR_ARRAY

def unary_type_t.type : unary_type_t → expression_type_t
  | EXPR_DELETE => .EXPR_DELETE | EXPR_VOID => .EXPR_VOID | EXPR_TYPEOF => .EXPR_TYPEOF
  | EXPR_MINUS => .EXPR_MINUS | EXPR_PLUS => .EXPR_PLUS | EXPR_POSTINC => .EXPR_POSTINC
  | EXPR_POSTDEC => .EXPR_POSTDEC | EXPR_PREINC => .EXPR_PREINC | EXPR_PREDEC => .EXPR_PREDEC
  | EXPR_BITNEG => .EXPR_BITNEG | EXPR_LOGNEG => .EXPR_LOGNEG

/-- A function expression: its name, if it has one, and an identifier standing for the rest of the
node (parameters and body), which the compiler does not look into. -/
structure function_expression_t where
  identifier : Option String
  id : Nat
  deriving DecidableEq

structure identifier_expression_t where
  identifier : String
  deriving DecidableEq

structure literal_expression_t where
  literal : literal_t
  deriving DecidableEq

mutual
/-- A pointer to an expression node: the type tag and the struct it is cast to. -/
inductive expression_t where
  | binary (type : binary_type_t) (expr : binary_expression_t)
  | unary (type : unary_type_t) (expr : unary_expression_t)
  | EXPR_COND (expr : conditional_expression_t)
  | EXPR_MEMBER (expr : member_expression_t)
  | EXPR_NEW (expr : call_expression_t)
  | EXPR_CALL (expr : call_expression_t)
  | EXPR_THIS
  | EXPR_FUNC (expr : function_expression_t)
  | EXPR_IDENT (expr : identifier_expression_t)
  | EXPR_ARRAYLIT (expr : array_literal_expression_t)
  | EXPR_PROPVAL (expr : property_value_expression_t)
  | EXPR_LITERAL (expr : literal_expression_t)
inductive binary_expression_t where
  | mk (expression1 expression2 : expression_t)
inductive unary_expression_t where
  | mk (expression : expression_t)
inductive conditional_expression_t where
  | mk (expression true_expression false_expression : expression_t)
inductive member_expression_t where
  | mk (expression : expression_t) (identifier : String)
inductive call_expression_t where
  | mk (expression : expression_t) (argument_list : argument_t)
inductive argument_t where
  | NULL
  | mk (expr : expression_t) (next : argument_t)
inductive array_literal_expression_t where
  | mk (element_list : array_element_t) (length : Nat)
inductive array_element_t where
  | NULL
  | mk (elision : Nat) (expr : expression_t) (next : array_element_t)
inductive property_value_expression_t where
  | mk (property_list : prop_val_t)
inductive prop_val_t where
  | NULL
  | mk (name : literal_t) (value : expression_t) (next : prop_val_t)
end

/-- The field `expr->type`. -/
def expression_t.type : expression_t → expression_type_t
  | .binary t _ => t.type
  | .unary t _ => t.type
  | .EXPR_COND _ => .EXPR_COND
  | .EXPR_MEMBER _ => .EXPR_MEMBER
  | .EXPR_NEW _ => .EXPR_NEW
  | .EXPR_CALL _ => .EXPR_CALL
  | .EXPR_THIS => .EXPR_THIS
  | .EXPR_FUNC _ => .EXPR_FUNC
  | .EXPR_IDENT _ => .EXPR_IDENT
  | .EXPR_ARRAYLIT _ => .EXPR_ARRAYLIT
  | .EXPR_PROPVAL _ => .EXPR_PROPVAL
  | .EXPR_LITERAL _ => .EXPR_LITERAL

/-- A possibly-NULL list of variable declarations (`expr` is NULL when there is no initialiser). -/
inductive variable_declaration_t where
  | NULL
  | mk (identifier : String) (expr : Option expression_t) (next : variable_declaration_t)

/-! ## Statements -/

structure branch_statement_t where
  identifier : Option String
  deriving DecidableEq

structure expression_statement_t where
  expr : expression_t

structure var_statement_t where
  variable_list : variable_declaration_t

mutual
/-- A pointer to a statement node: the type tag and the struct it is cast to.  A return statement
is an `expression_statement_t` whose expression may be NULL; the compiler never reads it. -/
inductive statement_t where
  | STAT_BLOCK (stat : block_statement_t)
  | STAT_BREAK (stat : branch_statement_t)
  | STAT_CONTINUE (stat : branch_statement_t)
  | STAT_EMPTY
  | STAT_EXPR (stat : expression_statement_t)
  | STAT_FOR (stat : for_statement_t)
  | STAT_FORIN (stat : forin_statement_t)
  | STAT_IF (stat : if_statement_t)
  | STAT_LABEL (stat : labelled_statement_t)
  | STAT_RETURN (expr : Option expression_t)
  | STAT_SWITCH (stat : switch_statement_t)
  | STAT_THROW (stat : expression_statement_t)
  | STAT_TRY (stat : try_statement_t)
  | STAT_VAR (stat : var_statement_t)
  | STAT_WHILE (stat : while_statement_t)
  | STAT_WITH (stat : with_statement_t)
/-- A possibly-NULL `statement_t *`: the address it holds, the node at that address and the chain
of statements linked through `next`. -/
inductive statement_list where
  | NULL
  | node (addr : Nat) (stat : statement_t) (next : statement_list)
inductive block_statement_t where
  | mk (stat_list : statement_list)
inductive for_statement_t where
  | mk (variable_list : variable_declaration_t) (begin_expr expr end_expr : Option expression_t)
      (statement : statement_t)
/-- The loop target is `variable_` (the field `variable`) when it is not NULL and `expr` otherwise (`expr` is read only
in that case). -/
inductive forin_statement_t where
  | mk (variable_ : variable_declaration_t) (expr : expression_t) (in_expr : expression_t)
      (statement : statement_t)
inductive if_statement_t where
  | mk (expr : expression_t) (if_stat : statement_t) (else_stat : statement_list)
inductive labelled_statement_t where
  | mk (identifier : String) (statement : statement_t)
inductive switch_statement_t where
  | mk (expr : expression_t) (case_list : case_clausule_t)
/-- A possibly-NULL list of case clauses; `expr` is NULL for the default clause and `stat` points
into the chain of the statements of all the clauses. -/
inductive case_clausule_t where
  | NULL
  | mk (expr : Option expression_t) (stat : statement_list) (next : case_clausule_t)
inductive try_statement_t where
  | mk (try_statement : statement_t) (catch_block : catch_block_t)
      (finally_statement : statement_list)
/-- A possibly-NULL pointer to a catch block. -/
inductive catch_block_t where
  | NULL
  | mk (identifier : String) (statement : statement_t)
inductive while_statement_t where
  | mk (do_while : Bool) (expr : expression_t) (statement : statement_t)
inductive with_statement_t where
  | mk (expr : expression_t) (statement : statement_t)
end

/-- The tree-walk evaluators that the compiler stores in `stat->eval`. -/
inductive statement_eval_t where
  | while_statement_eval | for_statement_eval | forin_statement_eval | continue_statement_eval
  | break_statement_eval | with_statement_eval | switch_statement_eval | try_statement_eval
  deriving DecidableEq

/-! ## Compiler state -/

/-- The operand union `instr_arg_t`, tagged with the member that was written. -/
inductive instr_arg_t where
  | uint (v : Nat)
  | lng (v : Int)
  | str (s : String)
  | bstr (s : Option String)
  | dbl (d : DOUBLE)
  | stat (s : statement_t)
  | func (f : function_expression_t)

structure instr_t where
  op : jsop_t
  arg1 : instr_arg_t
  arg2 : instr_arg_t

/-- A context frame; the link `next` is the position of the frame in the list `stat_ctx`. -/
structure statement_ctx_t where
  stack_use : Nat
  using_scope : Bool
  using_except : Bool
  break_label : Nat
  continue_label : Nat
  deriving DecidableEq

/-- The compiler context together with the bytecode buffer it fills (`ctx->code`), the allocator
and the effects on the AST. -/
structure compiler_ctx_t where
  instrs : Nat → instr_t
  bstr_pool : Nat → Option String
  bstr_pool_size : Nat
  bstr_cnt : Nat
  code_off : Nat
  code_size : Nat
  labels : Nat → Nat
  labels_size : Nat
  labels_cnt : Nat
  stat_ctx : List statement_ctx_t
  no_fallback : Bool
  heap : List Bool
  stat_eval : List (statement_t × statement_eval_t)
  label_log : List Nat

/-- One allocation request (`heap_alloc`, `heap_realloc`, `jsheap_alloc`, `SysAllocString`):
whether it is served, and the allocator afterwards. -/
def heap_alloc (ctx : compiler_ctx_t) : Bool × compiler_ctx_t :=
  match ctx.heap with
  | [] => (true, ctx)
  | b :: rest => (b, { ctx with heap := rest })

def compiler_alloc_string (ctx : compiler_ctx_t) (str : String) : Option String × compiler_ctx_t :=
  let a := heap_alloc ctx
  if a.1 then (some str, a.2) else (none, a.2)

def compiler_alloc_bstr (ctx : compiler_ctx_t) (str : String) : Option String × compiler_ctx_t :=
  let grown : Bool × compiler_ctx_t :=
    if ctx.bstr_pool_size = 0 then
      let a := heap_alloc ctx
      if a.1 then (true, { a.2 with bstr_pool_size := 8 }) else (false, a.2)
    else if ctx.bstr_pool_size = ctx.bstr_cnt then
      let a := heap_alloc ctx
      if a.1 then (true, { a.2 with bstr_pool_size := a.2.bstr_pool_size * 2 }) else (false, a.2)
    else (true, ctx)
  if !grown.1 then (none, grown.2) else
  let a := heap_alloc grown.2
  if !a.1 then
    (none, { a.2 with bstr_pool := Function.update a.2.bstr_pool a.2.bstr_cnt none })
  else
    (some str, { a.2 with bstr_pool := Function.update a.2.bstr_pool a.2.bstr_cnt (some str),
                          bstr_cnt := a.2.bstr_cnt + 1 })

/-- The store `ctx->code->instrs[ctx->code_off].op = op; return ctx->code_off++;`. -/
def store_op (ctx : compiler_ctx_t) (op : jsop_t) : Nat × compiler_ctx_t :=
  (ctx.code_off,
   { ctx with instrs := Function.update ctx.instrs ctx.code_off { ctx.instrs ctx.code_off with op := op },
              code_off := ctx.code_off + 1 })

def push_instr (ctx : compiler_ctx_t) (op : jsop_t) : Nat × compiler_ctx_t :=
  if ctx.code_size = 0 then
    let a := heap_alloc ctx
    if !a.1 then (UINT_MAX, a.2) else
    store_op { a.2 with code_size := 64 } op
  else if ctx.code_size = ctx.code_off then
    let a := heap_alloc ctx
    if !a.1 then (UINT_MAX, a.2) else
    store_op { a.2 with code_size := a.2.code_size * 2 } op
  else
    store_op ctx op

/-- The assignment `instr_ptr(ctx, off)->arg1 = v`. -/
def set_arg1 (ctx : compiler_ctx_t) (off : Nat) (v : instr_arg_t) : compiler_ctx_t :=
  { ctx with instrs := Function.update ctx.instrs off { ctx.instrs off with arg1 := v } }

/-- The assignment `instr_ptr(ctx, off)->arg2 = v`. -/
def set_arg2 (ctx : compiler_ctx_t) (off : Nat) (v : instr_arg_t) : compiler_ctx_t :=
  { ctx with instrs := Function.update ctx.instrs off { ctx.instrs off with arg2 := v } }

def push_instr_int (ctx : compiler_ctx_t) (op : jsop_t) (arg : Int) : HRESULT × compiler_ctx_t :=
  let instr := push_instr ctx op
  if instr.1 = UINT_MAX then (E_OUTOFMEMORY, instr.2) else
  (S_OK, set_arg1 instr.2 instr.1 (.lng arg))

def push_instr_str (ctx : compiler_ctx_t) (op : jsop_t) (arg : String) : HRESULT × compiler_ctx_t :=
  let str := compiler_alloc_string ctx arg
  match str.1 with
  | none => (E_OUTOFMEMORY, str.2)
  | some s =>
    let instr := push_instr str.2 op
    if instr.1 = UINT_MAX then (E_OUTOFMEMORY, instr.2) else
    (S_OK, set_arg1 instr.2 instr.1 (.str s))

def push_instr_bstr (ctx : compiler_ctx_t) (op : jsop_t) (arg : String) : HRESULT × compiler_ctx_t :=
  let str := compiler_alloc_bstr ctx arg
  match str.1 with
  | none => (E_OUTOFMEMORY, str.2)
  | some s =>
    let instr := push_instr str.2 op
    if instr.1 = UINT_MAX then (E_OUTOFMEMORY, instr.2) else
    (S_OK, set_arg1 instr.2 instr.1 (.bstr (some s)))

def push_instr_bstr_uint (ctx : compiler_ctx_t) (op : jsop_t) (arg1 : String) (arg2 : Nat) :
    HRESULT × compiler_ctx_t :=
  let str := compiler_alloc_bstr ctx arg1
  match str.1 with
  | none => (E_OUTOFMEMORY, str.2)
  | some s =>
    let instr := push_instr str.2 op
    if instr.1 = UINT_MAX then (E_OUTOFMEMORY, instr.2) else
    (S_OK, set_arg2 (set_arg1 instr.2 instr.1 (.bstr (some s))) instr.1 (.uint arg2))

def push_instr_uint_str (ctx : compiler_ctx_t) (op : jsop_t) (arg1 : Nat) (arg2 : String) :
    HRESULT × compiler_ctx_t :=
  let str := compiler_alloc_string ctx arg2
  match str.1 with
  | none => (E_OUTOFMEMORY, str.2)
  | some s =>
    let instr := push_instr str.2 op
    if instr.1 = UINT_MAX then (E_OUTOFMEMORY, instr.2) else
    (S_OK, set_arg2 (set_arg1 instr.2 instr.1 (.uint arg1)) instr.1 (.str s))

def push_instr_double (ctx : compiler_ctx_t) (op : jsop_t) (arg : DOUBLE) : HRESULT × compiler_ctx_t :=
  let dbl := heap_alloc ctx
  if !dbl.1 then (E_OUTOFMEMORY, dbl.2) else
  let instr := push_instr dbl.2 op
  if instr.1 = UINT_MAX then (E_OUTOFMEMORY, instr.2) else
  (S_OK, set_arg1 instr.2 instr.1 (.dbl arg))

def push_instr_uint (ctx : compiler_ctx_t) (op : jsop_t) (arg : Nat) : HRESULT × compiler_ctx_t :=
  let instr := push_instr ctx op
  if instr.1 = UINT_MAX then (E_OUTOFMEMORY, instr.2) else
  (S_OK, set_arg1 instr.2 instr.1 (.uint arg))

/-- The idiom `push_instr(ctx, op) == -1 ? E_OUTOFMEMORY : S_OK`, with the state after the push. -/
def push_instr_hres (ctx : compiler_ctx_t) (op : jsop_t) : HRESULT × compiler_ctx_t :=
  let instr := push_instr ctx op
  (if instr.1 = UINT_MAX then E_OUTOFMEMORY else S_OK, instr.2)

def alloc_label (ctx : compiler_ctx_t) : Nat × compiler_ctx_t :=
  let grown : Bool × compiler_ctx_t :=
    if ctx.labels_size = 0 then
      let a := heap_alloc ctx
      if a.1 then (true, { a.2 with labels_size := 8 }) else (false, a.2)
    else if ctx.labels_size = ctx.labels_cnt then
      let a := heap_alloc ctx
      if a.1 then (true, { a.2 with labels_size := a.2.labels_size * 2 }) else (false, a.2)
    else (true, ctx)
  if !grown.1 then (UINT_MAX, grown.2) else
  (grown.2.labels_cnt ||| LABEL_FLAG, { grown.2 with labels_cnt := grown.2.labels_cnt + 1 })

def label_set_addr (ctx : compiler_ctx_t) (label : Nat) : compiler_ctx_t :=
  { ctx with labels := Function.update ctx.labels (label &&& (LABEL_FLAG - 1)) ctx.code_off,
             label_log := (label &&& (LABEL_FLAG - 1)) :: ctx.label_log }

def is_memberid_expr (type : expression_type_t) : Bool :=
  type = .EXPR_IDENT || type = .EXPR_MEMBER || type = .EXPR_ARRAY

def compile_interp_fallback (ctx : compiler_ctx_t) (stat : statement_t) : HRESULT × compiler_ctx_t :=
  if ctx.no_fallback then (E_NOTIMPL, ctx) else
  let instr := push_instr ctx OP_tree
  if instr.1 = UINT_MAX then (E_OUTOFMEMORY, instr.2) else
  (S_OK, set_arg1 instr.2 instr.1 (.stat stat))

/-- Modelled from the spec: `int_to_bstr` of the run time (not part of the sources at hand), which
allocates the canonical decimal string of an integer. -/
def int_to_bstr (ctx : compiler_ctx_t) (lval : Int) : Option String × compiler_ctx_t :=
  let a := heap_alloc ctx
  if a.1 then (some (toString lval), a.2) else (none, a.2)

/-- Modelled from the spec: `double_to_bstr` of the run time (not part of the sources at hand),
which allocates the canonical string of a double. -/
def double_to_bstr (ctx : compiler_ctx_t) (dval : DOUBLE) : HRESULT × Option String × compiler_ctx_t :=
  let a := heap_alloc ctx
  if a.1 then (S_OK, some dval.canon, a.2) else (E_OUTOFMEMORY, none, a.2)

def literal_as_bstr (ctx : compiler_ctx_t) (literal : literal_t) :
    HRESULT × Option String × compiler_ctx_t :=
  match literal with
  | .LT_STRING wstr =>
    let str := compiler_alloc_bstr ctx wstr
    (if str.1.isSome then S_OK else E_OUTOFMEMORY, str.1, str.2)
  | .LT_INT lval =>
    let str := int_to_bstr ctx lval
    (if str.1.isSome then S_OK else E_OUTOFMEMORY, str.1, str.2)
  | .LT_DOUBLE dval => double_to_bstr ctx dval
  | _ => (E_OUTOFMEMORY, none, ctx)

def compile_literal (ctx : compiler_ctx_t) (literal : literal_t) : HRESULT × compiler_ctx_t :=
  match literal with
  | .LT_BOOL bval => push_instr_int ctx OP_bool bval
  | .LT_DOUBLE dval => push_instr_double ctx OP_double dval
  | .LT_INT lval => push_instr_int ctx OP_int lval
  | .LT_NULL =>
    let instr := push_instr ctx OP_null
    (unsigned_to_HRESULT instr.1, instr.2)
  | .LT_STRING wstr => push_instr_str ctx OP_str wstr
  | .LT_REGEXP str str_len flags =>
    let a := heap_alloc ctx
    if !a.1 then (E_OUTOFMEMORY, a.2) else
    let instr := push_instr a.2 OP_regexp
    if instr.1 = UINT_MAX then (E_OUTOFMEMORY, instr.2) else
    (S_OK, set_arg2 (set_arg1 instr.2 instr.1 (.str (str.take str_len))) instr.1 (.lng flags))

def compile_function_expression (ctx : compiler_ctx_t) (expr : function_expression_t) :
    HRESULT × compiler_ctx_t :=
  match expr.identifier with
  | some identifier => push_instr_bstr ctx OP_ident identifier
  | none =>
    let instr := push_instr ctx OP_func
    if instr.1 = UINT_MAX then (E_OUTOFMEMORY, instr.2) else
    (S_OK, set_arg1 instr.2 instr.1 (.func expr))

/-! ## Expressions

`compile_expression(ctx, e)` is `compile_expression_noret(ctx, e, NULL)`; inside the recursive
block the call is written out as `(compile_expression_noret ctx e none).1`.  The out-parameter
`no_ret` is `none` for a NULL pointer and `some b` for a pointer to a cell holding `b`; the
function returns the cell afterwards. -/

/-- The loop `for(i=0; i < n; i++) if(push_instr(ctx, OP_undefined) == -1) return E_OUTOFMEMORY;`. -/
def push_undefined_loop (ctx : compiler_ctx_t) : Nat → HRESULT × compiler_ctx_t
  | 0 => (S_OK, ctx)
  | n + 1 =>
    let instr := push_instr ctx OP_undefined
    if instr.1 = UINT_MAX then (E_OUTOFMEMORY, instr.2) else
    push_undefined_loop instr.2 n

mutual
def compile_expression_noret (ctx : compiler_ctx_t) :
    expression_t → Option Bool → (HRESULT × compiler_ctx_t) × Option Bool
  | .binary type expr, no_ret =>
    match type with
    | .EXPR_ADD => (compile_binary_expression ctx expr OP_add, no_ret)
    | .EXPR_AND => (compile_logical_expression ctx expr OP_cnd_z, no_ret)
    | .EXPR_ARRAY => (compile_binary_expression ctx expr OP_array, no_ret)
    | .EXPR_ASSIGN => (compile_assign_expression ctx expr OP_LAST, no_ret)
    | .EXPR_ASSIGNADD => (compile_assign_expression ctx expr OP_add, no_ret)
    | .EXPR_ASSIGNAND => (compile_assign_expression ctx expr OP_and, no_ret)
    | .EXPR_ASSIGNSUB => (compile_assign_expression ctx expr OP_sub, no_ret)
    | .EXPR_ASSIGNMUL => (compile_assign_expression ctx expr OP_mul, no_ret)
    | .EXPR_ASSIGNDIV => (compile_assign_expression ctx expr OP_div, no_ret)
    | .EXPR_ASSIGNMOD => (compile_assign_expression ctx expr OP_mod, no_ret)
    | .EXPR_ASSIGNOR => (compile_assign_expression ctx expr OP_or, no_ret)
    | .EXPR_ASSIGNLSHIFT => (compile_assign_expression ctx expr OP_lshift, no_ret)
    | .EXPR_ASSIGNRSHIFT => (compile_assign_expression ctx expr OP_rshift, no_ret)
    | .EXPR_ASSIGNRRSHIFT => (compile_assign_expression ctx expr OP_rshift2, no_ret)
    | .EXPR_ASSIGNXOR => (compile_assign_expression ctx expr OP_xor, no_ret)
    | .EXPR_BAND => (compile_binary_expression ctx expr OP_and, no_ret)
    | .EXPR_BOR => (compile_binary_expression ctx expr OP_or, no_ret)
    | .EXPR_COMMA => (compile_comma_expression ctx expr, no_ret)
    | .EXPR_DIV => (compile_binary_expression ctx expr OP_div, no_ret)
    | .EXPR_EQ => (compile_binary_expression ctx expr OP_eq, no_ret)
    | .EXPR_EQEQ => (compile_binary_expression ctx expr OP_eq2, no_ret)
    | .EXPR_GREATER => (compile_binary_expression ctx expr OP_gt, no_ret)
    | .EXPR_GREATEREQ => (compile_binary_expression ctx expr OP_gteq, no_ret)
    | .EXPR_IN => (compile_binary_expression ctx expr OP_in, no_ret)
    | .EXPR_INSTANCEOF => (compile_binary_expression ctx expr OP_instanceof, no_ret)
    | .EXPR_LESS => (compile_binary_expression ctx expr OP_lt, no_ret)
    | .EXPR_LESSEQ => (compile_binary_expression ctx expr OP_lteq, no_ret)
    | .EXPR_LSHIFT => (compile_binary_expression ctx expr OP_lshift, no_ret)
    | .EXPR_MOD => (compile_binary_expression ctx expr OP_mod, no_ret)
    | .EXPR_MUL => (compile_binary_expression ctx expr OP_mul, no_ret)
    | .EXPR_NOTEQ => (compile_binary_expression ctx expr OP_neq, no_ret)
    | .EXPR_NOTEQEQ => (compile_binary_expression ctx expr OP_neq2, no_ret)
    | .EXPR_OR => (compile_logical_expression ctx expr OP_cnd_nz, no_ret)
    | .EXPR_RSHIFT => (compile_binary_expression ctx expr OP_rshift, no_ret)
    | .EXPR_RRSHIFT => (compile_binary_expression ctx expr OP_rshift2, no_ret)
    | .EXPR_SUB => (compile_binary_expression ctx expr OP_sub, no_ret)
    | .EXPR_BXOR => (compile_binary_expression ctx expr OP_xor, no_ret)
  | .unary type expr, no_ret =>
    match type with
    | .EXPR_BITNEG => (compile_unary_expression ctx expr OP_bneg, no_ret)
    | .EXPR_DELETE => (compile_delete_expression ctx expr, no_ret)
    | .EXPR_LOGNEG => (compile_unary_expression ctx expr OP_neg, no_ret)
    | .EXPR_MINUS => (compile_unary_expression ctx expr OP_minus, no_ret)
    | .EXPR_PLUS => (compile_unary_expression ctx expr OP_tonum, no_ret)
    | .EXPR_POSTDEC => (compile_increment_expression ctx expr OP_postinc (-1), no_ret)
    | .EXPR_POSTINC => (compile_increment_expression ctx expr OP_postinc 1, no_ret)
    | .EXPR_PREDEC => (compile_increment_expression ctx expr OP_preinc (-1), no_ret)
    | .EXPR_PREINC => (compile_increment_expression ctx expr OP_preinc 1, no_ret)
    | .EXPR_TYPEOF => (compile_typeof_expression ctx expr, no_ret)
    | .EXPR_VOID => (compile_unary_expression ctx expr OP_void, no_ret)
  | .EXPR_CALL expr, no_ret => compile_call_expression ctx expr no_ret
  | .EXPR_COND expr, no_ret => (compile_conditional_expression ctx expr, no_ret)
  | .EXPR_FUNC expr, no_ret => (compile_function_expression ctx expr, no_ret)
  | .EXPR_IDENT expr, no_ret => (push_instr_bstr ctx OP_ident expr.identifier, no_ret)
  | .EXPR_LITERAL expr, no_ret => (compile_literal ctx expr.literal, no_ret)
  | .EXPR_MEMBER expr, no_ret => (compile_member_expression ctx expr, no_ret)
  | .EXPR_NEW expr, no_ret => (compile_new_expression ctx expr, no_ret)
  | .EXPR_PROPVAL expr, no_ret => (compile_object_literal ctx expr, no_ret)
  | .EXPR_ARRAYLIT expr, no_ret => (compile_array_literal ctx expr, no_ret)
  | .EXPR_THIS, no_ret => (push_instr_hres ctx OP_this, no_ret)

def compile_binary_expression (ctx : compiler_ctx_t) :
    binary_expression_t → jsop_t → HRESULT × compiler_ctx_t
  | .mk expression1 expression2, op =>
    let hres := (compile_expression_noret ctx expression1 none).1
    if FAILED hres.1 then hres else
    let hres := (compile_expression_noret hres.2 expression2 none).1
    if FAILED hres.1 then hres else
    push_instr_hres hres.2 op

def compile_unary_expression (ctx : compiler_ctx_t) :
    unary_expression_t → jsop_t → HRESULT × compiler_ctx_t
  | .mk expression, op =>
    let hres := (compile_expression_noret ctx expression none).1
    if FAILED hres.1 then hres else
    push_instr_hres hres.2 op

def compile_member_expression (ctx : compiler_ctx_t) :
    member_expression_t → HRESULT × compiler_ctx_t
  | .mk expression identifier =>
    let hres := (compile_expression_noret ctx expression none).1
    if FAILED hres.1 then hres else
    push_instr_bstr hres.2 OP_member identifier

def compile_memberid_expression (ctx : compiler_ctx_t) :
    expression_t → Nat → HRESULT × compiler_ctx_t
  | .EXPR_IDENT ident_expr, flags =>
    push_instr_bstr_uint ctx OP_identid ident_expr.identifier flags
  | .binary type (.mk expression1 expression2), flags =>
    if type = .EXPR_ARRAY then
      let hres := (compile_expression_noret ctx expression1 none).1
      if FAILED hres.1 then hres else
      let hres := (compile_expression_noret hres.2 expression2 none).1
      if FAILED hres.1 then hres else
      push_instr_uint hres.2 OP_memberid flags
    else (S_OK, ctx)
  | .EXPR_MEMBER (.mk expression identifier), flags =>
    let hres := (compile_expression_noret ctx expression none).1
    if FAILED hres.1 then hres else
    let hres := push_instr_str hres.2 OP_str identifier
    if FAILED hres.1 then hres else
    push_instr_uint hres.2 OP_memberid flags
  | _, _ => (S_OK, ctx)

def compile_increment_expression (ctx : compiler_ctx_t) :
    unary_expression_t → jsop_t → Int → HRESULT × compiler_ctx_t
  | .mk expression, op, n =>
    if !is_memberid_expr expression.type then
      let hres := (compile_expression_noret ctx expression none).1
      if FAILED hres.1 then hres else
      push_instr_uint hres.2 OP_throw_ref JS_E_ILLEGAL_ASSIGN
    else
      let hres := compile_memberid_expression ctx expression fdexNameEnsure
      if FAILED hres.1 then hres else
      push_instr_int hres.2 op n

def compile_comma_expression (ctx : compiler_ctx_t) :
    binary_expression_t → HRESULT × compiler_ctx_t
  | .mk expression1 expression2 =>
    let hres := (compile_expression_noret ctx expression1 none).1
    if FAILED hres.1 then hres else
    let instr := push_instr hres.2 OP_pop
    if instr.1 = UINT_MAX then (E_OUTOFMEMORY, instr.2) else
    (compile_expression_noret instr.2 expression2 none).1

def compile_logical_expression (ctx : compiler_ctx_t) :
    binary_expression_t → jsop_t → HRESULT × compiler_ctx_t
  | .mk expression1 expression2, op =>
    let hres := (compile_expression_noret ctx expression1 none).1
    if FAILED hres.1 then hres else
    let instr := push_instr hres.2 op
    if instr.1 = UINT_MAX then (E_OUTOFMEMORY, instr.2) else
    let hres := (compile_expression_noret instr.2 expression2 none).1
    if FAILED hres.1 then hres else
    (S_OK, set_arg1 hres.2 instr.1 (.uint hres.2.code_off))

def compile_conditional_expression (ctx : compiler_ctx_t) :
    conditional_expression_t → HRESULT × compiler_ctx_t
  | .mk expression true_expression false_expression =>
    let hres := (compile_expression_noret ctx expression none).1
    if FAILED hres.1 then hres else
    let jmp_false := push_instr hres.2 OP_cnd_z
    if jmp_false.1 = UINT_MAX then (E_OUTOFMEMORY, jmp_false.2) else
    let hres := (compile_expression_noret jmp_false.2 true_expression none).1
    if FAILED hres.1 then hres else
    let jmp_end := push_instr hres.2 OP_jmp
    if jmp_end.1 = UINT_MAX then (E_OUTOFMEMORY, jmp_end.2) else
    let ctx1 := set_arg1 jmp_end.2 jmp_false.1 (.uint jmp_end.2.code_off)
    let instr := push_instr ctx1 OP_pop
    if instr.1 = UINT_MAX then (E_OUTOFMEMORY, instr.2) else
    let hres := (compile_expression_noret instr.2 false_expression none).1
    if FAILED hres.1 then hres else
    (S_OK, set_arg1 hres.2 jmp_end.1 (.uint hres.2.code_off))

/-- The loop over the argument list shared by `compile_new_expression` and
`compile_call_expression`: the result of the failing argument, or the number of arguments. -/
def compile_argument_list (ctx : compiler_ctx_t) :
    argument_t → Nat → (HRESULT × compiler_ctx_t) × Nat
  | .NULL, arg_cnt => ((S_OK, ctx), arg_cnt)
  | .mk expr next, arg_cnt =>
    let hres := (compile_expression_noret ctx expr none).1
    if FAILED hres.1 then (hres, arg_cnt) else
    compile_argument_list hres.2 next (arg_cnt + 1)

def compile_new_expression (ctx : compiler_ctx_t) :
    call_expression_t → HRESULT × compiler_ctx_t
  | .mk expression argument_list =>
    let hres := (compile_expression_noret ctx expression none).1
    if FAILED hres.1 then hres else
    let args := compile_argument_list hres.2 argument_list 0
    if FAILED args.1.1 then args.1 else
    push_instr_int args.1.2 OP_new args.2

def compile_call_expression (ctx : compiler_ctx_t) :
    call_expression_t → Option Bool → (HRESULT × compiler_ctx_t) × Option Bool
  | .mk expression argument_list, no_ret =>
    let op := if is_memberid_expr expression.type then OP_call_member else OP_call
    let hres :=
      if is_memberid_expr expression.type then compile_memberid_expression ctx expression 0
      else (compile_expression_noret ctx expression none).1
    if FAILED hres.1 then (hres, no_ret) else
    let args := compile_argument_list hres.2 argument_list 0
    if FAILED args.1.1 then (args.1, no_ret) else
    let instr := push_instr args.1.2 op
    if instr.1 = UINT_MAX then ((E_OUTOFMEMORY, instr.2), no_ret) else
    let ctx1 := set_arg1 instr.2 instr.1 (.uint args.2)
    let ctx2 := set_arg2 ctx1 instr.1 (.lng (if no_ret.isNone then 1 else 0))
    ((S_OK, ctx2), if no_ret.isSome then some true else no_ret)

def compile_delete_expression (ctx : compiler_ctx_t) :
    unary_expression_t → HRESULT × compiler_ctx_t
  | .mk expression =>
    if expression.type = .EXPR_ARRAY then
      match expression with
      | .binary _ (.mk expression1 expression2) =>
        let hres := (compile_expression_noret ctx expression1 none).1
        if FAILED hres.1 then hres else
        let hres := (compile_expression_noret hres.2 expression2 none).1
        if FAILED hres.1 then hres else
        push_instr_hres hres.2 OP_delete
      | _ => (S_OK, ctx)
    else if expression.type = .EXPR_MEMBER then
      match expression with
      | .EXPR_MEMBER (.mk member_expression identifier) =>
        let hres := (compile_expression_noret ctx member_expression none).1
        if FAILED hres.1 then hres else
        let hres := push_instr_str hres.2 OP_str identifier
        if FAILED hres.1 then hres else
        push_instr_hres hres.2 OP_delete
      | _ => (S_OK, ctx)
    else if expression.type = .EXPR_IDENT then
      match expression with
      | .EXPR_IDENT ident_expr => push_instr_bstr ctx OP_delete_ident ident_expr.identifier
      | _ => (S_OK, ctx)
    else
      let hres := (compile_expression_noret ctx expression none).1
      if FAILED hres.1 then hres else
      push_instr_uint_str hres.2 OP_throw_type JS_E_INVALID_DELETE "FIXME"

def compile_assign_expression (ctx : compiler_ctx_t) :
    binary_expression_t → jsop_t → HRESULT × compiler_ctx_t
  | .mk expression1 expression2, op =>
    if !is_memberid_expr expression1.type then
      let hres := (compile_expression_noret ctx expression1 none).1
      if FAILED hres.1 then hres else
      let hres := (compile_expression_noret hres.2 expression2 none).1
      if FAILED hres.1 then hres else
      let hres := if op ≠ OP_LAST then push_instr_hres hres.2 op else (S_OK, hres.2)
      if hres.1 = E_OUTOFMEMORY then hres else
      push_instr_uint hres.2 OP_throw_ref JS_E_ILLEGAL_ASSIGN
    else
      let hres := compile_memberid_expression ctx expression1 fdexNameEnsure
      if FAILED hres.1 then hres else
      let hres := if op ≠ OP_LAST then push_instr_hres hres.2 OP_refval else (S_OK, hres.2)
      if hres.1 = E_OUTOFMEMORY then hres else
      let hres := (compile_expression_noret hres.2 expression2 none).1
      if FAILED hres.1 then hres else
      let hres := if op ≠ OP_LAST then push_instr_hres hres.2 op else (S_OK, hres.2)
      if hres.1 = E_OUTOFMEMORY then hres else
      push_instr_hres hres.2 OP_assign

def compile_typeof_expression (ctx : compiler_ctx_t) :
    unary_expression_t → HRESULT × compiler_ctx_t
  | .mk expression =>
    if is_memberid_expr expression.type then
      if expression.type = .EXPR_IDENT then
        match expression with
        | .EXPR_IDENT ident_expr => push_instr_str ctx OP_typeofident ident_expr.identifier
        | _ => (S_OK, ctx)
      else
        let hres := compile_memberid_expression ctx expression 0
        if FAILED hres.1 then hres else
        push_instr_hres hres.2 OP_typeofid
    else
      let hres := (compile_expression_noret ctx expression none).1
      if FAILED hres.1 then hres else
      push_instr_hres hres.2 OP_typeof

/-- The loop of `compile_array_literal` over the element list, with the running `elem_cnt`. -/
def compile_array_elements (ctx : compiler_ctx_t) :
    array_element_t → Nat → (HRESULT × compiler_ctx_t) × Nat
  | .NULL, elem_cnt => ((S_OK, ctx), elem_cnt)
  | .mk elision expr next, elem_cnt =>
    let hres := push_undefined_loop ctx elision
    if FAILED hres.1 then (hres, elem_cnt + (elision + 1)) else
    let hres := (compile_expression_noret hres.2 expr none).1
    if FAILED hres.1 then (hres, elem_cnt + (elision + 1)) else
    compile_array_elements hres.2 next (elem_cnt + (elision + 1))

def compile_array_literal (ctx : compiler_ctx_t) :
    array_literal_expression_t → HRESULT × compiler_ctx_t
  | .mk element_list length =>
    let elems := compile_array_elements ctx element_list length
    if FAILED elems.1.1 then elems.1 else
    let hres := push_undefined_loop elems.1.2 length
    if FAILED hres.1 then hres else
    push_instr_uint hres.2 OP_carray elems.2

/-- The loop of `compile_object_literal` over the property list. -/
def compile_property_list (ctx : compiler_ctx_t) : prop_val_t → HRESULT × compiler_ctx_t
  | .NULL => (S_OK, ctx)
  | .mk name value next =>
    let str := literal_as_bstr ctx name
    if FAILED str.1 then (str.1, str.2.2) else
    let hres := (compile_expression_noret str.2.2 value none).1
    if FAILED hres.1 then hres else
    let instr := push_instr hres.2 OP_obj_prop
    if instr.1 = UINT_MAX then (E_OUTOFMEMORY, instr.2) else
    compile_property_list (set_arg1 instr.2 instr.1 (.bstr str.2.1)) next

def compile_object_literal (ctx : compiler_ctx_t) :
    property_value_expression_t → HRESULT × compiler_ctx_t
  | .mk property_list =>
    let instr := push_instr ctx OP_new_obj
    if instr.1 = UINT_MAX then (E_OUTOFMEMORY, instr.2) else
    compile_property_list instr.2 property_list
end

def compile_expression (ctx : compiler_ctx_t) (expr : expression_t) : HRESULT × compiler_ctx_t :=
  (compile_expression_noret ctx expr none).1

/-! ## Statements -/

def statement_list.is_null : statement_list → Bool
  | .NULL => true
  | .node _ _ _ => false

/-- Comparison of two statement pointers. -/
def statement_list.ptr_eq : statement_list → statement_list → Bool
  | .NULL, .NULL => true
  | .node a _ _, .node b _ _ => a = b
  | _, _ => false

def case_clausule_t.is_null : case_clausule_t → Bool
  | .NULL => true
  | .mk _ _ _ => false

/-- The field `iter->stat` of a clause (read only when `iter` is not NULL). -/
def case_clausule_t.stat : case_clausule_t → statement_list
  | .NULL => .NULL
  | .mk _ stat _ => stat

def compile_variable_list (ctx : compiler_ctx_t) :
    variable_declaration_t → HRESULT × compiler_ctx_t
  | .NULL => (S_OK, ctx)
  | .mk identifier expr next =>
    match expr with
    | none => compile_variable_list ctx next
    | some e =>
      let hres := compile_expression ctx e
      if FAILED hres.1 then hres else
      let hres := push_instr_bstr hres.2 OP_var_set identifier
      if FAILED hres.1 then hres else
      compile_variable_list hres.2 next

def compile_var_statement (ctx : compiler_ctx_t) (stat : var_statement_t) :
    HRESULT × compiler_ctx_t :=
  let hres := compile_variable_list ctx stat.variable_list
  if FAILED hres.1 then hres else
  push_instr_hres hres.2 OP_undefined

/-- The C operator `!` applied to an `unsigned`. -/
def logical_not (n : Nat) : Int := if n = 0 then 1 else 0

def compile_expression_statement (ctx : compiler_ctx_t) (stat : expression_statement_t) :
    HRESULT × compiler_ctx_t :=
  let hres := compile_expression_noret ctx stat.expr (some false)
  if FAILED hres.1.1 then hres.1 else
  if hres.2 = some true then
    let instr := push_instr hres.1.2 OP_undefined
    if logical_not instr.1 = -1 then (E_OUTOFMEMORY, instr.2) else
    (S_OK, instr.2)
  else (S_OK, hres.1.2)

/-- The first loop of `pop_to_stat`: walks the frames from the innermost one to the frame at
position `stat_ctx`; a walk past the outermost frame (a NULL dereference in C) stops. -/
def pop_to_stat_frames (ctx : compiler_ctx_t) :
    List statement_ctx_t → Nat → Nat → (HRESULT × compiler_ctx_t) × Nat
  | [], _, stack_pop => ((S_OK, ctx), stack_pop)
  | iter :: next, stat_ctx, stack_pop =>
    let hres := if iter.using_scope then push_instr_hres ctx OP_pop_scope else (S_OK, ctx)
    if hres.1 = E_OUTOFMEMORY then (hres, stack_pop) else
    let hres := if iter.using_except then push_instr_hres hres.2 OP_pop_except else (S_OK, hres.2)
    if hres.1 = E_OUTOFMEMORY then (hres, stack_pop) else
    match stat_ctx with
    | 0 => (hres, stack_pop + iter.stack_use)
    | k + 1 => pop_to_stat_frames hres.2 next k (stack_pop + iter.stack_use)

/-- The second loop of `pop_to_stat`: `while(stack_pop--) push_instr(ctx, OP_pop)`. -/
def pop_to_stat_pops (ctx : compiler_ctx_t) : Nat → HRESULT × compiler_ctx_t
  | 0 => (S_OK, ctx)
  | stack_pop + 1 =>
    let instr := push_instr ctx OP_pop
    if instr.1 = UINT_MAX then (E_OUTOFMEMORY, instr.2) else
    pop_to_stat_pops instr.2 stack_pop

/-- The target frame `stat_ctx` is given by its position in `ctx->stat_ctx`. -/
def pop_to_stat (ctx : compiler_ctx_t) (stat_ctx : Nat) : HRESULT × compiler_ctx_t :=
  let frames := pop_to_stat_frames ctx ctx.stat_ctx stat_ctx 0
  if FAILED frames.1.1 then frames.1 else
  pop_to_stat_pops frames.1.2 frames.2

/-- The search `for(pop_ctx = ctx->stat_ctx; pop_ctx; pop_ctx = pop_ctx->next)` of
`compile_continue_statement`: the position of the frame found and the frame. -/
def find_continue_ctx : List statement_ctx_t → Nat → Option (Nat × statement_ctx_t)
  | [], _ => none
  | pop_ctx :: next, k =>
    if pop_ctx.continue_label ≠ UINT_MAX then some (k, pop_ctx) else find_continue_ctx next (k + 1)

/-- The search `for(pop_ctx = ctx->stat_ctx; pop_ctx; pop_ctx = pop_ctx->next)` of
`compile_break_statement`: the position of the frame found and the frame. -/
def find_break_ctx : List statement_ctx_t → Nat → Option (Nat × statement_ctx_t)
  | [], _ => none
  | pop_ctx :: next, k =>
    if pop_ctx.break_label ≠ UINT_MAX then some (k, pop_ctx) else find_break_ctx next (k + 1)

/-- The assignment `ctx->no_fallback = v`. -/
def set_no_fallback (ctx : compiler_ctx_t) (v : Bool) : compiler_ctx_t :=
  { ctx with no_fallback := v }

/-- The assignment `ctx->code_off = off`. -/
def set_code_off (ctx : compiler_ctx_t) (off : Nat) : compiler_ctx_t :=
  { ctx with code_off := off }

/-- The assignment `stat->eval = eval`. -/
def set_eval (ctx : compiler_ctx_t) (stat : statement_t) (eval : statement_eval_t) :
    compiler_ctx_t :=
  { ctx with stat_eval := (stat, eval) :: ctx.stat_eval }

def compile_continue_statement (ctx : compiler_ctx_t) (stat : branch_statement_t) :
    HRESULT × compiler_ctx_t :=
  match find_continue_ctx ctx.stat_ctx 0 with
  | none =>
    compile_interp_fallback (set_eval ctx (.STAT_CONTINUE stat) .continue_statement_eval)
      (.STAT_CONTINUE stat)
  | some pop_ctx =>
    if stat.identifier.isSome then
      compile_interp_fallback (set_eval ctx (.STAT_CONTINUE stat) .continue_statement_eval)
        (.STAT_CONTINUE stat)
    else
      let hres := pop_to_stat ctx pop_ctx.1
      if FAILED hres.1 then hres else
      let instr := push_instr hres.2 OP_undefined
      if instr.1 = UINT_MAX then (E_OUTOFMEMORY, instr.2) else
      push_instr_uint instr.2 OP_jmp pop_ctx.2.continue_label

def compile_break_statement (ctx : compiler_ctx_t) (stat : branch_statement_t) :
    HRESULT × compiler_ctx_t :=
  match find_break_ctx ctx.stat_ctx 0 with
  | none =>
    compile_interp_fallback (set_eval ctx (.STAT_BREAK stat) .break_statement_eval)
      (.STAT_BREAK stat)
  | some pop_ctx =>
    if stat.identifier.isSome then
      compile_interp_fallback (set_eval ctx (.STAT_BREAK stat) .break_statement_eval)
        (.STAT_BREAK stat)
    else
      let hres := pop_to_stat ctx pop_ctx.1
      if FAILED hres.1 then hres else
      let instr := push_instr hres.2 OP_undefined
      if instr.1 = UINT_MAX then (E_OUTOFMEMORY, instr.2) else
      push_instr_uint instr.2 OP_jmp pop_ctx.2.break_label

def compile_throw_statement (ctx : compiler_ctx_t) (stat : expression_statement_t) :
    HRESULT × compiler_ctx_t :=
  let hres := compile_expression ctx stat.expr
  if FAILED hres.1 then hres else
  push_instr_hres hres.2 OP_throw

/-- The loop `for(iter = stat->case_list; iter; iter = iter->next) if(iter->expr) case_cnt++;`. -/
def case_count : case_clausule_t → Nat
  | .NULL => 0
  | .mk expr _ next => (if expr.isSome then 1 else 0) + case_count next

/-- The variables of the loop of `compile_switch_statement` that lowers the clause expressions. -/
structure case_loop_t where
  hres : HRESULT
  ctx : compiler_ctx_t
  case_jmps : Nat → Nat
  i : Nat
  have_default : Bool

/-- The loop of `compile_switch_statement` over the clause expressions. -/
def compile_case_exprs : case_loop_t → case_clausule_t → case_loop_t
  | v, .NULL => v
  | v, .mk expr _ next =>
    match expr with
    | none => compile_case_exprs { v with have_default := true } next
    | some e =>
      let hres := compile_expression v.ctx e
      if FAILED hres.1 then { v with hres := hres.1, ctx := hres.2 } else
      let instr := push_instr hres.2 OP_case
      let case_jmps := Function.update v.case_jmps v.i instr.1
      if instr.1 = UINT_MAX then
        { v with hres := E_OUTOFMEMORY, ctx := instr.2, case_jmps := case_jmps }
      else
        compile_case_exprs
          { v with hres := hres.1, ctx := instr.2, case_jmps := case_jmps, i := v.i + 1 } next

/-- The variables of the loops of `compile_switch_statement` that lay out the clause bodies;
`returned` tells that the routine returned from inside the loop, with `hres`. -/
structure case_body_t where
  hres : HRESULT
  ctx : compiler_ctx_t
  i : Nat
  returned : Bool

/-- The prologue of `compile_statement`: `if(stat_ctx) { stat_ctx->next = ctx->stat_ctx;
ctx->stat_ctx = stat_ctx; }`. -/
def push_stat_ctx (ctx : compiler_ctx_t) (stat_ctx : Option statement_ctx_t) : compiler_ctx_t :=
  match stat_ctx with
  | some frame => { ctx with stat_ctx := frame :: ctx.stat_ctx }
  | none => ctx

/-- The epilogue of `compile_statement`: `if(stat_ctx) ctx->stat_ctx = stat_ctx->next;`, where
`stat_ctx->next` is the context stack at entry (that of `entry`), and `return hres`. -/
def pop_stat_ctx (entry : compiler_ctx_t) (stat_ctx : Option statement_ctx_t)
    (hres : HRESULT × compiler_ctx_t) : HRESULT × compiler_ctx_t :=
  match stat_ctx with
  | some _ => (hres.1, { hres.2 with stat_ctx := entry.stat_ctx })
  | none => hres

mutual
def compile_statement (ctx : compiler_ctx_t) (stat_ctx : Option statement_ctx_t) :
    statement_t → HRESULT × compiler_ctx_t
  | .STAT_BLOCK (.mk stat_list) =>
    pop_stat_ctx ctx stat_ctx (compile_block_statement (push_stat_ctx ctx stat_ctx) stat_list)
  | .STAT_BREAK stat =>
    pop_stat_ctx ctx stat_ctx (compile_break_statement (push_stat_ctx ctx stat_ctx) stat)
  | .STAT_CONTINUE stat =>
    pop_stat_ctx ctx stat_ctx (compile_continue_statement (push_stat_ctx ctx stat_ctx) stat)
  | .STAT_EMPTY =>
    pop_stat_ctx ctx stat_ctx (push_instr_hres (push_stat_ctx ctx stat_ctx) OP_undefined)
  | .STAT_EXPR stat =>
    pop_stat_ctx ctx stat_ctx (compile_expression_statement (push_stat_ctx ctx stat_ctx) stat)
  | .STAT_FOR stat =>
    pop_stat_ctx ctx stat_ctx (compile_for_statement (push_stat_ctx ctx stat_ctx) stat)
  | .STAT_FORIN stat =>
    pop_stat_ctx ctx stat_ctx (compile_forin_statement (push_stat_ctx ctx stat_ctx) stat)
  | .STAT_IF stat =>
    pop_stat_ctx ctx stat_ctx (compile_if_statement (push_stat_ctx ctx stat_ctx) stat)
  | .STAT_LABEL _ =>
    pop_stat_ctx ctx stat_ctx (push_instr_hres (push_stat_ctx ctx stat_ctx) OP_label)
  | .STAT_SWITCH stat =>
    pop_stat_ctx ctx stat_ctx (compile_switch_statement (push_stat_ctx ctx stat_ctx) stat)
  | .STAT_THROW stat =>
    pop_stat_ctx ctx stat_ctx (compile_throw_statement (push_stat_ctx ctx stat_ctx) stat)
  | .STAT_TRY stat =>
    pop_stat_ctx ctx stat_ctx (compile_try_statement (push_stat_ctx ctx stat_ctx) stat)
  | .STAT_VAR stat =>
    pop_stat_ctx ctx stat_ctx (compile_var_statement (push_stat_ctx ctx stat_ctx) stat)
  | .STAT_WHILE stat =>
    pop_stat_ctx ctx stat_ctx (compile_while_statement (push_stat_ctx ctx stat_ctx) stat)
  | .STAT_WITH stat =>
    pop_stat_ctx ctx stat_ctx (compile_with_statement (push_stat_ctx ctx stat_ctx) stat)
  | .STAT_RETURN expr =>
    pop_stat_ctx ctx stat_ctx
      (compile_interp_fallback (push_stat_ctx ctx stat_ctx) (.STAT_RETURN expr))

def compile_block_statement (ctx : compiler_ctx_t) :
    statement_list → HRESULT × compiler_ctx_t
  | .NULL => push_instr_hres ctx OP_undefined
  | .node _ stat next =>
    let hres := compile_statement ctx none stat
    if FAILED hres.1 then hres else
    if next.is_null then (S_OK, hres.2) else
    let instr := push_instr hres.2 OP_pop
    if instr.1 = UINT_MAX then (E_OUTOFMEMORY, instr.2) else
    compile_block_statement instr.2 next

def compile_if_statement (ctx : compiler_ctx_t) : if_statement_t → HRESULT × compiler_ctx_t
  | .mk expr if_stat else_stat =>
    let hres := compile_expression ctx expr
    if FAILED hres.1 then hres else
    let jmp_else := push_instr hres.2 OP_jmp_z
    if jmp_else.1 = UINT_MAX then (E_OUTOFMEMORY, jmp_else.2) else
    let hres := compile_statement jmp_else.2 none if_stat
    if FAILED hres.1 then hres else
    let jmp_end := push_instr hres.2 OP_jmp
    if jmp_end.1 = UINT_MAX then (E_OUTOFMEMORY, jmp_end.2) else
    let ctx1 := set_arg1 jmp_end.2 jmp_else.1 (.uint jmp_end.2.code_off)
    let hres :=
      match else_stat with
      | .node _ stat _ => compile_statement ctx1 none stat
      | .NULL => push_instr_hres ctx1 OP_undefined
    if FAILED hres.1 then hres else
    (S_OK, set_arg1 hres.2 jmp_end.1 (.uint hres.2.code_off))

def compile_while_statement (ctx : compiler_ctx_t) :
    while_statement_t → HRESULT × compiler_ctx_t
  | .mk do_while expr statement =>
    let off_backup := ctx.code_off
    let break_label := alloc_label ctx
    if break_label.1 = UINT_MAX then (E_OUTOFMEMORY, break_label.2) else
    let continue_label := alloc_label break_label.2
    if continue_label.1 = UINT_MAX then (E_OUTOFMEMORY, continue_label.2) else
    let stat_ctx : statement_ctx_t := ⟨0, false, false, break_label.1, continue_label.1⟩
    let head : (HRESULT × compiler_ctx_t) × Nat :=
      if !do_while then
        let instr := push_instr continue_label.2 OP_undefined
        if instr.1 = UINT_MAX then ((E_OUTOFMEMORY, instr.2), 0) else
        let jmp_off := instr.2.code_off
        let hres := compile_expression (label_set_addr instr.2 stat_ctx.continue_label) expr
        if FAILED hres.1 then (hres, jmp_off) else
        let hres := push_instr_uint hres.2 OP_jmp_z stat_ctx.break_label
        if FAILED hres.1 then (hres, jmp_off) else
        (push_instr_hres hres.2 OP_pop, jmp_off)
      else ((S_OK, continue_label.2), continue_label.2.code_off)
    if FAILED head.1.1 then head.1 else
    let jmp_off := head.2
    let prev_no_fallback := head.1.2.no_fallback
    let hres := compile_statement (set_no_fallback head.1.2 true) (some stat_ctx) statement
    let ctx1 := set_no_fallback hres.2 prev_no_fallback
    if hres.1 = E_NOTIMPL then
      compile_interp_fallback
        (set_eval (set_code_off ctx1 off_backup) (.STAT_WHILE (.mk do_while expr statement))
          .while_statement_eval)
        (.STAT_WHILE (.mk do_while expr statement))
    else
    if FAILED hres.1 then (hres.1, ctx1) else
    let tail : HRESULT × compiler_ctx_t :=
      if do_while then
        let hres := compile_expression (label_set_addr ctx1 stat_ctx.continue_label) expr
        if FAILED hres.1 then hres else
        let hres := push_instr_uint hres.2 OP_jmp_z stat_ctx.break_label
        if FAILED hres.1 then hres else
        push_instr_hres hres.2 OP_pop
      else (S_OK, ctx1)
    if FAILED tail.1 then tail else
    let hres := push_instr_uint tail.2 OP_jmp jmp_off
    if FAILED hres.1 then hres else
    (S_OK, label_set_addr hres.2 stat_ctx.break_label)

def compile_for_statement (ctx : compiler_ctx_t) : for_statement_t → HRESULT × compiler_ctx_t
  | .mk variable_list begin_expr expr end_expr statement =>
    let off_backup := ctx.code_off
    let init : HRESULT × compiler_ctx_t :=
      match variable_list, begin_expr with
      | .mk identifier e next, _ => compile_variable_list ctx (.mk identifier e next)
      | .NULL, some begin_expr =>
        let hres := compile_expression_noret ctx begin_expr (some false)
        if FAILED hres.1.1 then hres.1 else
        if hres.2 = some false then push_instr_hres hres.1.2 OP_pop else (S_OK, hres.1.2)
      | .NULL, none => (S_OK, ctx)
    if FAILED init.1 then init else
    let break_label := alloc_label init.2
    if break_label.1 = UINT_MAX then (E_OUTOFMEMORY, break_label.2) else
    let continue_label := alloc_label break_label.2
    if continue_label.1 = UINT_MAX then (E_OUTOFMEMORY, continue_label.2) else
    let stat_ctx : statement_ctx_t := ⟨0, false, false, break_label.1, continue_label.1⟩
    let instr := push_instr continue_label.2 OP_undefined
    if instr.1 = UINT_MAX then (E_OUTOFMEMORY, instr.2) else
    let expr_off := instr.2.code_off
    let test : HRESULT × compiler_ctx_t :=
      match expr with
      | some expr =>
        let hres := compile_expression instr.2 expr
        if FAILED hres.1 then hres else
        push_instr_uint hres.2 OP_jmp_z stat_ctx.break_label
      | none => (S_OK, instr.2)
    if FAILED test.1 then test else
    let instr := push_instr test.2 OP_pop
    if instr.1 = UINT_MAX then (E_OUTOFMEMORY, instr.2) else
    let prev_no_fallback := instr.2.no_fallback
    let hres := compile_statement (set_no_fallback instr.2 true) (some stat_ctx) statement
    let ctx1 := set_no_fallback hres.2 prev_no_fallback
    if hres.1 = E_NOTIMPL then
      compile_interp_fallback
        (set_eval (set_code_off ctx1 off_backup)
          (.STAT_FOR (.mk variable_list begin_expr expr end_expr statement)) .for_statement_eval)
        (.STAT_FOR (.mk variable_list begin_expr expr end_expr statement))
    else
    if FAILED hres.1 then (hres.1, ctx1) else
    let ctx2 := label_set_addr ctx1 stat_ctx.continue_label
    let step : HRESULT × compiler_ctx_t :=
      match end_expr with
      | some end_expr =>
        let hres := compile_expression_noret ctx2 end_expr (some false)
        if FAILED hres.1.1 then hres.1 else
        if hres.2 = some false then push_instr_hres hres.1.2 OP_pop else (S_OK, hres.1.2)
      | none => (S_OK, ctx2)
    if FAILED step.1 then step else
    let hres := push_instr_uint step.2 OP_jmp expr_off
    if FAILED hres.1 then hres else
    (S_OK, label_set_addr hres.2 stat_ctx.break_label)

def compile_forin_statement (ctx : compiler_ctx_t) :
    forin_statement_t → HRESULT × compiler_ctx_t
  | .mk variable_ expr in_expr statement =>
    let off_backup := ctx.code_off
    let init : HRESULT × compiler_ctx_t :=
      match variable_ with
      | .mk identifier e next => compile_variable_list ctx (.mk identifier e next)
      | .NULL => (S_OK, ctx)
    if FAILED init.1 then init else
    let break_label := alloc_label init.2
    if break_label.1 = UINT_MAX then (E_OUTOFMEMORY, break_label.2) else
    let continue_label := alloc_label break_label.2
    if continue_label.1 = UINT_MAX then (E_OUTOFMEMORY, continue_label.2) else
    let stat_ctx : statement_ctx_t := ⟨4, false, false, break_label.1, continue_label.1⟩
    let hres := compile_expression continue_label.2 in_expr
    if FAILED hres.1 then hres else
    let target : (HRESULT × compiler_ctx_t) × Bool :=
      match variable_ with
      | .mk identifier _ _ => (push_instr_bstr_uint hres.2 OP_identid identifier fdexNameEnsure, false)
      | .NULL =>
        if is_memberid_expr expr.type then
          (compile_memberid_expression hres.2 expr fdexNameEnsure, false)
        else
          (push_instr_uint hres.2 OP_throw_ref JS_E_ILLEGAL_ASSIGN, true)
    if FAILED target.1.1 then target.1 else
    if target.2 then (S_OK, target.1.2) else
    let hres := push_instr_int target.1.2 OP_int DISPID_STARTENUM
    if FAILED hres.1 then hres else
    let instr := push_instr hres.2 OP_undefined
    if instr.1 = UINT_MAX then (E_OUTOFMEMORY, instr.2) else
    let hres := push_instr_uint (label_set_addr instr.2 stat_ctx.continue_label) OP_forin
      stat_ctx.break_label
    if FAILED hres.1 then (E_OUTOFMEMORY, hres.2) else
    let prev_no_fallback := hres.2.no_fallback
    let body := compile_statement (set_no_fallback hres.2 true) (some stat_ctx) statement
    let ctx1 := set_no_fallback body.2 prev_no_fallback
    if body.1 = E_NOTIMPL then
      compile_interp_fallback
        (set_eval (set_code_off ctx1 off_backup)
          (.STAT_FORIN (.mk variable_ expr in_expr statement)) .forin_statement_eval)
        (.STAT_FORIN (.mk variable_ expr in_expr statement))
    else
    if FAILED body.1 then (body.1, ctx1) else
    let hres := push_instr_uint ctx1 OP_jmp stat_ctx.continue_label
    if FAILED hres.1 then hres else
    (S_OK, label_set_addr hres.2 stat_ctx.break_label)

def compile_with_statement (ctx : compiler_ctx_t) :
    with_statement_t → HRESULT × compiler_ctx_t
  | .mk expr statement =>
    let stat_ctx : statement_ctx_t := ⟨0, true, false, UINT_MAX, UINT_MAX⟩
    let off_backup := ctx.code_off
    let hres := compile_expression ctx expr
    if FAILED hres.1 then hres else
    let instr := push_instr hres.2 OP_push_scope
    if instr.1 = UINT_MAX then (E_OUTOFMEMORY, instr.2) else
    let prev_no_fallback := instr.2.no_fallback
    let hres := compile_statement (set_no_fallback instr.2 true) (some stat_ctx) statement
    let ctx1 := set_no_fallback hres.2 prev_no_fallback
    if hres.1 = E_NOTIMPL then
      compile_interp_fallback
        (set_eval (set_code_off ctx1 off_backup) (.STAT_WITH (.mk expr statement))
          .with_statement_eval)
        (.STAT_WITH (.mk expr statement))
    else
    if FAILED hres.1 then (hres.1, ctx1) else
    push_instr_hres ctx1 OP_pop_scope

/-- The loop of `compile_switch_statement` over the statements of the clause `iter`, entered with
`stat_iter`; `next` is `iter->next`. -/
def compile_case_statements (ctx : compiler_ctx_t) (stat_ctx : statement_ctx_t)
    (off_backup : Nat) (stat : statement_t) (next : case_clausule_t) (hres : HRESULT) :
    statement_list → HRESULT × compiler_ctx_t × Bool
  | .NULL => (hres, ctx, false)
  | .node addr stat_iter stat_next =>
    if !(next.is_null || !(next.stat.ptr_eq (.node addr stat_iter stat_next))) then
      (hres, ctx, false)
    else
    let prev_no_fallback := ctx.no_fallback
    let hres := compile_statement (set_no_fallback ctx true) (some stat_ctx) stat_iter
    let ctx1 := set_no_fallback hres.2 prev_no_fallback
    if hres.1 = E_NOTIMPL then
      let r := compile_interp_fallback
        (set_eval (set_code_off ctx1 off_backup) stat .switch_statement_eval) stat
      (r.1, r.2, true)
    else
    if FAILED hres.1 then (hres.1, ctx1, false) else
    let pop := if !stat_next.is_null then push_instr_hres ctx1 OP_pop else (S_OK, ctx1)
    if pop.1 = E_OUTOFMEMORY then (E_OUTOFMEMORY, pop.2, false) else
    compile_case_statements pop.2 stat_ctx off_backup stat next hres.1 stat_next

/-- The loop of `compile_switch_statement` over the clauses that patches the jumps and lays out
the bodies. -/
def compile_case_bodies (ctx : compiler_ctx_t) (stat_ctx : statement_ctx_t) (off_backup : Nat)
    (stat : statement_t) (case_jmps : Nat → Nat) (default_jmp : Nat) (i : Nat) (hres : HRESULT) :
    case_clausule_t → case_body_t
  | .NULL => ⟨hres, ctx, i, false⟩
  | .mk expr iter_stat next =>
    let ctx1 := set_arg1 ctx (if expr.isSome then case_jmps i else default_jmp) (.uint ctx.code_off)
    let i1 := if expr.isSome then i + 1 else i
    if !next.is_null && next.stat.ptr_eq iter_stat then
      compile_case_bodies ctx1 stat_ctx off_backup stat case_jmps default_jmp i1 hres next
    else
    let body := compile_case_statements ctx1 stat_ctx off_backup stat next hres iter_stat
    if body.2.2 then ⟨body.1, body.2.1, i1, true⟩ else
    if FAILED body.1 then ⟨body.1, body.2.1, i1, false⟩ else
    compile_case_bodies body.2.1 stat_ctx off_backup stat case_jmps default_jmp i1 body.1 next

def compile_switch_statement (ctx : compiler_ctx_t) :
    switch_statement_t → HRESULT × compiler_ctx_t
  | .mk expr case_list =>
    let off_backup := ctx.code_off
    let hres := compile_expression ctx expr
    if FAILED hres.1 then hres else
    let break_label := alloc_label hres.2
    if break_label.1 = UINT_MAX then (E_OUTOFMEMORY, break_label.2) else
    let stat_ctx : statement_ctx_t := ⟨0, false, false, break_label.1, UINT_MAX⟩
    let case_jmps := heap_alloc break_label.2
    if !case_jmps.1 then (E_OUTOFMEMORY, case_jmps.2) else
    let cases := compile_case_exprs ⟨hres.1, case_jmps.2, fun _ => 0, 0, false⟩ case_list
    let jmp : (HRESULT × compiler_ctx_t) × Nat :=
      if SUCCEEDED cases.hres then
        let instr := push_instr cases.ctx OP_pop
        if instr.1 ≠ UINT_MAX then
          let default_jmp := push_instr instr.2 OP_jmp
          ((if default_jmp.1 = UINT_MAX then E_OUTOFMEMORY else cases.hres, default_jmp.2),
            default_jmp.1)
        else ((E_OUTOFMEMORY, instr.2), 0)
      else ((cases.hres, cases.ctx), 0)
    if FAILED jmp.1.1 then jmp.1 else
    let default_jmp := jmp.2
    let bodies := compile_case_bodies jmp.1.2 stat_ctx off_backup
      (.STAT_SWITCH (.mk expr case_list)) cases.case_jmps default_jmp 0 jmp.1.1 case_list
    if bodies.returned then (bodies.hres, bodies.ctx) else
    if FAILED bodies.hres then (bodies.hres, bodies.ctx) else
    let ctx1 :=
      if !cases.have_default then set_arg1 bodies.ctx default_jmp (.uint bodies.ctx.code_off)
      else bodies.ctx
    (S_OK, label_set_addr ctx1 stat_ctx.break_label)

def compile_try_statement (ctx : compiler_ctx_t) : try_statement_t → HRESULT × compiler_ctx_t
  | .mk try_statement catch_block finally_statement =>
    let this := statement_t.STAT_TRY (.mk try_statement catch_block finally_statement)
    let off_backup := ctx.code_off
    let prev_no_fallback := ctx.no_fallback
    let push_except := push_instr ctx OP_push_except
    if push_except.1 = UINT_MAX then (E_OUTOFMEMORY, push_except.2) else
    let ident : Bool × Option String × compiler_ctx_t :=
      match catch_block with
      | .mk identifier _ =>
        let ident := compiler_alloc_bstr push_except.2 identifier
        (ident.1.isSome, ident.1, ident.2)
      | .NULL => (true, none, push_except.2)
    if !ident.1 then (E_OUTOFMEMORY, ident.2.2) else
    let ctx1 := set_arg2 ident.2.2 push_except.1 (.bstr ident.2.1)
    let try_ctx : statement_ctx_t :=
      match catch_block with
      | .mk _ _ => ⟨0, false, true, UINT_MAX, UINT_MAX⟩
      | .NULL => ⟨2, false, true, UINT_MAX, UINT_MAX⟩
    let catch_ctx : statement_ctx_t := ⟨0, true, false, UINT_MAX, UINT_MAX⟩
    let finally_ctx : statement_ctx_t := ⟨2, false, false, UINT_MAX, UINT_MAX⟩
    let hres := compile_statement (set_no_fallback ctx1 true) (some try_ctx) try_statement
    let ctx2 := set_no_fallback hres.2 prev_no_fallback
    if hres.1 = E_NOTIMPL then
      compile_interp_fallback
        (set_eval (set_code_off ctx2 off_backup) this .try_statement_eval) this
    else
    if FAILED hres.1 then (hres.1, ctx2) else
    let instr := push_instr ctx2 OP_pop_except
    if instr.1 = UINT_MAX then (E_OUTOFMEMORY, instr.2) else
    let handler : (HRESULT × compiler_ctx_t) × Bool :=
      match catch_block with
      | .mk _ statement =>
        let jmp_finally := push_instr instr.2 OP_jmp
        if jmp_finally.1 = UINT_MAX then ((E_OUTOFMEMORY, jmp_finally.2), true) else
        let ctx3 := set_arg1 jmp_finally.2 push_except.1 (.uint jmp_finally.2.code_off)
        let hres := compile_statement (set_no_fallback ctx3 true) (some catch_ctx) statement
        let ctx4 := set_no_fallback hres.2 prev_no_fallback
        if hres.1 = E_NOTIMPL then
          (compile_interp_fallback
            (set_eval (set_code_off ctx4 off_backup) this .try_statement_eval) this, true)
        else
        if FAILED hres.1 then ((hres.1, ctx4), true) else
        let instr := push_instr ctx4 OP_pop_scope
        if instr.1 = UINT_MAX then ((E_OUTOFMEMORY, instr.2), true) else
        ((S_OK, set_arg1 instr.2 jmp_finally.1 (.uint instr.2.code_off)), false)
      | .NULL => ((S_OK, set_arg1 instr.2 push_except.1 (.uint instr.2.code_off)), false)
    if handler.2 then handler.1 else
    match finally_statement with
    | .node _ finally_stat _ =>
      let instr := push_instr handler.1.2 OP_pop
      if instr.1 = UINT_MAX then (E_OUTOFMEMORY, instr.2) else
      let hres := compile_statement (set_no_fallback instr.2 true)
        (match catch_block with
         | .mk _ _ => none
         | .NULL => some finally_ctx)
        finally_stat
      let ctx5 := set_no_fallback hres.2 prev_no_fallback
      if hres.1 = E_NOTIMPL then
        compile_interp_fallback
          (set_eval (set_code_off ctx5 off_backup) this .try_statement_eval) this
      else
      if FAILED hres.1 then (hres.1, ctx5) else
      match catch_block with
      | .mk _ _ => (S_OK, ctx5)
      | .NULL => push_instr_hres ctx5 OP_end_finally
    | .NULL => (S_OK, handler.1.2)
end

/-! ## Label resolution and entry points -/

/-- The body of the loop of `resolve_labels` for the instruction at `off`. -/
def resolve_label (ctx : compiler_ctx_t) (off : Nat) : compiler_ctx_t :=
  if instr_info_arg1_type (ctx.instrs off).op = ARG_ADDR then
    match (ctx.instrs off).arg1 with
    | .uint v =>
      if v &&& LABEL_FLAG ≠ 0 then set_arg1 ctx off (.uint (ctx.labels (v &&& (LABEL_FLAG - 1))))
      else ctx
    | _ => ctx
  else ctx

/-- The loop of `resolve_labels`: `n` instructions starting at `off`. -/
def resolve_labels_loop (ctx : compiler_ctx_t) : Nat → Nat → compiler_ctx_t
  | 0, _ => ctx
  | n + 1, off => resolve_labels_loop (resolve_label ctx off) n (off + 1)

def resolve_labels (ctx : compiler_ctx_t) (off : Nat) : compiler_ctx_t :=
  { resolve_labels_loop ctx (ctx.code_off - off) off with labels_cnt := 0 }

/-- The parser context: whether `parser->code` and `parser->compiler` exist, and their content. -/
structure parser_ctx_t where
  code : Bool
  compiler : Bool
  ctx : compiler_ctx_t

def init_compiler (parser : parser_ctx_t) : HRESULT × parser_ctx_t :=
  let code : Bool × parser_ctx_t :=
    if !parser.code then
      let a := heap_alloc parser.ctx
      if !a.1 then (false, { parser with ctx := a.2 }) else
      (true, { parser with code := true,
                           ctx := { a.2 with bstr_pool_size := 0, bstr_cnt := 0 } })
    else (true, parser)
  if !code.1 then (E_OUTOFMEMORY, code.2) else
  let parser := code.2
  if !parser.compiler then
    let a := heap_alloc parser.ctx
    if !a.1 then (E_OUTOFMEMORY, { parser with ctx := a.2 }) else
    (S_OK, { parser with compiler := true,
                         ctx := { a.2 with code_off := 0, code_size := 0, labels_size := 0,
                                           labels_cnt := 0, stat_ctx := [], no_fallback := false } })
  else (S_OK, parser)

/-- The out-parameter `*ret_off` is passed in with its previous content and returned. -/
def compile_subscript (parser : parser_ctx_t) (expr : expression_t) (ret_off : Nat) :
    HRESULT × parser_ctx_t × Nat :=
  let hres := init_compiler parser
  if FAILED hres.1 then (hres.1, hres.2, ret_off) else
  let parser := hres.2
  let ret_off := parser.ctx.code_off
  let hres := compile_expression parser.ctx expr
  if FAILED hres.1 then (hres.1, { parser with ctx := hres.2 }, ret_off) else
  let hres := push_instr_hres hres.2 OP_ret
  (hres.1, { parser with ctx := hres.2 }, ret_off)

/-- The statement pointer `stat` is given by its address `addr`, the node `stat` and the chain
`next`; the out-parameter `*ret_off` is passed in with its previous content and returned. -/
def compile_subscript_stat (parser : parser_ctx_t) (addr : Nat) (stat : statement_t)
    (next : statement_list) (compile_block : Bool) (ret_off : Nat) :
    HRESULT × parser_ctx_t × Nat :=
  let hres := init_compiler parser
  if FAILED hres.1 then (hres.1, hres.2, ret_off) else
  let parser := hres.2
  let ret_off := parser.ctx.code_off
  let hres :=
    if compile_block && !next.is_null then compile_block_statement parser.ctx (.node addr stat next)
    else compile_statement parser.ctx none stat
  if FAILED hres.1 then (hres.1, { parser with ctx := hres.2 }, ret_off) else
  let hres := push_instr_hres (resolve_labels hres.2 ret_off) OP_ret
  (hres.1, { parser with ctx := hres.2 }, ret_off)


/-! ## The frame relation -/

/-- `c` is reached from `c0` by lowering code at offsets from `a` on and with labels from `b` on:
the stream below `a` and the labels below `b` are as they were, the bindings made since (the new
entries of `label_log`) are of labels from `b` on, each at most once, and the buffers have only
grown. -/
structure Rel (a b : Nat) (c0 c : compiler_ctx_t) : Prop where
  off_ge : a ≤ c.code_off
  instrs_eq : ∀ i, i < a → c.instrs i = c0.instrs i
  size_le : c0.code_size ≤ c.code_size
  off_le : c0.code_off ≤ c0.code_size → c.code_off ≤ c.code_size
  cnt_ge : b ≤ c.labels_cnt
  cnt_mono : c0.labels_cnt ≤ c.labels_cnt
  labels_eq : c.labels_cnt ≤ LABEL_FLAG → ∀ l, l < b → c.labels l = c0.labels l
  log_ext : c.labels_cnt ≤ LABEL_FLAG →
    ∃ new, c.label_log = new ++ c0.label_log ∧ (∀ l ∈ new, b ≤ l ∧ l < c.labels_cnt) ∧ new.Nodup
  lsize_le : c0.labels_size ≤ c.labels_size
  cnt_le : c0.labels_cnt ≤ c0.labels_size → c.labels_cnt ≤ c.labels_size
  stat_ctx_eq : c.stat_ctx = c0.stat_ctx
  no_fallback_eq : c.no_fallback = c0.no_fallback


/-! ## Where the bodies are lowered

For each routine that lowers a body with fallback forbidden, the state in which it calls
`compile_statement` for the body and the frame it passes: the code of the routine up to that
call, with `none` wherever the routine returns before the call. -/

def with_body_entry (ctx : compiler_ctx_t) :
    with_statement_t → Option (compiler_ctx_t × statement_ctx_t)
  | .mk expr _ =>
    let hres := compile_expression ctx expr
    if FAILED hres.1 then none else
    let instr := push_instr hres.2 OP_push_scope
    if instr.1 = UINT_MAX then none else
    some (instr.2, ⟨0, true, false, UINT_MAX, UINT_MAX⟩)

def while_body_entry (ctx : compiler_ctx_t) :
    while_statement_t → Option (compiler_ctx_t × statement_ctx_t)
  | .mk do_while expr _ =>
    let break_label := alloc_label ctx
    if break_label.1 = UINT_MAX then none else
    let continue_label := alloc_label break_label.2
    if continue_label.1 = UINT_MAX then none else
    let stat_ctx : statement_ctx_t := ⟨0, false, false, break_label.1, continue_label.1⟩
    if !do_while then
      let instr := push_instr continue_label.2 OP_undefined
      if instr.1 = UINT_MAX then none else
      let hres := compile_expression (label_set_addr instr.2 stat_ctx.continue_label) expr
      if FAILED hres.1 then none else
      let hres := push_instr_uint hres.2 OP_jmp_z stat_ctx.break_label
      if FAILED hres.1 then none else
      let hres := push_instr_hres hres.2 OP_pop
      if FAILED hres.1 then none else
      some (hres.2, stat_ctx)
    else some (continue_label.2, stat_ctx)

def for_body_entry (ctx : compiler_ctx_t) :
    for_statement_t → Option (compiler_ctx_t × statement_ctx_t)
  | .mk variable_list begin_expr expr _ _ =>
    let init : HRESULT × compiler_ctx_t :=
      match variable_list, begin_expr with
      | .mk identifier e next, _ => compile_variable_list ctx (.mk identifier e next)
      | .NULL, some begin_expr =>
        let hres := compile_expression_noret ctx begin_expr (some false)
        if FAILED hres.1.1 then hres.1 else
        if hres.2 = some false then push_instr_hres hres.1.2 OP_pop else (S_OK, hres.1.2)
      | .NULL, none => (S_OK, ctx)
    if FAILED init.1 then none else
    let break_label := alloc_label init.2
    if break_label.1 = UINT_MAX then none else
    let continue_label := alloc_label break_label.2
    if continue_label.1 = UINT_MAX then none else
    let stat_ctx : statement_ctx_t := ⟨0, false, false, break_label.1, continue_label.1⟩
    let instr := push_instr continue_label.2 OP_undefined
    if instr.1 = UINT_MAX then none else
    let test : HRESULT × compiler_ctx_t :=
      match expr with
      | some expr =>
        let hres := compile_expression instr.2 expr
        if FAILED hres.1 then hres else
        push_instr_uint hres.2 OP_jmp_z stat_ctx.break_label
      | none => (S_OK, instr.2)
    if FAILED test.1 then none else
    let instr := push_instr test.2 OP_pop
    if instr.1 = UINT_MAX then none else
    some (instr.2, stat_ctx)

def forin_body_entry (ctx : compiler_ctx_t) :
    forin_statement_t → Option (compiler_ctx_t × statement_ctx_t)
  | .mk variable_ expr in_expr _ =>
    let init : HRESULT × compiler_ctx_t :=
      match variable_ with
      | .mk identifier e next => compile_variable_list ctx (.mk identifier e next)
      | .NULL => (S_OK, ctx)
    if FAILED init.1 then none else
    let break_label := alloc_label init.2
    if break_label.1 = UINT_MAX then none else
    let continue_label := alloc_label break_label.2
    if continue_label.1 = UINT_MAX then none else
    let stat_ctx : statement_ctx_t := ⟨4, false, false, break_label.1, continue_label.1⟩
    let hres := compile_expression continue_label.2 in_expr
    if FAILED hres.1 then none else
    let target : (HRESULT × compiler_ctx_t) × Bool :=
      match variable_ with
      | .mk identifier _ _ => (push_instr_bstr_uint hres.2 OP_identid identifier fdexNameEnsure, false)
      | .NULL =>
        if is_memberid_expr expr.type then
          (compile_memberid_expression hres.2 expr fdexNameEnsure, false)
        else
          (push_instr_uint hres.2 OP_throw_ref JS_E_ILLEGAL_ASSIGN, true)
    if FAILED target.1.1 then none else
    if target.2 then none else
    let hres := push_instr_int target.1.2 OP_int DISPID_STARTENUM
    if FAILED hres.1 then none else
    let instr := push_instr hres.2 OP_undefined
    if instr.1 = UINT_MAX then none else
    let hres := push_instr_uint (label_set_addr instr.2 stat_ctx.continue_label) OP_forin
      stat_ctx.break_label
    if FAILED hres.1 then none else
    some (hres.2, stat_ctx)

/-- The entry of the try block of `compile_try_statement`. -/
def try_body_entry (ctx : compiler_ctx_t) :
    try_statement_t → Option (compiler_ctx_t × statement_ctx_t)
  | .mk _ catch_block _ =>
    let push_except := push_instr ctx OP_push_except
    if push_except.1 = UINT_MAX then none else
    let ident : Bool × Option String × compiler_ctx_t :=
      match catch_block with
      | .mk identifier _ =>
        let ident := compiler_alloc_bstr push_except.2 identifier
        (ident.1.isSome, ident.1, ident.2)
      | .NULL => (true, none, push_except.2)
    if !ident.1 then none else
    let ctx1 := set_arg2 ident.2.2 push_except.1 (.bstr ident.2.1)
    let try_ctx : statement_ctx_t :=
      match catch_block with
      | .mk _ _ => ⟨0, false, true, UINT_MAX, UINT_MAX⟩
      | .NULL => ⟨2, false, true, UINT_MAX, UINT_MAX⟩
    some (ctx1, try_ctx)

/-- The entry of the catch block of `compile_try_statement`. -/
def catch_body_entry (ctx : compiler_ctx_t) :
    try_statement_t → Option (compiler_ctx_t × statement_ctx_t)
  | .mk try_statement catch_block _ =>
    let prev_no_fallback := ctx.no_fallback
    let push_except := push_instr ctx OP_push_except
    if push_except.1 = UINT_MAX then none else
    let ident : Bool × Option String × compiler_ctx_t :=
      match catch_block with
      | .mk identifier _ =>
        let ident := compiler_alloc_bstr push_except.2 identifier
        (ident.1.isSome, ident.1, ident.2)
      | .NULL => (true, none, push_except.2)
    if !ident.1 then none else
    let ctx1 := set_arg2 ident.2.2 push_except.1 (.bstr ident.2.1)
    let try_ctx : statement_ctx_t :=
      match catch_block with
      | .mk _ _ => ⟨0, false, true, UINT_MAX, UINT_MAX⟩
      | .NULL => ⟨2, false, true, UINT_MAX, UINT_MAX⟩
    let catch_ctx : statement_ctx_t := ⟨0, true, false, UINT_MAX, UINT_MAX⟩
    let hres := compile_statement (set_no_fallback ctx1 true) (some try_ctx) try_statement
    let ctx2 := set_no_fallback hres.2 prev_no_fallback
    if hres.1 = E_NOTIMPL then none else
    if FAILED hres.1 then none else
    let instr := push_instr ctx2 OP_pop_except
    if instr.1 = UINT_MAX then none else
    match catch_block with
    | .mk _ _ =>
      let jmp_finally := push_instr instr.2 OP_jmp
      if jmp_finally.1 = UINT_MAX then none else
      some (set_arg1 jmp_finally.2 push_except.1 (.uint jmp_finally.2.code_off), catch_ctx)
    | .NULL => none

/-- The entry of the finally block of `compile_try_statement`; no frame is passed for a finally
block that follows a catch block. -/
def finally_body_entry (ctx : compiler_ctx_t) :
    try_statement_t → Option (compiler_ctx_t × Option statement_ctx_t)
  | .mk try_statement catch_block finally_statement =>
    let this := statement_t.STAT_TRY (.mk try_statement catch_block finally_statement)
    let off_backup := ctx.code_off
    let prev_no_fallback := ctx.no_fallback
    let push_except := push_instr ctx OP_push_except
    if push_except.1 = UINT_MAX then none else
    let ident : Bool × Option String × compiler_ctx_t :=
      match catch_block with
      | .mk identifier _ =>
        let ident := compiler_alloc_bstr push_except.2 identifier
        (ident.1.isSome, ident.1, ident.2)
      | .NULL => (true, none, push_except.2)
    if !ident.1 then none else
    let ctx1 := set_arg2 ident.2.2 push_except.1 (.bstr ident.2.1)
    let try_ctx : statement_ctx_t :=
      match catch_block with
      | .mk _ _ => ⟨0, false, true, UINT_MAX, UINT_MAX⟩
      | .NULL => ⟨2, false, true, UINT_MAX, UINT_MAX⟩
    let catch_ctx : statement_ctx_t := ⟨0, true, false, UINT_MAX, UINT_MAX⟩
    let finally_ctx : statement_ctx_t := ⟨2, false, false, UINT_MAX, UINT_MAX⟩
    let hres := compile_statement (set_no_fallback ctx1 true) (some try_ctx) try_statement
    let ctx2 := set_no_fallback hres.2 prev_no_fallback
    if hres.1 = E_NOTIMPL then none else
    if FAILED hres.1 then none else
    let instr := push_instr ctx2 OP_pop_except
    if instr.1 = UINT_MAX then none else
    let handler : (HRESULT × compiler_ctx_t) × Bool :=
      match catch_block with
      | .mk _ statement =>
        let jmp_finally := push_instr instr.2 OP_jmp
        if jmp_finally.1 = UINT_MAX then ((E_OUTOFMEMORY, jmp_finally.2), true) else
        let ctx3 := set_arg1 jmp_finally.2 push_except.1 (.uint jmp_finally.2.code_off)
        let hres := compile_statement (set_no_fallback ctx3 true) (some catch_ctx) statement
        let ctx4 := set_no_fallback hres.2 prev_no_fallback
        if hres.1 = E_NOTIMPL then
          (compile_interp_fallback
            (set_eval (set_code_off ctx4 off_backup) this .try_statement_eval) this, true)
        else
        if FAILED hres.1 then ((hres.1, ctx4), true) else
        let instr := push_instr ctx4 OP_pop_scope
        if instr.1 = UINT_MAX then ((E_OUTOFMEMORY, instr.2), true) else
        ((S_OK, set_arg1 instr.2 jmp_finally.1 (.uint instr.2.code_off)), false)
      | .NULL => ((S_OK, set_arg1 instr.2 push_except.1 (.uint instr.2.code_off)), false)
    if handler.2 then none else
    match finally_statement with
    | .node _ _ _ =>
      let instr := push_instr handler.1.2 OP_pop
      if instr.1 = UINT_MAX then none else
      some (instr.2,
        match catch_block with
        | .mk _ _ => none
        | .NULL => some finally_ctx)
    | .NULL => none

/-- The state in which `compile_switch_statement` starts to lay out the clause bodies, with the
frame, the jump table, the offset of the default jump and the result so far. -/
def switch_bodies_entry (ctx : compiler_ctx_t) :
    switch_statement_t →
      Option (compiler_ctx_t × statement_ctx_t × (Nat → Nat) × Nat × HRESULT)
  | .mk expr case_list =>
    let hres := compile_expression ctx expr
    if FAILED hres.1 then none else
    let break_label := alloc_label hres.2
    if break_label.1 = UINT_MAX then none else
    let stat_ctx : statement_ctx_t := ⟨0, false, false, break_label.1, UINT_MAX⟩
    let case_jmps := heap_alloc break_label.2
    if !case_jmps.1 then none else
    let cases := compile_case_exprs ⟨hres.1, case_jmps.2, fun _ => 0, 0, false⟩ case_list
    let jmp : (HRESULT × compiler_ctx_t) × Nat :=
      if SUCCEEDED cases.hres then
        let instr := push_instr cases.ctx OP_pop
        if instr.1 ≠ UINT_MAX then
          let default_jmp := push_instr instr.2 OP_jmp
          ((if default_jmp.1 = UINT_MAX then E_OUTOFMEMORY else cases.hres, default_jmp.2),
            default_jmp.1)
        else ((E_OUTOFMEMORY, instr.2), 0)
      else ((cases.hres, cases.ctx), 0)
    if FAILED jmp.1.1 then none else
    some (jmp.1.2, stat_ctx, cases.case_jmps, jmp.2, jmp.1.1)


/-! ## Sample inputs -/

/-- A compiler context with nothing in it, whose allocator never refuses. -/
def ctx_empty : compiler_ctx_t :=
  { instrs := fun _ => ⟨OP_LAST, .uint 0, .uint 0⟩, bstr_pool := fun _ => none,
    bstr_pool_size := 0, bstr_cnt := 0, code_off := 0, code_size := 0, labels := fun _ => 0,
    labels_size := 0, labels_cnt := 0, stat_ctx := [], no_fallback := false, heap := [],
    stat_eval := [], label_log := [] }

/-- The context `ctx_empty` with fallback forbidden. -/
def ctx_strict : compiler_ctx_t := set_no_fallback ctx_empty true

/-- A parser context before the first compilation. -/
def parser_empty : parser_ctx_t := ⟨false, false, ctx_empty⟩

/-- The expression statement `name;`. -/
def stat_ident (name : String) : statement_t := .STAT_EXPR ⟨.EXPR_IDENT ⟨name⟩⟩

/-- The statement `while(cond) { b; }`. -/
def stat_while_sample : statement_t :=
  .STAT_WHILE (.mk false (.EXPR_IDENT ⟨"cond"⟩)
    (.STAT_BLOCK (.mk (.node 3 (stat_ident "b") .NULL))))

/-- The statement `return;`. -/
def stat_return_sample : statement_t := .STAT_RETURN none

/-- The statement `with(o) return;`. -/
def with_return_sample : with_statement_t := .mk (.EXPR_IDENT ⟨"o"⟩) stat_return_sample

/-- The frame of a loop with the label tokens 0 and 1. -/
def loop_frame_sample : statement_ctx_t := ⟨0, false, false, 0x80000000, 0x80000001⟩

/-- The statement `while(c) return;`. -/
def while_return_sample : while_statement_t := .mk false (.EXPR_IDENT ⟨"c"⟩) stat_return_sample

/-- The opcodes of the `n` instructions of the stream of `c` from the offset `lo` on. -/
def emitted_ops (c : compiler_ctx_t) (lo n : Nat) : List jsop_t :=
  (List.range n).map fun i => (c.instrs (lo + i)).op

/-- The state `c1` is `c` with instructions appended whose opcodes are `ops`, in this order:
the stream of `c` is still there and the stream of `c1` ends with them. -/
def Emits (c c1 : compiler_ctx_t) (ops : List jsop_t) : Prop :=
  c1.code_off = c.code_off + ops.length ∧
  (∀ i, i < c.code_off → c1.instrs i = c.instrs i) ∧
  emitted_ops c1 c.code_off ops.length = ops

/-- The cleanup of one context frame, in the words of the specification: a scope-pop if the frame
owns a scope, then an exception-frame-pop if it owns one. -/
def frame_cleanup (f : statement_ctx_t) : List jsop_t :=
  (if f.using_scope then [OP_pop_scope] else []) ++
  (if f.using_except then [OP_pop_except] else [])

/-- What the specification prescribes for `pop_to_stat` with the target at position `k` of the
context stack `frames`: the cleanup of every frame from the innermost to the target inclusive,
then as many `OP_pop` as these frames reserve stack cells. -/
def unwind_ops (frames : List statement_ctx_t) (k : Nat) : List jsop_t :=
  ((frames.take (k + 1)).map frame_cleanup).flatten ++
  List.replicate ((frames.take (k + 1)).map fun f => f.stack_use).sum OP_pop

/-! ## The dispatch of `compile_statement` -/

/-- The `switch(stat->type)` of `compile_statement`, which runs between the prologue that pushes
the frame and the epilogue that pops it. -/
def compile_statement_switch (ctx : compiler_ctx_t) : statement_t → HRESULT × compiler_ctx_t
  | .STAT_BLOCK (.mk stat_list) => compile_block_statement ctx stat_list
  | .STAT_BREAK stat => compile_break_statement ctx stat
  | .STAT_CONTINUE stat => compile_continue_statement ctx stat
  | .STAT_EMPTY => push_instr_hres ctx OP_undefined
  | .STAT_EXPR stat => compile_expression_statement ctx stat
  | .STAT_FOR stat => compile_for_statement ctx stat
  | .STAT_FORIN stat => compile_forin_statement ctx stat
  | .STAT_IF stat => compile_if_statement ctx stat
  | .STAT_LABEL _ => push_instr_hres ctx OP_label
  | .STAT_SWITCH stat => compile_switch_statement ctx stat
  | .STAT_THROW stat => compile_throw_statement ctx stat
  | .STAT_TRY stat => compile_try_statement ctx stat
  | .STAT_VAR stat => compile_var_statement ctx stat
  | .STAT_WHILE stat => compile_while_statement ctx stat
  | .STAT_WITH stat => compile_with_statement ctx stat
  | .STAT_RETURN expr => compile_interp_fallback ctx (.STAT_RETURN expr)

/-! ## More sample inputs -/

/-- The empty context with an allocator that answers the next requests as `heap` lists. -/
def ctx_heap (heap : List Bool) : compiler_ctx_t := { ctx_empty with heap := heap }

/-- The empty context with the context stack `frames`. -/
def ctx_frames (frames : List statement_ctx_t) : compiler_ctx_t :=
  { ctx_empty with stat_ctx := frames }

/-- A context whose buffer of 64 instructions has room for two more, with an allocator that
serves two requests and refuses the third. -/
def ctx_nearly_full : compiler_ctx_t :=
  { ctx_empty with code_size := 64, code_off := 62, heap := [true, true, false] }

/-- The statement `l: ;`. -/
def stat_label_sample : statement_t := .STAT_LABEL (.mk "l" .STAT_EMPTY)

/-- The expression `null`. -/
def expr_null : expression_t := .EXPR_LITERAL ⟨.LT_NULL⟩

/-- The expression statement `f();`. -/
def call_statement_sample : expression_statement_t :=
  ⟨.EXPR_CALL (.mk (.EXPR_IDENT ⟨"f"⟩) .NULL)⟩

/-- The frame of the try block of a try statement without a catch block. -/
def try_frame_sample : statement_ctx_t := ⟨2, false, true, UINT_MAX, UINT_MAX⟩

/-- The frame of the body of a with statement. -/
def with_frame_sample : statement_ctx_t := ⟨0, true, false, UINT_MAX, UINT_MAX⟩

/-- The frame of the body of a for-in loop with the label tokens 0 and 1. -/
def forin_frame_sample : statement_ctx_t := ⟨4, false, false, 0x80000000, 0x80000001⟩

/-- A parser context before the first compilation, with an allocator that answers the next
requests as `heap` lists. -/
def parser_heap (heap : List Bool) : parser_ctx_t := ⟨false, false, ctx_heap heap⟩

/-! ## Layout of the stream -/

/-- The stream of `c` is still there in `c1`, which may be longer. -/
def Keeps (c c1 : compiler_ctx_t) : Prop :=
  c.code_off ≤ c1.code_off ∧ ∀ i, i < c.code_off → c1.instrs i = c.instrs i

/-- The state `c1` is `c` with exactly one instruction appended, whose opcode is `op`. -/
def Appends (c c1 : compiler_ctx_t) (op : jsop_t) : Prop :=
  c1.code_off = c.code_off + 1 ∧ (c1.instrs c.code_off).op = op ∧
  ∀ i, i < c.code_off → c1.instrs i = c.instrs i

/-- The expression `n`, an integer literal. -/
def expr_int (n : Int) : expression_t := .EXPR_LITERAL ⟨.LT_INT n⟩

/-- The expression `name`, an identifier. -/
def expr_ident (name : String) : expression_t := .EXPR_IDENT ⟨name⟩

/-- The statement `for(;;){ try { break; } finally { x; } }`. -/
def for_try_break_sample : statement_t :=
  .STAT_FOR (.mk .NULL none none none (.STAT_BLOCK (.mk (.node 10
    (.STAT_TRY (.mk (.STAT_BLOCK (.mk (.node 11 (.STAT_BREAK ⟨none⟩) .NULL))) .NULL
      (.node 12 (.STAT_BLOCK (.mk (.node 13 (stat_ident "x") .NULL))) .NULL))) .NULL))))

/-! ## Object literals -/

/-- The properties of an object literal, in source order. -/
def prop_val_t.toList : prop_val_t → List (literal_t × expression_t)
  | .NULL => []
  | .mk name value next => (name, value) :: next.toList

/-- The static name of a property, in the words of the specification: the text of a string
literal, the canonical string of a numeric literal. -/
def static_name : literal_t → Option String
  | .LT_STRING wstr => some wstr
  | .LT_INT lval => some (toString lval)
  | .LT_DOUBLE dval => some dval.canon
  | _ => none

/-- The layout the specification prescribes for the properties `props` in the stream of `final`
from the offset `off` on: for each property in order, the lowering of its value (made in a state
`s` whose stream is the one of `final` below `off`), then one `OP_obj_prop` whose operand is the
static name; the stream ends after the last one. -/
def ObjectLayout (final : compiler_ctx_t) : Nat → List (literal_t × expression_t) → Prop
  | off, [] => final.code_off = off
  | off, (name, value) :: rest =>
    ∃ s : compiler_ctx_t, s.code_off = off ∧ (∀ i, i < off → s.instrs i = final.instrs i) ∧
      ¬ FAILED (compile_expression s value).1 = true ∧
      (∀ i, i < (compile_expression s value).2.code_off →
        final.instrs i = (compile_expression s value).2.instrs i) ∧
      (final.instrs (compile_expression s value).2.code_off).op = OP_obj_prop ∧
      (final.instrs (compile_expression s value).2.code_off).arg1 = .bstr (static_name name) ∧
      ObjectLayout final ((compile_expression s value).2.code_off + 1) rest

/-- The object literal `{a: 1, "b": 2}`. -/
def object_literal_sample : property_value_expression_t :=
  .mk (.mk (.LT_STRING "a") (expr_int 1) (.mk (.LT_STRING "b") (expr_int 2) .NULL))


/-! ## Switch statements -/

/-- The number of default clauses of a clause list (a switch statement has at most one). -/
def default_count : case_clausule_t → Nat
  | .NULL => 0
  | .mk expr _ next => (if expr.isSome then 0 else 1) + default_count next

/-- The jumps `case_jmps[0 .. n)` of the clauses stand in the stream of `c`, are `OP_case`
instructions and come in the order of the clauses. -/
def JmpInv (case_jmps : Nat → Nat) (n : Nat) (c : compiler_ctx_t) : Prop :=
  ∀ j, j < n → case_jmps j < c.code_off ∧ (c.instrs (case_jmps j)).op = OP_case ∧
    ∀ j', j' < j → case_jmps j' < case_jmps j

/-- The layout the specification prescribes for the clauses of a switch statement in the stream
of `final`, for the clause list that starts with the `i`-th `case` clause and whose first body
starts at the offset `off`: the jump of the first clause (`case_jmps[i]`, or `default_jmp` for
the default clause) is patched with `off`. When the body of the clause is the body of the next
clause (an empty clause that cascades), the next clause starts at the same offset `off`;
otherwise the statements of the clause are lowered, natively, from `off` on (in a state `s`),
they are in the stream of `final`, and the next clause starts where they end. After the last
clause the stream ends. -/
def SwitchLayout (final : compiler_ctx_t) (stat_ctx : statement_ctx_t) (off_backup : Nat)
    (stat : statement_t) (case_jmps : Nat → Nat) (default_jmp : Nat) :
    Nat → Nat → case_clausule_t → Prop
  | _, off, .NULL => final.code_off = off
  | i, off, .mk expr iter_stat next =>
    (final.instrs (if expr.isSome then case_jmps i else default_jmp)).arg1 = .uint off ∧
    if !next.is_null && next.stat.ptr_eq iter_stat then
      SwitchLayout final stat_ctx off_backup stat case_jmps default_jmp
        (if expr.isSome then i + 1 else i) off next
    else
      ∃ (s : compiler_ctx_t) (hres : HRESULT), s.code_off = off ∧
        (compile_case_statements s stat_ctx off_backup stat next hres iter_stat).2.2 = false ∧
        ¬ FAILED (compile_case_statements s stat_ctx off_backup stat next hres iter_stat).1
          = true ∧
        (∀ k, off ≤ k →
          k < (compile_case_statements s stat_ctx off_backup stat next hres
            iter_stat).2.1.code_off →
          final.instrs k =
            (compile_case_statements s stat_ctx off_backup stat next hres
              iter_stat).2.1.instrs k) ∧
        SwitchLayout final stat_ctx off_backup stat case_jmps default_jmp
          (if expr.isSome then i + 1 else i)
          (compile_case_statements s stat_ctx off_backup stat next hres iter_stat).2.1.code_off
          next

/-- The statement `switch(x) { case 1: case 2: b; default: c; }`: the body of the first clause is
the body of the second one. -/
def switch_cascade_sample : switch_statement_t :=
  .mk (expr_ident "x")
    (.mk (some (expr_int 1)) (.node 20 (stat_ident "b") (.node 21 (stat_ident "c") .NULL))
      (.mk (some (expr_int 2)) (.node 20 (stat_ident "b") (.node 21 (stat_ident "c") .NULL))
        (.mk none (.node 21 (stat_ident "c") .NULL) .NULL)))


/-! ## Labels bound by a routine -/

/-- The label bindings made between the states `c0` and `c`: the entries that `label_set_addr`
has added to the log since `c0`, latest first. -/
def bound_since (c0 c : compiler_ctx_t) : List Nat :=
  c.label_log.take (c.label_log.length - c0.label_log.length)

/-- Every label index of `Bs` has been bound between `c0` and `c`. -/
def Bnd (Bs : List Nat) (c0 c : compiler_ctx_t) : Prop :=
  c.labels_cnt ≤ LABEL_FLAG → ∃ new, c.label_log = new ++ c0.label_log ∧ ∀ l ∈ Bs, l ∈ new

/-- The result `r` of a routine entered in `c0`: if it is a success, every label index of `Bs`
has been bound since `c0`. -/
def BndS (Bs : List Nat) (c0 : compiler_ctx_t) (r : HRESULT × compiler_ctx_t) : Prop :=
  SUCCEEDED r.1 = true → Bnd Bs c0 r.2

/-- The statement `while(cond) b;`. -/
def while_native_sample : while_statement_t :=
  .mk false (.EXPR_IDENT ⟨"cond"⟩) (stat_ident "b")

/-- The statement `for(x in o) b;`. -/
def forin_native_sample : forin_statement_t :=
  .mk .NULL (.EXPR_IDENT ⟨"x"⟩) (.EXPR_IDENT ⟨"o"⟩) (stat_ident "b")

/-- The statement `for(1 in o) b;`, whose target is not assignable. -/
def forin_illegal_sample : forin_statement_t :=
  .mk .NULL (.EXPR_LITERAL ⟨.LT_INT 1⟩) (.EXPR_IDENT ⟨"o"⟩) (stat_ident "b")

/-! ## Blocks -/

/-- The children of a block, in source order. -/
def statement_list.toList : statement_list → List statement_t
  | .NULL => []
  | .node _ stat next => stat :: next.toList

/-- The layout the specification prescribes for the children `stats` of a block in the stream of
`final` from the offset `off` on, for a block entered in `ctx`: an empty block is exactly one
`OP_undefined`; otherwise the lowering of the first child (made without a frame in a state `s`
at the offset `off`, with the context stack and the fallback flag of `ctx`, whose stream is the
one of `final` below `off`) is in the stream of `final`; after the last child the stream ends,
and after any other child comes one `OP_pop` and then the layout of the remaining children. -/
def BlockLayout (ctx final : compiler_ctx_t) : Nat → List statement_t → Prop
  | off, [] => final.code_off = off + 1 ∧ (final.instrs off).op = OP_undefined
  | off, [stat] =>
    ∃ s : compiler_ctx_t, s.code_off = off ∧ s.stat_ctx = ctx.stat_ctx ∧
      s.no_fallback = ctx.no_fallback ∧ (∀ i, i < off → s.instrs i = final.instrs i) ∧
      ¬ FAILED (compile_statement s none stat).1 = true ∧
      (∀ i, i < (compile_statement s none stat).2.code_off →
        final.instrs i = (compile_statement s none stat).2.instrs i) ∧
      final.code_off = (compile_statement s none stat).2.code_off
  | off, stat :: next :: rest =>
    ∃ s : compiler_ctx_t, s.code_off = off ∧ s.stat_ctx = ctx.stat_ctx ∧
      s.no_fallback = ctx.no_fallback ∧ (∀ i, i < off → s.instrs i = final.instrs i) ∧
      ¬ FAILED (compile_statement s none stat).1 = true ∧
      (∀ i, i < (compile_statement s none stat).2.code_off →
        final.instrs i = (compile_statement s none stat).2.instrs i) ∧
      (final.instrs (compile_statement s none stat).2.code_off).op = OP_pop ∧
      BlockLayout ctx final ((compile_statement s none stat).2.code_off + 1) (next :: rest)

/-- The children of the block `{ a; b; c; }`. -/
def block_sample : statement_list :=
  .node 30 (stat_ident "a") (.node 31 (stat_ident "b") (.node 32 (stat_ident "c") .NULL))

/-! ## Unlabelled `break` and `continue` -/

/-- In the words of the specification: `f`, at the position `k` of the context stack `frames`
(the position 0 is the innermost frame), is the innermost frame that carries the label `label`,
that is whose slot is not the empty slot `UINT_MAX`. -/
def Innermost (label : statement_ctx_t → Nat) (frames : List statement_ctx_t) (k : Nat)
    (f : statement_ctx_t) : Prop :=
  frames.get? k = some f ∧ label f ≠ UINT_MAX ∧
  ∀ j g, j < k → frames.get? j = some g → label g = UINT_MAX

/-- The frame of the clause bodies of a switch statement with the label token 2. -/
def switch_frame_sample : statement_ctx_t := ⟨0, false, false, 0x80000002, UINT_MAX⟩

/-- The statement `switch(x) { case 1: b; }`. -/
def switch_sample : switch_statement_t :=
  .mk (expr_ident "x") (.mk (some (expr_int 1)) (.node 40 (stat_ident "b") .NULL) .NULL)

/-! ## The layout of loops -/

/-- The state in which `compile_while_statement` lowers the condition of a `while` loop: the two
labels are allocated, the filler is appended and the continue label is bound. -/
def while_cond_entry (ctx : compiler_ctx_t) : compiler_ctx_t :=
  let break_label := alloc_label ctx
  let continue_label := alloc_label break_label.2
  let instr := push_instr continue_label.2 OP_undefined
  label_set_addr instr.2 continue_label.1

/-- The layout of a `while` loop (not a `do` loop) that is lowered natively, in the stream of
`final`; `ctx` is the state at entry, `cp` the state in which the body is lowered and `sc` its
frame. The filler `OP_undefined` stands at the entry offset; the code of the condition follows
it, lowered in `while_cond_entry ctx`; then `OP_jmp_z` with the break label and `OP_pop`; then
the code of the body; then one `OP_jmp` whose operand is the offset of the first instruction of
the condition, which ends the stream. The continue label is bound to the start of the condition
and the break label to the end of the stream. -/
def WhileLayout (ctx final cp : compiler_ctx_t) (sc : statement_ctx_t) (expr : expression_t)
    (statement : statement_t) : Prop :=
  (final.instrs ctx.code_off).op = OP_undefined ∧
  (while_cond_entry ctx).code_off = ctx.code_off + 1 ∧
  ¬ FAILED (compile_expression (while_cond_entry ctx) expr).1 = true ∧
  (∀ i, i < (compile_expression (while_cond_entry ctx) expr).2.code_off →
    final.instrs i = (compile_expression (while_cond_entry ctx) expr).2.instrs i) ∧
  (final.instrs (compile_expression (while_cond_entry ctx) expr).2.code_off).op = OP_jmp_z ∧
  (final.instrs (compile_expression (while_cond_entry ctx) expr).2.code_off).arg1
    = .uint sc.break_label ∧
  (final.instrs ((compile_expression (while_cond_entry ctx) expr).2.code_off + 1)).op = OP_pop ∧
  cp.code_off = (compile_expression (while_cond_entry ctx) expr).2.code_off + 2 ∧
  ¬ FAILED (compile_statement (set_no_fallback cp true) (some sc) statement).1 = true ∧
  (∀ i, i < (compile_statement (set_no_fallback cp true) (some sc) statement).2.code_off →
    final.instrs i = (compile_statement (set_no_fallback cp true) (some sc) statement).2.instrs i) ∧
  (final.instrs (compile_statement (set_no_fallback cp true) (some sc) statement).2.code_off).op
    = OP_jmp ∧
  (final.instrs (compile_statement (set_no_fallback cp true) (some sc) statement).2.code_off).arg1
    = .uint (ctx.code_off + 1) ∧
  final.code_off = (compile_statement (set_no_fallback cp true) (some sc) statement).2.code_off + 1 ∧
  final.labels (sc.break_label &&& (LABEL_FLAG - 1)) = final.code_off ∧
  (final.labels_cnt ≤ LABEL_FLAG →
    final.labels (sc.continue_label &&& (LABEL_FLAG - 1)) = ctx.code_off + 1)

/-- Whether an expression is a call expression. -/
def expression_t.is_call : expression_t → Bool
  | .EXPR_CALL _ => true
  | _ => false

/-- The initialisation of a `for` loop, as `compile_for_statement` lowers it: the variable list,
or else the initial expression with its value dropped, or nothing. -/
def for_init (ctx : compiler_ctx_t) (variable_list : variable_declaration_t)
    (begin_expr : Option expression_t) : HRESULT × compiler_ctx_t :=
  match variable_list, begin_expr with
  | .mk identifier e next, _ => compile_variable_list ctx (.mk identifier e next)
  | .NULL, some begin_expr =>
    let hres := compile_expression_noret ctx begin_expr (some false)
    if FAILED hres.1.1 then hres.1 else
    if hres.2 = some false then push_instr_hres hres.1.2 OP_pop else (S_OK, hres.1.2)
  | .NULL, none => (S_OK, ctx)

/-- The state in which `compile_for_statement` lowers the condition of the loop: after the
initialisation the two labels are allocated and the filler is appended. -/
def for_cond_entry (ctx : compiler_ctx_t) (variable_list : variable_declaration_t)
    (begin_expr : Option expression_t) : compiler_ctx_t :=
  let init := for_init ctx variable_list begin_expr
  let break_label := alloc_label init.2
  let continue_label := alloc_label break_label.2
  (push_instr continue_label.2 OP_undefined).2

/-- The test of a `for` loop, as `compile_for_statement` lowers it in the state `c`: the
condition and the `OP_jmp_z` with the break label, or nothing. -/
def for_test (c : compiler_ctx_t) (expr : Option expression_t) (break_label : Nat) :
    HRESULT × compiler_ctx_t :=
  match expr with
  | some expr =>
    let hres := compile_expression c expr
    if FAILED hres.1 then hres else
    push_instr_uint hres.2 OP_jmp_z break_label
  | none => (S_OK, c)

/-- The update step of a `for` loop, as `compile_for_statement` lowers it in the state `c`: the
update expression with its value dropped, or nothing. -/
def for_step (c : compiler_ctx_t) (end_expr : Option expression_t) : HRESULT × compiler_ctx_t :=
  match end_expr with
  | some end_expr =>
    let hres := compile_expression_noret c end_expr (some false)
    if FAILED hres.1.1 then hres.1 else
    if hres.2 = some false then push_instr_hres hres.1.2 OP_pop else (S_OK, hres.1.2)
  | none => (S_OK, c)

/-- The test of a `for` loop in the stream of `final`: with a condition, the code of the
condition (lowered in `entry`), `OP_jmp_z` with the break label and `OP_pop`; without one,
`OP_pop` alone. The body is lowered from `cp` on. -/
def ForTestLayout (final entry cp : compiler_ctx_t) (break_label : Nat) :
    Option expression_t → Prop
  | some e =>
    ¬ FAILED (compile_expression entry e).1 = true ∧
    (∀ i, i < (compile_expression entry e).2.code_off →
      final.instrs i = (compile_expression entry e).2.instrs i) ∧
    (final.instrs (compile_expression entry e).2.code_off).op = OP_jmp_z ∧
    (final.instrs (compile_expression entry e).2.code_off).arg1 = .uint break_label ∧
    (final.instrs ((compile_expression entry e).2.code_off + 1)).op = OP_pop ∧
    cp.code_off = (compile_expression entry e).2.code_off + 2
  | none =>
    (∀ i, i < entry.code_off → final.instrs i = entry.instrs i) ∧
    (final.instrs entry.code_off).op = OP_pop ∧ cp.code_off = entry.code_off + 1

/-- The update step of a `for` loop in the stream of `final`, up to the offset `j` of the
backward jump: with an update expression, its code (lowered in `step_entry`) and, unless the
expression is a call, `OP_pop`; without one, nothing. -/
def ForStepLayout (final step_entry : compiler_ctx_t) (j : Nat) : Option expression_t → Prop
  | some e =>
    ¬ FAILED (compile_expression_noret step_entry e (some false)).1.1 = true ∧
    (∀ i, i < (compile_expression_noret step_entry e (some false)).1.2.code_off →
      final.instrs i = (compile_expression_noret step_entry e (some false)).1.2.instrs i) ∧
    (if e.is_call then j = (compile_expression_noret step_entry e (some false)).1.2.code_off
     else
      (final.instrs (compile_expression_noret step_entry e (some false)).1.2.code_off).op
        = OP_pop ∧
      j = (compile_expression_noret step_entry e (some false)).1.2.code_off + 1)
  | none =>
    (∀ i, i < step_entry.code_off → final.instrs i = step_entry.instrs i) ∧
    j = step_entry.code_off

/-- The layout of a `for` loop that is lowered natively, in the stream of `final`; `ctx` is the
state at entry, `cp` the state in which the body is lowered and `sc` its frame. After the code of
the initialisation comes the filler `OP_undefined`; then the test (`ForTestLayout`: the code of
the condition and `OP_jmp_z` with the break label if there is a condition, then `OP_pop`); then
the code of the body; then the update step (`ForStepLayout`: the code of the update expression,
lowered where the continue label is bound, and `OP_pop` unless it is a call); then at the offset
`j` one `OP_jmp` whose operand is the offset of the instruction after the filler, which ends the
stream. The continue label is bound to the offset at which the body ends, where the update step
begins, and the break label to the end of the stream. -/
def ForLayout (ctx final cp : compiler_ctx_t) (sc : statement_ctx_t)
    (variable_list : variable_declaration_t) (begin_expr expr end_expr : Option expression_t)
    (statement : statement_t) : Prop :=
  ¬ FAILED (for_init ctx variable_list begin_expr).1 = true ∧
  (∀ i, i < (for_init ctx variable_list begin_expr).2.code_off →
    final.instrs i = (for_init ctx variable_list begin_expr).2.instrs i) ∧
  (final.instrs (for_init ctx variable_list begin_expr).2.code_off).op = OP_undefined ∧
  (for_cond_entry ctx variable_list begin_expr).code_off
    = (for_init ctx variable_list begin_expr).2.code_off + 1 ∧
  ForTestLayout final (for_cond_entry ctx variable_list begin_expr) cp sc.break_label expr ∧
  ¬ FAILED (compile_statement (set_no_fallback cp true) (some sc) statement).1 = true ∧
  (∀ i, i < (compile_statement (set_no_fallback cp true) (some sc) statement).2.code_off →
    final.instrs i
      = (compile_statement (set_no_fallback cp true) (some sc) statement).2.instrs i) ∧
  (∃ j : Nat,
    ForStepLayout final
      (label_set_addr
        (set_no_fallback (compile_statement (set_no_fallback cp true) (some sc) statement).2
          cp.no_fallback) sc.continue_label) j end_expr ∧
    (final.instrs j).op = OP_jmp ∧
    (final.instrs j).arg1 = .uint ((for_init ctx variable_list begin_expr).2.code_off + 1) ∧
    final.code_off = j + 1) ∧
  final.labels (sc.break_label &&& (LABEL_FLAG - 1)) = final.code_off ∧
  (final.labels_cnt ≤ LABEL_FLAG →
    final.labels (sc.continue_label &&& (LABEL_FLAG - 1))
      = (compile_statement (set_no_fallback cp true) (some sc) statement).2.code_off)

/-- The statement `for(i = 0; c; f()) b;`. -/
def for_native_sample : for_statement_t :=
  .mk .NULL (some (.binary .EXPR_ASSIGN (.mk (expr_ident "i") (expr_int 0))))
    (some (expr_ident "c")) (some (.EXPR_CALL (.mk (expr_ident "f") .NULL))) (stat_ident "b")

/-- The statement `for(;;i) b;`. -/
def for_bare_sample : for_statement_t :=
  .mk .NULL none none (some (expr_ident "i")) (stat_ident "b")

/-- The initialisation of a `for-in` loop, as `compile_forin_statement` lowers it: the declared
variable with its initialiser, or nothing. -/
def forin_init (ctx : compiler_ctx_t) (variable_ : variable_declaration_t) :
    HRESULT × compiler_ctx_t :=
  match variable_ with
  | .mk identifier e next => compile_variable_list ctx (.mk identifier e next)
  | .NULL => (S_OK, ctx)

/-- The reference to the loop variable of a `for-in` loop, as `compile_forin_statement` lowers it
in the state `c`; the flag tells that the target is not assignable and the routine returns. -/
def forin_target (c : compiler_ctx_t) (variable_ : variable_declaration_t) (expr : expression_t) :
    (HRESULT × compiler_ctx_t) × Bool :=
  match variable_ with
  | .mk identifier _ _ => (push_instr_bstr_uint c OP_identid identifier fdexNameEnsure, false)
  | .NULL =>
    if is_memberid_expr expr.type then
      (compile_memberid_expression c expr fdexNameEnsure, false)
    else
      (push_instr_uint c OP_throw_ref JS_E_ILLEGAL_ASSIGN, true)

/-- The state in which `compile_forin_statement` lowers the enumerated object: after the
initialisation, with the two labels allocated. -/
def forin_object_entry (ctx : compiler_ctx_t) (variable_ : variable_declaration_t) :
    compiler_ctx_t :=
  (alloc_label (alloc_label (forin_init ctx variable_).2).2).2

/-- The reference to the loop variable in the stream of `final`, lowered in the state `c` and
ending at the offset `t`: for a declared variable one `OP_identid` with the name and
`fdexNameEnsure`; otherwise the left-hand side is an identifier, a member or an array expression
and the code is its lowering by `compile_memberid_expression` with `fdexNameEnsure`. -/
def ForinTargetLayout (final c : compiler_ctx_t) (t : Nat) (expr : expression_t) :
    variable_declaration_t → Prop
  | .mk identifier _ _ =>
    t = c.code_off + 1 ∧ (final.instrs c.code_off).op = OP_identid ∧
    (final.instrs c.code_off).arg1 = .bstr (some identifier) ∧
    (final.instrs c.code_off).arg2 = .uint fdexNameEnsure
  | .NULL =>
    is_memberid_expr expr.type = true ∧
    ¬ FAILED (compile_memberid_expression c expr fdexNameEnsure).1 = true ∧
    t = (compile_memberid_expression c expr fdexNameEnsure).2.code_off ∧
    ∀ i, i < t → final.instrs i = (compile_memberid_expression c expr fdexNameEnsure).2.instrs i

/-- The layout of a `for-in` loop that is lowered natively, in the stream of `final`; `ctx` is
the state at entry, `cp` the state in which the body is lowered and `sc` its frame, which
reserves four stack cells. After the code of the initialisation comes the code of the enumerated
object, then the reference to the loop variable (`ForinTargetLayout`), which ends at the offset
`t`; then `OP_int` with `DISPID_STARTENUM`, `OP_undefined`, `OP_forin` with the break label; then
the code of the body; then one `OP_jmp` with the continue label, which ends the stream. The
continue label is bound to the offset of the `OP_forin` and the break label to the end of the
stream. -/
def ForinLayout (ctx final cp : compiler_ctx_t) (sc : statement_ctx_t)
    (variable_ : variable_declaration_t) (expr in_expr : expression_t) (statement : statement_t) :
    Prop :=
  ¬ FAILED (forin_init ctx variable_).1 = true ∧
  (∀ i, i < (forin_init ctx variable_).2.code_off →
    final.instrs i = (forin_init ctx variable_).2.instrs i) ∧
  (forin_object_entry ctx variable_).code_off = (forin_init ctx variable_).2.code_off ∧
  ¬ FAILED (compile_expression (forin_object_entry ctx variable_) in_expr).1 = true ∧
  (∀ i, i < (compile_expression (forin_object_entry ctx variable_) in_expr).2.code_off →
    final.instrs i = (compile_expression (forin_object_entry ctx variable_) in_expr).2.instrs i) ∧
  (∃ t : Nat,
    ForinTargetLayout final (compile_expression (forin_object_entry ctx variable_) in_expr).2 t
      expr variable_ ∧
    (final.instrs t).op = OP_int ∧ (final.instrs t).arg1 = .lng DISPID_STARTENUM ∧
    (final.instrs (t + 1)).op = OP_undefined ∧
    (final.instrs (t + 2)).op = OP_forin ∧ (final.instrs (t + 2)).arg1 = .uint sc.break_label ∧
    cp.code_off = t + 3 ∧
    (final.labels_cnt ≤ LABEL_FLAG →
      final.labels (sc.continue_label &&& (LABEL_FLAG - 1)) = t + 2)) ∧
  sc.stack_use = 4 ∧
  ¬ FAILED (compile_statement (set_no_fallback cp true) (some sc) statement).1 = true ∧
  (∀ i, i < (compile_statement (set_no_fallback cp true) (some sc) statement).2.code_off →
    final.instrs i
      = (compile_statement (set_no_fallback cp true) (some sc) statement).2.instrs i) ∧
  (final.instrs (compile_statement (set_no_fallback cp true) (some sc) statement).2.code_off).op
    = OP_jmp ∧
  (final.instrs (compile_statement (set_no_fallback cp true) (some sc) statement).2.code_off).arg1
    = .uint sc.continue_label ∧
  final.code_off
    = (compile_statement (set_no_fallback cp true) (some sc) statement).2.code_off + 1 ∧
  final.labels (sc.break_label &&& (LABEL_FLAG - 1)) = final.code_off

/-- The statement `for(var v = 1 in o) b;`. -/
def forin_var_sample : forin_statement_t :=
  .mk (.mk "v" (some (expr_int 1)) .NULL) (expr_ident "v") (expr_ident "o") (stat_ident "b")

/-! ## The layout of a try statement -/

/-- The frame in which `compile_try_statement` lowers the finally block: none after a catch
block (`stat->catch_block ? NULL : &finally_ctx`), else a frame of two stack cells. -/
def finally_frame : catch_block_t → Option statement_ctx_t
  | .mk _ _ => none
  | .NULL => some ⟨2, false, false, UINT_MAX, UINT_MAX⟩

/-- The name that `compile_try_statement` stores in `OP_push_except`: the identifier of the
catch block, or null. -/
def catch_name : catch_block_t → Option String
  | .mk identifier _ => some identifier
  | .NULL => none

/-- The handler part of `compile_try_statement`, lowered in the state `c` that follows the
`OP_pop_except` of the try block: with a catch block, the jump over the handler, the patch of
`OP_push_except`, the catch body in its frame, `OP_pop_scope` and the patch of the jump; without
one, the patch of `OP_push_except`. The flag tells that the routine returns with this result. -/
def try_handler (c : compiler_ctx_t) (this : statement_t) (off_backup : Nat)
    (prev_no_fallback : Bool) (push_except : Nat) :
    catch_block_t → (HRESULT × compiler_ctx_t) × Bool
  | .mk _ statement =>
    let jmp_finally := push_instr c OP_jmp
    if jmp_finally.1 = UINT_MAX then ((E_OUTOFMEMORY, jmp_finally.2), true) else
    let ctx3 := set_arg1 jmp_finally.2 push_except (.uint jmp_finally.2.code_off)
    let hres := compile_statement (set_no_fallback ctx3 true)
      (some ⟨0, true, false, UINT_MAX, UINT_MAX⟩) statement
    let ctx4 := set_no_fallback hres.2 prev_no_fallback
    if hres.1 = E_NOTIMPL then
      (compile_interp_fallback
        (set_eval (set_code_off ctx4 off_backup) this .try_statement_eval) this, true)
    else
    if FAILED hres.1 then ((hres.1, ctx4), true) else
    let instr := push_instr ctx4 OP_pop_scope
    if instr.1 = UINT_MAX then ((E_OUTOFMEMORY, instr.2), true) else
    ((S_OK, set_arg1 instr.2 jmp_finally.1 (.uint instr.2.code_off)), false)
  | .NULL => ((S_OK, set_arg1 c push_except (.uint c.code_off)), false)

/-- The finally part of `compile_try_statement`, lowered in the state `c` that follows the
handler part: `OP_pop`, the finally body (in a frame of two stack cells when there is no catch
block, without a frame otherwise) and, when there is no catch block, `OP_end_finally`. -/
def try_finally (c : compiler_ctx_t) (this : statement_t) (off_backup : Nat)
    (prev_no_fallback : Bool) (catch_block : catch_block_t) :
    statement_list → HRESULT × compiler_ctx_t
  | .node _ finally_stat _ =>
    let instr := push_instr c OP_pop
    if instr.1 = UINT_MAX then (E_OUTOFMEMORY, instr.2) else
    let hres := compile_statement (set_no_fallback instr.2 true) (finally_frame catch_block)
      finally_stat
    let ctx5 := set_no_fallback hres.2 prev_no_fallback
    if hres.1 = E_NOTIMPL then
      compile_interp_fallback
        (set_eval (set_code_off ctx5 off_backup) this .try_statement_eval) this
    else
    if FAILED hres.1 then (hres.1, ctx5) else
    match catch_block with
    | .mk _ _ => (S_OK, ctx5)
    | .NULL => push_instr_hres ctx5 OP_end_finally
  | .NULL => (S_OK, c)

/-- A try statement is lowered natively from `ctx`: the routine reaches the try block, the catch
block if there is one and the finally block if there is one, and none of them signals
not-implemented. -/
def try_native (ctx : compiler_ctx_t) : try_statement_t → Bool
  | .mk try_statement catch_block finally_statement =>
    (match try_body_entry ctx (.mk try_statement catch_block finally_statement) with
     | some (tp, tsc) =>
       decide ((compile_statement (set_no_fallback tp true) (some tsc) try_statement).1
         ≠ E_NOTIMPL)
     | none => false) &&
    (match catch_block with
     | .mk _ statement =>
       match catch_body_entry ctx (.mk try_statement catch_block finally_statement) with
       | some (cp, csc) =>
         decide ((compile_statement (set_no_fallback cp true) (some csc) statement).1
           ≠ E_NOTIMPL)
       | none => false
     | .NULL => true) &&
    (match finally_statement with
     | .node _ finally_stat _ =>
       match finally_body_entry ctx (.mk try_statement catch_block finally_statement) with
       | some (fp, fsc) =>
         decide ((compile_statement (set_no_fallback fp true) fsc finally_stat).1 ≠ E_NOTIMPL)
       | none => false
     | .NULL => true)

/-- The layout of the try block and of the catch block of a try statement that is lowered
natively, in the stream of `final`; `ctx` is the state at entry. The instruction at the entry
offset is `OP_push_except`; the code of the try block follows (lowered from the state `tp` of
`try_body_entry`), then `OP_pop_except`. Without a catch block the second operand of
`OP_push_except` is the null name and its first operand is the offset after `OP_pop_except`.
With a catch block the second operand is the name of the catch variable; after `OP_pop_except`
comes one `OP_jmp`, then the code of the catch block (lowered from the state `cp` of
`catch_body_entry`), then `OP_pop_scope`; the first operand of `OP_push_except` is the offset of
the first instruction of the catch block, and the operand of the `OP_jmp` is the offset after
`OP_pop_scope`. -/
def TryLayout (ctx final : compiler_ctx_t) (try_statement : statement_t)
    (catch_block : catch_block_t) (finally_statement : statement_list) : Prop :=
  ∃ (tp : compiler_ctx_t) (tsc : statement_ctx_t),
    try_body_entry ctx (.mk try_statement catch_block finally_statement) = some (tp, tsc) ∧
    (final.instrs ctx.code_off).op = OP_push_except ∧ tp.code_off = ctx.code_off + 1 ∧
    ¬ FAILED (compile_statement (set_no_fallback tp true) (some tsc) try_statement).1 = true ∧
    (∀ i, i ≠ ctx.code_off →
      i < (compile_statement (set_no_fallback tp true) (some tsc) try_statement).2.code_off →
      final.instrs i
        = (compile_statement (set_no_fallback tp true) (some tsc) try_statement).2.instrs i) ∧
    (final.instrs
      (compile_statement (set_no_fallback tp true) (some tsc) try_statement).2.code_off).op
      = OP_pop_except ∧
    match catch_block with
    | .NULL =>
      (final.instrs ctx.code_off).arg2 = .bstr none ∧
      (final.instrs ctx.code_off).arg1 = .uint
        ((compile_statement (set_no_fallback tp true) (some tsc) try_statement).2.code_off + 1)
    | .mk identifier statement =>
      (final.instrs ctx.code_off).arg2 = .bstr (some identifier) ∧
      ∃ (cp : compiler_ctx_t) (csc : statement_ctx_t),
        catch_body_entry ctx (.mk try_statement catch_block finally_statement)
          = some (cp, csc) ∧
        cp.code_off
          = (compile_statement (set_no_fallback tp true) (some tsc) try_statement).2.code_off
            + 2 ∧
        (final.instrs ctx.code_off).arg1 = .uint cp.code_off ∧
        (final.instrs
          ((compile_statement (set_no_fallback tp true) (some tsc) try_statement).2.code_off
            + 1)).op = OP_jmp ∧
        ¬ FAILED (compile_statement (set_no_fallback cp true) (some csc) statement).1 = true ∧
        (∀ i, cp.code_off ≤ i →
          i < (compile_statement (set_no_fallback cp true) (some csc) statement).2.code_off →
          final.instrs i
            = (compile_statement (set_no_fallback cp true) (some csc) statement).2.instrs i) ∧
        (final.instrs
          (compile_statement (set_no_fallback cp true) (some csc) statement).2.code_off).op
          = OP_pop_scope ∧
        (final.instrs
          ((compile_statement (set_no_fallback tp true) (some tsc) try_statement).2.code_off
            + 1)).arg1 = .uint
          ((compile_statement (set_no_fallback cp true) (some csc) statement).2.code_off + 1)

/-- The layout of the finally block `finally_stat` of a try statement that is lowered natively,
in the stream of `final`; `ctx` is the state at entry. The finally block is lowered from the
state `fp` of `finally_body_entry`, which follows one `OP_pop`, and its code is in the stream.
Without a catch block it is lowered in a frame that reserves two stack cells and has neither
label nor scope nor exception frame, and `OP_end_finally` follows it and ends the stream; with a
catch block it is lowered without a frame and its code ends the stream. -/
def FinallyLayout (ctx final : compiler_ctx_t) (try_statement : statement_t)
    (catch_block : catch_block_t) (addr : Nat) (finally_stat : statement_t)
    (next : statement_list) : Prop :=
  ∃ (fp : compiler_ctx_t) (fsc : Option statement_ctx_t),
    finally_body_entry ctx (.mk try_statement catch_block (.node addr finally_stat next))
      = some (fp, fsc) ∧
    0 < fp.code_off ∧ (final.instrs (fp.code_off - 1)).op = OP_pop ∧
    ¬ FAILED (compile_statement (set_no_fallback fp true) fsc finally_stat).1 = true ∧
    (∀ i, i < (compile_statement (set_no_fallback fp true) fsc finally_stat).2.code_off →
      final.instrs i
        = (compile_statement (set_no_fallback fp true) fsc finally_stat).2.instrs i) ∧
    match catch_block with
    | .NULL =>
      fsc = some ⟨2, false, false, UINT_MAX, UINT_MAX⟩ ∧
      (final.instrs (compile_statement (set_no_fallback fp true) fsc finally_stat).2.code_off).op
        = OP_end_finally ∧
      final.code_off
        = (compile_statement (set_no_fallback fp true) fsc finally_stat).2.code_off + 1
    | .mk _ _ =>
      fsc = none ∧
      final.code_off = (compile_statement (set_no_fallback fp true) fsc finally_stat).2.code_off

/-- The statement `try { a; } catch(e) { b; } finally { c; }`. -/
def try_catch_finally_sample : try_statement_t :=
  .mk (stat_ident "a") (.mk "e" (stat_ident "b")) (.node 50 (stat_ident "c") .NULL)

/-- The statement `try { a; } finally { c; }`. -/
def try_finally_sample : try_statement_t :=
  .mk (stat_ident "a") .NULL (.node 51 (stat_ident "c") .NULL)

/-- The statement `try { a; } catch(e) { b; } finally { break; }`. -/
def try_catch_break_sample : try_statement_t :=
  .mk (stat_ident "a") (.mk "e" (stat_ident "b")) (.node 52 (.STAT_BREAK ⟨none⟩) .NULL)

/-- The statement `try { a; } finally { break; }`. -/
def try_break_sample : try_statement_t :=
  .mk (stat_ident "a") .NULL (.node 53 (.STAT_BREAK ⟨none⟩) .NULL)

/-- The layout of the clause expressions of a switch statement in the stream of `final`, for the
clause list whose first `case` clause is the `i`-th one and whose code starts at the offset
`off` and ends at the offset `e`. The default clause has no code here. For a clause with an
expression, the expression is lowered from `off` on (in a state `s`), its code is in the stream,
one `OP_case` instruction follows it, at the offset recorded in `case_jmps[i]`, and the code of
the next clause follows that instruction. -/
def CaseExprLayout (final : compiler_ctx_t) (case_jmps : Nat → Nat) :
    Nat → Nat → case_clausule_t → Nat → Prop
  | _, off, .NULL, e => e = off
  | i, off, .mk none _ next, e => CaseExprLayout final case_jmps i off next e
  | i, off, .mk (some ex) _ next, e =>
    ∃ s : compiler_ctx_t, s.code_off = off ∧
      ¬ FAILED (compile_expression s ex).1 = true ∧
      (∀ k, off ≤ k → k < (compile_expression s ex).2.code_off →
        final.instrs k = (compile_expression s ex).2.instrs k) ∧
      case_jmps i = (compile_expression s ex).2.code_off ∧
      (final.instrs (case_jmps i)).op = OP_case ∧
      CaseExprLayout final case_jmps (i + 1) ((compile_expression s ex).2.code_off + 1) next e

/-- The layout of the head of a switch statement `switch(expr) { case_list }` in the stream of
`final`; `ctx` is the state at entry and `bodies_off` the offset at which the clause bodies
start. The discriminant is lowered from the entry state and its code is in the stream; the code
of the clause expressions follows, as `CaseExprLayout` says, up to an offset `e`; at `e` stands
`OP_pop`, at `e + 1` the `OP_jmp` whose offset is `default_jmp`, and the bodies start at
`e + 2`. -/
def SwitchHeadLayout (ctx final : compiler_ctx_t) (case_jmps : Nat → Nat)
    (default_jmp bodies_off : Nat) (expr : expression_t) (case_list : case_clausule_t) : Prop :=
  ¬ FAILED (compile_expression ctx expr).1 = true ∧
  (∀ k, k < (compile_expression ctx expr).2.code_off →
    final.instrs k = (compile_expression ctx expr).2.instrs k) ∧
  ∃ e, CaseExprLayout final case_jmps 0 (compile_expression ctx expr).2.code_off case_list e ∧
    (final.instrs e).op = OP_pop ∧ default_jmp = e + 1 ∧
    (final.instrs default_jmp).op = OP_jmp ∧ bodies_off = e + 2

/-- The statement `switch(x) { case 1: a; case 2: b; }`, without a default clause. -/
def switch_nodefault_sample : switch_statement_t :=
  .mk (expr_ident "x")
    (.mk (some (expr_int 1)) (.node 60 (stat_ident "a") (.node 61 (stat_ident "b") .NULL))
      (.mk (some (expr_int 2)) (.node 61 (stat_ident "b") .NULL) .NULL))

/-! ## The result code `E_NOTIMPL` -/

/-- The result `r` of a routine of the expression compiler is `E_NOTIMPL` only with the write
cursor beyond the offset `0x80004001`, the offset whose bit pattern is that of `E_NOTIMPL`. -/
structure NotImplAt (r : HRESULT × compiler_ctx_t) : Prop where
  out : r.1 = E_NOTIMPL → 0x80004001 < r.2.code_off

/-- The result `r` of a routine of the statement compiler is `E_NOTIMPL` only with the fallback
forbidden or with the write cursor beyond the offset `0x80004001`. -/
structure NotImplStat (r : HRESULT × compiler_ctx_t) : Prop where
  out : r.1 = E_NOTIMPL → r.2.no_fallback = true ∨ 0x80004001 < r.2.code_off


/-! ## Address operands and label tokens -/

/-- The value `v` is a label token, the label it names has been handed out in `c` and is bound
to an offset of the stream of `c` at or after `lo`. -/
def BoundV (lo : Nat) (c : compiler_ctx_t) (v : Nat) : Prop :=
  v &&& LABEL_FLAG ≠ 0 ∧ (v &&& (LABEL_FLAG - 1)) < c.labels_cnt ∧
  lo ≤ c.labels (v &&& (LABEL_FLAG - 1)) ∧ c.labels (v &&& (LABEL_FLAG - 1)) ≤ c.code_off

/-- The value `v` is an offset of the stream of `c` at or after `lo`, or the token of a label
bound in `c`. -/
def OkV (lo : Nat) (c : compiler_ctx_t) (v : Nat) : Prop :=
  (lo ≤ v ∧ v ≤ c.code_off) ∨ BoundV lo c v

/-- The value `v` of an address operand is in order in `c`: it is an offset of the stream at or
after `lo`, or the token of a bound label, or a token that is still pending (`P`), the label of an open frame or of
the routine at work. -/
def TokOK (P : Nat → Prop) (lo : Nat) (c : compiler_ctx_t) (v : Nat) : Prop :=
  (lo ≤ v ∧ v ≤ c.code_off) ∨ BoundV lo c v ∨ P v

/-- The instruction at `i`, when its opcode has an address as first operand, carries an unsigned
operand that is in order. -/
def Good (P : Nat → Prop) (lo : Nat) (c : compiler_ctx_t) (i : Nat) : Prop :=
  instr_info_arg1_type (c.instrs i).op = ARG_ADDR →
    ∃ v, (c.instrs i).arg1 = .uint v ∧ TokOK P lo c v

/-- The labels of the frame `f` are pending. -/
def FrameOK (P : Nat → Prop) (f : statement_ctx_t) : Prop :=
  (f.break_label ≠ UINT_MAX → P f.break_label) ∧
  (f.continue_label ≠ UINT_MAX → P f.continue_label)

/-- The state of the address operands in the segment of the stream from `lo` on: the context
stack is `F`, the values of `B` are offsets of the stream or tokens of bound labels, every
instruction of the segment is in order, apart from the jumps at the offsets `E`, which are still
to be patched, and the pending values are label tokens that name labels that have been handed
out; the segment starts within the stream. Label counts are within the range of label tokens. -/
structure Seg (P E : Nat → Prop) (B : List Nat) (F : List statement_ctx_t) (lo : Nat)
    (c : compiler_ctx_t) : Prop where
  frames : c.stat_ctx = F
  bound : c.labels_cnt ≤ LABEL_FLAG → ∀ t ∈ B, OkV lo c t
  good : c.labels_cnt ≤ LABEL_FLAG → ∀ i, lo ≤ i → i < c.code_off → ¬ E i → Good P lo c i
  pend : c.labels_cnt ≤ LABEL_FLAG → ∀ t, P t → (t &&& (LABEL_FLAG - 1)) < c.labels_cnt
  lo_le : lo ≤ c.code_off
  flag : ∀ t, P t → t &&& LABEL_FLAG ≠ 0

/-- The result `r` of a routine: when it is a success, its state satisfies `Seg`. -/
def SegS (P E : Nat → Prop) (B : List Nat) (F : List statement_ctx_t) (lo : Nat)
    (r : HRESULT × compiler_ctx_t) : Prop :=
  ¬ FAILED r.1 = true → Seg P E B F lo r.2

/-- The result `r` of a part of a routine with the flag that tells that the routine returns at
once: when the routine goes on, its state satisfies `Seg`. -/
def SegF (P E : Nat → Prop) (B : List Nat) (F : List statement_ctx_t) (lo : Nat)
    (r : (HRESULT × compiler_ctx_t) × Bool) : Prop :=
  ¬ r.2 = true → Seg P E B F lo r.1.2


/-- The state in which `compile_subscript_stat` calls `resolve_labels`: the compiler that
`init_compiler` hands out, after the statement (or the implicit block) is lowered. -/
def subscript_stat_lowered (parser : parser_ctx_t) (addr : Nat) (stat : statement_t)
    (next : statement_list) (compile_block : Bool) : compiler_ctx_t :=
  let parser := (init_compiler parser).2
  (if compile_block && !next.is_null then
    compile_block_statement parser.ctx (.node addr stat next)
  else compile_statement parser.ctx none stat).2

/-- The statement `while(c) break;`. -/
def stat_break_loop_sample : statement_t :=
  .STAT_WHILE (.mk false (.EXPR_IDENT ⟨"c"⟩) (.STAT_BREAK ⟨none⟩))

/-! ## Short-circuit and conditional expressions, the `if` statement -/

/-- The layout of `a && b` (with `op = OP_cnd_z`) or `a || b` (with `op = OP_cnd_nz`) in the
stream of `final`; `ctx` is the state at entry. The code of `a`, lowered in `ctx`; one
instruction `op` right after it; the code of `b`, lowered in the state after that append, which
ends the stream. The first operand of the branch is the offset at which the stream ends, and
apart from that operand the stream is the one the lowering of `b` left. -/
def LogicalLayout (ctx final : compiler_ctx_t) (a b : expression_t) (op : jsop_t) : Prop :=
  ¬ FAILED (compile_expression ctx a).1 = true ∧
  (push_instr (compile_expression ctx a).2 op).2.code_off
    = (compile_expression ctx a).2.code_off + 1 ∧
  ¬ FAILED (compile_expression (push_instr (compile_expression ctx a).2 op).2 b).1 = true ∧
  final.code_off
    = (compile_expression (push_instr (compile_expression ctx a).2 op).2 b).2.code_off ∧
  (compile_expression ctx a).2.code_off < final.code_off ∧
  (∀ i, i < (compile_expression ctx a).2.code_off →
    final.instrs i = (compile_expression ctx a).2.instrs i) ∧
  (final.instrs (compile_expression ctx a).2.code_off).op = op ∧
  (final.instrs (compile_expression ctx a).2.code_off).arg1 = .uint final.code_off ∧
  (∀ i, i ≠ (compile_expression ctx a).2.code_off →
    final.instrs i
      = (compile_expression (push_instr (compile_expression ctx a).2 op).2 b).2.instrs i)

/-- The expression `a && b`. -/
def and_sample : expression_t := .binary .EXPR_AND (.mk (expr_ident "a") (expr_ident "b"))

/-- The expression `a || b`. -/
def or_sample : expression_t := .binary .EXPR_OR (.mk (expr_ident "a") (expr_ident "b"))

/-- The state in which `compile_conditional_expression` lowers the true path of `c ? t : f`:
after the code of `c` and the append of `OP_cnd_z`. -/
def cond_true_entry (ctx : compiler_ctx_t) (c : expression_t) : compiler_ctx_t :=
  (push_instr (compile_expression ctx c).2 OP_cnd_z).2

/-- The state in which `compile_conditional_expression` lowers the false path of `c ? t : f`:
after the code of the true path, the append of `OP_jmp`, the patch of the `OP_cnd_z` and the
append of `OP_pop`. -/
def cond_false_entry (ctx : compiler_ctx_t) (c t : expression_t) : compiler_ctx_t :=
  let jmp_false := push_instr (compile_expression ctx c).2 OP_cnd_z
  let hres := compile_expression jmp_false.2 t
  let jmp_end := push_instr hres.2 OP_jmp
  (push_instr (set_arg1 jmp_end.2 jmp_false.1 (.uint jmp_end.2.code_off)) OP_pop).2

/-- The layout of `c ? t : f` in the stream of `final`; `ctx` is the state at entry. The code of
`c`; `OP_cnd_z` right after it; the code of `t`; `OP_jmp`; `OP_pop`; the code of `f`, which ends
the stream. The operand of `OP_cnd_z` is the offset of the `OP_pop`, the operand of `OP_jmp` is
the offset at which the stream ends. -/
def CondLayout (ctx final : compiler_ctx_t) (c t f : expression_t) : Prop :=
  ¬ FAILED (compile_expression ctx c).1 = true ∧
  (cond_true_entry ctx c).code_off = (compile_expression ctx c).2.code_off + 1 ∧
  ¬ FAILED (compile_expression (cond_true_entry ctx c) t).1 = true ∧
  (cond_false_entry ctx c t).code_off
    = (compile_expression (cond_true_entry ctx c) t).2.code_off + 2 ∧
  ¬ FAILED (compile_expression (cond_false_entry ctx c t) f).1 = true ∧
  final.code_off = (compile_expression (cond_false_entry ctx c t) f).2.code_off ∧
  (∀ i, i < (compile_expression ctx c).2.code_off →
    final.instrs i = (compile_expression ctx c).2.instrs i) ∧
  (final.instrs (compile_expression ctx c).2.code_off).op = OP_cnd_z ∧
  (final.instrs (compile_expression ctx c).2.code_off).arg1
    = .uint ((compile_expression (cond_true_entry ctx c) t).2.code_off + 1) ∧
  (∀ i, (compile_expression ctx c).2.code_off < i →
    i < (compile_expression (cond_true_entry ctx c) t).2.code_off →
    final.instrs i = (compile_expression (cond_true_entry ctx c) t).2.instrs i) ∧
  (final.instrs (compile_expression (cond_true_entry ctx c) t).2.code_off).op = OP_jmp ∧
  (final.instrs (compile_expression (cond_true_entry ctx c) t).2.code_off).arg1
    = .uint final.code_off ∧
  (final.instrs ((compile_expression (cond_true_entry ctx c) t).2.code_off + 1)).op = OP_pop ∧
  (∀ i, i ≠ (compile_expression (cond_true_entry ctx c) t).2.code_off →
    final.instrs i = (compile_expression (cond_false_entry ctx c t) f).2.instrs i)

/-- The expression `c ? t : f`. -/
def cond_sample : expression_t :=
  .EXPR_COND (.mk (expr_ident "c") (expr_ident "t") (expr_ident "f"))

/-- The state in which `compile_if_statement` lowers the then-branch: after the code of the
condition and the append of `OP_jmp_z`. -/
def if_then_entry (ctx : compiler_ctx_t) (expr : expression_t) : compiler_ctx_t :=
  (push_instr (compile_expression ctx expr).2 OP_jmp_z).2

/-- The state in which `compile_if_statement` lowers the else part: after the then-branch, the
append of `OP_jmp` and the patch of the `OP_jmp_z`. -/
def if_else_entry (ctx : compiler_ctx_t) (expr : expression_t) (if_stat : statement_t) :
    compiler_ctx_t :=
  let jmp_else := push_instr (compile_expression ctx expr).2 OP_jmp_z
  let hres := compile_statement jmp_else.2 none if_stat
  let jmp_end := push_instr hres.2 OP_jmp
  set_arg1 jmp_end.2 jmp_else.1 (.uint jmp_end.2.code_off)

/-- The else part of an `if` statement, as `compile_if_statement` lowers it: the else-branch, or
one `OP_undefined` when there is none. -/
def if_else_part (c : compiler_ctx_t) : statement_list → HRESULT × compiler_ctx_t
  | .node _ stat _ => compile_statement c none stat
  | .NULL => push_instr_hres c OP_undefined

/-- The layout of an `if` statement in the stream of `final`; `ctx` is the state at entry. The
code of the condition; `OP_jmp_z` right after it; the code of the then-branch; `OP_jmp`; the
else part (the code of the else-branch, or exactly one `OP_undefined` when there is none), which
ends the stream. The operand of the `OP_jmp_z` is the offset right after the `OP_jmp`, where the
else part starts; the operand of the `OP_jmp` is the offset at which the stream ends. Both are
offsets of the stream: they do not carry the label flag as long as the stream is shorter than
`LABEL_FLAG`. -/
def IfLayout (ctx final : compiler_ctx_t) (expr : expression_t) (if_stat : statement_t)
    (else_stat : statement_list) : Prop :=
  ¬ FAILED (compile_expression ctx expr).1 = true ∧
  (if_then_entry ctx expr).code_off = (compile_expression ctx expr).2.code_off + 1 ∧
  ¬ FAILED (compile_statement (if_then_entry ctx expr) none if_stat).1 = true ∧
  (if_else_entry ctx expr if_stat).code_off
    = (compile_statement (if_then_entry ctx expr) none if_stat).2.code_off + 1 ∧
  ¬ FAILED (if_else_part (if_else_entry ctx expr if_stat) else_stat).1 = true ∧
  final.code_off = (if_else_part (if_else_entry ctx expr if_stat) else_stat).2.code_off ∧
  (if_else_entry ctx expr if_stat).code_off ≤ final.code_off ∧
  (∀ i, i < (compile_expression ctx expr).2.code_off →
    final.instrs i = (compile_expression ctx expr).2.instrs i) ∧
  (final.instrs (compile_expression ctx expr).2.code_off).op = OP_jmp_z ∧
  (final.instrs (compile_expression ctx expr).2.code_off).arg1
    = .uint ((compile_statement (if_then_entry ctx expr) none if_stat).2.code_off + 1) ∧
  (∀ i, (compile_expression ctx expr).2.code_off < i →
    i < (compile_statement (if_then_entry ctx expr) none if_stat).2.code_off →
    final.instrs i = (compile_statement (if_then_entry ctx expr) none if_stat).2.instrs i) ∧
  (final.instrs (compile_statement (if_then_entry ctx expr) none if_stat).2.code_off).op
    = OP_jmp ∧
  (final.instrs (compile_statement (if_then_entry ctx expr) none if_stat).2.code_off).arg1
    = .uint final.code_off ∧
  (∀ i, i ≠ (compile_statement (if_then_entry ctx expr) none if_stat).2.code_off →
    final.instrs i = (if_else_part (if_else_entry ctx expr if_stat) else_stat).2.instrs i) ∧
  (else_stat = .NULL →
    final.code_off = (compile_statement (if_then_entry ctx expr) none if_stat).2.code_off + 2 ∧
    (final.instrs ((compile_statement (if_then_entry ctx expr) none if_stat).2.code_off + 1)).op
      = OP_undefined) ∧
  (final.code_off < LABEL_FLAG →
    ((compile_statement (if_then_entry ctx expr) none if_stat).2.code_off + 1) &&& LABEL_FLAG = 0 ∧
    final.code_off &&& LABEL_FLAG = 0)

/-- The statement `if(c) a;`. -/
def if_sample : if_statement_t := .mk (expr_ident "c") (stat_ident "a") .NULL

/-- The statement `if(c) a; else b;`. -/
def if_else_sample : if_statement_t :=
  .mk (expr_ident "c") (stat_ident "a") (.node 1 (stat_ident "b") .NULL)

/-! ## Calls, `new` and array literals -/

/-- The arguments of a call, in source order. -/
def argument_t.toList : argument_t → List expression_t
  | .NULL => []
  | .mk expr next => expr :: next.toList

/-- The expressions `args` are lowered one after the other, in this order, in the stream of
`final` from the offset `off` on, and their code ends at the offset `e`: each one is lowered in
a state `s` whose stream is the one of `final` below the offset reached, its code is in the
stream of `final`, and the next one starts where it ends. -/
def ArgsLayout (final : compiler_ctx_t) : Nat → List expression_t → Nat → Prop
  | off, [], e => e = off
  | off, a :: rest, e =>
    ∃ s : compiler_ctx_t, s.code_off = off ∧ (∀ i, i < off → s.instrs i = final.instrs i) ∧
      ¬ FAILED (compile_expression s a).1 = true ∧
      (∀ i, i < (compile_expression s a).2.code_off →
        final.instrs i = (compile_expression s a).2.instrs i) ∧
      ArgsLayout final (compile_expression s a).2.code_off rest e

/-- The lowering of the callee of a call expression, as `compile_call_expression` does it: as a
reference when the callee is an identifier, a member access or an indexed access, as a value
otherwise. -/
def call_callee (ctx : compiler_ctx_t) (expression : expression_t) : HRESULT × compiler_ctx_t :=
  if is_memberid_expr expression.type then compile_memberid_expression ctx expression 0
  else compile_expression ctx expression

/-- The opcode `compile_call_expression` chooses for the callee `expression`. -/
def call_op (expression : expression_t) : jsop_t :=
  if is_memberid_expr expression.type then OP_call_member else OP_call

/-- The layout of a call in the stream of `final`; `ctx` is the state at entry. The code of the
callee (`call_callee`); the code of the arguments, from left to right; one instruction
`call_op`, which ends the stream, whose first operand is the number of arguments. -/
def CallLayout (ctx final : compiler_ctx_t) (expression : expression_t) (args : argument_t) :
    Prop :=
  ¬ FAILED (call_callee ctx expression).1 = true ∧
  (∀ i, i < (call_callee ctx expression).2.code_off →
    final.instrs i = (call_callee ctx expression).2.instrs i) ∧
  ∃ e, ArgsLayout final (call_callee ctx expression).2.code_off args.toList e ∧
    final.code_off = e + 1 ∧
    (final.instrs e).op = call_op expression ∧
    (final.instrs e).arg1 = .uint args.toList.length

/-- The layout of a `new` expression in the stream of `final`; `ctx` is the state at entry. The
code of the callee, lowered as a value; the code of the arguments, from left to right; one
`OP_new`, which ends the stream, whose operand is the number of arguments. -/
def NewLayout (ctx final : compiler_ctx_t) (expression : expression_t) (args : argument_t) :
    Prop :=
  ¬ FAILED (compile_expression ctx expression).1 = true ∧
  (∀ i, i < (compile_expression ctx expression).2.code_off →
    final.instrs i = (compile_expression ctx expression).2.instrs i) ∧
  ∃ e, ArgsLayout final (compile_expression ctx expression).2.code_off args.toList e ∧
    final.code_off = e + 1 ∧
    (final.instrs e).op = OP_new ∧
    (final.instrs e).arg1 = .lng args.toList.length

/-- The arguments `(1, x)`. -/
def args_sample : argument_t := .mk (expr_int 1) (.mk (expr_ident "x") .NULL)

/-- The callee `(1, g)`, a comma expression. -/
def callee_value_sample : expression_t := .binary .EXPR_COMMA (.mk (expr_int 1) (expr_ident "g"))

/-- The items of an element list of an array literal, in source position order: `none` for each
elision (a hole before an element), `some expr` for each element. -/
def array_element_t.items : array_element_t → List (Option expression_t)
  | .NULL => []
  | .mk elision expr next => List.replicate elision none ++ some expr :: next.items

/-- The number of element expressions of an element list. -/
def array_element_t.element_count : array_element_t → Nat
  | .NULL => 0
  | .mk _ _ next => 1 + next.element_count

/-- The total number of elisions before the elements of an element list. -/
def array_element_t.elision_count : array_element_t → Nat
  | .NULL => 0
  | .mk elision _ next => elision + next.elision_count

/-- The items of an array literal, in source position order: those of the element list, then
one hole for each unit of the trailing length. -/
def array_literal_items : array_literal_expression_t → List (Option expression_t)
  | .mk element_list length => element_list.items ++ List.replicate length none

/-- The items `items` are in the stream of `final` from the offset `off` on, in this order, and
end at the offset `e`: a hole is one `OP_undefined`; an element is the code of its expression,
lowered in a state `s` whose stream is the one of `final` below the offset reached. -/
def ItemsLayout (final : compiler_ctx_t) : Nat → List (Option expression_t) → Nat → Prop
  | off, [], e => e = off
  | off, none :: rest, e =>
    (final.instrs off).op = OP_undefined ∧ ItemsLayout final (off + 1) rest e
  | off, some a :: rest, e =>
    ∃ s : compiler_ctx_t, s.code_off = off ∧ (∀ i, i < off → s.instrs i = final.instrs i) ∧
      ¬ FAILED (compile_expression s a).1 = true ∧
      (∀ i, i < (compile_expression s a).2.code_off →
        final.instrs i = (compile_expression s a).2.instrs i) ∧
      ItemsLayout final (compile_expression s a).2.code_off rest e

/-- The array literal `[a, , b, , ]`: an element, an elision, an element, and a trailing length
of one. -/
def array_sample : array_literal_expression_t :=
  .mk (.mk 0 (expr_ident "a") (.mk 1 (expr_ident "b") .NULL)) 1

/-! ## Label resolution -/

/-- The instruction at `i` of the stream of `c` carries a label token: its first operand is
address-typed and has `LABEL_FLAG` set. -/
def carries_token (c : compiler_ctx_t) (i : Nat) : Prop :=
  instr_info_arg1_type (c.instrs i).op = ARG_ADDR ∧
  ∃ v, (c.instrs i).arg1 = .uint v ∧ v &&& LABEL_FLAG ≠ 0

/-- A state with the stream `OP_pop; OP_jmp <token of label 0>; OP_int <LABEL_FLAG>` in which
label 0 is bound to the offset 3. -/
def ctx_token_sample : compiler_ctx_t :=
  { ctx_empty with
    instrs := fun i =>
      if i = 0 then ⟨OP_pop, .uint 0, .uint 0⟩
      else if i = 1 then ⟨OP_jmp, .uint LABEL_FLAG, .uint 7⟩
      else ⟨OP_int, .uint LABEL_FLAG, .uint 0⟩
    code_off := 3, code_size := 64, labels := fun _ => 3, labels_size := 8, labels_cnt := 1 }

/-! ## The patches of a switch statement -/

/-- The state of the instructions of the stream of `c` from `lo` on, as the expression compiler
leaves them: every call instruction (`OP_call`, `OP_call_member`) has the second operand 1, and
every instruction whose first operand is address-typed, apart from the jumps at the offsets `E`
that are still to be patched, carries an offset of the stream at or after `lo`. -/
structure ExprOps (E : Nat → Prop) (lo : Nat) (c : compiler_ctx_t) : Prop where
  calls : ∀ i, lo ≤ i → i < c.code_off →
    ((c.instrs i).op = OP_call ∨ (c.instrs i).op = OP_call_member) → (c.instrs i).arg2 = .lng 1
  addrs : ∀ i, lo ≤ i → i < c.code_off → ¬ E i →
    instr_info_arg1_type (c.instrs i).op = ARG_ADDR →
    ∃ v, (c.instrs i).arg1 = .uint v ∧ lo ≤ v ∧ v ≤ c.code_off
  lo_le : lo ≤ c.code_off

/-- The result `r` of a routine: when it is a success, its state satisfies `ExprOps`. -/
def ExprOpsS (E : Nat → Prop) (lo : Nat) (r : HRESULT × compiler_ctx_t) : Prop :=
  ¬ FAILED r.1 = true → ExprOps E lo r.2


/-! ## Label tokens -/

theorem tok_split (n : Nat) (h : n < 2^31) : n ||| 2^31 = 2^31 + n := by
  have := Nat.mul_add_lt_is_or h 1
  rw [Nat.mul_one] at this
  rw [this, Nat.lor_comm]

theorem tok_idx (n : Nat) (h : n < 2^31) : (n ||| 2^31) &&& (2^31 - 1) = n := by
  rw [tok_split n h, Nat.and_pow_two_sub_one_eq_mod]
  omega

theorem tok_flag (n : Nat) (h : n < 2^31) : (n ||| 2^31) &&& 2^31 ≠ 0 := by
  rw [tok_split n h]
  intro h0
  have h3 : ((2^31 + n) &&& 2^31).testBit 31 = true := by
    rw [Nat.testBit_and, Nat.testBit_two_pow_add_eq, Nat.testBit_lt_two_pow h, Nat.testBit_two_pow_self]
    rfl
  rw [h0, Nat.zero_testBit] at h3
  exact Bool.noConfusion h3

theorem lt_flag (n : Nat) (h : n < 2^31) : n &&& 2^31 = 0 := by
  apply Nat.eq_of_testBit_eq
  intro i
  rw [Nat.testBit_and, Nat.zero_testBit]
  by_cases hi : 31 = i
  · subst hi
    rw [Nat.testBit_lt_two_pow h]; rfl
  · rw [Nat.testBit_two_pow_of_ne hi, Bool.and_false]


/-! ## The frame relation: primitives -/

theorem Rel.refl (c : compiler_ctx_t) : Rel c.code_off c.labels_cnt c c :=
  ⟨le_refl _, fun _ _ => rfl, le_refl _, id, le_refl _, le_refl _, fun _ _ _ => rfl,
   fun _ => ⟨[], rfl, by simp, List.nodup_nil⟩, le_refl _, id, rfl, rfl⟩

/-- Bindings of labels below `m`, followed by bindings of labels from `m` on. -/
theorem log_append {b m k : Nat} {n1 n2 : List Nat} (p1 : ∀ l ∈ n1, b ≤ l ∧ l < m)
    (d1 : n1.Nodup) (p2 : ∀ l ∈ n2, m ≤ l ∧ l < k) (d2 : n2.Nodup) (hbm : b ≤ m) (hmk : m ≤ k) :
    (∀ l ∈ n2 ++ n1, b ≤ l ∧ l < k) ∧ (n2 ++ n1).Nodup := by
  constructor
  · intro l hl
    rcases List.mem_append.1 hl with hl | hl
    · exact ⟨le_trans hbm (p2 l hl).1, (p2 l hl).2⟩
    · exact ⟨(p1 l hl).1, lt_of_lt_of_le (p1 l hl).2 hmk⟩
  · rw [List.nodup_append]
    refine ⟨d2, d1, ?_⟩
    intro x h2 h1
    exact absurd (p1 x h1).2 (not_lt.mpr (p2 x h2).1)

theorem Rel.trans {a b : Nat} {c0 c c' : compiler_ctx_t} (h : Rel a b c0 c)
    (h' : Rel c.code_off c.labels_cnt c c') : Rel a b c0 c' := by
  refine ⟨le_trans h.off_ge h'.off_ge, ?_, le_trans h.size_le h'.size_le,
    fun w => h'.off_le (h.off_le w), le_trans h.cnt_ge h'.cnt_ge, le_trans h.cnt_mono h'.cnt_mono,
    ?_, ?_, le_trans h.lsize_le h'.lsize_le, fun w => h'.cnt_le (h.cnt_le w),
    h'.stat_ctx_eq.trans h.stat_ctx_eq, h'.no_fallback_eq.trans h.no_fallback_eq⟩
  · intro i hi
    rw [h'.instrs_eq i (lt_of_lt_of_le hi h.off_ge), h.instrs_eq i hi]
  · intro hb l hl
    have hc : c.labels_cnt ≤ LABEL_FLAG := le_trans h'.cnt_ge hb
    rw [h'.labels_eq hb l (lt_of_lt_of_le hl h.cnt_ge), h.labels_eq hc l hl]
  · intro hb
    have hc : c.labels_cnt ≤ LABEL_FLAG := le_trans h'.cnt_ge hb
    obtain ⟨n1, e1, p1, d1⟩ := h.log_ext hc
    obtain ⟨n2, e2, p2, d2⟩ := h'.log_ext hb
    exact ⟨n2 ++ n1, by rw [e2, e1, List.append_assoc],
      log_append p1 d1 p2 d2 h.cnt_ge h'.cnt_ge⟩

/-- A step that leaves the offsets, the buffer below the offset, the labels and the context
untouched. -/
theorem Rel.of_eq {a b : Nat} {c0 c c' : compiler_ctx_t} (h : Rel a b c0 c)
    (h1 : c'.code_off = c.code_off) (h2 : ∀ i, i < c.code_off → c'.instrs i = c.instrs i)
    (h3 : c'.code_size = c.code_size)
    (h4 : c'.labels_cnt = c.labels_cnt) (h5 : c'.labels = c.labels)
    (h6 : c'.labels_size = c.labels_size) (h7 : c'.label_log = c.label_log)
    (h8 : c'.stat_ctx = c.stat_ctx) (h9 : c'.no_fallback = c.no_fallback) : Rel a b c0 c' := by
  refine ⟨h1 ▸ h.off_ge, ?_, h3 ▸ h.size_le, fun w => by rw [h1, h3]; exact h.off_le w,
    h4 ▸ h.cnt_ge, h4 ▸ h.cnt_mono, ?_, ?_, h6 ▸ h.lsize_le,
    fun w => by rw [h4, h6]; exact h.cnt_le w, h8.trans h.stat_ctx_eq, h9.trans h.no_fallback_eq⟩
  · intro i hi
    rw [h2 i (lt_of_lt_of_le hi h.off_ge), h.instrs_eq i hi]
  · intro hb l hl
    rw [h5]; exact h.labels_eq (h4 ▸ hb) l hl
  · intro hb
    rw [h7, h4]; exact h.log_ext (h4 ▸ hb)



theorem heap_alloc_cases (c : compiler_ctx_t) :
    ∃ b hp, heap_alloc c = (b, { c with heap := hp }) := by
  unfold heap_alloc
  split
  · exact ⟨true, c.heap, rfl⟩
  · exact ⟨_, _, rfl⟩

/-- The fields that an allocation request leaves alone. -/
theorem heap_alloc_proj (c : compiler_ctx_t) :
    (heap_alloc c).2.instrs = c.instrs ∧ (heap_alloc c).2.bstr_pool = c.bstr_pool ∧
    (heap_alloc c).2.bstr_pool_size = c.bstr_pool_size ∧ (heap_alloc c).2.bstr_cnt = c.bstr_cnt ∧
    (heap_alloc c).2.code_off = c.code_off ∧ (heap_alloc c).2.code_size = c.code_size ∧
    (heap_alloc c).2.labels = c.labels ∧ (heap_alloc c).2.labels_size = c.labels_size ∧
    (heap_alloc c).2.labels_cnt = c.labels_cnt ∧ (heap_alloc c).2.stat_ctx = c.stat_ctx ∧
    (heap_alloc c).2.no_fallback = c.no_fallback ∧ (heap_alloc c).2.stat_eval = c.stat_eval ∧
    (heap_alloc c).2.label_log = c.label_log := by
  obtain ⟨b, hp, e⟩ := heap_alloc_cases c
  rw [e]
  exact ⟨rfl, rfl, rfl, rfl, rfl, rfl, rfl, rfl, rfl, rfl, rfl, rfl, rfl⟩

/-- The two outcomes of `push_instr`: no room and no memory, or the opcode is stored at
`code_off`, possibly in a larger buffer. -/
theorem push_instr_cases (c : compiler_ctx_t) (op : jsop_t) :
    (∃ hp, push_instr c op = (UINT_MAX, { c with heap := hp })) ∨
    (∃ hp n, c.code_size ≤ n ∧ (c.code_off ≤ c.code_size → c.code_off < n) ∧
      push_instr c op = (c.code_off,
        { c with heap := hp, code_size := n, code_off := c.code_off + 1,
                 instrs := Function.update c.instrs c.code_off { c.instrs c.code_off with op := op } })) := by
  obtain ⟨b, hp, e⟩ := heap_alloc_cases c
  unfold push_instr
  rw [e]
  by_cases h0 : c.code_size = 0
  · rw [if_pos h0]
    cases b
    · exact Or.inl ⟨hp, rfl⟩
    · exact Or.inr ⟨hp, 64, by omega, fun w => by omega, rfl⟩
  · rw [if_neg h0]
    by_cases h1 : c.code_size = c.code_off
    · rw [if_pos h1]
      cases b
      · exact Or.inl ⟨hp, rfl⟩
      · exact Or.inr ⟨hp, c.code_size * 2, by omega, fun _ => by omega, rfl⟩
    · rw [if_neg h1]
      exact Or.inr ⟨c.heap, c.code_size, le_refl _, fun w => by omega, rfl⟩

theorem Rel.local_intro {c c' : compiler_ctx_t}
    (h1 : c.code_off ≤ c'.code_off) (h2 : ∀ i, i < c.code_off → c'.instrs i = c.instrs i)
    (h3 : c.code_size ≤ c'.code_size) (h3' : c.code_off ≤ c.code_size → c'.code_off ≤ c'.code_size)
    (h4 : c'.labels_cnt = c.labels_cnt) (h5 : c'.labels = c.labels)
    (h6 : c'.labels_size = c.labels_size) (h7 : c'.label_log = c.label_log)
    (h8 : c'.stat_ctx = c.stat_ctx) (h9 : c'.no_fallback = c.no_fallback) :
    Rel c.code_off c.labels_cnt c c' :=
  ⟨h1, h2, h3, h3', h4 ▸ le_refl _, h4 ▸ le_refl _, fun _ _ _ => by rw [h5],
   fun _ => ⟨[], by simp [h7], by simp, List.nodup_nil⟩, h6 ▸ le_refl _,
   fun w => by rw [h4, h6]; exact w, h8, h9⟩

theorem heap_alloc_rel {a b : Nat} {c0 c : compiler_ctx_t} (h : Rel a b c0 c) :
    Rel a b c0 (heap_alloc c).2 := by
  obtain ⟨b, hp, e⟩ := heap_alloc_cases c
  rw [e]
  exact h.trans (Rel.local_intro (le_refl _) (fun _ _ => rfl) (le_refl _) id rfl rfl rfl rfl rfl rfl)

theorem push_instr_idx (c : compiler_ctx_t) (op : jsop_t) :
    (push_instr c op).1 = UINT_MAX ∨ (push_instr c op).1 = c.code_off := by
  rcases push_instr_cases c op with ⟨hp, e⟩ | ⟨hp, n, _, _, e⟩ <;> rw [e]
  · exact Or.inl rfl
  · exact Or.inr rfl

theorem push_instr_rel {a b : Nat} {c0 c : compiler_ctx_t} (op : jsop_t) (h : Rel a b c0 c) :
    Rel a b c0 (push_instr c op).2 := by
  rcases push_instr_cases c op with ⟨hp, e⟩ | ⟨hp, n, h1, h2, e⟩ <;> rw [e]
  · exact h.trans (Rel.local_intro (le_refl _) (fun _ _ => rfl) (le_refl _) id rfl rfl rfl rfl rfl rfl)
  · refine h.trans (Rel.local_intro (Nat.le_succ _) ?_ h1 h2 rfl rfl rfl rfl rfl rfl)
    intro i hi
    exact Function.update_noteq (Nat.ne_of_lt hi) _ _

theorem push_instr_idx_ge {a b : Nat} {c0 c : compiler_ctx_t} {op : jsop_t} (h : Rel a b c0 c)
    (hne : ¬ (push_instr c op).1 = UINT_MAX) : a ≤ (push_instr c op).1 := by
  rcases push_instr_idx c op with e | e
  · exact absurd e hne
  · rw [e]; exact h.off_ge

theorem set_arg1_rel {a b : Nat} {c0 c : compiler_ctx_t} {p : Nat} (v : instr_arg_t)
    (h : Rel a b c0 c) (hp : a ≤ p) : Rel a b c0 (set_arg1 c p v) := by
  refine ⟨h.off_ge, ?_, h.size_le, h.off_le, h.cnt_ge, h.cnt_mono, h.labels_eq, h.log_ext,
    h.lsize_le, h.cnt_le, h.stat_ctx_eq, h.no_fallback_eq⟩
  intro i hi
  have : i ≠ p := Nat.ne_of_lt (lt_of_lt_of_le hi hp)
  simp only [set_arg1, Function.update_noteq this]
  exact h.instrs_eq i hi

theorem set_arg2_rel {a b : Nat} {c0 c : compiler_ctx_t} {p : Nat} (v : instr_arg_t)
    (h : Rel a b c0 c) (hp : a ≤ p) : Rel a b c0 (set_arg2 c p v) := by
  refine ⟨h.off_ge, ?_, h.size_le, h.off_le, h.cnt_ge, h.cnt_mono, h.labels_eq, h.log_ext,
    h.lsize_le, h.cnt_le, h.stat_ctx_eq, h.no_fallback_eq⟩
  intro i hi
  have : i ≠ p := Nat.ne_of_lt (lt_of_lt_of_le hi hp)
  simp only [set_arg2, Function.update_noteq this]
  exact h.instrs_eq i hi

theorem push_instr_hres_rel {a b : Nat} {c0 c : compiler_ctx_t} (op : jsop_t) (h : Rel a b c0 c) :
    Rel a b c0 (push_instr_hres c op).2 := push_instr_rel op h

theorem Rel.ite {a b : Nat} {c0 : compiler_ctx_t} {α : Type} {p : Prop} [Decidable p]
    {A B : α × compiler_ctx_t} (hA : p → Rel a b c0 A.2) (hB : ¬ p → Rel a b c0 B.2) :
    Rel a b c0 (if p then A else B).2 := by
  split
  · exact hA (by assumption)
  · exact hB (by assumption)

theorem Rel.ite1 {a b : Nat} {c0 : compiler_ctx_t} {α β : Type} {p : Prop} [Decidable p]
    {A B : (α × compiler_ctx_t) × β} (hA : p → Rel a b c0 A.1.2) (hB : ¬ p → Rel a b c0 B.1.2) :
    Rel a b c0 (if p then A else B).1.2 := by
  split
  · exact hA (by assumption)
  · exact hB (by assumption)

theorem Rel.ite2 {a b : Nat} {c0 : compiler_ctx_t} {α β : Type} {p : Prop} [Decidable p]
    {A B : α × β × compiler_ctx_t} (hA : p → Rel a b c0 A.2.2) (hB : ¬ p → Rel a b c0 B.2.2) :
    Rel a b c0 (if p then A else B).2.2 := by
  split
  · exact hA (by assumption)
  · exact hB (by assumption)

theorem Rel.ite0 {a b : Nat} {c0 : compiler_ctx_t} {p : Prop} [Decidable p]
    {A B : compiler_ctx_t} (hA : p → Rel a b c0 A) (hB : ¬ p → Rel a b c0 B) :
    Rel a b c0 (if p then A else B) := by
  split
  · exact hA (by assumption)
  · exact hB (by assumption)

/-- A step that changes none of the fields that `Rel` looks at. -/
theorem Rel.of_agree {a b : Nat} {c0 c c' : compiler_ctx_t} (h : Rel a b c0 c)
    (e : c'.instrs = c.instrs ∧ c'.code_off = c.code_off ∧ c'.code_size = c.code_size ∧
      c'.labels = c.labels ∧ c'.labels_size = c.labels_size ∧ c'.labels_cnt = c.labels_cnt ∧
      c'.stat_ctx = c.stat_ctx ∧ c'.no_fallback = c.no_fallback ∧ c'.label_log = c.label_log) :
    Rel a b c0 c' := by
  obtain ⟨e1, e2, e3, e4, e5, e6, e7, e8, e9⟩ := e
  exact h.trans (Rel.local_intro (le_of_eq e2.symm) (fun _ _ => by rw [e1]) (le_of_eq e3.symm)
    (fun w => by rw [e2, e3]; exact w) e6 e4 e5 e9 e7 e8)

theorem compiler_alloc_string_proj (c : compiler_ctx_t) (str : String) :
    (compiler_alloc_string c str).2.instrs = c.instrs ∧
    (compiler_alloc_string c str).2.code_off = c.code_off ∧
    (compiler_alloc_string c str).2.code_size = c.code_size ∧
    (compiler_alloc_string c str).2.labels = c.labels ∧
    (compiler_alloc_string c str).2.labels_size = c.labels_size ∧
    (compiler_alloc_string c str).2.labels_cnt = c.labels_cnt ∧
    (compiler_alloc_string c str).2.stat_ctx = c.stat_ctx ∧
    (compiler_alloc_string c str).2.no_fallback = c.no_fallback ∧
    (compiler_alloc_string c str).2.label_log = c.label_log := by
  unfold compiler_alloc_string
  dsimp only
  split <;> simp only [heap_alloc_proj, and_self]

theorem compiler_alloc_bstr_proj (c : compiler_ctx_t) (str : String) :
    (compiler_alloc_bstr c str).2.instrs = c.instrs ∧
    (compiler_alloc_bstr c str).2.code_off = c.code_off ∧
    (compiler_alloc_bstr c str).2.code_size = c.code_size ∧
    (compiler_alloc_bstr c str).2.labels = c.labels ∧
    (compiler_alloc_bstr c str).2.labels_size = c.labels_size ∧
    (compiler_alloc_bstr c str).2.labels_cnt = c.labels_cnt ∧
    (compiler_alloc_bstr c str).2.stat_ctx = c.stat_ctx ∧
    (compiler_alloc_bstr c str).2.no_fallback = c.no_fallback ∧
    (compiler_alloc_bstr c str).2.label_log = c.label_log := by
  unfold compiler_alloc_bstr
  dsimp only
  split_ifs <;> simp only [heap_alloc_proj, and_self]

theorem compiler_alloc_string_rel {a b : Nat} {c0 c : compiler_ctx_t} (str : String)
    (h : Rel a b c0 c) : Rel a b c0 (compiler_alloc_string c str).2 :=
  h.of_agree (compiler_alloc_string_proj c str)

theorem compiler_alloc_bstr_rel {a b : Nat} {c0 c : compiler_ctx_t} (str : String)
    (h : Rel a b c0 c) : Rel a b c0 (compiler_alloc_bstr c str).2 :=
  h.of_agree (compiler_alloc_bstr_proj c str)


/-! ## The frame relation: expressions -/

theorem push_instr_int_rel {a b : Nat} {c0 c : compiler_ctx_t} (op : jsop_t) (arg : Int)
    (h : Rel a b c0 c) : Rel a b c0 (push_instr_int c op arg).2 := by
  unfold push_instr_int
  dsimp only
  repeat (first
    | with_reducible (first
        | exact h
        | assumption
        | intro _
        | apply Rel.ite
        | apply Rel.ite1
        | apply Rel.ite2
        | apply Rel.ite0
        | apply set_arg1_rel
        | apply set_arg2_rel
        | apply push_instr_idx_ge
        | apply push_instr_rel
        | apply push_instr_hres_rel
        | apply heap_alloc_rel
        | apply compiler_alloc_string_rel
        | apply compiler_alloc_bstr_rel)
    | split)

theorem push_instr_uint_rel {a b : Nat} {c0 c : compiler_ctx_t} (op : jsop_t) (arg : Nat)
    (h : Rel a b c0 c) : Rel a b c0 (push_instr_uint c op arg).2 := by
  unfold push_instr_uint
  dsimp only
  repeat (first
    | with_reducible (first
        | exact h
        | assumption
        | intro _
        | apply Rel.ite
        | apply Rel.ite1
        | apply Rel.ite2
        | apply Rel.ite0
        | apply set_arg1_rel
        | apply set_arg2_rel
        | apply push_instr_idx_ge
        | apply push_instr_rel
        | apply push_instr_hres_rel
        | apply heap_alloc_rel
        | apply compiler_alloc_string_rel
        | apply compiler_alloc_bstr_rel
        | apply push_instr_int_rel)
    | split)

theorem push_instr_str_rel {a b : Nat} {c0 c : compiler_ctx_t} (op : jsop_t) (arg : String)
    (h : Rel a b c0 c) : Rel a b c0 (push_instr_str c op arg).2 := by
  unfold push_instr_str
  dsimp only
  repeat (first
    | with_reducible (first
        | exact h
        | assumption
        | intro _
        | apply Rel.ite
        | apply Rel.ite1
        | apply Rel.ite2
        | apply Rel.ite0
        | apply set_arg1_rel
        | apply set_arg2_rel
        | apply push_instr_idx_ge
        | apply push_instr_rel
        | apply push_instr_hres_rel
        | apply heap_alloc_rel
        | apply compiler_alloc_string_rel
        | apply compiler_alloc_bstr_rel
        | apply push_instr_int_rel
        | apply push_instr_uint_rel)
    | split)

theorem push_instr_bstr_rel {a b : Nat} {c0 c : compiler_ctx_t} (op : jsop_t) (arg : String)
    (h : Rel a b c0 c) : Rel a b c0 (push_instr_bstr c op arg).2 := by
  unfold push_instr_bstr
  dsimp only
  repeat (first
    | with_reducible (first
        | exact h
        | assumption
        | intro _
        | apply Rel.ite
        | apply Rel.ite1
        | apply Rel.ite2
        | apply Rel.ite0
        | apply set_arg1_rel
        | apply set_arg2_rel
        | apply push_instr_idx_ge
        | apply push_instr_rel
        | apply push_instr_hres_rel
        | apply heap_alloc_rel
        | apply compiler_alloc_string_rel
        | apply compiler_alloc_bstr_rel
        | apply push_instr_int_rel
        | apply push_instr_uint_rel
        | apply push_instr_str_rel)
    | split)

theorem push_instr_bstr_uint_rel {a b : Nat} {c0 c : compiler_ctx_t} (op : jsop_t) (arg1 : String) (arg2 : Nat)
    (h : Rel a b c0 c) : Rel a b c0 (push_instr_bstr_uint c op arg1 arg2).2 := by
  unfold push_instr_bstr_uint
  dsimp only
  repeat (first
    | with_reducible (first
        | exact h
        | assumption
        | intro _
        | apply Rel.ite
        | apply Rel.ite1
        | apply Rel.ite2
        | apply Rel.ite0
        | apply set_arg1_rel
        | apply set_arg2_rel
        | apply push_instr_idx_ge
        | apply push_instr_rel
        | apply push_instr_hres_rel
        | apply heap_alloc_rel
        | apply compiler_alloc_string_rel
        | apply compiler_alloc_bstr_rel
        | apply push_instr_int_rel
        | apply push_instr_uint_rel
        | apply push_instr_str_rel
        | apply push_instr_bstr_rel)
    | split)

theorem push_instr_uint_str_rel {a b : Nat} {c0 c : compiler_ctx_t} (op : jsop_t) (arg1 : Nat) (arg2 : String)
    (h : Rel a b c0 c) : Rel a b c0 (push_instr_uint_str c op arg1 arg2).2 := by
  unfold push_instr_uint_str
  dsimp only
  repeat (first
    | with_reducible (first
        | exact h
        | assumption
        | intro _
        | apply Rel.ite
        | apply Rel.ite1
        | apply Rel.ite2
        | apply Rel.ite0
        | apply set_arg1_rel
        | apply set_arg2_rel
        | apply push_instr_idx_ge
        | apply push_instr_rel
        | apply push_instr_hres_rel
        | apply heap_alloc_rel
        | apply compiler_alloc_string_rel
        | apply compiler_alloc_bstr_rel
        | apply push_instr_int_rel
        | apply push_instr_uint_rel
        | apply push_instr_str_rel
        | apply push_instr_bstr_rel
        | apply push_instr_bstr_uint_rel)
    | split)

theorem push_instr_double_rel {a b : Nat} {c0 c : compiler_ctx_t} (op : jsop_t) (arg : DOUBLE)
    (h : Rel a b c0 c) : Rel a b c0 (push_instr_double c op arg).2 := by
  unfold push_instr_double
  dsimp only
  repeat (first
    | with_reducible (first
        | exact h
        | assumption
        | intro _
        | apply Rel.ite
        | apply Rel.ite1
        | apply Rel.ite2
        | apply Rel.ite0
        | apply set_arg1_rel
        | apply set_arg2_rel
        | apply push_instr_idx_ge
        | apply push_instr_rel
        | apply push_instr_hres_rel
        | apply heap_alloc_rel
        | apply compiler_alloc_string_rel
        | apply compiler_alloc_bstr_rel
        | apply push_instr_int_rel
        | apply push_instr_uint_rel
        | apply push_instr_str_rel
        | apply push_instr_bstr_rel
        | apply push_instr_bstr_uint_rel
        | apply push_instr_uint_str_rel)
    | split)

theorem push_undefined_loop_rel {a b : Nat} {c0 : compiler_ctx_t} (n : Nat) :
    ∀ {c : compiler_ctx_t}, Rel a b c0 c → Rel a b c0 (push_undefined_loop c n).2 := by
  induction n with
  | zero => intro c h; exact h
  | succ n ih =>
    intro c h
    unfold push_undefined_loop
    dsimp only
    split
    · exact push_instr_rel _ h
    · exact ih (push_instr_rel _ h)

theorem literal_as_bstr_rel {a b : Nat} {c0 c : compiler_ctx_t} (literal : literal_t)
    (h : Rel a b c0 c) : Rel a b c0 (literal_as_bstr c literal).2.2 := by
  unfold literal_as_bstr int_to_bstr double_to_bstr
  split <;> (try dsimp only)
  repeat (first
    | with_reducible (first
        | exact h
        | assumption
        | intro _
        | apply Rel.ite
        | apply Rel.ite1
        | apply Rel.ite2
        | apply Rel.ite0
        | apply set_arg1_rel
        | apply set_arg2_rel
        | apply push_instr_idx_ge
        | apply push_instr_rel
        | apply push_instr_hres_rel
        | apply heap_alloc_rel
        | apply compiler_alloc_string_rel
        | apply compiler_alloc_bstr_rel
        | apply push_instr_int_rel
        | apply push_instr_uint_rel
        | apply push_instr_str_rel
        | apply push_instr_bstr_rel
        | apply push_instr_bstr_uint_rel
        | apply push_instr_uint_str_rel
        | apply push_instr_double_rel
        | apply push_undefined_loop_rel)
    | split)

theorem compile_literal_rel {a b : Nat} {c0 c : compiler_ctx_t} (literal : literal_t)
    (h : Rel a b c0 c) : Rel a b c0 (compile_literal c literal).2 := by
  unfold compile_literal
  split <;> (try dsimp only)
  repeat (first
    | with_reducible (first
        | exact h
        | assumption
        | intro _
        | apply Rel.ite
        | apply Rel.ite1
        | apply Rel.ite2
        | apply Rel.ite0
        | apply set_arg1_rel
        | apply set_arg2_rel
        | apply push_instr_idx_ge
        | apply push_instr_rel
        | apply push_instr_hres_rel
        | apply heap_alloc_rel
        | apply compiler_alloc_string_rel
        | apply compiler_alloc_bstr_rel
        | apply push_instr_int_rel
        | apply push_instr_uint_rel
        | apply push_instr_str_rel
        | apply push_instr_bstr_rel
        | apply push_instr_bstr_uint_rel
        | apply push_instr_uint_str_rel
        | apply push_instr_double_rel
        | apply push_undefined_loop_rel
        | apply literal_as_bstr_rel)
    | split)

theorem compile_function_expression_rel {a b : Nat} {c0 c : compiler_ctx_t} (expr : function_expression_t)
    (h : Rel a b c0 c) : Rel a b c0 (compile_function_expression c expr).2 := by
  unfold compile_function_expression
  split <;> (try dsimp only)
  repeat (first
    | with_reducible (first
        | exact h
        | assumption
        | intro _
        | apply Rel.ite
        | apply Rel.ite1
        | apply Rel.ite2
        | apply Rel.ite0
        | apply set_arg1_rel
        | apply set_arg2_rel
        | apply push_instr_idx_ge
        | apply push_instr_rel
        | apply push_instr_hres_rel
        | apply heap_alloc_rel
        | apply compiler_alloc_string_rel
        | apply compiler_alloc_bstr_rel
        | apply push_instr_int_rel
        | apply push_instr_uint_rel
        | apply push_instr_str_rel
        | apply push_instr_bstr_rel
        | apply push_instr_bstr_uint_rel
        | apply push_instr_uint_str_rel
        | apply push_instr_double_rel
        | apply push_undefined_loop_rel
        | apply literal_as_bstr_rel
        | apply compile_literal_rel)
    | split)

theorem compile_binary_expression_rel_aux {a b : Nat} {c0 c : compiler_ctx_t} {e1 e2 : expression_t} (op : jsop_t)
    (ih1 : (∀ {c : compiler_ctx_t}, Rel a b c0 c → Rel a b c0 (compile_expression_noret c e1 none).1.2))
    (ih2 : (∀ {c : compiler_ctx_t}, Rel a b c0 c → Rel a b c0 (compile_expression_noret c e2 none).1.2))
    (h : Rel a b c0 c) : Rel a b c0 (compile_binary_expression c (.mk e1 e2) op).2 := by
  rw [compile_binary_expression.eq_def]
  try dsimp only
  repeat (first
    | with_reducible (first
        | exact h
        | assumption
        | intro _
        | apply ih1
        | apply ih2
        | apply ih3
        | apply ihm
        | apply iha
        | apply ihn
        | apply ihl
        | apply Rel.ite
        | apply Rel.ite1
        | apply Rel.ite2
        | apply Rel.ite0
        | apply set_arg1_rel
        | apply set_arg2_rel
        | apply push_instr_idx_ge
        | apply push_instr_rel
        | apply push_instr_hres_rel
        | apply push_instr_int_rel
        | apply push_instr_uint_rel
        | apply push_instr_str_rel
        | apply push_instr_bstr_rel
        | apply push_instr_bstr_uint_rel
        | apply push_instr_uint_str_rel
        | apply push_instr_double_rel
        | apply heap_alloc_rel
        | apply compiler_alloc_string_rel
        | apply compiler_alloc_bstr_rel
        | apply push_undefined_loop_rel
        | apply literal_as_bstr_rel
        | apply compile_literal_rel
        | apply compile_function_expression_rel)
    | split)

theorem compile_unary_expression_rel_aux {a b : Nat} {c0 c : compiler_ctx_t} {e1 : expression_t} (op : jsop_t)
    (ih1 : (∀ {c : compiler_ctx_t}, Rel a b c0 c → Rel a b c0 (compile_expression_noret c e1 none).1.2))
    (h : Rel a b c0 c) : Rel a b c0 (compile_unary_expression c (.mk e1) op).2 := by
  rw [compile_unary_expression.eq_def]
  try dsimp only
  repeat (first
    | with_reducible (first
        | exact h
        | assumption
        | intro _
        | apply ih1
        | apply ih2
        | apply ih3
        | apply ihm
        | apply iha
        | apply ihn
        | apply ihl
        | apply Rel.ite
        | apply Rel.ite1
        | apply Rel.ite2
        | apply Rel.ite0
        | apply set_arg1_rel
        | apply set_arg2_rel
        | apply push_instr_idx_ge
        | apply push_instr_rel
        | apply push_instr_hres_rel
        | apply push_instr_int_rel
        | apply push_instr_uint_rel
        | apply push_instr_str_rel
        | apply push_instr_bstr_rel
        | apply push_instr_bstr_uint_rel
        | apply push_instr_uint_str_rel
        | apply push_instr_double_rel
        | apply heap_alloc_rel
        | apply compiler_alloc_string_rel
        | apply compiler_alloc_bstr_rel
        | apply push_undefined_loop_rel
        | apply literal_as_bstr_rel
        | apply compile_literal_rel
        | apply compile_function_expression_rel)
    | split)

theorem compile_member_expression_rel_aux {a b : Nat} {c0 c : compiler_ctx_t} {e1 : expression_t} (i : String)
    (ih1 : (∀ {c : compiler_ctx_t}, Rel a b c0 c → Rel a b c0 (compile_expression_noret c e1 none).1.2))
    (h : Rel a b c0 c) : Rel a b c0 (compile_member_expression c (.mk e1 i)).2 := by
  rw [compile_member_expression.eq_def]
  try dsimp only
  repeat (first
    | with_reducible (first
        | exact h
        | assumption
        | intro _
        | apply ih1
        | apply ih2
        | apply ih3
        | apply ihm
        | apply iha
        | apply ihn
        | apply ihl
        | apply Rel.ite
        | apply Rel.ite1
        | apply Rel.ite2
        | apply Rel.ite0
        | apply set_arg1_rel
        | apply set_arg2_rel
        | apply push_instr_idx_ge
        | apply push_instr_rel
        | apply push_instr_hres_rel
        | apply push_instr_int_rel
        | apply push_instr_uint_rel
        | apply push_instr_str_rel
        | apply push_instr_bstr_rel
        | apply push_instr_bstr_uint_rel
        | apply push_instr_uint_str_rel
        | apply push_instr_double_rel
        | apply heap_alloc_rel
        | apply compiler_alloc_string_rel
        | apply compiler_alloc_bstr_rel
        | apply push_undefined_loop_rel
        | apply literal_as_bstr_rel
        | apply compile_literal_rel
        | apply compile_function_expression_rel)
    | split)

theorem compile_memberid_binary_rel_aux {a b : Nat} {c0 c : compiler_ctx_t} {e1 e2 : expression_t} (t : binary_type_t) (flags : Nat)
    (ih1 : (∀ {c : compiler_ctx_t}, Rel a b c0 c → Rel a b c0 (compile_expression_noret c e1 none).1.2))
    (ih2 : (∀ {c : compiler_ctx_t}, Rel a b c0 c → Rel a b c0 (compile_expression_noret c e2 none).1.2))
    (h : Rel a b c0 c) : Rel a b c0 (compile_memberid_expression c (.binary t (.mk e1 e2)) flags).2 := by
  rw [compile_memberid_expression]
  try dsimp only
  repeat (first
    | with_reducible (first
        | exact h
        | assumption
        | intro _
        | apply ih1
        | apply ih2
        | apply ih3
        | apply ihm
        | apply iha
        | apply ihn
        | apply ihl
        | apply Rel.ite
        | apply Rel.ite1
        | apply Rel.ite2
        | apply Rel.ite0
        | apply set_arg1_rel
        | apply set_arg2_rel
        | apply push_instr_idx_ge
        | apply push_instr_rel
        | apply push_instr_hres_rel
        | apply push_instr_int_rel
        | apply push_instr_uint_rel
        | apply push_instr_str_rel
        | apply push_instr_bstr_rel
        | apply push_instr_bstr_uint_rel
        | apply push_instr_uint_str_rel
        | apply push_instr_double_rel
        | apply heap_alloc_rel
        | apply compiler_alloc_string_rel
        | apply compiler_alloc_bstr_rel
        | apply push_undefined_loop_rel
        | apply literal_as_bstr_rel
        | apply compile_literal_rel
        | apply compile_function_expression_rel)
    | split)

theorem compile_memberid_member_rel_aux {a b : Nat} {c0 c : compiler_ctx_t} {e1 : expression_t} (i : String) (flags : Nat)
    (ih1 : (∀ {c : compiler_ctx_t}, Rel a b c0 c → Rel a b c0 (compile_expression_noret c e1 none).1.2))
    (h : Rel a b c0 c) : Rel a b c0 (compile_memberid_expression c (.EXPR_MEMBER (.mk e1 i)) flags).2 := by
  rw [compile_memberid_expression]
  try dsimp only
  repeat (first
    | with_reducible (first
        | exact h
        | assumption
        | intro _
        | apply ih1
        | apply ih2
        | apply ih3
        | apply ihm
        | apply iha
        | apply ihn
        | apply ihl
        | apply Rel.ite
        | apply Rel.ite1
        | apply Rel.ite2
        | apply Rel.ite0
        | apply set_arg1_rel
        | apply set_arg2_rel
        | apply push_instr_idx_ge
        | apply push_instr_rel
        | apply push_instr_hres_rel
        | apply push_instr_int_rel
        | apply push_instr_uint_rel
        | apply push_instr_str_rel
        | apply push_instr_bstr_rel
        | apply push_instr_bstr_uint_rel
        | apply push_instr_uint_str_rel
        | apply push_instr_double_rel
        | apply heap_alloc_rel
        | apply compiler_alloc_string_rel
        | apply compiler_alloc_bstr_rel
        | apply push_undefined_loop_rel
        | apply literal_as_bstr_rel
        | apply compile_literal_rel
        | apply compile_function_expression_rel)
    | split)

theorem compile_increment_expression_rel_aux {a b : Nat} {c0 c : compiler_ctx_t} {e1 : expression_t} (op : jsop_t) (n : Int)
    (ih1 : (∀ {c : compiler_ctx_t}, Rel a b c0 c → Rel a b c0 (compile_expression_noret c e1 none).1.2))
    (ihm : (∀ (flags : Nat) {c : compiler_ctx_t}, Rel a b c0 c → Rel a b c0 (compile_memberid_expression c e1 flags).2))
    (h : Rel a b c0 c) : Rel a b c0 (compile_increment_expression c (.mk e1) op n).2 := by
  rw [compile_increment_expression.eq_def]
  try dsimp only
  repeat (first
    | with_reducible (first
        | exact h
        | assumption
        | intro _
        | apply ih1
        | apply ih2
        | apply ih3
        | apply ihm
        | apply iha
        | apply ihn
        | apply ihl
        | apply Rel.ite
        | apply Rel.ite1
        | apply Rel.ite2
        | apply Rel.ite0
        | apply set_arg1_rel
        | apply set_arg2_rel
        | apply push_instr_idx_ge
        | apply push_instr_rel
        | apply push_instr_hres_rel
        | apply push_instr_int_rel
        | apply push_instr_uint_rel
        | apply push_instr_str_rel
        | apply push_instr_bstr_rel
        | apply push_instr_bstr_uint_rel
        | apply push_instr_uint_str_rel
        | apply push_instr_double_rel
        | apply heap_alloc_rel
        | apply compiler_alloc_string_rel
        | apply compiler_alloc_bstr_rel
        | apply push_undefined_loop_rel
        | apply literal_as_bstr_rel
        | apply compile_literal_rel
        | apply compile_function_expression_rel)
    | split)

theorem compile_comma_expression_rel_aux {a b : Nat} {c0 c : compiler_ctx_t} {e1 e2 : expression_t}
    (ih1 : (∀ {c : compiler_ctx_t}, Rel a b c0 c → Rel a b c0 (compile_expression_noret c e1 none).1.2))
    (ih2 : (∀ {c : compiler_ctx_t}, Rel a b c0 c → Rel a b c0 (compile_expression_noret c e2 none).1.2))
    (h : Rel a b c0 c) : Rel a b c0 (compile_comma_expression c (.mk e1 e2)).2 := by
  rw [compile_comma_expression.eq_def]
  try dsimp only
  repeat (first
    | with_reducible (first
        | exact h
        | assumption
        | intro _
        | apply ih1
        | apply ih2
        | apply ih3
        | apply ihm
        | apply iha
        | apply ihn
        | apply ihl
        | apply Rel.ite
        | apply Rel.ite1
        | apply Rel.ite2
        | apply Rel.ite0
        | apply set_arg1_rel
        | apply set_arg2_rel
        | apply push_instr_idx_ge
        | apply push_instr_rel
        | apply push_instr_hres_rel
        | apply push_instr_int_rel
        | apply push_instr_uint_rel
        | apply push_instr_str_rel
        | apply push_instr_bstr_rel
        | apply push_instr_bstr_uint_rel
        | apply push_instr_uint_str_rel
        | apply push_instr_double_rel
        | apply heap_alloc_rel
        | apply compiler_alloc_string_rel
        | apply compiler_alloc_bstr_rel
        | apply push_undefined_loop_rel
        | apply literal_as_bstr_rel
        | apply compile_literal_rel
        | apply compile_function_expression_rel)
    | split)

theorem compile_logical_expression_rel_aux {a b : Nat} {c0 c : compiler_ctx_t} {e1 e2 : expression_t} (op : jsop_t)
    (ih1 : (∀ {c : compiler_ctx_t}, Rel a b c0 c → Rel a b c0 (compile_expression_noret c e1 none).1.2))
    (ih2 : (∀ {c : compiler_ctx_t}, Rel a b c0 c → Rel a b c0 (compile_expression_noret c e2 none).1.2))
    (h : Rel a b c0 c) : Rel a b c0 (compile_logical_expression c (.mk e1 e2) op).2 := by
  rw [compile_logical_expression.eq_def]
  try dsimp only
  repeat (first
    | with_reducible (first
        | exact h
        | assumption
        | intro _
        | apply ih1
        | apply ih2
        | apply ih3
        | apply ihm
        | apply iha
        | apply ihn
        | apply ihl
        | apply Rel.ite
        | apply Rel.ite1
        | apply Rel.ite2
        | apply Rel.ite0
        | apply set_arg1_rel
        | apply set_arg2_rel
        | apply push_instr_idx_ge
        | apply push_instr_rel
        | apply push_instr_hres_rel
        | apply push_instr_int_rel
        | apply push_instr_uint_rel
        | apply push_instr_str_rel
        | apply push_instr_bstr_rel
        | apply push_instr_bstr_uint_rel
        | apply push_instr_uint_str_rel
        | apply push_instr_double_rel
        | apply heap_alloc_rel
        | apply compiler_alloc_string_rel
        | apply compiler_alloc_bstr_rel
        | apply push_undefined_loop_rel
        | apply literal_as_bstr_rel
        | apply compile_literal_rel
        | apply compile_function_expression_rel)
    | split)

theorem compile_conditional_expression_rel_aux {a b : Nat} {c0 c : compiler_ctx_t} {e1 e2 e3 : expression_t}
    (ih1 : (∀ {c : compiler_ctx_t}, Rel a b c0 c → Rel a b c0 (compile_expression_noret c e1 none).1.2))
    (ih2 : (∀ {c : compiler_ctx_t}, Rel a b c0 c → Rel a b c0 (compile_expression_noret c e2 none).1.2))
    (ih3 : (∀ {c : compiler_ctx_t}, Rel a b c0 c → Rel a b c0 (compile_expression_noret c e3 none).1.2))
    (h : Rel a b c0 c) : Rel a b c0 (compile_conditional_expression c (.mk e1 e2 e3)).2 := by
  rw [compile_conditional_expression.eq_def]
  try dsimp only
  repeat (first
    | with_reducible (first
        | exact h
        | assumption
        | intro _
        | apply ih1
        | apply ih2
        | apply ih3
        | apply ihm
        | apply iha
        | apply ihn
        | apply ihl
        | apply Rel.ite
        | apply Rel.ite1
        | apply Rel.ite2
        | apply Rel.ite0
        | apply set_arg1_rel
        | apply set_arg2_rel
        | apply push_instr_idx_ge
        | apply push_instr_rel
        | apply push_instr_hres_rel
        | apply push_instr_int_rel
        | apply push_instr_uint_rel
        | apply push_instr_str_rel
        | apply push_instr_bstr_rel
        | apply push_instr_bstr_uint_rel
        | apply push_instr_uint_str_rel
        | apply push_instr_double_rel
        | apply heap_alloc_rel
        | apply compiler_alloc_string_rel
        | apply compiler_alloc_bstr_rel
        | apply push_undefined_loop_rel
        | apply literal_as_bstr_rel
        | apply compile_literal_rel
        | apply compile_function_expression_rel)
    | split)

theorem compile_argument_list_rel_aux {a b : Nat} {c0 c : compiler_ctx_t} {e1 : expression_t} {next : argument_t} (n : Nat)
    (ih1 : (∀ {c : compiler_ctx_t}, Rel a b c0 c → Rel a b c0 (compile_expression_noret c e1 none).1.2))
    (iha : (∀ (n : Nat) {c : compiler_ctx_t}, Rel a b c0 c → Rel a b c0 (compile_argument_list c next n).1.2))
    (h : Rel a b c0 c) : Rel a b c0 (compile_argument_list c (.mk e1 next) n).1.2 := by
  rw [compile_argument_list.eq_def]
  try dsimp only
  repeat (first
    | with_reducible (first
        | exact h
        | assumption
        | intro _
        | apply ih1
        | apply ih2
        | apply ih3
        | apply ihm
        | apply iha
        | apply ihn
        | apply ihl
        | apply Rel.ite
        | apply Rel.ite1
        | apply Rel.ite2
        | apply Rel.ite0
        | apply set_arg1_rel
        | apply set_arg2_rel
        | apply push_instr_idx_ge
        | apply push_instr_rel
        | apply push_instr_hres_rel
        | apply push_instr_int_rel
        | apply push_instr_uint_rel
        | apply push_instr_str_rel
        | apply push_instr_bstr_rel
        | apply push_instr_bstr_uint_rel
        | apply push_instr_uint_str_rel
        | apply push_instr_double_rel
        | apply heap_alloc_rel
        | apply compiler_alloc_string_rel
        | apply compiler_alloc_bstr_rel
        | apply push_undefined_loop_rel
        | apply literal_as_bstr_rel
        | apply compile_literal_rel
        | apply compile_function_expression_rel)
    | split)

theorem compile_new_expression_rel_aux {a b : Nat} {c0 c : compiler_ctx_t} {e1 : expression_t} {args : argument_t}
    (ih1 : (∀ {c : compiler_ctx_t}, Rel a b c0 c → Rel a b c0 (compile_expression_noret c e1 none).1.2))
    (iha : (∀ (n : Nat) {c : compiler_ctx_t}, Rel a b c0 c → Rel a b c0 (compile_argument_list c args n).1.2))
    (h : Rel a b c0 c) : Rel a b c0 (compile_new_expression c (.mk e1 args)).2 := by
  rw [compile_new_expression.eq_def]
  try dsimp only
  repeat (first
    | with_reducible (first
        | exact h
        | assumption
        | intro _
        | apply ih1
        | apply ih2
        | apply ih3
        | apply ihm
        | apply iha
        | apply ihn
        | apply ihl
        | apply Rel.ite
        | apply Rel.ite1
        | apply Rel.ite2
        | apply Rel.ite0
        | apply set_arg1_rel
        | apply set_arg2_rel
        | apply push_instr_idx_ge
        | apply push_instr_rel
        | apply push_instr_hres_rel
        | apply push_instr_int_rel
        | apply push_instr_uint_rel
        | apply push_instr_str_rel
        | apply push_instr_bstr_rel
        | apply push_instr_bstr_uint_rel
        | apply push_instr_uint_str_rel
        | apply push_instr_double_rel
        | apply heap_alloc_rel
        | apply compiler_alloc_string_rel
        | apply compiler_alloc_bstr_rel
        | apply push_undefined_loop_rel
        | apply literal_as_bstr_rel
        | apply compile_literal_rel
        | apply compile_function_expression_rel)
    | split)

theorem compile_call_expression_rel_aux {a b : Nat} {c0 c : compiler_ctx_t} {e1 : expression_t} {args : argument_t} (no_ret : Option Bool)
    (ih1 : (∀ {c : compiler_ctx_t}, Rel a b c0 c → Rel a b c0 (compile_expression_noret c e1 none).1.2))
    (ihm : (∀ (flags : Nat) {c : compiler_ctx_t}, Rel a b c0 c → Rel a b c0 (compile_memberid_expression c e1 flags).2))
    (iha : (∀ (n : Nat) {c : compiler_ctx_t}, Rel a b c0 c → Rel a b c0 (compile_argument_list c args n).1.2))
    (h : Rel a b c0 c) : Rel a b c0 (compile_call_expression c (.mk e1 args) no_ret).1.2 := by
  rw [compile_call_expression.eq_def]
  try dsimp only
  repeat (first
    | with_reducible (first
        | exact h
        | assumption
        | intro _
        | apply ih1
        | apply ih2
        | apply ih3
        | apply ihm
        | apply iha
        | apply ihn
        | apply ihl
        | apply Rel.ite
        | apply Rel.ite1
        | apply Rel.ite2
        | apply Rel.ite0
        | apply set_arg1_rel
        | apply set_arg2_rel
        | apply push_instr_idx_ge
        | apply push_instr_rel
        | apply push_instr_hres_rel
        | apply push_instr_int_rel
        | apply push_instr_uint_rel
        | apply push_instr_str_rel
        | apply push_instr_bstr_rel
        | apply push_instr_bstr_uint_rel
        | apply push_instr_uint_str_rel
        | apply push_instr_double_rel
        | apply heap_alloc_rel
        | apply compiler_alloc_string_rel
        | apply compiler_alloc_bstr_rel
        | apply push_undefined_loop_rel
        | apply literal_as_bstr_rel
        | apply compile_literal_rel
        | apply compile_function_expression_rel)
    | split)

theorem compile_delete_array_rel_aux {a b : Nat} {c0 c : compiler_ctx_t} {e1 e2 : expression_t} (t : binary_type_t)
    (ih1 : (∀ {c : compiler_ctx_t}, Rel a b c0 c → Rel a b c0 (compile_expression_noret c e1 none).1.2))
    (ih2 : (∀ {c : compiler_ctx_t}, Rel a b c0 c → Rel a b c0 (compile_expression_noret c e2 none).1.2))
    (ih3 : (∀ {c : compiler_ctx_t}, Rel a b c0 c → Rel a b c0 (compile_expression_noret c (.binary t (.mk e1 e2)) none).1.2))
    (h : Rel a b c0 c) : Rel a b c0 (compile_delete_expression c (.mk (.binary t (.mk e1 e2)))).2 := by
  rw [compile_delete_expression.eq_def]
  try dsimp only
  repeat (first
    | with_reducible (first
        | exact h
        | assumption
        | intro _
        | apply ih1
        | apply ih2
        | apply ih3
        | apply ihm
        | apply iha
        | apply ihn
        | apply ihl
        | apply Rel.ite
        | apply Rel.ite1
        | apply Rel.ite2
        | apply Rel.ite0
        | apply set_arg1_rel
        | apply set_arg2_rel
        | apply push_instr_idx_ge
        | apply push_instr_rel
        | apply push_instr_hres_rel
        | apply push_instr_int_rel
        | apply push_instr_uint_rel
        | apply push_instr_str_rel
        | apply push_instr_bstr_rel
        | apply push_instr_bstr_uint_rel
        | apply push_instr_uint_str_rel
        | apply push_instr_double_rel
        | apply heap_alloc_rel
        | apply compiler_alloc_string_rel
        | apply compiler_alloc_bstr_rel
        | apply push_undefined_loop_rel
        | apply literal_as_bstr_rel
        | apply compile_literal_rel
        | apply compile_function_expression_rel)
    | split)

theorem compile_delete_member_rel_aux {a b : Nat} {c0 c : compiler_ctx_t} {e1 : expression_t} (i : String)
    (ih1 : (∀ {c : compiler_ctx_t}, Rel a b c0 c → Rel a b c0 (compile_expression_noret c e1 none).1.2))
    (ih3 : (∀ {c : compiler_ctx_t}, Rel a b c0 c → Rel a b c0 (compile_expression_noret c (.EXPR_MEMBER (.mk e1 i)) none).1.2))
    (h : Rel a b c0 c) : Rel a b c0 (compile_delete_expression c (.mk (.EXPR_MEMBER (.mk e1 i)))).2 := by
  rw [compile_delete_expression.eq_def]
  try dsimp only
  repeat (first
    | with_reducible (first
        | exact h
        | assumption
        | intro _
        | apply ih1
        | apply ih2
        | apply ih3
        | apply ihm
        | apply iha
        | apply ihn
        | apply ihl
        | apply Rel.ite
        | apply Rel.ite1
        | apply Rel.ite2
        | apply Rel.ite0
        | apply set_arg1_rel
        | apply set_arg2_rel
        | apply push_instr_idx_ge
        | apply push_instr_rel
        | apply push_instr_hres_rel
        | apply push_instr_int_rel
        | apply push_instr_uint_rel
        | apply push_instr_str_rel
        | apply push_instr_bstr_rel
        | apply push_instr_bstr_uint_rel
        | apply push_instr_uint_str_rel
        | apply push_instr_double_rel
        | apply heap_alloc_rel
        | apply compiler_alloc_string_rel
        | apply compiler_alloc_bstr_rel
        | apply push_undefined_loop_rel
        | apply literal_as_bstr_rel
        | apply compile_literal_rel
        | apply compile_function_expression_rel)
    | split)

theorem compile_delete_other_rel_aux {a b : Nat} {c0 c : compiler_ctx_t} {e1 : expression_t}
    (ih1 : (∀ {c : compiler_ctx_t}, Rel a b c0 c → Rel a b c0 (compile_expression_noret c e1 none).1.2))
    (hty : e1.type ≠ .EXPR_ARRAY ∧ e1.type ≠ .EXPR_MEMBER)
    (h : Rel a b c0 c) : Rel a b c0 (compile_delete_expression c (.mk e1)).2 := by
  rw [compile_delete_expression.eq_def]
  dsimp only
  rw [if_neg hty.1, if_neg hty.2]
  repeat (first
    | with_reducible (first
        | exact h
        | assumption
        | intro _
        | apply ih1
        | apply Rel.ite
        | apply Rel.ite1
        | apply Rel.ite2
        | apply Rel.ite0
        | apply set_arg1_rel
        | apply set_arg2_rel
        | apply push_instr_idx_ge
        | apply push_instr_rel
        | apply push_instr_hres_rel
        | apply push_instr_int_rel
        | apply push_instr_uint_rel
        | apply push_instr_str_rel
        | apply push_instr_bstr_rel
        | apply push_instr_bstr_uint_rel
        | apply push_instr_uint_str_rel
        | apply push_instr_double_rel
        | apply heap_alloc_rel
        | apply compiler_alloc_string_rel
        | apply compiler_alloc_bstr_rel
        | apply push_undefined_loop_rel
        | apply literal_as_bstr_rel
        | apply compile_literal_rel
        | apply compile_function_expression_rel)
    | split)

theorem compile_assign_expression_rel_aux {a b : Nat} {c0 c : compiler_ctx_t} {e1 e2 : expression_t} (op : jsop_t)
    (ih1 : (∀ {c : compiler_ctx_t}, Rel a b c0 c → Rel a b c0 (compile_expression_noret c e1 none).1.2))
    (ihm : (∀ (flags : Nat) {c : compiler_ctx_t}, Rel a b c0 c → Rel a b c0 (compile_memberid_expression c e1 flags).2))
    (ih2 : (∀ {c : compiler_ctx_t}, Rel a b c0 c → Rel a b c0 (compile_expression_noret c e2 none).1.2))
    (h : Rel a b c0 c) : Rel a b c0 (compile_assign_expression c (.mk e1 e2) op).2 := by
  rw [compile_assign_expression.eq_def]
  try dsimp only
  repeat (first
    | with_reducible (first
        | exact h
        | assumption
        | intro _
        | apply ih1
        | apply ih2
        | apply ih3
        | apply ihm
        | apply iha
        | apply ihn
        | apply ihl
        | apply Rel.ite
        | apply Rel.ite1
        | apply Rel.ite2
        | apply Rel.ite0
        | apply set_arg1_rel
        | apply set_arg2_rel
        | apply push_instr_idx_ge
        | apply push_instr_rel
        | apply push_instr_hres_rel
        | apply push_instr_int_rel
        | apply push_instr_uint_rel
        | apply push_instr_str_rel
        | apply push_instr_bstr_rel
        | apply push_instr_bstr_uint_rel
        | apply push_instr_uint_str_rel
        | apply push_instr_double_rel
        | apply heap_alloc_rel
        | apply compiler_alloc_string_rel
        | apply compiler_alloc_bstr_rel
        | apply push_undefined_loop_rel
        | apply literal_as_bstr_rel
        | apply compile_literal_rel
        | apply compile_function_expression_rel)
    | split)

theorem compile_typeof_expression_rel_aux {a b : Nat} {c0 c : compiler_ctx_t} {e1 : expression_t}
    (ih1 : (∀ {c : compiler_ctx_t}, Rel a b c0 c → Rel a b c0 (compile_expression_noret c e1 none).1.2))
    (ihm : (∀ (flags : Nat) {c : compiler_ctx_t}, Rel a b c0 c → Rel a b c0 (compile_memberid_expression c e1 flags).2))
    (h : Rel a b c0 c) : Rel a b c0 (compile_typeof_expression c (.mk e1)).2 := by
  rw [compile_typeof_expression.eq_def]
  try dsimp only
  repeat (first
    | with_reducible (first
        | exact h
        | assumption
        | intro _
        | apply ih1
        | apply ih2
        | apply ih3
        | apply ihm
        | apply iha
        | apply ihn
        | apply ihl
        | apply Rel.ite
        | apply Rel.ite1
        | apply Rel.ite2
        | apply Rel.ite0
        | apply set_arg1_rel
        | apply set_arg2_rel
        | apply push_instr_idx_ge
        | apply push_instr_rel
        | apply push_instr_hres_rel
        | apply push_instr_int_rel
        | apply push_instr_uint_rel
        | apply push_instr_str_rel
        | apply push_instr_bstr_rel
        | apply push_instr_bstr_uint_rel
        | apply push_instr_uint_str_rel
        | apply push_instr_double_rel
        | apply heap_alloc_rel
        | apply compiler_alloc_string_rel
        | apply compiler_alloc_bstr_rel
        | apply push_undefined_loop_rel
        | apply literal_as_bstr_rel
        | apply compile_literal_rel
        | apply compile_function_expression_rel)
    | split)

theorem compile_array_elements_rel_aux {a b : Nat} {c0 c : compiler_ctx_t} {e1 : expression_t} {next : array_element_t} (elision n : Nat)
    (ih1 : (∀ {c : compiler_ctx_t}, Rel a b c0 c → Rel a b c0 (compile_expression_noret c e1 none).1.2))
    (ihn : (∀ (n : Nat) {c : compiler_ctx_t}, Rel a b c0 c → Rel a b c0 (compile_array_elements c next n).1.2))
    (h : Rel a b c0 c) : Rel a b c0 (compile_array_elements c (.mk elision e1 next) n).1.2 := by
  rw [compile_array_elements.eq_def]
  try dsimp only
  repeat (first
    | with_reducible (first
        | exact h
        | assumption
        | intro _
        | apply ih1
        | apply ih2
        | apply ih3
        | apply ihm
        | apply iha
        | apply ihn
        | apply ihl
        | apply Rel.ite
        | apply Rel.ite1
        | apply Rel.ite2
        | apply Rel.ite0
        | apply set_arg1_rel
        | apply set_arg2_rel
        | apply push_instr_idx_ge
        | apply push_instr_rel
        | apply push_instr_hres_rel
        | apply push_instr_int_rel
        | apply push_instr_uint_rel
        | apply push_instr_str_rel
        | apply push_instr_bstr_rel
        | apply push_instr_bstr_uint_rel
        | apply push_instr_uint_str_rel
        | apply push_instr_double_rel
        | apply heap_alloc_rel
        | apply compiler_alloc_string_rel
        | apply compiler_alloc_bstr_rel
        | apply push_undefined_loop_rel
        | apply literal_as_bstr_rel
        | apply compile_literal_rel
        | apply compile_function_expression_rel)
    | split)

theorem compile_array_literal_rel_aux {a b : Nat} {c0 c : compiler_ctx_t} {l : array_element_t} (n : Nat)
    (ihl : (∀ (n : Nat) {c : compiler_ctx_t}, Rel a b c0 c → Rel a b c0 (compile_array_elements c l n).1.2))
    (h : Rel a b c0 c) : Rel a b c0 (compile_array_literal c (.mk l n)).2 := by
  rw [compile_array_literal.eq_def]
  try dsimp only
  repeat (first
    | with_reducible (first
        | exact h
        | assumption
        | intro _
        | apply ih1
        | apply ih2
        | apply ih3
        | apply ihm
        | apply iha
        | apply ihn
        | apply ihl
        | apply Rel.ite
        | apply Rel.ite1
        | apply Rel.ite2
        | apply Rel.ite0
        | apply set_arg1_rel
        | apply set_arg2_rel
        | apply push_instr_idx_ge
        | apply push_instr_rel
        | apply push_instr_hres_rel
        | apply push_instr_int_rel
        | apply push_instr_uint_rel
        | apply push_instr_str_rel
        | apply push_instr_bstr_rel
        | apply push_instr_bstr_uint_rel
        | apply push_instr_uint_str_rel
        | apply push_instr_double_rel
        | apply heap_alloc_rel
        | apply compiler_alloc_string_rel
        | apply compiler_alloc_bstr_rel
        | apply push_undefined_loop_rel
        | apply literal_as_bstr_rel
        | apply compile_literal_rel
        | apply compile_function_expression_rel)
    | split)

theorem compile_property_list_rel_aux {a b : Nat} {c0 c : compiler_ctx_t} {e1 : expression_t} {next : prop_val_t} (name : literal_t)
    (ih1 : (∀ {c : compiler_ctx_t}, Rel a b c0 c → Rel a b c0 (compile_expression_noret c e1 none).1.2))
    (ihn : (∀ {c : compiler_ctx_t}, Rel a b c0 c → Rel a b c0 (compile_property_list c next).2))
    (h : Rel a b c0 c) : Rel a b c0 (compile_property_list c (.mk name e1 next)).2 := by
  rw [compile_property_list.eq_def]
  try dsimp only
  repeat (first
    | with_reducible (first
        | exact h
        | assumption
        | intro _
        | apply ih1
        | apply ih2
        | apply ih3
        | apply ihm
        | apply iha
        | apply ihn
        | apply ihl
        | apply Rel.ite
        | apply Rel.ite1
        | apply Rel.ite2
        | apply Rel.ite0
        | apply set_arg1_rel
        | apply set_arg2_rel
        | apply push_instr_idx_ge
        | apply push_instr_rel
        | apply push_instr_hres_rel
        | apply push_instr_int_rel
        | apply push_instr_uint_rel
        | apply push_instr_str_rel
        | apply push_instr_bstr_rel
        | apply push_instr_bstr_uint_rel
        | apply push_instr_uint_str_rel
        | apply push_instr_double_rel
        | apply heap_alloc_rel
        | apply compiler_alloc_string_rel
        | apply compiler_alloc_bstr_rel
        | apply push_undefined_loop_rel
        | apply literal_as_bstr_rel
        | apply compile_literal_rel
        | apply compile_function_expression_rel)
    | split)

theorem compile_object_literal_rel_aux {a b : Nat} {c0 c : compiler_ctx_t} {l : prop_val_t}
    (ihn : (∀ {c : compiler_ctx_t}, Rel a b c0 c → Rel a b c0 (compile_property_list c l).2))
    (h : Rel a b c0 c) : Rel a b c0 (compile_object_literal c (.mk l)).2 := by
  rw [compile_object_literal.eq_def]
  try dsimp only
  repeat (first
    | with_reducible (first
        | exact h
        | assumption
        | intro _
        | apply ih1
        | apply ih2
        | apply ih3
        | apply ihm
        | apply iha
        | apply ihn
        | apply ihl
        | apply Rel.ite
        | apply Rel.ite1
        | apply Rel.ite2
        | apply Rel.ite0
        | apply set_arg1_rel
        | apply set_arg2_rel
        | apply push_instr_idx_ge
        | apply push_instr_rel
        | apply push_instr_hres_rel
        | apply push_instr_int_rel
        | apply push_instr_uint_rel
        | apply push_instr_str_rel
        | apply push_instr_bstr_rel
        | apply push_instr_bstr_uint_rel
        | apply push_instr_uint_str_rel
        | apply push_instr_double_rel
        | apply heap_alloc_rel
        | apply compiler_alloc_string_rel
        | apply compiler_alloc_bstr_rel
        | apply push_undefined_loop_rel
        | apply literal_as_bstr_rel
        | apply compile_literal_rel
        | apply compile_function_expression_rel)
    | split)

mutual
theorem compile_expression_noret_rel {a b : Nat} {c0 : compiler_ctx_t} :
    ∀ (e : expression_t) (no_ret : Option Bool) {c : compiler_ctx_t}, Rel a b c0 c →
      Rel a b c0 (compile_expression_noret c e no_ret).1.2
  | .binary type expr, no_ret, c, h => by
    cases type <;> rw [compile_expression_noret] <;>
    first
      | exact compile_binary_expression_rel _ _ h
      | exact compile_binary_expression_rel _ h
      | exact compile_binary_expression_rel _ _ _ h
      | exact compile_logical_expression_rel _ _ h
      | exact compile_logical_expression_rel _ h
      | exact compile_logical_expression_rel _ _ _ h
      | exact compile_assign_expression_rel _ _ h
      | exact compile_assign_expression_rel _ h
      | exact compile_assign_expression_rel _ _ _ h
      | exact compile_comma_expression_rel _ _ h
      | exact compile_comma_expression_rel _ h
      | exact compile_comma_expression_rel _ _ _ h
      | exact compile_unary_expression_rel _ _ h
      | exact compile_unary_expression_rel _ h
      | exact compile_unary_expression_rel _ _ _ h
      | exact compile_delete_expression_rel _ _ h
      | exact compile_delete_expression_rel _ h
      | exact compile_delete_expression_rel _ _ _ h
      | exact compile_increment_expression_rel _ _ h
      | exact compile_increment_expression_rel _ h
      | exact compile_increment_expression_rel _ _ _ h
      | exact compile_typeof_expression_rel _ _ h
      | exact compile_typeof_expression_rel _ h
      | exact compile_typeof_expression_rel _ _ _ h
  | .unary type expr, no_ret, c, h => by
    cases type <;> rw [compile_expression_noret] <;>
    first
      | exact compile_binary_expression_rel _ _ h
      | exact compile_binary_expression_rel _ h
      | exact compile_binary_expression_rel _ _ _ h
      | exact compile_logical_expression_rel _ _ h
      | exact compile_logical_expression_rel _ h
      | exact compile_logical_expression_rel _ _ _ h
      | exact compile_assign_expression_rel _ _ h
      | exact compile_assign_expression_rel _ h
      | exact compile_assign_expression_rel _ _ _ h
      | exact compile_comma_expression_rel _ _ h
      | exact compile_comma_expression_rel _ h
      | exact compile_comma_expression_rel _ _ _ h
      | exact compile_unary_expression_rel _ _ h
      | exact compile_unary_expression_rel _ h
      | exact compile_unary_expression_rel _ _ _ h
      | exact compile_delete_expression_rel _ _ h
      | exact compile_delete_expression_rel _ h
      | exact compile_delete_expression_rel _ _ _ h
      | exact compile_increment_expression_rel _ _ h
      | exact compile_increment_expression_rel _ h
      | exact compile_increment_expression_rel _ _ _ h
      | exact compile_typeof_expression_rel _ _ h
      | exact compile_typeof_expression_rel _ h
      | exact compile_typeof_expression_rel _ _ _ h
  | .EXPR_CALL expr, no_ret, c, h => by
    rw [compile_expression_noret]; exact compile_call_expression_rel expr no_ret h
  | .EXPR_COND expr, no_ret, c, h => by
    rw [compile_expression_noret]; exact compile_conditional_expression_rel expr h
  | .EXPR_FUNC expr, no_ret, c, h => by
    rw [compile_expression_noret]; exact compile_function_expression_rel expr h
  | .EXPR_IDENT expr, no_ret, c, h => by
    rw [compile_expression_noret]; exact push_instr_bstr_rel _ _ h
  | .EXPR_LITERAL expr, no_ret, c, h => by
    rw [compile_expression_noret]; exact compile_literal_rel _ h
  | .EXPR_MEMBER expr, no_ret, c, h => by
    rw [compile_expression_noret]; exact compile_member_expression_rel expr h
  | .EXPR_NEW expr, no_ret, c, h => by
    rw [compile_expression_noret]; exact compile_new_expression_rel expr h
  | .EXPR_PROPVAL expr, no_ret, c, h => by
    rw [compile_expression_noret]; exact compile_object_literal_rel expr h
  | .EXPR_ARRAYLIT expr, no_ret, c, h => by
    rw [compile_expression_noret]; exact compile_array_literal_rel expr h
  | .EXPR_THIS, no_ret, c, h => by
    rw [compile_expression_noret]; exact push_instr_hres_rel _ h

theorem compile_binary_expression_rel {a b : Nat} {c0 : compiler_ctx_t} :
    ∀ (e : binary_expression_t) (op : jsop_t) {c : compiler_ctx_t}, Rel a b c0 c →
      Rel a b c0 (compile_binary_expression c e op).2
  | .mk e1 e2, op, c, h => compile_binary_expression_rel_aux op (compile_expression_noret_rel e1 none) (compile_expression_noret_rel e2 none) h

theorem compile_unary_expression_rel {a b : Nat} {c0 : compiler_ctx_t} :
    ∀ (e : unary_expression_t) (op : jsop_t) {c : compiler_ctx_t}, Rel a b c0 c →
      Rel a b c0 (compile_unary_expression c e op).2
  | .mk e1, op, c, h => compile_unary_expression_rel_aux op (compile_expression_noret_rel e1 none) h

theorem compile_member_expression_rel {a b : Nat} {c0 : compiler_ctx_t} :
    ∀ (e : member_expression_t) {c : compiler_ctx_t}, Rel a b c0 c →
      Rel a b c0 (compile_member_expression c e).2
  | .mk e1 i, c, h => compile_member_expression_rel_aux i (compile_expression_noret_rel e1 none) h

theorem compile_memberid_expression_rel {a b : Nat} {c0 : compiler_ctx_t} :
    ∀ (e : expression_t) (flags : Nat) {c : compiler_ctx_t}, Rel a b c0 c →
      Rel a b c0 (compile_memberid_expression c e flags).2
  | .EXPR_IDENT i, flags, c, h => by rw [compile_memberid_expression]; exact push_instr_bstr_uint_rel _ _ _ h
  | .binary t (.mk e1 e2), flags, c, h => compile_memberid_binary_rel_aux t flags (compile_expression_noret_rel e1 none) (compile_expression_noret_rel e2 none) h
  | .EXPR_MEMBER (.mk e1 i), flags, c, h => compile_memberid_member_rel_aux i flags (compile_expression_noret_rel e1 none) h
  | .unary _ _, flags, c, h => by
    rw [compile_memberid_expression] <;> first | exact h | (intros; contradiction)
  | .EXPR_COND _, flags, c, h => by
    rw [compile_memberid_expression] <;> first | exact h | (intros; contradiction)
  | .EXPR_NEW _, flags, c, h => by
    rw [compile_memberid_expression] <;> first | exact h | (intros; contradiction)
  | .EXPR_CALL _, flags, c, h => by
    rw [compile_memberid_expression] <;> first | exact h | (intros; contradiction)
  | .EXPR_THIS, flags, c, h => by
    rw [compile_memberid_expression] <;> first | exact h | (intros; contradiction)
  | .EXPR_FUNC _, flags, c, h => by
    rw [compile_memberid_expression] <;> first | exact h | (intros; contradiction)
  | .EXPR_ARRAYLIT _, flags, c, h => by
    rw [compile_memberid_expression] <;> first | exact h | (intros; contradiction)
  | .EXPR_PROPVAL _, flags, c, h => by
    rw [compile_memberid_expression] <;> first | exact h | (intros; contradiction)
  | .EXPR_LITERAL _, flags, c, h => by
    rw [compile_memberid_expression] <;> first | exact h | (intros; contradiction)

theorem compile_increment_expression_rel {a b : Nat} {c0 : compiler_ctx_t} :
    ∀ (e : unary_expression_t) (op : jsop_t) (n : Int) {c : compiler_ctx_t}, Rel a b c0 c →
      Rel a b c0 (compile_increment_expression c e op n).2
  | .mk e1, op, n, c, h => compile_increment_expression_rel_aux op n (compile_expression_noret_rel e1 none) (compile_memberid_expression_rel e1) h

theorem compile_comma_expression_rel {a b : Nat} {c0 : compiler_ctx_t} :
    ∀ (e : binary_expression_t) {c : compiler_ctx_t}, Rel a b c0 c →
      Rel a b c0 (compile_comma_expression c e).2
  | .mk e1 e2, c, h => compile_comma_expression_rel_aux (compile_expression_noret_rel e1 none) (compile_expression_noret_rel e2 none) h

theorem compile_logical_expression_rel {a b : Nat} {c0 : compiler_ctx_t} :
    ∀ (e : binary_expression_t) (op : jsop_t) {c : compiler_ctx_t}, Rel a b c0 c →
      Rel a b c0 (compile_logical_expression c e op).2
  | .mk e1 e2, op, c, h => compile_logical_expression_rel_aux op (compile_expression_noret_rel e1 none) (compile_expression_noret_rel e2 none) h

theorem compile_conditional_expression_rel {a b : Nat} {c0 : compiler_ctx_t} :
    ∀ (e : conditional_expression_t) {c : compiler_ctx_t}, Rel a b c0 c →
      Rel a b c0 (compile_conditional_expression c e).2
  | .mk e1 e2 e3, c, h => compile_conditional_expression_rel_aux (compile_expression_noret_rel e1 none) (compile_expression_noret_rel e2 none) (compile_expression_noret_rel e3 none) h

theorem compile_argument_list_rel {a b : Nat} {c0 : compiler_ctx_t} :
    ∀ (args : argument_t) (n : Nat) {c : compiler_ctx_t}, Rel a b c0 c →
      Rel a b c0 (compile_argument_list c args n).1.2
  | .NULL, n, c, h => by rw [compile_argument_list]; exact h
  | .mk e1 next, n, c, h => compile_argument_list_rel_aux n (compile_expression_noret_rel e1 none) (compile_argument_list_rel next) h

theorem compile_new_expression_rel {a b : Nat} {c0 : compiler_ctx_t} :
    ∀ (e : call_expression_t) {c : compiler_ctx_t}, Rel a b c0 c →
      Rel a b c0 (compile_new_expression c e).2
  | .mk e1 args, c, h => compile_new_expression_rel_aux (compile_expression_noret_rel e1 none) (compile_argument_list_rel args) h

theorem compile_call_expression_rel {a b : Nat} {c0 : compiler_ctx_t} :
    ∀ (e : call_expression_t) (no_ret : Option Bool) {c : compiler_ctx_t}, Rel a b c0 c →
      Rel a b c0 (compile_call_expression c e no_ret).1.2
  | .mk e1 args, no_ret, c, h => compile_call_expression_rel_aux no_ret (compile_expression_noret_rel e1 none) (compile_memberid_expression_rel e1) (compile_argument_list_rel args) h

theorem compile_delete_expression_rel {a b : Nat} {c0 : compiler_ctx_t} :
    ∀ (e : unary_expression_t) {c : compiler_ctx_t}, Rel a b c0 c →
      Rel a b c0 (compile_delete_expression c e).2
  | .mk (.binary t (.mk e1 e2)), c, h => compile_delete_array_rel_aux t (compile_expression_noret_rel e1 none) (compile_expression_noret_rel e2 none) (compile_expression_noret_rel (.binary t (.mk e1 e2)) none) h
  | .mk (.EXPR_MEMBER (.mk e1 i)), c, h => compile_delete_member_rel_aux i (compile_expression_noret_rel e1 none) (compile_expression_noret_rel (.EXPR_MEMBER (.mk e1 i)) none) h
  | .mk (.unary t u), c, h => compile_delete_other_rel_aux (compile_expression_noret_rel (.unary t u) none) (by cases t <;> constructor <;> intro h <;> cases h) h
  | .mk (.EXPR_COND u), c, h => compile_delete_other_rel_aux (compile_expression_noret_rel (.EXPR_COND u) none) (by constructor <;> intro h <;> cases h) h
  | .mk (.EXPR_NEW u), c, h => compile_delete_other_rel_aux (compile_expression_noret_rel (.EXPR_NEW u) none) (by constructor <;> intro h <;> cases h) h
  | .mk (.EXPR_CALL u), c, h => compile_delete_other_rel_aux (compile_expression_noret_rel (.EXPR_CALL u) none) (by constructor <;> intro h <;> cases h) h
  | .mk (.EXPR_THIS), c, h => compile_delete_other_rel_aux (compile_expression_noret_rel (.EXPR_THIS) none) (by constructor <;> intro h <;> cases h) h
  | .mk (.EXPR_FUNC u), c, h => compile_delete_other_rel_aux (compile_expression_noret_rel (.EXPR_FUNC u) none) (by constructor <;> intro h <;> cases h) h
  | .mk (.EXPR_IDENT u), c, h => compile_delete_other_rel_aux (compile_expression_noret_rel (.EXPR_IDENT u) none) (by constructor <;> intro h <;> cases h) h
  | .mk (.EXPR_ARRAYLIT u), c, h => compile_delete_other_rel_aux (compile_expression_noret_rel (.EXPR_ARRAYLIT u) none) (by constructor <;> intro h <;> cases h) h
  | .mk (.EXPR_PROPVAL u), c, h => compile_delete_other_rel_aux (compile_expression_noret_rel (.EXPR_PROPVAL u) none) (by constructor <;> intro h <;> cases h) h
  | .mk (.EXPR_LITERAL u), c, h => compile_delete_other_rel_aux (compile_expression_noret_rel (.EXPR_LITERAL u) none) (by constructor <;> intro h <;> cases h) h

theorem compile_assign_expression_rel {a b : Nat} {c0 : compiler_ctx_t} :
    ∀ (e : binary_expression_t) (op : jsop_t) {c : compiler_ctx_t}, Rel a b c0 c →
      Rel a b c0 (compile_assign_expression c e op).2
  | .mk e1 e2, op, c, h => compile_assign_expression_rel_aux op (compile_expression_noret_rel e1 none) (compile_memberid_expression_rel e1) (compile_expression_noret_rel e2 none) h

theorem compile_typeof_expression_rel {a b : Nat} {c0 : compiler_ctx_t} :
    ∀ (e : unary_expression_t) {c : compiler_ctx_t}, Rel a b c0 c →
      Rel a b c0 (compile_typeof_expression c e).2
  | .mk e1, c, h => compile_typeof_expression_rel_aux (compile_expression_noret_rel e1 none) (compile_memberid_expression_rel e1) h

theorem compile_array_elements_rel {a b : Nat} {c0 : compiler_ctx_t} :
    ∀ (l : array_element_t) (n : Nat) {c : compiler_ctx_t}, Rel a b c0 c →
      Rel a b c0 (compile_array_elements c l n).1.2
  | .NULL, n, c, h => by rw [compile_array_elements]; exact h
  | .mk elision e1 next, n, c, h => compile_array_elements_rel_aux elision n (compile_expression_noret_rel e1 none) (compile_array_elements_rel next) h

theorem compile_array_literal_rel {a b : Nat} {c0 : compiler_ctx_t} :
    ∀ (e : array_literal_expression_t) {c : compiler_ctx_t}, Rel a b c0 c →
      Rel a b c0 (compile_array_literal c e).2
  | .mk l n, c, h => compile_array_literal_rel_aux n (compile_array_elements_rel l) h

theorem compile_property_list_rel {a b : Nat} {c0 : compiler_ctx_t} :
    ∀ (l : prop_val_t) {c : compiler_ctx_t}, Rel a b c0 c →
      Rel a b c0 (compile_property_list c l).2
  | .NULL, c, h => by rw [compile_property_list]; exact h
  | .mk name e1 next, c, h => compile_property_list_rel_aux name (compile_expression_noret_rel e1 none) (compile_property_list_rel next) h

theorem compile_object_literal_rel {a b : Nat} {c0 : compiler_ctx_t} :
    ∀ (e : property_value_expression_t) {c : compiler_ctx_t}, Rel a b c0 c →
      Rel a b c0 (compile_object_literal c e).2
  | .mk l, c, h => compile_object_literal_rel_aux (compile_property_list_rel l) h
end


/-! ## Unfolding of the statement routines -/

theorem compile_block_statement_unfold (ctx : compiler_ctx_t) (addr : Nat) (stat : statement_t) (next : statement_list) :
    compile_block_statement ctx (.node addr stat next) = (
    let hres := compile_statement ctx none stat
    if FAILED hres.1 then hres else
    if next.is_null then (S_OK, hres.2) else
    let instr := push_instr hres.2 OP_pop
    if instr.1 = UINT_MAX then (E_OUTOFMEMORY, instr.2) else
    compile_block_statement instr.2 next) := rfl

theorem compile_if_statement_unfold (ctx : compiler_ctx_t) (expr : expression_t) (if_stat : statement_t) (else_stat : statement_list) :
    compile_if_statement ctx (.mk expr if_stat else_stat) = (
    let hres := compile_expression ctx expr
    if FAILED hres.1 then hres else
    let jmp_else := push_instr hres.2 OP_jmp_z
    if jmp_else.1 = UINT_MAX then (E_OUTOFMEMORY, jmp_else.2) else
    let hres := compile_statement jmp_else.2 none if_stat
    if FAILED hres.1 then hres else
    let jmp_end := push_instr hres.2 OP_jmp
    if jmp_end.1 = UINT_MAX then (E_OUTOFMEMORY, jmp_end.2) else
    let ctx1 := set_arg1 jmp_end.2 jmp_else.1 (.uint jmp_end.2.code_off)
    let hres :=
      match else_stat with
      | .node _ stat _ => compile_statement ctx1 none stat
      | .NULL => push_instr_hres ctx1 OP_undefined
    if FAILED hres.1 then hres else
    (S_OK, set_arg1 hres.2 jmp_end.1 (.uint hres.2.code_off))) := by
  cases else_stat <;> rfl

theorem compile_while_statement_unfold (ctx : compiler_ctx_t) (do_while : Bool) (expr : expression_t) (statement : statement_t) :
    compile_while_statement ctx (.mk do_while expr statement) = (
    let off_backup := ctx.code_off
    let break_label := alloc_label ctx
    if break_label.1 = UINT_MAX then (E_OUTOFMEMORY, break_label.2) else
    let continue_label := alloc_label break_label.2
    if continue_label.1 = UINT_MAX then (E_OUTOFMEMORY, continue_label.2) else
    let stat_ctx : statement_ctx_t := ⟨0, false, false, break_label.1, continue_label.1⟩
    let head : (HRESULT × compiler_ctx_t) × Nat :=
      if !do_while then
        let instr := push_instr continue_label.2 OP_undefined
        if instr.1 = UINT_MAX then ((E_OUTOFMEMORY, instr.2), 0) else
        let jmp_off := instr.2.code_off
        let hres := compile_expression (label_set_addr instr.2 stat_ctx.continue_label) expr
        if FAILED hres.1 then (hres, jmp_off) else
        let hres := push_instr_uint hres.2 OP_jmp_z stat_ctx.break_label
        if FAILED hres.1 then (hres, jmp_off) else
        (push_instr_hres hres.2 OP_pop, jmp_off)
      else ((S_OK, continue_label.2), continue_label.2.code_off)
    if FAILED head.1.1 then head.1 else
    let jmp_off := head.2
    let prev_no_fallback := head.1.2.no_fallback
    let hres := compile_statement (set_no_fallback head.1.2 true) (some stat_ctx) statement
    let ctx1 := set_no_fallback hres.2 prev_no_fallback
    if hres.1 = E_NOTIMPL then
      compile_interp_fallback
        (set_eval (set_code_off ctx1 off_backup) (.STAT_WHILE (.mk do_while expr statement))
          .while_statement_eval)
        (.STAT_WHILE (.mk do_while expr statement))
    else
    if FAILED hres.1 then (hres.1, ctx1) else
    let tail : HRESULT × compiler_ctx_t :=
      if do_while then
        let hres := compile_expression (label_set_addr ctx1 stat_ctx.continue_label) expr
        if FAILED hres.1 then hres else
        let hres := push_instr_uint hres.2 OP_jmp_z stat_ctx.break_label
        if FAILED hres.1 then hres else
        push_instr_hres hres.2 OP_pop
      else (S_OK, ctx1)
    if FAILED tail.1 then tail else
    let hres := push_instr_uint tail.2 OP_jmp jmp_off
    if FAILED hres.1 then hres else
    (S_OK, label_set_addr hres.2 stat_ctx.break_label)) := rfl

theorem compile_for_statement_unfold (ctx : compiler_ctx_t) (variable_list : variable_declaration_t) (begin_expr expr end_expr : Option expression_t) (statement : statement_t) :
    compile_for_statement ctx (.mk variable_list begin_expr expr end_expr statement) = (
    let off_backup := ctx.code_off
    let init : HRESULT × compiler_ctx_t :=
      match variable_list, begin_expr with
      | .mk identifier e next, _ => compile_variable_list ctx (.mk identifier e next)
      | .NULL, some begin_expr =>
        let hres := compile_expression_noret ctx begin_expr (some false)
        if FAILED hres.1.1 then hres.1 else
        if hres.2 = some false then push_instr_hres hres.1.2 OP_pop else (S_OK, hres.1.2)
      | .NULL, none => (S_OK, ctx)
    if FAILED init.1 then init else
    let break_label := alloc_label init.2
    if break_label.1 = UINT_MAX then (E_OUTOFMEMORY, break_label.2) else
    let continue_label := alloc_label break_label.2
    if continue_label.1 = UINT_MAX then (E_OUTOFMEMORY, continue_label.2) else
    let stat_ctx : statement_ctx_t := ⟨0, false, false, break_label.1, continue_label.1⟩
    let instr := push_instr continue_label.2 OP_undefined
    if instr.1 = UINT_MAX then (E_OUTOFMEMORY, instr.2) else
    let expr_off := instr.2.code_off
    let test : HRESULT × compiler_ctx_t :=
      match expr with
      | some expr =>
        let hres := compile_expression instr.2 expr
        if FAILED hres.1 then hres else
        push_instr_uint hres.2 OP_jmp_z stat_ctx.break_label
      | none => (S_OK, instr.2)
    if FAILED test.1 then test else
    let instr := push_instr test.2 OP_pop
    if instr.1 = UINT_MAX then (E_OUTOFMEMORY, instr.2) else
    let prev_no_fallback := instr.2.no_fallback
    let hres := compile_statement (set_no_fallback instr.2 true) (some stat_ctx) statement
    let ctx1 := set_no_fallback hres.2 prev_no_fallback
    if hres.1 = E_NOTIMPL then
      compile_interp_fallback
        (set_eval (set_code_off ctx1 off_backup)
          (.STAT_FOR (.mk variable_list begin_expr expr end_expr statement)) .for_statement_eval)
        (.STAT_FOR (.mk variable_list begin_expr expr end_expr statement))
    else
    if FAILED hres.1 then (hres.1, ctx1) else
    let ctx2 := label_set_addr ctx1 stat_ctx.continue_label
    let step : HRESULT × compiler_ctx_t :=
      match end_expr with
      | some end_expr =>
        let hres := compile_expression_noret ctx2 end_expr (some false)
        if FAILED hres.1.1 then hres.1 else
        if hres.2 = some false then push_instr_hres hres.1.2 OP_pop else (S_OK, hres.1.2)
      | none => (S_OK, ctx2)
    if FAILED step.1 then step else
    let hres := push_instr_uint step.2 OP_jmp expr_off
    if FAILED hres.1 then hres else
    (S_OK, label_set_addr hres.2 stat_ctx.break_label)) := rfl

theorem compile_forin_statement_unfold (ctx : compiler_ctx_t) (variable_ : variable_declaration_t) (expr in_expr : expression_t) (statement : statement_t) :
    compile_forin_statement ctx (.mk variable_ expr in_expr statement) = (
    let off_backup := ctx.code_off
    let init : HRESULT × compiler_ctx_t :=
      match variable_ with
      | .mk identifier e next => compile_variable_list ctx (.mk identifier e next)
      | .NULL => (S_OK, ctx)
    if FAILED init.1 then init else
    let break_label := alloc_label init.2
    if break_label.1 = UINT_MAX then (E_OUTOFMEMORY, break_label.2) else
    let continue_label := alloc_label break_label.2
    if continue_label.1 = UINT_MAX then (E_OUTOFMEMORY, continue_label.2) else
    let stat_ctx : statement_ctx_t := ⟨4, false, false, break_label.1, continue_label.1⟩
    let hres := compile_expression continue_label.2 in_expr
    if FAILED hres.1 then hres else
    let target : (HRESULT × compiler_ctx_t) × Bool :=
      match variable_ with
      | .mk identifier _ _ => (push_instr_bstr_uint hres.2 OP_identid identifier fdexNameEnsure, false)
      | .NULL =>
        if is_memberid_expr expr.type then
          (compile_memberid_expression hres.2 expr fdexNameEnsure, false)
        else
          (push_instr_uint hres.2 OP_throw_ref JS_E_ILLEGAL_ASSIGN, true)
    if FAILED target.1.1 then target.1 else
    if target.2 then (S_OK, target.1.2) else
    let hres := push_instr_int target.1.2 OP_int DISPID_STARTENUM
    if FAILED hres.1 then hres else
    let instr := push_instr hres.2 OP_undefined
    if instr.1 = UINT_MAX then (E_OUTOFMEMORY, instr.2) else
    let hres := push_instr_uint (label_set_addr instr.2 stat_ctx.continue_label) OP_forin
      stat_ctx.break_label
    if FAILED hres.1 then (E_OUTOFMEMORY, hres.2) else
    let prev_no_fallback := hres.2.no_fallback
    let body := compile_statement (set_no_fallback hres.2 true) (some stat_ctx) statement
    let ctx1 := set_no_fallback body.2 prev_no_fallback
    if body.1 = E_NOTIMPL then
      compile_interp_fallback
        (set_eval (set_code_off ctx1 off_backup)
          (.STAT_FORIN (.mk variable_ expr in_expr statement)) .forin_statement_eval)
        (.STAT_FORIN (.mk variable_ expr in_expr statement))
    else
    if FAILED body.1 then (body.1, ctx1) else
    let hres := push_instr_uint ctx1 OP_jmp stat_ctx.continue_label
    if FAILED hres.1 then hres else
    (S_OK, label_set_addr hres.2 stat_ctx.break_label)) := rfl

theorem compile_with_statement_unfold (ctx : compiler_ctx_t) (expr : expression_t) (statement : statement_t) :
    compile_with_statement ctx (.mk expr statement) = (
    let stat_ctx : statement_ctx_t := ⟨0, true, false, UINT_MAX, UINT_MAX⟩
    let off_backup := ctx.code_off
    let hres := compile_expression ctx expr
    if FAILED hres.1 then hres else
    let instr := push_instr hres.2 OP_push_scope
    if instr.1 = UINT_MAX then (E_OUTOFMEMORY, instr.2) else
    let prev_no_fallback := instr.2.no_fallback
    let hres := compile_statement (set_no_fallback instr.2 true) (some stat_ctx) statement
    let ctx1 := set_no_fallback hres.2 prev_no_fallback
    if hres.1 = E_NOTIMPL then
      compile_interp_fallback
        (set_eval (set_code_off ctx1 off_backup) (.STAT_WITH (.mk expr statement))
          .with_statement_eval)
        (.STAT_WITH (.mk expr statement))
    else
    if FAILED hres.1 then (hres.1, ctx1) else
    push_instr_hres ctx1 OP_pop_scope) := rfl

theorem compile_try_statement_unfold (ctx : compiler_ctx_t) (try_statement : statement_t) (catch_block : catch_block_t) (finally_statement : statement_list) :
    compile_try_statement ctx (.mk try_statement catch_block finally_statement) = (
    let this := statement_t.STAT_TRY (.mk try_statement catch_block finally_statement)
    let off_backup := ctx.code_off
    let prev_no_fallback := ctx.no_fallback
    let push_except := push_instr ctx OP_push_except
    if push_except.1 = UINT_MAX then (E_OUTOFMEMORY, push_except.2) else
    let ident : Bool × Option String × compiler_ctx_t :=
      match catch_block with
      | .mk identifier _ =>
        let ident := compiler_alloc_bstr push_except.2 identifier
        (ident.1.isSome, ident.1, ident.2)
      | .NULL => (true, none, push_except.2)
    if !ident.1 then (E_OUTOFMEMORY, ident.2.2) else
    let ctx1 := set_arg2 ident.2.2 push_except.1 (.bstr ident.2.1)
    let try_ctx : statement_ctx_t :=
      match catch_block with
      | .mk _ _ => ⟨0, false, true, UINT_MAX, UINT_MAX⟩
      | .NULL => ⟨2, false, true, UINT_MAX, UINT_MAX⟩
    let catch_ctx : statement_ctx_t := ⟨0, true, false, UINT_MAX, UINT_MAX⟩
    let finally_ctx : statement_ctx_t := ⟨2, false, false, UINT_MAX, UINT_MAX⟩
    let hres := compile_statement (set_no_fallback ctx1 true) (some try_ctx) try_statement
    let ctx2 := set_no_fallback hres.2 prev_no_fallback
    if hres.1 = E_NOTIMPL then
      compile_interp_fallback
        (set_eval (set_code_off ctx2 off_backup) this .try_statement_eval) this
    else
    if FAILED hres.1 then (hres.1, ctx2) else
    let instr := push_instr ctx2 OP_pop_except
    if instr.1 = UINT_MAX then (E_OUTOFMEMORY, instr.2) else
    let handler : (HRESULT × compiler_ctx_t) × Bool :=
      match catch_block with
      | .mk _ statement =>
        let jmp_finally := push_instr instr.2 OP_jmp
        if jmp_finally.1 = UINT_MAX then ((E_OUTOFMEMORY, jmp_finally.2), true) else
        let ctx3 := set_arg1 jmp_finally.2 push_except.1 (.uint jmp_finally.2.code_off)
        let hres := compile_statement (set_no_fallback ctx3 true) (some catch_ctx) statement
        let ctx4 := set_no_fallback hres.2 prev_no_fallback
        if hres.1 = E_NOTIMPL then
          (compile_interp_fallback
            (set_eval (set_code_off ctx4 off_backup) this .try_statement_eval) this, true)
        else
        if FAILED hres.1 then ((hres.1, ctx4), true) else
        let instr := push_instr ctx4 OP_pop_scope
        if instr.1 = UINT_MAX then ((E_OUTOFMEMORY, instr.2), true) else
        ((S_OK, set_arg1 instr.2 jmp_finally.1 (.uint instr.2.code_off)), false)
      | .NULL => ((S_OK, set_arg1 instr.2 push_except.1 (.uint instr.2.code_off)), false)
    if handler.2 then handler.1 else
    match finally_statement with
    | .node _ finally_stat _ =>
      let instr := push_instr handler.1.2 OP_pop
      if instr.1 = UINT_MAX then (E_OUTOFMEMORY, instr.2) else
      let hres := compile_statement (set_no_fallback instr.2 true)
        (match catch_block with
         | .mk _ _ => none
         | .NULL => some finally_ctx)
        finally_stat
      let ctx5 := set_no_fallback hres.2 prev_no_fallback
      if hres.1 = E_NOTIMPL then
        compile_interp_fallback
          (set_eval (set_code_off ctx5 off_backup) this .try_statement_eval) this
      else
      if FAILED hres.1 then (hres.1, ctx5) else
      match catch_block with
      | .mk _ _ => (S_OK, ctx5)
      | .NULL => push_instr_hres ctx5 OP_end_finally
    | .NULL => (S_OK, handler.1.2)) := by
  cases catch_block <;> cases finally_statement <;> rfl

theorem compile_case_statements_unfold (ctx : compiler_ctx_t) (stat_ctx : statement_ctx_t) (off_backup : Nat) (stat : statement_t) (next : case_clausule_t) (hres : HRESULT) (addr : Nat) (stat_iter : statement_t) (stat_next : statement_list) :
    compile_case_statements ctx stat_ctx off_backup stat next hres (.node addr stat_iter stat_next) = (
    if !(next.is_null || !(next.stat.ptr_eq (.node addr stat_iter stat_next))) then
      (hres, ctx, false)
    else
    let prev_no_fallback := ctx.no_fallback
    let hres := compile_statement (set_no_fallback ctx true) (some stat_ctx) stat_iter
    let ctx1 := set_no_fallback hres.2 prev_no_fallback
    if hres.1 = E_NOTIMPL then
      let r := compile_interp_fallback
        (set_eval (set_code_off ctx1 off_backup) stat .switch_statement_eval) stat
      (r.1, r.2, true)
    else
    if FAILED hres.1 then (hres.1, ctx1, false) else
    let pop := if !stat_next.is_null then push_instr_hres ctx1 OP_pop else (S_OK, ctx1)
    if pop.1 = E_OUTOFMEMORY then (E_OUTOFMEMORY, pop.2, false) else
    compile_case_statements pop.2 stat_ctx off_backup stat next hres.1 stat_next) := rfl

theorem compile_case_bodies_unfold (ctx : compiler_ctx_t) (stat_ctx : statement_ctx_t) (off_backup : Nat) (stat : statement_t) (case_jmps : Nat → Nat) (default_jmp i : Nat) (hres : HRESULT) (expr : Option expression_t) (iter_stat : statement_list) (next : case_clausule_t) :
    compile_case_bodies ctx stat_ctx off_backup stat case_jmps default_jmp i hres (.mk expr iter_stat next) = (
    let ctx1 := set_arg1 ctx (if expr.isSome then case_jmps i else default_jmp) (.uint ctx.code_off)
    let i1 := if expr.isSome then i + 1 else i
    if !next.is_null && next.stat.ptr_eq iter_stat then
      compile_case_bodies ctx1 stat_ctx off_backup stat case_jmps default_jmp i1 hres next
    else
    let body := compile_case_statements ctx1 stat_ctx off_backup stat next hres iter_stat
    if body.2.2 then ⟨body.1, body.2.1, i1, true⟩ else
    if FAILED body.1 then ⟨body.1, body.2.1, i1, false⟩ else
    compile_case_bodies body.2.1 stat_ctx off_backup stat case_jmps default_jmp i1 body.1 next) := rfl

theorem compile_switch_statement_unfold (ctx : compiler_ctx_t) (expr : expression_t) (case_list : case_clausule_t) :
    compile_switch_statement ctx (.mk expr case_list) = (
    let off_backup := ctx.code_off
    let hres := compile_expression ctx expr
    if FAILED hres.1 then hres else
    let break_label := alloc_label hres.2
    if break_label.1 = UINT_MAX then (E_OUTOFMEMORY, break_label.2) else
    let stat_ctx : statement_ctx_t := ⟨0, false, false, break_label.1, UINT_MAX⟩
    let case_jmps := heap_alloc break_label.2
    if !case_jmps.1 then (E_OUTOFMEMORY, case_jmps.2) else
    let cases := compile_case_exprs ⟨hres.1, case_jmps.2, fun _ => 0, 0, false⟩ case_list
    let jmp : (HRESULT × compiler_ctx_t) × Nat :=
      if SUCCEEDED cases.hres then
        let instr := push_instr cases.ctx OP_pop
        if instr.1 ≠ UINT_MAX then
          let default_jmp := push_instr instr.2 OP_jmp
          ((if default_jmp.1 = UINT_MAX then E_OUTOFMEMORY else cases.hres, default_jmp.2),
            default_jmp.1)
        else ((E_OUTOFMEMORY, instr.2), 0)
      else ((cases.hres, cases.ctx), 0)
    if FAILED jmp.1.1 then jmp.1 else
    let default_jmp := jmp.2
    let bodies := compile_case_bodies jmp.1.2 stat_ctx off_backup
      (.STAT_SWITCH (.mk expr case_list)) cases.case_jmps default_jmp 0 jmp.1.1 case_list
    if bodies.returned then (bodies.hres, bodies.ctx) else
    if FAILED bodies.hres then (bodies.hres, bodies.ctx) else
    let ctx1 :=
      if !cases.have_default then set_arg1 bodies.ctx default_jmp (.uint bodies.ctx.code_off)
      else bodies.ctx
    (S_OK, label_set_addr ctx1 stat_ctx.break_label)) := rfl


/-! ## The frame relation: statements -/


theorem compile_expression_rel {a b : Nat} {c0 c : compiler_ctx_t} (e : expression_t)
    (h : Rel a b c0 c) : Rel a b c0 (compile_expression c e).2 :=
  compile_expression_noret_rel e none h

theorem set_eval_rel {a b : Nat} {c0 c : compiler_ctx_t} (s : statement_t) (ev : statement_eval_t)
    (h : Rel a b c0 c) : Rel a b c0 (set_eval c s ev) :=
  h.of_agree ⟨rfl, rfl, rfl, rfl, rfl, rfl, rfl, rfl, rfl⟩

theorem Rel.rollback {b : Nat} {c0 c : compiler_ctx_t} (h : Rel c0.code_off b c0 c) :
    Rel c0.code_off b c0 (set_code_off c c0.code_off) :=
  ⟨le_refl _, h.instrs_eq, h.size_le, fun w => le_trans w h.size_le, h.cnt_ge, h.cnt_mono,
   h.labels_eq, h.log_ext, h.lsize_le, h.cnt_le, h.stat_ctx_eq, h.no_fallback_eq⟩

theorem compile_interp_fallback_rel {a b : Nat} {c0 c : compiler_ctx_t} (stat : statement_t)
    (h : Rel a b c0 c) : Rel a b c0 (compile_interp_fallback c stat).2 := by
  unfold compile_interp_fallback
  dsimp only
  repeat (first
    | with_reducible (first
        | exact h
        | assumption
        | exact Rel.refl _
        | intro _
        | apply Rel.ite
        | apply Rel.ite1
        | apply Rel.ite2
        | apply Rel.ite0
        | apply set_arg1_rel
        | apply set_arg2_rel
        | apply push_instr_idx_ge
        | apply push_instr_rel
        | apply push_instr_hres_rel
        | apply push_instr_int_rel
        | apply push_instr_uint_rel
        | apply push_instr_str_rel
        | apply push_instr_bstr_rel
        | apply push_instr_bstr_uint_rel
        | apply push_instr_uint_str_rel
        | apply push_instr_double_rel
        | apply heap_alloc_rel
        | apply compiler_alloc_string_rel
        | apply compiler_alloc_bstr_rel
        | apply compile_expression_rel
        | apply compile_expression_noret_rel
        | apply compile_memberid_expression_rel
        | apply set_eval_rel
        | apply compile_interp_fallback_rel
        | apply alloc_label_rel
        | apply label_set_addr_rel
        | apply Rel.rollback
        | apply compile_variable_list_rel
        | apply pop_to_stat_rel)
    | split)

/-- The two outcomes of `alloc_label`: no room and no memory, or the next label is handed out,
possibly from a larger table. -/
theorem alloc_label_cases (c : compiler_ctx_t) :
    (∃ hp, alloc_label c = (UINT_MAX, { c with heap := hp })) ∨
    (∃ hp n, c.labels_size ≤ n ∧ (c.labels_cnt ≤ c.labels_size → c.labels_cnt < n) ∧
      alloc_label c = (c.labels_cnt ||| LABEL_FLAG,
        { c with heap := hp, labels_size := n, labels_cnt := c.labels_cnt + 1 })) := by
  obtain ⟨b, hp, e⟩ := heap_alloc_cases c
  unfold alloc_label
  rw [e]
  by_cases h0 : c.labels_size = 0
  · rw [if_pos h0]
    cases b
    · exact Or.inl ⟨hp, rfl⟩
    · exact Or.inr ⟨hp, 8, by omega, fun w => by omega, rfl⟩
  · rw [if_neg h0]
    by_cases h1 : c.labels_size = c.labels_cnt
    · rw [if_pos h1]
      cases b
      · exact Or.inl ⟨hp, rfl⟩
      · exact Or.inr ⟨hp, c.labels_size * 2, by omega, fun _ => by omega, rfl⟩
    · rw [if_neg h1]
      exact Or.inr ⟨c.heap, c.labels_size, le_refl _, fun w => by omega, rfl⟩

theorem alloc_label_rel {a b : Nat} {c0 c : compiler_ctx_t} (h : Rel a b c0 c) :
    Rel a b c0 (alloc_label c).2 := by
  rcases alloc_label_cases c with ⟨hp, e⟩ | ⟨hp, n, h1, h2, e⟩ <;> rw [e]
  · exact h.of_agree ⟨rfl, rfl, rfl, rfl, rfl, rfl, rfl, rfl, rfl⟩
  · refine ⟨h.off_ge, h.instrs_eq, h.size_le, h.off_le, Nat.le_succ_of_le h.cnt_ge,
      Nat.le_succ_of_le h.cnt_mono, ?_, ?_, le_trans h.lsize_le h1, fun w => h2 (h.cnt_le w),
      h.stat_ctx_eq, h.no_fallback_eq⟩
    · intro hb l hl
      exact h.labels_eq (Nat.le_of_succ_le hb) l hl
    · intro hb
      obtain ⟨new, e1, p1, d1⟩ := h.log_ext (Nat.le_of_succ_le hb)
      exact ⟨new, e1, fun l hl => ⟨(p1 l hl).1, Nat.lt_succ_of_lt (p1 l hl).2⟩, d1⟩

theorem alloc_label_cnt (c : compiler_ctx_t) (hne : ¬ (alloc_label c).1 = UINT_MAX) :
    (alloc_label c).1 = c.labels_cnt ||| LABEL_FLAG ∧
    (alloc_label c).2.labels_cnt = c.labels_cnt + 1 := by
  rcases alloc_label_cases c with ⟨hp, e⟩ | ⟨hp, n, h1, h2, e⟩
  · rw [e] at hne; exact absurd rfl hne
  · rw [e]; exact ⟨rfl, rfl⟩

theorem alloc_label_log (c : compiler_ctx_t) : (alloc_label c).2.label_log = c.label_log := by
  rcases alloc_label_cases c with ⟨hp, e⟩ | ⟨hp, n, h1, h2, e⟩ <;> rw [e]

theorem label_index (n : Nat) (h : n < LABEL_FLAG) : (n ||| LABEL_FLAG) &&& (LABEL_FLAG - 1) = n :=
  tok_idx n h

/-- Binding a label that `alloc_label` handed out at `c1`, in a state `c` reached afterwards. -/
theorem label_set_addr_rel {a b : Nat} {c0 c c1 : compiler_ctx_t} (h : Rel a b c0 c)
    (hb : Rel a b c0 c1)
    (hl : Rel (alloc_label c1).2.code_off (alloc_label c1).2.labels_cnt (alloc_label c1).2 c)
    (hne : ¬ (alloc_label c1).1 = UINT_MAX) :
    Rel a b c0 (label_set_addr c (alloc_label c1).1) := by
  obtain ⟨e1, e2⟩ := alloc_label_cnt c1 hne
  have hlt : c1.labels_cnt < c.labels_cnt := by
    have := hl.cnt_ge; rw [e2] at this; exact this
  refine ⟨h.off_ge, h.instrs_eq, h.size_le, h.off_le, h.cnt_ge, h.cnt_mono, ?_, ?_, h.lsize_le,
    h.cnt_le, h.stat_ctx_eq, h.no_fallback_eq⟩
  · intro hB l hlb
    have hidx := label_index c1.labels_cnt (lt_of_lt_of_le hlt hB)
    have hne' : l ≠ c1.labels_cnt := Nat.ne_of_lt (lt_of_lt_of_le hlb hb.cnt_ge)
    show Function.update c.labels ((alloc_label c1).1 &&& (LABEL_FLAG - 1)) c.code_off l = _
    rw [e1, hidx, Function.update_noteq hne']
    exact h.labels_eq hB l hlb
  · intro hB
    have hidx := label_index c1.labels_cnt (lt_of_lt_of_le hlt hB)
    obtain ⟨new, e3, p3, d3⟩ := h.log_ext hB
    refine ⟨c1.labels_cnt :: new, ?_, ?_, ?_⟩
    · show ((alloc_label c1).1 &&& (LABEL_FLAG - 1)) :: c.label_log = _
      rw [e1, hidx, e3]; rfl
    · intro l hl
      rcases List.mem_cons.1 hl with hl | hl
      · subst hl; exact ⟨hb.cnt_ge, hlt⟩
      · exact p3 l hl
    · obtain ⟨n1, f1, q1, _⟩ := hb.log_ext (le_trans (Nat.le_of_lt hlt) hB)
      obtain ⟨n2, f2, q2, _⟩ := hl.log_ext hB
      rw [alloc_label_log, f1, ← List.append_assoc] at f2
      have e4 : new = n2 ++ n1 := List.append_cancel_right (e3.symm.trans f2)
      refine List.nodup_cons.2 ⟨?_, d3⟩
      rw [e4]
      intro hm
      rcases List.mem_append.1 hm with hm | hm
      · have := (q2 _ hm).1
        rw [e2] at this
        exact absurd this (Nat.not_succ_le_self _)
      · exact absurd (q1 _ hm).2 (Nat.lt_irrefl _)

theorem set_no_fallback_local (c : compiler_ctx_t) (v : Bool) :
    c.code_off = (set_no_fallback c v).code_off ∧ c.labels_cnt = (set_no_fallback c v).labels_cnt :=
  ⟨rfl, rfl⟩

/-- The lowering of a body: fallback is forbidden for the body and the previous value of the flag,
read from `cn`, is restored. -/
theorem body_step {s : statement_t} (ih : (∀ {a b : Nat} {c0 : compiler_ctx_t} (sc : Option statement_ctx_t) {c : compiler_ctx_t},
      Rel a b c0 c → Rel a b c0 (compile_statement c sc s).2))
    {a b : Nat} {c0 c cn : compiler_ctx_t} {sc : Option statement_ctx_t}
    (h : Rel a b c0 c) (hn : Rel a b c0 cn) :
    Rel a b c0 (set_no_fallback (compile_statement (set_no_fallback c true) sc s).2 cn.no_fallback) := by
  have h1 : Rel c.code_off c.labels_cnt (set_no_fallback c true)
      (compile_statement (set_no_fallback c true) sc s).2 :=
    ih sc (Rel.refl (set_no_fallback c true))
  exact
    ⟨le_trans h.off_ge h1.off_ge,
     fun i hi => (h1.instrs_eq i (lt_of_lt_of_le hi h.off_ge)).trans (h.instrs_eq i hi),
     le_trans h.size_le h1.size_le, fun w => h1.off_le (h.off_le w),
     le_trans h.cnt_ge h1.cnt_ge, le_trans h.cnt_mono h1.cnt_mono,
     fun hB l hl => (h1.labels_eq hB l (lt_of_lt_of_le hl h.cnt_ge)).trans
       (h.labels_eq (le_trans h1.cnt_ge hB) l hl),
     fun hB => by
       obtain ⟨n1, e1, p1, d1⟩ := h.log_ext (le_trans h1.cnt_ge hB)
       obtain ⟨n2, e2, p2, d2⟩ := h1.log_ext hB
       refine ⟨n2 ++ n1, ?_, log_append p1 d1 p2 d2 h.cnt_ge h1.cnt_ge⟩
       show (compile_statement (set_no_fallback c true) sc s).2.label_log = _
       rw [e2]; show n2 ++ c.label_log = _; rw [e1, List.append_assoc],
     le_trans h.lsize_le h1.lsize_le, fun w => h1.cnt_le (h.cnt_le w),
     h1.stat_ctx_eq.trans h.stat_ctx_eq, hn.no_fallback_eq⟩

/-- The prologue and the epilogue of `compile_statement` around a routine `R`. -/
theorem frame_step (R : compiler_ctx_t → HRESULT × compiler_ctx_t)
    (hR : ∀ c' : compiler_ctx_t, Rel c'.code_off c'.labels_cnt c' (R c').2)
    {a b : Nat} {c0 c : compiler_ctx_t} (sc : Option statement_ctx_t) (h : Rel a b c0 c) :
    Rel a b c0 (pop_stat_ctx c sc (R (push_stat_ctx c sc))).2 := by
  cases sc with
  | none => exact h.trans (hR c)
  | some frame =>
    have h1 := hR (push_stat_ctx c (some frame))
    exact ⟨le_trans h.off_ge h1.off_ge,
     fun i hi => (h1.instrs_eq i (lt_of_lt_of_le hi h.off_ge)).trans (h.instrs_eq i hi),
     le_trans h.size_le h1.size_le, fun w => h1.off_le (h.off_le w),
     le_trans h.cnt_ge h1.cnt_ge, le_trans h.cnt_mono h1.cnt_mono,
     fun hB l hl => (h1.labels_eq hB l (lt_of_lt_of_le hl h.cnt_ge)).trans
       (h.labels_eq (le_trans h1.cnt_ge hB) l hl),
     fun hB => by
       obtain ⟨n1, e1, p1, d1⟩ := h.log_ext (le_trans h1.cnt_ge hB)
       obtain ⟨n2, e2, p2, d2⟩ := h1.log_ext hB
       refine ⟨n2 ++ n1, ?_, log_append p1 d1 p2 d2 h.cnt_ge h1.cnt_ge⟩
       show (R (push_stat_ctx c (some frame))).2.label_log = _
       rw [e2]; show n2 ++ c.label_log = _; rw [e1, List.append_assoc],
     le_trans h.lsize_le h1.lsize_le, fun w => h1.cnt_le (h.cnt_le w),
     h.stat_ctx_eq, h1.no_fallback_eq.trans h.no_fallback_eq⟩

theorem compile_variable_list_rel {a b : Nat} {c0 : compiler_ctx_t} (l : variable_declaration_t) :
    ∀ {c : compiler_ctx_t}, Rel a b c0 c → Rel a b c0 (compile_variable_list c l).2 := by
  induction l with
  | NULL => intro c h; exact h
  | mk identifier expr next ih =>
    intro c h
    rw [compile_variable_list.eq_def]
    cases expr with
    | none => exact ih h
    | some e =>
      dsimp only
      repeat (first
    | with_reducible (first
        | exact h
        | assumption
        | exact Rel.refl _
        | intro _
        | apply ih
        | apply Rel.ite
        | apply Rel.ite1
        | apply Rel.ite2
        | apply Rel.ite0
        | apply set_arg1_rel
        | apply set_arg2_rel
        | apply push_instr_idx_ge
        | apply push_instr_rel
        | apply push_instr_hres_rel
        | apply push_instr_int_rel
        | apply push_instr_uint_rel
        | apply push_instr_str_rel
        | apply push_instr_bstr_rel
        | apply push_instr_bstr_uint_rel
        | apply push_instr_uint_str_rel
        | apply push_instr_double_rel
        | apply heap_alloc_rel
        | apply compiler_alloc_string_rel
        | apply compiler_alloc_bstr_rel
        | apply compile_expression_rel
        | apply compile_expression_noret_rel
        | apply compile_memberid_expression_rel
        | apply set_eval_rel
        | apply compile_interp_fallback_rel
        | apply alloc_label_rel
        | apply label_set_addr_rel
        | apply Rel.rollback
        | apply compile_variable_list_rel
        | apply pop_to_stat_rel)
    | split)

theorem compile_var_statement_rel {a b : Nat} {c0 c : compiler_ctx_t} (stat : var_statement_t)
    (h : Rel a b c0 c) : Rel a b c0 (compile_var_statement c stat).2 := by
  unfold compile_var_statement
  dsimp only
  repeat (first
    | with_reducible (first
        | exact h
        | assumption
        | exact Rel.refl _
        | intro _
        | apply Rel.ite
        | apply Rel.ite1
        | apply Rel.ite2
        | apply Rel.ite0
        | apply set_arg1_rel
        | apply set_arg2_rel
        | apply push_instr_idx_ge
        | apply push_instr_rel
        | apply push_instr_hres_rel
        | apply push_instr_int_rel
        | apply push_instr_uint_rel
        | apply push_instr_str_rel
        | apply push_instr_bstr_rel
        | apply push_instr_bstr_uint_rel
        | apply push_instr_uint_str_rel
        | apply push_instr_double_rel
        | apply heap_alloc_rel
        | apply compiler_alloc_string_rel
        | apply compiler_alloc_bstr_rel
        | apply compile_expression_rel
        | apply compile_expression_noret_rel
        | apply compile_memberid_expression_rel
        | apply set_eval_rel
        | apply compile_interp_fallback_rel
        | apply alloc_label_rel
        | apply label_set_addr_rel
        | apply Rel.rollback
        | apply compile_variable_list_rel
        | apply pop_to_stat_rel)
    | split)

theorem compile_expression_statement_rel {a b : Nat} {c0 c : compiler_ctx_t}
    (stat : expression_statement_t) (h : Rel a b c0 c) :
    Rel a b c0 (compile_expression_statement c stat).2 := by
  unfold compile_expression_statement
  dsimp only
  repeat (first
    | with_reducible (first
        | exact h
        | assumption
        | exact Rel.refl _
        | intro _
        | apply Rel.ite
        | apply Rel.ite1
        | apply Rel.ite2
        | apply Rel.ite0
        | apply set_arg1_rel
        | apply set_arg2_rel
        | apply push_instr_idx_ge
        | apply push_instr_rel
        | apply push_instr_hres_rel
        | apply push_instr_int_rel
        | apply push_instr_uint_rel
        | apply push_instr_str_rel
        | apply push_instr_bstr_rel
        | apply push_instr_bstr_uint_rel
        | apply push_instr_uint_str_rel
        | apply push_instr_double_rel
        | apply heap_alloc_rel
        | apply compiler_alloc_string_rel
        | apply compiler_alloc_bstr_rel
        | apply compile_expression_rel
        | apply compile_expression_noret_rel
        | apply compile_memberid_expression_rel
        | apply set_eval_rel
        | apply compile_interp_fallback_rel
        | apply alloc_label_rel
        | apply label_set_addr_rel
        | apply Rel.rollback
        | apply compile_variable_list_rel
        | apply pop_to_stat_rel)
    | split)

theorem compile_throw_statement_rel {a b : Nat} {c0 c : compiler_ctx_t}
    (stat : expression_statement_t) (h : Rel a b c0 c) :
    Rel a b c0 (compile_throw_statement c stat).2 := by
  unfold compile_throw_statement
  dsimp only
  repeat (first
    | with_reducible (first
        | exact h
        | assumption
        | exact Rel.refl _
        | intro _
        | apply Rel.ite
        | apply Rel.ite1
        | apply Rel.ite2
        | apply Rel.ite0
        | apply set_arg1_rel
        | apply set_arg2_rel
        | apply push_instr_idx_ge
        | apply push_instr_rel
        | apply push_instr_hres_rel
        | apply push_instr_int_rel
        | apply push_instr_uint_rel
        | apply push_instr_str_rel
        | apply push_instr_bstr_rel
        | apply push_instr_bstr_uint_rel
        | apply push_instr_uint_str_rel
        | apply push_instr_double_rel
        | apply heap_alloc_rel
        | apply compiler_alloc_string_rel
        | apply compiler_alloc_bstr_rel
        | apply compile_expression_rel
        | apply compile_expression_noret_rel
        | apply compile_memberid_expression_rel
        | apply set_eval_rel
        | apply compile_interp_fallback_rel
        | apply alloc_label_rel
        | apply label_set_addr_rel
        | apply Rel.rollback
        | apply compile_variable_list_rel
        | apply pop_to_stat_rel)
    | split)

theorem pop_to_stat_frames_rel {a b : Nat} {c0 : compiler_ctx_t} (l : List statement_ctx_t) :
    ∀ (k n : Nat) {c : compiler_ctx_t}, Rel a b c0 c →
      Rel a b c0 (pop_to_stat_frames c l k n).1.2 := by
  induction l with
  | nil => intro k n c h; exact h
  | cons iter next ih =>
    intro k n c h
    rw [pop_to_stat_frames.eq_def]
    dsimp only
    repeat (first
    | with_reducible (first
        | exact h
        | assumption
        | exact Rel.refl _
        | intro _
        | apply ih
        | apply Rel.ite
        | apply Rel.ite1
        | apply Rel.ite2
        | apply Rel.ite0
        | apply set_arg1_rel
        | apply set_arg2_rel
        | apply push_instr_idx_ge
        | apply push_instr_rel
        | apply push_instr_hres_rel
        | apply push_instr_int_rel
        | apply push_instr_uint_rel
        | apply push_instr_str_rel
        | apply push_instr_bstr_rel
        | apply push_instr_bstr_uint_rel
        | apply push_instr_uint_str_rel
        | apply push_instr_double_rel
        | apply heap_alloc_rel
        | apply compiler_alloc_string_rel
        | apply compiler_alloc_bstr_rel
        | apply compile_expression_rel
        | apply compile_expression_noret_rel
        | apply compile_memberid_expression_rel
        | apply set_eval_rel
        | apply compile_interp_fallback_rel
        | apply alloc_label_rel
        | apply label_set_addr_rel
        | apply Rel.rollback
        | apply compile_variable_list_rel
        | apply pop_to_stat_rel)
    | split)

theorem pop_to_stat_pops_rel {a b : Nat} {c0 : compiler_ctx_t} (n : Nat) :
    ∀ {c : compiler_ctx_t}, Rel a b c0 c → Rel a b c0 (pop_to_stat_pops c n).2 := by
  induction n with
  | zero => intro c h; exact h
  | succ n ih =>
    intro c h
    rw [pop_to_stat_pops.eq_def]
    dsimp only
    repeat (first
    | with_reducible (first
        | exact h
        | assumption
        | exact Rel.refl _
        | intro _
        | apply ih
        | apply Rel.ite
        | apply Rel.ite1
        | apply Rel.ite2
        | apply Rel.ite0
        | apply set_arg1_rel
        | apply set_arg2_rel
        | apply push_instr_idx_ge
        | apply push_instr_rel
        | apply push_instr_hres_rel
        | apply push_instr_int_rel
        | apply push_instr_uint_rel
        | apply push_instr_str_rel
        | apply push_instr_bstr_rel
        | apply push_instr_bstr_uint_rel
        | apply push_instr_uint_str_rel
        | apply push_instr_double_rel
        | apply heap_alloc_rel
        | apply compiler_alloc_string_rel
        | apply compiler_alloc_bstr_rel
        | apply compile_expression_rel
        | apply compile_expression_noret_rel
        | apply compile_memberid_expression_rel
        | apply set_eval_rel
        | apply compile_interp_fallback_rel
        | apply alloc_label_rel
        | apply label_set_addr_rel
        | apply Rel.rollback
        | apply compile_variable_list_rel
        | apply pop_to_stat_rel)
    | split)

theorem pop_to_stat_rel {a b : Nat} {c0 c : compiler_ctx_t} (k : Nat)
    (h : Rel a b c0 c) : Rel a b c0 (pop_to_stat c k).2 := by
  unfold pop_to_stat
  dsimp only
  repeat (first
    | with_reducible (first
        | exact h
        | assumption
        | exact Rel.refl _
        | intro _
        | apply pop_to_stat_frames_rel
        | apply pop_to_stat_pops_rel
        | apply Rel.ite
        | apply Rel.ite1
        | apply Rel.ite2
        | apply Rel.ite0
        | apply set_arg1_rel
        | apply set_arg2_rel
        | apply push_instr_idx_ge
        | apply push_instr_rel
        | apply push_instr_hres_rel
        | apply push_instr_int_rel
        | apply push_instr_uint_rel
        | apply push_instr_str_rel
        | apply push_instr_bstr_rel
        | apply push_instr_bstr_uint_rel
        | apply push_instr_uint_str_rel
        | apply push_instr_double_rel
        | apply heap_alloc_rel
        | apply compiler_alloc_string_rel
        | apply compiler_alloc_bstr_rel
        | apply compile_expression_rel
        | apply compile_expression_noret_rel
        | apply compile_memberid_expression_rel
        | apply set_eval_rel
        | apply compile_interp_fallback_rel
        | apply alloc_label_rel
        | apply label_set_addr_rel
        | apply Rel.rollback
        | apply compile_variable_list_rel
        | apply pop_to_stat_rel)
    | split)

theorem compile_continue_statement_rel {a b : Nat} {c0 c : compiler_ctx_t}
    (stat : branch_statement_t) (h : Rel a b c0 c) :
    Rel a b c0 (compile_continue_statement c stat).2 := by
  unfold compile_continue_statement
  dsimp only
  repeat (first
    | with_reducible (first
        | exact h
        | assumption
        | exact Rel.refl _
        | intro _
        | apply Rel.ite
        | apply Rel.ite1
        | apply Rel.ite2
        | apply Rel.ite0
        | apply set_arg1_rel
        | apply set_arg2_rel
        | apply push_instr_idx_ge
        | apply push_instr_rel
        | apply push_instr_hres_rel
        | apply push_instr_int_rel
        | apply push_instr_uint_rel
        | apply push_instr_str_rel
        | apply push_instr_bstr_rel
        | apply push_instr_bstr_uint_rel
        | apply push_instr_uint_str_rel
        | apply push_instr_double_rel
        | apply heap_alloc_rel
        | apply compiler_alloc_string_rel
        | apply compiler_alloc_bstr_rel
        | apply compile_expression_rel
        | apply compile_expression_noret_rel
        | apply compile_memberid_expression_rel
        | apply set_eval_rel
        | apply compile_interp_fallback_rel
        | apply alloc_label_rel
        | apply label_set_addr_rel
        | apply Rel.rollback
        | apply compile_variable_list_rel
        | apply pop_to_stat_rel)
    | split)

theorem compile_break_statement_rel {a b : Nat} {c0 c : compiler_ctx_t}
    (stat : branch_statement_t) (h : Rel a b c0 c) :
    Rel a b c0 (compile_break_statement c stat).2 := by
  unfold compile_break_statement
  dsimp only
  repeat (first
    | with_reducible (first
        | exact h
        | assumption
        | exact Rel.refl _
        | intro _
        | apply Rel.ite
        | apply Rel.ite1
        | apply Rel.ite2
        | apply Rel.ite0
        | apply set_arg1_rel
        | apply set_arg2_rel
        | apply push_instr_idx_ge
        | apply push_instr_rel
        | apply push_instr_hres_rel
        | apply push_instr_int_rel
        | apply push_instr_uint_rel
        | apply push_instr_str_rel
        | apply push_instr_bstr_rel
        | apply push_instr_bstr_uint_rel
        | apply push_instr_uint_str_rel
        | apply push_instr_double_rel
        | apply heap_alloc_rel
        | apply compiler_alloc_string_rel
        | apply compiler_alloc_bstr_rel
        | apply compile_expression_rel
        | apply compile_expression_noret_rel
        | apply compile_memberid_expression_rel
        | apply set_eval_rel
        | apply compile_interp_fallback_rel
        | apply alloc_label_rel
        | apply label_set_addr_rel
        | apply Rel.rollback
        | apply compile_variable_list_rel
        | apply pop_to_stat_rel)
    | split)

theorem Rel.ite_failed {a b : Nat} {c0 : compiler_ctx_t} {x B : HRESULT × compiler_ctx_t}
    (hx : Rel a b c0 x.2) (hB : Rel a b c0 x.2 → ¬ FAILED x.1 = true → Rel a b c0 B.2) :
    Rel a b c0 (if FAILED x.1 = true then x else B).2 := by
  split
  · exact hx
  · exact hB hx (by assumption)

theorem Rel.ite_oom {a b : Nat} {c0 : compiler_ctx_t} {x : Nat × compiler_ctx_t}
    {B : HRESULT × compiler_ctx_t}
    (hx : Rel a b c0 x.2) (hB : Rel a b c0 x.2 → ¬ x.1 = UINT_MAX → Rel a b c0 B.2) :
    Rel a b c0 (if x.1 = UINT_MAX then (E_OUTOFMEMORY, x.2) else B).2 := by
  split
  · exact hx
  · exact hB hx (by assumption)

theorem Rel.ite21 {a b : Nat} {c0 : compiler_ctx_t} {α β : Type} {p : Prop} [Decidable p]
    {A B : α × compiler_ctx_t × β} (hA : p → Rel a b c0 A.2.1) (hB : ¬ p → Rel a b c0 B.2.1) :
    Rel a b c0 (if p then A else B).2.1 := by
  split
  · exact hA (by assumption)
  · exact hB (by assumption)

set_option maxRecDepth 8000 in
theorem compile_block_statement_rel_aux {a b : Nat} {c0 c : compiler_ctx_t} {addr : Nat} {stat : statement_t} {next : statement_list}
    (ih1 : (∀ {a b : Nat} {c0 : compiler_ctx_t} (sc : Option statement_ctx_t) {c : compiler_ctx_t},
      Rel a b c0 c → Rel a b c0 (compile_statement c sc stat).2))
    (ihn : (∀ {c : compiler_ctx_t}, Rel a b c0 c → Rel a b c0 (compile_block_statement c next).2))
    (h : Rel a b c0 c) : Rel a b c0 (compile_block_statement c (.node addr stat next)).2 := by
  rw [compile_block_statement_unfold]
  skip
  all_goals lift_lets
  all_goals intros
  all_goals repeat' (first
    | with_reducible (first
        | intro _
        | assumption
        | exact Rel.refl _
        | apply Rel.ite_failed
        | apply Rel.ite_oom
        | apply body_step ih1
        | apply body_step ih2
        | apply body_step ih3
        | apply ih1
        | apply ih2
        | apply ih3
        | apply ihn
        | apply Rel.ite
        | apply Rel.ite1
        | apply Rel.ite2
        | apply Rel.ite0
        | apply Rel.ite21
        | apply set_arg1_rel
        | apply set_arg2_rel
        | apply push_instr_idx_ge
        | apply push_instr_rel
        | apply push_instr_hres_rel
        | apply push_instr_int_rel
        | apply push_instr_uint_rel
        | apply push_instr_str_rel
        | apply push_instr_bstr_rel
        | apply push_instr_bstr_uint_rel
        | apply push_instr_uint_str_rel
        | apply push_instr_double_rel
        | apply heap_alloc_rel
        | apply compiler_alloc_string_rel
        | apply compiler_alloc_bstr_rel
        | apply compile_expression_rel
        | apply compile_expression_noret_rel
        | apply compile_memberid_expression_rel
        | apply set_eval_rel
        | apply compile_interp_fallback_rel
        | apply alloc_label_rel
        | apply label_set_addr_rel
        | apply Rel.rollback
        | apply compile_variable_list_rel
        | apply pop_to_stat_rel
        | apply compile_var_statement_rel
        | apply compile_expression_statement_rel
        | apply compile_throw_statement_rel
        | apply compile_continue_statement_rel
        | apply compile_break_statement_rel)
    | (lift_lets; intro _))

set_option maxRecDepth 8000 in
theorem compile_if_else_rel_aux {a b : Nat} {c0 c : compiler_ctx_t} {expr : expression_t} {if_stat stat : statement_t} {addr : Nat} {nx : statement_list}
    (ih1 : (∀ {a b : Nat} {c0 : compiler_ctx_t} (sc : Option statement_ctx_t) {c : compiler_ctx_t},
      Rel a b c0 c → Rel a b c0 (compile_statement c sc if_stat).2))
    (ih2 : (∀ {a b : Nat} {c0 : compiler_ctx_t} (sc : Option statement_ctx_t) {c : compiler_ctx_t},
      Rel a b c0 c → Rel a b c0 (compile_statement c sc stat).2))
    (h : Rel a b c0 c) : Rel a b c0 (compile_if_statement c (.mk expr if_stat (.node addr stat nx))).2 := by
  rw [compile_if_statement_unfold]
  skip
  all_goals lift_lets
  all_goals intros
  all_goals repeat' (first
    | with_reducible (first
        | intro _
        | assumption
        | exact Rel.refl _
        | apply Rel.ite_failed
        | apply Rel.ite_oom
        | apply body_step ih1
        | apply body_step ih2
        | apply body_step ih3
        | apply ih1
        | apply ih2
        | apply ih3
        | apply ihn
        | apply Rel.ite
        | apply Rel.ite1
        | apply Rel.ite2
        | apply Rel.ite0
        | apply Rel.ite21
        | apply set_arg1_rel
        | apply set_arg2_rel
        | apply push_instr_idx_ge
        | apply push_instr_rel
        | apply push_instr_hres_rel
        | apply push_instr_int_rel
        | apply push_instr_uint_rel
        | apply push_instr_str_rel
        | apply push_instr_bstr_rel
        | apply push_instr_bstr_uint_rel
        | apply push_instr_uint_str_rel
        | apply push_instr_double_rel
        | apply heap_alloc_rel
        | apply compiler_alloc_string_rel
        | apply compiler_alloc_bstr_rel
        | apply compile_expression_rel
        | apply compile_expression_noret_rel
        | apply compile_memberid_expression_rel
        | apply set_eval_rel
        | apply compile_interp_fallback_rel
        | apply alloc_label_rel
        | apply label_set_addr_rel
        | apply Rel.rollback
        | apply compile_variable_list_rel
        | apply pop_to_stat_rel
        | apply compile_var_statement_rel
        | apply compile_expression_statement_rel
        | apply compile_throw_statement_rel
        | apply compile_continue_statement_rel
        | apply compile_break_statement_rel)
    | (lift_lets; intro _))

set_option maxRecDepth 8000 in
theorem compile_if_rel_aux {a b : Nat} {c0 c : compiler_ctx_t} {expr : expression_t} {if_stat : statement_t}
    (ih1 : (∀ {a b : Nat} {c0 : compiler_ctx_t} (sc : Option statement_ctx_t) {c : compiler_ctx_t},
      Rel a b c0 c → Rel a b c0 (compile_statement c sc if_stat).2))
    (h : Rel a b c0 c) : Rel a b c0 (compile_if_statement c (.mk expr if_stat .NULL)).2 := by
  rw [compile_if_statement_unfold]
  skip
  all_goals lift_lets
  all_goals intros
  all_goals repeat' (first
    | with_reducible (first
        | intro _
        | assumption
        | exact Rel.refl _
        | apply Rel.ite_failed
        | apply Rel.ite_oom
        | apply body_step ih1
        | apply body_step ih2
        | apply body_step ih3
        | apply ih1
        | apply ih2
        | apply ih3
        | apply ihn
        | apply Rel.ite
        | apply Rel.ite1
        | apply Rel.ite2
        | apply Rel.ite0
        | apply Rel.ite21
        | apply set_arg1_rel
        | apply set_arg2_rel
        | apply push_instr_idx_ge
        | apply push_instr_rel
        | apply push_instr_hres_rel
        | apply push_instr_int_rel
        | apply push_instr_uint_rel
        | apply push_instr_str_rel
        | apply push_instr_bstr_rel
        | apply push_instr_bstr_uint_rel
        | apply push_instr_uint_str_rel
        | apply push_instr_double_rel
        | apply heap_alloc_rel
        | apply compiler_alloc_string_rel
        | apply compiler_alloc_bstr_rel
        | apply compile_expression_rel
        | apply compile_expression_noret_rel
        | apply compile_memberid_expression_rel
        | apply set_eval_rel
        | apply compile_interp_fallback_rel
        | apply alloc_label_rel
        | apply label_set_addr_rel
        | apply Rel.rollback
        | apply compile_variable_list_rel
        | apply pop_to_stat_rel
        | apply compile_var_statement_rel
        | apply compile_expression_statement_rel
        | apply compile_throw_statement_rel
        | apply compile_continue_statement_rel
        | apply compile_break_statement_rel)
    | (lift_lets; intro _))

set_option maxRecDepth 8000 in
theorem compile_while_statement_rel_aux {do_while : Bool} {expr : expression_t} {statement : statement_t}
    (ih1 : (∀ {a b : Nat} {c0 : compiler_ctx_t} (sc : Option statement_ctx_t) {c : compiler_ctx_t},
      Rel a b c0 c → Rel a b c0 (compile_statement c sc statement).2))
    (c0 : compiler_ctx_t) : Rel c0.code_off c0.labels_cnt c0 (compile_while_statement c0 (.mk do_while expr statement)).2 := by
  have h : Rel c0.code_off c0.labels_cnt c0 c0 := Rel.refl c0
  rw [compile_while_statement_unfold]
  cases do_while <;> simp only [Bool.not_true, Bool.not_false, Bool.false_eq_true, if_true, if_false]
  all_goals lift_lets
  all_goals intros
  all_goals repeat' (first
    | with_reducible (first
        | intro _
        | assumption
        | exact Rel.refl _
        | apply Rel.ite_failed
        | apply Rel.ite_oom
        | apply body_step ih1
        | apply body_step ih2
        | apply body_step ih3
        | apply ih1
        | apply ih2
        | apply ih3
        | apply ihn
        | apply Rel.ite
        | apply Rel.ite1
        | apply Rel.ite2
        | apply Rel.ite0
        | apply Rel.ite21
        | apply set_arg1_rel
        | apply set_arg2_rel
        | apply push_instr_idx_ge
        | apply push_instr_rel
        | apply push_instr_hres_rel
        | apply push_instr_int_rel
        | apply push_instr_uint_rel
        | apply push_instr_str_rel
        | apply push_instr_bstr_rel
        | apply push_instr_bstr_uint_rel
        | apply push_instr_uint_str_rel
        | apply push_instr_double_rel
        | apply heap_alloc_rel
        | apply compiler_alloc_string_rel
        | apply compiler_alloc_bstr_rel
        | apply compile_expression_rel
        | apply compile_expression_noret_rel
        | apply compile_memberid_expression_rel
        | apply set_eval_rel
        | apply compile_interp_fallback_rel
        | apply alloc_label_rel
        | apply label_set_addr_rel
        | apply Rel.rollback
        | apply compile_variable_list_rel
        | apply pop_to_stat_rel
        | apply compile_var_statement_rel
        | apply compile_expression_statement_rel
        | apply compile_throw_statement_rel
        | apply compile_continue_statement_rel
        | apply compile_break_statement_rel)
    | (lift_lets; intro _))

set_option maxRecDepth 8000 in
theorem compile_for_statement_rel_aux {variable_list : variable_declaration_t} {begin_expr expr end_expr : Option expression_t} {statement : statement_t}
    (ih1 : (∀ {a b : Nat} {c0 : compiler_ctx_t} (sc : Option statement_ctx_t) {c : compiler_ctx_t},
      Rel a b c0 c → Rel a b c0 (compile_statement c sc statement).2))
    (c0 : compiler_ctx_t) : Rel c0.code_off c0.labels_cnt c0 (compile_for_statement c0 (.mk variable_list begin_expr expr end_expr statement)).2 := by
  have h : Rel c0.code_off c0.labels_cnt c0 c0 := Rel.refl c0
  rw [compile_for_statement_unfold]
  skip
  all_goals lift_lets
  all_goals intros
  all_goals repeat' (first
    | with_reducible (first
        | intro _
        | assumption
        | exact Rel.refl _
        | apply Rel.ite_failed
        | apply Rel.ite_oom
        | apply body_step ih1
        | apply body_step ih2
        | apply body_step ih3
        | apply ih1
        | apply ih2
        | apply ih3
        | apply ihn
        | apply Rel.ite
        | apply Rel.ite1
        | apply Rel.ite2
        | apply Rel.ite0
        | apply Rel.ite21
        | apply set_arg1_rel
        | apply set_arg2_rel
        | apply push_instr_idx_ge
        | apply push_instr_rel
        | apply push_instr_hres_rel
        | apply push_instr_int_rel
        | apply push_instr_uint_rel
        | apply push_instr_str_rel
        | apply push_instr_bstr_rel
        | apply push_instr_bstr_uint_rel
        | apply push_instr_uint_str_rel
        | apply push_instr_double_rel
        | apply heap_alloc_rel
        | apply compiler_alloc_string_rel
        | apply compiler_alloc_bstr_rel
        | apply compile_expression_rel
        | apply compile_expression_noret_rel
        | apply compile_memberid_expression_rel
        | apply set_eval_rel
        | apply compile_interp_fallback_rel
        | apply alloc_label_rel
        | apply label_set_addr_rel
        | apply Rel.rollback
        | apply compile_variable_list_rel
        | apply pop_to_stat_rel
        | apply compile_var_statement_rel
        | apply compile_expression_statement_rel
        | apply compile_throw_statement_rel
        | apply compile_continue_statement_rel
        | apply compile_break_statement_rel)
    | (lift_lets; intro _)
    | cases variable_list
    | cases begin_expr
    | cases expr
    | cases end_expr)

set_option maxRecDepth 8000 in
theorem compile_forin_statement_rel_aux {variable_ : variable_declaration_t} {expr in_expr : expression_t} {statement : statement_t}
    (ih1 : (∀ {a b : Nat} {c0 : compiler_ctx_t} (sc : Option statement_ctx_t) {c : compiler_ctx_t},
      Rel a b c0 c → Rel a b c0 (compile_statement c sc statement).2))
    (c0 : compiler_ctx_t) : Rel c0.code_off c0.labels_cnt c0 (compile_forin_statement c0 (.mk variable_ expr in_expr statement)).2 := by
  have h : Rel c0.code_off c0.labels_cnt c0 c0 := Rel.refl c0
  rw [compile_forin_statement_unfold]
  cases variable_
  all_goals lift_lets
  all_goals intros
  all_goals repeat' (first
    | with_reducible (first
        | intro _
        | assumption
        | exact Rel.refl _
        | apply Rel.ite_failed
        | apply Rel.ite_oom
        | apply body_step ih1
        | apply body_step ih2
        | apply body_step ih3
        | apply ih1
        | apply ih2
        | apply ih3
        | apply ihn
        | apply Rel.ite
        | apply Rel.ite1
        | apply Rel.ite2
        | apply Rel.ite0
        | apply Rel.ite21
        | apply set_arg1_rel
        | apply set_arg2_rel
        | apply push_instr_idx_ge
        | apply push_instr_rel
        | apply push_instr_hres_rel
        | apply push_instr_int_rel
        | apply push_instr_uint_rel
        | apply push_instr_str_rel
        | apply push_instr_bstr_rel
        | apply push_instr_bstr_uint_rel
        | apply push_instr_uint_str_rel
        | apply push_instr_double_rel
        | apply heap_alloc_rel
        | apply compiler_alloc_string_rel
        | apply compiler_alloc_bstr_rel
        | apply compile_expression_rel
        | apply compile_expression_noret_rel
        | apply compile_memberid_expression_rel
        | apply set_eval_rel
        | apply compile_interp_fallback_rel
        | apply alloc_label_rel
        | apply label_set_addr_rel
        | apply Rel.rollback
        | apply compile_variable_list_rel
        | apply pop_to_stat_rel
        | apply compile_var_statement_rel
        | apply compile_expression_statement_rel
        | apply compile_throw_statement_rel
        | apply compile_continue_statement_rel
        | apply compile_break_statement_rel)
    | (lift_lets; intro _))

set_option maxRecDepth 8000 in
theorem compile_with_statement_rel_aux {expr : expression_t} {statement : statement_t}
    (ih1 : (∀ {a b : Nat} {c0 : compiler_ctx_t} (sc : Option statement_ctx_t) {c : compiler_ctx_t},
      Rel a b c0 c → Rel a b c0 (compile_statement c sc statement).2))
    (c0 : compiler_ctx_t) : Rel c0.code_off c0.labels_cnt c0 (compile_with_statement c0 (.mk expr statement)).2 := by
  have h : Rel c0.code_off c0.labels_cnt c0 c0 := Rel.refl c0
  rw [compile_with_statement_unfold]
  skip
  all_goals lift_lets
  all_goals intros
  all_goals repeat' (first
    | with_reducible (first
        | intro _
        | assumption
        | exact Rel.refl _
        | apply Rel.ite_failed
        | apply Rel.ite_oom
        | apply body_step ih1
        | apply body_step ih2
        | apply body_step ih3
        | apply ih1
        | apply ih2
        | apply ih3
        | apply ihn
        | apply Rel.ite
        | apply Rel.ite1
        | apply Rel.ite2
        | apply Rel.ite0
        | apply Rel.ite21
        | apply set_arg1_rel
        | apply set_arg2_rel
        | apply push_instr_idx_ge
        | apply push_instr_rel
        | apply push_instr_hres_rel
        | apply push_instr_int_rel
        | apply push_instr_uint_rel
        | apply push_instr_str_rel
        | apply push_instr_bstr_rel
        | apply push_instr_bstr_uint_rel
        | apply push_instr_uint_str_rel
        | apply push_instr_double_rel
        | apply heap_alloc_rel
        | apply compiler_alloc_string_rel
        | apply compiler_alloc_bstr_rel
        | apply compile_expression_rel
        | apply compile_expression_noret_rel
        | apply compile_memberid_expression_rel
        | apply set_eval_rel
        | apply compile_interp_fallback_rel
        | apply alloc_label_rel
        | apply label_set_addr_rel
        | apply Rel.rollback
        | apply compile_variable_list_rel
        | apply pop_to_stat_rel
        | apply compile_var_statement_rel
        | apply compile_expression_statement_rel
        | apply compile_throw_statement_rel
        | apply compile_continue_statement_rel
        | apply compile_break_statement_rel)
    | (lift_lets; intro _))

set_option maxRecDepth 8000 in
theorem compile_try_catch_finally_rel_aux {try_statement cstat fstat : statement_t} {identifier : String} {addr : Nat} {fnext : statement_list}
    (ih1 : (∀ {a b : Nat} {c0 : compiler_ctx_t} (sc : Option statement_ctx_t) {c : compiler_ctx_t},
      Rel a b c0 c → Rel a b c0 (compile_statement c sc try_statement).2))
    (ih2 : (∀ {a b : Nat} {c0 : compiler_ctx_t} (sc : Option statement_ctx_t) {c : compiler_ctx_t},
      Rel a b c0 c → Rel a b c0 (compile_statement c sc cstat).2))
    (ih3 : (∀ {a b : Nat} {c0 : compiler_ctx_t} (sc : Option statement_ctx_t) {c : compiler_ctx_t},
      Rel a b c0 c → Rel a b c0 (compile_statement c sc fstat).2))
    (c0 : compiler_ctx_t) : Rel c0.code_off c0.labels_cnt c0 (compile_try_statement c0 (.mk try_statement (.mk identifier cstat) (.node addr fstat fnext))).2 := by
  have h : Rel c0.code_off c0.labels_cnt c0 c0 := Rel.refl c0
  rw [compile_try_statement_unfold]
  skip
  all_goals lift_lets
  all_goals intros
  all_goals repeat' (first
    | with_reducible (first
        | intro _
        | assumption
        | exact Rel.refl _
        | apply Rel.ite_failed
        | apply Rel.ite_oom
        | apply body_step ih1
        | apply body_step ih2
        | apply body_step ih3
        | apply ih1
        | apply ih2
        | apply ih3
        | apply ihn
        | apply Rel.ite
        | apply Rel.ite1
        | apply Rel.ite2
        | apply Rel.ite0
        | apply Rel.ite21
        | apply set_arg1_rel
        | apply set_arg2_rel
        | apply push_instr_idx_ge
        | apply push_instr_rel
        | apply push_instr_hres_rel
        | apply push_instr_int_rel
        | apply push_instr_uint_rel
        | apply push_instr_str_rel
        | apply push_instr_bstr_rel
        | apply push_instr_bstr_uint_rel
        | apply push_instr_uint_str_rel
        | apply push_instr_double_rel
        | apply heap_alloc_rel
        | apply compiler_alloc_string_rel
        | apply compiler_alloc_bstr_rel
        | apply compile_expression_rel
        | apply compile_expression_noret_rel
        | apply compile_memberid_expression_rel
        | apply set_eval_rel
        | apply compile_interp_fallback_rel
        | apply alloc_label_rel
        | apply label_set_addr_rel
        | apply Rel.rollback
        | apply compile_variable_list_rel
        | apply pop_to_stat_rel
        | apply compile_var_statement_rel
        | apply compile_expression_statement_rel
        | apply compile_throw_statement_rel
        | apply compile_continue_statement_rel
        | apply compile_break_statement_rel)
    | (lift_lets; intro _))

set_option maxRecDepth 8000 in
theorem compile_try_catch_nofinally_rel_aux {try_statement cstat : statement_t} {identifier : String}
    (ih1 : (∀ {a b : Nat} {c0 : compiler_ctx_t} (sc : Option statement_ctx_t) {c : compiler_ctx_t},
      Rel a b c0 c → Rel a b c0 (compile_statement c sc try_statement).2))
    (ih2 : (∀ {a b : Nat} {c0 : compiler_ctx_t} (sc : Option statement_ctx_t) {c : compiler_ctx_t},
      Rel a b c0 c → Rel a b c0 (compile_statement c sc cstat).2))
    (c0 : compiler_ctx_t) : Rel c0.code_off c0.labels_cnt c0 (compile_try_statement c0 (.mk try_statement (.mk identifier cstat) .NULL)).2 := by
  have h : Rel c0.code_off c0.labels_cnt c0 c0 := Rel.refl c0
  rw [compile_try_statement_unfold]
  skip
  all_goals lift_lets
  all_goals intros
  all_goals repeat' (first
    | with_reducible (first
        | intro _
        | assumption
        | exact Rel.refl _
        | apply Rel.ite_failed
        | apply Rel.ite_oom
        | apply body_step ih1
        | apply body_step ih2
        | apply body_step ih3
        | apply ih1
        | apply ih2
        | apply ih3
        | apply ihn
        | apply Rel.ite
        | apply Rel.ite1
        | apply Rel.ite2
        | apply Rel.ite0
        | apply Rel.ite21
        | apply set_arg1_rel
        | apply set_arg2_rel
        | apply push_instr_idx_ge
        | apply push_instr_rel
        | apply push_instr_hres_rel
        | apply push_instr_int_rel
        | apply push_instr_uint_rel
        | apply push_instr_str_rel
        | apply push_instr_bstr_rel
        | apply push_instr_bstr_uint_rel
        | apply push_instr_uint_str_rel
        | apply push_instr_double_rel
        | apply heap_alloc_rel
        | apply compiler_alloc_string_rel
        | apply compiler_alloc_bstr_rel
        | apply compile_expression_rel
        | apply compile_expression_noret_rel
        | apply compile_memberid_expression_rel
        | apply set_eval_rel
        | apply compile_interp_fallback_rel
        | apply alloc_label_rel
        | apply label_set_addr_rel
        | apply Rel.rollback
        | apply compile_variable_list_rel
        | apply pop_to_stat_rel
        | apply compile_var_statement_rel
        | apply compile_expression_statement_rel
        | apply compile_throw_statement_rel
        | apply compile_continue_statement_rel
        | apply compile_break_statement_rel)
    | (lift_lets; intro _))

set_option maxRecDepth 8000 in
theorem compile_try_nocatch_finally_rel_aux {try_statement fstat : statement_t} {addr : Nat} {fnext : statement_list}
    (ih1 : (∀ {a b : Nat} {c0 : compiler_ctx_t} (sc : Option statement_ctx_t) {c : compiler_ctx_t},
      Rel a b c0 c → Rel a b c0 (compile_statement c sc try_statement).2))
    (ih3 : (∀ {a b : Nat} {c0 : compiler_ctx_t} (sc : Option statement_ctx_t) {c : compiler_ctx_t},
      Rel a b c0 c → Rel a b c0 (compile_statement c sc fstat).2))
    (c0 : compiler_ctx_t) : Rel c0.code_off c0.labels_cnt c0 (compile_try_statement c0 (.mk try_statement .NULL (.node addr fstat fnext))).2 := by
  have h : Rel c0.code_off c0.labels_cnt c0 c0 := Rel.refl c0
  rw [compile_try_statement_unfold]
  skip
  all_goals lift_lets
  all_goals intros
  all_goals repeat' (first
    | with_reducible (first
        | intro _
        | assumption
        | exact Rel.refl _
        | apply Rel.ite_failed
        | apply Rel.ite_oom
        | apply body_step ih1
        | apply body_step ih2
        | apply body_step ih3
        | apply ih1
        | apply ih2
        | apply ih3
        | apply ihn
        | apply Rel.ite
        | apply Rel.ite1
        | apply Rel.ite2
        | apply Rel.ite0
        | apply Rel.ite21
        | apply set_arg1_rel
        | apply set_arg2_rel
        | apply push_instr_idx_ge
        | apply push_instr_rel
        | apply push_instr_hres_rel
        | apply push_instr_int_rel
        | apply push_instr_uint_rel
        | apply push_instr_str_rel
        | apply push_instr_bstr_rel
        | apply push_instr_bstr_uint_rel
        | apply push_instr_uint_str_rel
        | apply push_instr_double_rel
        | apply heap_alloc_rel
        | apply compiler_alloc_string_rel
        | apply compiler_alloc_bstr_rel
        | apply compile_expression_rel
        | apply compile_expression_noret_rel
        | apply compile_memberid_expression_rel
        | apply set_eval_rel
        | apply compile_interp_fallback_rel
        | apply alloc_label_rel
        | apply label_set_addr_rel
        | apply Rel.rollback
        | apply compile_variable_list_rel
        | apply pop_to_stat_rel
        | apply compile_var_statement_rel
        | apply compile_expression_statement_rel
        | apply compile_throw_statement_rel
        | apply compile_continue_statement_rel
        | apply compile_break_statement_rel)
    | (lift_lets; intro _))

set_option maxRecDepth 8000 in
theorem compile_try_nocatch_nofinally_rel_aux {try_statement : statement_t}
    (ih1 : (∀ {a b : Nat} {c0 : compiler_ctx_t} (sc : Option statement_ctx_t) {c : compiler_ctx_t},
      Rel a b c0 c → Rel a b c0 (compile_statement c sc try_statement).2))
    (c0 : compiler_ctx_t) : Rel c0.code_off c0.labels_cnt c0 (compile_try_statement c0 (.mk try_statement .NULL .NULL)).2 := by
  have h : Rel c0.code_off c0.labels_cnt c0 c0 := Rel.refl c0
  rw [compile_try_statement_unfold]
  skip
  all_goals lift_lets
  all_goals intros
  all_goals repeat' (first
    | with_reducible (first
        | intro _
        | assumption
        | exact Rel.refl _
        | apply Rel.ite_failed
        | apply Rel.ite_oom
        | apply body_step ih1
        | apply body_step ih2
        | apply body_step ih3
        | apply ih1
        | apply ih2
        | apply ih3
        | apply ihn
        | apply Rel.ite
        | apply Rel.ite1
        | apply Rel.ite2
        | apply Rel.ite0
        | apply Rel.ite21
        | apply set_arg1_rel
        | apply set_arg2_rel
        | apply push_instr_idx_ge
        | apply push_instr_rel
        | apply push_instr_hres_rel
        | apply push_instr_int_rel
        | apply push_instr_uint_rel
        | apply push_instr_str_rel
        | apply push_instr_bstr_rel
        | apply push_instr_bstr_uint_rel
        | apply push_instr_uint_str_rel
        | apply push_instr_double_rel
        | apply heap_alloc_rel
        | apply compiler_alloc_string_rel
        | apply compiler_alloc_bstr_rel
        | apply compile_expression_rel
        | apply compile_expression_noret_rel
        | apply compile_memberid_expression_rel
        | apply set_eval_rel
        | apply compile_interp_fallback_rel
        | apply alloc_label_rel
        | apply label_set_addr_rel
        | apply Rel.rollback
        | apply compile_variable_list_rel
        | apply pop_to_stat_rel
        | apply compile_var_statement_rel
        | apply compile_expression_statement_rel
        | apply compile_throw_statement_rel
        | apply compile_continue_statement_rel
        | apply compile_break_statement_rel)
    | (lift_lets; intro _))


theorem compile_case_exprs_rel {a b : Nat} {c0 : compiler_ctx_t} :
    ∀ (cl : case_clausule_t) (v : case_loop_t), Rel a b c0 v.ctx →
      (∀ j, j < v.i → a ≤ v.case_jmps j) →
      Rel a b c0 (compile_case_exprs v cl).ctx ∧
      (¬ FAILED (compile_case_exprs v cl).hres = true →
        ∀ j, j < v.i + case_count cl → a ≤ (compile_case_exprs v cl).case_jmps j)
  | .NULL, v, h, hj => ⟨h, fun _ j hjj => hj j hjj⟩
  | .mk none stat next, v, h, hj => by
    rw [compile_case_exprs]
    have r := compile_case_exprs_rel next { v with have_default := true } h hj
    refine ⟨r.1, fun hf j hjj => r.2 hf j ?_⟩
    rw [case_count] at hjj
    simpa using hjj
  | .mk (some e) stat next, v, h, hj => by
    rw [compile_case_exprs]
    dsimp only
    have h1 : Rel a b c0 (compile_expression v.ctx e).2 := compile_expression_rel e h
    have h2 : Rel a b c0 (push_instr (compile_expression v.ctx e).2 OP_case).2 :=
      push_instr_rel _ h1
    split
    · rename_i hf
      exact ⟨h1, fun hn => absurd hf hn⟩
    · split
      · exact ⟨h2, fun hn => absurd (show FAILED E_OUTOFMEMORY = true by decide) hn⟩
      · rename_i hne
        have hj1 : ∀ j, j < v.i + 1 →
            a ≤ Function.update v.case_jmps v.i
              (push_instr (compile_expression v.ctx e).2 OP_case).1 j := by
          intro j hjj
          by_cases e1 : j = v.i
          · subst e1
            rw [Function.update_same]
            exact push_instr_idx_ge h1 hne
          · rw [Function.update_noteq e1]
            exact hj j (by omega)
        have r := compile_case_exprs_rel next
          { v with hres := (compile_expression v.ctx e).1,
                   ctx := (push_instr (compile_expression v.ctx e).2 OP_case).2,
                   case_jmps := Function.update v.case_jmps v.i
                     (push_instr (compile_expression v.ctx e).2 OP_case).1,
                   i := v.i + 1 } h2 hj1
        refine ⟨r.1, fun hf j hjj => r.2 hf j ?_⟩
        rw [case_count] at hjj
        simp only [Option.isSome_some, if_true] at hjj
        show j < v.i + 1 + case_count next
        omega

theorem compile_case_statements_rel_aux {a b off : Nat} {c0 c : compiler_ctx_t}
    {sc : statement_ctx_t} {stat stat_iter : statement_t} {next : case_clausule_t}
    {hres : HRESULT} {addr : Nat} {stat_next : statement_list}
    (ih1 : (∀ {a b : Nat} {c0 : compiler_ctx_t} (sc : Option statement_ctx_t) {c : compiler_ctx_t},
      Rel a b c0 c → Rel a b c0 (compile_statement c sc stat_iter).2))
    (ihn : ∀ {c : compiler_ctx_t} (hres : HRESULT), Rel a b c0 c →
      ((compile_case_statements c sc off stat next hres stat_next).2.2 = false ∨
        (a = c0.code_off ∧ off = c0.code_off)) →
      Rel a b c0 (compile_case_statements c sc off stat next hres stat_next).2.1)
    (h : Rel a b c0 c) :
    ((compile_case_statements c sc off stat next hres (.node addr stat_iter stat_next)).2.2
        = false ∨ (a = c0.code_off ∧ off = c0.code_off)) →
    Rel a b c0
      (compile_case_statements c sc off stat next hres (.node addr stat_iter stat_next)).2.1 := by
  rw [compile_case_statements_unfold]
  lift_lets
  intro prev_no_fallback hres1 ctx1 r pop
  have hb : Rel a b c0 ctx1 := body_step ih1 h h
  have hp : Rel a b c0 pop.2 := by
    apply Rel.ite
    · intro _; exact push_instr_hres_rel _ hb
    · intro _; exact hb
  split
  · intro _; exact h
  · split
    · intro hr
      rcases hr with hr | ⟨e1, e2⟩
      · exact absurd hr (by simp)
      · subst e1 e2
        exact compile_interp_fallback_rel _ (set_eval_rel _ _ (Rel.rollback hb))
    · split
      · intro _; exact hb
      · split
        · intro _; exact hp
        · intro hr; exact ihn _ hp hr

theorem compile_case_bodies_rel_aux {a b off : Nat} {c0 c : compiler_ctx_t}
    {sc : statement_ctx_t}
    {stat : statement_t} {case_jmps : Nat → Nat} {default_jmp i : Nat} {hres : HRESULT}
    {expr : Option expression_t} {iter_stat : statement_list} {next : case_clausule_t}
    (ihs : ∀ {c : compiler_ctx_t} (hres : HRESULT), Rel a b c0 c →
      ((compile_case_statements c sc off stat next hres iter_stat).2.2 = false ∨
        (a = c0.code_off ∧ off = c0.code_off)) →
      Rel a b c0 (compile_case_statements c sc off stat next hres iter_stat).2.1)
    (ihn : ∀ {c : compiler_ctx_t} (i : Nat) (hres : HRESULT),
      (∀ j, j < i + case_count next → a ≤ case_jmps j) → Rel a b c0 c →
      ((compile_case_bodies c sc off stat case_jmps default_jmp i hres next).returned = false ∨
        (a = c0.code_off ∧ off = c0.code_off)) →
      Rel a b c0 (compile_case_bodies c sc off stat case_jmps default_jmp i hres next).ctx)
    (hj : ∀ j, j < i + case_count (.mk expr iter_stat next) → a ≤ case_jmps j)
    (hd : a ≤ default_jmp) (h : Rel a b c0 c) :
    ((compile_case_bodies c sc off stat case_jmps default_jmp i hres
        (.mk expr iter_stat next)).returned = false ∨ (a = c0.code_off ∧ off = c0.code_off)) →
    Rel a b c0
      (compile_case_bodies c sc off stat case_jmps default_jmp i hres
        (.mk expr iter_stat next)).ctx := by
  rw [compile_case_bodies_unfold]
  lift_lets
  intro ctx1 i1 body
  have h1 : Rel a b c0 ctx1 := by
    apply set_arg1_rel _ h
    split
    · rename_i hs
      apply hj
      rw [case_count, if_pos hs]
      omega
    · exact hd
  have hj1 : ∀ j, j < i1 + case_count next → a ≤ case_jmps j := by
    intro j hjj
    apply hj
    rw [case_count]
    by_cases hs : expr.isSome = true
    · rw [if_pos hs]
      have : i1 = i + 1 := if_pos hs
      omega
    · rw [if_neg hs]
      have : i1 = i := if_neg hs
      omega
  split
  · intro hr; exact ihn _ _ hj1 h1 hr
  · split
    · rename_i hret
      intro hr
      exact ihs _ h1 (hr.imp_left (fun hr => absurd hret (by
        have : (⟨body.1, body.2.1, i1, true⟩ : case_body_t).returned = false := hr
        exact absurd this (by simp))))
    · rename_i hret
      have hb : Rel a b c0 body.2.1 := ihs _ h1 (Or.inl (by simpa using hret))
      split
      · intro _; exact hb
      · intro hr; exact ihn _ _ hj1 hb hr

theorem switch_jmp_rel {a b : Nat} {c0 : compiler_ctx_t} (v : case_loop_t)
    (h : Rel a b c0 v.ctx) :
    Rel a b c0
      (if SUCCEEDED v.hres = true then
        if (push_instr v.ctx OP_pop).1 ≠ UINT_MAX then
          ((if (push_instr (push_instr v.ctx OP_pop).2 OP_jmp).1 = UINT_MAX then E_OUTOFMEMORY
            else v.hres, (push_instr (push_instr v.ctx OP_pop).2 OP_jmp).2),
            (push_instr (push_instr v.ctx OP_pop).2 OP_jmp).1)
        else ((E_OUTOFMEMORY, (push_instr v.ctx OP_pop).2), 0)
      else ((v.hres, v.ctx), 0) : (HRESULT × compiler_ctx_t) × Nat).1.2 := by
  repeat (first
    | with_reducible (first
        | exact h
        | assumption
        | exact Rel.refl _
        | intro _
        | apply Rel.ite
        | apply Rel.ite1
        | apply Rel.ite2
        | apply Rel.ite0
        | apply set_arg1_rel
        | apply set_arg2_rel
        | apply push_instr_idx_ge
        | apply push_instr_rel
        | apply push_instr_hres_rel
        | apply push_instr_int_rel
        | apply push_instr_uint_rel
        | apply push_instr_str_rel
        | apply push_instr_bstr_rel
        | apply push_instr_bstr_uint_rel
        | apply push_instr_uint_str_rel
        | apply push_instr_double_rel
        | apply heap_alloc_rel
        | apply compiler_alloc_string_rel
        | apply compiler_alloc_bstr_rel
        | apply compile_expression_rel
        | apply compile_expression_noret_rel
        | apply compile_memberid_expression_rel
        | apply set_eval_rel
        | apply compile_interp_fallback_rel
        | apply alloc_label_rel
        | apply label_set_addr_rel
        | apply Rel.rollback
        | apply compile_variable_list_rel
        | apply pop_to_stat_rel)
    | split)

theorem switch_jmp_idx {a b : Nat} {c0 : compiler_ctx_t} (v : case_loop_t)
    (h : Rel a b c0 v.ctx)
    (hs : ¬ FAILED
      (if SUCCEEDED v.hres = true then
        if (push_instr v.ctx OP_pop).1 ≠ UINT_MAX then
          ((if (push_instr (push_instr v.ctx OP_pop).2 OP_jmp).1 = UINT_MAX then E_OUTOFMEMORY
            else v.hres, (push_instr (push_instr v.ctx OP_pop).2 OP_jmp).2),
            (push_instr (push_instr v.ctx OP_pop).2 OP_jmp).1)
        else ((E_OUTOFMEMORY, (push_instr v.ctx OP_pop).2), 0)
      else ((v.hres, v.ctx), 0) : (HRESULT × compiler_ctx_t) × Nat).1.1 = true) :
    ¬ FAILED v.hres = true ∧
    a ≤ (if SUCCEEDED v.hres = true then
        if (push_instr v.ctx OP_pop).1 ≠ UINT_MAX then
          ((if (push_instr (push_instr v.ctx OP_pop).2 OP_jmp).1 = UINT_MAX then E_OUTOFMEMORY
            else v.hres, (push_instr (push_instr v.ctx OP_pop).2 OP_jmp).2),
            (push_instr (push_instr v.ctx OP_pop).2 OP_jmp).1)
        else ((E_OUTOFMEMORY, (push_instr v.ctx OP_pop).2), 0)
      else ((v.hres, v.ctx), 0) : (HRESULT × compiler_ctx_t) × Nat).2 := by
  by_cases h1 : SUCCEEDED v.hres = true
  · rw [if_pos h1] at hs ⊢
    by_cases h2 : (push_instr v.ctx OP_pop).1 ≠ UINT_MAX
    · rw [if_pos h2] at hs ⊢
      dsimp only at hs ⊢
      by_cases h3 : (push_instr (push_instr v.ctx OP_pop).2 OP_jmp).1 = UINT_MAX
      · rw [if_pos h3] at hs
        exact absurd (show FAILED E_OUTOFMEMORY = true by decide) hs
      · rw [if_neg h3] at hs
        exact ⟨hs, push_instr_idx_ge (push_instr_rel _ h) h3⟩
    · rw [if_neg h2] at hs
      exact absurd (show FAILED E_OUTOFMEMORY = true by decide) hs
  · rw [if_neg h1] at hs ⊢
    refine absurd ?_ h1
    simp only [FAILED, SUCCEEDED, decide_eq_true_eq, not_lt] at hs ⊢
    exact hs

theorem compile_switch_statement_rel_aux {expr : expression_t} {case_list : case_clausule_t}
    (ihb : ∀ {a b off : Nat} {c0 c : compiler_ctx_t} (sc : statement_ctx_t) (stat : statement_t)
      (case_jmps : Nat → Nat) (default_jmp i : Nat) (hres : HRESULT),
      (∀ j, j < i + case_count case_list → a ≤ case_jmps j) → a ≤ default_jmp → Rel a b c0 c →
      ((compile_case_bodies c sc off stat case_jmps default_jmp i hres case_list).returned
          = false ∨ (a = c0.code_off ∧ off = c0.code_off)) →
      Rel a b c0 (compile_case_bodies c sc off stat case_jmps default_jmp i hres case_list).ctx)
    (c0 : compiler_ctx_t) :
    Rel c0.code_off c0.labels_cnt c0 (compile_switch_statement c0 (.mk expr case_list)).2 := by
  have h : Rel c0.code_off c0.labels_cnt c0 c0 := Rel.refl c0
  rw [compile_switch_statement_unfold]
  lift_lets
  intro off_backup hres break_label stat_ctx case_jmps cases instr djmp jmp default_jmp bodies ctx1
  have h1 : Rel c0.code_off c0.labels_cnt c0 hres.2 := compile_expression_rel _ h
  have h2 : Rel c0.code_off c0.labels_cnt c0 break_label.2 := alloc_label_rel h1
  have h3 : Rel c0.code_off c0.labels_cnt c0 case_jmps.2 := heap_alloc_rel h2
  have hc := compile_case_exprs_rel case_list ⟨hres.1, case_jmps.2, fun _ => 0, 0, false⟩ h3
    (fun j hj => absurd hj (Nat.not_lt_zero _))
  have h4 : Rel c0.code_off c0.labels_cnt c0 jmp.1.2 := switch_jmp_rel cases hc.1
  split
  · exact h1
  split
  · exact h2
  rename_i hbr
  split
  · exact h3
  split
  · exact h4
  rename_i hjok
  have hidx := switch_jmp_idx cases hc.1 hjok
  have h5 : Rel c0.code_off c0.labels_cnt c0 bodies.ctx :=
    ihb _ _ _ _ _ _ (fun j hjj => hc.2 hidx.1 j (by simpa using hjj)) hidx.2 h4
      (Or.inr ⟨rfl, rfl⟩)
  split
  · exact h5
  rename_i hret
  split
  · exact h5
  have l3 : Rel break_label.2.code_off break_label.2.labels_cnt break_label.2 case_jmps.2 :=
    heap_alloc_rel (Rel.refl _)
  have lc := compile_case_exprs_rel case_list ⟨hres.1, case_jmps.2, fun _ => 0, 0, false⟩ l3
    (fun j hj => absurd hj (Nat.not_lt_zero _))
  have l4 : Rel break_label.2.code_off break_label.2.labels_cnt break_label.2 jmp.1.2 :=
    switch_jmp_rel cases lc.1
  have lidx := switch_jmp_idx cases lc.1 hjok
  have l5 : Rel break_label.2.code_off break_label.2.labels_cnt break_label.2 bodies.ctx :=
    ihb _ _ _ _ _ _ (fun j hjj => lc.2 lidx.1 j (by simpa using hjj)) lidx.2 l4
      (Or.inl (by simpa using hret))
  apply label_set_addr_rel _ h1 _ hbr
  · apply Rel.ite0
    · intro _; exact set_arg1_rel _ h5 hidx.2
    · intro _; exact h5
  · apply Rel.ite0
    · intro _; exact set_arg1_rel _ l5 lidx.2
    · intro _; exact l5

mutual
theorem compile_statement_rel :
    ∀ (s : statement_t) {a b : Nat} {c0 : compiler_ctx_t} (sc : Option statement_ctx_t)
      {c : compiler_ctx_t}, Rel a b c0 c → Rel a b c0 (compile_statement c sc s).2
  | .STAT_BLOCK (.mk stat_list), a, b, c0, sc, c, h => by
    rw [compile_statement]
    exact frame_step (fun c' => compile_block_statement c' stat_list) (fun c' => compile_block_statement_rel stat_list (Rel.refl c')) sc h
  | .STAT_BREAK stat, a, b, c0, sc, c, h => by
    rw [compile_statement]
    exact frame_step (fun c' => compile_break_statement c' stat) (fun c' => compile_break_statement_rel stat (Rel.refl c')) sc h
  | .STAT_CONTINUE stat, a, b, c0, sc, c, h => by
    rw [compile_statement]
    exact frame_step (fun c' => compile_continue_statement c' stat) (fun c' => compile_continue_statement_rel stat (Rel.refl c')) sc h
  | .STAT_EMPTY, a, b, c0, sc, c, h => by
    rw [compile_statement]
    exact frame_step (fun c' => push_instr_hres c' OP_undefined) (fun c' => push_instr_hres_rel OP_undefined (Rel.refl c')) sc h
  | .STAT_EXPR stat, a, b, c0, sc, c, h => by
    rw [compile_statement]
    exact frame_step (fun c' => compile_expression_statement c' stat) (fun c' => compile_expression_statement_rel stat (Rel.refl c')) sc h
  | .STAT_FOR stat, a, b, c0, sc, c, h => by
    rw [compile_statement]
    exact frame_step (fun c' => compile_for_statement c' stat) (fun c' => compile_for_statement_rel stat (Rel.refl c')) sc h
  | .STAT_FORIN stat, a, b, c0, sc, c, h => by
    rw [compile_statement]
    exact frame_step (fun c' => compile_forin_statement c' stat) (fun c' => compile_forin_statement_rel stat (Rel.refl c')) sc h
  | .STAT_IF stat, a, b, c0, sc, c, h => by
    rw [compile_statement]
    exact frame_step (fun c' => compile_if_statement c' stat) (fun c' => compile_if_statement_rel stat (Rel.refl c')) sc h
  | .STAT_LABEL stat, a, b, c0, sc, c, h => by
    rw [compile_statement]
    exact frame_step (fun c' => push_instr_hres c' OP_label) (fun c' => push_instr_hres_rel OP_label (Rel.refl c')) sc h
  | .STAT_SWITCH stat, a, b, c0, sc, c, h => by
    rw [compile_statement]
    exact frame_step (fun c' => compile_switch_statement c' stat) (fun c' => compile_switch_statement_rel stat (Rel.refl c')) sc h
  | .STAT_THROW stat, a, b, c0, sc, c, h => by
    rw [compile_statement]
    exact frame_step (fun c' => compile_throw_statement c' stat) (fun c' => compile_throw_statement_rel stat (Rel.refl c')) sc h
  | .STAT_TRY stat, a, b, c0, sc, c, h => by
    rw [compile_statement]
    exact frame_step (fun c' => compile_try_statement c' stat) (fun c' => compile_try_statement_rel stat (Rel.refl c')) sc h
  | .STAT_VAR stat, a, b, c0, sc, c, h => by
    rw [compile_statement]
    exact frame_step (fun c' => compile_var_statement c' stat) (fun c' => compile_var_statement_rel stat (Rel.refl c')) sc h
  | .STAT_WHILE stat, a, b, c0, sc, c, h => by
    rw [compile_statement]
    exact frame_step (fun c' => compile_while_statement c' stat) (fun c' => compile_while_statement_rel stat (Rel.refl c')) sc h
  | .STAT_WITH stat, a, b, c0, sc, c, h => by
    rw [compile_statement]
    exact frame_step (fun c' => compile_with_statement c' stat) (fun c' => compile_with_statement_rel stat (Rel.refl c')) sc h
  | .STAT_RETURN expr, a, b, c0, sc, c, h => by
    rw [compile_statement]
    exact frame_step (fun c' => compile_interp_fallback c' (.STAT_RETURN expr)) (fun c' => compile_interp_fallback_rel _ (Rel.refl c')) sc h

theorem compile_block_statement_rel :
    ∀ (s : statement_list) {a b : Nat} {c0 c : compiler_ctx_t}, Rel a b c0 c →
      Rel a b c0 (compile_block_statement c s).2
  | .NULL, a, b, c0, c, h => by
    rw [compile_block_statement]
    exact push_instr_hres_rel _ h
  | .node addr stat next, a, b, c0, c, h => compile_block_statement_rel_aux (compile_statement_rel stat)
      (fun h => compile_block_statement_rel next h) h

theorem compile_if_statement_rel :
    ∀ (s : if_statement_t) {a b : Nat} {c0 c : compiler_ctx_t}, Rel a b c0 c →
      Rel a b c0 (compile_if_statement c s).2
  | .mk expr if_stat (.node addr stat nx), a, b, c0, c, h => compile_if_else_rel_aux (compile_statement_rel if_stat) (compile_statement_rel stat) h
  | .mk expr if_stat .NULL, a, b, c0, c, h => compile_if_rel_aux (compile_statement_rel if_stat) h

theorem compile_while_statement_rel :
    ∀ (s : while_statement_t) {a b : Nat} {c0 c : compiler_ctx_t}, Rel a b c0 c →
      Rel a b c0 (compile_while_statement c s).2
  | .mk do_while expr statement, a, b, c0, c, h => h.trans (compile_while_statement_rel_aux (compile_statement_rel statement) c)

theorem compile_for_statement_rel :
    ∀ (s : for_statement_t) {a b : Nat} {c0 c : compiler_ctx_t}, Rel a b c0 c →
      Rel a b c0 (compile_for_statement c s).2
  | .mk variable_list begin_expr expr end_expr statement, a, b, c0, c, h => h.trans (compile_for_statement_rel_aux (compile_statement_rel statement) c)

theorem compile_forin_statement_rel :
    ∀ (s : forin_statement_t) {a b : Nat} {c0 c : compiler_ctx_t}, Rel a b c0 c →
      Rel a b c0 (compile_forin_statement c s).2
  | .mk variable_ expr in_expr statement, a, b, c0, c, h => h.trans (compile_forin_statement_rel_aux (compile_statement_rel statement) c)

theorem compile_with_statement_rel :
    ∀ (s : with_statement_t) {a b : Nat} {c0 c : compiler_ctx_t}, Rel a b c0 c →
      Rel a b c0 (compile_with_statement c s).2
  | .mk expr statement, a, b, c0, c, h => h.trans (compile_with_statement_rel_aux (compile_statement_rel statement) c)

theorem compile_case_statements_rel :
    ∀ (l : statement_list) {a b off : Nat} {c0 : compiler_ctx_t} (sc : statement_ctx_t)
      (stat : statement_t) (next : case_clausule_t) {c : compiler_ctx_t} (hres : HRESULT),
      Rel a b c0 c →
      ((compile_case_statements c sc off stat next hres l).2.2 = false ∨
        (a = c0.code_off ∧ off = c0.code_off)) →
      Rel a b c0 (compile_case_statements c sc off stat next hres l).2.1
  | .NULL, a, b, off, c0, sc, stat, next, c, hres, h, _ => by
    rw [compile_case_statements]
    exact h
  | .node addr stat_iter stat_next, a, b, off, c0, sc, stat, next, c, hres, h, hr =>
    compile_case_statements_rel_aux (compile_statement_rel stat_iter)
      (fun hres h hr => compile_case_statements_rel stat_next sc stat next hres h hr) h hr

theorem compile_case_bodies_rel :
    ∀ (cl : case_clausule_t) {a b off : Nat} {c0 c : compiler_ctx_t} (sc : statement_ctx_t)
      (stat : statement_t) (case_jmps : Nat → Nat) (default_jmp i : Nat) (hres : HRESULT),
      (∀ j, j < i + case_count cl → a ≤ case_jmps j) → a ≤ default_jmp → Rel a b c0 c →
      ((compile_case_bodies c sc off stat case_jmps default_jmp i hres cl).returned = false ∨
        (a = c0.code_off ∧ off = c0.code_off)) →
      Rel a b c0 (compile_case_bodies c sc off stat case_jmps default_jmp i hres cl).ctx
  | .NULL, a, b, off, c0, c, sc, stat, case_jmps, default_jmp, i, hres, _, _, h, _ => by
    rw [compile_case_bodies]
    exact h
  | .mk expr iter_stat next, a, b, off, c0, c, sc, stat, case_jmps, default_jmp, i, hres,
      hj, hd, h, hr =>
    compile_case_bodies_rel_aux
      (fun hres h hr => compile_case_statements_rel iter_stat sc stat next hres h hr)
      (fun i hres hj h hr =>
        compile_case_bodies_rel next sc stat case_jmps default_jmp i hres hj hd h hr)
      hj hd h hr

theorem compile_switch_statement_rel :
    ∀ (s : switch_statement_t) {a b : Nat} {c0 c : compiler_ctx_t}, Rel a b c0 c →
      Rel a b c0 (compile_switch_statement c s).2
  | .mk expr case_list, a, b, c0, c, h => h.trans (compile_switch_statement_rel_aux
      (fun sc stat case_jmps default_jmp i hres hj hd h hr =>
        compile_case_bodies_rel case_list sc stat case_jmps default_jmp i hres hj hd h hr) c)

theorem compile_try_statement_rel :
    ∀ (s : try_statement_t) {a b : Nat} {c0 c : compiler_ctx_t}, Rel a b c0 c →
      Rel a b c0 (compile_try_statement c s).2
  | .mk t (.mk ident cs) (.node addr fs fnext), a, b, c0, c, h => h.trans (compile_try_catch_finally_rel_aux (compile_statement_rel t) (compile_statement_rel cs) (compile_statement_rel fs) c)
  | .mk t (.mk ident cs) .NULL, a, b, c0, c, h => h.trans (compile_try_catch_nofinally_rel_aux (compile_statement_rel t) (compile_statement_rel cs) c)
  | .mk t .NULL (.node addr fs fnext), a, b, c0, c, h => h.trans (compile_try_nocatch_finally_rel_aux (compile_statement_rel t) (compile_statement_rel fs) c)
  | .mk t .NULL .NULL, a, b, c0, c, h => h.trans (compile_try_nocatch_nofinally_rel_aux (compile_statement_rel t) c)
end


/-! ## Outcomes of the primitives -/

theorem succeeded_not_failed {hr : HRESULT} (h : SUCCEEDED hr = true) : ¬ FAILED hr = true := by
  simp only [SUCCEEDED, FAILED, decide_eq_true_eq] at h ⊢
  exact not_lt.mpr h

/-- A successful `push_instr` stores the opcode at the old offset and touches nothing else of
the stream. -/
theorem push_instr_ok (c : compiler_ctx_t) (op : jsop_t) (hne : ¬ (push_instr c op).1 = UINT_MAX) :
    (push_instr c op).1 = c.code_off ∧ (push_instr c op).2.code_off = c.code_off + 1 ∧
    ((push_instr c op).2.instrs c.code_off).op = op ∧
    (∀ i, i ≠ c.code_off → (push_instr c op).2.instrs i = c.instrs i) ∧
    (push_instr c op).2.stat_eval = c.stat_eval := by
  rcases push_instr_cases c op with ⟨hp, e⟩ | ⟨hp, n, _, _, e⟩
  · rw [e] at hne; exact absurd rfl hne
  · rw [e]
    refine ⟨rfl, rfl, ?_, ?_, rfl⟩
    · show (Function.update c.instrs c.code_off _ c.code_off).op = op
      rw [Function.update_same]
    · intro i hi
      exact Function.update_noteq hi _ _

/-- With room in the buffer `push_instr` needs no memory. -/
theorem push_instr_room (c : compiler_ctx_t) (op : jsop_t) (h0 : c.code_off < c.code_size) :
    (push_instr c op).1 = c.code_off := by
  unfold push_instr
  rw [if_neg (by omega), if_neg (by omega)]
  rfl

theorem compile_interp_fallback_forbidden (c : compiler_ctx_t) (stat : statement_t)
    (hnf : c.no_fallback = true) : compile_interp_fallback c stat = (E_NOTIMPL, c) := by
  unfold compile_interp_fallback
  rw [if_pos hnf]

/-- The fallback when it is permitted and memory does not run out. -/
theorem compile_interp_fallback_permitted (c : compiler_ctx_t) (stat : statement_t)
    (hnf : c.no_fallback = false)
    (hne : (compile_interp_fallback c stat).1 ≠ E_OUTOFMEMORY) :
    (compile_interp_fallback c stat).1 = S_OK ∧
    (compile_interp_fallback c stat).2.code_off = c.code_off + 1 ∧
    ((compile_interp_fallback c stat).2.instrs c.code_off).op = OP_tree ∧
    ((compile_interp_fallback c stat).2.instrs c.code_off).arg1 = .stat stat ∧
    (∀ i, i ≠ c.code_off → (compile_interp_fallback c stat).2.instrs i = c.instrs i) ∧
    (compile_interp_fallback c stat).2.stat_eval = c.stat_eval := by
  unfold compile_interp_fallback at hne ⊢
  rw [if_neg (by rw [hnf]; exact Bool.false_ne_true)] at hne ⊢
  dsimp only at hne ⊢
  by_cases hp : (push_instr c OP_tree).1 = UINT_MAX
  · rw [if_pos hp] at hne
    exact absurd rfl hne
  · rw [if_neg hp]
    obtain ⟨e1, e2, e3, e4, e5⟩ := push_instr_ok c OP_tree hp
    refine ⟨rfl, e2, ?_, ?_, ?_, e5⟩
    · simp only [set_arg1, e1, Function.update_same]
      exact e3
    · simp only [set_arg1, e1, Function.update_same]
    · intro i hi
      simp only [set_arg1, e1, Function.update_noteq hi]
      exact e4 i hi

theorem pop_stat_ctx_fst (entry : compiler_ctx_t) (sc : Option statement_ctx_t)
    (r : HRESULT × compiler_ctx_t) : (pop_stat_ctx entry sc r).1 = r.1 := by
  cases sc <;> rfl

theorem pop_stat_ctx_proj (entry : compiler_ctx_t) (sc : Option statement_ctx_t)
    (r : HRESULT × compiler_ctx_t) :
    (pop_stat_ctx entry sc r).2.code_off = r.2.code_off ∧
    (pop_stat_ctx entry sc r).2.instrs = r.2.instrs ∧
    (pop_stat_ctx entry sc r).2.stat_eval = r.2.stat_eval := by
  cases sc <;> exact ⟨rfl, rfl, rfl⟩

theorem push_stat_ctx_proj (c : compiler_ctx_t) (sc : Option statement_ctx_t) :
    (push_stat_ctx c sc).code_off = c.code_off ∧ (push_stat_ctx c sc).instrs = c.instrs ∧
    (push_stat_ctx c sc).no_fallback = c.no_fallback ∧
    (push_stat_ctx c sc).stat_eval = c.stat_eval := by
  cases sc <;> exact ⟨rfl, rfl, rfl, rfl⟩

/-- A statement that is handed to `compile_interp_fallback` as it is, seen from
`compile_statement`. -/
theorem fallback_statement (ctx c : compiler_ctx_t) (sc : Option statement_ctx_t)
    (stat : statement_t) (r : HRESULT × compiler_ctx_t)
    (hr : r = pop_stat_ctx ctx sc (compile_interp_fallback c stat))
    (hc : c.code_off = ctx.code_off ∧ c.instrs = ctx.instrs ∧
      c.no_fallback = ctx.no_fallback) :
    (ctx.no_fallback = false → r.1 ≠ E_OUTOFMEMORY →
      r.1 = S_OK ∧ r.2.code_off = ctx.code_off + 1 ∧
      (r.2.instrs ctx.code_off).op = OP_tree ∧ (r.2.instrs ctx.code_off).arg1 = .stat stat ∧
      ∀ i, i ≠ ctx.code_off → r.2.instrs i = ctx.instrs i) ∧
    (ctx.no_fallback = true →
      r.1 = E_NOTIMPL ∧ r.2.code_off = ctx.code_off ∧ r.2.instrs = ctx.instrs) := by
  obtain ⟨h1, h2, h3⟩ := hc
  obtain ⟨p1, p2, _⟩ := pop_stat_ctx_proj ctx sc (compile_interp_fallback c stat)
  subst hr
  rw [pop_stat_ctx_fst, p1, p2]
  constructor
  · intro hnf hne
    obtain ⟨e1, e2, e3, e4, e5, _⟩ := compile_interp_fallback_permitted c stat (h3.trans hnf) hne
    rw [h1] at e2 e3 e4 e5
    rw [h2] at e5
    exact ⟨e1, e2, e3, e4, e5⟩
  · intro hnf
    rw [compile_interp_fallback_forbidden c stat (h3.trans hnf)]
    exact ⟨rfl, h1, h2⟩

/-! ## The label pass and the entry points -/

theorem resolve_label_proj (c : compiler_ctx_t) (off : Nat) :
    (resolve_label c off).code_off = c.code_off ∧
    (∀ i, ((resolve_label c off).instrs i).op = (c.instrs i).op) ∧
    (∀ i, i ≠ off → (resolve_label c off).instrs i = c.instrs i) := by
  unfold resolve_label
  split
  · split
    · split
      · refine ⟨rfl, fun i => ?_, fun i hi => ?_⟩
        · show (Function.update c.instrs off _ i).op = _
          by_cases e : i = off
          · subst e; rw [Function.update_same]
          · rw [Function.update_noteq e]
        · exact Function.update_noteq hi _ _
      · exact ⟨rfl, fun _ => rfl, fun _ _ => rfl⟩
    all_goals exact ⟨rfl, fun _ => rfl, fun _ _ => rfl⟩
  · exact ⟨rfl, fun _ => rfl, fun _ _ => rfl⟩

theorem resolve_labels_loop_proj (n : Nat) :
    ∀ (c : compiler_ctx_t) (off : Nat),
      (resolve_labels_loop c n off).code_off = c.code_off ∧
      (∀ i, ((resolve_labels_loop c n off).instrs i).op = (c.instrs i).op) ∧
      (∀ i, i < off → (resolve_labels_loop c n off).instrs i = c.instrs i) := by
  induction n with
  | zero => intro c off; exact ⟨rfl, fun _ => rfl, fun _ _ => rfl⟩
  | succ n ih =>
    intro c off
    rw [resolve_labels_loop]
    obtain ⟨e1, e2, e3⟩ := ih (resolve_label c off) (off + 1)
    obtain ⟨f1, f2, f3⟩ := resolve_label_proj c off
    refine ⟨e1.trans f1, fun i => (e2 i).trans (f2 i), fun i hi => ?_⟩
    rw [e3 i (by omega), f3 i (by omega)]

theorem resolve_labels_proj (c : compiler_ctx_t) (off : Nat) :
    (resolve_labels c off).code_off = c.code_off ∧
    (∀ i, ((resolve_labels c off).instrs i).op = (c.instrs i).op) ∧
    (∀ i, i < off → (resolve_labels c off).instrs i = c.instrs i) :=
  resolve_labels_loop_proj _ c off

/-- What `push_instr(ctx, OP_ret) == -1 ? E_OUTOFMEMORY : S_OK` leaves when it succeeds. -/
theorem push_ret_ok (c : compiler_ctx_t) (h : SUCCEEDED (push_instr_hres c OP_ret).1 = true) :
    c.code_off < (push_instr_hres c OP_ret).2.code_off ∧
    ((push_instr_hres c OP_ret).2.instrs ((push_instr_hres c OP_ret).2.code_off - 1)).op
      = OP_ret := by
  unfold push_instr_hres at h ⊢
  dsimp only at h ⊢
  by_cases hp : (push_instr c OP_ret).1 = UINT_MAX
  · rw [if_pos hp] at h
    exact absurd h (by decide)
  · obtain ⟨_, e2, e3, _⟩ := push_instr_ok c OP_ret hp
    rw [e2, Nat.add_sub_cancel]
    exact ⟨Nat.lt_succ_self _, e3⟩

theorem init_compiler_code_off (parser : parser_ctx_t)
    (h : ¬ FAILED (init_compiler parser).1 = true) :
    (init_compiler parser).2.ctx.code_off =
      if parser.compiler = true then parser.ctx.code_off else 0 := by
  unfold init_compiler at h ⊢
  obtain ⟨b1, hp1, e1⟩ := heap_alloc_cases parser.ctx
  cases hcode : parser.code <;> cases hcomp : parser.compiler <;>
    simp only [hcode, hcomp, Bool.not_true, Bool.not_false, if_true, if_false,
      Bool.false_eq_true, e1] at h ⊢
  · cases b1
    · exact absurd (show FAILED E_OUTOFMEMORY = true by decide) (by simpa using h)
    · simp only [Bool.not_true, Bool.false_eq_true, if_false, hcomp, Bool.not_false,
        if_true] at h ⊢
      obtain ⟨b2, hp2, e2⟩ := heap_alloc_cases
        { parser.ctx with heap := hp1, bstr_pool_size := 0, bstr_cnt := 0 }
      rw [e2] at h ⊢
      cases b2
      · exact absurd (show FAILED E_OUTOFMEMORY = true by decide) (by simpa using h)
      · rfl
  · cases b1
    · exact absurd (show FAILED E_OUTOFMEMORY = true by decide) (by simpa using h)
    · simp only [Bool.not_true, Bool.false_eq_true, if_false, hcomp] at h ⊢
  · cases b1
    · exact absurd (show FAILED E_OUTOFMEMORY = true by decide) (by simpa using h)
    · rfl


theorem compile_subscript_stat_ret (parser : parser_ctx_t) (addr : Nat) (stat : statement_t)
    (next : statement_list) (compile_block : Bool) (ret_off : Nat)
    (h : SUCCEEDED (compile_subscript_stat parser addr stat next compile_block ret_off).1 = true) :
    (compile_subscript_stat parser addr stat next compile_block ret_off).2.2
      = (if parser.compiler = true then parser.ctx.code_off else 0) ∧
    (compile_subscript_stat parser addr stat next compile_block ret_off).2.2
      < (compile_subscript_stat parser addr stat next compile_block ret_off).2.1.ctx.code_off ∧
    ((compile_subscript_stat parser addr stat next compile_block ret_off).2.1.ctx.instrs
      ((compile_subscript_stat parser addr stat next compile_block ret_off).2.1.ctx.code_off - 1)).op
      = OP_ret := by
  revert h
  unfold compile_subscript_stat
  lift_lets
  intro hres0 parser1 ret_off1 hres hres1
  have hrel : Rel parser1.ctx.code_off parser1.ctx.labels_cnt parser1.ctx hres.2 := by
    apply Rel.ite
    · intro _; exact compile_block_statement_rel _ (Rel.refl _)
    · intro _; exact compile_statement_rel _ _ (Rel.refl _)
  split
  · intro h; exact absurd ‹_› (succeeded_not_failed h)
  · rename_i hi
    split
    · intro h; exact absurd ‹_› (succeeded_not_failed h)
    · intro h
      obtain ⟨e1, e2⟩ := push_ret_ok (resolve_labels hres.2 ret_off1) h
      have e3 := (resolve_labels_proj hres.2 ret_off1).1
      have e4 := hrel.off_ge
      rw [e3] at e1
      exact ⟨init_compiler_code_off parser hi, lt_of_le_of_lt e4 e1, e2⟩

theorem compile_subscript_ret (parser : parser_ctx_t) (expr : expression_t) (ret_off : Nat)
    (h : SUCCEEDED (compile_subscript parser expr ret_off).1 = true) :
    (compile_subscript parser expr ret_off).2.2
      = (if parser.compiler = true then parser.ctx.code_off else 0) ∧
    (compile_subscript parser expr ret_off).2.2
      < (compile_subscript parser expr ret_off).2.1.ctx.code_off ∧
    ((compile_subscript parser expr ret_off).2.1.ctx.instrs
      ((compile_subscript parser expr ret_off).2.1.ctx.code_off - 1)).op = OP_ret := by
  revert h
  unfold compile_subscript
  lift_lets
  intro hres0 parser1 ret_off1 hres hres1
  have hrel : Rel parser1.ctx.code_off parser1.ctx.labels_cnt parser1.ctx hres.2 :=
    compile_expression_rel _ (Rel.refl _)
  split
  · intro h; exact absurd ‹_› (succeeded_not_failed h)
  · rename_i hi
    split
    · intro h; exact absurd ‹_› (succeeded_not_failed h)
    · intro h
      obtain ⟨e1, e2⟩ := push_ret_ok hres.2 h
      have e4 := hrel.off_ge
      exact ⟨init_compiler_code_off parser hi, lt_of_le_of_lt e4 e1, e2⟩

/-! ## The claims on the frame and on the entry points -/

/-- C4: whenever `compile_subscript_stat` succeeds on a statement (or implicit block), and
whenever `compile_subscript` succeeds on an expression, `*ret_off` is the length of the stream at
entry (that of the compiler context when there is one, zero for a new one), at least one
instruction has been emitted at `ret_off`, and the last instruction of the stream is `OP_ret`. -/
theorem entry_points_ret_off (parser : parser_ctx_t) (addr : Nat) (stat : statement_t)
    (next : statement_list) (compile_block : Bool) (expr : expression_t) (ret_off : Nat) :
    (SUCCEEDED (compile_subscript_stat parser addr stat next compile_block ret_off).1 = true →
      (compile_subscript_stat parser addr stat next compile_block ret_off).2.2
        = (if parser.compiler = true then parser.ctx.code_off else 0) ∧
      (compile_subscript_stat parser addr stat next compile_block ret_off).2.2
        < (compile_subscript_stat parser addr stat next compile_block ret_off).2.1.ctx.code_off ∧
      ((compile_subscript_stat parser addr stat next compile_block ret_off).2.1.ctx.instrs
        ((compile_subscript_stat parser addr stat next compile_block ret_off).2.1.ctx.code_off
          - 1)).op = OP_ret) ∧
    (SUCCEEDED (compile_subscript parser expr ret_off).1 = true →
      (compile_subscript parser expr ret_off).2.2
        = (if parser.compiler = true then parser.ctx.code_off else 0) ∧
      (compile_subscript parser expr ret_off).2.2
        < (compile_subscript parser expr ret_off).2.1.ctx.code_off ∧
      ((compile_subscript parser expr ret_off).2.1.ctx.instrs
        ((compile_subscript parser expr ret_off).2.1.ctx.code_off - 1)).op = OP_ret) :=
  ⟨compile_subscript_stat_ret parser addr stat next compile_block ret_off,
   compile_subscript_ret parser expr ret_off⟩

/-- The program `a; while(cond) { b; }` and the expression `a` are compiled with success from an
empty parser context, and C4 gives the facts on the stream. -/
theorem entry_points_ret_off_witness :
    (compile_subscript_stat parser_empty 1 (stat_ident "a")
        (.node 2 stat_while_sample .NULL) true 7).2.2 = 0 ∧
    ((compile_subscript_stat parser_empty 1 (stat_ident "a")
        (.node 2 stat_while_sample .NULL) true 7).2.1.ctx.instrs
      ((compile_subscript_stat parser_empty 1 (stat_ident "a")
        (.node 2 stat_while_sample .NULL) true 7).2.1.ctx.code_off - 1)).op = OP_ret ∧
    (compile_subscript parser_empty (.EXPR_IDENT ⟨"a"⟩) 7).2.2 = 0 ∧
    ((compile_subscript parser_empty (.EXPR_IDENT ⟨"a"⟩) 7).2.1.ctx.instrs
      ((compile_subscript parser_empty (.EXPR_IDENT ⟨"a"⟩) 7).2.1.ctx.code_off - 1)).op
      = OP_ret :=
  ⟨((entry_points_ret_off parser_empty 1 (stat_ident "a") (.node 2 stat_while_sample .NULL)
      true (.EXPR_IDENT ⟨"a"⟩) 7).1 (by decide)).1,
   ((entry_points_ret_off parser_empty 1 (stat_ident "a") (.node 2 stat_while_sample .NULL)
      true (.EXPR_IDENT ⟨"a"⟩) 7).1 (by decide)).2.2,
   ((entry_points_ret_off parser_empty 1 (stat_ident "a") (.node 2 stat_while_sample .NULL)
      true (.EXPR_IDENT ⟨"a"⟩) 7).2 (by decide)).1,
   ((entry_points_ret_off parser_empty 1 (stat_ident "a") (.node 2 stat_while_sample .NULL)
      true (.EXPR_IDENT ⟨"a"⟩) 7).2 (by decide)).2.2⟩

/-- C5: for every statement, every context frame, every state and so every outcome,
`compile_statement` leaves each instruction below the stream length at its entry as it was, and
the stream length on return is at least the one at entry. -/
theorem compile_statement_frame (ctx : compiler_ctx_t) (stat_ctx : Option statement_ctx_t)
    (stat : statement_t) :
    (∀ i, i < ctx.code_off →
      (compile_statement ctx stat_ctx stat).2.instrs i = ctx.instrs i) ∧
    ctx.code_off ≤ (compile_statement ctx stat_ctx stat).2.code_off :=
  ⟨(compile_statement_rel stat stat_ctx (Rel.refl ctx)).instrs_eq,
   (compile_statement_rel stat stat_ctx (Rel.refl ctx)).off_ge⟩

/-- C9: a statement of a kind without a lowering routine (a return statement): with fallback
permitted, and unless memory runs out, `compile_statement` succeeds and appends exactly one
instruction, `OP_tree` with the statement as its operand; with fallback forbidden it returns
`E_NOTIMPL` and leaves the stream as it was. -/
theorem return_statement_fallback (ctx : compiler_ctx_t) (stat_ctx : Option statement_ctx_t)
    (expr : Option expression_t) :
    (ctx.no_fallback = false →
      (compile_statement ctx stat_ctx (.STAT_RETURN expr)).1 ≠ E_OUTOFMEMORY →
      (compile_statement ctx stat_ctx (.STAT_RETURN expr)).1 = S_OK ∧
      (compile_statement ctx stat_ctx (.STAT_RETURN expr)).2.code_off = ctx.code_off + 1 ∧
      ((compile_statement ctx stat_ctx (.STAT_RETURN expr)).2.instrs ctx.code_off).op = OP_tree ∧
      ((compile_statement ctx stat_ctx (.STAT_RETURN expr)).2.instrs ctx.code_off).arg1
        = .stat (.STAT_RETURN expr) ∧
      ∀ i, i ≠ ctx.code_off →
        (compile_statement ctx stat_ctx (.STAT_RETURN expr)).2.instrs i = ctx.instrs i) ∧
    (ctx.no_fallback = true →
      (compile_statement ctx stat_ctx (.STAT_RETURN expr)).1 = E_NOTIMPL ∧
      (compile_statement ctx stat_ctx (.STAT_RETURN expr)).2.code_off = ctx.code_off ∧
      (compile_statement ctx stat_ctx (.STAT_RETURN expr)).2.instrs = ctx.instrs) :=
  fallback_statement ctx (push_stat_ctx ctx stat_ctx) stat_ctx (.STAT_RETURN expr) _
    (by rw [compile_statement])
    ⟨(push_stat_ctx_proj ctx stat_ctx).1, (push_stat_ctx_proj ctx stat_ctx).2.1,
     (push_stat_ctx_proj ctx stat_ctx).2.2.1⟩

/-- The statement `return;` is lowered to one `OP_tree` from the empty context, and to nothing,
with `E_NOTIMPL`, when fallback is forbidden. -/
theorem return_statement_fallback_witness :
    ((compile_statement ctx_empty none stat_return_sample).1 = S_OK ∧
     (compile_statement ctx_empty none stat_return_sample).2.code_off = 1 ∧
     ((compile_statement ctx_empty none stat_return_sample).2.instrs 0).op = OP_tree) ∧
    ((compile_statement ctx_strict none stat_return_sample).1 = E_NOTIMPL ∧
     (compile_statement ctx_strict none stat_return_sample).2.code_off = 0) :=
  ⟨⟨((return_statement_fallback ctx_empty none none).1 rfl (by decide)).1,
    ((return_statement_fallback ctx_empty none none).1 rfl (by decide)).2.1,
    ((return_statement_fallback ctx_empty none none).1 rfl (by decide)).2.2.1⟩,
   ⟨((return_statement_fallback ctx_strict none none).2 rfl).1,
    ((return_statement_fallback ctx_strict none none).2 rfl).2.1⟩⟩


/-! ## Labelled `break` and `continue` -/

theorem compile_break_statement_labelled (c : compiler_ctx_t) (identifier : String) :
    compile_break_statement c ⟨some identifier⟩ =
      compile_interp_fallback
        (set_eval c (.STAT_BREAK ⟨some identifier⟩) .break_statement_eval)
        (.STAT_BREAK ⟨some identifier⟩) := by
  unfold compile_break_statement
  split
  · rfl
  · exact if_pos rfl

theorem compile_continue_statement_labelled (c : compiler_ctx_t) (identifier : String) :
    compile_continue_statement c ⟨some identifier⟩ =
      compile_interp_fallback
        (set_eval c (.STAT_CONTINUE ⟨some identifier⟩) .continue_statement_eval)
        (.STAT_CONTINUE ⟨some identifier⟩) := by
  unfold compile_continue_statement
  split
  · rfl
  · exact if_pos rfl

/-- C10: a `break` or a `continue` that names a label, in any nesting context (any stack of
context frames, any frame passed in): with fallback permitted, and unless memory runs out,
lowering succeeds and emits exactly one instruction, `OP_tree` with the statement as its operand,
so no jump; with fallback forbidden it emits nothing and returns `E_NOTIMPL`. -/
theorem labelled_branch_fallback (ctx : compiler_ctx_t) (stat_ctx : Option statement_ctx_t)
    (identifier : String) :
    ((ctx.no_fallback = false →
      (compile_statement ctx stat_ctx (.STAT_BREAK ⟨some identifier⟩)).1 ≠ E_OUTOFMEMORY →
      (compile_statement ctx stat_ctx (.STAT_BREAK ⟨some identifier⟩)).1 = S_OK ∧
      (compile_statement ctx stat_ctx (.STAT_BREAK ⟨some identifier⟩)).2.code_off
        = ctx.code_off + 1 ∧
      ((compile_statement ctx stat_ctx (.STAT_BREAK ⟨some identifier⟩)).2.instrs
        ctx.code_off).op = OP_tree ∧
      ((compile_statement ctx stat_ctx (.STAT_BREAK ⟨some identifier⟩)).2.instrs
        ctx.code_off).arg1 = .stat (.STAT_BREAK ⟨some identifier⟩) ∧
      ∀ i, i ≠ ctx.code_off →
        (compile_statement ctx stat_ctx (.STAT_BREAK ⟨some identifier⟩)).2.instrs i
          = ctx.instrs i) ∧
     (ctx.no_fallback = true →
      (compile_statement ctx stat_ctx (.STAT_BREAK ⟨some identifier⟩)).1 = E_NOTIMPL ∧
      (compile_statement ctx stat_ctx (.STAT_BREAK ⟨some identifier⟩)).2.code_off
        = ctx.code_off ∧
      (compile_statement ctx stat_ctx (.STAT_BREAK ⟨some identifier⟩)).2.instrs
        = ctx.instrs)) ∧
    ((ctx.no_fallback = false →
      (compile_statement ctx stat_ctx (.STAT_CONTINUE ⟨some identifier⟩)).1 ≠ E_OUTOFMEMORY →
      (compile_statement ctx stat_ctx (.STAT_CONTINUE ⟨some identifier⟩)).1 = S_OK ∧
      (compile_statement ctx stat_ctx (.STAT_CONTINUE ⟨some identifier⟩)).2.code_off
        = ctx.code_off + 1 ∧
      ((compile_statement ctx stat_ctx (.STAT_CONTINUE ⟨some identifier⟩)).2.instrs
        ctx.code_off).op = OP_tree ∧
      ((compile_statement ctx stat_ctx (.STAT_CONTINUE ⟨some identifier⟩)).2.instrs
        ctx.code_off).arg1 = .stat (.STAT_CONTINUE ⟨some identifier⟩) ∧
      ∀ i, i ≠ ctx.code_off →
        (compile_statement ctx stat_ctx (.STAT_CONTINUE ⟨some identifier⟩)).2.instrs i
          = ctx.instrs i) ∧
     (ctx.no_fallback = true →
      (compile_statement ctx stat_ctx (.STAT_CONTINUE ⟨some identifier⟩)).1 = E_NOTIMPL ∧
      (compile_statement ctx stat_ctx (.STAT_CONTINUE ⟨some identifier⟩)).2.code_off
        = ctx.code_off ∧
      (compile_statement ctx stat_ctx (.STAT_CONTINUE ⟨some identifier⟩)).2.instrs
        = ctx.instrs)) :=
  ⟨fallback_statement ctx
      (set_eval (push_stat_ctx ctx stat_ctx) (.STAT_BREAK ⟨some identifier⟩)
        .break_statement_eval)
      stat_ctx (.STAT_BREAK ⟨some identifier⟩) _
      (by rw [compile_statement, compile_break_statement_labelled])
      ⟨(push_stat_ctx_proj ctx stat_ctx).1, (push_stat_ctx_proj ctx stat_ctx).2.1,
       (push_stat_ctx_proj ctx stat_ctx).2.2.1⟩,
   fallback_statement ctx
      (set_eval (push_stat_ctx ctx stat_ctx) (.STAT_CONTINUE ⟨some identifier⟩)
        .continue_statement_eval)
      stat_ctx (.STAT_CONTINUE ⟨some identifier⟩) _
      (by rw [compile_statement, compile_continue_statement_labelled])
      ⟨(push_stat_ctx_proj ctx stat_ctx).1, (push_stat_ctx_proj ctx stat_ctx).2.1,
       (push_stat_ctx_proj ctx stat_ctx).2.2.1⟩⟩

/-- The statements `break l;` and `continue l;` inside a loop frame: one `OP_tree` each from the
empty context, nothing and `E_NOTIMPL` when fallback is forbidden. -/
theorem labelled_branch_fallback_witness :
    ((compile_statement ctx_empty (some loop_frame_sample) (.STAT_BREAK ⟨some "l"⟩)).1 = S_OK ∧
     ((compile_statement ctx_empty (some loop_frame_sample) (.STAT_BREAK ⟨some "l"⟩)).2.instrs
        0).op = OP_tree) ∧
    ((compile_statement ctx_strict (some loop_frame_sample) (.STAT_CONTINUE ⟨some "l"⟩)).1
        = E_NOTIMPL ∧
     (compile_statement ctx_strict (some loop_frame_sample) (.STAT_CONTINUE ⟨some "l"⟩)).2.code_off
        = 0) :=
  ⟨⟨((labelled_branch_fallback ctx_empty (some loop_frame_sample) "l").1.1 rfl (by decide)).1,
    ((labelled_branch_fallback ctx_empty (some loop_frame_sample) "l").1.1 rfl
      (by decide)).2.2.1⟩,
   ⟨((labelled_branch_fallback ctx_strict (some loop_frame_sample) "l").2.2 rfl).1,
    ((labelled_branch_fallback ctx_strict (some loop_frame_sample) "l").2.2 rfl).2.1⟩⟩


/-! ## The routines at the point where a body signals `E_NOTIMPL` -/

theorem ite_none_some {α : Type} {c : Prop} [Decidable c] {X : Option α} {v : α}
    (h : (if c then none else X) = some v) : ¬ c ∧ X = some v := by
  by_cases hc : c
  · rw [if_pos hc] at h; exact absurd h (by simp)
  · rw [if_neg hc] at h; exact ⟨hc, h⟩

theorem push_instr_lt {a : Nat} (b : Nat) (c0 : compiler_ctx_t) {c : compiler_ctx_t}
    {op : jsop_t} (h : Rel a b c0 c)
    (hne : ¬ (push_instr c op).1 = UINT_MAX) : a < (push_instr c op).2.code_off := by
  rw [(push_instr_ok c op hne).2.1]
  exact Nat.lt_succ_of_le h.off_ge

theorem push_instr_hres_lt {a : Nat} (b : Nat) (c0 : compiler_ctx_t) {c : compiler_ctx_t}
    {op : jsop_t} (h : Rel a b c0 c) (hne : ¬ FAILED (push_instr_hres c op).1 = true) :
    a < (push_instr_hres c op).2.code_off := by
  unfold push_instr_hres at hne ⊢
  dsimp only at hne ⊢
  by_cases hp : (push_instr c op).1 = UINT_MAX
  · rw [if_pos hp] at hne
    exact absurd (show FAILED E_OUTOFMEMORY = true by decide) hne
  · exact push_instr_lt b c0 h hp

theorem push_instr_uint_lt {a : Nat} (b : Nat) (c0 : compiler_ctx_t) {c : compiler_ctx_t}
    {op : jsop_t} {v : Nat} (h : Rel a b c0 c) (hne : ¬ FAILED (push_instr_uint c op v).1 = true) :
    a < (push_instr_uint c op v).2.code_off := by
  unfold push_instr_uint at hne ⊢
  dsimp only at hne ⊢
  by_cases hp : (push_instr c op).1 = UINT_MAX
  · rw [if_pos hp] at hne
    exact absurd (show FAILED E_OUTOFMEMORY = true by decide) hne
  · rw [if_neg hp]
    exact push_instr_lt b c0 h hp

theorem with_fallback_facts {ctx cp : compiler_ctx_t} {sc : statement_ctx_t} {expr : expression_t} {statement : statement_t}
    (hp : with_body_entry ctx (.mk expr statement) = some (cp, sc))
    (hb : (compile_statement (set_no_fallback cp true) (some sc) statement).1 = E_NOTIMPL) :
    ∃ c1, Rel ctx.code_off ctx.labels_cnt ctx c1 ∧ (ctx.code_off < c1.code_off) ∧
      compile_with_statement ctx (.mk expr statement) =
        compile_interp_fallback (set_eval (set_code_off c1 ctx.code_off) (.STAT_WITH (.mk expr statement)) .with_statement_eval) (.STAT_WITH (.mk expr statement)) := by
  have h : Rel ctx.code_off ctx.labels_cnt ctx ctx := Rel.refl ctx
  have hS : ¬ FAILED S_OK = true := by decide
  unfold with_body_entry at hp
  try dsimp only at hp
  obtain ⟨h1, hp⟩ := ite_none_some hp
  obtain ⟨h2, hp⟩ := ite_none_some hp
  obtain ⟨e1, e2⟩ := Prod.mk.inj (Option.some.inj hp)
  have hcp : Rel ctx.code_off ctx.labels_cnt ctx cp := by
    rw [← e1]
    repeat' (first
      | with_reducible (first
          | exact h
          | assumption
          | exact Rel.refl _
          | intro _
          | apply body_step (compile_statement_rel _)
          | apply Rel.ite
          | apply Rel.ite1
          | apply Rel.ite2
          | apply Rel.ite0
          | apply set_arg1_rel
          | apply set_arg2_rel
          | apply push_instr_idx_ge
          | apply push_instr_rel
          | apply push_instr_hres_rel
          | apply push_instr_int_rel
          | apply push_instr_uint_rel
          | apply push_instr_str_rel
          | apply push_instr_bstr_rel
          | apply push_instr_bstr_uint_rel
          | apply push_instr_uint_str_rel
          | apply push_instr_double_rel
          | apply heap_alloc_rel
          | apply compiler_alloc_string_rel
          | apply compiler_alloc_bstr_rel
          | apply compile_expression_rel
          | apply compile_expression_noret_rel
          | apply compile_memberid_expression_rel
          | apply set_eval_rel
          | apply compile_interp_fallback_rel
          | apply alloc_label_rel
          | apply label_set_addr_rel
          | apply Rel.rollback
          | apply compile_variable_list_rel
          | apply pop_to_stat_rel)
      | split)
  have hlt : ctx.code_off < cp.code_off := by
    rw [← e1]
    with_reducible first
      | apply push_instr_hres_lt ctx.labels_cnt ctx
      | apply push_instr_uint_lt ctx.labels_cnt ctx
      | apply push_instr_lt ctx.labels_cnt ctx
    all_goals repeat' (first
      | with_reducible (first
          | exact h
          | assumption
          | exact Rel.refl _
          | intro _
          | apply body_step (compile_statement_rel _)
          | apply Rel.ite
          | apply Rel.ite1
          | apply Rel.ite2
          | apply Rel.ite0
          | apply set_arg1_rel
          | apply set_arg2_rel
          | apply push_instr_idx_ge
          | apply push_instr_rel
          | apply push_instr_hres_rel
          | apply push_instr_int_rel
          | apply push_instr_uint_rel
          | apply push_instr_str_rel
          | apply push_instr_bstr_rel
          | apply push_instr_bstr_uint_rel
          | apply push_instr_uint_str_rel
          | apply push_instr_double_rel
          | apply heap_alloc_rel
          | apply compiler_alloc_string_rel
          | apply compiler_alloc_bstr_rel
          | apply compile_expression_rel
          | apply compile_expression_noret_rel
          | apply compile_memberid_expression_rel
          | apply set_eval_rel
          | apply compile_interp_fallback_rel
          | apply alloc_label_rel
          | apply label_set_addr_rel
          | apply Rel.rollback
          | apply compile_variable_list_rel
          | apply pop_to_stat_rel)
      | split)
  have hbo : cp.code_off ≤
      (compile_statement (set_no_fallback cp true) (some sc) statement).2.code_off :=
    (compile_statement_rel statement (some sc) (Rel.refl (set_no_fallback cp true))).off_ge
  refine ⟨set_no_fallback (compile_statement (set_no_fallback cp true) (some sc) statement).2
    cp.no_fallback, body_step (compile_statement_rel statement) hcp hcp, lt_of_lt_of_le hlt hbo, ?_⟩
  subst e1 e2
  rw [compile_with_statement_unfold]
  simp only [h1, h2, hb, hS, ↓reduceIte, Bool.not_true, Bool.not_false, Bool.false_eq_true, if_true, if_false]

theorem while_fallback_facts {ctx cp : compiler_ctx_t} {sc : statement_ctx_t} {expr : expression_t} {statement : statement_t}
    (hp : while_body_entry ctx (.mk false expr statement) = some (cp, sc))
    (hb : (compile_statement (set_no_fallback cp true) (some sc) statement).1 = E_NOTIMPL) :
    ∃ c1, Rel ctx.code_off ctx.labels_cnt ctx c1 ∧ (ctx.code_off < c1.code_off) ∧
      compile_while_statement ctx (.mk false expr statement) =
        compile_interp_fallback (set_eval (set_code_off c1 ctx.code_off) (.STAT_WHILE (.mk false expr statement)) .while_statement_eval) (.STAT_WHILE (.mk false expr statement)) := by
  have h : Rel ctx.code_off ctx.labels_cnt ctx ctx := Rel.refl ctx
  have hS : ¬ FAILED S_OK = true := by decide
  unfold while_body_entry at hp
  simp only [↓reduceIte, Bool.not_true, Bool.not_false, Bool.false_eq_true, if_true, if_false] at hp
  try dsimp only at hp
  obtain ⟨h1, hp⟩ := ite_none_some hp
  obtain ⟨h2, hp⟩ := ite_none_some hp
  obtain ⟨h3, hp⟩ := ite_none_some hp
  obtain ⟨h4, hp⟩ := ite_none_some hp
  obtain ⟨h5, hp⟩ := ite_none_some hp
  obtain ⟨h6, hp⟩ := ite_none_some hp
  obtain ⟨e1, e2⟩ := Prod.mk.inj (Option.some.inj hp)
  have hcp : Rel ctx.code_off ctx.labels_cnt ctx cp := by
    rw [← e1]
    repeat' (first
      | with_reducible (first
          | exact h
          | assumption
          | exact Rel.refl _
          | intro _
          | apply body_step (compile_statement_rel _)
          | apply Rel.ite
          | apply Rel.ite1
          | apply Rel.ite2
          | apply Rel.ite0
          | apply set_arg1_rel
          | apply set_arg2_rel
          | apply push_instr_idx_ge
          | apply push_instr_rel
          | apply push_instr_hres_rel
          | apply push_instr_int_rel
          | apply push_instr_uint_rel
          | apply push_instr_str_rel
          | apply push_instr_bstr_rel
          | apply push_instr_bstr_uint_rel
          | apply push_instr_uint_str_rel
          | apply push_instr_double_rel
          | apply heap_alloc_rel
          | apply compiler_alloc_string_rel
          | apply compiler_alloc_bstr_rel
          | apply compile_expression_rel
          | apply compile_expression_noret_rel
          | apply compile_memberid_expression_rel
          | apply set_eval_rel
          | apply compile_interp_fallback_rel
          | apply alloc_label_rel
          | apply label_set_addr_rel
          | apply Rel.rollback
          | apply compile_variable_list_rel
          | apply pop_to_stat_rel)
      | split)
  have hlt : ctx.code_off < cp.code_off := by
    rw [← e1]
    with_reducible first
      | apply push_instr_hres_lt ctx.labels_cnt ctx
      | apply push_instr_uint_lt ctx.labels_cnt ctx
      | apply push_instr_lt ctx.labels_cnt ctx
    all_goals repeat' (first
      | with_reducible (first
          | exact h
          | assumption
          | exact Rel.refl _
          | intro _
          | apply body_step (compile_statement_rel _)
          | apply Rel.ite
          | apply Rel.ite1
          | apply Rel.ite2
          | apply Rel.ite0
          | apply set_arg1_rel
          | apply set_arg2_rel
          | apply push_instr_idx_ge
          | apply push_instr_rel
          | apply push_instr_hres_rel
          | apply push_instr_int_rel
          | apply push_instr_uint_rel
          | apply push_instr_str_rel
          | apply push_instr_bstr_rel
          | apply push_instr_bstr_uint_rel
          | apply push_instr_uint_str_rel
          | apply push_instr_double_rel
          | apply heap_alloc_rel
          | apply compiler_alloc_string_rel
          | apply compiler_alloc_bstr_rel
          | apply compile_expression_rel
          | apply compile_expression_noret_rel
          | apply compile_memberid_expression_rel
          | apply set_eval_rel
          | apply compile_interp_fallback_rel
          | apply alloc_label_rel
          | apply label_set_addr_rel
          | apply Rel.rollback
          | apply compile_variable_list_rel
          | apply pop_to_stat_rel)
      | split)
  have hbo : cp.code_off ≤
      (compile_statement (set_no_fallback cp true) (some sc) statement).2.code_off :=
    (compile_statement_rel statement (some sc) (Rel.refl (set_no_fallback cp true))).off_ge
  refine ⟨set_no_fallback (compile_statement (set_no_fallback cp true) (some sc) statement).2
    cp.no_fallback, body_step (compile_statement_rel statement) hcp hcp, lt_of_lt_of_le hlt hbo, ?_⟩
  subst e1 e2
  rw [compile_while_statement_unfold]
  simp only [h1, h2, h3, h4, h5, h6, hb, hS, ↓reduceIte, Bool.not_true, Bool.not_false, Bool.false_eq_true, if_true, if_false]

theorem do_while_fallback_facts {ctx cp : compiler_ctx_t} {sc : statement_ctx_t} {expr : expression_t} {statement : statement_t}
    (hp : while_body_entry ctx (.mk true expr statement) = some (cp, sc))
    (hb : (compile_statement (set_no_fallback cp true) (some sc) statement).1 = E_NOTIMPL) :
    ∃ c1, Rel ctx.code_off ctx.labels_cnt ctx c1 ∧ (true = false → ctx.code_off < c1.code_off) ∧
      compile_while_statement ctx (.mk true expr statement) =
        compile_interp_fallback (set_eval (set_code_off c1 ctx.code_off) (.STAT_WHILE (.mk true expr statement)) .while_statement_eval) (.STAT_WHILE (.mk true expr statement)) := by
  have h : Rel ctx.code_off ctx.labels_cnt ctx ctx := Rel.refl ctx
  have hS : ¬ FAILED S_OK = true := by decide
  unfold while_body_entry at hp
  simp only [↓reduceIte, Bool.not_true, Bool.not_false, Bool.false_eq_true, if_true, if_false] at hp
  try dsimp only at hp
  obtain ⟨h1, hp⟩ := ite_none_some hp
  obtain ⟨h2, hp⟩ := ite_none_some hp
  obtain ⟨e1, e2⟩ := Prod.mk.inj (Option.some.inj hp)
  have hcp : Rel ctx.code_off ctx.labels_cnt ctx cp := by
    rw [← e1]
    repeat' (first
      | with_reducible (first
          | exact h
          | assumption
          | exact Rel.refl _
          | intro _
          | apply body_step (compile_statement_rel _)
          | apply Rel.ite
          | apply Rel.ite1
          | apply Rel.ite2
          | apply Rel.ite0
          | apply set_arg1_rel
          | apply set_arg2_rel
          | apply push_instr_idx_ge
          | apply push_instr_rel
          | apply push_instr_hres_rel
          | apply push_instr_int_rel
          | apply push_instr_uint_rel
          | apply push_instr_str_rel
          | apply push_instr_bstr_rel
          | apply push_instr_bstr_uint_rel
          | apply push_instr_uint_str_rel
          | apply push_instr_double_rel
          | apply heap_alloc_rel
          | apply compiler_alloc_string_rel
          | apply compiler_alloc_bstr_rel
          | apply compile_expression_rel
          | apply compile_expression_noret_rel
          | apply compile_memberid_expression_rel
          | apply set_eval_rel
          | apply compile_interp_fallback_rel
          | apply alloc_label_rel
          | apply label_set_addr_rel
          | apply Rel.rollback
          | apply compile_variable_list_rel
          | apply pop_to_stat_rel)
      | split)
  have hbo : cp.code_off ≤
      (compile_statement (set_no_fallback cp true) (some sc) statement).2.code_off :=
    (compile_statement_rel statement (some sc) (Rel.refl (set_no_fallback cp true))).off_ge
  refine ⟨set_no_fallback (compile_statement (set_no_fallback cp true) (some sc) statement).2
    cp.no_fallback, body_step (compile_statement_rel statement) hcp hcp, fun hd => absurd hd (by decide), ?_⟩
  subst e1 e2
  rw [compile_while_statement_unfold]
  simp only [h1, h2, hb, hS, ↓reduceIte, Bool.not_true, Bool.not_false, Bool.false_eq_true, if_true, if_false]

theorem for_fallback_facts {ctx cp : compiler_ctx_t} {sc : statement_ctx_t} {variable_list : variable_declaration_t} {begin_expr expr end_expr : Option expression_t} {statement : statement_t}
    (hp : for_body_entry ctx (.mk variable_list begin_expr expr end_expr statement) = some (cp, sc))
    (hb : (compile_statement (set_no_fallback cp true) (some sc) statement).1 = E_NOTIMPL) :
    ∃ c1, Rel ctx.code_off ctx.labels_cnt ctx c1 ∧ (ctx.code_off < c1.code_off) ∧
      compile_for_statement ctx (.mk variable_list begin_expr expr end_expr statement) =
        compile_interp_fallback (set_eval (set_code_off c1 ctx.code_off) (.STAT_FOR (.mk variable_list begin_expr expr end_expr statement)) .for_statement_eval) (.STAT_FOR (.mk variable_list begin_expr expr end_expr statement)) := by
  cases variable_list <;> cases begin_expr <;> cases expr
  all_goals (
    have h : Rel ctx.code_off ctx.labels_cnt ctx ctx := Rel.refl ctx
    have hS : ¬ FAILED S_OK = true := by decide
    unfold for_body_entry at hp
    try dsimp only at hp
    obtain ⟨h1, hp⟩ := ite_none_some hp
    obtain ⟨h2, hp⟩ := ite_none_some hp
    obtain ⟨h3, hp⟩ := ite_none_some hp
    obtain ⟨h4, hp⟩ := ite_none_some hp
    obtain ⟨h5, hp⟩ := ite_none_some hp
    obtain ⟨h6, hp⟩ := ite_none_some hp
    obtain ⟨e1, e2⟩ := Prod.mk.inj (Option.some.inj hp)
    have hcp : Rel ctx.code_off ctx.labels_cnt ctx cp := by
      rw [← e1]
      repeat' (first
        | with_reducible (first
            | exact h
            | assumption
            | exact Rel.refl _
            | intro _
            | apply body_step (compile_statement_rel _)
            | apply Rel.ite
            | apply Rel.ite1
            | apply Rel.ite2
            | apply Rel.ite0
            | apply set_arg1_rel
            | apply set_arg2_rel
            | apply push_instr_idx_ge
            | apply push_instr_rel
            | apply push_instr_hres_rel
            | apply push_instr_int_rel
            | apply push_instr_uint_rel
            | apply push_instr_str_rel
            | apply push_instr_bstr_rel
            | apply push_instr_bstr_uint_rel
            | apply push_instr_uint_str_rel
            | apply push_instr_double_rel
            | apply heap_alloc_rel
            | apply compiler_alloc_string_rel
            | apply compiler_alloc_bstr_rel
            | apply compile_expression_rel
            | apply compile_expression_noret_rel
            | apply compile_memberid_expression_rel
            | apply set_eval_rel
            | apply compile_interp_fallback_rel
            | apply alloc_label_rel
            | apply label_set_addr_rel
            | apply Rel.rollback
            | apply compile_variable_list_rel
            | apply pop_to_stat_rel)
        | split)
    have hlt : ctx.code_off < cp.code_off := by
      rw [← e1]
      with_reducible first
        | apply push_instr_hres_lt ctx.labels_cnt ctx
        | apply push_instr_uint_lt ctx.labels_cnt ctx
        | apply push_instr_lt ctx.labels_cnt ctx
      all_goals repeat' (first
        | with_reducible (first
            | exact h
            | assumption
            | exact Rel.refl _
            | intro _
            | apply body_step (compile_statement_rel _)
            | apply Rel.ite
            | apply Rel.ite1
            | apply Rel.ite2
            | apply Rel.ite0
            | apply set_arg1_rel
            | apply set_arg2_rel
            | apply push_instr_idx_ge
            | apply push_instr_rel
            | apply push_instr_hres_rel
            | apply push_instr_int_rel
            | apply push_instr_uint_rel
            | apply push_instr_str_rel
            | apply push_instr_bstr_rel
            | apply push_instr_bstr_uint_rel
            | apply push_instr_uint_str_rel
            | apply push_instr_double_rel
            | apply heap_alloc_rel
            | apply compiler_alloc_string_rel
            | apply compiler_alloc_bstr_rel
            | apply compile_expression_rel
            | apply compile_expression_noret_rel
            | apply compile_memberid_expression_rel
            | apply set_eval_rel
            | apply compile_interp_fallback_rel
            | apply alloc_label_rel
            | apply label_set_addr_rel
            | apply Rel.rollback
            | apply compile_variable_list_rel
            | apply pop_to_stat_rel)
        | split)
    have hbo : cp.code_off ≤
        (compile_statement (set_no_fallback cp true) (some sc) statement).2.code_off :=
      (compile_statement_rel statement (some sc) (Rel.refl (set_no_fallback cp true))).off_ge
    refine ⟨set_no_fallback (compile_statement (set_no_fallback cp true) (some sc) statement).2
      cp.no_fallback, body_step (compile_statement_rel statement) hcp hcp, lt_of_lt_of_le hlt hbo, ?_⟩
    subst e1 e2
    rw [compile_for_statement_unfold]
    simp only [h1, h2, h3, h4, h5, h6, hb, hS, ↓reduceIte, Bool.not_true, Bool.not_false, Bool.false_eq_true, if_true, if_false])

theorem forin_fallback_facts {ctx cp : compiler_ctx_t} {sc : statement_ctx_t} {variable_ : variable_declaration_t} {expr in_expr : expression_t} {statement : statement_t}
    (hp : forin_body_entry ctx (.mk variable_ expr in_expr statement) = some (cp, sc))
    (hb : (compile_statement (set_no_fallback cp true) (some sc) statement).1 = E_NOTIMPL) :
    ∃ c1, Rel ctx.code_off ctx.labels_cnt ctx c1 ∧ (ctx.code_off < c1.code_off) ∧
      compile_forin_statement ctx (.mk variable_ expr in_expr statement) =
        compile_interp_fallback (set_eval (set_code_off c1 ctx.code_off) (.STAT_FORIN (.mk variable_ expr in_expr statement)) .forin_statement_eval) (.STAT_FORIN (.mk variable_ expr in_expr statement)) := by
  cases variable_
  all_goals (
    have h : Rel ctx.code_off ctx.labels_cnt ctx ctx := Rel.refl ctx
    have hS : ¬ FAILED S_OK = true := by decide
    unfold forin_body_entry at hp
    try dsimp only at hp
    obtain ⟨h1, hp⟩ := ite_none_some hp
    obtain ⟨h2, hp⟩ := ite_none_some hp
    obtain ⟨h3, hp⟩ := ite_none_some hp
    obtain ⟨h4, hp⟩ := ite_none_some hp
    obtain ⟨h5, hp⟩ := ite_none_some hp
    obtain ⟨h6, hp⟩ := ite_none_some hp
    obtain ⟨h7, hp⟩ := ite_none_some hp
    obtain ⟨h8, hp⟩ := ite_none_some hp
    obtain ⟨h9, hp⟩ := ite_none_some hp
    obtain ⟨e1, e2⟩ := Prod.mk.inj (Option.some.inj hp)
    have hcp : Rel ctx.code_off ctx.labels_cnt ctx cp := by
      rw [← e1]
      repeat' (first
        | with_reducible (first
            | exact h
            | assumption
            | exact Rel.refl _
            | intro _
            | apply body_step (compile_statement_rel _)
            | apply Rel.ite
            | apply Rel.ite1
            | apply Rel.ite2
            | apply Rel.ite0
            | apply set_arg1_rel
            | apply set_arg2_rel
            | apply push_instr_idx_ge
            | apply push_instr_rel
            | apply push_instr_hres_rel
            | apply push_instr_int_rel
            | apply push_instr_uint_rel
            | apply push_instr_str_rel
            | apply push_instr_bstr_rel
            | apply push_instr_bstr_uint_rel
            | apply push_instr_uint_str_rel
            | apply push_instr_double_rel
            | apply heap_alloc_rel
            | apply compiler_alloc_string_rel
            | apply compiler_alloc_bstr_rel
            | apply compile_expression_rel
            | apply compile_expression_noret_rel
            | apply compile_memberid_expression_rel
            | apply set_eval_rel
            | apply compile_interp_fallback_rel
            | apply alloc_label_rel
            | apply label_set_addr_rel
            | apply Rel.rollback
            | apply compile_variable_list_rel
            | apply pop_to_stat_rel)
        | split)
    have hlt : ctx.code_off < cp.code_off := by
      rw [← e1]
      with_reducible first
        | apply push_instr_hres_lt ctx.labels_cnt ctx
        | apply push_instr_uint_lt ctx.labels_cnt ctx
        | apply push_instr_lt ctx.labels_cnt ctx
      all_goals repeat' (first
        | with_reducible (first
            | exact h
            | assumption
            | exact Rel.refl _
            | intro _
            | apply body_step (compile_statement_rel _)
            | apply Rel.ite
            | apply Rel.ite1
            | apply Rel.ite2
            | apply Rel.ite0
            | apply set_arg1_rel
            | apply set_arg2_rel
            | apply push_instr_idx_ge
            | apply push_instr_rel
            | apply push_instr_hres_rel
            | apply push_instr_int_rel
            | apply push_instr_uint_rel
            | apply push_instr_str_rel
            | apply push_instr_bstr_rel
            | apply push_instr_bstr_uint_rel
            | apply push_instr_uint_str_rel
            | apply push_instr_double_rel
            | apply heap_alloc_rel
            | apply compiler_alloc_string_rel
            | apply compiler_alloc_bstr_rel
            | apply compile_expression_rel
            | apply compile_expression_noret_rel
            | apply compile_memberid_expression_rel
            | apply set_eval_rel
            | apply compile_interp_fallback_rel
            | apply alloc_label_rel
            | apply label_set_addr_rel
            | apply Rel.rollback
            | apply compile_variable_list_rel
            | apply pop_to_stat_rel)
        | split)
    have hbo : cp.code_off ≤
        (compile_statement (set_no_fallback cp true) (some sc) statement).2.code_off :=
      (compile_statement_rel statement (some sc) (Rel.refl (set_no_fallback cp true))).off_ge
    refine ⟨set_no_fallback (compile_statement (set_no_fallback cp true) (some sc) statement).2
      cp.no_fallback, body_step (compile_statement_rel statement) hcp hcp, lt_of_lt_of_le hlt hbo, ?_⟩
    subst e1 e2
    rw [compile_forin_statement_unfold]
    simp only [h1, h2, h3, h4, h5, h6, h7, h8, h9, hb, hS, ↓reduceIte, Bool.not_true, Bool.not_false, Bool.false_eq_true, if_true, if_false])

theorem try_fallback_facts {ctx cp : compiler_ctx_t} {sc : statement_ctx_t} {try_statement : statement_t} {catch_block : catch_block_t} {finally_statement : statement_list}
    (hp : try_body_entry ctx (.mk try_statement catch_block finally_statement) = some (cp, sc))
    (hb : (compile_statement (set_no_fallback cp true) (some sc) try_statement).1 = E_NOTIMPL) :
    ∃ c1, Rel ctx.code_off ctx.labels_cnt ctx c1 ∧ (ctx.code_off < c1.code_off) ∧
      compile_try_statement ctx (.mk try_statement catch_block finally_statement) =
        compile_interp_fallback (set_eval (set_code_off c1 ctx.code_off) (.STAT_TRY (.mk try_statement catch_block finally_statement)) .try_statement_eval) (.STAT_TRY (.mk try_statement catch_block finally_statement)) := by
  cases catch_block
  all_goals (
    have h : Rel ctx.code_off ctx.labels_cnt ctx ctx := Rel.refl ctx
    have hS : ¬ FAILED S_OK = true := by decide
    unfold try_body_entry at hp
    try dsimp only at hp
    obtain ⟨h1, hp⟩ := ite_none_some hp
    obtain ⟨h2, hp⟩ := ite_none_some hp
    obtain ⟨e1, e2⟩ := Prod.mk.inj (Option.some.inj hp)
    have hcp : Rel ctx.code_off ctx.labels_cnt ctx cp := by
      rw [← e1]
      repeat' (first
        | with_reducible (first
            | exact h
            | assumption
            | exact Rel.refl _
            | intro _
            | apply body_step (compile_statement_rel _)
            | apply Rel.ite
            | apply Rel.ite1
            | apply Rel.ite2
            | apply Rel.ite0
            | apply set_arg1_rel
            | apply set_arg2_rel
            | apply push_instr_idx_ge
            | apply push_instr_rel
            | apply push_instr_hres_rel
            | apply push_instr_int_rel
            | apply push_instr_uint_rel
            | apply push_instr_str_rel
            | apply push_instr_bstr_rel
            | apply push_instr_bstr_uint_rel
            | apply push_instr_uint_str_rel
            | apply push_instr_double_rel
            | apply heap_alloc_rel
            | apply compiler_alloc_string_rel
            | apply compiler_alloc_bstr_rel
            | apply compile_expression_rel
            | apply compile_expression_noret_rel
            | apply compile_memberid_expression_rel
            | apply set_eval_rel
            | apply compile_interp_fallback_rel
            | apply alloc_label_rel
            | apply label_set_addr_rel
            | apply Rel.rollback
            | apply compile_variable_list_rel
            | apply pop_to_stat_rel)
        | split)
    have hlt : ctx.code_off < cp.code_off := by
      rw [← e1]
      first
        | exact push_instr_lt ctx.labels_cnt ctx h h1
        | (show ctx.code_off < (compiler_alloc_bstr _ _).2.code_off
           rw [(compiler_alloc_bstr_proj _ _).2.1]
           exact push_instr_lt ctx.labels_cnt ctx h h1)
    have hbo : cp.code_off ≤
        (compile_statement (set_no_fallback cp true) (some sc) try_statement).2.code_off :=
      (compile_statement_rel try_statement (some sc) (Rel.refl (set_no_fallback cp true))).off_ge
    refine ⟨set_no_fallback (compile_statement (set_no_fallback cp true) (some sc) try_statement).2
      ctx.no_fallback, body_step (compile_statement_rel try_statement) hcp h, lt_of_lt_of_le hlt hbo, ?_⟩
    subst e1 e2
    rw [compile_try_statement_unfold]
    simp only [h1, h2, hb, hS, ↓reduceIte, Bool.not_true, Bool.not_false, Bool.false_eq_true, if_true, if_false])

theorem catch_fallback_facts {ctx cp : compiler_ctx_t} {sc : statement_ctx_t} {try_statement cstat : statement_t} {identifier : String} {finally_statement : statement_list}
    (hp : catch_body_entry ctx (.mk try_statement (.mk identifier cstat) finally_statement) = some (cp, sc))
    (hb : (compile_statement (set_no_fallback cp true) (some sc) cstat).1 = E_NOTIMPL) :
    ∃ c1, Rel ctx.code_off ctx.labels_cnt ctx c1 ∧ (ctx.code_off < c1.code_off) ∧
      compile_try_statement ctx (.mk try_statement (.mk identifier cstat) finally_statement) =
        compile_interp_fallback (set_eval (set_code_off c1 ctx.code_off) (.STAT_TRY (.mk try_statement (.mk identifier cstat) finally_statement)) .try_statement_eval) (.STAT_TRY (.mk try_statement (.mk identifier cstat) finally_statement)) := by
  have h : Rel ctx.code_off ctx.labels_cnt ctx ctx := Rel.refl ctx
  have hS : ¬ FAILED S_OK = true := by decide
  unfold catch_body_entry at hp
  try dsimp only at hp
  obtain ⟨h1, hp⟩ := ite_none_some hp
  obtain ⟨h2, hp⟩ := ite_none_some hp
  obtain ⟨h3, hp⟩ := ite_none_some hp
  obtain ⟨h4, hp⟩ := ite_none_some hp
  obtain ⟨h5, hp⟩ := ite_none_some hp
  obtain ⟨h6, hp⟩ := ite_none_some hp
  obtain ⟨e1, e2⟩ := Prod.mk.inj (Option.some.inj hp)
  have hcp : Rel ctx.code_off ctx.labels_cnt ctx cp := by
    rw [← e1]
    repeat' (first
      | with_reducible (first
          | exact h
          | assumption
          | exact Rel.refl _
          | intro _
          | apply body_step (compile_statement_rel _)
          | apply Rel.ite
          | apply Rel.ite1
          | apply Rel.ite2
          | apply Rel.ite0
          | apply set_arg1_rel
          | apply set_arg2_rel
          | apply push_instr_idx_ge
          | apply push_instr_rel
          | apply push_instr_hres_rel
          | apply push_instr_int_rel
          | apply push_instr_uint_rel
          | apply push_instr_str_rel
          | apply push_instr_bstr_rel
          | apply push_instr_bstr_uint_rel
          | apply push_instr_uint_str_rel
          | apply push_instr_double_rel
          | apply heap_alloc_rel
          | apply compiler_alloc_string_rel
          | apply compiler_alloc_bstr_rel
          | apply compile_expression_rel
          | apply compile_expression_noret_rel
          | apply compile_memberid_expression_rel
          | apply set_eval_rel
          | apply compile_interp_fallback_rel
          | apply alloc_label_rel
          | apply label_set_addr_rel
          | apply Rel.rollback
          | apply compile_variable_list_rel
          | apply pop_to_stat_rel)
      | split)
  have hlt : ctx.code_off < cp.code_off := by
    rw [← e1]
    show ctx.code_off < (push_instr _ OP_jmp).2.code_off
    apply push_instr_lt ctx.labels_cnt ctx
    all_goals repeat' (first
      | with_reducible (first
          | exact h
          | assumption
          | exact Rel.refl _
          | intro _
          | apply body_step (compile_statement_rel _)
          | apply Rel.ite
          | apply Rel.ite1
          | apply Rel.ite2
          | apply Rel.ite0
          | apply set_arg1_rel
          | apply set_arg2_rel
          | apply push_instr_idx_ge
          | apply push_instr_rel
          | apply push_instr_hres_rel
          | apply push_instr_int_rel
          | apply push_instr_uint_rel
          | apply push_instr_str_rel
          | apply push_instr_bstr_rel
          | apply push_instr_bstr_uint_rel
          | apply push_instr_uint_str_rel
          | apply push_instr_double_rel
          | apply heap_alloc_rel
          | apply compiler_alloc_string_rel
          | apply compiler_alloc_bstr_rel
          | apply compile_expression_rel
          | apply compile_expression_noret_rel
          | apply compile_memberid_expression_rel
          | apply set_eval_rel
          | apply compile_interp_fallback_rel
          | apply alloc_label_rel
          | apply label_set_addr_rel
          | apply Rel.rollback
          | apply compile_variable_list_rel
          | apply pop_to_stat_rel)
      | split)
  have hbo : cp.code_off ≤
      (compile_statement (set_no_fallback cp true) (some sc) cstat).2.code_off :=
    (compile_statement_rel cstat (some sc) (Rel.refl (set_no_fallback cp true))).off_ge
  refine ⟨set_no_fallback (compile_statement (set_no_fallback cp true) (some sc) cstat).2
    ctx.no_fallback, body_step (compile_statement_rel cstat) hcp h, lt_of_lt_of_le hlt hbo, ?_⟩
  subst e1 e2
  rw [compile_try_statement_unfold]
  simp only [h1, h2, h3, h4, h5, h6, hb, hS, ↓reduceIte, Bool.not_true, Bool.not_false, Bool.false_eq_true, if_true, if_false]

theorem finally_fallback_facts {ctx cp : compiler_ctx_t} {sc : Option statement_ctx_t} {try_statement fstat : statement_t} {catch_block : catch_block_t} {addr : Nat} {fnext : statement_list}
    (hp : finally_body_entry ctx (.mk try_statement catch_block (.node addr fstat fnext)) = some (cp, sc))
    (hb : (compile_statement (set_no_fallback cp true) sc fstat).1 = E_NOTIMPL) :
    ∃ c1, Rel ctx.code_off ctx.labels_cnt ctx c1 ∧ (ctx.code_off < c1.code_off) ∧
      compile_try_statement ctx (.mk try_statement catch_block (.node addr fstat fnext)) =
        compile_interp_fallback (set_eval (set_code_off c1 ctx.code_off) (.STAT_TRY (.mk try_statement catch_block (.node addr fstat fnext))) .try_statement_eval) (.STAT_TRY (.mk try_statement catch_block (.node addr fstat fnext))) := by
  cases catch_block
  all_goals (
    have h : Rel ctx.code_off ctx.labels_cnt ctx ctx := Rel.refl ctx
    have hS : ¬ FAILED S_OK = true := by decide
    unfold finally_body_entry at hp
    try dsimp only at hp
    obtain ⟨h1, hp⟩ := ite_none_some hp
    obtain ⟨h2, hp⟩ := ite_none_some hp
    obtain ⟨h3, hp⟩ := ite_none_some hp
    obtain ⟨h4, hp⟩ := ite_none_some hp
    obtain ⟨h5, hp⟩ := ite_none_some hp
    obtain ⟨h6, hp⟩ := ite_none_some hp
    obtain ⟨h7, hp⟩ := ite_none_some hp
    obtain ⟨e1, e2⟩ := Prod.mk.inj (Option.some.inj hp)
    have hcp : Rel ctx.code_off ctx.labels_cnt ctx cp := by
      rw [← e1]
      repeat' (first
        | with_reducible (first
            | exact h
            | assumption
            | exact Rel.refl _
            | intro _
            | apply body_step (compile_statement_rel _)
            | apply Rel.ite
            | apply Rel.ite1
            | apply Rel.ite2
            | apply Rel.ite0
            | apply set_arg1_rel
            | apply set_arg2_rel
            | apply push_instr_idx_ge
            | apply push_instr_rel
            | apply push_instr_hres_rel
            | apply push_instr_int_rel
            | apply push_instr_uint_rel
            | apply push_instr_str_rel
            | apply push_instr_bstr_rel
            | apply push_instr_bstr_uint_rel
            | apply push_instr_uint_str_rel
            | apply push_instr_double_rel
            | apply heap_alloc_rel
            | apply compiler_alloc_string_rel
            | apply compiler_alloc_bstr_rel
            | apply compile_expression_rel
            | apply compile_expression_noret_rel
            | apply compile_memberid_expression_rel
            | apply set_eval_rel
            | apply compile_interp_fallback_rel
            | apply alloc_label_rel
            | apply label_set_addr_rel
            | apply Rel.rollback
            | apply compile_variable_list_rel
            | apply pop_to_stat_rel)
        | split)
    have hlt : ctx.code_off < cp.code_off := by
      rw [← e1]
      with_reducible first
        | apply push_instr_hres_lt ctx.labels_cnt ctx
        | apply push_instr_uint_lt ctx.labels_cnt ctx
        | apply push_instr_lt ctx.labels_cnt ctx
      all_goals repeat' (first
        | with_reducible (first
            | exact h
            | assumption
            | exact Rel.refl _
            | intro _
            | apply body_step (compile_statement_rel _)
            | apply Rel.ite
            | apply Rel.ite1
            | apply Rel.ite2
            | apply Rel.ite0
            | apply set_arg1_rel
            | apply set_arg2_rel
            | apply push_instr_idx_ge
            | apply push_instr_rel
            | apply push_instr_hres_rel
            | apply push_instr_int_rel
            | apply push_instr_uint_rel
            | apply push_instr_str_rel
            | apply push_instr_bstr_rel
            | apply push_instr_bstr_uint_rel
            | apply push_instr_uint_str_rel
            | apply push_instr_double_rel
            | apply heap_alloc_rel
            | apply compiler_alloc_string_rel
            | apply compiler_alloc_bstr_rel
            | apply compile_expression_rel
            | apply compile_expression_noret_rel
            | apply compile_memberid_expression_rel
            | apply set_eval_rel
            | apply compile_interp_fallback_rel
            | apply alloc_label_rel
            | apply label_set_addr_rel
            | apply Rel.rollback
            | apply compile_variable_list_rel
            | apply pop_to_stat_rel)
        | split)
    have hbo : cp.code_off ≤
        (compile_statement (set_no_fallback cp true) sc fstat).2.code_off :=
      (compile_statement_rel fstat sc (Rel.refl (set_no_fallback cp true))).off_ge
    refine ⟨set_no_fallback (compile_statement (set_no_fallback cp true) sc fstat).2
      ctx.no_fallback, body_step (compile_statement_rel fstat) hcp h, lt_of_lt_of_le hlt hbo, ?_⟩
    subst e1 e2
    rw [compile_try_statement_unfold]
    simp only [h1, h2, h3, h4, h5, h6, h7, hb, hS, ↓reduceIte, Bool.not_true, Bool.not_false, Bool.false_eq_true, if_true, if_false])


theorem compile_case_statements_returned {a b off : Nat} {c0 : compiler_ctx_t}
    (sc : statement_ctx_t) (stat : statement_t) (next : case_clausule_t) :
    ∀ (l : statement_list) {c : compiler_ctx_t} (hres : HRESULT), Rel a b c0 c →
      (compile_case_statements c sc off stat next hres l).2.2 = true →
      ∃ c1, Rel a b c0 c1 ∧ c.code_off ≤ c1.code_off ∧
        ((compile_case_statements c sc off stat next hres l).1,
          (compile_case_statements c sc off stat next hres l).2.1) =
        compile_interp_fallback (set_eval (set_code_off c1 off) stat .switch_statement_eval) stat
  | .NULL, c, hres, _, hr => by
    rw [compile_case_statements] at hr
    exact absurd hr (by simp)
  | .node addr stat_iter stat_next, c, hres, h, hr => by
    revert hr
    rw [compile_case_statements_unfold]
    lift_lets
    intro prev_no_fallback hres1 ctx1 r pop
    have hb : Rel a b c0 ctx1 := body_step (compile_statement_rel stat_iter) h h
    have hbo : c.code_off ≤ ctx1.code_off :=
      (compile_statement_rel stat_iter (some sc) (Rel.refl (set_no_fallback c true))).off_ge
    have hp : Rel a b c0 pop.2 := by
      apply Rel.ite
      · intro _; exact push_instr_hres_rel _ hb
      · intro _; exact hb
    have hpo : ctx1.code_off ≤ pop.2.code_off := by
      have : Rel ctx1.code_off ctx1.labels_cnt ctx1 pop.2 := by
        apply Rel.ite
        · intro _; exact push_instr_hres_rel _ (Rel.refl _)
        · intro _; exact Rel.refl _
      exact this.off_ge
    split
    · intro hr; exact absurd hr (by simp)
    · split
      · intro _
        exact ⟨ctx1, hb, hbo, rfl⟩
      · split
        · intro hr; exact absurd hr (by simp)
        · split
          · intro hr; exact absurd hr (by simp)
          · intro hr
            obtain ⟨c1, r1, r2, r3⟩ :=
              compile_case_statements_returned sc stat next stat_next hres1.1 hp hr
            exact ⟨c1, r1, le_trans hbo (le_trans hpo r2), r3⟩

theorem compile_case_bodies_returned {a b off : Nat} {c0 : compiler_ctx_t}
    (sc : statement_ctx_t) (stat : statement_t) (case_jmps : Nat → Nat) (default_jmp : Nat) :
    ∀ (cl : case_clausule_t) {c : compiler_ctx_t} (i : Nat) (hres : HRESULT),
      (∀ j, j < i + case_count cl → a ≤ case_jmps j) → a ≤ default_jmp → Rel a b c0 c →
      (compile_case_bodies c sc off stat case_jmps default_jmp i hres cl).returned = true →
      ∃ c1, Rel a b c0 c1 ∧ c.code_off ≤ c1.code_off ∧
        ((compile_case_bodies c sc off stat case_jmps default_jmp i hres cl).hres,
          (compile_case_bodies c sc off stat case_jmps default_jmp i hres cl).ctx) =
        compile_interp_fallback (set_eval (set_code_off c1 off) stat .switch_statement_eval) stat
  | .NULL, c, i, hres, _, _, _, hr => by
    rw [compile_case_bodies] at hr
    exact absurd hr (by simp)
  | .mk expr iter_stat next, c, i, hres, hj, hd, h, hr => by
    revert hr
    rw [compile_case_bodies_unfold]
    lift_lets
    intro ctx1 i1 body
    have h1 : Rel a b c0 ctx1 := by
      apply set_arg1_rel _ h
      split
      · rename_i hs
        apply hj
        rw [case_count, if_pos hs]
        omega
      · exact hd
    have hj1 : ∀ j, j < i1 + case_count next → a ≤ case_jmps j := by
      intro j hjj
      apply hj
      rw [case_count]
      by_cases hs : expr.isSome = true
      · rw [if_pos hs]
        have : i1 = i + 1 := if_pos hs
        omega
      · rw [if_neg hs]
        have : i1 = i := if_neg hs
        omega
    split
    · intro hr
      exact compile_case_bodies_returned sc stat case_jmps default_jmp next i1 hres hj1 hd h1 hr
    · split
      · rename_i hret
        intro _
        exact compile_case_statements_returned sc stat next iter_stat hres h1 hret
      · rename_i hret
        have hb : Rel a b c0 body.2.1 :=
          compile_case_statements_rel iter_stat sc stat next hres h1 (Or.inl (by simpa using hret))
        have hbo : ctx1.code_off ≤ body.2.1.code_off :=
          (compile_case_statements_rel iter_stat sc stat next hres (Rel.refl ctx1)
            (Or.inl (by simpa using hret))).off_ge
        split
        · intro hr; exact absurd hr (by simp)
        · intro hr
          obtain ⟨c1, r1, r2, r3⟩ :=
            compile_case_bodies_returned sc stat case_jmps default_jmp next i1 body.1 hj1 hd hb hr
          exact ⟨c1, r1, le_trans hbo r2, r3⟩

theorem switch_jmp_lt {a b : Nat} {c0 : compiler_ctx_t} (v : case_loop_t)
    (h : Rel a b c0 v.ctx)
    (hs : ¬ FAILED
      (if SUCCEEDED v.hres = true then
        if (push_instr v.ctx OP_pop).1 ≠ UINT_MAX then
          ((if (push_instr (push_instr v.ctx OP_pop).2 OP_jmp).1 = UINT_MAX then E_OUTOFMEMORY
            else v.hres, (push_instr (push_instr v.ctx OP_pop).2 OP_jmp).2),
            (push_instr (push_instr v.ctx OP_pop).2 OP_jmp).1)
        else ((E_OUTOFMEMORY, (push_instr v.ctx OP_pop).2), 0)
      else ((v.hres, v.ctx), 0) : (HRESULT × compiler_ctx_t) × Nat).1.1 = true) :
    a < (if SUCCEEDED v.hres = true then
        if (push_instr v.ctx OP_pop).1 ≠ UINT_MAX then
          ((if (push_instr (push_instr v.ctx OP_pop).2 OP_jmp).1 = UINT_MAX then E_OUTOFMEMORY
            else v.hres, (push_instr (push_instr v.ctx OP_pop).2 OP_jmp).2),
            (push_instr (push_instr v.ctx OP_pop).2 OP_jmp).1)
        else ((E_OUTOFMEMORY, (push_instr v.ctx OP_pop).2), 0)
      else ((v.hres, v.ctx), 0) : (HRESULT × compiler_ctx_t) × Nat).1.2.code_off := by
  by_cases h1 : SUCCEEDED v.hres = true
  · rw [if_pos h1] at hs ⊢
    by_cases h2 : (push_instr v.ctx OP_pop).1 ≠ UINT_MAX
    · rw [if_pos h2] at hs ⊢
      dsimp only at hs ⊢
      by_cases h3 : (push_instr (push_instr v.ctx OP_pop).2 OP_jmp).1 = UINT_MAX
      · rw [if_pos h3] at hs
        exact absurd (show FAILED E_OUTOFMEMORY = true by decide) hs
      · exact push_instr_lt b c0 (push_instr_rel _ h) h3
    · rw [if_neg h2] at hs
      exact absurd (show FAILED E_OUTOFMEMORY = true by decide) hs
  · rw [if_neg h1] at hs
    refine absurd ?_ h1
    simp only [FAILED, SUCCEEDED, decide_eq_true_eq, not_lt] at hs ⊢
    exact hs

theorem switch_fallback_facts {ctx cp : compiler_ctx_t} {sc : statement_ctx_t}
    {case_jmps : Nat → Nat} {default_jmp : Nat} {hres : HRESULT} {expr : expression_t}
    {case_list : case_clausule_t}
    (hp : switch_bodies_entry ctx (.mk expr case_list)
      = some (cp, sc, case_jmps, default_jmp, hres))
    (hb : (compile_case_bodies cp sc ctx.code_off (.STAT_SWITCH (.mk expr case_list)) case_jmps
      default_jmp 0 hres case_list).returned = true) :
    ∃ c1, Rel ctx.code_off ctx.labels_cnt ctx c1 ∧ (ctx.code_off < c1.code_off) ∧
      compile_switch_statement ctx (.mk expr case_list) =
        compile_interp_fallback
          (set_eval (set_code_off c1 ctx.code_off) (.STAT_SWITCH (.mk expr case_list))
            .switch_statement_eval)
          (.STAT_SWITCH (.mk expr case_list)) := by
  have h : Rel ctx.code_off ctx.labels_cnt ctx ctx := Rel.refl ctx
  unfold switch_bodies_entry at hp
  dsimp only at hp
  obtain ⟨h1, hp⟩ := ite_none_some hp
  obtain ⟨h2, hp⟩ := ite_none_some hp
  obtain ⟨h3, hp⟩ := ite_none_some hp
  obtain ⟨h4, hp⟩ := ite_none_some hp
  have e := Option.some.inj hp
  have e1 := congrArg Prod.fst e
  have e2 := congrArg (fun x => x.2.1) e
  have e3 := congrArg (fun x => x.2.2.1) e
  have e4 := congrArg (fun x => x.2.2.2.1) e
  have e5 := congrArg (fun x => x.2.2.2.2) e
  dsimp only at e1 e2 e3 e4 e5
  have r1 : Rel ctx.code_off ctx.labels_cnt ctx (compile_expression ctx expr).2 :=
    compile_expression_rel _ h
  have r3 := heap_alloc_rel (alloc_label_rel r1)
  have hc := compile_case_exprs_rel case_list
    ⟨(compile_expression ctx expr).1,
     (heap_alloc (alloc_label (compile_expression ctx expr).2).2).2, fun _ => 0, 0, false⟩ r3
    (fun j hj => absurd hj (Nat.not_lt_zero _))
  have hidx := switch_jmp_idx _ hc.1 h4
  have hlt := switch_jmp_lt _ hc.1 h4
  have hcp : Rel ctx.code_off ctx.labels_cnt ctx cp := by
    rw [← e1]; exact switch_jmp_rel _ hc.1
  rw [e1] at hlt
  rw [e4] at hidx
  have hjs : ∀ j, j < 0 + case_count case_list → ctx.code_off ≤ case_jmps j := by
    intro j hjj
    rw [← e3]
    exact hc.2 hidx.1 j hjj
  obtain ⟨c1, q1, q2, q3⟩ := compile_case_bodies_returned sc (.STAT_SWITCH (.mk expr case_list))
    case_jmps default_jmp case_list 0 hres hjs hidx.2 hcp hb
  refine ⟨c1, q1, lt_of_lt_of_le hlt q2, ?_⟩
  rw [← q3]
  subst e1 e2 e3 e4 e5
  rw [compile_switch_statement_unfold]
  simp only [h1, h2, h3, h4, hb, ↓reduceIte, Bool.not_true, Bool.not_false, Bool.false_eq_true,
    if_true, if_false]


/-- What the fallback of a routine entered in `c0` does after the attempt has reached `c1`:
nothing but `E_NOTIMPL` when fallback is forbidden; else, with room in the buffer or memory for
it, one `OP_tree` at the entry offset. -/
theorem fallback_outcome {b : Nat} {c0 c1 : compiler_ctx_t} (stat : statement_t)
    (ev : statement_eval_t) (h1 : Rel c0.code_off b c0 c1) :
    (c0.no_fallback = true →
      (compile_interp_fallback (set_eval (set_code_off c1 c0.code_off) stat ev) stat).1
        = E_NOTIMPL ∧
      (compile_interp_fallback (set_eval (set_code_off c1 c0.code_off) stat ev) stat).2.code_off
        = c0.code_off ∧
      ∀ i, i < c0.code_off →
        (compile_interp_fallback (set_eval (set_code_off c1 c0.code_off) stat ev) stat).2.instrs i
          = c0.instrs i) ∧
    (c0.no_fallback = false →
      ((compile_interp_fallback (set_eval (set_code_off c1 c0.code_off) stat ev) stat).1
          ≠ E_OUTOFMEMORY ∨
        (c0.code_off ≤ c0.code_size ∧ c0.code_off < c1.code_off ∧ c0.code_off < UINT_MAX)) →
      (compile_interp_fallback (set_eval (set_code_off c1 c0.code_off) stat ev) stat).1 = S_OK ∧
      (compile_interp_fallback (set_eval (set_code_off c1 c0.code_off) stat ev) stat).2.code_off
        = c0.code_off + 1 ∧
      ((compile_interp_fallback (set_eval (set_code_off c1 c0.code_off) stat ev) stat).2.instrs
        c0.code_off).op = OP_tree ∧
      ((compile_interp_fallback (set_eval (set_code_off c1 c0.code_off) stat ev) stat).2.instrs
        c0.code_off).arg1 = .stat stat ∧
      (∀ i, i < c0.code_off →
        (compile_interp_fallback (set_eval (set_code_off c1 c0.code_off) stat ev) stat).2.instrs i
          = c0.instrs i) ∧
      (compile_interp_fallback (set_eval (set_code_off c1 c0.code_off) stat ev) stat).2.stat_eval.head?
        = some (stat, ev)) := by
  have hnf : (set_eval (set_code_off c1 c0.code_off) stat ev).no_fallback = c0.no_fallback :=
    h1.no_fallback_eq
  constructor
  · intro hf
    rw [compile_interp_fallback_forbidden _ _ (hnf.trans hf)]
    exact ⟨rfl, rfl, fun i hi => h1.instrs_eq i hi⟩
  · intro hf hroom
    have hne : (compile_interp_fallback (set_eval (set_code_off c1 c0.code_off) stat ev) stat).1
        ≠ E_OUTOFMEMORY := by
      rcases hroom with hne | ⟨w1, w2, w3⟩
      · exact hne
      · have hsz : c0.code_off < c1.code_size := lt_of_lt_of_le w2 (h1.off_le w1)
        have hidx := push_instr_room (set_eval (set_code_off c1 c0.code_off) stat ev) OP_tree hsz
        unfold compile_interp_fallback
        rw [if_neg (by rw [hnf, hf]; exact Bool.false_ne_true)]
        dsimp only
        rw [if_neg (by rw [hidx]; exact Nat.ne_of_lt w3)]
        show S_OK ≠ E_OUTOFMEMORY
        decide
    obtain ⟨e1, e2, e3, e4, e5, e6⟩ :=
      compile_interp_fallback_permitted _ stat (hnf.trans hf) hne
    refine ⟨e1, e2, e3, e4, fun i hi => ?_, ?_⟩
    · rw [e5 i (Nat.ne_of_lt hi)]
      exact h1.instrs_eq i hi
    · rw [e6]; rfl

theorem with_fell_back (ctx cp : compiler_ctx_t) (sc : statement_ctx_t) (expr : expression_t) (statement : statement_t)
    (hnf : ctx.no_fallback = false) (hwf : ctx.code_off ≤ ctx.code_size)
    (hmax : ctx.code_off < UINT_MAX)
    (hp : with_body_entry ctx (.mk expr statement) = some (cp, sc))
    (hb : (compile_statement (set_no_fallback cp true) (some sc) statement).1 = E_NOTIMPL) :
    (compile_with_statement ctx (.mk expr statement)).1 = S_OK ∧
    (compile_with_statement ctx (.mk expr statement)).2.code_off = ctx.code_off + 1 ∧
    ((compile_with_statement ctx (.mk expr statement)).2.instrs ctx.code_off).op = OP_tree ∧
    ((compile_with_statement ctx (.mk expr statement)).2.instrs ctx.code_off).arg1 = .stat (.STAT_WITH (.mk expr statement)) ∧
    (∀ i, i < ctx.code_off → (compile_with_statement ctx (.mk expr statement)).2.instrs i = ctx.instrs i) ∧
    (compile_with_statement ctx (.mk expr statement)).2.stat_eval.head? = some (.STAT_WITH (.mk expr statement), .with_statement_eval) := by
  obtain ⟨c1, hrel, hlt, e⟩ := with_fallback_facts hp hb
  rw [e]
  exact (fallback_outcome _ _ hrel).2 hnf (Or.inr ⟨hwf, hlt, hmax⟩)

/-- C6: a with statement lowered while fallback is permitted, from a state with the stream
inside its buffer: if the lowering of its body (made in the state `cp` with the frame `sc` that
`with_body_entry` gives) signals `E_NOTIMPL`, then `compile_with_statement` succeeds, the stream
is one instruction longer than at entry, that instruction, at the entry offset, is `OP_tree` with
the with statement as its operand, and the stream below the entry offset is as it was: nothing
of the aborted attempt remains. -/
theorem with_statement_rollback (ctx cp : compiler_ctx_t) (sc : statement_ctx_t) (expr : expression_t) (statement : statement_t)
    (hnf : ctx.no_fallback = false) (hwf : ctx.code_off ≤ ctx.code_size)
    (hmax : ctx.code_off < UINT_MAX)
    (hp : with_body_entry ctx (.mk expr statement) = some (cp, sc))
    (hb : (compile_statement (set_no_fallback cp true) (some sc) statement).1 = E_NOTIMPL) :
    (compile_with_statement ctx (.mk expr statement)).1 = S_OK ∧
    (compile_with_statement ctx (.mk expr statement)).2.code_off = ctx.code_off + 1 ∧
    ((compile_with_statement ctx (.mk expr statement)).2.instrs ctx.code_off).op = OP_tree ∧
    ((compile_with_statement ctx (.mk expr statement)).2.instrs ctx.code_off).arg1 = .stat (.STAT_WITH (.mk expr statement)) ∧
    (∀ i, i < ctx.code_off → (compile_with_statement ctx (.mk expr statement)).2.instrs i = ctx.instrs i) :=
  ⟨(with_fell_back ctx cp sc expr statement hnf hwf hmax hp hb).1,
   (with_fell_back ctx cp sc expr statement hnf hwf hmax hp hb).2.1,
   (with_fell_back ctx cp sc expr statement hnf hwf hmax hp hb).2.2.1,
   (with_fell_back ctx cp sc expr statement hnf hwf hmax hp hb).2.2.2.1,
   (with_fell_back ctx cp sc expr statement hnf hwf hmax hp hb).2.2.2.2.1⟩

/-- The statement `with(o) return;` from the empty context: one `OP_tree` and success. -/
theorem with_statement_rollback_witness :
    (compile_with_statement ctx_empty with_return_sample).1 = S_OK ∧
    (compile_with_statement ctx_empty with_return_sample).2.code_off = 1 ∧
    ((compile_with_statement ctx_empty with_return_sample).2.instrs 0).op = OP_tree :=
  ⟨(with_statement_rollback ctx_empty
      ((with_body_entry ctx_empty with_return_sample).get (by decide)).1
      ((with_body_entry ctx_empty with_return_sample).get (by decide)).2
      (.EXPR_IDENT ⟨"o"⟩) stat_return_sample rfl (by decide) (by decide)
      (Option.some_get (by decide)).symm (by decide)).1,
   (with_statement_rollback ctx_empty
      ((with_body_entry ctx_empty with_return_sample).get (by decide)).1
      ((with_body_entry ctx_empty with_return_sample).get (by decide)).2
      (.EXPR_IDENT ⟨"o"⟩) stat_return_sample rfl (by decide) (by decide)
      (Option.some_get (by decide)).symm (by decide)).2.1,
   (with_statement_rollback ctx_empty
      ((with_body_entry ctx_empty with_return_sample).get (by decide)).1
      ((with_body_entry ctx_empty with_return_sample).get (by decide)).2
      (.EXPR_IDENT ⟨"o"⟩) stat_return_sample rfl (by decide) (by decide)
      (Option.some_get (by decide)).symm (by decide)).2.2.1⟩

theorem emitted_ops_length (c : compiler_ctx_t) (lo n : Nat) : (emitted_ops c lo n).length = n := by
  simp [emitted_ops]

theorem emitted_ops_congr {c c1 : compiler_ctx_t} {lo n : Nat}
    (h : ∀ i, lo ≤ i → i < lo + n → (c1.instrs i).op = (c.instrs i).op) :
    emitted_ops c1 lo n = emitted_ops c lo n := by
  unfold emitted_ops
  apply List.map_congr_left
  intro i hi
  exact h (lo + i) (Nat.le_add_right _ _) (Nat.add_lt_add_left (List.mem_range.1 hi) _)

theorem emitted_ops_add (c : compiler_ctx_t) (lo n m : Nat) :
    emitted_ops c lo (n + m) = emitted_ops c lo n ++ emitted_ops c (lo + n) m := by
  unfold emitted_ops
  rw [List.range_add, List.map_append, List.map_map]
  congr 1
  apply List.map_congr_left
  intro i _
  show (c.instrs (lo + (n + i))).op = (c.instrs (lo + n + i)).op
  rw [Nat.add_assoc]

theorem emitted_ops_one (c : compiler_ctx_t) (lo : Nat) :
    emitted_ops c lo 1 = [(c.instrs lo).op] := rfl

theorem emits_nil (c : compiler_ctx_t) : Emits c c [] :=
  ⟨rfl, fun _ _ => rfl, rfl⟩

theorem emits_of_eq {c c1 c2 : compiler_ctx_t} {ops : List jsop_t} (h : Emits c c1 ops)
    (ho : c2.code_off = c1.code_off) (hi : c2.instrs = c1.instrs) : Emits c c2 ops := by
  obtain ⟨h1, h2, h3⟩ := h
  refine ⟨ho.trans h1, fun i hi1 => by rw [hi]; exact h2 i hi1, ?_⟩
  have e : emitted_ops c2 c.code_off ops.length = emitted_ops c1 c.code_off ops.length :=
    emitted_ops_congr (fun i _ _ => by rw [hi])
  rw [e, h3]

theorem emits_append {c c1 c2 : compiler_ctx_t} {o1 o2 : List jsop_t} (h : Emits c c1 o1)
    (h' : Emits c1 c2 o2) : Emits c c2 (o1 ++ o2) := by
  obtain ⟨a1, a2, a3⟩ := h
  obtain ⟨b1, b2, b3⟩ := h'
  refine ⟨by rw [b1, a1, List.length_append, Nat.add_assoc], ?_, ?_⟩
  · intro i hi
    rw [b2 i (by omega), a2 i hi]
  · have e : emitted_ops c2 c.code_off o1.length = emitted_ops c1 c.code_off o1.length :=
      emitted_ops_congr (fun i _ hi => by rw [b2 i (by omega)])
    rw [List.length_append, emitted_ops_add, ← a1, b3, e, a3]

/-- A successful `push_instr` appends one instruction with the opcode. -/
theorem push_instr_emits (c : compiler_ctx_t) (op : jsop_t)
    (hne : ¬ (push_instr c op).1 = UINT_MAX) : Emits c (push_instr c op).2 [op] := by
  obtain ⟨_, h2, h3, h4, _⟩ := push_instr_ok c op hne
  refine ⟨h2, fun i hi => h4 i (Nat.ne_of_lt hi), ?_⟩
  show [((push_instr c op).2.instrs (c.code_off + 0)).op] = [op]
  rw [Nat.add_zero, h3]

theorem push_instr_hres_cases (c : compiler_ctx_t) (op : jsop_t) :
    ((push_instr_hres c op).1 = E_OUTOFMEMORY ∧ (push_instr c op).1 = UINT_MAX) ∨
    ((push_instr_hres c op).1 = S_OK ∧ ¬ (push_instr c op).1 = UINT_MAX) := by
  unfold push_instr_hres
  by_cases hp : (push_instr c op).1 = UINT_MAX
  · left; exact ⟨if_pos hp, hp⟩
  · right; exact ⟨if_neg hp, hp⟩

theorem push_instr_hres_emits (c : compiler_ctx_t) (op : jsop_t)
    (hs : ¬ (push_instr_hres c op).1 = E_OUTOFMEMORY) :
    (push_instr_hres c op).1 = S_OK ∧ Emits c (push_instr_hres c op).2 [op] := by
  rcases push_instr_hres_cases c op with ⟨h, _⟩ | ⟨h, hp⟩
  · exact absurd h hs
  · exact ⟨h, push_instr_emits c op hp⟩


/-! ## `pop_to_stat` -/

theorem failed_oom : FAILED E_OUTOFMEMORY = true := by decide

theorem not_failed_ok : ¬ FAILED S_OK = true := by decide

theorem opt_push_cases (b : Bool) (c : compiler_ctx_t) (op : jsop_t) :
    (if b = true then push_instr_hres c op else (S_OK, c)).1 = E_OUTOFMEMORY ∨
    ((if b = true then push_instr_hres c op else (S_OK, c)).1 = S_OK ∧
      Emits c (if b = true then push_instr_hres c op else (S_OK, c)).2
        (if b = true then [op] else [])) := by
  cases b
  · right; exact ⟨rfl, emits_nil c⟩
  · simp only [if_true]
    by_cases h : (push_instr_hres c op).1 = E_OUTOFMEMORY
    · left; exact h
    · right; exact push_instr_hres_emits c op h

/-- The first loop of `pop_to_stat`, when no append fails: the cleanup of the frames from the
innermost to the target, and the stack cells they reserve. -/
theorem pop_to_stat_frames_emits (frames : List statement_ctx_t) :
    ∀ (ctx : compiler_ctx_t) (k sp : Nat), k < frames.length →
      ¬ FAILED (pop_to_stat_frames ctx frames k sp).1.1 = true →
      (pop_to_stat_frames ctx frames k sp).1.1 = S_OK ∧
      Emits ctx (pop_to_stat_frames ctx frames k sp).1.2
        ((frames.take (k + 1)).map frame_cleanup).flatten ∧
      (pop_to_stat_frames ctx frames k sp).2 =
        sp + ((frames.take (k + 1)).map fun f => f.stack_use).sum := by
  induction frames with
  | nil => intro ctx k sp hk; exact absurd hk (Nat.not_lt_zero _)
  | cons iter next ih =>
    intro ctx k sp hk hs
    rw [pop_to_stat_frames] at hs ⊢
    dsimp only at hs ⊢
    rcases opt_push_cases iter.using_scope ctx OP_pop_scope with h1 | ⟨h1, e1⟩
    · rw [if_pos h1] at hs
      exact absurd (h1 ▸ failed_oom) hs
    have n1 : ¬ (if iter.using_scope = true then push_instr_hres ctx OP_pop_scope
        else (S_OK, ctx)).1 = E_OUTOFMEMORY := by
      rw [h1]; decide
    rw [if_neg n1] at hs ⊢
    rcases opt_push_cases iter.using_except
        (if iter.using_scope = true then push_instr_hres ctx OP_pop_scope else (S_OK, ctx)).2
        OP_pop_except with h2 | ⟨h2, e2⟩
    · rw [if_pos h2] at hs
      exact absurd (h2 ▸ failed_oom) hs
    have n2 : ¬ (if iter.using_except = true then push_instr_hres
        (if iter.using_scope = true then push_instr_hres ctx OP_pop_scope else (S_OK, ctx)).2
        OP_pop_except else (S_OK,
        (if iter.using_scope = true then push_instr_hres ctx OP_pop_scope
          else (S_OK, ctx)).2)).1 = E_OUTOFMEMORY := by
      rw [h2]; decide
    rw [if_neg n2] at hs ⊢
    have e12 := emits_append e1 e2
    cases k with
    | zero =>
      refine ⟨h2, ?_, ?_⟩
      · simpa [frame_cleanup] using e12
      · simp
    | succ k =>
      obtain ⟨r1, r2, r3⟩ := ih _ k (sp + iter.stack_use) (Nat.lt_of_succ_lt_succ hk) hs
      refine ⟨r1, ?_, ?_⟩
      · have := emits_append e12 r2
        simpa [frame_cleanup, List.append_assoc] using this
      · rw [r3]
        simp [Nat.add_assoc]

/-- The second loop of `pop_to_stat`, when no append fails. -/
theorem pop_to_stat_pops_emits (n : Nat) :
    ∀ (ctx : compiler_ctx_t), ¬ FAILED (pop_to_stat_pops ctx n).1 = true →
      (pop_to_stat_pops ctx n).1 = S_OK ∧
      Emits ctx (pop_to_stat_pops ctx n).2 (List.replicate n OP_pop) := by
  induction n with
  | zero => intro ctx _; exact ⟨rfl, emits_nil ctx⟩
  | succ n ih =>
    intro ctx hs
    rw [pop_to_stat_pops] at hs ⊢
    by_cases hp : (push_instr ctx OP_pop).1 = UINT_MAX
    · rw [if_pos hp] at hs
      exact absurd failed_oom hs
    · rw [if_neg hp] at hs ⊢
      obtain ⟨r1, r2⟩ := ih _ hs
      exact ⟨r1, by simpa [List.replicate_succ] using emits_append (push_instr_emits ctx OP_pop hp) r2⟩

theorem pop_to_stat_emits (ctx : compiler_ctx_t) (k : Nat) (hk : k < ctx.stat_ctx.length)
    (hs : ¬ FAILED (pop_to_stat ctx k).1 = true) :
    (pop_to_stat ctx k).1 = S_OK ∧
    Emits ctx (pop_to_stat ctx k).2 (unwind_ops ctx.stat_ctx k) := by
  unfold pop_to_stat at hs ⊢
  dsimp only at hs ⊢
  by_cases hf : FAILED (pop_to_stat_frames ctx ctx.stat_ctx k 0).1.1 = true
  · rw [if_pos hf] at hs
    exact absurd hf hs
  · rw [if_neg hf] at hs ⊢
    obtain ⟨_, f2, f3⟩ := pop_to_stat_frames_emits ctx.stat_ctx ctx k 0 hk hf
    obtain ⟨p1, p2⟩ := pop_to_stat_pops_emits _ _ hs
    refine ⟨p1, ?_⟩
    have e := emits_append f2 p2
    rw [f3, Nat.zero_add] at e
    rw [f3, Nat.zero_add]
    exact e


/-! ## Labelled statements, failure codes and the context stack -/

/-- What `push_instr(ctx, op) == -1 ? E_OUTOFMEMORY : S_OK` does to the stream. -/
theorem push_instr_hres_spec (c : compiler_ctx_t) (op : jsop_t) :
    ((push_instr_hres c op).1 = S_OK ∨ (push_instr_hres c op).1 = E_OUTOFMEMORY) ∧
    (∀ i, i ≠ c.code_off → (push_instr_hres c op).2.instrs i = c.instrs i) ∧
    ((push_instr_hres c op).2.instrs c.code_off = c.instrs c.code_off ∨
      (push_instr_hres c op).2.instrs c.code_off = { c.instrs c.code_off with op := op }) ∧
    ((push_instr_hres c op).1 = S_OK →
      (push_instr_hres c op).2.code_off = c.code_off + 1 ∧
      (push_instr_hres c op).2.instrs c.code_off = { c.instrs c.code_off with op := op }) := by
  have hc : (push_instr_hres c op).1 = S_OK ∨ (push_instr_hres c op).1 = E_OUTOFMEMORY := by
    rcases push_instr_hres_cases c op with ⟨h, _⟩ | ⟨h, _⟩
    · exact Or.inr h
    · exact Or.inl h
  refine ⟨hc, ?_⟩
  show (∀ i, i ≠ c.code_off → (push_instr c op).2.instrs i = c.instrs i) ∧
    ((push_instr c op).2.instrs c.code_off = c.instrs c.code_off ∨
      (push_instr c op).2.instrs c.code_off = { c.instrs c.code_off with op := op }) ∧
    ((push_instr_hres c op).1 = S_OK →
      (push_instr c op).2.code_off = c.code_off + 1 ∧
      (push_instr c op).2.instrs c.code_off = { c.instrs c.code_off with op := op })
  rcases push_instr_cases c op with ⟨hp, e⟩ | ⟨hp, n, _, _, e⟩
  · refine ⟨fun i _ => by rw [e], Or.inl (by rw [e]), fun hs => ?_⟩
    rcases push_instr_hres_cases c op with ⟨h, _⟩ | ⟨_, hne⟩
    · rw [h] at hs; exact absurd hs (by decide)
    · rw [e] at hne; exact absurd rfl hne
  · refine ⟨fun i hi => ?_, Or.inr ?_, fun _ => ⟨by rw [e], ?_⟩⟩
    · rw [e]; exact Function.update_noteq hi _ _
    · rw [e]; exact Function.update_same _ _ _
    · rw [e]; exact Function.update_same _ _ _

/-- C11 (as the code has it): a labelled statement is not handed to the tree-walk fallback. Whether
fallback is permitted or forbidden, `compile_statement` appends one `OP_label` instruction, whose
operands it does not write, and returns success, or it returns `E_OUTOFMEMORY` when the append
fails; it never signals not-implemented, it writes no instruction but the one at the entry
offset, and it puts no `OP_tree` into the stream. -/
theorem labelled_statement_lowering (ctx : compiler_ctx_t) (stat_ctx : Option statement_ctx_t)
    (stat : labelled_statement_t) :
    ((compile_statement ctx stat_ctx (.STAT_LABEL stat)).1 = S_OK ∨
      (compile_statement ctx stat_ctx (.STAT_LABEL stat)).1 = E_OUTOFMEMORY) ∧
    (compile_statement ctx stat_ctx (.STAT_LABEL stat)).1 ≠ E_NOTIMPL ∧
    (∀ i, i ≠ ctx.code_off →
      (compile_statement ctx stat_ctx (.STAT_LABEL stat)).2.instrs i = ctx.instrs i) ∧
    ((compile_statement ctx stat_ctx (.STAT_LABEL stat)).2.instrs ctx.code_off =
        ctx.instrs ctx.code_off ∨
      (compile_statement ctx stat_ctx (.STAT_LABEL stat)).2.instrs ctx.code_off =
        { ctx.instrs ctx.code_off with op := OP_label }) ∧
    ((compile_statement ctx stat_ctx (.STAT_LABEL stat)).1 = S_OK →
      (compile_statement ctx stat_ctx (.STAT_LABEL stat)).2.code_off = ctx.code_off + 1 ∧
      (compile_statement ctx stat_ctx (.STAT_LABEL stat)).2.instrs ctx.code_off =
        { ctx.instrs ctx.code_off with op := OP_label }) := by
  rw [compile_statement]
  obtain ⟨h1, h2, h3, h4⟩ := push_instr_hres_spec (push_stat_ctx ctx stat_ctx) OP_label
  obtain ⟨p1, p2, _, _⟩ := push_stat_ctx_proj ctx stat_ctx
  obtain ⟨q1, q2, _⟩ := pop_stat_ctx_proj ctx stat_ctx
    (push_instr_hres (push_stat_ctx ctx stat_ctx) OP_label)
  rw [pop_stat_ctx_fst, q1, q2]
  rw [p1, p2] at h2 h3 h4
  refine ⟨h1, ?_, h2, h3, h4⟩
  rcases h1 with h1 | h1 <;> rw [h1] <;> decide

/-- The statement `l: ;` with fallback permitted and with fallback forbidden: success both times,
and the instruction emitted is `OP_label`, not `OP_tree`. -/
theorem labelled_statement_not_fallback :
    (compile_statement ctx_empty none stat_label_sample).1 = S_OK ∧
    (compile_statement ctx_empty none stat_label_sample).2.code_off = 1 ∧
    ((compile_statement ctx_empty none stat_label_sample).2.instrs 0).op = OP_label ∧
    ((compile_statement ctx_empty none stat_label_sample).2.instrs 0).op ≠ OP_tree ∧
    (compile_statement ctx_strict none stat_label_sample).1 = S_OK ∧
    (compile_statement ctx_strict none stat_label_sample).1 ≠ E_NOTIMPL := by
  decide

/-- C12 (divergence): the expression `null`, and the statement `null;`, compiled when the append
of `OP_null` is refused: the entry points fail with the value `(unsigned)-1` of `push_instr`,
which is neither `E_OUTOFMEMORY` nor `E_NOTIMPL`. -/
theorem null_literal_failure_code :
    FAILED (compile_subscript (parser_heap [true, true, false]) expr_null 0).1 = true ∧
    (compile_subscript (parser_heap [true, true, false]) expr_null 0).1 = -1 ∧
    (compile_subscript (parser_heap [true, true, false]) expr_null 0).1 ≠ E_OUTOFMEMORY ∧
    (compile_subscript (parser_heap [true, true, false]) expr_null 0).1 ≠ E_NOTIMPL ∧
    FAILED (compile_subscript_stat (parser_heap [true, true, false]) 1
      (.STAT_EXPR ⟨expr_null⟩) .NULL false 0).1 = true ∧
    (compile_subscript_stat (parser_heap [true, true, false]) 1
      (.STAT_EXPR ⟨expr_null⟩) .NULL false 0).1 = -1 := by
  decide

/-- C13 (divergence): an expression statement whose expression sets `no_ret` (a call): when the
append of the `OP_undefined` filler fails, `compile_expression_statement`, and with it
`compile_statement`, returns success. -/
theorem filler_failure_ignored (ctx : compiler_ctx_t) (stat : expression_statement_t)
    (h1 : ¬ FAILED (compile_expression_noret ctx stat.expr (some false)).1.1 = true)
    (h2 : (compile_expression_noret ctx stat.expr (some false)).2 = some true)
    (_h3 : (push_instr (compile_expression_noret ctx stat.expr (some false)).1.2
      OP_undefined).1 = UINT_MAX) :
    (compile_expression_statement ctx stat).1 = S_OK ∧
    (compile_statement ctx none (.STAT_EXPR stat)).1 = S_OK := by
  have e : (compile_expression_statement ctx stat).1 = S_OK := by
    unfold compile_expression_statement
    dsimp only
    rw [if_neg h1, if_pos h2]
    have hn : ¬ logical_not (push_instr (compile_expression_noret ctx stat.expr
        (some false)).1.2 OP_undefined).1 = -1 := by
      unfold logical_not
      split <;> decide
    rw [if_neg hn]
  refine ⟨e, ?_⟩
  rw [compile_statement, pop_stat_ctx_fst]
  exact e

/-- The statement `f();` lowered into a buffer with room for the call but not for the filler,
when the allocator refuses to grow the buffer: the append fails and the result is success. -/
theorem filler_failure_ignored_witness :
    (push_instr (compile_expression_noret ctx_nearly_full call_statement_sample.expr
      (some false)).1.2 OP_undefined).1 = UINT_MAX ∧
    (compile_expression_statement ctx_nearly_full call_statement_sample).1 = S_OK ∧
    (compile_statement ctx_nearly_full none (.STAT_EXPR call_statement_sample)).1 = S_OK :=
  ⟨by decide, filler_failure_ignored ctx_nearly_full call_statement_sample (by decide) (by decide)
    (by decide)⟩

theorem compile_statement_switch_eq (ctx : compiler_ctx_t) (sc : Option statement_ctx_t)
    (stat : statement_t) :
    compile_statement ctx sc stat =
      pop_stat_ctx ctx sc (compile_statement_switch (push_stat_ctx ctx sc) stat) := by
  cases stat with
  | STAT_BLOCK s => cases s; rw [compile_statement, compile_statement_switch]
  | _ => rw [compile_statement, compile_statement_switch]

theorem compile_statement_switch_rel (stat : statement_t) (c : compiler_ctx_t) :
    Rel c.code_off c.labels_cnt c (compile_statement_switch c stat).2 := by
  cases stat with
  | STAT_BLOCK s => cases s; exact compile_block_statement_rel _ (Rel.refl c)
  | STAT_BREAK s => exact compile_break_statement_rel s (Rel.refl c)
  | STAT_CONTINUE s => exact compile_continue_statement_rel s (Rel.refl c)
  | STAT_EMPTY => exact push_instr_hres_rel _ (Rel.refl c)
  | STAT_EXPR s => exact compile_expression_statement_rel s (Rel.refl c)
  | STAT_FOR s => exact compile_for_statement_rel s (Rel.refl c)
  | STAT_FORIN s => exact compile_forin_statement_rel s (Rel.refl c)
  | STAT_IF s => exact compile_if_statement_rel s (Rel.refl c)
  | STAT_LABEL s => exact push_instr_hres_rel _ (Rel.refl c)
  | STAT_RETURN e => exact compile_interp_fallback_rel _ (Rel.refl c)
  | STAT_SWITCH s => exact compile_switch_statement_rel s (Rel.refl c)
  | STAT_THROW s => exact compile_throw_statement_rel s (Rel.refl c)
  | STAT_TRY s => exact compile_try_statement_rel s (Rel.refl c)
  | STAT_VAR s => exact compile_var_statement_rel s (Rel.refl c)
  | STAT_WHILE s => exact compile_while_statement_rel s (Rel.refl c)
  | STAT_WITH s => exact compile_with_statement_rel s (Rel.refl c)

/-- C19: `compile_statement` is its dispatch `compile_statement_switch` run between the push and
the pop of the frame passed in. Whatever the statement, the frame and the outcome: a frame
passed in is on top of the context stack when the dispatch starts, the context stack after the
dispatch is the one it started with (so the frame is on top again where
`assert(ctx->stat_ctx == stat_ctx)` stands), and when `compile_statement` returns the context
stack is the one of its entry. -/
theorem compile_statement_balanced (ctx : compiler_ctx_t) (stat_ctx : Option statement_ctx_t)
    (stat : statement_t) :
    compile_statement ctx stat_ctx stat =
      pop_stat_ctx ctx stat_ctx (compile_statement_switch (push_stat_ctx ctx stat_ctx) stat) ∧
    (∀ frame, stat_ctx = some frame →
      (push_stat_ctx ctx stat_ctx).stat_ctx = frame :: ctx.stat_ctx ∧
      (compile_statement_switch (push_stat_ctx ctx stat_ctx) stat).2.stat_ctx =
        frame :: ctx.stat_ctx) ∧
    (compile_statement_switch (push_stat_ctx ctx stat_ctx) stat).2.stat_ctx =
      (push_stat_ctx ctx stat_ctx).stat_ctx ∧
    (compile_statement ctx stat_ctx stat).2.stat_ctx = ctx.stat_ctx := by
  have h := (compile_statement_switch_rel stat (push_stat_ctx ctx stat_ctx)).stat_ctx_eq
  refine ⟨compile_statement_switch_eq ctx stat_ctx stat, ?_, h,
    (compile_statement_rel stat stat_ctx (Rel.refl ctx)).stat_ctx_eq⟩
  intro frame e
  subst e
  exact ⟨rfl, h⟩

/-- C20: for every context stack and every position `k` of a frame in it, when no append fails
`pop_to_stat` with the frame at `k` as target returns success and appends exactly `unwind_ops`:
for each frame from the innermost to the target inclusive, in that order, `OP_pop_scope` if the
frame owns a scope and then `OP_pop_except` if it owns an exception frame, followed by as many
`OP_pop` as these frames reserve stack cells; the frames beyond the target contribute nothing
and the stream before is kept. (`pop_to_stat` is a total function: it terminates.) -/
theorem pop_to_stat_unwinds (ctx : compiler_ctx_t) (k : Nat) (hk : k < ctx.stat_ctx.length)
    (hs : ¬ FAILED (pop_to_stat ctx k).1 = true) :
    (pop_to_stat ctx k).1 = S_OK ∧
    (pop_to_stat ctx k).2.code_off = ctx.code_off + (unwind_ops ctx.stat_ctx k).length ∧
    (∀ i, i < ctx.code_off → (pop_to_stat ctx k).2.instrs i = ctx.instrs i) ∧
    emitted_ops (pop_to_stat ctx k).2 ctx.code_off (unwind_ops ctx.stat_ctx k).length =
      unwind_ops ctx.stat_ctx k :=
  ⟨(pop_to_stat_emits ctx k hk hs).1, (pop_to_stat_emits ctx k hk hs).2⟩

/-- The context stack try (no catch), with, for-in, with, unwound to the for-in frame: the
cleanup of the three inner frames and six `OP_pop`; the outer with frame contributes nothing. -/
theorem pop_to_stat_unwinds_witness :
    (pop_to_stat (ctx_frames [try_frame_sample, with_frame_sample, forin_frame_sample,
      with_frame_sample]) 2).1 = S_OK ∧
    (pop_to_stat (ctx_frames [try_frame_sample, with_frame_sample, forin_frame_sample,
      with_frame_sample]) 2).2.code_off = 8 ∧
    emitted_ops (pop_to_stat (ctx_frames [try_frame_sample, with_frame_sample,
      forin_frame_sample, with_frame_sample]) 2).2 0 8 =
      [OP_pop_except, OP_pop_scope, OP_pop, OP_pop, OP_pop, OP_pop, OP_pop, OP_pop] :=
  ⟨(pop_to_stat_unwinds (ctx_frames [try_frame_sample, with_frame_sample, forin_frame_sample,
      with_frame_sample]) 2 (by decide) (by decide)).1,
   (pop_to_stat_unwinds (ctx_frames [try_frame_sample, with_frame_sample, forin_frame_sample,
      with_frame_sample]) 2 (by decide) (by decide)).2.1,
   (pop_to_stat_unwinds (ctx_frames [try_frame_sample, with_frame_sample, forin_frame_sample,
      with_frame_sample]) 2 (by decide) (by decide)).2.2.2⟩


/-! ## The appends that write operands -/

theorem set_arg1_code_off (c : compiler_ctx_t) (p : Nat) (v : instr_arg_t) :
    (set_arg1 c p v).code_off = c.code_off := rfl

theorem set_arg2_code_off (c : compiler_ctx_t) (p : Nat) (v : instr_arg_t) :
    (set_arg2 c p v).code_off = c.code_off := rfl

theorem set_arg1_same (c : compiler_ctx_t) (p : Nat) (v : instr_arg_t) :
    (set_arg1 c p v).instrs p = { c.instrs p with arg1 := v } := by
  simp only [set_arg1, Function.update_same]

theorem set_arg2_same (c : compiler_ctx_t) (p : Nat) (v : instr_arg_t) :
    (set_arg2 c p v).instrs p = { c.instrs p with arg2 := v } := by
  simp only [set_arg2, Function.update_same]

theorem set_arg1_other (c : compiler_ctx_t) {p i : Nat} (v : instr_arg_t) (h : i ≠ p) :
    (set_arg1 c p v).instrs i = c.instrs i := by
  simp only [set_arg1, Function.update_noteq h]

theorem set_arg2_other (c : compiler_ctx_t) {p i : Nat} (v : instr_arg_t) (h : i ≠ p) :
    (set_arg2 c p v).instrs i = c.instrs i := by
  simp only [set_arg2, Function.update_noteq h]

/-- The append of an instruction with an unsigned operand: it fails with `E_OUTOFMEMORY` only,
and when it does not fail the instruction is at the old offset. -/
theorem push_instr_uint_ok (c : compiler_ctx_t) (op : jsop_t) (v : Nat) :
    (FAILED (push_instr_uint c op v).1 = true → (push_instr_uint c op v).1 = E_OUTOFMEMORY) ∧
    (¬ FAILED (push_instr_uint c op v).1 = true →
      (push_instr_uint c op v).1 = S_OK ∧
      (push_instr_uint c op v).2.code_off = c.code_off + 1 ∧
      ((push_instr_uint c op v).2.instrs c.code_off).op = op ∧
      ((push_instr_uint c op v).2.instrs c.code_off).arg1 = .uint v ∧
      (∀ i, i ≠ c.code_off → (push_instr_uint c op v).2.instrs i = c.instrs i)) := by
  unfold push_instr_uint
  dsimp only
  by_cases hp : (push_instr c op).1 = UINT_MAX
  · rw [if_pos hp]
    exact ⟨fun _ => rfl, fun h => absurd failed_oom h⟩
  · rw [if_neg hp]
    obtain ⟨h1, h2, h3, h4, _⟩ := push_instr_ok c op hp
    refine ⟨fun h => absurd h not_failed_ok, fun _ => ⟨rfl, h2, ?_, ?_, fun i hi => ?_⟩⟩
    · rw [h1, set_arg1_same]; exact h3
    · rw [h1, set_arg1_same]
    · rw [h1, set_arg1_other _ _ hi]; exact h4 i hi

theorem push_instr_int_ok (c : compiler_ctx_t) (op : jsop_t) (v : Int) :
    (FAILED (push_instr_int c op v).1 = true → (push_instr_int c op v).1 = E_OUTOFMEMORY) ∧
    (¬ FAILED (push_instr_int c op v).1 = true →
      (push_instr_int c op v).1 = S_OK ∧
      (push_instr_int c op v).2.code_off = c.code_off + 1 ∧
      ((push_instr_int c op v).2.instrs c.code_off).op = op ∧
      ((push_instr_int c op v).2.instrs c.code_off).arg1 = .lng v ∧
      (∀ i, i ≠ c.code_off → (push_instr_int c op v).2.instrs i = c.instrs i)) := by
  unfold push_instr_int
  dsimp only
  by_cases hp : (push_instr c op).1 = UINT_MAX
  · rw [if_pos hp]
    exact ⟨fun _ => rfl, fun h => absurd failed_oom h⟩
  · rw [if_neg hp]
    obtain ⟨h1, h2, h3, h4, _⟩ := push_instr_ok c op hp
    refine ⟨fun h => absurd h not_failed_ok, fun _ => ⟨rfl, h2, ?_, ?_, fun i hi => ?_⟩⟩
    · rw [h1, set_arg1_same]; exact h3
    · rw [h1, set_arg1_same]
    · rw [h1, set_arg1_other _ _ hi]; exact h4 i hi

theorem push_instr_str_ok (c : compiler_ctx_t) (op : jsop_t) (s : String) :
    (FAILED (push_instr_str c op s).1 = true → (push_instr_str c op s).1 = E_OUTOFMEMORY) ∧
    (¬ FAILED (push_instr_str c op s).1 = true →
      (push_instr_str c op s).1 = S_OK ∧
      (push_instr_str c op s).2.code_off = c.code_off + 1 ∧
      ((push_instr_str c op s).2.instrs c.code_off).op = op ∧
      ((push_instr_str c op s).2.instrs c.code_off).arg1 = .str s ∧
      (∀ i, i ≠ c.code_off → (push_instr_str c op s).2.instrs i = c.instrs i)) := by
  obtain ⟨a1, a2, _⟩ := compiler_alloc_string_proj c s
  have hv : (compiler_alloc_string c s).1 = none ∨ (compiler_alloc_string c s).1 = some s := by
    unfold compiler_alloc_string
    dsimp only
    split
    · exact Or.inr rfl
    · exact Or.inl rfl
  unfold push_instr_str
  dsimp only
  rcases hv with hv | hv
  · rw [hv]
    exact ⟨fun _ => rfl, fun h => absurd failed_oom h⟩
  · rw [hv]
    dsimp only
    by_cases hp : (push_instr (compiler_alloc_string c s).2 op).1 = UINT_MAX
    · rw [if_pos hp]
      exact ⟨fun _ => rfl, fun h => absurd failed_oom h⟩
    · rw [if_neg hp]
      obtain ⟨h1, h2, h3, h4, _⟩ := push_instr_ok _ op hp
      rw [a2] at h1 h2 h3 h4
      refine ⟨fun h => absurd h not_failed_ok, fun _ => ⟨rfl, h2, ?_, ?_, fun i hi => ?_⟩⟩
      · rw [h1, set_arg1_same]; exact h3
      · rw [h1, set_arg1_same]
      · rw [h1, set_arg1_other _ _ hi, h4 i hi, a1]

theorem compiler_alloc_bstr_val (c : compiler_ctx_t) (s : String) :
    (compiler_alloc_bstr c s).1 = none ∨ (compiler_alloc_bstr c s).1 = some s := by
  unfold compiler_alloc_bstr
  dsimp only
  split_ifs <;> first | exact Or.inl rfl | exact Or.inr rfl

theorem push_instr_bstr_ok (c : compiler_ctx_t) (op : jsop_t) (s : String) :
    (FAILED (push_instr_bstr c op s).1 = true → (push_instr_bstr c op s).1 = E_OUTOFMEMORY) ∧
    (¬ FAILED (push_instr_bstr c op s).1 = true →
      (push_instr_bstr c op s).1 = S_OK ∧
      (push_instr_bstr c op s).2.code_off = c.code_off + 1 ∧
      ((push_instr_bstr c op s).2.instrs c.code_off).op = op ∧
      ((push_instr_bstr c op s).2.instrs c.code_off).arg1 = .bstr (some s) ∧
      (∀ i, i ≠ c.code_off → (push_instr_bstr c op s).2.instrs i = c.instrs i)) := by
  obtain ⟨a1, a2, _⟩ := compiler_alloc_bstr_proj c s
  unfold push_instr_bstr
  dsimp only
  rcases compiler_alloc_bstr_val c s with hv | hv
  · rw [hv]
    exact ⟨fun _ => rfl, fun h => absurd failed_oom h⟩
  · rw [hv]
    dsimp only
    by_cases hp : (push_instr (compiler_alloc_bstr c s).2 op).1 = UINT_MAX
    · rw [if_pos hp]
      exact ⟨fun _ => rfl, fun h => absurd failed_oom h⟩
    · rw [if_neg hp]
      obtain ⟨h1, h2, h3, h4, _⟩ := push_instr_ok _ op hp
      rw [a2] at h1 h2 h3 h4
      refine ⟨fun h => absurd h not_failed_ok, fun _ => ⟨rfl, h2, ?_, ?_, fun i hi => ?_⟩⟩
      · rw [h1, set_arg1_same]; exact h3
      · rw [h1, set_arg1_same]
      · rw [h1, set_arg1_other _ _ hi, h4 i hi, a1]

theorem push_instr_uint_str_ok (c : compiler_ctx_t) (op : jsop_t) (v : Nat) (s : String) :
    (FAILED (push_instr_uint_str c op v s).1 = true →
      (push_instr_uint_str c op v s).1 = E_OUTOFMEMORY) ∧
    (¬ FAILED (push_instr_uint_str c op v s).1 = true →
      (push_instr_uint_str c op v s).1 = S_OK ∧
      (push_instr_uint_str c op v s).2.code_off = c.code_off + 1 ∧
      ((push_instr_uint_str c op v s).2.instrs c.code_off).op = op ∧
      ((push_instr_uint_str c op v s).2.instrs c.code_off).arg1 = .uint v ∧
      ((push_instr_uint_str c op v s).2.instrs c.code_off).arg2 = .str s ∧
      (∀ i, i ≠ c.code_off → (push_instr_uint_str c op v s).2.instrs i = c.instrs i)) := by
  obtain ⟨a1, a2, _⟩ := compiler_alloc_string_proj c s
  have hv : (compiler_alloc_string c s).1 = none ∨ (compiler_alloc_string c s).1 = some s := by
    unfold compiler_alloc_string
    dsimp only
    split
    · exact Or.inr rfl
    · exact Or.inl rfl
  unfold push_instr_uint_str
  dsimp only
  rcases hv with hv | hv
  · rw [hv]
    exact ⟨fun _ => rfl, fun h => absurd failed_oom h⟩
  · rw [hv]
    dsimp only
    by_cases hp : (push_instr (compiler_alloc_string c s).2 op).1 = UINT_MAX
    · rw [if_pos hp]
      exact ⟨fun _ => rfl, fun h => absurd failed_oom h⟩
    · rw [if_neg hp]
      obtain ⟨h1, h2, h3, h4, _⟩ := push_instr_ok _ op hp
      rw [a2] at h1 h2 h3 h4
      refine ⟨fun h => absurd h not_failed_ok, fun _ => ⟨rfl, h2, ?_, ?_, ?_, fun i hi => ?_⟩⟩
      · rw [h1, set_arg2_same, set_arg1_same]; exact h3
      · rw [h1, set_arg2_same, set_arg1_same]
      · rw [h1, set_arg2_same]
      · rw [h1, set_arg2_other _ _ hi, set_arg1_other _ _ hi, h4 i hi, a1]

/-- The idiom `push_instr(ctx, op) == -1 ? E_OUTOFMEMORY : S_OK`. -/
theorem push_instr_hres_ok (c : compiler_ctx_t) (op : jsop_t) :
    (FAILED (push_instr_hres c op).1 = true → (push_instr_hres c op).1 = E_OUTOFMEMORY) ∧
    (¬ FAILED (push_instr_hres c op).1 = true →
      (push_instr_hres c op).1 = S_OK ∧
      (push_instr_hres c op).2.code_off = c.code_off + 1 ∧
      ((push_instr_hres c op).2.instrs c.code_off).op = op ∧
      ((push_instr_hres c op).2.instrs c.code_off).arg1 = (c.instrs c.code_off).arg1 ∧
      (∀ i, i ≠ c.code_off → (push_instr_hres c op).2.instrs i = c.instrs i)) := by
  obtain ⟨h1, h2, _, h4⟩ := push_instr_hres_spec c op
  rcases push_instr_hres_cases c op with ⟨h, _⟩ | ⟨h, _⟩
  · exact ⟨fun _ => h, fun hn => absurd (h ▸ failed_oom) hn⟩
  · obtain ⟨e1, e2⟩ := h4 h
    refine ⟨fun hf => absurd (h ▸ hf) not_failed_ok, fun _ => ⟨h, e1, ?_, ?_, h2⟩⟩
    · rw [e2]
    · rw [e2]


/-! ## Illegal assignments and delete expressions -/

theorem compile_expression_keeps (c : compiler_ctx_t) (e : expression_t) :
    Keeps c (compile_expression c e).2 :=
  ⟨(compile_expression_rel e (Rel.refl c)).off_ge, (compile_expression_rel e (Rel.refl c)).instrs_eq⟩

theorem appends_of_ne {c c1 : compiler_ctx_t} {op : jsop_t}
    (h1 : c1.code_off = c.code_off + 1) (h2 : (c1.instrs c.code_off).op = op)
    (h3 : ∀ i, i ≠ c.code_off → c1.instrs i = c.instrs i) : Appends c c1 op :=
  ⟨h1, h2, fun i hi => h3 i (Nat.ne_of_lt hi)⟩

theorem assign_illegal_unfold (ctx : compiler_ctx_t) (e1 e2 : expression_t) (op : jsop_t)
    (hm : is_memberid_expr e1.type = false) :
    compile_assign_expression ctx (.mk e1 e2) op =
      (if FAILED (compile_expression ctx e1).1 = true then compile_expression ctx e1 else
       if FAILED (compile_expression (compile_expression ctx e1).2 e2).1 = true then
         compile_expression (compile_expression ctx e1).2 e2 else
       if (if op ≠ OP_LAST then
             push_instr_hres (compile_expression (compile_expression ctx e1).2 e2).2 op
           else (S_OK, (compile_expression (compile_expression ctx e1).2 e2).2)).1
           = E_OUTOFMEMORY then
         (if op ≠ OP_LAST then
             push_instr_hres (compile_expression (compile_expression ctx e1).2 e2).2 op
           else (S_OK, (compile_expression (compile_expression ctx e1).2 e2).2))
       else
         push_instr_uint
           (if op ≠ OP_LAST then
             push_instr_hres (compile_expression (compile_expression ctx e1).2 e2).2 op
           else (S_OK, (compile_expression (compile_expression ctx e1).2 e2).2)).2
           OP_throw_ref JS_E_ILLEGAL_ASSIGN) := by
  rw [compile_assign_expression.eq_def]
  simp only [hm, Bool.not_false, if_true]
  rfl

/-- C14 (as the code has it): a simple or compound assignment whose left-hand side is not an
identifier, a member access or an indexed access. `compile_assign_expression` fails only if the
lowering of a side fails (and then with that result) or if an append fails (`E_OUTOFMEMORY`):
never because of the shape of the target. When it does not fail, the stream is the lowering of the
left side, then the lowering of the right side, then for a compound assignment the instruction
of the operator, then one `OP_throw_ref` carrying `JS_E_ILLEGAL_ASSIGN`, which is the last
instruction. -/
theorem illegal_assignment_lowering (ctx : compiler_ctx_t) (e1 e2 : expression_t) (op : jsop_t)
    (hm : is_memberid_expr e1.type = false) :
    (FAILED (compile_assign_expression ctx (.mk e1 e2) op).1 = true →
      (FAILED (compile_expression ctx e1).1 = true ∧
        compile_assign_expression ctx (.mk e1 e2) op = compile_expression ctx e1) ∨
      (FAILED (compile_expression (compile_expression ctx e1).2 e2).1 = true ∧
        compile_assign_expression ctx (.mk e1 e2) op =
          compile_expression (compile_expression ctx e1).2 e2) ∨
      (compile_assign_expression ctx (.mk e1 e2) op).1 = E_OUTOFMEMORY) ∧
    (¬ FAILED (compile_assign_expression ctx (.mk e1 e2) op).1 = true →
      (compile_assign_expression ctx (.mk e1 e2) op).1 = S_OK ∧
      ¬ FAILED (compile_expression ctx e1).1 = true ∧
      ¬ FAILED (compile_expression (compile_expression ctx e1).2 e2).1 = true ∧
      Keeps ctx (compile_expression ctx e1).2 ∧
      Keeps (compile_expression ctx e1).2 (compile_expression (compile_expression ctx e1).2 e2).2 ∧
      (op = OP_LAST →
        Appends (compile_expression (compile_expression ctx e1).2 e2).2
          (compile_assign_expression ctx (.mk e1 e2) op).2 OP_throw_ref ∧
        ((compile_assign_expression ctx (.mk e1 e2) op).2.instrs
          (compile_expression (compile_expression ctx e1).2 e2).2.code_off).arg1
          = .uint JS_E_ILLEGAL_ASSIGN) ∧
      (op ≠ OP_LAST →
        (compile_assign_expression ctx (.mk e1 e2) op).2.code_off =
          (compile_expression (compile_expression ctx e1).2 e2).2.code_off + 2 ∧
        (∀ i, i < (compile_expression (compile_expression ctx e1).2 e2).2.code_off →
          (compile_assign_expression ctx (.mk e1 e2) op).2.instrs i =
            (compile_expression (compile_expression ctx e1).2 e2).2.instrs i) ∧
        ((compile_assign_expression ctx (.mk e1 e2) op).2.instrs
          (compile_expression (compile_expression ctx e1).2 e2).2.code_off).op = op ∧
        ((compile_assign_expression ctx (.mk e1 e2) op).2.instrs
          ((compile_expression (compile_expression ctx e1).2 e2).2.code_off + 1)).op
          = OP_throw_ref ∧
        ((compile_assign_expression ctx (.mk e1 e2) op).2.instrs
          ((compile_expression (compile_expression ctx e1).2 e2).2.code_off + 1)).arg1
          = .uint JS_E_ILLEGAL_ASSIGN)) := by
  rw [assign_illegal_unfold ctx e1 e2 op hm]
  have kL := compile_expression_keeps ctx e1
  have kR := compile_expression_keeps (compile_expression ctx e1).2 e2
  generalize compile_expression ctx e1 = L at *
  by_cases hL : FAILED L.1 = true
  · rw [if_pos hL]
    exact ⟨fun _ => Or.inl ⟨hL, rfl⟩, fun h => absurd hL h⟩
  rw [if_neg hL]
  generalize compile_expression L.2 e2 = R at *
  by_cases hR : FAILED R.1 = true
  · rw [if_pos hR]
    exact ⟨fun _ => Or.inr (Or.inl ⟨hR, rfl⟩), fun h => absurd hR h⟩
  rw [if_neg hR]
  by_cases hop : op = OP_LAST
  · have e : (if op ≠ OP_LAST then push_instr_hres R.2 op else (S_OK, R.2)) = (S_OK, R.2) := by
      rw [if_neg (not_not.mpr hop)]
    rw [e, if_neg (show ¬ S_OK = E_OUTOFMEMORY by decide)]
    obtain ⟨f1, f2⟩ := push_instr_uint_ok R.2 OP_throw_ref JS_E_ILLEGAL_ASSIGN
    refine ⟨fun h => Or.inr (Or.inr (f1 h)), fun h => ?_⟩
    obtain ⟨g1, g2, g3, g4, g5⟩ := f2 h
    exact ⟨g1, hL, hR, kL, kR, fun _ => ⟨appends_of_ne g2 g3 g5, g4⟩, fun hn => absurd hop hn⟩
  · have e : (if op ≠ OP_LAST then push_instr_hres R.2 op else (S_OK, R.2))
        = push_instr_hres R.2 op := by
      rw [if_pos hop]
    rw [e]
    rcases push_instr_hres_cases R.2 op with ⟨p1, _⟩ | ⟨p1, _⟩
    · rw [if_pos p1]
      exact ⟨fun _ => Or.inr (Or.inr p1), fun h => absurd (p1 ▸ failed_oom) h⟩
    · rw [if_neg (by rw [p1]; decide)]
      obtain ⟨_, q⟩ := push_instr_hres_ok R.2 op
      obtain ⟨_, q2, q3, _, q5⟩ := q (by rw [p1]; exact not_failed_ok)
      obtain ⟨f1, f2⟩ := push_instr_uint_ok (push_instr_hres R.2 op).2 OP_throw_ref
        JS_E_ILLEGAL_ASSIGN
      refine ⟨fun h => Or.inr (Or.inr (f1 h)), fun h => ?_⟩
      obtain ⟨g1, g2, g3, g4, g5⟩ := f2 h
      rw [q2] at g2 g3 g4 g5
      refine ⟨g1, hL, hR, kL, kR, fun ho => absurd ho hop, fun _ => ⟨g2, fun i hi => ?_, ?_, g3, g4⟩⟩
      · rw [g5 i (by omega), q5 i (by omega)]
      · rw [g5 _ (by omega)]; exact q3

/-- The assignment `1 += 2` from the empty context: success, `OP_int`, `OP_int`, `OP_add`,
`OP_throw_ref`. -/
theorem illegal_assignment_lowering_witness :
    is_memberid_expr (expr_int 1).type = false ∧
    (compile_assign_expression ctx_empty (.mk (expr_int 1) (expr_int 2)) OP_add).1 = S_OK ∧
    (compile_assign_expression ctx_empty (.mk (expr_int 1) (expr_int 2)) OP_add).2.code_off
      = (compile_expression (compile_expression ctx_empty (expr_int 1)).2
          (expr_int 2)).2.code_off + 2 ∧
    emitted_ops (compile_assign_expression ctx_empty (.mk (expr_int 1) (expr_int 2)) OP_add).2
      0 4 = [OP_int, OP_int, OP_add, OP_throw_ref] :=
  ⟨rfl,
   ((illegal_assignment_lowering ctx_empty (expr_int 1) (expr_int 2) OP_add rfl).2
      (by decide)).1,
   (((illegal_assignment_lowering ctx_empty (expr_int 1) (expr_int 2) OP_add rfl).2
      (by decide)).2.2.2.2.2.2 (by decide)).1,
   by decide⟩

/-- The assignment `1 = 2` from the empty context: the instruction that follows the lowering of
the left side is the `OP_int` of the right side, not the `OP_throw_ref`, which comes third. -/
theorem illegal_assignment_right_side :
    (compile_assign_expression ctx_empty (.mk (expr_int 1) (expr_int 2)) OP_LAST).1 = S_OK ∧
    (compile_expression ctx_empty (expr_int 1)).2.code_off = 1 ∧
    ((compile_assign_expression ctx_empty (.mk (expr_int 1) (expr_int 2)) OP_LAST).2.instrs
      (compile_expression ctx_empty (expr_int 1)).2.code_off).op ≠ OP_throw_ref ∧
    emitted_ops (compile_assign_expression ctx_empty (.mk (expr_int 1) (expr_int 2)) OP_LAST).2
      0 3 = [OP_int, OP_int, OP_throw_ref] ∧
    (compile_assign_expression ctx_empty (.mk (expr_int 1) (expr_int 2)) OP_LAST).2.code_off
      = 3 := by
  decide

theorem delete_array_unfold (ctx : compiler_ctx_t) (e1 e2 : expression_t) :
    compile_delete_expression ctx (.mk (.binary .EXPR_ARRAY (.mk e1 e2))) =
      (if FAILED (compile_expression ctx e1).1 = true then compile_expression ctx e1 else
       if FAILED (compile_expression (compile_expression ctx e1).2 e2).1 = true then
         compile_expression (compile_expression ctx e1).2 e2 else
       push_instr_hres (compile_expression (compile_expression ctx e1).2 e2).2 OP_delete) := by
  rw [compile_delete_expression.eq_def]
  rfl

theorem delete_member_unfold (ctx : compiler_ctx_t) (e : expression_t) (identifier : String) :
    compile_delete_expression ctx (.mk (.EXPR_MEMBER (.mk e identifier))) =
      (if FAILED (compile_expression ctx e).1 = true then compile_expression ctx e else
       if FAILED (push_instr_str (compile_expression ctx e).2 OP_str identifier).1 = true then
         push_instr_str (compile_expression ctx e).2 OP_str identifier else
       push_instr_hres (push_instr_str (compile_expression ctx e).2 OP_str identifier).2
         OP_delete) := by
  rw [compile_delete_expression.eq_def]
  rfl

theorem delete_ident_unfold (ctx : compiler_ctx_t) (identifier : String) :
    compile_delete_expression ctx (.mk (.EXPR_IDENT ⟨identifier⟩)) =
      push_instr_bstr ctx OP_delete_ident identifier := by
  rw [compile_delete_expression.eq_def]
  rfl

theorem delete_other_unfold (ctx : compiler_ctx_t) (e : expression_t)
    (h1 : e.type ≠ .EXPR_ARRAY) (h2 : e.type ≠ .EXPR_MEMBER) (h3 : e.type ≠ .EXPR_IDENT) :
    compile_delete_expression ctx (.mk e) =
      (if FAILED (compile_expression ctx e).1 = true then compile_expression ctx e else
       push_instr_uint_str (compile_expression ctx e).2 OP_throw_type JS_E_INVALID_DELETE
         "FIXME") := by
  rw [compile_delete_expression.eq_def]
  dsimp only
  rw [if_neg h1, if_neg h2, if_neg h3]
  rfl

/-- C15: the four shapes of the operand of `delete`. Indexed access `a[k]`: the lowering of
the object, then the lowering of the key, then `OP_delete`. Member access `a.name`: the lowering
of the object, then `OP_str` with the member name, then `OP_delete`. Identifier: the single
instruction `OP_delete_ident` carrying the name. Any other operand: the lowering of the operand,
then `OP_throw_type` carrying `JS_E_INVALID_DELETE` and a diagnostic string. In each case the
instruction named last ends the stream, and the routine fails only with the result of a failing
sub-expression or with `E_OUTOFMEMORY` for a failed append: never because of the shape. -/
theorem delete_expression_lowering (ctx : compiler_ctx_t) :
    (∀ e1 e2 : expression_t,
      (FAILED (compile_delete_expression ctx (.mk (.binary .EXPR_ARRAY (.mk e1 e2)))).1 = true →
        (FAILED (compile_expression ctx e1).1 = true ∧
          compile_delete_expression ctx (.mk (.binary .EXPR_ARRAY (.mk e1 e2))) =
            compile_expression ctx e1) ∨
        (FAILED (compile_expression (compile_expression ctx e1).2 e2).1 = true ∧
          compile_delete_expression ctx (.mk (.binary .EXPR_ARRAY (.mk e1 e2))) =
            compile_expression (compile_expression ctx e1).2 e2) ∨
        (compile_delete_expression ctx (.mk (.binary .EXPR_ARRAY (.mk e1 e2)))).1
          = E_OUTOFMEMORY) ∧
      (¬ FAILED (compile_delete_expression ctx (.mk (.binary .EXPR_ARRAY (.mk e1 e2)))).1 = true →
        (compile_delete_expression ctx (.mk (.binary .EXPR_ARRAY (.mk e1 e2)))).1 = S_OK ∧
        ¬ FAILED (compile_expression ctx e1).1 = true ∧
        ¬ FAILED (compile_expression (compile_expression ctx e1).2 e2).1 = true ∧
        Keeps ctx (compile_expression ctx e1).2 ∧
        Keeps (compile_expression ctx e1).2
          (compile_expression (compile_expression ctx e1).2 e2).2 ∧
        Appends (compile_expression (compile_expression ctx e1).2 e2).2
          (compile_delete_expression ctx (.mk (.binary .EXPR_ARRAY (.mk e1 e2)))).2
          OP_delete)) ∧
    (∀ (e : expression_t) (identifier : String),
      (FAILED (compile_delete_expression ctx (.mk (.EXPR_MEMBER (.mk e identifier)))).1 = true →
        (FAILED (compile_expression ctx e).1 = true ∧
          compile_delete_expression ctx (.mk (.EXPR_MEMBER (.mk e identifier))) =
            compile_expression ctx e) ∨
        (compile_delete_expression ctx (.mk (.EXPR_MEMBER (.mk e identifier)))).1
          = E_OUTOFMEMORY) ∧
      (¬ FAILED (compile_delete_expression ctx (.mk (.EXPR_MEMBER (.mk e identifier)))).1 = true →
        (compile_delete_expression ctx (.mk (.EXPR_MEMBER (.mk e identifier)))).1 = S_OK ∧
        ¬ FAILED (compile_expression ctx e).1 = true ∧
        Keeps ctx (compile_expression ctx e).2 ∧
        (compile_delete_expression ctx (.mk (.EXPR_MEMBER (.mk e identifier)))).2.code_off =
          (compile_expression ctx e).2.code_off + 2 ∧
        (∀ i, i < (compile_expression ctx e).2.code_off →
          (compile_delete_expression ctx (.mk (.EXPR_MEMBER (.mk e identifier)))).2.instrs i =
            (compile_expression ctx e).2.instrs i) ∧
        ((compile_delete_expression ctx (.mk (.EXPR_MEMBER (.mk e identifier)))).2.instrs
          (compile_expression ctx e).2.code_off).op = OP_str ∧
        ((compile_delete_expression ctx (.mk (.EXPR_MEMBER (.mk e identifier)))).2.instrs
          (compile_expression ctx e).2.code_off).arg1 = .str identifier ∧
        ((compile_delete_expression ctx (.mk (.EXPR_MEMBER (.mk e identifier)))).2.instrs
          ((compile_expression ctx e).2.code_off + 1)).op = OP_delete)) ∧
    (∀ identifier : String,
      (FAILED (compile_delete_expression ctx (.mk (.EXPR_IDENT ⟨identifier⟩))).1 = true →
        (compile_delete_expression ctx (.mk (.EXPR_IDENT ⟨identifier⟩))).1 = E_OUTOFMEMORY) ∧
      (¬ FAILED (compile_delete_expression ctx (.mk (.EXPR_IDENT ⟨identifier⟩))).1 = true →
        (compile_delete_expression ctx (.mk (.EXPR_IDENT ⟨identifier⟩))).1 = S_OK ∧
        Appends ctx (compile_delete_expression ctx (.mk (.EXPR_IDENT ⟨identifier⟩))).2
          OP_delete_ident ∧
        ((compile_delete_expression ctx (.mk (.EXPR_IDENT ⟨identifier⟩))).2.instrs
          ctx.code_off).arg1 = .bstr (some identifier))) ∧
    (∀ e : expression_t, e.type ≠ .EXPR_ARRAY → e.type ≠ .EXPR_MEMBER → e.type ≠ .EXPR_IDENT →
      (FAILED (compile_delete_expression ctx (.mk e)).1 = true →
        (FAILED (compile_expression ctx e).1 = true ∧
          compile_delete_expression ctx (.mk e) = compile_expression ctx e) ∨
        (compile_delete_expression ctx (.mk e)).1 = E_OUTOFMEMORY) ∧
      (¬ FAILED (compile_delete_expression ctx (.mk e)).1 = true →
        (compile_delete_expression ctx (.mk e)).1 = S_OK ∧
        ¬ FAILED (compile_expression ctx e).1 = true ∧
        Keeps ctx (compile_expression ctx e).2 ∧
        Appends (compile_expression ctx e).2 (compile_delete_expression ctx (.mk e)).2
          OP_throw_type ∧
        ((compile_delete_expression ctx (.mk e)).2.instrs
          (compile_expression ctx e).2.code_off).arg1 = .uint JS_E_INVALID_DELETE ∧
        ((compile_delete_expression ctx (.mk e)).2.instrs
          (compile_expression ctx e).2.code_off).arg2 = .str "FIXME")) := by
  refine ⟨fun e1 e2 => ?_, fun e identifier => ?_, fun identifier => ?_, fun e h1 h2 h3 => ?_⟩
  · rw [delete_array_unfold]
    have kL := compile_expression_keeps ctx e1
    have kR := compile_expression_keeps (compile_expression ctx e1).2 e2
    generalize compile_expression ctx e1 = L at *
    by_cases hL : FAILED L.1 = true
    · rw [if_pos hL]
      exact ⟨fun _ => Or.inl ⟨hL, rfl⟩, fun h => absurd hL h⟩
    rw [if_neg hL]
    generalize compile_expression L.2 e2 = R at *
    by_cases hR : FAILED R.1 = true
    · rw [if_pos hR]
      exact ⟨fun _ => Or.inr (Or.inl ⟨hR, rfl⟩), fun h => absurd hR h⟩
    rw [if_neg hR]
    obtain ⟨f1, f2⟩ := push_instr_hres_ok R.2 OP_delete
    refine ⟨fun h => Or.inr (Or.inr (f1 h)), fun h => ?_⟩
    obtain ⟨g1, g2, g3, _, g5⟩ := f2 h
    exact ⟨g1, hL, hR, kL, kR, appends_of_ne g2 g3 g5⟩
  · rw [delete_member_unfold]
    have kL := compile_expression_keeps ctx e
    generalize compile_expression ctx e = L at *
    by_cases hL : FAILED L.1 = true
    · rw [if_pos hL]
      exact ⟨fun _ => Or.inl ⟨hL, rfl⟩, fun h => absurd hL h⟩
    rw [if_neg hL]
    obtain ⟨s1, s2⟩ := push_instr_str_ok L.2 OP_str identifier
    by_cases hS : FAILED (push_instr_str L.2 OP_str identifier).1 = true
    · rw [if_pos hS]
      exact ⟨fun _ => Or.inr (s1 hS), fun h => absurd hS h⟩
    rw [if_neg hS]
    obtain ⟨_, q2, q3, q4, q5⟩ := s2 hS
    obtain ⟨f1, f2⟩ := push_instr_hres_ok (push_instr_str L.2 OP_str identifier).2 OP_delete
    refine ⟨fun h => Or.inr (f1 h), fun h => ?_⟩
    obtain ⟨g1, g2, g3, _, g5⟩ := f2 h
    rw [q2] at g2 g3 g5
    refine ⟨g1, hL, kL, g2, fun i hi => ?_, ?_, ?_, g3⟩
    · rw [g5 i (by omega), q5 i (by omega)]
    · rw [g5 _ (by omega)]; exact q3
    · rw [g5 _ (by omega)]; exact q4
  · rw [delete_ident_unfold]
    obtain ⟨f1, f2⟩ := push_instr_bstr_ok ctx OP_delete_ident identifier
    refine ⟨f1, fun h => ?_⟩
    obtain ⟨g1, g2, g3, g4, g5⟩ := f2 h
    exact ⟨g1, appends_of_ne g2 g3 g5, g4⟩
  · rw [delete_other_unfold ctx e h1 h2 h3]
    have kL := compile_expression_keeps ctx e
    generalize compile_expression ctx e = L at *
    by_cases hL : FAILED L.1 = true
    · rw [if_pos hL]
      exact ⟨fun _ => Or.inl ⟨hL, rfl⟩, fun h => absurd hL h⟩
    rw [if_neg hL]
    obtain ⟨f1, f2⟩ := push_instr_uint_str_ok L.2 OP_throw_type JS_E_INVALID_DELETE "FIXME"
    refine ⟨fun h => Or.inr (f1 h), fun h => ?_⟩
    obtain ⟨g1, g2, g3, g4, g4', g5⟩ := f2 h
    exact ⟨g1, hL, kL, appends_of_ne g2 g3 g5, g4, g4'⟩

/-- The expressions `delete a[1]`, `delete a.b`, `delete a` and `delete 1` from the empty
context. -/
theorem delete_expression_lowering_witness :
    ((compile_delete_expression ctx_empty
        (.mk (.binary .EXPR_ARRAY (.mk (expr_ident "a") (expr_int 1))))).1 = S_OK ∧
      emitted_ops (compile_delete_expression ctx_empty
        (.mk (.binary .EXPR_ARRAY (.mk (expr_ident "a") (expr_int 1))))).2 0 3
        = [OP_ident, OP_int, OP_delete]) ∧
    ((compile_delete_expression ctx_empty
        (.mk (.EXPR_MEMBER (.mk (expr_ident "a") "b")))).1 = S_OK ∧
      emitted_ops (compile_delete_expression ctx_empty
        (.mk (.EXPR_MEMBER (.mk (expr_ident "a") "b")))).2 0 3
        = [OP_ident, OP_str, OP_delete]) ∧
    ((compile_delete_expression ctx_empty (.mk (.EXPR_IDENT ⟨"a"⟩))).1 = S_OK ∧
      emitted_ops (compile_delete_expression ctx_empty (.mk (.EXPR_IDENT ⟨"a"⟩))).2 0 1
        = [OP_delete_ident]) ∧
    ((compile_delete_expression ctx_empty (.mk (expr_int 1))).1 = S_OK ∧
      emitted_ops (compile_delete_expression ctx_empty (.mk (expr_int 1))).2 0 2
        = [OP_int, OP_throw_type]) :=
  ⟨⟨(((delete_expression_lowering ctx_empty).1 (expr_ident "a") (expr_int 1)).2 (by decide)).1,
     by decide⟩,
   ⟨(((delete_expression_lowering ctx_empty).2.1 (expr_ident "a") "b").2 (by decide)).1,
     by decide⟩,
   ⟨(((delete_expression_lowering ctx_empty).2.2.1 "a").2 (by decide)).1, by decide⟩,
   ⟨(((delete_expression_lowering ctx_empty).2.2.2 (expr_int 1) (by decide) (by decide)
      (by decide)).2 (by decide)).1, by decide⟩⟩


/-! ## A break out of a try block, and object literals -/

theorem push_instr_uint_emits (c : compiler_ctx_t) (op : jsop_t) (v : Nat)
    (hs : ¬ FAILED (push_instr_uint c op v).1 = true) :
    Emits c (push_instr_uint c op v).2 [op] := by
  obtain ⟨_, h2, h3, _, h5⟩ := (push_instr_uint_ok c op v).2 hs
  refine ⟨h2, fun i hi => h5 i (Nat.ne_of_lt hi), ?_⟩
  show [((push_instr_uint c op v).2.instrs (c.code_off + 0)).op] = [op]
  rw [Nat.add_zero, h3]

/-- C17: an unlabelled break lowered with, on top of the context stack, the frame of the try
block of a try statement without a catch block (two stack cells, an exception frame, no labels)
and below it the frame of a loop: when no append fails it appends, in this order,
`OP_pop_except` for the try frame, one `OP_pop` per stack cell reserved by the two frames that
are left (the two of the try frame, and those of the loop), `OP_undefined`, and a single `OP_jmp`,
the last instruction, whose operand is the break label of the loop. -/
theorem break_in_try_finally (ctx : compiler_ctx_t) (stat : branch_statement_t)
    (loop : statement_ctx_t) (rest : List statement_ctx_t)
    (hid : stat.identifier = none)
    (hst : ctx.stat_ctx = ⟨2, false, true, UINT_MAX, UINT_MAX⟩ :: loop :: rest)
    (hbl : loop.break_label ≠ UINT_MAX) (hsc : loop.using_scope = false)
    (hex : loop.using_except = false)
    (hs : ¬ FAILED (compile_break_statement ctx stat).1 = true) :
    (compile_break_statement ctx stat).1 = S_OK ∧
    Emits ctx (compile_break_statement ctx stat).2
      ([OP_pop_except] ++ List.replicate (2 + loop.stack_use) OP_pop ++ [OP_undefined, OP_jmp]) ∧
    ((compile_break_statement ctx stat).2.instrs
      ((compile_break_statement ctx stat).2.code_off - 1)).arg1 = .uint loop.break_label := by
  have hf : find_break_ctx ctx.stat_ctx 0 = some (1, loop) := by
    rw [hst]
    simp only [find_break_ctx, ne_eq, not_true_eq_false, if_false, hbl, not_false_eq_true, if_true,
      Nat.zero_add]
  have hu : unwind_ops ctx.stat_ctx 1 =
      [OP_pop_except] ++ List.replicate (2 + loop.stack_use) OP_pop := by
    rw [hst]
    simp [unwind_ops, frame_cleanup, hsc, hex]
  have hk : 1 < ctx.stat_ctx.length := by
    rw [hst]; simp
  unfold compile_break_statement at hs ⊢
  rw [hf] at hs ⊢
  simp only [hid, Option.isSome_none, Bool.false_eq_true, if_false] at hs ⊢
  by_cases hP : FAILED (pop_to_stat ctx 1).1 = true
  · rw [if_pos hP] at hs
    exact absurd hP hs
  rw [if_neg hP] at hs ⊢
  obtain ⟨_, eP⟩ := pop_to_stat_emits ctx 1 hk hP
  rw [hu] at eP
  by_cases hU : (push_instr (pop_to_stat ctx 1).2 OP_undefined).1 = UINT_MAX
  · rw [if_pos hU] at hs
    exact absurd failed_oom hs
  rw [if_neg hU] at hs ⊢
  have eU := push_instr_emits _ OP_undefined hU
  have eJ := push_instr_uint_emits _ OP_jmp loop.break_label hs
  obtain ⟨g1, g2, _, g4, _⟩ := (push_instr_uint_ok _ OP_jmp loop.break_label).2 hs
  refine ⟨g1, ?_, ?_⟩
  · have := emits_append (emits_append eP eU) eJ
    simpa [List.append_assoc] using this
  · rw [g2, Nat.add_sub_cancel]
    exact g4

/-- The break of `for(;;){ try { break; } finally { x; } }`: with the context stack it is lowered
with, and in the stream of the whole statement, where it stands at the offsets 3 to 7. -/
theorem break_in_try_finally_witness :
    ((compile_break_statement (ctx_frames [try_frame_sample, loop_frame_sample]) ⟨none⟩).1
        = S_OK ∧
      Emits (ctx_frames [try_frame_sample, loop_frame_sample])
        (compile_break_statement (ctx_frames [try_frame_sample, loop_frame_sample]) ⟨none⟩).2
        [OP_pop_except, OP_pop, OP_pop, OP_undefined, OP_jmp]) ∧
    (compile_statement ctx_empty none for_try_break_sample).1 = S_OK ∧
    emitted_ops (compile_statement ctx_empty none for_try_break_sample).2 2 6 =
      [OP_push_except, OP_pop_except, OP_pop, OP_pop, OP_undefined, OP_jmp] ∧
    ((compile_statement ctx_empty none for_try_break_sample).2.instrs 7).arg1
      = .uint 0x80000000 :=
  ⟨⟨(break_in_try_finally (ctx_frames [try_frame_sample, loop_frame_sample]) ⟨none⟩
      loop_frame_sample [] rfl rfl (by decide) rfl rfl (by decide)).1,
    (break_in_try_finally (ctx_frames [try_frame_sample, loop_frame_sample]) ⟨none⟩
      loop_frame_sample [] rfl rfl (by decide) rfl rfl (by decide)).2.1⟩,
   by decide, by decide, rfl⟩

/-- The name of a property as `literal_as_bstr` returns it when it succeeds; the stream is not
touched. -/
theorem literal_as_bstr_ok (c : compiler_ctx_t) (name : literal_t)
    (hs : ¬ FAILED (literal_as_bstr c name).1 = true) :
    (literal_as_bstr c name).2.1 = static_name name ∧
    (literal_as_bstr c name).2.2.code_off = c.code_off ∧
    (literal_as_bstr c name).2.2.instrs = c.instrs := by
  have hr := literal_as_bstr_rel name (Rel.refl c)
  cases name with
  | LT_STRING wstr =>
    obtain ⟨a1, a2, _⟩ := compiler_alloc_bstr_proj c wstr
    refine ⟨?_, a2, a1⟩
    unfold literal_as_bstr at hs ⊢
    dsimp only at hs ⊢
    rcases compiler_alloc_bstr_val c wstr with hv | hv
    · rw [hv] at hs
      exact absurd failed_oom hs
    · rw [hv]; rfl
  | LT_INT lval =>
    obtain ⟨b, hp, e⟩ := heap_alloc_cases c
    unfold literal_as_bstr int_to_bstr at hs ⊢
    dsimp only at hs ⊢
    rw [e] at hs ⊢
    cases b
    · exact absurd failed_oom hs
    · exact ⟨rfl, rfl, rfl⟩
  | LT_DOUBLE dval =>
    obtain ⟨b, hp, e⟩ := heap_alloc_cases c
    unfold literal_as_bstr double_to_bstr at hs ⊢
    dsimp only at hs ⊢
    rw [e] at hs ⊢
    cases b
    · exact absurd failed_oom hs
    · exact ⟨rfl, rfl, rfl⟩
  | LT_BOOL _ => exact absurd failed_oom hs
  | LT_NULL => exact absurd failed_oom hs
  | LT_REGEXP _ _ _ => exact absurd failed_oom hs

theorem compile_property_list_step (c : compiler_ctx_t) (name : literal_t) (value : expression_t)
    (next : prop_val_t) :
    compile_property_list c (.mk name value next) =
      (if FAILED (literal_as_bstr c name).1 = true then
        ((literal_as_bstr c name).1, (literal_as_bstr c name).2.2) else
       if FAILED (compile_expression (literal_as_bstr c name).2.2 value).1 = true then
        compile_expression (literal_as_bstr c name).2.2 value else
       if (push_instr (compile_expression (literal_as_bstr c name).2.2 value).2 OP_obj_prop).1
          = UINT_MAX then
        (E_OUTOFMEMORY,
          (push_instr (compile_expression (literal_as_bstr c name).2.2 value).2 OP_obj_prop).2)
       else
        compile_property_list
          (set_arg1
            (push_instr (compile_expression (literal_as_bstr c name).2.2 value).2 OP_obj_prop).2
            (push_instr (compile_expression (literal_as_bstr c name).2.2 value).2 OP_obj_prop).1
            (.bstr (literal_as_bstr c name).2.1)) next) := by
  rw [compile_property_list.eq_def]
  rfl

theorem compile_property_list_layout :
    ∀ (props : prop_val_t) (c : compiler_ctx_t),
      ¬ FAILED (compile_property_list c props).1 = true →
      (compile_property_list c props).1 = S_OK ∧
      ObjectLayout (compile_property_list c props).2 c.code_off props.toList
  | .NULL, c, _ => by
    rw [compile_property_list]
    exact ⟨rfl, rfl⟩
  | .mk name value next, c, hs => by
    rw [compile_property_list_step] at hs ⊢
    by_cases h1 : FAILED (literal_as_bstr c name).1 = true
    · rw [if_pos h1] at hs
      exact absurd h1 hs
    rw [if_neg h1] at hs ⊢
    obtain ⟨n1, n2, n3⟩ := literal_as_bstr_ok c name h1
    have kv := compile_expression_keeps (literal_as_bstr c name).2.2 value
    by_cases h2 : FAILED (compile_expression (literal_as_bstr c name).2.2 value).1 = true
    · rw [if_pos h2] at hs
      exact absurd h2 hs
    rw [if_neg h2] at hs ⊢
    generalize hv : compile_expression (literal_as_bstr c name).2.2 value = v at *
    by_cases h3 : (push_instr v.2 OP_obj_prop).1 = UINT_MAX
    · rw [if_pos h3] at hs
      exact absurd failed_oom hs
    rw [if_neg h3] at hs ⊢
    obtain ⟨p1, p2, p3, p4, _⟩ := push_instr_ok v.2 OP_obj_prop h3
    obtain ⟨r1, r2⟩ := compile_property_list_layout next _ hs
    have hr := compile_property_list_rel next
      (Rel.refl (set_arg1 (push_instr v.2 OP_obj_prop).2 (push_instr v.2 OP_obj_prop).1
        (.bstr (literal_as_bstr c name).2.1)))
    have ho : (set_arg1 (push_instr v.2 OP_obj_prop).2 (push_instr v.2 OP_obj_prop).1
        (.bstr (literal_as_bstr c name).2.1)).code_off = v.2.code_off + 1 := p2
    have hfin : ∀ i, i < v.2.code_off + 1 →
        (compile_property_list (set_arg1 (push_instr v.2 OP_obj_prop).2
          (push_instr v.2 OP_obj_prop).1 (.bstr (literal_as_bstr c name).2.1)) next).2.instrs i =
        (set_arg1 (push_instr v.2 OP_obj_prop).2 (push_instr v.2 OP_obj_prop).1
          (.bstr (literal_as_bstr c name).2.1)).instrs i := by
      intro i hi
      exact hr.instrs_eq i (by rw [ho]; exact hi)
    have hlow : ∀ i, i < v.2.code_off →
        (set_arg1 (push_instr v.2 OP_obj_prop).2 (push_instr v.2 OP_obj_prop).1
          (.bstr (literal_as_bstr c name).2.1)).instrs i = v.2.instrs i := by
      intro i hi
      rw [p1, set_arg1_other _ _ (Nat.ne_of_lt hi), p4 i (Nat.ne_of_lt hi)]
    have hat : (set_arg1 (push_instr v.2 OP_obj_prop).2 (push_instr v.2 OP_obj_prop).1
          (.bstr (literal_as_bstr c name).2.1)).instrs v.2.code_off =
        { (push_instr v.2 OP_obj_prop).2.instrs v.2.code_off with
          arg1 := .bstr (literal_as_bstr c name).2.1 } := by
      rw [p1, set_arg1_same]
    refine ⟨r1, (literal_as_bstr c name).2.2, n2, fun i hi => ?_, ?_, fun i hi => ?_, ?_, ?_, ?_⟩
    · have h4 : i < v.2.code_off := lt_of_lt_of_le (n2 ▸ hi) kv.1
      rw [hfin i (Nat.lt_succ_of_lt h4), hlow i h4, kv.2 i (n2 ▸ hi)]
    · rw [hv]; exact h2
    · rw [hv] at hi ⊢
      rw [hfin i (Nat.lt_succ_of_lt hi), hlow i hi]
    · rw [hv, hfin _ (Nat.lt_succ_self _), hat]
      exact p3
    · rw [hv, hfin _ (Nat.lt_succ_self _), hat, n1]
    · rw [hv]
      rw [ho] at r2
      exact r2

/-- C18: an object literal with the properties `props`, when its lowering does not fail: the
instruction at the entry offset is `OP_new_obj`, the stream before is kept, and from the next
offset on the stream has the layout `ObjectLayout`: for each property in source order the
lowering of its value and then one `OP_obj_prop` whose operand is the static name of the
property (the text of a string literal, the canonical string of a numeric literal), the last of
them ending the stream; so there is one `OP_obj_prop` of this level per property. -/
theorem object_literal_lowering (ctx : compiler_ctx_t) (props : prop_val_t)
    (hs : ¬ FAILED (compile_object_literal ctx (.mk props)).1 = true) :
    (compile_object_literal ctx (.mk props)).1 = S_OK ∧
    Keeps ctx (compile_object_literal ctx (.mk props)).2 ∧
    ((compile_object_literal ctx (.mk props)).2.instrs ctx.code_off).op = OP_new_obj ∧
    ObjectLayout (compile_object_literal ctx (.mk props)).2 (ctx.code_off + 1) props.toList := by
  have hk := compile_object_literal_rel (.mk props) (Rel.refl ctx)
  rw [compile_object_literal.eq_def] at hs ⊢
  dsimp only at hs ⊢
  by_cases h3 : (push_instr ctx OP_new_obj).1 = UINT_MAX
  · rw [if_pos h3] at hs
    exact absurd failed_oom hs
  rw [if_neg h3] at hs ⊢
  obtain ⟨_, p2, p3, p4, _⟩ := push_instr_ok ctx OP_new_obj h3
  obtain ⟨r1, r2⟩ := compile_property_list_layout props _ hs
  have hr := compile_property_list_rel props (Rel.refl (push_instr ctx OP_new_obj).2)
  have hk2 := (push_instr_rel OP_new_obj (Rel.refl ctx)).trans hr
  refine ⟨r1, ⟨hk2.off_ge, hk2.instrs_eq⟩, ?_, ?_⟩
  · rw [hr.instrs_eq _ (by rw [p2]; exact Nat.lt_succ_self _)]
    exact p3
  · rw [p2] at r2
    exact r2

/-- The object literal `{a: 1, "b": 2}` from the empty context: `OP_new_obj`, `OP_int`,
`OP_obj_prop` with "a", `OP_int`, `OP_obj_prop` with "b". -/
theorem object_literal_lowering_witness :
    (compile_object_literal ctx_empty object_literal_sample).1 = S_OK ∧
    ((compile_object_literal ctx_empty object_literal_sample).2.instrs 0).op = OP_new_obj ∧
    (compile_object_literal ctx_empty object_literal_sample).2.code_off = 5 ∧
    emitted_ops (compile_object_literal ctx_empty object_literal_sample).2 0 5 =
      [OP_new_obj, OP_int, OP_obj_prop, OP_int, OP_obj_prop] ∧
    ((compile_object_literal ctx_empty object_literal_sample).2.instrs 1).arg1 = .lng 1 ∧
    ((compile_object_literal ctx_empty object_literal_sample).2.instrs 2).arg1
      = .bstr (some "a") ∧
    ((compile_object_literal ctx_empty object_literal_sample).2.instrs 3).arg1 = .lng 2 ∧
    ((compile_object_literal ctx_empty object_literal_sample).2.instrs 4).arg1
      = .bstr (some "b") :=
  ⟨(object_literal_lowering ctx_empty
      (.mk (.LT_STRING "a") (expr_int 1) (.mk (.LT_STRING "b") (expr_int 2) .NULL))
      (by decide)).1,
   (object_literal_lowering ctx_empty
      (.mk (.LT_STRING "a") (expr_int 1) (.mk (.LT_STRING "b") (expr_int 2) .NULL))
      (by decide)).2.2.1,
   by decide, by decide, rfl, rfl, rfl, rfl⟩


/-! ## The jumps of a switch statement -/

/-- The loop over the clause expressions, when it does not fail: the jumps it has recorded are
`OP_case` instructions of the stream, in increasing order, and it has seen the default clause
if there is one. -/
theorem compile_case_exprs_inv :
    ∀ (cl : case_clausule_t) (v : case_loop_t), JmpInv v.case_jmps v.i v.ctx →
      ¬ FAILED (compile_case_exprs v cl).hres = true →
      JmpInv (compile_case_exprs v cl).case_jmps (v.i + case_count cl)
        (compile_case_exprs v cl).ctx ∧
      (0 < default_count cl → (compile_case_exprs v cl).have_default = true) ∧
      (v.have_default = true → (compile_case_exprs v cl).have_default = true)
  | .NULL, v, h, _ => by
    rw [compile_case_exprs, case_count, default_count]
    exact ⟨h, fun h0 => absurd h0 (Nat.lt_irrefl 0), id⟩
  | .mk none stat next, v, h, hf => by
    rw [compile_case_exprs] at hf ⊢
    obtain ⟨r1, _, r3⟩ := compile_case_exprs_inv next { v with have_default := true } h hf
    refine ⟨?_, fun _ => r3 rfl, fun _ => r3 rfl⟩
    rw [case_count]
    simpa using r1
  | .mk (some e) stat next, v, h, hf => by
    rw [compile_case_exprs] at hf ⊢
    dsimp only at hf ⊢
    have kv := compile_expression_keeps v.ctx e
    have k1 : v.ctx.code_off ≤ (compile_expression v.ctx e).2.code_off := kv.1
    by_cases h1 : FAILED (compile_expression v.ctx e).1 = true
    · rw [if_pos h1] at hf
      exact absurd h1 hf
    rw [if_neg h1] at hf ⊢
    by_cases h2 : (push_instr (compile_expression v.ctx e).2 OP_case).1 = UINT_MAX
    · rw [if_pos h2] at hf
      exact absurd failed_oom hf
    rw [if_neg h2] at hf ⊢
    obtain ⟨p1, p2, p3, p4, _⟩ := push_instr_ok (compile_expression v.ctx e).2 OP_case h2
    have hinv : JmpInv
        (Function.update v.case_jmps v.i (push_instr (compile_expression v.ctx e).2 OP_case).1)
        (v.i + 1) (push_instr (compile_expression v.ctx e).2 OP_case).2 := by
      intro j hj
      rw [p1, p2]
      by_cases ej : j = v.i
      · subst ej
        rw [Function.update_same]
        refine ⟨Nat.lt_succ_self _, p3, fun j' hj' => ?_⟩
        rw [Function.update_noteq (Nat.ne_of_lt hj')]
        exact lt_of_lt_of_le (h j' hj').1 kv.1
      · have hjl : j < v.i := by omega
        obtain ⟨a1, a2, a3⟩ := h j hjl
        rw [Function.update_noteq ej]
        refine ⟨by omega, ?_, fun j' hj' => ?_⟩
        · rw [p4 _ (by omega), kv.2 _ a1]
          exact a2
        · rw [Function.update_noteq (by omega)]
          exact a3 j' hj'
    obtain ⟨r1, r2, _⟩ := compile_case_exprs_inv next
      { v with hres := (compile_expression v.ctx e).1,
               ctx := (push_instr (compile_expression v.ctx e).2 OP_case).2,
               case_jmps := Function.update v.case_jmps v.i
                 (push_instr (compile_expression v.ctx e).2 OP_case).1,
               i := v.i + 1 } hinv hf
    have r3 := (compile_case_exprs_inv next
      { v with hres := (compile_expression v.ctx e).1,
               ctx := (push_instr (compile_expression v.ctx e).2 OP_case).2,
               case_jmps := Function.update v.case_jmps v.i
                 (push_instr (compile_expression v.ctx e).2 OP_case).1,
               i := v.i + 1 } hinv hf).2.2
    refine ⟨?_, fun hd => r2 ?_, fun hv => r3 hv⟩
    · rw [case_count]
      simp only [Option.isSome_some, if_true]
      have e3 : v.i + (1 + case_count next) = v.i + 1 + case_count next := by omega
      rw [e3]
      exact r1
    · rw [default_count] at hd
      simpa using hd

theorem switch_layout_step (final : compiler_ctx_t) (sc : statement_ctx_t) (off_backup : Nat)
    (stat : statement_t) (cj : Nat → Nat) (dj i off : Nat) (expr : Option expression_t)
    (iter_stat : statement_list) (next : case_clausule_t) :
    SwitchLayout final sc off_backup stat cj dj i off (.mk expr iter_stat next) =
    ((final.instrs (if expr.isSome then cj i else dj)).arg1 = .uint off ∧
    if !next.is_null && next.stat.ptr_eq iter_stat then
      SwitchLayout final sc off_backup stat cj dj (if expr.isSome then i + 1 else i) off next
    else
      ∃ (s : compiler_ctx_t) (hres : HRESULT), s.code_off = off ∧
        (compile_case_statements s sc off_backup stat next hres iter_stat).2.2 = false ∧
        ¬ FAILED (compile_case_statements s sc off_backup stat next hres iter_stat).1 = true ∧
        (∀ k, off ≤ k →
          k < (compile_case_statements s sc off_backup stat next hres iter_stat).2.1.code_off →
          final.instrs k =
            (compile_case_statements s sc off_backup stat next hres iter_stat).2.1.instrs k) ∧
        SwitchLayout final sc off_backup stat cj dj (if expr.isSome then i + 1 else i)
          (compile_case_statements s sc off_backup stat next hres iter_stat).2.1.code_off
          next) := rfl

/-- The loop over the clause bodies, when it ends without a fallback and without a failure: the
stream of `final`, which is the stream it leaves up to a later patch of the default jump, has the
layout of the clauses; the instructions below the entry offset that are not jumps of the
clauses are kept, and so are all the opcodes below the entry offset. -/
theorem compile_case_bodies_layout (sc : statement_ctx_t) (off : Nat) (stat : statement_t)
    (cj : Nat → Nat) (dj : Nat) (final : compiler_ctx_t) (R : case_body_t) :
    ∀ (cl : case_clausule_t) (c : compiler_ctx_t) (i : Nat) (hres : HRESULT),
      R = compile_case_bodies c sc off stat cj dj i hres cl →
      (∀ j, i ≤ j → j < i + case_count cl →
        cj j < c.code_off ∧ cj j ≠ dj ∧ ∀ j', i ≤ j' → j' < j → cj j' ≠ cj j) →
      dj < c.code_off → default_count cl ≤ 1 →
      R.returned = false → ¬ FAILED R.hres = true →
      final.code_off = R.ctx.code_off → (∀ p, p ≠ dj → final.instrs p = R.ctx.instrs p) →
      (0 < default_count cl → final.instrs dj = R.ctx.instrs dj) →
      SwitchLayout final sc off stat cj dj i c.code_off cl ∧ c.code_off ≤ R.ctx.code_off ∧
      (∀ p, p < c.code_off → (∀ j, i ≤ j → j < i + case_count cl → cj j ≠ p) →
        (0 < default_count cl → dj ≠ p) → R.ctx.instrs p = c.instrs p) ∧
      (∀ p, p < c.code_off → (R.ctx.instrs p).op = (c.instrs p).op)
  | .NULL, c, i, hres, hR, _, _, _, _, _, hf1, _, _ => by
    rw [compile_case_bodies] at hR
    subst hR
    exact ⟨hf1, le_refl _, fun _ _ _ _ => rfl, fun _ _ => rfl⟩
  | .mk expr iter_stat next, c, i, hres, hR, hs, hd, hdc, hret, hok, hf1, hf2, hf3 => by
    have hcnt : case_count (.mk expr iter_stat next)
        = (if expr.isSome then 1 else 0) + case_count next := by rw [case_count]
    have hdcnt : default_count (.mk expr iter_stat next)
        = (if expr.isSome then 0 else 1) + default_count next := by rw [default_count]
    rw [hcnt] at hs
    rw [hdcnt] at hdc hf3
    have hi1 : (if expr.isSome = true then i + 1 else i) + case_count next
        = i + ((if expr.isSome = true then 1 else 0) + case_count next) := by
      split <;> omega
    have hi1' : i ≤ (if expr.isSome = true then i + 1 else i) := by
      split <;> omega
    have hslot_lt : (if expr.isSome = true then cj i else dj) < c.code_off := by
      split
      · rename_i hsome
        exact (hs i (le_refl _) (by rw [if_pos hsome]; omega)).1
      · exact hd
    have hs' : ∀ j, (if expr.isSome = true then i + 1 else i) ≤ j →
        j < (if expr.isSome = true then i + 1 else i) + case_count next →
        cj j < c.code_off ∧ cj j ≠ dj ∧
          ∀ j', (if expr.isSome = true then i + 1 else i) ≤ j' → j' < j → cj j' ≠ cj j := by
      intro j h1 h2
      obtain ⟨a1, a2, a3⟩ := hs j (le_trans hi1' h1) (by rw [← hi1]; exact h2)
      exact ⟨a1, a2, fun j' h3 h4 => a3 j' (le_trans hi1' h3) h4⟩
    have hslot_notin : ∀ j, (if expr.isSome = true then i + 1 else i) ≤ j →
        j < (if expr.isSome = true then i + 1 else i) + case_count next →
        cj j ≠ (if expr.isSome = true then cj i else dj) := by
      intro j h1 h2
      obtain ⟨_, a2, a3⟩ := hs j (le_trans hi1' h1) (by rw [← hi1]; exact h2)
      by_cases hsome : expr.isSome = true
      · rw [if_pos hsome] at h1 ⊢
        exact fun e => a3 i (le_refl _) (by omega) e.symm
      · rw [if_neg hsome]
        exact a2
    have hslot_def : 0 < default_count next → dj ≠ (if expr.isSome = true then cj i else dj) := by
      intro h0
      by_cases hsome : expr.isSome = true
      · rw [if_pos hsome]
        exact fun e => (hs i (le_refl _) (by rw [if_pos hsome]; omega)).2.1 e.symm
      · rw [if_neg hsome] at hdc
        omega
    have hfin_slot : final.instrs (if expr.isSome = true then cj i else dj)
        = R.ctx.instrs (if expr.isSome = true then cj i else dj) := by
      by_cases hsome : expr.isSome = true
      · rw [if_pos hsome]
        exact hf2 _ (hs i (le_refl _) (by rw [if_pos hsome]; omega)).2.1
      · rw [if_neg hsome]
        exact hf3 (by rw [if_neg hsome]; omega)
    have cont : ∀ (c' : compiler_ctx_t) (hres' : HRESULT),
        R = compile_case_bodies c' sc off stat cj dj (if expr.isSome = true then i + 1 else i)
          hres' next →
        c.code_off ≤ c'.code_off →
        (∀ p, p < c.code_off → p ≠ (if expr.isSome = true then cj i else dj) →
          c'.instrs p = c.instrs p) →
        (∀ p, p < c.code_off → (c'.instrs p).op = (c.instrs p).op) →
        (c'.instrs (if expr.isSome = true then cj i else dj)).arg1 = .uint c.code_off →
        (final.instrs (if expr.isSome = true then cj i else dj)).arg1 = .uint c.code_off ∧
        SwitchLayout final sc off stat cj dj (if expr.isSome = true then i + 1 else i)
          c'.code_off next ∧
        c.code_off ≤ R.ctx.code_off ∧
        (∀ p, p < c.code_off →
          (∀ j, i ≤ j → j < i + ((if expr.isSome = true then 1 else 0) + case_count next) →
            cj j ≠ p) →
          (0 < (if expr.isSome = true then 0 else 1) + default_count next → dj ≠ p) →
          R.ctx.instrs p = c.instrs p) ∧
        (∀ p, p < c.code_off → (R.ctx.instrs p).op = (c.instrs p).op) ∧
        (∀ k, c.code_off ≤ k → k < c'.code_off → final.instrs k = c'.instrs k) := by
      intro c' hres' hR' k1 k2 k3 k4
      obtain ⟨l1, l2, l3, l4⟩ := compile_case_bodies_layout sc off stat cj dj final R next c'
        (if expr.isSome = true then i + 1 else i) hres' hR'
        (fun j h1 h2 => ⟨lt_of_lt_of_le (hs' j h1 h2).1 k1, (hs' j h1 h2).2⟩)
        (lt_of_lt_of_le hd k1) (by omega) hret hok hf1 hf2
        (fun h0 => hf3 (by omega))
      refine ⟨?_, l1, le_trans k1 l2, fun p hp hn hdn => ?_, fun p hp => ?_, fun k hk1 hk2 => ?_⟩
      · rw [hfin_slot, l3 _ (lt_of_lt_of_le hslot_lt k1) hslot_notin hslot_def]
        exact k4
      · have hps : p ≠ (if expr.isSome = true then cj i else dj) := by
          by_cases hsome : expr.isSome = true
          · rw [if_pos hsome]
            exact fun e => hn i (le_refl _) (by rw [if_pos hsome]; omega) e.symm
          · rw [if_neg hsome]
            exact fun e => hdn (by rw [if_neg hsome]; omega) e.symm
        rw [l3 p (lt_of_lt_of_le hp k1)
          (fun j h1 h2 => hn j (le_trans hi1' h1) (by rw [← hi1]; exact h2))
          (fun h0 => hdn (by omega))]
        exact k2 p hp hps
      · rw [l4 p (lt_of_lt_of_le hp k1)]
        exact k3 p hp
      · rw [hf2 k (by omega)]
        exact l3 k hk2
          (fun j h1 h2 => Nat.ne_of_lt (lt_of_lt_of_le (hs' j h1 h2).1 hk1))
          (fun _ => by omega)
    have c1off : (set_arg1 c (if expr.isSome = true then cj i else dj)
        (.uint c.code_off)).code_off = c.code_off := rfl
    have c1same := set_arg1_same c (if expr.isSome = true then cj i else dj) (.uint c.code_off)
    have c1ops : ∀ p, ((set_arg1 c (if expr.isSome = true then cj i else dj)
        (.uint c.code_off)).instrs p).op = (c.instrs p).op := by
      intro p
      by_cases e : p = (if expr.isSome = true then cj i else dj)
      · rw [e, c1same]
      · rw [set_arg1_other _ _ e]
    rw [switch_layout_step, hcnt, hdcnt]
    by_cases hc : (!next.is_null && next.stat.ptr_eq iter_stat) = true
    · rw [if_pos hc]
      have hR' : R = compile_case_bodies
          (set_arg1 c (if expr.isSome = true then cj i else dj) (.uint c.code_off)) sc off stat
          cj dj (if expr.isSome = true then i + 1 else i) hres next := by
        rw [hR, compile_case_bodies_unfold]
        exact if_pos hc
      obtain ⟨m1, m2, m3, m4, m5, _⟩ := cont _ hres hR' (le_refl _)
        (fun p _ hps => set_arg1_other _ _ hps) (fun p _ => c1ops p)
        (by rw [c1same])
      exact ⟨⟨m1, m2⟩, m3, m4, m5⟩
    · rw [if_neg hc]
      have hrel := fun hr => @compile_case_statements_rel iter_stat c.code_off c.labels_cnt off
        _ sc stat next _ hres
        (Rel.refl (set_arg1 c (if expr.isSome = true then cj i else dj) (.uint c.code_off))) hr
      by_cases hb : (compile_case_statements
          (set_arg1 c (if expr.isSome = true then cj i else dj) (.uint c.code_off)) sc off stat
          next hres iter_stat).2.2 = true
      · have hR' : R = ⟨(compile_case_statements
            (set_arg1 c (if expr.isSome = true then cj i else dj) (.uint c.code_off)) sc off
            stat next hres iter_stat).1, (compile_case_statements
            (set_arg1 c (if expr.isSome = true then cj i else dj) (.uint c.code_off)) sc off
            stat next hres iter_stat).2.1, (if expr.isSome = true then i + 1 else i), true⟩ := by
          rw [hR, compile_case_bodies_unfold]
          exact (if_neg hc).trans (if_pos hb)
        rw [hR'] at hret
        exact absurd hret (by simp)
      by_cases hfb : FAILED (compile_case_statements
          (set_arg1 c (if expr.isSome = true then cj i else dj) (.uint c.code_off)) sc off stat
          next hres iter_stat).1 = true
      · have hR' : R = ⟨(compile_case_statements
            (set_arg1 c (if expr.isSome = true then cj i else dj) (.uint c.code_off)) sc off
            stat next hres iter_stat).1, (compile_case_statements
            (set_arg1 c (if expr.isSome = true then cj i else dj) (.uint c.code_off)) sc off
            stat next hres iter_stat).2.1, (if expr.isSome = true then i + 1 else i), false⟩ := by
          rw [hR, compile_case_bodies_unfold]
          exact (if_neg hc).trans ((if_neg hb).trans (if_pos hfb))
        rw [hR'] at hok
        exact absurd hfb hok
      have hR' : R = compile_case_bodies (compile_case_statements
            (set_arg1 c (if expr.isSome = true then cj i else dj) (.uint c.code_off)) sc off
            stat next hres iter_stat).2.1 sc off stat cj dj
            (if expr.isSome = true then i + 1 else i) (compile_case_statements
            (set_arg1 c (if expr.isSome = true then cj i else dj) (.uint c.code_off)) sc off
            stat next hres iter_stat).1 next := by
        rw [hR, compile_case_bodies_unfold]
        exact (if_neg hc).trans ((if_neg hb).trans (if_neg hfb))
      have hb' : (compile_case_statements
          (set_arg1 c (if expr.isSome = true then cj i else dj) (.uint c.code_off)) sc off stat
          next hres iter_stat).2.2 = false := by simpa using hb
      have hr := hrel (Or.inl hb')
      have hoff := hr.off_ge
      have hin := hr.instrs_eq
      obtain ⟨m1, m2, m3, m4, m5, m6⟩ := cont _ _ hR' hoff
        (fun p hp hps => by rw [hin p hp]; exact set_arg1_other _ _ hps)
        (fun p hp => by rw [hin p hp]; exact c1ops p)
        (by rw [hin _ hslot_lt, c1same])
      exact ⟨⟨m1, _, hres, c1off, hb', hfb, m6, m2⟩, m3, m4, m5⟩

/-- The two instructions `OP_pop`, `OP_jmp` that follow the clause expressions, when the block
does not fail. -/
theorem switch_jmp_facts (v : case_loop_t)
    (hs : ¬ FAILED
      (if SUCCEEDED v.hres = true then
        if (push_instr v.ctx OP_pop).1 ≠ UINT_MAX then
          ((if (push_instr (push_instr v.ctx OP_pop).2 OP_jmp).1 = UINT_MAX then E_OUTOFMEMORY
            else v.hres, (push_instr (push_instr v.ctx OP_pop).2 OP_jmp).2),
            (push_instr (push_instr v.ctx OP_pop).2 OP_jmp).1)
        else ((E_OUTOFMEMORY, (push_instr v.ctx OP_pop).2), 0)
      else ((v.hres, v.ctx), 0) : (HRESULT × compiler_ctx_t) × Nat).1.1 = true) :
    ¬ FAILED v.hres = true ∧
    (if SUCCEEDED v.hres = true then
        if (push_instr v.ctx OP_pop).1 ≠ UINT_MAX then
          ((if (push_instr (push_instr v.ctx OP_pop).2 OP_jmp).1 = UINT_MAX then E_OUTOFMEMORY
            else v.hres, (push_instr (push_instr v.ctx OP_pop).2 OP_jmp).2),
            (push_instr (push_instr v.ctx OP_pop).2 OP_jmp).1)
        else ((E_OUTOFMEMORY, (push_instr v.ctx OP_pop).2), 0)
      else ((v.hres, v.ctx), 0) : (HRESULT × compiler_ctx_t) × Nat) =
      ((v.hres, (push_instr (push_instr v.ctx OP_pop).2 OP_jmp).2), v.ctx.code_off + 1) ∧
    (push_instr (push_instr v.ctx OP_pop).2 OP_jmp).2.code_off = v.ctx.code_off + 2 ∧
    ((push_instr (push_instr v.ctx OP_pop).2 OP_jmp).2.instrs (v.ctx.code_off + 1)).op = OP_jmp ∧
    (∀ p, p < v.ctx.code_off →
      (push_instr (push_instr v.ctx OP_pop).2 OP_jmp).2.instrs p = v.ctx.instrs p) := by
  by_cases h1 : SUCCEEDED v.hres = true
  · rw [if_pos h1] at hs ⊢
    by_cases h2 : (push_instr v.ctx OP_pop).1 ≠ UINT_MAX
    · rw [if_pos h2] at hs ⊢
      dsimp only at hs ⊢
      by_cases h3 : (push_instr (push_instr v.ctx OP_pop).2 OP_jmp).1 = UINT_MAX
      · rw [if_pos h3] at hs
        exact absurd failed_oom hs
      · rw [if_neg h3]
        obtain ⟨_, a2, _, a4, _⟩ := push_instr_ok v.ctx OP_pop h2
        obtain ⟨b1, b2, b3, b4, _⟩ := push_instr_ok (push_instr v.ctx OP_pop).2 OP_jmp h3
        rw [a2] at b1 b2 b3 b4
        refine ⟨succeeded_not_failed h1, by rw [b1], b2, b3, fun p hp => ?_⟩
        rw [b4 p (by omega), a4 p (by omega)]
    · rw [if_neg h2] at hs
      exact absurd failed_oom hs
  · rw [if_neg h1] at hs
    refine absurd ?_ h1
    simp only [FAILED, SUCCEEDED, decide_eq_true_eq, not_lt] at hs ⊢
    exact hs

/-- C16: a switch statement that is lowered natively (the routine reaches the clause bodies in
the state `cp` with the frame `sc`, the jump table `case_jmps`, the default jump `default_jmp`,
and the bodies are lowered without fallback and without failure; the clause list has at most
one default clause) returns success, and the clauses are laid out as `SwitchLayout` says: the
`OP_case` instruction of a clause (the `OP_jmp` at `default_jmp` for the default clause) is
patched with the offset at which the clause starts, a clause whose body is the body of the next
clause starts at the same offset as the next clause, and the clause that ends the cascade has
the shared body lowered from exactly that offset on. So all the jumps of a cascade carry one
target, the offset of the first instruction of the shared body. -/
theorem switch_cascade_shared_target (ctx cp : compiler_ctx_t) (sc : statement_ctx_t)
    (cj : Nat → Nat) (dj : Nat) (hres : HRESULT) (expr : expression_t)
    (case_list : case_clausule_t)
    (hp : switch_bodies_entry ctx (.mk expr case_list) = some (cp, sc, cj, dj, hres))
    (hd : default_count case_list ≤ 1)
    (hret : (compile_case_bodies cp sc ctx.code_off (.STAT_SWITCH (.mk expr case_list)) cj
      dj 0 hres case_list).returned = false)
    (hok : ¬ FAILED (compile_case_bodies cp sc ctx.code_off (.STAT_SWITCH (.mk expr case_list))
      cj dj 0 hres case_list).hres = true) :
    (compile_switch_statement ctx (.mk expr case_list)).1 = S_OK ∧
    SwitchLayout (compile_switch_statement ctx (.mk expr case_list)).2 sc ctx.code_off
      (.STAT_SWITCH (.mk expr case_list)) cj dj 0 cp.code_off case_list ∧
    (∀ j, j < case_count case_list →
      ((compile_switch_statement ctx (.mk expr case_list)).2.instrs (cj j)).op = OP_case) ∧
    ((compile_switch_statement ctx (.mk expr case_list)).2.instrs dj).op = OP_jmp := by
  unfold switch_bodies_entry at hp
  dsimp only at hp
  obtain ⟨h1, hp⟩ := ite_none_some hp
  obtain ⟨h2, hp⟩ := ite_none_some hp
  obtain ⟨h3, hp⟩ := ite_none_some hp
  obtain ⟨h4, hp⟩ := ite_none_some hp
  have e := Option.some.inj hp
  have e1 := congrArg Prod.fst e
  have e2 := congrArg (fun x => x.2.1) e
  have e3 := congrArg (fun x => x.2.2.1) e
  have e4 := congrArg (fun x => x.2.2.2.1) e
  have e5 := congrArg (fun x => x.2.2.2.2) e
  dsimp only at e1 e2 e3 e4 e5
  clear hp e
  obtain ⟨j1, j2, j3, j4, j5⟩ := switch_jmp_facts _ h4
  have inv := compile_case_exprs_inv case_list
    ⟨(compile_expression ctx expr).1,
     (heap_alloc (alloc_label (compile_expression ctx expr).2).2).2, fun _ => 0, 0, false⟩
    (fun j hj => absurd hj (Nat.not_lt_zero _)) j1
  rw [j2] at e1 e4 e5
  dsimp only at e1 e4 e5
  have h5 : ¬ FAILED hres = true := e5 ▸ j1
  have hb : sc.break_label = (alloc_label (compile_expression ctx expr).2).1 := by rw [← e2]
  have hF : compile_switch_statement ctx (.mk expr case_list) =
      (S_OK, label_set_addr
        (if (!(compile_case_exprs
            ⟨(compile_expression ctx expr).1,
             (heap_alloc (alloc_label (compile_expression ctx expr).2).2).2, fun _ => 0, 0, false⟩
            case_list).have_default) = true then
          set_arg1 (compile_case_bodies cp sc ctx.code_off (.STAT_SWITCH (.mk expr case_list)) cj
            dj 0 hres case_list).ctx dj
            (.uint (compile_case_bodies cp sc ctx.code_off (.STAT_SWITCH (.mk expr case_list)) cj
              dj 0 hres case_list).ctx.code_off)
        else (compile_case_bodies cp sc ctx.code_off (.STAT_SWITCH (.mk expr case_list)) cj
            dj 0 hres case_list).ctx) sc.break_label) := by
    rw [compile_switch_statement_unfold]
    simp only [h1, h2, h3, j2, ↓reduceIte, Bool.not_true, Bool.not_false, Bool.false_eq_true,
      if_true, if_false]
    simp only [h5, e1, e2, e3, e4, e5, hret, hok, ↓reduceIte, Bool.false_eq_true, if_false]
    rw [hb]
  rw [hF]
  dsimp only
  have hjs : ∀ j, 0 ≤ j → j < 0 + case_count case_list →
      cj j < cp.code_off ∧ cj j ≠ dj ∧ ∀ j', 0 ≤ j' → j' < j → cj j' ≠ cj j := by
    intro j _ hj
    obtain ⟨a1, _, a3⟩ := inv.1 j hj
    rw [e3] at a1 a3
    rw [← e1, ← e4, j3]
    exact ⟨by omega, by omega, fun j' _ hj' => Nat.ne_of_lt (a3 j' hj')⟩
  have hdj : dj < cp.code_off := by
    rw [← e1, ← e4, j3]; omega
  have hops : ∀ p, ((label_set_addr
        (if (!(compile_case_exprs
            ⟨(compile_expression ctx expr).1,
             (heap_alloc (alloc_label (compile_expression ctx expr).2).2).2, fun _ => 0, 0, false⟩
            case_list).have_default) = true then
          set_arg1 (compile_case_bodies cp sc ctx.code_off (.STAT_SWITCH (.mk expr case_list)) cj
            dj 0 hres case_list).ctx dj
            (.uint (compile_case_bodies cp sc ctx.code_off (.STAT_SWITCH (.mk expr case_list)) cj
              dj 0 hres case_list).ctx.code_off)
        else (compile_case_bodies cp sc ctx.code_off (.STAT_SWITCH (.mk expr case_list)) cj
            dj 0 hres case_list).ctx) sc.break_label).instrs p).op =
      ((compile_case_bodies cp sc ctx.code_off (.STAT_SWITCH (.mk expr case_list)) cj
            dj 0 hres case_list).ctx.instrs p).op := by
    intro p
    show ((if _ then _ else _ : compiler_ctx_t).instrs p).op = _
    split
    · by_cases e : p = dj
      · rw [e, set_arg1_same]
      · rw [set_arg1_other _ _ e]
    · rfl
  obtain ⟨l1, _, _, l4⟩ := compile_case_bodies_layout sc ctx.code_off
    (.STAT_SWITCH (.mk expr case_list)) cj dj
    (label_set_addr
        (if (!(compile_case_exprs
            ⟨(compile_expression ctx expr).1,
             (heap_alloc (alloc_label (compile_expression ctx expr).2).2).2, fun _ => 0, 0, false⟩
            case_list).have_default) = true then
          set_arg1 (compile_case_bodies cp sc ctx.code_off (.STAT_SWITCH (.mk expr case_list)) cj
            dj 0 hres case_list).ctx dj
            (.uint (compile_case_bodies cp sc ctx.code_off (.STAT_SWITCH (.mk expr case_list)) cj
              dj 0 hres case_list).ctx.code_off)
        else (compile_case_bodies cp sc ctx.code_off (.STAT_SWITCH (.mk expr case_list)) cj
            dj 0 hres case_list).ctx) sc.break_label)
    _ case_list cp 0 hres rfl hjs hdj hd hret hok
    (by
      show (if _ then _ else _ : compiler_ctx_t).code_off = _
      split <;> rfl)
    (fun p hp => by
      show (if _ then _ else _ : compiler_ctx_t).instrs p = _
      split
      · exact set_arg1_other _ _ hp
      · rfl)
    (fun h0 => by
      show (if _ then _ else _ : compiler_ctx_t).instrs dj = _
      rw [inv.2.1 h0]
      rfl)
  refine ⟨rfl, l1, fun j hj => ?_, ?_⟩
  · obtain ⟨a1, a2, _⟩ := inv.1 j (by rw [Nat.zero_add]; exact hj)
    rw [e3] at a1 a2
    rw [hops, l4 _ (hjs j (Nat.zero_le _) (by rw [Nat.zero_add]; exact hj)).1, ← e1, j5 _ a1]
    exact a2
  · rw [hops, l4 _ hdj, ← e1, ← e4]
    exact j4

/-- The statement `switch(x) { case 1: case 2: b; default: c; }` from the empty context: the two
`OP_case` instructions (offsets 2 and 4) are both patched with 7, the offset of the first
instruction of the body `b`, and the default jump (offset 6) with 9, the offset of `c`. -/
theorem switch_cascade_shared_target_witness :
    ((compile_switch_statement ctx_empty switch_cascade_sample).1 = S_OK ∧
     SwitchLayout (compile_switch_statement ctx_empty switch_cascade_sample).2
       ((switch_bodies_entry ctx_empty switch_cascade_sample).get (by decide)).2.1
       ctx_empty.code_off (.STAT_SWITCH switch_cascade_sample)
       ((switch_bodies_entry ctx_empty switch_cascade_sample).get (by decide)).2.2.1
       ((switch_bodies_entry ctx_empty switch_cascade_sample).get (by decide)).2.2.2.1 0
       ((switch_bodies_entry ctx_empty switch_cascade_sample).get (by decide)).1.code_off
       (.mk (some (expr_int 1)) (.node 20 (stat_ident "b") (.node 21 (stat_ident "c") .NULL))
         (.mk (some (expr_int 2)) (.node 20 (stat_ident "b") (.node 21 (stat_ident "c") .NULL))
           (.mk none (.node 21 (stat_ident "c") .NULL) .NULL))) ∧
     (∀ j, j < 2 →
       ((compile_switch_statement ctx_empty switch_cascade_sample).2.instrs
         (((switch_bodies_entry ctx_empty switch_cascade_sample).get (by decide)).2.2.1 j)).op
         = OP_case) ∧
     ((compile_switch_statement ctx_empty switch_cascade_sample).2.instrs
       ((switch_bodies_entry ctx_empty switch_cascade_sample).get (by decide)).2.2.2.1).op
       = OP_jmp) ∧
    ((switch_bodies_entry ctx_empty switch_cascade_sample).get (by decide)).2.2.1 0 = 2 ∧
    ((switch_bodies_entry ctx_empty switch_cascade_sample).get (by decide)).2.2.1 1 = 4 ∧
    ((switch_bodies_entry ctx_empty switch_cascade_sample).get (by decide)).2.2.2.1 = 6 ∧
    ((switch_bodies_entry ctx_empty switch_cascade_sample).get (by decide)).1.code_off = 7 ∧
    ((compile_switch_statement ctx_empty switch_cascade_sample).2.instrs 2).arg1 = .uint 7 ∧
    ((compile_switch_statement ctx_empty switch_cascade_sample).2.instrs 4).arg1 = .uint 7 ∧
    ((compile_switch_statement ctx_empty switch_cascade_sample).2.instrs 6).arg1 = .uint 9 :=
  ⟨switch_cascade_shared_target ctx_empty
      ((switch_bodies_entry ctx_empty switch_cascade_sample).get (by decide)).1
      ((switch_bodies_entry ctx_empty switch_cascade_sample).get (by decide)).2.1
      ((switch_bodies_entry ctx_empty switch_cascade_sample).get (by decide)).2.2.1
      ((switch_bodies_entry ctx_empty switch_cascade_sample).get (by decide)).2.2.2.1
      ((switch_bodies_entry ctx_empty switch_cascade_sample).get (by decide)).2.2.2.2
      (expr_ident "x")
      (.mk (some (expr_int 1)) (.node 20 (stat_ident "b") (.node 21 (stat_ident "c") .NULL))
        (.mk (some (expr_int 2)) (.node 20 (stat_ident "b") (.node 21 (stat_ident "c") .NULL))
          (.mk none (.node 21 (stat_ident "c") .NULL) .NULL)))
      (Option.some_get (by decide)).symm (by decide) (by decide) (by decide),
   by decide, by decide, by decide, by decide, rfl, rfl, rfl⟩


/-! ## Labels bound by the loop routines -/

theorem failed_not_succeeded {hr : HRESULT} (h : FAILED hr = true) : ¬ SUCCEEDED hr = true := by
  unfold FAILED at h
  unfold SUCCEEDED
  simp only [decide_eq_true_eq] at h ⊢
  exact not_le.mpr h

theorem bnd_nil {c0 c : compiler_ctx_t} (h : Rel c0.code_off c0.labels_cnt c0 c) : Bnd [] c0 c := by
  intro hB
  obtain ⟨new, e, _, _⟩ := h.log_ext hB
  exact ⟨new, e, fun l hl => absurd hl (List.not_mem_nil l)⟩

theorem bnd_step {Bs : List Nat} {c0 c c1 : compiler_ctx_t}
    (hr : Rel c.code_off c.labels_cnt c c1) (h : Bnd Bs c0 c) : Bnd Bs c0 c1 := by
  intro hB
  obtain ⟨n1, e1, p1⟩ := h (le_trans hr.cnt_ge hB)
  obtain ⟨n2, e2, _, _⟩ := hr.log_ext hB
  refine ⟨n2 ++ n1, by rw [e2, e1, List.append_assoc], fun l hl => ?_⟩
  exact List.mem_append_right _ (p1 l hl)

theorem bnd_set {Bs : List Nat} {c0 c : compiler_ctx_t} {tok : Nat} (h : Bnd Bs c0 c) :
    Bnd ((tok &&& (LABEL_FLAG - 1)) :: Bs) c0 (label_set_addr c tok) := by
  intro hB
  obtain ⟨n1, e1, p1⟩ := h hB
  refine ⟨(tok &&& (LABEL_FLAG - 1)) :: n1, ?_, fun l hl => ?_⟩
  · show (tok &&& (LABEL_FLAG - 1)) :: c.label_log = _
    rw [e1]; rfl
  · rcases List.mem_cons.1 hl with hl | hl
    · rw [hl]; exact List.mem_cons_self _ _
    · exact List.mem_cons_of_mem _ (p1 l hl)

theorem bnd_ite {Bs : List Nat} {c0 : compiler_ctx_t} {p : Prop} [Decidable p]
    {A B : HRESULT × compiler_ctx_t} (hA : Bnd Bs c0 A.2) (hB : Bnd Bs c0 B.2) :
    Bnd Bs c0 (if p then A else B).2 := by
  split
  · exact hA
  · exact hB

theorem bnds_ite_failed {Bs : List Nat} {c0 c : compiler_ctx_t} {x : HRESULT}
    {B : HRESULT × compiler_ctx_t} (hB : BndS Bs c0 B) :
    BndS Bs c0 (if FAILED x = true then (x, c) else B) := by
  split
  · next hf => exact fun hs => absurd hs (failed_not_succeeded hf)
  · exact hB

theorem bnds_ite_failed_self {Bs : List Nat} {c0 : compiler_ctx_t}
    {x B : HRESULT × compiler_ctx_t} (hB : BndS Bs c0 B) :
    BndS Bs c0 (if FAILED x.1 = true then x else B) := by
  split
  · next hf => exact fun hs => absurd hs (failed_not_succeeded hf)
  · exact hB

theorem bnds_ite_oom {Bs : List Nat} {c0 c : compiler_ctx_t} {p : Prop} [Decidable p]
    {B : HRESULT × compiler_ctx_t} (hB : BndS Bs c0 B) :
    BndS Bs c0 (if p then (E_OUTOFMEMORY, c) else B) := by
  split
  · exact fun hs => absurd hs (show ¬ SUCCEEDED E_OUTOFMEMORY = true by decide)
  · exact hB

theorem bnds_ok {Bs : List Nat} {c0 c : compiler_ctx_t} {x : HRESULT} (h : Bnd Bs c0 c) :
    BndS Bs c0 (x, c) := fun _ => h

theorem bnds_of_bnd {Bs : List Nat} {c0 : compiler_ctx_t} {r : HRESULT × compiler_ctx_t}
    (h : Bnd Bs c0 r.2) : BndS Bs c0 r := fun _ => h

theorem bound_since_eq {c0 c : compiler_ctx_t} {new : List Nat}
    (e : c.label_log = new ++ c0.label_log) : bound_since c0 c = new := by
  unfold bound_since
  rw [e, List.length_append, Nat.add_sub_cancel, List.take_left']
  rfl

theorem bnd_push_instr {Bs : List Nat} {c0 c : compiler_ctx_t} (op : jsop_t)
    (h : Bnd Bs c0 c) : Bnd Bs c0 (push_instr c op).2 :=
  bnd_step (push_instr_rel op (Rel.refl c)) h

theorem bnd_push_instr_hres {Bs : List Nat} {c0 c : compiler_ctx_t} (op : jsop_t)
    (h : Bnd Bs c0 c) : Bnd Bs c0 (push_instr_hres c op).2 :=
  bnd_step (push_instr_hres_rel op (Rel.refl c)) h

theorem bnd_push_instr_uint {Bs : List Nat} {c0 c : compiler_ctx_t} (op : jsop_t) (v : Nat)
    (h : Bnd Bs c0 c) : Bnd Bs c0 (push_instr_uint c op v).2 :=
  bnd_step (push_instr_uint_rel op v (Rel.refl c)) h

theorem bnd_push_instr_int {Bs : List Nat} {c0 c : compiler_ctx_t} (op : jsop_t) (v : Int)
    (h : Bnd Bs c0 c) : Bnd Bs c0 (push_instr_int c op v).2 :=
  bnd_step (push_instr_int_rel op v (Rel.refl c)) h

theorem bnd_push_instr_bstr_uint {Bs : List Nat} {c0 c : compiler_ctx_t} (op : jsop_t)
    (s : String) (v : Nat) (h : Bnd Bs c0 c) : Bnd Bs c0 (push_instr_bstr_uint c op s v).2 :=
  bnd_step (push_instr_bstr_uint_rel op s v (Rel.refl c)) h

theorem bnd_compile_expression {Bs : List Nat} {c0 c : compiler_ctx_t} (e : expression_t)
    (h : Bnd Bs c0 c) : Bnd Bs c0 (compile_expression c e).2 :=
  bnd_step (compile_expression_rel e (Rel.refl c)) h

theorem bnd_compile_expression_noret {Bs : List Nat} {c0 c : compiler_ctx_t} (e : expression_t)
    (no_ret : Option Bool) (h : Bnd Bs c0 c) :
    Bnd Bs c0 (compile_expression_noret c e no_ret).1.2 :=
  bnd_step (compile_expression_noret_rel e no_ret (Rel.refl c)) h

theorem bnd_compile_memberid_expression {Bs : List Nat} {c0 c : compiler_ctx_t}
    (e : expression_t) (flags : Nat) (h : Bnd Bs c0 c) :
    Bnd Bs c0 (compile_memberid_expression c e flags).2 :=
  bnd_step (compile_memberid_expression_rel e flags (Rel.refl c)) h

theorem bnd_compile_variable_list {Bs : List Nat} {c0 c : compiler_ctx_t}
    (l : variable_declaration_t) (h : Bnd Bs c0 c) :
    Bnd Bs c0 (compile_variable_list c l).2 :=
  bnd_step (compile_variable_list_rel l (Rel.refl c)) h

theorem bnd_alloc_label {Bs : List Nat} {c0 c : compiler_ctx_t} (h : Bnd Bs c0 c) :
    Bnd Bs c0 (alloc_label c).2 :=
  bnd_step (alloc_label_rel (Rel.refl c)) h

theorem bnd_body {Bs : List Nat} {c0 c : compiler_ctx_t} (sc : Option statement_ctx_t)
    (s : statement_t) (h : Bnd Bs c0 c) :
    Bnd Bs c0 (set_no_fallback (compile_statement (set_no_fallback c true) sc s).2
      c.no_fallback) :=
  bnd_step (body_step (compile_statement_rel s) (Rel.refl c) (Rel.refl c)) h

theorem bnd_refl (c : compiler_ctx_t) : Bnd [] c c := bnd_nil (Rel.refl c)

theorem bnd_ite1 {Bs : List Nat} {c0 : compiler_ctx_t} {α : Type} {p : Prop} [Decidable p]
    {A B : (HRESULT × compiler_ctx_t) × α} (hA : Bnd Bs c0 A.1.2) (hB : Bnd Bs c0 B.1.2) :
    Bnd Bs c0 (if p then A else B).1.2 := by
  split
  · exact hA
  · exact hB

theorem bnds_ite_not {Bs : List Nat} {c0 : compiler_ctx_t} {p : Prop} [Decidable p]
    {A B : HRESULT × compiler_ctx_t} (hn : ¬ p) (hB : BndS Bs c0 B) :
    BndS Bs c0 (if p then A else B) := by
  rw [if_neg hn]
  exact hB

theorem while_bound {ctx cp : compiler_ctx_t} {sc : statement_ctx_t} {expr : expression_t} {statement : statement_t}
    (hp : while_body_entry ctx (.mk false expr statement) = some (cp, sc))
    (hb : ¬ (compile_statement (set_no_fallback cp true) (some sc) statement).1 = E_NOTIMPL) :
    BndS [sc.break_label &&& (LABEL_FLAG - 1), sc.continue_label &&& (LABEL_FLAG - 1)] ctx
      (compile_while_statement ctx (.mk false expr statement)) := by
  all_goals (
    have hS : ¬ FAILED S_OK = true := by decide
    unfold while_body_entry at hp
    simp only [↓reduceIte, Bool.not_true, Bool.not_false, Bool.false_eq_true, if_true, if_false] at hp
    try dsimp only at hp
    obtain ⟨h1, hp⟩ := ite_none_some hp
    obtain ⟨h2, hp⟩ := ite_none_some hp
    obtain ⟨h3, hp⟩ := ite_none_some hp
    obtain ⟨h4, hp⟩ := ite_none_some hp
    obtain ⟨h5, hp⟩ := ite_none_some hp
    obtain ⟨h6, hp⟩ := ite_none_some hp
    obtain ⟨e1, e2⟩ := Prod.mk.inj (Option.some.inj hp)
    subst e1 e2
    rw [compile_while_statement_unfold]
    simp only [h1, h2, h3, h4, h5, h6, hb, hS, ↓reduceIte, Bool.not_true, Bool.not_false, Bool.false_eq_true, if_true, if_false]
    clear h1 h2 h3 h4 h5 h6 hb hp
    repeat' (first
      | with_reducible (first
          | exact bnd_refl _
          | apply bnds_ite_failed
          | apply bnds_ite_failed_self
          | apply bnds_ite_oom
          | apply bnds_ok
          | apply bnd_set
          | apply bnd_push_instr_uint
          | apply bnd_push_instr_int
          | apply bnd_push_instr_bstr_uint
          | apply bnd_push_instr_hres
          | apply bnd_push_instr
          | apply bnd_body
          | apply bnd_compile_expression
          | apply bnd_compile_expression_noret
          | apply bnd_compile_memberid_expression
          | apply bnd_compile_variable_list
          | apply bnd_alloc_label
          | apply bnd_ite
          | apply bnd_ite1)))

theorem do_while_bound {ctx cp : compiler_ctx_t} {sc : statement_ctx_t} {expr : expression_t} {statement : statement_t}
    (hp : while_body_entry ctx (.mk true expr statement) = some (cp, sc))
    (hb : ¬ (compile_statement (set_no_fallback cp true) (some sc) statement).1 = E_NOTIMPL) :
    BndS [sc.break_label &&& (LABEL_FLAG - 1), sc.continue_label &&& (LABEL_FLAG - 1)] ctx
      (compile_while_statement ctx (.mk true expr statement)) := by
  all_goals (
    have hS : ¬ FAILED S_OK = true := by decide
    unfold while_body_entry at hp
    simp only [↓reduceIte, Bool.not_true, Bool.not_false, Bool.false_eq_true, if_true, if_false] at hp
    try dsimp only at hp
    obtain ⟨h1, hp⟩ := ite_none_some hp
    obtain ⟨h2, hp⟩ := ite_none_some hp
    obtain ⟨e1, e2⟩ := Prod.mk.inj (Option.some.inj hp)
    subst e1 e2
    rw [compile_while_statement_unfold]
    simp only [h1, h2, hb, hS, ↓reduceIte, Bool.not_true, Bool.not_false, Bool.false_eq_true, if_true, if_false]
    clear h1 h2 hb hp
    repeat' (first
      | with_reducible (first
          | exact bnd_refl _
          | apply bnds_ite_failed
          | apply bnds_ite_failed_self
          | apply bnds_ite_oom
          | apply bnds_ok
          | apply bnd_set
          | apply bnd_push_instr_uint
          | apply bnd_push_instr_int
          | apply bnd_push_instr_bstr_uint
          | apply bnd_push_instr_hres
          | apply bnd_push_instr
          | apply bnd_body
          | apply bnd_compile_expression
          | apply bnd_compile_expression_noret
          | apply bnd_compile_memberid_expression
          | apply bnd_compile_variable_list
          | apply bnd_alloc_label
          | apply bnd_ite
          | apply bnd_ite1)))

theorem for_bound {ctx cp : compiler_ctx_t} {sc : statement_ctx_t} {variable_list : variable_declaration_t} {begin_expr expr end_expr : Option expression_t} {statement : statement_t}
    (hp : for_body_entry ctx (.mk variable_list begin_expr expr end_expr statement) = some (cp, sc))
    (hb : ¬ (compile_statement (set_no_fallback cp true) (some sc) statement).1 = E_NOTIMPL) :
    BndS [sc.break_label &&& (LABEL_FLAG - 1), sc.continue_label &&& (LABEL_FLAG - 1)] ctx
      (compile_for_statement ctx (.mk variable_list begin_expr expr end_expr statement)) := by
  cases variable_list <;> cases begin_expr <;> cases expr <;> cases end_expr
  all_goals (
    unfold for_body_entry at hp
    try dsimp only at hp
    obtain ⟨h1, hp⟩ := ite_none_some hp
    obtain ⟨h2, hp⟩ := ite_none_some hp
    obtain ⟨h3, hp⟩ := ite_none_some hp
    obtain ⟨h4, hp⟩ := ite_none_some hp
    obtain ⟨h5, hp⟩ := ite_none_some hp
    obtain ⟨h6, hp⟩ := ite_none_some hp
    obtain ⟨e1, e2⟩ := Prod.mk.inj (Option.some.inj hp)
    subst e1 e2
    have hT := h1
    clear  h2 h3 h4 h5 h6 hp
    rw [compile_for_statement_unfold]
    lift_lets
    intros
    repeat' (first
      | with_reducible (first
          | exact bnd_refl _
          | apply bnds_ite_failed_self
          | apply bnds_ite_failed
          | apply bnds_ite_oom
          | exact hb
          | exact hT
          | apply bnds_ite_not
          | apply bnds_ok
          | apply bnd_set
          | apply bnd_push_instr_uint
          | apply bnd_push_instr_int
          | apply bnd_push_instr_bstr_uint
          | apply bnd_push_instr_hres
          | apply bnd_push_instr
          | apply bnd_body
          | apply bnd_compile_expression
          | apply bnd_compile_expression_noret
          | apply bnd_compile_memberid_expression
          | apply bnd_compile_variable_list
          | apply bnd_alloc_label
          | apply bnd_ite
          | apply bnd_ite1)))

theorem forin_bound {ctx cp : compiler_ctx_t} {sc : statement_ctx_t} {variable_ : variable_declaration_t} {expr in_expr : expression_t} {statement : statement_t}
    (hp : forin_body_entry ctx (.mk variable_ expr in_expr statement) = some (cp, sc))
    (hb : ¬ (compile_statement (set_no_fallback cp true) (some sc) statement).1 = E_NOTIMPL) :
    BndS [sc.break_label &&& (LABEL_FLAG - 1), sc.continue_label &&& (LABEL_FLAG - 1)] ctx
      (compile_forin_statement ctx (.mk variable_ expr in_expr statement)) := by
  cases variable_
  all_goals (
    unfold forin_body_entry at hp
    try dsimp only at hp
    obtain ⟨h1, hp⟩ := ite_none_some hp
    obtain ⟨h2, hp⟩ := ite_none_some hp
    obtain ⟨h3, hp⟩ := ite_none_some hp
    obtain ⟨h4, hp⟩ := ite_none_some hp
    obtain ⟨h5, hp⟩ := ite_none_some hp
    obtain ⟨h6, hp⟩ := ite_none_some hp
    obtain ⟨h7, hp⟩ := ite_none_some hp
    obtain ⟨h8, hp⟩ := ite_none_some hp
    obtain ⟨h9, hp⟩ := ite_none_some hp
    obtain ⟨e1, e2⟩ := Prod.mk.inj (Option.some.inj hp)
    subst e1 e2
    have hT := h6
    clear h1 h2 h3 h4 h5  h7 h8 h9 hp
    rw [compile_forin_statement_unfold]
    lift_lets
    intros
    repeat' (first
      | with_reducible (first
          | exact bnd_refl _
          | apply bnds_ite_failed_self
          | apply bnds_ite_failed
          | apply bnds_ite_oom
          | exact hb
          | exact hT
          | apply bnds_ite_not
          | apply bnds_ok
          | apply bnd_set
          | apply bnd_push_instr_uint
          | apply bnd_push_instr_int
          | apply bnd_push_instr_bstr_uint
          | apply bnd_push_instr_hres
          | apply bnd_push_instr
          | apply bnd_body
          | apply bnd_compile_expression
          | apply bnd_compile_expression_noret
          | apply bnd_compile_memberid_expression
          | apply bnd_compile_variable_list
          | apply bnd_alloc_label
          | apply bnd_ite
          | apply bnd_ite1)))

/-- The bindings a routine makes between `c0` and `c`: no label is bound twice, and only labels
allocated since `c0` are bound. -/
theorem bound_since_fresh {a b : Nat} {c0 c : compiler_ctx_t} (hr : Rel a b c0 c)
    (hB : c.labels_cnt ≤ LABEL_FLAG) :
    (bound_since c0 c).Nodup ∧ ∀ l ∈ bound_since c0 c, b ≤ l ∧ l < c.labels_cnt := by
  obtain ⟨n, e, p, d⟩ := hr.log_ext hB
  rw [bound_since_eq e]
  exact ⟨d, p⟩

/-- Labels that a routine has bound between `c0` and `c`: each occurs once among the bindings
made since `c0`, and was allocated since `c0`. -/
theorem bnd_once {Bs : List Nat} {a b : Nat} {c0 c : compiler_ctx_t} (h : Bnd Bs c0 c)
    (hr : Rel a b c0 c) (hB : c.labels_cnt ≤ LABEL_FLAG) (l : Nat) (hl : l ∈ Bs) :
    (bound_since c0 c).count l = 1 ∧ b ≤ l ∧ l < c.labels_cnt := by
  obtain ⟨n1, e1, p1⟩ := h hB
  obtain ⟨n2, e2, p2, d2⟩ := hr.log_ext hB
  have e3 : n1 = n2 := List.append_cancel_right (e1.symm.trans e2)
  rw [bound_since_eq e2]
  exact ⟨List.count_eq_one_of_mem d2 (e3 ▸ p1 l hl), p2 l (e3 ▸ p1 l hl)⟩

/-- C3: whatever is lowered, a statement or an expression, no label is bound twice and only
labels allocated during the lowering are bound. A `while`, `do-while`, `for` or `for-in`
statement that is lowered natively (the routine reaches the loop body in the state `cp` with the
frame `sc`, and the body does not signal not-implemented) and whose routine returns success has
bound the two labels the routine allocated, the break label and the continue label of the
frame, exactly once each. Label counts are within the range of label tokens. -/
theorem loop_labels_bound_once (ctx : compiler_ctx_t) :
    (∀ (sc : Option statement_ctx_t) (s : statement_t),
      (compile_statement ctx sc s).2.labels_cnt ≤ LABEL_FLAG →
      (bound_since ctx (compile_statement ctx sc s).2).Nodup ∧
      ∀ l ∈ bound_since ctx (compile_statement ctx sc s).2,
        ctx.labels_cnt ≤ l ∧ l < (compile_statement ctx sc s).2.labels_cnt) ∧
    (∀ (e : expression_t),
      (compile_expression ctx e).2.labels_cnt ≤ LABEL_FLAG →
      (bound_since ctx (compile_expression ctx e).2).Nodup ∧
      ∀ l ∈ bound_since ctx (compile_expression ctx e).2,
        ctx.labels_cnt ≤ l ∧ l < (compile_expression ctx e).2.labels_cnt) ∧
    (∀ (cp : compiler_ctx_t) (sc : statement_ctx_t) (do_while : Bool) (expr : expression_t)
        (statement : statement_t),
      while_body_entry ctx (.mk do_while expr statement) = some (cp, sc) →
      (compile_statement (set_no_fallback cp true) (some sc) statement).1 ≠ E_NOTIMPL →
      SUCCEEDED (compile_while_statement ctx (.mk do_while expr statement)).1 = true →
      (compile_while_statement ctx (.mk do_while expr statement)).2.labels_cnt ≤ LABEL_FLAG →
      ∀ l, l = sc.break_label &&& (LABEL_FLAG - 1) ∨ l = sc.continue_label &&& (LABEL_FLAG - 1) →
        (bound_since ctx
          (compile_while_statement ctx (.mk do_while expr statement)).2).count l = 1 ∧
        ctx.labels_cnt ≤ l ∧
        l < (compile_while_statement ctx (.mk do_while expr statement)).2.labels_cnt) ∧
    (∀ (cp : compiler_ctx_t) (sc : statement_ctx_t) (variable_list : variable_declaration_t)
        (begin_expr expr end_expr : Option expression_t) (statement : statement_t),
      for_body_entry ctx (.mk variable_list begin_expr expr end_expr statement)
        = some (cp, sc) →
      (compile_statement (set_no_fallback cp true) (some sc) statement).1 ≠ E_NOTIMPL →
      SUCCEEDED (compile_for_statement ctx
        (.mk variable_list begin_expr expr end_expr statement)).1 = true →
      (compile_for_statement ctx
        (.mk variable_list begin_expr expr end_expr statement)).2.labels_cnt ≤ LABEL_FLAG →
      ∀ l, l = sc.break_label &&& (LABEL_FLAG - 1) ∨ l = sc.continue_label &&& (LABEL_FLAG - 1) →
        (bound_since ctx (compile_for_statement ctx
          (.mk variable_list begin_expr expr end_expr statement)).2).count l = 1 ∧
        ctx.labels_cnt ≤ l ∧
        l < (compile_for_statement ctx
          (.mk variable_list begin_expr expr end_expr statement)).2.labels_cnt) ∧
    (∀ (cp : compiler_ctx_t) (sc : statement_ctx_t) (variable_ : variable_declaration_t)
        (expr in_expr : expression_t) (statement : statement_t),
      forin_body_entry ctx (.mk variable_ expr in_expr statement) = some (cp, sc) →
      (compile_statement (set_no_fallback cp true) (some sc) statement).1 ≠ E_NOTIMPL →
      SUCCEEDED (compile_forin_statement ctx (.mk variable_ expr in_expr statement)).1 = true →
      (compile_forin_statement ctx (.mk variable_ expr in_expr statement)).2.labels_cnt
        ≤ LABEL_FLAG →
      ∀ l, l = sc.break_label &&& (LABEL_FLAG - 1) ∨ l = sc.continue_label &&& (LABEL_FLAG - 1) →
        (bound_since ctx
          (compile_forin_statement ctx (.mk variable_ expr in_expr statement)).2).count l = 1 ∧
        ctx.labels_cnt ≤ l ∧
        l < (compile_forin_statement ctx (.mk variable_ expr in_expr statement)).2.labels_cnt) := by
  have mem2 : ∀ {l x y : Nat}, l = x ∨ l = y → l ∈ [x, y] := by
    intro l x y h
    rcases h with h | h <;> simp [h]
  refine ⟨fun sc s hB => bound_since_fresh (compile_statement_rel s sc (Rel.refl ctx)) hB,
    fun e hB => bound_since_fresh (compile_expression_rel e (Rel.refl ctx)) hB, ?_, ?_, ?_⟩
  · intro cp sc do_while expr statement hp hb hs hB l hl
    cases do_while
    · exact bnd_once (while_bound hp hb hs)
        (compile_while_statement_rel _ (Rel.refl ctx)) hB l (mem2 hl)
    · exact bnd_once (do_while_bound hp hb hs)
        (compile_while_statement_rel _ (Rel.refl ctx)) hB l (mem2 hl)
  · intro cp sc variable_list begin_expr expr end_expr statement hp hb hs hB l hl
    exact bnd_once (for_bound hp hb hs) (compile_for_statement_rel _ (Rel.refl ctx)) hB l
      (mem2 hl)
  · intro cp sc variable_ expr in_expr statement hp hb hs hB l hl
    exact bnd_once (forin_bound hp hb hs) (compile_forin_statement_rel _ (Rel.refl ctx)) hB l
      (mem2 hl)

/-- The statements `while(cond) b;` and `for(x in o) b;` from the empty context: each routine
allocates the labels 0 (break) and 1 (continue) and binds both, once each. -/
theorem loop_labels_bound_once_witness :
    ((bound_since ctx_empty (compile_while_statement ctx_empty while_native_sample).2).count 0
        = 1 ∧
      ctx_empty.labels_cnt ≤ 0 ∧
      0 < (compile_while_statement ctx_empty while_native_sample).2.labels_cnt) ∧
    ((bound_since ctx_empty (compile_forin_statement ctx_empty forin_native_sample).2).count 1
        = 1 ∧
      ctx_empty.labels_cnt ≤ 1 ∧
      1 < (compile_forin_statement ctx_empty forin_native_sample).2.labels_cnt) ∧
    bound_since ctx_empty (compile_while_statement ctx_empty while_native_sample).2 = [0, 1] ∧
    bound_since ctx_empty (compile_forin_statement ctx_empty forin_native_sample).2 = [0, 1] :=
  ⟨(loop_labels_bound_once ctx_empty).2.2.1
      ((while_body_entry ctx_empty while_native_sample).get (by decide)).1
      ((while_body_entry ctx_empty while_native_sample).get (by decide)).2
      false (.EXPR_IDENT ⟨"cond"⟩) (stat_ident "b")
      (Option.some_get (by decide)).symm (by decide) (by decide) (by decide) 0
      (Or.inl (by decide)),
   (loop_labels_bound_once ctx_empty).2.2.2.2
      ((forin_body_entry ctx_empty forin_native_sample).get (by decide)).1
      ((forin_body_entry ctx_empty forin_native_sample).get (by decide)).2
      .NULL (.EXPR_IDENT ⟨"x"⟩) (.EXPR_IDENT ⟨"o"⟩) (stat_ident "b")
      (Option.some_get (by decide)).symm (by decide) (by decide) (by decide) 1
      (Or.inr (by decide)),
   by decide, by decide⟩

/-- C3, as stated, fails: `while(c) return;` from the empty context returns success through the
interpreter fallback, having allocated the labels 0 (break) and 1 (continue), and the break
label has not been bound; `for(1 in o) b;` returns success having allocated two labels and
bound none. -/
theorem loop_labels_left_unbound :
    ((compile_while_statement ctx_empty while_return_sample).1 = S_OK ∧
     (alloc_label ctx_empty).1 = (0 ||| LABEL_FLAG) ∧
     (compile_while_statement ctx_empty while_return_sample).2.labels_cnt = 2 ∧
     (bound_since ctx_empty
       (compile_while_statement ctx_empty while_return_sample).2).count 0 = 0) ∧
    ((compile_forin_statement ctx_empty forin_illegal_sample).1 = S_OK ∧
     (compile_forin_statement ctx_empty forin_illegal_sample).2.labels_cnt = 2 ∧
     bound_since ctx_empty (compile_forin_statement ctx_empty forin_illegal_sample).2 = []) := by
  decide


/-! ## The layout of loops -/

theorem lay_alloc (c : compiler_ctx_t) (h : ¬ (alloc_label c).1 = UINT_MAX) :
    (alloc_label c).1 = c.labels_cnt ||| LABEL_FLAG ∧
    (alloc_label c).2.labels_cnt = c.labels_cnt + 1 ∧
    (alloc_label c).2.code_off = c.code_off ∧ (alloc_label c).2.instrs = c.instrs ∧
    (alloc_label c).2.labels = c.labels ∧ (alloc_label c).2.stat_ctx = c.stat_ctx ∧
    (alloc_label c).2.no_fallback = c.no_fallback := by
  rcases alloc_label_cases c with ⟨hp, e⟩ | ⟨hp, n, h1, h2, e⟩
  · rw [e] at h; exact absurd rfl h
  · rw [e]; exact ⟨rfl, rfl, rfl, rfl, rfl, rfl, rfl⟩

/-- The two labels of a loop: their tokens and the state after the allocations. -/
theorem lay_alloc2 (c : compiler_ctx_t) (h1 : ¬ (alloc_label c).1 = UINT_MAX)
    (h2 : ¬ (alloc_label (alloc_label c).2).1 = UINT_MAX) :
    (alloc_label c).1 = c.labels_cnt ||| LABEL_FLAG ∧
    (alloc_label (alloc_label c).2).1 = (c.labels_cnt + 1) ||| LABEL_FLAG ∧
    (alloc_label (alloc_label c).2).2.labels_cnt = c.labels_cnt + 2 ∧
    (alloc_label (alloc_label c).2).2.code_off = c.code_off ∧
    (alloc_label (alloc_label c).2).2.instrs = c.instrs ∧
    (alloc_label (alloc_label c).2).2.stat_ctx = c.stat_ctx ∧
    (alloc_label (alloc_label c).2).2.no_fallback = c.no_fallback := by
  obtain ⟨a1, a2, a3, a4, _, a6, a7⟩ := lay_alloc c h1
  obtain ⟨b1, b2, b3, b4, _, b6, b7⟩ := lay_alloc _ h2
  exact ⟨a1, by rw [b1, a2], by rw [b2, a2], by rw [b3, a3], by rw [b4, a4], by rw [b6, a6],
    by rw [b7, a7]⟩

theorem lay_body_frame (cp : compiler_ctx_t) (sc : Option statement_ctx_t) (statement : statement_t) :
    (∀ i, i < cp.code_off →
      (compile_statement (set_no_fallback cp true) sc statement).2.instrs i = cp.instrs i) ∧
    cp.code_off ≤ (compile_statement (set_no_fallback cp true) sc statement).2.code_off :=
  ⟨(compile_statement_rel statement sc (Rel.refl (set_no_fallback cp true))).instrs_eq,
   (compile_statement_rel statement sc (Rel.refl (set_no_fallback cp true))).off_ge⟩

/-- A label bound by `label_set_addr` keeps its offset while code is lowered after it. -/
theorem lay_label_kept {c c1 : compiler_ctx_t} {n : Nat} (tok : Nat)
    (hr : Rel (label_set_addr c tok).code_off (label_set_addr c tok).labels_cnt
      (label_set_addr c tok) c1)
    (hB : c1.labels_cnt ≤ LABEL_FLAG) (ht : tok = n ||| LABEL_FLAG) (hn : n < c.labels_cnt) :
    c1.labels (tok &&& (LABEL_FLAG - 1)) = c.code_off := by
  have hidx : tok &&& (LABEL_FLAG - 1) = n := by
    rw [ht]
    exact label_index n (lt_of_lt_of_le hn (le_trans hr.cnt_ge hB))
  rw [hidx, hr.labels_eq hB n hn]
  show Function.update c.labels (tok &&& (LABEL_FLAG - 1)) c.code_off n = c.code_off
  rw [hidx, Function.update_same]

/-- Binding another label does not move a label that is bound. -/
theorem lay_label_other (c : compiler_ctx_t) {n m : Nat} (tok tok1 : Nat)
    (hB : c.labels_cnt ≤ LABEL_FLAG) (ht : tok = n ||| LABEL_FLAG) (ht1 : tok1 = m ||| LABEL_FLAG)
    (hn : n < c.labels_cnt) (hm : m < c.labels_cnt) (hne : n ≠ m) :
    (label_set_addr c tok1).labels (tok &&& (LABEL_FLAG - 1)) = c.labels (tok &&& (LABEL_FLAG - 1)) := by
  have hidx : tok &&& (LABEL_FLAG - 1) = n := by
    rw [ht]; exact label_index n (lt_of_lt_of_le hn hB)
  have hidx1 : tok1 &&& (LABEL_FLAG - 1) = m := by
    rw [ht1]; exact label_index m (lt_of_lt_of_le hm hB)
  show Function.update c.labels (tok1 &&& (LABEL_FLAG - 1)) c.code_off _ = _
  rw [hidx, hidx1, Function.update_noteq hne]


/-! ## Blocks -/

theorem compile_block_statement_layout :
    ∀ (l : statement_list) (c0 c : compiler_ctx_t), c.stat_ctx = c0.stat_ctx →
      c.no_fallback = c0.no_fallback →
      ¬ FAILED (compile_block_statement c l).1 = true →
      BlockLayout c0 (compile_block_statement c l).2 c.code_off l.toList
  | .NULL, c0, c, _, _, hs => by
    rw [compile_block_statement] at hs ⊢
    obtain ⟨_, p2, p3, _⟩ := (push_instr_hres_ok c OP_undefined).2 hs
    exact ⟨p2, p3⟩
  | .node addr stat .NULL, c0, c, e1, e2, hs => by
    rw [compile_block_statement_unfold] at hs ⊢
    dsimp only at hs ⊢
    by_cases h1 : FAILED (compile_statement c none stat).1 = true
    · rw [if_pos h1] at hs
      exact absurd h1 hs
    rw [if_neg h1]
    exact ⟨c, rfl, e1, e2, fun _ _ => (compile_statement_frame c none stat).1 _ ‹_› |>.symm,
      h1, fun _ _ => rfl, rfl⟩
  | .node addr stat (.node addr' stat' next'), c0, c, e1, e2, hs => by
    rw [compile_block_statement_unfold] at hs ⊢
    dsimp only at hs ⊢
    by_cases h1 : FAILED (compile_statement c none stat).1 = true
    · rw [if_pos h1] at hs
      exact absurd h1 hs
    rw [if_neg h1] at hs ⊢
    have hn : ¬ (statement_list.node addr' stat' next').is_null = true := by
      simp [statement_list.is_null]
    rw [if_neg hn] at hs ⊢
    generalize hv : compile_statement c none stat = v at *
    by_cases h3 : (push_instr v.2 OP_pop).1 = UINT_MAX
    · rw [if_pos h3] at hs
      exact absurd failed_oom hs
    rw [if_neg h3] at hs ⊢
    obtain ⟨_, p2, p3, p4, _⟩ := push_instr_ok v.2 OP_pop h3
    have hv1 : Rel c.code_off c.labels_cnt c v.2 := hv ▸ compile_statement_rel stat none (Rel.refl c)
    have hp : Rel c.code_off c.labels_cnt c (push_instr v.2 OP_pop).2 := push_instr_rel OP_pop hv1
    have hr := compile_block_statement_rel (.node addr' stat' next')
      (Rel.refl (push_instr v.2 OP_pop).2)
    have ih := compile_block_statement_layout (.node addr' stat' next') c0
      (push_instr v.2 OP_pop).2 (hp.stat_ctx_eq.trans e1) (hp.no_fallback_eq.trans e2) hs
    have hfin : ∀ i, i < v.2.code_off + 1 →
        (compile_block_statement (push_instr v.2 OP_pop).2 (.node addr' stat' next')).2.instrs i
          = (push_instr v.2 OP_pop).2.instrs i := by
      intro i hi
      exact hr.instrs_eq i (by rw [p2]; exact hi)
    refine ⟨c, rfl, e1, e2, fun i hi => ?_, ?_, fun i hi => ?_, ?_, ?_⟩
    · have h4 : i < v.2.code_off := lt_of_lt_of_le hi hv1.off_ge
      rw [hfin i (Nat.lt_succ_of_lt h4), p4 i (Nat.ne_of_lt h4), hv1.instrs_eq i hi]
    · rw [hv]; exact h1
    · rw [hv] at hi ⊢
      rw [hfin i (Nat.lt_succ_of_lt hi), p4 i (Nat.ne_of_lt hi)]
    · rw [hv, hfin _ (Nat.lt_succ_self _)]
      exact p3
    · rw [hv]
      rw [p2] at ih
      exact ih

/-- C30: a block, when its lowering does not fail: the stream at entry is kept, and from the entry
offset on the stream has the layout `BlockLayout`: the lowering of the first child, one `OP_pop`,
the lowering of the second child, and so on to the lowering of the last child, which ends the
stream, so that one `OP_pop` of this level stands between any two consecutive children and none
after the last; the stream of an empty block is exactly one `OP_undefined`. -/
theorem block_statement_lowering (ctx : compiler_ctx_t) (stat_list : statement_list)
    (hs : ¬ FAILED (compile_block_statement ctx stat_list).1 = true) :
    Keeps ctx (compile_block_statement ctx stat_list).2 ∧
    BlockLayout ctx (compile_block_statement ctx stat_list).2 ctx.code_off stat_list.toList ∧
    (stat_list = .NULL → Emits ctx (compile_block_statement ctx stat_list).2 [OP_undefined]) := by
  have hr := compile_block_statement_rel stat_list (Rel.refl ctx)
  refine ⟨⟨hr.off_ge, hr.instrs_eq⟩, compile_block_statement_layout stat_list ctx ctx rfl rfl hs,
    fun e => ?_⟩
  subst e
  rw [compile_block_statement] at hs ⊢
  exact (push_instr_hres_emits ctx OP_undefined
    (fun h => hs (by rw [h]; exact failed_oom))).2

/-- The block `{ a; b; c; }` and the empty block from the empty context: `OP_ident a`, `OP_pop`,
`OP_ident b`, `OP_pop`, `OP_ident c`; and one `OP_undefined`. -/
theorem block_statement_lowering_witness :
    BlockLayout ctx_empty (compile_block_statement ctx_empty block_sample).2 0
      [stat_ident "a", stat_ident "b", stat_ident "c"] ∧
    emitted_ops (compile_block_statement ctx_empty block_sample).2 0 5 =
      [OP_ident, OP_pop, OP_ident, OP_pop, OP_ident] ∧
    (compile_block_statement ctx_empty block_sample).2.code_off = 5 ∧
    Emits ctx_empty (compile_block_statement ctx_empty .NULL).2 [OP_undefined] :=
  ⟨(block_statement_lowering ctx_empty block_sample (by decide)).2.1, by decide, by decide,
   (block_statement_lowering ctx_empty .NULL (by decide)).2.2 rfl⟩


/-! ## Unlabelled `break` and `continue` -/

theorem find_break_ctx_innermost :
    ∀ (frames : List statement_ctx_t) (n k : Nat) (f : statement_ctx_t),
      Innermost (fun g => g.break_label) frames k f → find_break_ctx frames n = some (n + k, f)
  | [], _, _, _, h => by
    have := h.1
    simp at this
  | g :: rest, n, 0, f, h => by
    obtain ⟨h1, h2, _⟩ := h
    simp only [List.get?_cons_zero, Option.some.injEq] at h1
    subst h1
    simp only [find_break_ctx, if_pos h2, Nat.add_zero]
  | g :: rest, n, k + 1, f, h => by
    obtain ⟨h1, h2, h3⟩ := h
    have hg : g.break_label = UINT_MAX := h3 0 g (Nat.succ_pos _) rfl
    rw [find_break_ctx, if_neg (fun hne => hne hg),
      find_break_ctx_innermost rest (n + 1) k f
        ⟨h1, h2, fun j g' hj hg' => h3 (j + 1) g' (Nat.succ_lt_succ hj) hg'⟩,
      Nat.add_assoc, Nat.add_comm 1 k]

theorem find_continue_ctx_innermost :
    ∀ (frames : List statement_ctx_t) (n k : Nat) (f : statement_ctx_t),
      Innermost (fun g => g.continue_label) frames k f →
      find_continue_ctx frames n = some (n + k, f)
  | [], _, _, _, h => by
    have := h.1
    simp at this
  | g :: rest, n, 0, f, h => by
    obtain ⟨h1, h2, _⟩ := h
    simp only [List.get?_cons_zero, Option.some.injEq] at h1
    subst h1
    simp only [find_continue_ctx, if_pos h2, Nat.add_zero]
  | g :: rest, n, k + 1, f, h => by
    obtain ⟨h1, h2, h3⟩ := h
    have hg : g.continue_label = UINT_MAX := h3 0 g (Nat.succ_pos _) rfl
    rw [find_continue_ctx, if_neg (fun hne => hne hg),
      find_continue_ctx_innermost rest (n + 1) k f
        ⟨h1, h2, fun j g' hj hg' => h3 (j + 1) g' (Nat.succ_lt_succ hj) hg'⟩,
      Nat.add_assoc, Nat.add_comm 1 k]

theorem find_break_ctx_none :
    ∀ (frames : List statement_ctx_t) (n : Nat),
      (∀ g ∈ frames, g.break_label = UINT_MAX) → find_break_ctx frames n = none
  | [], _, _ => rfl
  | g :: rest, n, h => by
    rw [find_break_ctx, if_neg (fun hne => hne (h g (List.mem_cons_self _ _))),
      find_break_ctx_none rest (n + 1) (fun g' hg' => h g' (List.mem_cons_of_mem _ hg'))]

theorem find_continue_ctx_none :
    ∀ (frames : List statement_ctx_t) (n : Nat),
      (∀ g ∈ frames, g.continue_label = UINT_MAX) → find_continue_ctx frames n = none
  | [], _, _ => rfl
  | g :: rest, n, h => by
    rw [find_continue_ctx, if_neg (fun hne => hne (h g (List.mem_cons_self _ _))),
      find_continue_ctx_none rest (n + 1) (fun g' hg' => h g' (List.mem_cons_of_mem _ hg'))]

theorem innermost_lt {label : statement_ctx_t → Nat} {frames : List statement_ctx_t} {k : Nat}
    {f : statement_ctx_t} (h : Innermost label frames k f) : k < frames.length := by
  by_contra hn
  have := h.1
  rw [List.get?_eq_none.2 (Nat.le_of_not_lt hn)] at this
  exact Option.noConfusion this

/-- The jump of a branch statement: the unwind to the frame at the position `k`, the filler and
the jump with the label `label`. -/
theorem branch_jump_emits (ctx : compiler_ctx_t) (k label : Nat) (hk : k < ctx.stat_ctx.length)
    (hs : ¬ FAILED
      (if FAILED (pop_to_stat ctx k).1 = true then pop_to_stat ctx k else
       if (push_instr (pop_to_stat ctx k).2 OP_undefined).1 = UINT_MAX then
         (E_OUTOFMEMORY, (push_instr (pop_to_stat ctx k).2 OP_undefined).2) else
       push_instr_uint (push_instr (pop_to_stat ctx k).2 OP_undefined).2 OP_jmp label).1 = true) :
    ∀ r, r =
      (if FAILED (pop_to_stat ctx k).1 = true then pop_to_stat ctx k else
       if (push_instr (pop_to_stat ctx k).2 OP_undefined).1 = UINT_MAX then
         (E_OUTOFMEMORY, (push_instr (pop_to_stat ctx k).2 OP_undefined).2) else
       push_instr_uint (push_instr (pop_to_stat ctx k).2 OP_undefined).2 OP_jmp label) →
    r.1 = S_OK ∧ Emits ctx r.2 (unwind_ops ctx.stat_ctx k ++ [OP_undefined, OP_jmp]) ∧
    (r.2.instrs (r.2.code_off - 1)).arg1 = .uint label := by
  intro r hr
  subst hr
  by_cases hP : FAILED (pop_to_stat ctx k).1 = true
  · rw [if_pos hP] at hs
    exact absurd hP hs
  rw [if_neg hP] at hs ⊢
  obtain ⟨_, eP⟩ := pop_to_stat_emits ctx k hk hP
  by_cases hU : (push_instr (pop_to_stat ctx k).2 OP_undefined).1 = UINT_MAX
  · rw [if_pos hU] at hs
    exact absurd failed_oom hs
  rw [if_neg hU] at hs ⊢
  have eU := push_instr_emits _ OP_undefined hU
  have eJ := push_instr_uint_emits _ OP_jmp label hs
  obtain ⟨g1, g2, _, g4, _⟩ := (push_instr_uint_ok _ OP_jmp label).2 hs
  refine ⟨g1, ?_, ?_⟩
  · have := emits_append (emits_append eP eU) eJ
    simpa [List.append_assoc] using this
  · rw [g2, Nat.add_sub_cancel]
    exact g4

/-- C21: an unlabelled `break` (respectively `continue`). When `f`, at the position `k` of the
context stack, is the innermost frame that carries a break label (respectively a continue label)
and no append fails, the statement appends the unwind of `pop_to_stat` up to that frame (the
cleanup of the frames 0 to `k`, then their stack cells), then `OP_undefined`, then one `OP_jmp`,
the last instruction, whose operand is the label of `f`. The frame of the clause bodies of a
switch statement carries a break label and no continue label, so with such a frame innermost and
the frame of a loop next, a `break` jumps to the label of the switch without leaving its frame
and a `continue` unwinds both frames and jumps to the continue label of the loop. When no frame
carries the label the statement is handed to the interpreter fallback. -/
theorem unlabelled_branch_lowering (ctx : compiler_ctx_t) (stat : branch_statement_t)
    (hid : stat.identifier = none) :
    (∀ k f, Innermost (fun g => g.break_label) ctx.stat_ctx k f →
      ¬ FAILED (compile_break_statement ctx stat).1 = true →
      (compile_break_statement ctx stat).1 = S_OK ∧
      Emits ctx (compile_break_statement ctx stat).2
        (unwind_ops ctx.stat_ctx k ++ [OP_undefined, OP_jmp]) ∧
      ((compile_break_statement ctx stat).2.instrs
        ((compile_break_statement ctx stat).2.code_off - 1)).arg1 = .uint f.break_label) ∧
    (∀ k f, Innermost (fun g => g.continue_label) ctx.stat_ctx k f →
      ¬ FAILED (compile_continue_statement ctx stat).1 = true →
      (compile_continue_statement ctx stat).1 = S_OK ∧
      Emits ctx (compile_continue_statement ctx stat).2
        (unwind_ops ctx.stat_ctx k ++ [OP_undefined, OP_jmp]) ∧
      ((compile_continue_statement ctx stat).2.instrs
        ((compile_continue_statement ctx stat).2.code_off - 1)).arg1
          = .uint f.continue_label) ∧
    (∀ (c : compiler_ctx_t) (sw : switch_statement_t) (cp : compiler_ctx_t)
        (sc : statement_ctx_t) (case_jmps : Nat → Nat) (default_jmp : Nat) (hres : HRESULT),
      switch_bodies_entry c sw = some (cp, sc, case_jmps, default_jmp, hres) →
      sc.break_label ≠ UINT_MAX ∧ sc.continue_label = UINT_MAX) ∧
    (∀ (sw loop : statement_ctx_t) (rest : List statement_ctx_t),
      ctx.stat_ctx = sw :: loop :: rest → sw.break_label ≠ UINT_MAX →
      sw.continue_label = UINT_MAX → loop.continue_label ≠ UINT_MAX →
      Innermost (fun g => g.break_label) ctx.stat_ctx 0 sw ∧
      Innermost (fun g => g.continue_label) ctx.stat_ctx 1 loop) ∧
    ((∀ g ∈ ctx.stat_ctx, g.break_label = UINT_MAX) →
      compile_break_statement ctx stat =
        compile_interp_fallback (set_eval ctx (.STAT_BREAK stat) .break_statement_eval)
          (.STAT_BREAK stat)) ∧
    ((∀ g ∈ ctx.stat_ctx, g.continue_label = UINT_MAX) →
      compile_continue_statement ctx stat =
        compile_interp_fallback (set_eval ctx (.STAT_CONTINUE stat) .continue_statement_eval)
          (.STAT_CONTINUE stat)) := by
  refine ⟨fun k f hin hs => ?_, fun k f hin hs => ?_, ?_, ?_, fun h => ?_, fun h => ?_⟩
  · have hf := find_break_ctx_innermost ctx.stat_ctx 0 k f hin
    rw [Nat.zero_add] at hf
    unfold compile_break_statement at hs ⊢
    rw [hf] at hs ⊢
    simp only [hid, Option.isSome_none, Bool.false_eq_true, if_false] at hs ⊢
    exact branch_jump_emits ctx k f.break_label (innermost_lt hin) hs _ rfl
  · have hf := find_continue_ctx_innermost ctx.stat_ctx 0 k f hin
    rw [Nat.zero_add] at hf
    unfold compile_continue_statement at hs ⊢
    rw [hf] at hs ⊢
    simp only [hid, Option.isSome_none, Bool.false_eq_true, if_false] at hs ⊢
    exact branch_jump_emits ctx k f.continue_label (innermost_lt hin) hs _ rfl
  · intro c sw cp sc case_jmps default_jmp hres hp
    obtain ⟨expr, case_list⟩ := sw
    unfold switch_bodies_entry at hp
    dsimp only at hp
    obtain ⟨h1, hp⟩ := ite_none_some hp
    obtain ⟨h2, hp⟩ := ite_none_some hp
    obtain ⟨h3, hp⟩ := ite_none_some hp
    obtain ⟨h4, hp⟩ := ite_none_some hp
    have e := (Prod.mk.inj (Prod.mk.inj (Option.some.inj hp)).2).1
    rw [← e]
    exact ⟨h2, rfl⟩
  · intro sw loop rest hst h1 h2 h3
    rw [hst]
    refine ⟨⟨rfl, h1, fun j g hj _ => absurd hj (Nat.not_lt_zero _)⟩, rfl, h3, fun j g hj hg => ?_⟩
    obtain rfl : j = 0 := Nat.lt_one_iff.1 hj
    simp only [List.get?_cons_zero, Option.some.injEq] at hg
    rw [← hg]
    exact h2
  · unfold compile_break_statement
    rw [find_break_ctx_none ctx.stat_ctx 0 h]
  · unfold compile_continue_statement
    rw [find_continue_ctx_none ctx.stat_ctx 0 h]

/-- A `break` and a `continue` lowered with the frame of a switch innermost and the frame of a
for-in loop next (four stack cells): the break appends `OP_undefined` and `OP_jmp` to the label
of the switch, the continue appends four `OP_pop`, `OP_undefined` and `OP_jmp` to the continue
label of the loop; and the frame with which `switch(x) { case 1: b; }` lowers its body. -/
theorem unlabelled_branch_lowering_witness :
    (Emits (ctx_frames [switch_frame_sample, forin_frame_sample])
        (compile_break_statement (ctx_frames [switch_frame_sample, forin_frame_sample]) ⟨none⟩).2
        [OP_undefined, OP_jmp] ∧
      ((compile_break_statement (ctx_frames [switch_frame_sample, forin_frame_sample])
        ⟨none⟩).2.instrs 1).arg1 = .uint 0x80000002) ∧
    (Emits (ctx_frames [switch_frame_sample, forin_frame_sample])
        (compile_continue_statement (ctx_frames [switch_frame_sample, forin_frame_sample])
          ⟨none⟩).2
        [OP_pop, OP_pop, OP_pop, OP_pop, OP_undefined, OP_jmp] ∧
      ((compile_continue_statement (ctx_frames [switch_frame_sample, forin_frame_sample])
        ⟨none⟩).2.instrs 5).arg1 = .uint 0x80000001) ∧
    (((switch_bodies_entry ctx_empty switch_sample).get (by decide)).2.1.break_label
        ≠ UINT_MAX ∧
      ((switch_bodies_entry ctx_empty switch_sample).get (by decide)).2.1.continue_label
        = UINT_MAX) :=
  ⟨⟨((unlabelled_branch_lowering (ctx_frames [switch_frame_sample, forin_frame_sample]) ⟨none⟩
        rfl).1 0 switch_frame_sample
        (((unlabelled_branch_lowering (ctx_frames [switch_frame_sample, forin_frame_sample])
          ⟨none⟩ rfl).2.2.2.1 switch_frame_sample forin_frame_sample [] rfl
          (by decide) rfl (by decide)).1)
        (by decide)).2.1,
     ((unlabelled_branch_lowering (ctx_frames [switch_frame_sample, forin_frame_sample]) ⟨none⟩
        rfl).1 0 switch_frame_sample
        (((unlabelled_branch_lowering (ctx_frames [switch_frame_sample, forin_frame_sample])
          ⟨none⟩ rfl).2.2.2.1 switch_frame_sample forin_frame_sample [] rfl
          (by decide) rfl (by decide)).1)
        (by decide)).2.2⟩,
   ⟨((unlabelled_branch_lowering (ctx_frames [switch_frame_sample, forin_frame_sample]) ⟨none⟩
        rfl).2.1 1 forin_frame_sample
        (((unlabelled_branch_lowering (ctx_frames [switch_frame_sample, forin_frame_sample])
          ⟨none⟩ rfl).2.2.2.1 switch_frame_sample forin_frame_sample [] rfl
          (by decide) rfl (by decide)).2)
        (by decide)).2.1,
     ((unlabelled_branch_lowering (ctx_frames [switch_frame_sample, forin_frame_sample]) ⟨none⟩
        rfl).2.1 1 forin_frame_sample
        (((unlabelled_branch_lowering (ctx_frames [switch_frame_sample, forin_frame_sample])
          ⟨none⟩ rfl).2.2.2.1 switch_frame_sample forin_frame_sample [] rfl
          (by decide) rfl (by decide)).2)
        (by decide)).2.2⟩,
   (unlabelled_branch_lowering ctx_empty ⟨none⟩ rfl).2.2.1 ctx_empty switch_sample _ _ _ _ _
     (by
       have h := Option.some_get (show (switch_bodies_entry ctx_empty switch_sample).isSome
         = true by decide)
       exact h.symm)⟩


/-! ## The `while` loop -/

theorem while_entry_facts {ctx cp : compiler_ctx_t} {sc : statement_ctx_t} {expr : expression_t}
    {statement : statement_t}
    (hp : while_body_entry ctx (.mk false expr statement) = some (cp, sc)) :
    ¬ (alloc_label ctx).1 = UINT_MAX ∧ ¬ (alloc_label (alloc_label ctx).2).1 = UINT_MAX ∧
    ¬ (push_instr (alloc_label (alloc_label ctx).2).2 OP_undefined).1 = UINT_MAX ∧
    ¬ FAILED (compile_expression (while_cond_entry ctx) expr).1 = true ∧
    ¬ FAILED (push_instr_uint (compile_expression (while_cond_entry ctx) expr).2 OP_jmp_z
      sc.break_label).1 = true ∧
    ¬ FAILED (push_instr_hres (push_instr_uint (compile_expression (while_cond_entry ctx) expr).2
      OP_jmp_z sc.break_label).2 OP_pop).1 = true ∧
    cp = (push_instr_hres (push_instr_uint (compile_expression (while_cond_entry ctx) expr).2
      OP_jmp_z sc.break_label).2 OP_pop).2 ∧
    sc = ⟨0, false, false, (alloc_label ctx).1, (alloc_label (alloc_label ctx).2).1⟩ := by
  unfold while_body_entry at hp
  simp only [↓reduceIte, Bool.not_true, Bool.not_false, Bool.false_eq_true, if_true, if_false] at hp
  try dsimp only at hp
  obtain ⟨h1, hp⟩ := ite_none_some hp
  obtain ⟨h2, hp⟩ := ite_none_some hp
  obtain ⟨h3, hp⟩ := ite_none_some hp
  obtain ⟨h4, hp⟩ := ite_none_some hp
  obtain ⟨h5, hp⟩ := ite_none_some hp
  obtain ⟨h6, hp⟩ := ite_none_some hp
  obtain ⟨e1, e2⟩ := Prod.mk.inj (Option.some.inj hp)
  subst e2
  exact ⟨h1, h2, h3, h4, h5, h6, e1.symm, rfl⟩

/-- The path of `compile_while_statement` after a body that is lowered natively. -/
theorem while_native_eq {ctx cp : compiler_ctx_t} {sc : statement_ctx_t} {expr : expression_t}
    {statement : statement_t}
    (hp : while_body_entry ctx (.mk false expr statement) = some (cp, sc))
    (hb : ¬ (compile_statement (set_no_fallback cp true) (some sc) statement).1 = E_NOTIMPL) :
    compile_while_statement ctx (.mk false expr statement) =
      if FAILED (compile_statement (set_no_fallback cp true) (some sc) statement).1 = true then
        ((compile_statement (set_no_fallback cp true) (some sc) statement).1,
          set_no_fallback (compile_statement (set_no_fallback cp true) (some sc) statement).2
            cp.no_fallback)
      else if FAILED (push_instr_uint
          (set_no_fallback (compile_statement (set_no_fallback cp true) (some sc) statement).2
            cp.no_fallback) OP_jmp (while_cond_entry ctx).code_off).1 = true then
        push_instr_uint
          (set_no_fallback (compile_statement (set_no_fallback cp true) (some sc) statement).2
            cp.no_fallback) OP_jmp (while_cond_entry ctx).code_off
      else
        (S_OK, label_set_addr (push_instr_uint
          (set_no_fallback (compile_statement (set_no_fallback cp true) (some sc) statement).2
            cp.no_fallback) OP_jmp (while_cond_entry ctx).code_off).2 sc.break_label) := by
  have hS : ¬ FAILED S_OK = true := by decide
  unfold while_body_entry at hp
  simp only [↓reduceIte, Bool.not_true, Bool.not_false, Bool.false_eq_true, if_true, if_false] at hp
  try dsimp only at hp
  obtain ⟨h1, hp⟩ := ite_none_some hp
  obtain ⟨h2, hp⟩ := ite_none_some hp
  obtain ⟨h3, hp⟩ := ite_none_some hp
  obtain ⟨h4, hp⟩ := ite_none_some hp
  obtain ⟨h5, hp⟩ := ite_none_some hp
  obtain ⟨h6, hp⟩ := ite_none_some hp
  obtain ⟨e1, e2⟩ := Prod.mk.inj (Option.some.inj hp)
  have hw := compile_while_statement_unfold ctx false expr statement
  simp only [h1, h2, h3, h4, h5, h6, hS, ↓reduceIte, Bool.not_true, Bool.not_false,
    Bool.false_eq_true, if_true, if_false] at hw
  rw [e1, e2, if_neg hb] at hw
  subst e2
  exact hw

/-- C24, amended: a `while` loop (not a `do` loop) that is lowered natively (the routine reaches
the loop body in the state `cp` with the frame `sc`, the body does not signal not-implemented,
the routine returns success) keeps the stream at entry and appends the layout `WhileLayout`: the
filler `OP_undefined`, the code of the condition, `OP_jmp_z` to the break label, `OP_pop`, the
code of the body, and one `OP_jmp` back to the offset of the first instruction of the condition,
which is the last instruction; the condition is tested before the body. The break label is bound
to the offset after that jump, the continue label to the start of the condition. -/
theorem while_statement_lowering (ctx cp : compiler_ctx_t) (sc : statement_ctx_t)
    (expr : expression_t) (statement : statement_t)
    (hp : while_body_entry ctx (.mk false expr statement) = some (cp, sc))
    (hb : (compile_statement (set_no_fallback cp true) (some sc) statement).1 ≠ E_NOTIMPL)
    (hs : SUCCEEDED (compile_while_statement ctx (.mk false expr statement)).1 = true) :
    Keeps ctx (compile_while_statement ctx (.mk false expr statement)).2 ∧
    WhileLayout ctx (compile_while_statement ctx (.mk false expr statement)).2 cp sc expr
      statement := by
  have hk := compile_while_statement_rel (.mk false expr statement) (Rel.refl ctx)
  refine ⟨⟨hk.off_ge, hk.instrs_eq⟩, ?_⟩
  have hs' := succeeded_not_failed hs
  clear hk hs
  unfold WhileLayout
  obtain ⟨h1, h2, h3, h4, h5, h6, e1, e2⟩ := while_entry_facts hp
  rw [while_native_eq hp hb] at hs' ⊢
  clear hp
  obtain ⟨a1, a2, a3, a4, a5, _, _⟩ := lay_alloc2 ctx h1 h2
  obtain ⟨_, p2, p3, p4, _⟩ := push_instr_ok _ OP_undefined h3
  have hso : (while_cond_entry ctx).code_off = ctx.code_off + 1 := by
    show (push_instr (alloc_label (alloc_label ctx).2).2 OP_undefined).2.code_off = _
    rw [p2, a4]
  generalize hcd : compile_expression (while_cond_entry ctx) expr = cond at *
  obtain ⟨_, z2, z3, z4, z5⟩ := (push_instr_uint_ok cond.2 OP_jmp_z sc.break_label).2 h5
  generalize hz : push_instr_uint cond.2 OP_jmp_z sc.break_label = z at *
  obtain ⟨_, q2, q3, _, q5⟩ := (push_instr_hres_ok z.2 OP_pop).2 h6
  rw [← e1] at q2 q3 q5
  obtain ⟨f1, f2⟩ := lay_body_frame cp (some sc) statement
  generalize hbd : compile_statement (set_no_fallback cp true) (some sc) statement = body at *
  by_cases hbf : FAILED body.1 = true
  · rw [if_pos hbf] at hs'
    exact absurd hbf hs'
  rw [if_neg hbf] at hs' ⊢
  by_cases hj : FAILED (push_instr_uint (set_no_fallback body.2 cp.no_fallback) OP_jmp
      (while_cond_entry ctx).code_off).1 = true
  · rw [if_pos hj] at hs'
    exact absurd hj hs'
  rw [if_neg hj]
  obtain ⟨_, j2, j3, j4, j5⟩ := (push_instr_uint_ok (set_no_fallback body.2 cp.no_fallback)
    OP_jmp (while_cond_entry ctx).code_off).2 hj
  have hcs : (while_cond_entry ctx).code_off ≤ cond.2.code_off :=
    hcd ▸ (compile_expression_rel expr (Rel.refl (while_cond_entry ctx))).off_ge
  have hcp : cp.code_off = cond.2.code_off + 2 := by rw [q2, z2]
  have low : ∀ i, i < cp.code_off →
      (label_set_addr (push_instr_uint (set_no_fallback body.2 cp.no_fallback) OP_jmp
        (while_cond_entry ctx).code_off).2 sc.break_label).instrs i = cp.instrs i := by
    intro i hi
    show (push_instr_uint (set_no_fallback body.2 cp.no_fallback) OP_jmp
        (while_cond_entry ctx).code_off).2.instrs i = cp.instrs i
    rw [j5 i (Nat.ne_of_lt (lt_of_lt_of_le hi f2))]
    exact f1 i hi
  refine ⟨?_, hso, h4, fun i hi => ?_, ?_, ?_, ?_, hcp, hbf, fun i hi => ?_, j3, ?_, j2, ?_,
    fun hB => ?_⟩
  · rw [low _ (by omega), q5 _ (by omega), z5 _ (by omega), ← hcd,
      (compile_expression_rel expr (Rel.refl (while_cond_entry ctx))).instrs_eq _
        (by rw [hso]; exact Nat.lt_succ_self _)]
    show ((push_instr (alloc_label (alloc_label ctx).2).2 OP_undefined).2.instrs ctx.code_off).op
      = OP_undefined
    rw [← a4]
    exact p3
  · rw [low _ (by omega), q5 _ (by omega), z5 _ (by omega)]
  · rw [low _ (by omega), q5 _ (by omega)]
    exact z3
  · rw [low _ (by omega), q5 _ (by omega)]
    exact z4
  · rw [low _ (by omega), ← z2]
    exact q3
  · exact j5 i (Nat.ne_of_lt hi)
  · rw [← hso]
    exact j4
  · show Function.update _ _ _ _ = _
    rw [Function.update_same]
    rfl
  · have hr : Rel (while_cond_entry ctx).code_off (while_cond_entry ctx).labels_cnt
        (while_cond_entry ctx) (push_instr_uint (set_no_fallback body.2 cp.no_fallback) OP_jmp
          (while_cond_entry ctx).code_off).2 := by
      have r1 : Rel (while_cond_entry ctx).code_off (while_cond_entry ctx).labels_cnt
          (while_cond_entry ctx) cp := by
        rw [e1, ← hz, ← hcd]
        exact push_instr_hres_rel _ (push_instr_uint_rel _ _ (compile_expression_rel expr
          (Rel.refl _)))
      rw [← hbd]
      exact push_instr_uint_rel _ _ (body_step (compile_statement_rel statement) r1 r1)
    have hcnt : ctx.labels_cnt + 2
        ≤ (push_instr (alloc_label (alloc_label ctx).2).2 OP_undefined).2.labels_cnt := by
      rw [← a3]
      exact (push_instr_rel OP_undefined (Rel.refl _)).cnt_mono
    have hc1 : sc.continue_label = (ctx.labels_cnt + 1) ||| LABEL_FLAG := by rw [e2]; exact a2
    have hb1 : sc.break_label = ctx.labels_cnt ||| LABEL_FLAG := by rw [e2]; exact a1
    have hB' : (push_instr_uint (set_no_fallback body.2 cp.no_fallback) OP_jmp
        (while_cond_entry ctx).code_off).2.labels_cnt ≤ LABEL_FLAG := hB
    have hge : ctx.labels_cnt + 2 ≤ (push_instr_uint (set_no_fallback body.2 cp.no_fallback)
        OP_jmp (while_cond_entry ctx).code_off).2.labels_cnt := le_trans hcnt hr.cnt_ge
    rw [lay_label_other _ sc.continue_label sc.break_label hB' hc1 hb1 (by omega) (by omega)
      (by omega)]
    have hr' : Rel
        (label_set_addr (push_instr (alloc_label (alloc_label ctx).2).2 OP_undefined).2
          sc.continue_label).code_off
        (label_set_addr (push_instr (alloc_label (alloc_label ctx).2).2 OP_undefined).2
          sc.continue_label).labels_cnt
        (label_set_addr (push_instr (alloc_label (alloc_label ctx).2).2 OP_undefined).2
          sc.continue_label)
        (push_instr_uint (set_no_fallback body.2 cp.no_fallback) OP_jmp
          (while_cond_entry ctx).code_off).2 := by
      rw [e2]
      exact hr
    rw [lay_label_kept sc.continue_label hr' hB' hc1 (by omega), p2, a4]

/-- The statement `while(cond) b;` from the empty context: `OP_undefined`, `OP_ident cond`,
`OP_jmp_z` with the break label, `OP_pop`, `OP_ident b`, `OP_jmp 1`. -/
theorem while_statement_lowering_witness :
    WhileLayout ctx_empty (compile_while_statement ctx_empty while_native_sample).2
      ((while_body_entry ctx_empty while_native_sample).get (by decide)).1
      ((while_body_entry ctx_empty while_native_sample).get (by decide)).2
      (.EXPR_IDENT ⟨"cond"⟩) (stat_ident "b") ∧
    emitted_ops (compile_while_statement ctx_empty while_native_sample).2 0 6 =
      [OP_undefined, OP_ident, OP_jmp_z, OP_pop, OP_ident, OP_jmp] :=
  ⟨(while_statement_lowering ctx_empty
      ((while_body_entry ctx_empty while_native_sample).get (by decide)).1
      ((while_body_entry ctx_empty while_native_sample).get (by decide)).2
      (.EXPR_IDENT ⟨"cond"⟩) (stat_ident "b")
      (Option.some_get (by decide)).symm (by decide) (by decide)).2,
   by decide⟩

/-- C24, as stated, fails: `while(cond) b;` from the empty context is lowered natively (success,
six instructions, no `OP_tree`), the instruction after the filler is the first instruction of
the condition and not a jump, the condition (offset 1) stands before the body (offset 4), and the
only `OP_jmp` is the last instruction, back to the offset 1. -/
theorem while_condition_before_body :
    (compile_while_statement ctx_empty while_native_sample).1 = S_OK ∧
    (compile_while_statement ctx_empty while_native_sample).2.code_off = 6 ∧
    emitted_ops (compile_while_statement ctx_empty while_native_sample).2 0 6 =
      [OP_undefined, OP_ident, OP_jmp_z, OP_pop, OP_ident, OP_jmp] ∧
    ((compile_while_statement ctx_empty while_native_sample).2.instrs 1).arg1
      = .bstr (some "cond") ∧
    ((compile_while_statement ctx_empty while_native_sample).2.instrs 4).arg1
      = .bstr (some "b") ∧
    ((compile_while_statement ctx_empty while_native_sample).2.instrs 2).arg1
      = .uint 0x80000000 ∧
    ((compile_while_statement ctx_empty while_native_sample).2.instrs 5).arg1 = .uint 1 ∧
    (compile_while_statement ctx_empty while_native_sample).2.labels 0 = 6 :=
  ⟨by decide, by decide, by decide, rfl, rfl, rfl, rfl, by decide⟩


/-! ## The `for` loop -/

theorem compile_for_statement_probes (ctx : compiler_ctx_t) (variable_list : variable_declaration_t)
    (begin_expr expr end_expr : Option expression_t) (statement : statement_t) :
    compile_for_statement ctx (.mk variable_list begin_expr expr end_expr statement) = (
    let off_backup := ctx.code_off
    let init := for_init ctx variable_list begin_expr
    if FAILED init.1 then init else
    let break_label := alloc_label init.2
    if break_label.1 = UINT_MAX then (E_OUTOFMEMORY, break_label.2) else
    let continue_label := alloc_label break_label.2
    if continue_label.1 = UINT_MAX then (E_OUTOFMEMORY, continue_label.2) else
    let stat_ctx : statement_ctx_t := ⟨0, false, false, break_label.1, continue_label.1⟩
    let instr := push_instr continue_label.2 OP_undefined
    if instr.1 = UINT_MAX then (E_OUTOFMEMORY, instr.2) else
    let expr_off := instr.2.code_off
    let test := for_test instr.2 expr stat_ctx.break_label
    if FAILED test.1 then test else
    let instr := push_instr test.2 OP_pop
    if instr.1 = UINT_MAX then (E_OUTOFMEMORY, instr.2) else
    let prev_no_fallback := instr.2.no_fallback
    let hres := compile_statement (set_no_fallback instr.2 true) (some stat_ctx) statement
    let ctx1 := set_no_fallback hres.2 prev_no_fallback
    if hres.1 = E_NOTIMPL then
      compile_interp_fallback
        (set_eval (set_code_off ctx1 off_backup)
          (.STAT_FOR (.mk variable_list begin_expr expr end_expr statement)) .for_statement_eval)
        (.STAT_FOR (.mk variable_list begin_expr expr end_expr statement))
    else
    if FAILED hres.1 then (hres.1, ctx1) else
    let step := for_step (label_set_addr ctx1 stat_ctx.continue_label) end_expr
    if FAILED step.1 then step else
    let hres := push_instr_uint step.2 OP_jmp expr_off
    if FAILED hres.1 then hres else
    (S_OK, label_set_addr hres.2 stat_ctx.break_label)) := by
  rw [compile_for_statement_unfold]
  cases variable_list <;> cases begin_expr <;> cases expr <;> cases end_expr <;> rfl

theorem for_body_entry_probes (ctx : compiler_ctx_t) (variable_list : variable_declaration_t)
    (begin_expr expr end_expr : Option expression_t) (statement : statement_t) :
    for_body_entry ctx (.mk variable_list begin_expr expr end_expr statement) = (
    let init := for_init ctx variable_list begin_expr
    if FAILED init.1 then none else
    let break_label := alloc_label init.2
    if break_label.1 = UINT_MAX then none else
    let continue_label := alloc_label break_label.2
    if continue_label.1 = UINT_MAX then none else
    let stat_ctx : statement_ctx_t := ⟨0, false, false, break_label.1, continue_label.1⟩
    let instr := push_instr continue_label.2 OP_undefined
    if instr.1 = UINT_MAX then none else
    let test := for_test instr.2 expr stat_ctx.break_label
    if FAILED test.1 then none else
    let instr := push_instr test.2 OP_pop
    if instr.1 = UINT_MAX then none else
    some (instr.2, stat_ctx)) := by
  unfold for_body_entry
  cases variable_list <;> cases begin_expr <;> cases expr <;> rfl

theorem for_entry_facts {ctx cp : compiler_ctx_t} {sc : statement_ctx_t}
    {variable_list : variable_declaration_t} {begin_expr expr end_expr : Option expression_t}
    {statement : statement_t}
    (hp : for_body_entry ctx (.mk variable_list begin_expr expr end_expr statement)
      = some (cp, sc)) :
    ¬ FAILED (for_init ctx variable_list begin_expr).1 = true ∧
    ¬ (alloc_label (for_init ctx variable_list begin_expr).2).1 = UINT_MAX ∧
    ¬ (alloc_label (alloc_label (for_init ctx variable_list begin_expr).2).2).1 = UINT_MAX ∧
    ¬ (push_instr (alloc_label (alloc_label (for_init ctx variable_list begin_expr).2).2).2
      OP_undefined).1 = UINT_MAX ∧
    ¬ FAILED (for_test (for_cond_entry ctx variable_list begin_expr) expr sc.break_label).1
      = true ∧
    ¬ (push_instr (for_test (for_cond_entry ctx variable_list begin_expr) expr
      sc.break_label).2 OP_pop).1 = UINT_MAX ∧
    cp = (push_instr (for_test (for_cond_entry ctx variable_list begin_expr) expr
      sc.break_label).2 OP_pop).2 ∧
    sc = ⟨0, false, false, (alloc_label (for_init ctx variable_list begin_expr).2).1,
      (alloc_label (alloc_label (for_init ctx variable_list begin_expr).2).2).1⟩ := by
  rw [for_body_entry_probes] at hp
  dsimp only at hp
  obtain ⟨h1, hp⟩ := ite_none_some hp
  obtain ⟨h2, hp⟩ := ite_none_some hp
  obtain ⟨h3, hp⟩ := ite_none_some hp
  obtain ⟨h4, hp⟩ := ite_none_some hp
  obtain ⟨h5, hp⟩ := ite_none_some hp
  obtain ⟨h6, hp⟩ := ite_none_some hp
  obtain ⟨e1, e2⟩ := Prod.mk.inj (Option.some.inj hp)
  subst e2
  exact ⟨h1, h2, h3, h4, h5, h6, e1.symm, rfl⟩

/-- The path of `compile_for_statement` after a body that is lowered natively. -/
theorem for_native_eq {ctx cp : compiler_ctx_t} {sc : statement_ctx_t}
    {variable_list : variable_declaration_t} {begin_expr expr end_expr : Option expression_t}
    {statement : statement_t}
    (hp : for_body_entry ctx (.mk variable_list begin_expr expr end_expr statement)
      = some (cp, sc))
    (hb : ¬ (compile_statement (set_no_fallback cp true) (some sc) statement).1 = E_NOTIMPL) :
    compile_for_statement ctx (.mk variable_list begin_expr expr end_expr statement) =
      if FAILED (compile_statement (set_no_fallback cp true) (some sc) statement).1 = true then
        ((compile_statement (set_no_fallback cp true) (some sc) statement).1,
          set_no_fallback (compile_statement (set_no_fallback cp true) (some sc) statement).2
            cp.no_fallback)
      else if FAILED (for_step (label_set_addr
          (set_no_fallback (compile_statement (set_no_fallback cp true) (some sc) statement).2
            cp.no_fallback) sc.continue_label) end_expr).1 = true then
        for_step (label_set_addr
          (set_no_fallback (compile_statement (set_no_fallback cp true) (some sc) statement).2
            cp.no_fallback) sc.continue_label) end_expr
      else if FAILED (push_instr_uint (for_step (label_set_addr
          (set_no_fallback (compile_statement (set_no_fallback cp true) (some sc) statement).2
            cp.no_fallback) sc.continue_label) end_expr).2 OP_jmp
          (for_cond_entry ctx variable_list begin_expr).code_off).1 = true then
        push_instr_uint (for_step (label_set_addr
          (set_no_fallback (compile_statement (set_no_fallback cp true) (some sc) statement).2
            cp.no_fallback) sc.continue_label) end_expr).2 OP_jmp
          (for_cond_entry ctx variable_list begin_expr).code_off
      else
        (S_OK, label_set_addr (push_instr_uint (for_step (label_set_addr
          (set_no_fallback (compile_statement (set_no_fallback cp true) (some sc) statement).2
            cp.no_fallback) sc.continue_label) end_expr).2 OP_jmp
          (for_cond_entry ctx variable_list begin_expr).code_off).2 sc.break_label) := by
  rw [for_body_entry_probes] at hp
  dsimp only at hp
  obtain ⟨h1, hp⟩ := ite_none_some hp
  obtain ⟨h2, hp⟩ := ite_none_some hp
  obtain ⟨h3, hp⟩ := ite_none_some hp
  obtain ⟨h4, hp⟩ := ite_none_some hp
  obtain ⟨h5, hp⟩ := ite_none_some hp
  obtain ⟨h6, hp⟩ := ite_none_some hp
  obtain ⟨e1, e2⟩ := Prod.mk.inj (Option.some.inj hp)
  have hw := compile_for_statement_probes ctx variable_list begin_expr expr end_expr statement
  simp only [h1, h2, h3, h4, h5, h6, ↓reduceIte, Bool.not_true, Bool.not_false,
    Bool.false_eq_true, if_true, if_false] at hw
  rw [e1, e2, if_neg hb] at hw
  subst e2
  exact hw

/-- The flag `no_ret` after an expression lowered without failure: set by a call only. -/
theorem noret_flag (c : compiler_ctx_t) (e : expression_t)
    (hs : ¬ FAILED (compile_expression_noret c e (some false)).1.1 = true) :
    (compile_expression_noret c e (some false)).2 = some e.is_call := by
  cases e with
  | binary type expr => cases type <;> rw [compile_expression_noret] <;> rfl
  | unary type expr => cases type <;> rw [compile_expression_noret] <;> rfl
  | EXPR_CALL expr =>
    obtain ⟨expression, argument_list⟩ := expr
    rw [compile_expression_noret, compile_call_expression.eq_def] at hs ⊢
    dsimp only at hs ⊢
    generalize (if is_memberid_expr expression.type = true then
      compile_memberid_expression c expression 0
      else (compile_expression_noret c expression none).1) = hres at hs ⊢
    generalize (if is_memberid_expr expression.type = true then OP_call_member else OP_call)
      = op at hs ⊢
    by_cases h1 : FAILED hres.1 = true
    · rw [if_pos h1] at hs; exact absurd h1 hs
    rw [if_neg h1] at hs ⊢
    by_cases h2 : FAILED (compile_argument_list hres.2 argument_list 0).1.1 = true
    · rw [if_pos h2] at hs; exact absurd h2 hs
    rw [if_neg h2] at hs ⊢
    by_cases h3 : (push_instr (compile_argument_list hres.2 argument_list 0).1.2 op).1 = UINT_MAX
    · rw [if_pos h3] at hs; exact absurd failed_oom hs
    rw [if_neg h3]
    rfl
  | EXPR_COND expr => rw [compile_expression_noret]; rfl
  | EXPR_FUNC expr => rw [compile_expression_noret]; rfl
  | EXPR_IDENT expr => rw [compile_expression_noret]; rfl
  | EXPR_LITERAL expr => rw [compile_expression_noret]; rfl
  | EXPR_MEMBER expr => rw [compile_expression_noret]; rfl
  | EXPR_NEW expr => rw [compile_expression_noret]; rfl
  | EXPR_PROPVAL expr => rw [compile_expression_noret]; rfl
  | EXPR_ARRAYLIT expr => rw [compile_expression_noret]; rfl
  | EXPR_THIS => rw [compile_expression_noret]; rfl

theorem for_test_rel {a b : Nat} {c0 c : compiler_ctx_t} (expr : Option expression_t)
    (break_label : Nat) (h : Rel a b c0 c) : Rel a b c0 (for_test c expr break_label).2 := by
  cases expr with
  | none => exact h
  | some e =>
    show Rel a b c0 (if FAILED (compile_expression c e).1 = true then compile_expression c e
      else push_instr_uint (compile_expression c e).2 OP_jmp_z break_label).2
    split
    · exact compile_expression_rel e h
    · exact push_instr_uint_rel _ _ (compile_expression_rel e h)

theorem for_step_rel {a b : Nat} {c0 c : compiler_ctx_t} (end_expr : Option expression_t)
    (h : Rel a b c0 c) : Rel a b c0 (for_step c end_expr).2 := by
  cases end_expr with
  | none => exact h
  | some e =>
    show Rel a b c0 (if FAILED (compile_expression_noret c e (some false)).1.1 = true then
        (compile_expression_noret c e (some false)).1
      else if (compile_expression_noret c e (some false)).2 = some false then
        push_instr_hres (compile_expression_noret c e (some false)).1.2 OP_pop
      else (S_OK, (compile_expression_noret c e (some false)).1.2)).2
    split
    · exact compile_expression_noret_rel e _ h
    · split
      · exact push_instr_hres_rel _ (compile_expression_noret_rel e _ h)
      · exact compile_expression_noret_rel e _ h

theorem for_test_layout (entry : compiler_ctx_t) (expr : Option expression_t) (break_label : Nat)
    (hs : ¬ FAILED (for_test entry expr break_label).1 = true)
    (hq : ¬ (push_instr (for_test entry expr break_label).2 OP_pop).1 = UINT_MAX) :
    ForTestLayout (push_instr (for_test entry expr break_label).2 OP_pop).2 entry
      (push_instr (for_test entry expr break_label).2 OP_pop).2 break_label expr := by
  obtain ⟨_, q2, q3, q4, _⟩ := push_instr_ok _ OP_pop hq
  cases expr with
  | none => exact ⟨fun i hi => q4 i (Nat.ne_of_lt hi), q3, q2⟩
  | some e =>
    have ht : for_test entry (some e) break_label =
        if FAILED (compile_expression entry e).1 = true then compile_expression entry e
        else push_instr_uint (compile_expression entry e).2 OP_jmp_z break_label := rfl
    rw [ht] at hs q2 q3 q4 ⊢
    by_cases h1 : FAILED (compile_expression entry e).1 = true
    · rw [if_pos h1] at hs; exact absurd h1 hs
    rw [if_neg h1] at hs q2 q3 q4 ⊢
    obtain ⟨_, z2, z3, z4, z5⟩ := (push_instr_uint_ok (compile_expression entry e).2 OP_jmp_z
      break_label).2 hs
    refine ⟨h1, fun i hi => ?_, ?_, ?_, ?_, ?_⟩
    · rw [q4 i (by omega), z5 i (by omega)]
    · rw [q4 _ (by omega)]; exact z3
    · rw [q4 _ (by omega)]; exact z4
    · rw [← z2]; exact q3
    · rw [q2, z2]

theorem for_test_layout_mono {final s entry cp : compiler_ctx_t} {break_label : Nat}
    {expr : Option expression_t} (h : ForTestLayout s entry cp break_label expr)
    (hf : ∀ i, i < cp.code_off → final.instrs i = s.instrs i) :
    ForTestLayout final entry cp break_label expr := by
  cases expr with
  | none =>
    obtain ⟨a1, a2, a3⟩ := h
    exact ⟨fun i hi => by rw [hf i (by omega), a1 i hi], by rw [hf _ (by omega)]; exact a2, a3⟩
  | some e =>
    obtain ⟨a1, a2, a3, a4, a5, a6⟩ := h
    exact ⟨a1, fun i hi => by rw [hf i (by omega), a2 i hi], by rw [hf _ (by omega)]; exact a3,
      by rw [hf _ (by omega)]; exact a4, by rw [hf _ (by omega)]; exact a5, a6⟩

theorem for_step_layout (c : compiler_ctx_t) (end_expr : Option expression_t)
    (hs : ¬ FAILED (for_step c end_expr).1 = true) :
    ForStepLayout (for_step c end_expr).2 c (for_step c end_expr).2.code_off end_expr := by
  cases end_expr with
  | none => exact ⟨fun _ _ => rfl, rfl⟩
  | some e =>
    have ht : for_step c (some e) =
        if FAILED (compile_expression_noret c e (some false)).1.1 = true then
          (compile_expression_noret c e (some false)).1
        else if (compile_expression_noret c e (some false)).2 = some false then
          push_instr_hres (compile_expression_noret c e (some false)).1.2 OP_pop
        else (S_OK, (compile_expression_noret c e (some false)).1.2) := rfl
    rw [ht] at hs ⊢
    by_cases h1 : FAILED (compile_expression_noret c e (some false)).1.1 = true
    · rw [if_pos h1] at hs; exact absurd h1 hs
    rw [if_neg h1] at hs ⊢
    have hfl := noret_flag c e h1
    by_cases hc : e.is_call = true
    · have hn : ¬ (compile_expression_noret c e (some false)).2 = some false := by
        rw [hfl, hc]; exact fun h => Bool.noConfusion (Option.some.inj h)
      rw [if_neg hn]
      exact ⟨h1, fun _ _ => rfl, by rw [if_pos hc]⟩
    · have hn : (compile_expression_noret c e (some false)).2 = some false := by
        rw [hfl, Bool.eq_false_iff.2 hc]
      rw [if_pos hn] at hs ⊢
      obtain ⟨_, p2, p3, _, p5⟩ := (push_instr_hres_ok _ OP_pop).2 hs
      exact ⟨h1, fun i hi => p5 i (Nat.ne_of_lt hi), by rw [if_neg hc]; exact ⟨p3, p2⟩⟩

theorem for_step_layout_mono {final s c : compiler_ctx_t} {j : Nat}
    {end_expr : Option expression_t} (h : ForStepLayout s c j end_expr)
    (hf : ∀ i, i < j → final.instrs i = s.instrs i) :
    ForStepLayout final c j end_expr := by
  cases end_expr with
  | none =>
    obtain ⟨a1, a2⟩ := h
    exact ⟨fun i hi => by rw [hf i (by omega), a1 i hi], a2⟩
  | some e =>
    obtain ⟨a1, a2, a3⟩ := h
    refine ⟨a1, ?_, ?_⟩
    · by_cases hc : e.is_call = true
      · rw [if_pos hc] at a3
        exact fun i hi => by rw [hf i (by omega), a2 i hi]
      · rw [if_neg hc] at a3
        exact fun i hi => by rw [hf i (by omega), a2 i hi]
    · by_cases hc : e.is_call = true
      · rw [if_pos hc] at a3 ⊢
        exact a3
      · rw [if_neg hc] at a3 ⊢
        exact ⟨by rw [hf _ (by omega)]; exact a3.1, a3.2⟩

/-- C25: a `for` loop that is lowered natively (the routine reaches the loop body in the state
`cp` with the frame `sc`, the body does not signal not-implemented, the routine returns success)
keeps the stream at entry and appends the layout `ForLayout`: the code of the initialisation, the
filler `OP_undefined`, the code of the condition and `OP_jmp_z` to the break label (both absent
when there is no condition), `OP_pop`, the code of the body, the code of the update expression
(followed by `OP_pop` unless it is a call), and one `OP_jmp`, the last instruction, whose operand
is the offset of the first instruction after the filler. The continue label is bound to the
offset where the update step begins and the break label to the offset after the backward
jump. -/
theorem for_statement_lowering (ctx cp : compiler_ctx_t) (sc : statement_ctx_t)
    (variable_list : variable_declaration_t) (begin_expr expr end_expr : Option expression_t)
    (statement : statement_t)
    (hp : for_body_entry ctx (.mk variable_list begin_expr expr end_expr statement)
      = some (cp, sc))
    (hb : (compile_statement (set_no_fallback cp true) (some sc) statement).1 ≠ E_NOTIMPL)
    (hs : SUCCEEDED (compile_for_statement ctx
      (.mk variable_list begin_expr expr end_expr statement)).1 = true) :
    Keeps ctx (compile_for_statement ctx
      (.mk variable_list begin_expr expr end_expr statement)).2 ∧
    ForLayout ctx (compile_for_statement ctx
      (.mk variable_list begin_expr expr end_expr statement)).2 cp sc variable_list begin_expr
      expr end_expr statement := by
  have hk := compile_for_statement_rel (.mk variable_list begin_expr expr end_expr statement)
    (Rel.refl ctx)
  refine ⟨⟨hk.off_ge, hk.instrs_eq⟩, ?_⟩
  have hs' := succeeded_not_failed hs
  clear hk hs
  unfold ForLayout
  obtain ⟨h0, h1, h2, h3, h5, h6, e1, e2⟩ := for_entry_facts hp
  rw [for_native_eq hp hb] at hs' ⊢
  clear hp
  generalize hin : for_init ctx variable_list begin_expr = init at *
  obtain ⟨a1, a2, a3, a4, a5, _, _⟩ := lay_alloc2 init.2 h1 h2
  obtain ⟨_, p2, p3, p4, _⟩ := push_instr_ok _ OP_undefined h3
  have hent : for_cond_entry ctx variable_list begin_expr
      = (push_instr (alloc_label (alloc_label init.2).2).2 OP_undefined).2 := by
    unfold for_cond_entry
    rw [hin]
  have hso : (for_cond_entry ctx variable_list begin_expr).code_off = init.2.code_off + 1 := by
    rw [hent, p2, a4]
  have hcnt : init.2.labels_cnt + 2 ≤ (for_cond_entry ctx variable_list begin_expr).labels_cnt := by
    rw [hent, ← a3]
    exact (push_instr_rel OP_undefined (Rel.refl _)).cnt_mono
  have hei : ∀ i, i < (for_cond_entry ctx variable_list begin_expr).code_off →
      i ≠ init.2.code_off → (for_cond_entry ctx variable_list begin_expr).instrs i
        = init.2.instrs i := by
    intro i _ hne
    rw [hent, p4 i (by rw [a4]; exact hne), a5]
  have heo : ((for_cond_entry ctx variable_list begin_expr).instrs init.2.code_off).op
      = OP_undefined := by
    rw [hent, ← a4]; exact p3
  clear p2 p3 p4 hent
  generalize for_cond_entry ctx variable_list begin_expr = entry at *
  have tl := for_test_layout entry expr sc.break_label h5 h6
  have tr : Rel entry.code_off entry.labels_cnt entry cp := by
    rw [e1]
    exact push_instr_rel _ (for_test_rel expr sc.break_label (Rel.refl entry))
  rw [← e1] at tl
  clear h5 h6 e1
  obtain ⟨f1, f2⟩ := lay_body_frame cp (some sc) statement
  have br : Rel entry.code_off entry.labels_cnt entry
      (set_no_fallback (compile_statement (set_no_fallback cp true) (some sc) statement).2
        cp.no_fallback) := body_step (compile_statement_rel statement) tr tr
  generalize hbd : compile_statement (set_no_fallback cp true) (some sc) statement = body at *
  by_cases hbf : FAILED body.1 = true
  · rw [if_pos hbf] at hs'
    exact absurd hbf hs'
  rw [if_neg hbf] at hs' ⊢
  by_cases hst : FAILED (for_step (label_set_addr (set_no_fallback body.2 cp.no_fallback)
      sc.continue_label) end_expr).1 = true
  · rw [if_pos hst] at hs'
    exact absurd hst hs'
  rw [if_neg hst] at hs' ⊢
  have sl := for_step_layout _ end_expr hst
  have sr := for_step_rel end_expr
    (Rel.refl (label_set_addr (set_no_fallback body.2 cp.no_fallback) sc.continue_label))
  generalize hsp : for_step (label_set_addr (set_no_fallback body.2 cp.no_fallback)
      sc.continue_label) end_expr = step at *
  by_cases hj : FAILED (push_instr_uint step.2 OP_jmp entry.code_off).1 = true
  · rw [if_pos hj] at hs'
    exact absurd hj hs'
  rw [if_neg hj]
  obtain ⟨_, j2, j3, j4, j5⟩ := (push_instr_uint_ok step.2 OP_jmp entry.code_off).2 hj
  have hbs : body.2.code_off ≤ step.2.code_off := sr.off_ge
  have lowb : ∀ i, i < body.2.code_off →
      (label_set_addr (push_instr_uint step.2 OP_jmp entry.code_off).2 sc.break_label).instrs i
        = body.2.instrs i := by
    intro i hi
    show (push_instr_uint step.2 OP_jmp entry.code_off).2.instrs i = body.2.instrs i
    rw [j5 i (by omega)]
    exact sr.instrs_eq i hi
  have low : ∀ i, i < cp.code_off →
      (label_set_addr (push_instr_uint step.2 OP_jmp entry.code_off).2 sc.break_label).instrs i
        = cp.instrs i := by
    intro i hi
    rw [lowb i (by omega)]
    exact f1 i hi
  have hec : entry.code_off ≤ cp.code_off := tr.off_ge
  refine ⟨h0, fun i hi => ?_, ?_, hso, for_test_layout_mono tl low, hbf, lowb,
    ⟨step.2.code_off, for_step_layout_mono sl (fun i hi => j5 i (Nat.ne_of_lt hi)), j3, ?_, j2⟩,
    ?_, fun hB => ?_⟩
  · rw [low i (by omega), tr.instrs_eq i (by omega), hei i (by omega) (by omega)]
  · rw [low _ (by omega), tr.instrs_eq _ (by omega)]
    exact heo
  · rw [← hso]
    exact j4
  · show Function.update _ _ _ _ = _
    rw [Function.update_same]
    rfl
  · have hc1 : sc.continue_label = (init.2.labels_cnt + 1) ||| LABEL_FLAG := by rw [e2]; exact a2
    have hb1 : sc.break_label = init.2.labels_cnt ||| LABEL_FLAG := by rw [e2]; exact a1
    have hB' : (push_instr_uint step.2 OP_jmp entry.code_off).2.labels_cnt ≤ LABEL_FLAG := hB
    have hr := push_instr_uint_rel OP_jmp entry.code_off sr
    have hge1 : init.2.labels_cnt + 2 ≤ (set_no_fallback body.2 cp.no_fallback).labels_cnt :=
      le_trans hcnt br.cnt_ge
    have hge : init.2.labels_cnt + 2
        ≤ (push_instr_uint step.2 OP_jmp entry.code_off).2.labels_cnt := le_trans hge1 hr.cnt_ge
    rw [lay_label_other _ sc.continue_label sc.break_label hB' hc1 hb1 (by omega) (by omega)
      (by omega)]
    exact @lay_label_kept (set_no_fallback body.2 cp.no_fallback) _ _ sc.continue_label hr hB'
      hc1 (lt_of_lt_of_le (Nat.lt_succ_self _) hge1)

/-- The statement `for(i = 0; c; f()) b;` from the empty context (the update is a call, no
`OP_pop` follows it) and the statement `for(;;i) b;` (no condition, `OP_pop` after the update). -/
theorem for_statement_lowering_witness :
    ForLayout ctx_empty (compile_for_statement ctx_empty for_native_sample).2
      ((for_body_entry ctx_empty for_native_sample).get (by decide)).1
      ((for_body_entry ctx_empty for_native_sample).get (by decide)).2
      .NULL (some (.binary .EXPR_ASSIGN (.mk (expr_ident "i") (expr_int 0))))
      (some (expr_ident "c")) (some (.EXPR_CALL (.mk (expr_ident "f") .NULL))) (stat_ident "b") ∧
    emitted_ops (compile_for_statement ctx_empty for_native_sample).2 0 12 =
      [OP_identid, OP_int, OP_assign, OP_pop, OP_undefined, OP_ident, OP_jmp_z, OP_pop, OP_ident,
       OP_identid, OP_call_member, OP_jmp] ∧
    ((compile_for_statement ctx_empty for_native_sample).2.instrs 11).arg1 = .uint 5 ∧
    (compile_for_statement ctx_empty for_native_sample).2.labels 1 = 9 ∧
    (compile_for_statement ctx_empty for_native_sample).2.labels 0 = 12 ∧
    emitted_ops (compile_for_statement ctx_empty for_bare_sample).2 0 6 =
      [OP_undefined, OP_pop, OP_ident, OP_ident, OP_pop, OP_jmp] ∧
    ((compile_for_statement ctx_empty for_bare_sample).2.instrs 5).arg1 = .uint 1 :=
  ⟨(for_statement_lowering ctx_empty
      ((for_body_entry ctx_empty for_native_sample).get (by decide)).1
      ((for_body_entry ctx_empty for_native_sample).get (by decide)).2
      .NULL (some (.binary .EXPR_ASSIGN (.mk (expr_ident "i") (expr_int 0))))
      (some (expr_ident "c")) (some (.EXPR_CALL (.mk (expr_ident "f") .NULL))) (stat_ident "b")
      (Option.some_get (by decide)).symm (by decide) (by decide)).2,
   by decide, rfl, by decide, by decide, by decide, rfl⟩


/-! ## The `for-in` loop -/

theorem push_instr_bstr_uint_ok (c : compiler_ctx_t) (op : jsop_t) (s : String) (v : Nat) :
    (FAILED (push_instr_bstr_uint c op s v).1 = true →
      (push_instr_bstr_uint c op s v).1 = E_OUTOFMEMORY) ∧
    (¬ FAILED (push_instr_bstr_uint c op s v).1 = true →
      (push_instr_bstr_uint c op s v).1 = S_OK ∧
      (push_instr_bstr_uint c op s v).2.code_off = c.code_off + 1 ∧
      ((push_instr_bstr_uint c op s v).2.instrs c.code_off).op = op ∧
      ((push_instr_bstr_uint c op s v).2.instrs c.code_off).arg1 = .bstr (some s) ∧
      ((push_instr_bstr_uint c op s v).2.instrs c.code_off).arg2 = .uint v ∧
      (∀ i, i ≠ c.code_off → (push_instr_bstr_uint c op s v).2.instrs i = c.instrs i)) := by
  obtain ⟨a1, a2, _⟩ := compiler_alloc_bstr_proj c s
  unfold push_instr_bstr_uint
  dsimp only
  rcases compiler_alloc_bstr_val c s with hv | hv
  · rw [hv]
    exact ⟨fun _ => rfl, fun h => absurd failed_oom h⟩
  · rw [hv]
    dsimp only
    by_cases hp : (push_instr (compiler_alloc_bstr c s).2 op).1 = UINT_MAX
    · rw [if_pos hp]
      exact ⟨fun _ => rfl, fun h => absurd failed_oom h⟩
    · rw [if_neg hp]
      obtain ⟨h1, h2, h3, h4, _⟩ := push_instr_ok _ op hp
      rw [a2] at h1 h2 h3 h4
      refine ⟨fun h => absurd h not_failed_ok, fun _ => ⟨rfl, h2, ?_, ?_, ?_, fun i hi => ?_⟩⟩
      · rw [h1, set_arg2_same, set_arg1_same]; exact h3
      · rw [h1, set_arg2_same, set_arg1_same]
      · rw [h1, set_arg2_same]
      · rw [h1, set_arg2_other _ _ hi, set_arg1_other _ _ hi, h4 i hi, a1]

theorem forin_entry_facts {ctx cp : compiler_ctx_t} {sc : statement_ctx_t}
    {variable_ : variable_declaration_t} {expr in_expr : expression_t} {statement : statement_t}
    (hp : forin_body_entry ctx (.mk variable_ expr in_expr statement) = some (cp, sc)) :
    ¬ FAILED (forin_init ctx variable_).1 = true ∧
    ¬ (alloc_label (forin_init ctx variable_).2).1 = UINT_MAX ∧
    ¬ (alloc_label (alloc_label (forin_init ctx variable_).2).2).1 = UINT_MAX ∧
    ¬ FAILED (compile_expression (forin_object_entry ctx variable_) in_expr).1 = true ∧
    ¬ FAILED (forin_target (compile_expression (forin_object_entry ctx variable_) in_expr).2
      variable_ expr).1.1 = true ∧
    ¬ (forin_target (compile_expression (forin_object_entry ctx variable_) in_expr).2
      variable_ expr).2 = true ∧
    ¬ FAILED (push_instr_int (forin_target
      (compile_expression (forin_object_entry ctx variable_) in_expr).2 variable_ expr).1.2
      OP_int DISPID_STARTENUM).1 = true ∧
    ¬ (push_instr (push_instr_int (forin_target
      (compile_expression (forin_object_entry ctx variable_) in_expr).2 variable_ expr).1.2
      OP_int DISPID_STARTENUM).2 OP_undefined).1 = UINT_MAX ∧
    ¬ FAILED (push_instr_uint (label_set_addr (push_instr (push_instr_int (forin_target
      (compile_expression (forin_object_entry ctx variable_) in_expr).2 variable_ expr).1.2
      OP_int DISPID_STARTENUM).2 OP_undefined).2 sc.continue_label) OP_forin sc.break_label).1
      = true ∧
    cp = (push_instr_uint (label_set_addr (push_instr (push_instr_int (forin_target
      (compile_expression (forin_object_entry ctx variable_) in_expr).2 variable_ expr).1.2
      OP_int DISPID_STARTENUM).2 OP_undefined).2 sc.continue_label) OP_forin sc.break_label).2 ∧
    sc = ⟨4, false, false, (alloc_label (forin_init ctx variable_).2).1,
      (alloc_label (alloc_label (forin_init ctx variable_).2).2).1⟩ := by
  cases variable_
  all_goals (
    unfold forin_body_entry at hp
    try dsimp only at hp
    obtain ⟨h1, hp⟩ := ite_none_some hp
    obtain ⟨h2, hp⟩ := ite_none_some hp
    obtain ⟨h3, hp⟩ := ite_none_some hp
    obtain ⟨h4, hp⟩ := ite_none_some hp
    obtain ⟨h5, hp⟩ := ite_none_some hp
    obtain ⟨h6, hp⟩ := ite_none_some hp
    obtain ⟨h7, hp⟩ := ite_none_some hp
    obtain ⟨h8, hp⟩ := ite_none_some hp
    obtain ⟨h9, hp⟩ := ite_none_some hp
    obtain ⟨e1, e2⟩ := Prod.mk.inj (Option.some.inj hp)
    subst e2
    exact ⟨h1, h2, h3, h4, h5, h6, h7, h8, h9, e1.symm, rfl⟩)

/-- The path of `compile_forin_statement` after a body that is lowered natively. -/
theorem forin_native_eq {ctx cp : compiler_ctx_t} {sc : statement_ctx_t}
    {variable_ : variable_declaration_t} {expr in_expr : expression_t} {statement : statement_t}
    (hp : forin_body_entry ctx (.mk variable_ expr in_expr statement) = some (cp, sc))
    (hb : ¬ (compile_statement (set_no_fallback cp true) (some sc) statement).1 = E_NOTIMPL) :
    compile_forin_statement ctx (.mk variable_ expr in_expr statement) =
      if FAILED (compile_statement (set_no_fallback cp true) (some sc) statement).1 = true then
        ((compile_statement (set_no_fallback cp true) (some sc) statement).1,
          set_no_fallback (compile_statement (set_no_fallback cp true) (some sc) statement).2
            cp.no_fallback)
      else if FAILED (push_instr_uint
          (set_no_fallback (compile_statement (set_no_fallback cp true) (some sc) statement).2
            cp.no_fallback) OP_jmp sc.continue_label).1 = true then
        push_instr_uint
          (set_no_fallback (compile_statement (set_no_fallback cp true) (some sc) statement).2
            cp.no_fallback) OP_jmp sc.continue_label
      else
        (S_OK, label_set_addr (push_instr_uint
          (set_no_fallback (compile_statement (set_no_fallback cp true) (some sc) statement).2
            cp.no_fallback) OP_jmp sc.continue_label).2 sc.break_label) := by
  have hw := compile_forin_statement_unfold ctx variable_ expr in_expr statement
  cases variable_
  all_goals (
    unfold forin_body_entry at hp
    try dsimp only at hp
    obtain ⟨h1, hp⟩ := ite_none_some hp
    obtain ⟨h2, hp⟩ := ite_none_some hp
    obtain ⟨h3, hp⟩ := ite_none_some hp
    obtain ⟨h4, hp⟩ := ite_none_some hp
    obtain ⟨h5, hp⟩ := ite_none_some hp
    obtain ⟨h6, hp⟩ := ite_none_some hp
    obtain ⟨h7, hp⟩ := ite_none_some hp
    obtain ⟨h8, hp⟩ := ite_none_some hp
    obtain ⟨h9, hp⟩ := ite_none_some hp
    obtain ⟨e1, e2⟩ := Prod.mk.inj (Option.some.inj hp)
    dsimp only at hw
    simp only [h1, h2, h3, h4, h5, h6, h7, h8, h9, ↓reduceIte, Bool.not_true, Bool.not_false,
      Bool.false_eq_true, if_true, if_false] at hw
    rw [e1, e2, if_neg hb] at hw
    subst e2
    exact hw)

theorem forin_target_rel {a b : Nat} {c0 c : compiler_ctx_t} (variable_ : variable_declaration_t)
    (expr : expression_t) (h : Rel a b c0 c) : Rel a b c0 (forin_target c variable_ expr).1.2 := by
  cases variable_ with
  | mk identifier e next => exact push_instr_bstr_uint_rel _ _ _ h
  | NULL =>
    show Rel a b c0 (if is_memberid_expr expr.type = true then
      (compile_memberid_expression c expr fdexNameEnsure, false)
      else (push_instr_uint c OP_throw_ref JS_E_ILLEGAL_ASSIGN, true)).1.2
    split
    · exact compile_memberid_expression_rel expr _ h
    · exact push_instr_uint_rel _ _ h

theorem forin_target_layout (c : compiler_ctx_t) (variable_ : variable_declaration_t)
    (expr : expression_t) (hs : ¬ FAILED (forin_target c variable_ expr).1.1 = true)
    (hn : ¬ (forin_target c variable_ expr).2 = true) :
    ForinTargetLayout (forin_target c variable_ expr).1.2 c
      (forin_target c variable_ expr).1.2.code_off expr variable_ := by
  cases variable_ with
  | mk identifier e next =>
    obtain ⟨_, p2, p3, p4, p5, _⟩ := (push_instr_bstr_uint_ok c OP_identid identifier
      fdexNameEnsure).2 hs
    exact ⟨p2, p3, p4, p5⟩
  | NULL =>
    have ht : forin_target c .NULL expr = if is_memberid_expr expr.type = true then
      (compile_memberid_expression c expr fdexNameEnsure, false)
      else (push_instr_uint c OP_throw_ref JS_E_ILLEGAL_ASSIGN, true) := rfl
    rw [ht] at hs hn ⊢
    by_cases hm : is_memberid_expr expr.type = true
    · rw [if_pos hm] at hs ⊢
      exact ⟨hm, hs, rfl, fun _ _ => rfl⟩
    · rw [if_neg hm] at hn
      exact absurd rfl hn

theorem forin_target_layout_mono {final s c : compiler_ctx_t} {t : Nat} {expr : expression_t}
    {variable_ : variable_declaration_t} (h : ForinTargetLayout s c t expr variable_)
    (hf : ∀ i, i < t → final.instrs i = s.instrs i) :
    ForinTargetLayout final c t expr variable_ := by
  cases variable_ with
  | mk identifier e next =>
    obtain ⟨a1, a2, a3, a4⟩ := h
    have hlt : c.code_off < t := by omega
    exact ⟨a1, by rw [hf _ hlt]; exact a2, by rw [hf _ hlt]; exact a3, by rw [hf _ hlt]; exact a4⟩
  | NULL =>
    obtain ⟨a1, a2, a3, a4⟩ := h
    exact ⟨a1, a2, a3, fun i hi => by rw [hf i hi, a4 i hi]⟩

/-- C26: a `for-in` loop that is lowered natively (the routine reaches the loop body in the state
`cp` with the frame `sc`, which it does only with a declared variable or a reference-producing
target; the body does not signal not-implemented, the routine returns success) keeps the stream
at entry and appends the layout `ForinLayout`: the initialiser of the declared variable, the code
of the enumerated object, the reference to the loop variable (`OP_identid` with the name and
`fdexNameEnsure`, or the memberid lowering of the left-hand side), `OP_int` with
`DISPID_STARTENUM`, `OP_undefined`, `OP_forin` whose operand is the break label, bound to the
offset after the loop, the code of the body, and `OP_jmp`, the last instruction, whose operand is
the continue label, bound to the offset of the `OP_forin`; the frame of the body reserves four
stack cells. -/
theorem forin_statement_lowering (ctx cp : compiler_ctx_t) (sc : statement_ctx_t)
    (variable_ : variable_declaration_t) (expr in_expr : expression_t) (statement : statement_t)
    (hp : forin_body_entry ctx (.mk variable_ expr in_expr statement) = some (cp, sc))
    (hb : (compile_statement (set_no_fallback cp true) (some sc) statement).1 ≠ E_NOTIMPL)
    (hs : SUCCEEDED (compile_forin_statement ctx (.mk variable_ expr in_expr statement)).1
      = true) :
    Keeps ctx (compile_forin_statement ctx (.mk variable_ expr in_expr statement)).2 ∧
    ForinLayout ctx (compile_forin_statement ctx (.mk variable_ expr in_expr statement)).2 cp sc
      variable_ expr in_expr statement := by
  have hk := compile_forin_statement_rel (.mk variable_ expr in_expr statement) (Rel.refl ctx)
  refine ⟨⟨hk.off_ge, hk.instrs_eq⟩, ?_⟩
  have hs' := succeeded_not_failed hs
  clear hk hs
  unfold ForinLayout
  obtain ⟨h0, h1, h2, h4, h5, h6, h7, h8, h9, e1, e2⟩ := forin_entry_facts hp
  rw [forin_native_eq hp hb] at hs' ⊢
  clear hp
  have hoe : forin_object_entry ctx variable_
      = (alloc_label (alloc_label (forin_init ctx variable_).2).2).2 := rfl
  generalize hin : forin_init ctx variable_ = init at *
  obtain ⟨a1, a2, a3, a4, a5, _, _⟩ := lay_alloc2 init.2 h1 h2
  rw [← hoe] at a3 a4 a5
  clear hoe
  generalize forin_object_entry ctx variable_ = oe at *
  have obr := compile_expression_rel in_expr (Rel.refl oe)
  generalize hob : compile_expression oe in_expr = obj at *
  have tl := forin_target_layout obj.2 variable_ expr h5 h6
  have tgr := forin_target_rel variable_ expr (Rel.refl obj.2)
  generalize htg : forin_target obj.2 variable_ expr = tgt at *
  obtain ⟨_, i2, i3, i4, i5⟩ := (push_instr_int_ok tgt.1.2 OP_int DISPID_STARTENUM).2 h7
  have pir := push_instr_int_rel OP_int DISPID_STARTENUM (Rel.refl tgt.1.2)
  generalize hpi : push_instr_int tgt.1.2 OP_int DISPID_STARTENUM = pi at *
  obtain ⟨_, u2, u3, u4, _⟩ := push_instr_ok pi.2 OP_undefined h8
  have ur := push_instr_rel OP_undefined (Rel.refl pi.2)
  generalize hpu : push_instr pi.2 OP_undefined = u at *
  obtain ⟨_, f2, f3, f4, f5⟩ := (push_instr_uint_ok (label_set_addr u.2 sc.continue_label)
    OP_forin sc.break_label).2 h9
  have fr := push_instr_uint_rel OP_forin sc.break_label
    (Rel.refl (label_set_addr u.2 sc.continue_label))
  rw [← e1] at f2 f3 f4 f5 fr
  clear h9 e1
  have ls1 : (label_set_addr u.2 sc.continue_label).code_off = u.2.code_off := rfl
  have ls2 : (label_set_addr u.2 sc.continue_label).instrs = u.2.instrs := rfl
  rw [ls1] at f2 f3 f4 f5
  rw [ls2] at f5
  obtain ⟨b1, b2⟩ := lay_body_frame cp (some sc) statement
  have br : Rel (label_set_addr u.2 sc.continue_label).code_off
      (label_set_addr u.2 sc.continue_label).labels_cnt (label_set_addr u.2 sc.continue_label)
      (set_no_fallback (compile_statement (set_no_fallback cp true) (some sc) statement).2
        cp.no_fallback) := body_step (compile_statement_rel statement) fr fr
  generalize hbd : compile_statement (set_no_fallback cp true) (some sc) statement = body at *
  by_cases hbf : FAILED body.1 = true
  · rw [if_pos hbf] at hs'
    exact absurd hbf hs'
  rw [if_neg hbf] at hs' ⊢
  by_cases hj : FAILED (push_instr_uint (set_no_fallback body.2 cp.no_fallback) OP_jmp
      sc.continue_label).1 = true
  · rw [if_pos hj] at hs'
    exact absurd hj hs'
  rw [if_neg hj]
  obtain ⟨_, j2, j3, j4, j5⟩ := (push_instr_uint_ok (set_no_fallback body.2 cp.no_fallback)
    OP_jmp sc.continue_label).2 hj
  have jr := push_instr_uint_rel OP_jmp sc.continue_label br
  have hcp : cp.code_off = tgt.1.2.code_off + 3 := by rw [f2, u2, i2]
  have low : ∀ i, i < cp.code_off →
      (label_set_addr (push_instr_uint (set_no_fallback body.2 cp.no_fallback) OP_jmp
        sc.continue_label).2 sc.break_label).instrs i = cp.instrs i := by
    intro i hi
    show (push_instr_uint (set_no_fallback body.2 cp.no_fallback) OP_jmp
        sc.continue_label).2.instrs i = cp.instrs i
    rw [j5 i (Nat.ne_of_lt (lt_of_lt_of_le hi b2))]
    exact b1 i hi
  have lowt : ∀ i, i < tgt.1.2.code_off → cp.instrs i = tgt.1.2.instrs i := by
    intro i hi
    rw [f5 i (by omega), u4 i (by omega), i5 i (by omega)]
  have hot : obj.2.code_off ≤ tgt.1.2.code_off := tgr.off_ge
  have hoo : oe.code_off ≤ obj.2.code_off := obr.off_ge
  refine ⟨h0, fun i hi => ?_, a4, h4, fun i hi => ?_,
    ⟨tgt.1.2.code_off, forin_target_layout_mono tl (fun i hi => by rw [low i (by omega), lowt i hi]), ?_, ?_, ?_, ?_, ?_, hcp, fun hB => ?_⟩,
    by rw [e2], hbf, fun i hi => j5 i (Nat.ne_of_lt hi), j3, j4, j2, ?_⟩
  · rw [low i (by omega), lowt i (by omega), tgr.instrs_eq i (by omega),
      obr.instrs_eq i (by omega), a5]
  · rw [low i (by omega), lowt i (by omega), tgr.instrs_eq i hi]
  · rw [low _ (by omega), f5 _ (by omega), u4 _ (by omega)]
    exact i3
  · rw [low _ (by omega), f5 _ (by omega), u4 _ (by omega)]
    exact i4
  · rw [low _ (by omega), f5 _ (by omega), ← i2]
    exact u3
  · rw [low _ (by omega)]
    have : tgt.1.2.code_off + 2 = u.2.code_off := by rw [u2, i2]
    rw [this]
    exact f3
  · rw [low _ (by omega)]
    have : tgt.1.2.code_off + 2 = u.2.code_off := by rw [u2, i2]
    rw [this]
    exact f4
  · have hc1 : sc.continue_label = (init.2.labels_cnt + 1) ||| LABEL_FLAG := by rw [e2]; exact a2
    have hb1 : sc.break_label = init.2.labels_cnt ||| LABEL_FLAG := by rw [e2]; exact a1
    have hB' : (push_instr_uint (set_no_fallback body.2 cp.no_fallback) OP_jmp
        sc.continue_label).2.labels_cnt ≤ LABEL_FLAG := hB
    have hge0 : init.2.labels_cnt + 2 ≤ u.2.labels_cnt := by
      rw [← a3]
      exact le_trans obr.cnt_mono (le_trans tgr.cnt_mono (le_trans pir.cnt_mono ur.cnt_mono))
    have hge : init.2.labels_cnt + 2 ≤ (push_instr_uint (set_no_fallback body.2 cp.no_fallback)
        OP_jmp sc.continue_label).2.labels_cnt := le_trans hge0 jr.cnt_ge
    rw [lay_label_other _ sc.continue_label sc.break_label hB' hc1 hb1 (by omega) (by omega)
      (by omega)]
    rw [@lay_label_kept u.2 _ _ sc.continue_label jr hB' hc1
      (lt_of_lt_of_le (Nat.lt_succ_self _) hge0), u2, i2]
  · show Function.update _ _ _ _ = _
    rw [Function.update_same]
    rfl

/-- The statement `for(var v = 1 in o) b;` from the empty context: `OP_int 1`, `OP_var_set v`,
`OP_ident o`, `OP_identid v`, `OP_int -1`, `OP_undefined`, `OP_forin`, `OP_ident b`, `OP_jmp`;
the continue label (1) is bound to the offset 6 of the `OP_forin`, the break label (0) to the
offset 9 after the loop. -/
theorem forin_statement_lowering_witness :
    ForinLayout ctx_empty (compile_forin_statement ctx_empty forin_var_sample).2
      ((forin_body_entry ctx_empty forin_var_sample).get (by decide)).1
      ((forin_body_entry ctx_empty forin_var_sample).get (by decide)).2
      (.mk "v" (some (expr_int 1)) .NULL) (expr_ident "v") (expr_ident "o") (stat_ident "b") ∧
    emitted_ops (compile_forin_statement ctx_empty forin_var_sample).2 0 9 =
      [OP_int, OP_var_set, OP_ident, OP_identid, OP_int, OP_undefined, OP_forin, OP_ident,
       OP_jmp] ∧
    ((compile_forin_statement ctx_empty forin_var_sample).2.instrs 6).arg1 = .uint 0x80000000 ∧
    ((compile_forin_statement ctx_empty forin_var_sample).2.instrs 8).arg1 = .uint 0x80000001 ∧
    (compile_forin_statement ctx_empty forin_var_sample).2.labels 1 = 6 ∧
    (compile_forin_statement ctx_empty forin_var_sample).2.labels 0 = 9 :=
  ⟨(forin_statement_lowering ctx_empty
      ((forin_body_entry ctx_empty forin_var_sample).get (by decide)).1
      ((forin_body_entry ctx_empty forin_var_sample).get (by decide)).2
      (.mk "v" (some (expr_int 1)) .NULL) (expr_ident "v") (expr_ident "o") (stat_ident "b")
      (Option.some_get (by decide)).symm (by decide) (by decide)).2,
   by decide, rfl, rfl, by decide, by decide⟩


/-! ## The try statement -/

/-- The path of `compile_try_statement` after a try block that is lowered natively. -/
theorem try_native_eq {ctx tp : compiler_ctx_t} {tsc : statement_ctx_t}
    {try_statement : statement_t} {catch_block : catch_block_t}
    {finally_statement : statement_list}
    (hp : try_body_entry ctx (.mk try_statement catch_block finally_statement) = some (tp, tsc))
    (hb : ¬ (compile_statement (set_no_fallback tp true) (some tsc) try_statement).1
      = E_NOTIMPL) :
    compile_try_statement ctx (.mk try_statement catch_block finally_statement) =
      if FAILED (compile_statement (set_no_fallback tp true) (some tsc) try_statement).1 = true
      then
        ((compile_statement (set_no_fallback tp true) (some tsc) try_statement).1,
          set_no_fallback (compile_statement (set_no_fallback tp true) (some tsc)
            try_statement).2 ctx.no_fallback)
      else if (push_instr (set_no_fallback (compile_statement (set_no_fallback tp true)
          (some tsc) try_statement).2 ctx.no_fallback) OP_pop_except).1 = UINT_MAX then
        (E_OUTOFMEMORY, (push_instr (set_no_fallback (compile_statement (set_no_fallback tp true)
          (some tsc) try_statement).2 ctx.no_fallback) OP_pop_except).2)
      else if (try_handler (push_instr (set_no_fallback (compile_statement
          (set_no_fallback tp true) (some tsc) try_statement).2 ctx.no_fallback)
          OP_pop_except).2 (.STAT_TRY (.mk try_statement catch_block finally_statement))
          ctx.code_off ctx.no_fallback ctx.code_off catch_block).2 = true then
        (try_handler (push_instr (set_no_fallback (compile_statement
          (set_no_fallback tp true) (some tsc) try_statement).2 ctx.no_fallback)
          OP_pop_except).2 (.STAT_TRY (.mk try_statement catch_block finally_statement))
          ctx.code_off ctx.no_fallback ctx.code_off catch_block).1
      else
        try_finally (try_handler (push_instr (set_no_fallback (compile_statement
          (set_no_fallback tp true) (some tsc) try_statement).2 ctx.no_fallback)
          OP_pop_except).2 (.STAT_TRY (.mk try_statement catch_block finally_statement))
          ctx.code_off ctx.no_fallback ctx.code_off catch_block).1.2
          (.STAT_TRY (.mk try_statement catch_block finally_statement))
          ctx.code_off ctx.no_fallback catch_block finally_statement := by
  have hw := compile_try_statement_unfold ctx try_statement catch_block finally_statement
  have hpe : ∀ h : ¬ (push_instr ctx OP_push_except).1 = UINT_MAX,
      (push_instr ctx OP_push_except).1 = ctx.code_off := fun h => (push_instr_ok _ _ h).1
  cases catch_block <;> cases finally_statement
  all_goals (
    unfold try_body_entry at hp
    try dsimp only at hp
    obtain ⟨h1, hp⟩ := ite_none_some hp
    obtain ⟨h2, hp⟩ := ite_none_some hp
    obtain ⟨e1, e2⟩ := Prod.mk.inj (Option.some.inj hp)
    dsimp only at hw
    simp only [h1, h2, ↓reduceIte, Bool.not_true, Bool.not_false,
      Bool.false_eq_true, if_true, if_false] at hw
    rw [e1, e2, if_neg hb, hpe h1] at hw
    subst e2
    exact hw)

theorem try_entry_facts {ctx tp : compiler_ctx_t} {tsc : statement_ctx_t}
    {try_statement : statement_t} {catch_block : catch_block_t}
    {finally_statement : statement_list}
    (hp : try_body_entry ctx (.mk try_statement catch_block finally_statement) = some (tp, tsc)) :
    ¬ (push_instr ctx OP_push_except).1 = UINT_MAX ∧
    tp.code_off = ctx.code_off + 1 ∧ (tp.instrs ctx.code_off).op = OP_push_except ∧
    (tp.instrs ctx.code_off).arg2 = .bstr (catch_name catch_block) ∧
    (∀ i, i < ctx.code_off → tp.instrs i = ctx.instrs i) := by
  cases catch_block with
  | NULL =>
    unfold try_body_entry at hp
    dsimp only at hp
    obtain ⟨h1, hp⟩ := ite_none_some hp
    obtain ⟨h2, hp⟩ := ite_none_some hp
    obtain ⟨e1, e2⟩ := Prod.mk.inj (Option.some.inj hp)
    obtain ⟨p1, p2, p3, p4, _⟩ := push_instr_ok ctx OP_push_except h1
    have e1' : tp = set_arg2 (push_instr ctx OP_push_except).2 ctx.code_off (.bstr none) := by
      rw [← e1, p1]
    subst e1'
    refine ⟨h1, p2, ?_, ?_, fun i hi => ?_⟩
    · rw [set_arg2_same]; exact p3
    · show ((set_arg2 _ _ _).instrs _).arg2 = instr_arg_t.bstr none
      rw [set_arg2_same]
    · rw [set_arg2_other _ _ (Nat.ne_of_lt hi)]; exact p4 i (Nat.ne_of_lt hi)
  | mk identifier statement =>
    unfold try_body_entry at hp
    dsimp only at hp
    obtain ⟨h1, hp⟩ := ite_none_some hp
    obtain ⟨h2, hp⟩ := ite_none_some hp
    obtain ⟨e1, e2⟩ := Prod.mk.inj (Option.some.inj hp)
    obtain ⟨p1, p2, p3, p4, _⟩ := push_instr_ok ctx OP_push_except h1
    obtain ⟨a1, a2, _⟩ := compiler_alloc_bstr_proj (push_instr ctx OP_push_except).2 identifier
    have hv : (compiler_alloc_bstr (push_instr ctx OP_push_except).2 identifier).1
        = some identifier := by
      rcases compiler_alloc_bstr_val (push_instr ctx OP_push_except).2 identifier with hv | hv
      · rw [hv] at h2; exact absurd rfl h2
      · exact hv
    have e1' : tp = set_arg2 (compiler_alloc_bstr (push_instr ctx OP_push_except).2 identifier).2
        ctx.code_off (.bstr (some identifier)) := by
      rw [← e1, p1, hv]
    subst e1'
    refine ⟨h1, by show (compiler_alloc_bstr _ _).2.code_off = _; rw [a2, p2], ?_, ?_,
      fun i hi => ?_⟩
    · rw [set_arg2_same]
      show ((compiler_alloc_bstr _ _).2.instrs ctx.code_off).op = _
      rw [a1]; exact p3
    · show ((set_arg2 _ _ _).instrs _).arg2 = instr_arg_t.bstr (some identifier)
      rw [set_arg2_same]
    · rw [set_arg2_other _ _ (Nat.ne_of_lt hi)]
      show (compiler_alloc_bstr _ _).2.instrs i = _
      rw [a1]; exact p4 i (Nat.ne_of_lt hi)

/-- The handler part without a catch block. -/
theorem try_handler_null (c : compiler_ctx_t) (this : statement_t) (off_backup : Nat)
    (prev : Bool) (pe : Nat) :
    try_handler c this off_backup prev pe .NULL
      = ((S_OK, set_arg1 c pe (.uint c.code_off)), false) := rfl

/-- The handler part with a catch block, when the routine goes on after it. -/
theorem try_handler_catch (c : compiler_ctx_t) (this : statement_t) (off_backup : Nat)
    (prev : Bool) (pe : Nat) (identifier : String) (statement : statement_t)
    (hpe : pe < c.code_off)
    (hn : ¬ (try_handler c this off_backup prev pe (.mk identifier statement)).2 = true) :
    ∀ cp, cp = set_arg1 (push_instr c OP_jmp).2 pe (.uint (push_instr c OP_jmp).2.code_off) →
    ∀ cbody, cbody = compile_statement (set_no_fallback cp true)
      (some ⟨0, true, false, UINT_MAX, UINT_MAX⟩) statement →
    ∀ h, h = (try_handler c this off_backup prev pe (.mk identifier statement)).1.2 →
    ¬ (push_instr c OP_jmp).1 = UINT_MAX ∧ cp.code_off = c.code_off + 1 ∧
    ¬ cbody.1 = E_NOTIMPL ∧ ¬ FAILED cbody.1 = true ∧
    (h.instrs c.code_off).op = OP_jmp ∧
    (h.instrs c.code_off).arg1 = .uint (cbody.2.code_off + 1) ∧
    (h.instrs pe).arg1 = .uint (c.code_off + 1) ∧
    (h.instrs pe).op = (c.instrs pe).op ∧ (h.instrs pe).arg2 = (c.instrs pe).arg2 ∧
    (∀ i, i < c.code_off → i ≠ pe → h.instrs i = c.instrs i) ∧
    (∀ i, c.code_off + 1 ≤ i → i < cbody.2.code_off → h.instrs i = cbody.2.instrs i) ∧
    (h.instrs cbody.2.code_off).op = OP_pop_scope ∧ h.code_off = cbody.2.code_off + 1 := by
  intro cp ecp cbody ecb h eh
  have ht : try_handler c this off_backup prev pe (.mk identifier statement) =
      if (push_instr c OP_jmp).1 = UINT_MAX then
        ((E_OUTOFMEMORY, (push_instr c OP_jmp).2), true)
      else if cbody.1 = E_NOTIMPL then
        (compile_interp_fallback (set_eval (set_code_off (set_no_fallback cbody.2 prev)
          off_backup) this .try_statement_eval) this, true)
      else if FAILED cbody.1 = true then ((cbody.1, set_no_fallback cbody.2 prev), true)
      else if (push_instr (set_no_fallback cbody.2 prev) OP_pop_scope).1 = UINT_MAX then
        ((E_OUTOFMEMORY, (push_instr (set_no_fallback cbody.2 prev) OP_pop_scope).2), true)
      else
        ((S_OK, set_arg1 (push_instr (set_no_fallback cbody.2 prev) OP_pop_scope).2
          (push_instr c OP_jmp).1
          (.uint (push_instr (set_no_fallback cbody.2 prev) OP_pop_scope).2.code_off)), false) := by
    rw [ecb, ecp]
    rfl
  rw [ht] at hn eh
  clear ht
  by_cases h1 : (push_instr c OP_jmp).1 = UINT_MAX
  · rw [if_pos h1] at hn; exact absurd rfl hn
  rw [if_neg h1] at hn eh
  by_cases h2 : cbody.1 = E_NOTIMPL
  · rw [if_pos h2] at hn; exact absurd rfl hn
  rw [if_neg h2] at hn eh
  by_cases h3 : FAILED cbody.1 = true
  · rw [if_pos h3] at hn; exact absurd rfl hn
  rw [if_neg h3] at hn eh
  by_cases h4 : (push_instr (set_no_fallback cbody.2 prev) OP_pop_scope).1 = UINT_MAX
  · rw [if_pos h4] at hn; exact absurd rfl hn
  rw [if_neg h4] at eh
  obtain ⟨j1, j2, j3, j4, _⟩ := push_instr_ok c OP_jmp h1
  obtain ⟨s1, s2, s3, s4, _⟩ := push_instr_ok (set_no_fallback cbody.2 prev) OP_pop_scope h4
  have s2' : (push_instr (set_no_fallback cbody.2 prev) OP_pop_scope).2.code_off
      = cbody.2.code_off + 1 := s2
  have hcpo : cp.code_off = c.code_off + 1 := by rw [ecp]; exact j2
  obtain ⟨f1, f2⟩ := lay_body_frame cp (some ⟨0, true, false, UINT_MAX, UINT_MAX⟩) statement
  rw [← ecb] at f1 f2
  have hcpi : ∀ i, i ≠ pe → i ≠ c.code_off → cp.instrs i = c.instrs i := by
    intro i h5 h6
    rw [ecp, set_arg1_other _ _ h5]
    exact j4 i h6
  have hh : ∀ i, i ≠ c.code_off → i ≠ cbody.2.code_off → h.instrs i = cbody.2.instrs i := by
    intro i h5 h6
    rw [eh, j1]
    show (set_arg1 _ _ _).instrs i = _
    rw [set_arg1_other _ _ h5]
    exact s4 i h6
  have hhj : h.instrs c.code_off = { cbody.2.instrs c.code_off with
      arg1 := .uint (cbody.2.code_off + 1) } := by
    rw [eh, j1]
    show (set_arg1 _ _ _).instrs c.code_off = _
    rw [set_arg1_same, s2', s4 c.code_off (by omega)]
    rfl
  have hcj : cbody.2.instrs c.code_off = (push_instr c OP_jmp).2.instrs c.code_off := by
    rw [f1 c.code_off (by omega), ecp, set_arg1_other _ _ (by omega)]
  have hpe2 : cbody.2.instrs pe = { (push_instr c OP_jmp).2.instrs pe with
      arg1 := .uint (c.code_off + 1) } := by
    rw [f1 pe (by omega), ecp, set_arg1_same, j2]
  refine ⟨h1, hcpo, h2, h3, ?_, ?_, ?_, ?_, ?_, fun i hi hne => ?_, fun i hi hlt => ?_, ?_, ?_⟩
  · rw [hhj]; show (cbody.2.instrs c.code_off).op = _; rw [hcj]; exact j3
  · rw [hhj]
  · rw [hh pe (by omega) (by omega), hpe2]
  · rw [hh pe (by omega) (by omega), hpe2]
    show ((push_instr c OP_jmp).2.instrs pe).op = _
    rw [j4 pe (by omega)]
  · rw [hh pe (by omega) (by omega), hpe2]
    show ((push_instr c OP_jmp).2.instrs pe).arg2 = _
    rw [j4 pe (by omega)]
  · rw [hh i (by omega) (by omega), f1 i (by omega), hcpi i hne (by omega)]
  · exact hh i (by omega) (by omega)
  · rw [eh, j1]
    show ((set_arg1 _ _ _).instrs cbody.2.code_off).op = _
    rw [set_arg1_other _ _ (by omega)]
    exact s3
  · rw [eh]; exact s2'

/-- The finally part, when the finally block is lowered natively and nothing fails. -/
theorem try_finally_facts (h : compiler_ctx_t) (this : statement_t) (off_backup : Nat)
    (prev : Bool) (catch_block : catch_block_t) (addr : Nat) (finally_stat : statement_t)
    (next : statement_list) :
    ∀ fsc, fsc = finally_frame catch_block →
    ∀ fbody, fbody = compile_statement (set_no_fallback (push_instr h OP_pop).2 true) fsc
      finally_stat →
    ∀ final, final = (try_finally h this off_backup prev catch_block
      (.node addr finally_stat next)).2 →
    ¬ fbody.1 = E_NOTIMPL →
    ¬ FAILED (try_finally h this off_backup prev catch_block
      (.node addr finally_stat next)).1 = true →
    ¬ (push_instr h OP_pop).1 = UINT_MAX ∧ (push_instr h OP_pop).2.code_off = h.code_off + 1 ∧
    (final.instrs h.code_off).op = OP_pop ∧ ¬ FAILED fbody.1 = true ∧
    h.code_off + 1 ≤ fbody.2.code_off ∧
    (∀ i, i < fbody.2.code_off → final.instrs i = fbody.2.instrs i) ∧
    (∀ i, i < h.code_off → final.instrs i = h.instrs i) ∧
    (match catch_block with
     | .NULL => (final.instrs fbody.2.code_off).op = OP_end_finally ∧
       final.code_off = fbody.2.code_off + 1
     | .mk _ _ => final.code_off = fbody.2.code_off) := by
  intro fsc efs fbody efb final efi hnat hs
  have ht : try_finally h this off_backup prev catch_block (.node addr finally_stat next) =
      if (push_instr h OP_pop).1 = UINT_MAX then (E_OUTOFMEMORY, (push_instr h OP_pop).2)
      else if fbody.1 = E_NOTIMPL then
        compile_interp_fallback (set_eval (set_code_off (set_no_fallback fbody.2 prev)
          off_backup) this .try_statement_eval) this
      else if FAILED fbody.1 = true then (fbody.1, set_no_fallback fbody.2 prev)
      else
        match catch_block with
        | .mk _ _ => (S_OK, set_no_fallback fbody.2 prev)
        | .NULL => push_instr_hres (set_no_fallback fbody.2 prev) OP_end_finally := by
    subst efb efs
    cases catch_block <;> rfl
  rw [ht] at hs efi
  clear ht
  by_cases h1 : (push_instr h OP_pop).1 = UINT_MAX
  · rw [if_pos h1] at hs; exact absurd failed_oom hs
  rw [if_neg h1, if_neg hnat] at hs efi
  by_cases h3 : FAILED fbody.1 = true
  · rw [if_pos h3] at hs; exact absurd h3 hs
  rw [if_neg h3] at hs efi
  obtain ⟨_, p2, p3, p4, _⟩ := push_instr_ok h OP_pop h1
  obtain ⟨f1, f2⟩ := lay_body_frame (push_instr h OP_pop).2 fsc finally_stat
  rw [← efb] at f1 f2
  rw [p2] at f1 f2
  cases catch_block with
  | mk identifier statement =>
    have efi' : final = set_no_fallback fbody.2 prev := efi
    subst efi'
    refine ⟨h1, p2, ?_, h3, f2, fun _ _ => rfl, fun i hi => ?_, rfl⟩
    · show (fbody.2.instrs h.code_off).op = _
      rw [f1 _ (Nat.lt_succ_self _)]; exact p3
    · show fbody.2.instrs i = _
      rw [f1 i (by omega)]; exact p4 i (Nat.ne_of_lt hi)
  | NULL =>
    have efi' : final = (push_instr_hres (set_no_fallback fbody.2 prev) OP_end_finally).2 := efi
    have hs' : ¬ FAILED (push_instr_hres (set_no_fallback fbody.2 prev) OP_end_finally).1
        = true := hs
    obtain ⟨_, e2, e3, _, e5⟩ := (push_instr_hres_ok _ OP_end_finally).2 hs'
    subst efi'
    have e5' : ∀ i, i ≠ fbody.2.code_off →
        (push_instr_hres (set_no_fallback fbody.2 prev) OP_end_finally).2.instrs i
          = fbody.2.instrs i := e5
    refine ⟨h1, p2, ?_, h3, f2, fun i hi => e5' i (Nat.ne_of_lt hi), fun i hi => ?_, e3, e2⟩
    · rw [e5' _ (by omega), f1 _ (Nat.lt_succ_self _)]; exact p3
    · rw [e5' i (by omega), f1 i (by omega)]; exact p4 i (Nat.ne_of_lt hi)

/-- The state in which the catch block is lowered, after a try block lowered from `tp`. -/
theorem catch_entry_eq {ctx tp cp : compiler_ctx_t} {tsc csc : statement_ctx_t}
    {try_statement statement : statement_t} {identifier : String}
    {finally_statement : statement_list}
    (hp : try_body_entry ctx (.mk try_statement (.mk identifier statement) finally_statement)
      = some (tp, tsc))
    (hc : catch_body_entry ctx (.mk try_statement (.mk identifier statement) finally_statement)
      = some (cp, csc)) :
    ∀ pex, pex = push_instr (set_no_fallback (compile_statement (set_no_fallback tp true)
      (some tsc) try_statement).2 ctx.no_fallback) OP_pop_except →
    ¬ pex.1 = UINT_MAX ∧ ¬ (push_instr pex.2 OP_jmp).1 = UINT_MAX ∧
    cp = set_arg1 (push_instr pex.2 OP_jmp).2 ctx.code_off
      (.uint (push_instr pex.2 OP_jmp).2.code_off) ∧
    csc = ⟨0, true, false, UINT_MAX, UINT_MAX⟩ := by
  intro pex epx
  have hpe : ∀ h : ¬ (push_instr ctx OP_push_except).1 = UINT_MAX,
      (push_instr ctx OP_push_except).1 = ctx.code_off := fun h => (push_instr_ok _ _ h).1
  unfold try_body_entry at hp
  dsimp only at hp
  obtain ⟨g1, hp⟩ := ite_none_some hp
  obtain ⟨g2, hp⟩ := ite_none_some hp
  obtain ⟨d1, d2⟩ := Prod.mk.inj (Option.some.inj hp)
  unfold catch_body_entry at hc
  dsimp only at hc
  obtain ⟨h1, hc⟩ := ite_none_some hc
  obtain ⟨h2, hc⟩ := ite_none_some hc
  rw [d1, d2] at hc
  obtain ⟨h3, hc⟩ := ite_none_some hc
  obtain ⟨h4, hc⟩ := ite_none_some hc
  rw [← epx] at hc
  obtain ⟨h5, hc⟩ := ite_none_some hc
  obtain ⟨h6, hc⟩ := ite_none_some hc
  obtain ⟨e1, e2⟩ := Prod.mk.inj (Option.some.inj hc)
  rw [hpe h1] at e1
  exact ⟨h5, h6, e1.symm, e2.symm⟩

/-- The state in which the finally block is lowered, after a try block lowered from `tp`. -/
theorem finally_entry_eq {ctx tp fp : compiler_ctx_t} {tsc : statement_ctx_t}
    {fsc : Option statement_ctx_t} {try_statement finally_stat : statement_t}
    {catch_block : catch_block_t} {addr : Nat} {next : statement_list}
    (hp : try_body_entry ctx (.mk try_statement catch_block (.node addr finally_stat next))
      = some (tp, tsc))
    (hf : finally_body_entry ctx (.mk try_statement catch_block (.node addr finally_stat next))
      = some (fp, fsc)) :
    ∀ pex, pex = push_instr (set_no_fallback (compile_statement (set_no_fallback tp true)
      (some tsc) try_statement).2 ctx.no_fallback) OP_pop_except →
    ∀ handler, handler = try_handler pex.2
      (.STAT_TRY (.mk try_statement catch_block (.node addr finally_stat next)))
      ctx.code_off ctx.no_fallback ctx.code_off catch_block →
    ¬ pex.1 = UINT_MAX ∧ ¬ handler.2 = true ∧ ¬ (push_instr handler.1.2 OP_pop).1 = UINT_MAX ∧
    fp = (push_instr handler.1.2 OP_pop).2 ∧
    fsc = finally_frame catch_block := by
  intro pex epx handler ehd
  have hpe : ∀ h : ¬ (push_instr ctx OP_push_except).1 = UINT_MAX,
      (push_instr ctx OP_push_except).1 = ctx.code_off := fun h => (push_instr_ok _ _ h).1
  cases catch_block with
  | NULL =>
    subst ehd
    unfold try_body_entry at hp
    dsimp only at hp
    obtain ⟨g1, hp⟩ := ite_none_some hp
    obtain ⟨g2, hp⟩ := ite_none_some hp
    obtain ⟨d1, d2⟩ := Prod.mk.inj (Option.some.inj hp)
    unfold finally_body_entry at hf
    dsimp only at hf
    obtain ⟨h1, hf⟩ := ite_none_some hf
    obtain ⟨h2, hf⟩ := ite_none_some hf
    rw [d1, d2] at hf
    obtain ⟨h3, hf⟩ := ite_none_some hf
    obtain ⟨h4, hf⟩ := ite_none_some hf
    rw [← epx] at hf
    obtain ⟨h5, hf⟩ := ite_none_some hf
    rw [hpe h1] at hf
    obtain ⟨h6, hf⟩ := ite_none_some hf
    obtain ⟨h7, hf⟩ := ite_none_some hf
    obtain ⟨e1, e2⟩ := Prod.mk.inj (Option.some.inj hf)
    exact ⟨h5, h6, h7, e1.symm, e2.symm⟩
  | mk identifier statement =>
    unfold try_body_entry at hp
    dsimp only at hp
    obtain ⟨g1, hp⟩ := ite_none_some hp
    obtain ⟨g2, hp⟩ := ite_none_some hp
    obtain ⟨d1, d2⟩ := Prod.mk.inj (Option.some.inj hp)
    unfold finally_body_entry at hf
    dsimp only at hf
    obtain ⟨h1, hf⟩ := ite_none_some hf
    obtain ⟨h2, hf⟩ := ite_none_some hf
    rw [d1, d2] at hf
    obtain ⟨h3, hf⟩ := ite_none_some hf
    obtain ⟨h4, hf⟩ := ite_none_some hf
    rw [← epx] at hf
    obtain ⟨h5, hf⟩ := ite_none_some hf
    rw [hpe h1] at hf
    have ehd' := ehd
    unfold try_handler at ehd'
    dsimp only at ehd'
    rw [← ehd'] at hf
    obtain ⟨h6, hf⟩ := ite_none_some hf
    obtain ⟨h7, hf⟩ := ite_none_some hf
    obtain ⟨e1, e2⟩ := Prod.mk.inj (Option.some.inj hf)
    exact ⟨h5, h6, h7, e1.symm, e2.symm⟩

/-- When the handler part makes the routine return, the catch block has signalled
not-implemented or the result is a failure. -/
theorem try_handler_returned (c : compiler_ctx_t) (this : statement_t) (off_backup : Nat)
    (prev : Bool) (pe : Nat) (catch_block : catch_block_t)
    (hr : (try_handler c this off_backup prev pe catch_block).2 = true) :
    FAILED (try_handler c this off_backup prev pe catch_block).1.1 = true ∨
    ∃ identifier statement, catch_block = .mk identifier statement ∧
      (compile_statement (set_no_fallback (set_arg1 (push_instr c OP_jmp).2 pe
        (.uint (push_instr c OP_jmp).2.code_off)) true)
        (some ⟨0, true, false, UINT_MAX, UINT_MAX⟩) statement).1 = E_NOTIMPL := by
  cases catch_block with
  | NULL => exact absurd hr Bool.false_ne_true
  | mk identifier statement =>
    by_cases h2 : (compile_statement (set_no_fallback (set_arg1 (push_instr c OP_jmp).2 pe
        (.uint (push_instr c OP_jmp).2.code_off)) true)
        (some ⟨0, true, false, UINT_MAX, UINT_MAX⟩) statement).1 = E_NOTIMPL
    · exact Or.inr ⟨identifier, statement, rfl, h2⟩
    left
    unfold try_handler at hr ⊢
    dsimp only at hr ⊢
    by_cases h1 : (push_instr c OP_jmp).1 = UINT_MAX
    · rw [if_pos h1]; exact failed_oom
    rw [if_neg h1, if_neg h2] at hr ⊢
    by_cases h3 : FAILED (compile_statement (set_no_fallback (set_arg1 (push_instr c OP_jmp).2 pe
        (.uint (push_instr c OP_jmp).2.code_off)) true)
        (some ⟨0, true, false, UINT_MAX, UINT_MAX⟩) statement).1 = true
    · rw [if_pos h3]; exact h3
    rw [if_neg h3] at hr ⊢
    split
    · exact failed_oom
    · next h4 => rw [if_neg h4] at hr; exact absurd hr Bool.false_ne_true

/-- The spine of a try statement that is lowered natively: the routine reaches the finally
part. -/
theorem try_spine (ctx : compiler_ctx_t) (try_statement : statement_t)
    (catch_block : catch_block_t) (finally_statement : statement_list)
    (hn : try_native ctx (.mk try_statement catch_block finally_statement) = true)
    (hs : SUCCEEDED (compile_try_statement ctx
      (.mk try_statement catch_block finally_statement)).1 = true) :
    ∃ tp tsc, try_body_entry ctx (.mk try_statement catch_block finally_statement)
        = some (tp, tsc) ∧
      ∀ tbody, tbody = compile_statement (set_no_fallback tp true) (some tsc) try_statement →
      ∀ pex, pex = push_instr (set_no_fallback tbody.2 ctx.no_fallback) OP_pop_except →
      ∀ handler, handler = try_handler pex.2
        (.STAT_TRY (.mk try_statement catch_block finally_statement))
        ctx.code_off ctx.no_fallback ctx.code_off catch_block →
      ¬ FAILED tbody.1 = true ∧ ¬ pex.1 = UINT_MAX ∧ ¬ handler.2 = true ∧
      compile_try_statement ctx (.mk try_statement catch_block finally_statement) =
        try_finally handler.1.2 (.STAT_TRY (.mk try_statement catch_block finally_statement))
          ctx.code_off ctx.no_fallback catch_block finally_statement ∧
      ∀ i, i < handler.1.2.code_off →
        (compile_try_statement ctx
          (.mk try_statement catch_block finally_statement)).2.instrs i
          = handler.1.2.instrs i := by
  have hs' := succeeded_not_failed hs
  clear hs
  unfold try_native at hn
  simp only [Bool.and_eq_true] at hn
  obtain ⟨⟨n1, n2⟩, n3⟩ := hn
  cases htp : try_body_entry ctx (.mk try_statement catch_block finally_statement) with
  | none => rw [htp] at n1; exact absurd n1 Bool.false_ne_true
  | some v =>
    obtain ⟨tp, tsc⟩ := v
    rw [htp] at n1
    have hb := of_decide_eq_true n1
    refine ⟨tp, tsc, rfl, ?_⟩
    intro tbody etb pex epx handler ehd
    have heq := try_native_eq htp hb
    rw [← etb, ← epx, ← ehd] at heq
    rw [heq] at hs'
    by_cases h1 : FAILED tbody.1 = true
    · rw [if_pos h1] at hs'; exact absurd h1 hs'
    rw [if_neg h1] at hs' heq
    by_cases h2 : pex.1 = UINT_MAX
    · rw [if_pos h2] at hs'; exact absurd failed_oom hs'
    rw [if_neg h2] at hs' heq
    have h3 : ¬ handler.2 = true := by
      intro h3
      rw [if_pos h3] at hs'
      rw [ehd] at h3 hs'
      rcases try_handler_returned _ _ _ _ _ _ h3 with hf | ⟨identifier, statement, ecb, hni⟩
      · exact hs' hf
      · subst ecb
        dsimp only at n2
        cases hcp : catch_body_entry ctx
            (.mk try_statement (.mk identifier statement) finally_statement) with
        | none => rw [hcp] at n2; exact absurd n2 Bool.false_ne_true
        | some w =>
          obtain ⟨cp, csc⟩ := w
          rw [hcp] at n2
          have hcb := of_decide_eq_true n2
          obtain ⟨_, _, c3, c4⟩ := catch_entry_eq htp hcp _ rfl
          rw [c3, c4, ← etb, ← epx] at hcb
          exact hcb hni
    rw [if_neg h3] at hs' heq
    refine ⟨h1, h2, h3, heq, ?_⟩
    rw [heq]
    cases finally_statement with
    | NULL => exact fun _ _ => rfl
    | node addr finally_stat next =>
      dsimp only at n3
      cases hfp : finally_body_entry ctx
          (.mk try_statement catch_block (.node addr finally_stat next)) with
      | none => rw [hfp] at n3; exact absurd n3 Bool.false_ne_true
      | some w =>
        obtain ⟨fp, fsc⟩ := w
        rw [hfp] at n3
        have hfb := of_decide_eq_true n3
        obtain ⟨_, _, _, f4, f5⟩ := finally_entry_eq htp hfp _ rfl _ rfl
        rw [f4, f5, ← etb, ← epx, ← ehd] at hfb
        exact (try_finally_facts handler.1.2 _ ctx.code_off ctx.no_fallback catch_block addr
          finally_stat next _ rfl _ rfl _ rfl hfb hs').2.2.2.2.2.2.1

/-- C28: a try statement that is lowered natively (the routine reaches every block of the
statement, none of them signals not-implemented, the routine returns success) keeps the stream at
entry and has the layout `TryLayout`: the first instruction is `OP_push_except`, whose second
operand is the name of the catch variable (null when there is no catch block) and whose first
operand is the offset of the first instruction of the catch block when there is one, and
otherwise the offset after the `OP_pop_except` that follows the try block; with a catch block,
the try block is followed by `OP_pop_except` and one `OP_jmp` whose operand is the offset after
the `OP_pop_scope` that ends the catch block. -/
theorem try_statement_lowering (ctx : compiler_ctx_t) (try_statement : statement_t)
    (catch_block : catch_block_t) (finally_statement : statement_list)
    (hn : try_native ctx (.mk try_statement catch_block finally_statement) = true)
    (hs : SUCCEEDED (compile_try_statement ctx
      (.mk try_statement catch_block finally_statement)).1 = true) :
    Keeps ctx (compile_try_statement ctx (.mk try_statement catch_block finally_statement)).2 ∧
    TryLayout ctx (compile_try_statement ctx (.mk try_statement catch_block finally_statement)).2
      try_statement catch_block finally_statement := by
  have hk := compile_try_statement_rel (.mk try_statement catch_block finally_statement)
    (Rel.refl ctx)
  refine ⟨⟨hk.off_ge, hk.instrs_eq⟩, ?_⟩
  clear hk
  obtain ⟨tp, tsc, hp, hsp⟩ := try_spine ctx try_statement catch_block finally_statement hn hs
  obtain ⟨h1, h2, h3, _, hfin⟩ := hsp _ rfl _ rfl _ rfl
  clear hsp
  unfold TryLayout
  refine ⟨tp, tsc, hp, ?_⟩
  obtain ⟨_, t2, t3, t4, _⟩ := try_entry_facts hp
  obtain ⟨b1, b2⟩ := lay_body_frame tp (some tsc) try_statement
  generalize hfi : (compile_try_statement ctx
    (.mk try_statement catch_block finally_statement)).2 = final at *
  generalize htb : compile_statement (set_no_fallback tp true) (some tsc) try_statement
    = tbody at *
  obtain ⟨_, x2, x3, x4, _⟩ := push_instr_ok (set_no_fallback tbody.2 ctx.no_fallback)
    OP_pop_except h2
  have x2' : (push_instr (set_no_fallback tbody.2 ctx.no_fallback) OP_pop_except).2.code_off
      = tbody.2.code_off + 1 := x2
  have x3' : ((push_instr (set_no_fallback tbody.2 ctx.no_fallback) OP_pop_except).2.instrs
      tbody.2.code_off).op = OP_pop_except := x3
  have x4' : ∀ i, i ≠ tbody.2.code_off →
      (push_instr (set_no_fallback tbody.2 ctx.no_fallback) OP_pop_except).2.instrs i
        = tbody.2.instrs i := x4
  clear x2 x3 x4
  generalize hpx : push_instr (set_no_fallback tbody.2 ctx.no_fallback) OP_pop_except = pex at *
  have hpe : ctx.code_off < pex.2.code_off := by omega
  cases catch_block with
  | NULL =>
    rw [try_handler_null] at hfin
    have hfin' : ∀ i, i < pex.2.code_off →
        final.instrs i = (set_arg1 pex.2 ctx.code_off (.uint pex.2.code_off)).instrs i := hfin
    have hpi : final.instrs ctx.code_off
        = { tp.instrs ctx.code_off with arg1 := .uint (tbody.2.code_off + 1) } := by
      rw [hfin' _ hpe, set_arg1_same, x4' _ (by omega), b1 _ (by omega), x2']
    refine ⟨?_, t2, h1, fun i hne hi => ?_, ?_, ?_, ?_⟩
    · rw [hpi]; exact t3
    · rw [hfin' i (by omega), set_arg1_other _ _ hne, x4' i (by omega)]
    · rw [hfin' _ (by omega), set_arg1_other _ _ (by omega)]; exact x3'
    · rw [hpi]; exact t4
    · rw [hpi]
  | mk identifier statement =>
    obtain ⟨c1, c2, c3, c4, c5, c6, c7, c8, c9, c10, c11, c12, c13⟩ :=
      try_handler_catch pex.2 (.STAT_TRY (.mk try_statement (.mk identifier statement)
        finally_statement)) ctx.code_off ctx.no_fallback ctx.code_off identifier statement hpe h3
        _ rfl _ rfl _ rfl
    unfold try_native at hn
    simp only [Bool.and_eq_true] at hn
    obtain ⟨⟨_, n2⟩, _⟩ := hn
    cases hcp : catch_body_entry ctx
        (.mk try_statement (.mk identifier statement) finally_statement) with
    | none => rw [hcp] at n2; exact absurd n2 Bool.false_ne_true
    | some w =>
      obtain ⟨cp, csc⟩ := w
      obtain ⟨_, _, e3, e4⟩ := catch_entry_eq hp hcp _ rfl
      rw [htb, hpx] at e3
      rw [← e3] at c2 c3 c4 c6 c11 c12 c13
      rw [← e4] at c3 c4 c6 c11 c12 c13
      clear n2
      generalize hh : (try_handler pex.2 (.STAT_TRY (.mk try_statement (.mk identifier statement)
        finally_statement)) ctx.code_off ctx.no_fallback ctx.code_off
        (.mk identifier statement)).1.2 = h at *
      have hcpo : cp.code_off = tbody.2.code_off + 2 := by rw [c2, x2']
      have hcle : cp.code_off ≤ (compile_statement (set_no_fallback cp true) (some csc)
          statement).2.code_off := (lay_body_frame cp (some csc) statement).2
      dsimp only
      refine ⟨?g1, t2, h1, ?g2, ?g3, ?g4, cp, csc, rfl, ?g5⟩
      case g1 => rw [hfin _ (by omega), c8, x4' _ (by omega), b1 _ (by omega)]; exact t3
      case g2 =>
        intro i hne hi
        rw [hfin i (by omega), c10 i (by omega) hne, x4' i (by omega)]
      case g3 => rw [hfin _ (by omega), c10 _ (by omega) (by omega)]; exact x3'
      case g4 => rw [hfin _ (by omega), c9, x4' _ (by omega), b1 _ (by omega)]; exact t4
      case g5 =>
        generalize hcb : compile_statement (set_no_fallback cp true) (some csc) statement
          = cbody at *
        refine ⟨hcpo, ?_, ?_, c4, fun i hi hlt => ?_, ?_, ?_⟩
        · rw [hfin _ (by omega), c7, hcpo, x2']
        · rw [hfin _ (by omega), ← x2']; exact c5
        · rw [hfin i (by omega)]; exact c11 i (by omega) hlt
        · rw [hfin _ (by omega)]; exact c12
        · rw [hfin _ (by omega), ← x2']; exact c6

/-- The statements `try { a; } catch(e) { b; } finally { c; }` and `try { a; } finally { c; }`
from the empty context. -/
theorem try_statement_lowering_witness :
    TryLayout ctx_empty (compile_try_statement ctx_empty try_catch_finally_sample).2
      (stat_ident "a") (.mk "e" (stat_ident "b")) (.node 50 (stat_ident "c") .NULL) ∧
    emitted_ops (compile_try_statement ctx_empty try_catch_finally_sample).2 0 8 =
      [OP_push_except, OP_ident, OP_pop_except, OP_jmp, OP_ident, OP_pop_scope, OP_pop,
       OP_ident] ∧
    ((compile_try_statement ctx_empty try_catch_finally_sample).2.instrs 0).arg1 = .uint 4 ∧
    ((compile_try_statement ctx_empty try_catch_finally_sample).2.instrs 0).arg2
      = .bstr (some "e") ∧
    ((compile_try_statement ctx_empty try_catch_finally_sample).2.instrs 3).arg1 = .uint 6 ∧
    TryLayout ctx_empty (compile_try_statement ctx_empty try_finally_sample).2
      (stat_ident "a") .NULL (.node 51 (stat_ident "c") .NULL) ∧
    ((compile_try_statement ctx_empty try_finally_sample).2.instrs 0).arg1 = .uint 3 ∧
    ((compile_try_statement ctx_empty try_finally_sample).2.instrs 0).arg2 = .bstr none :=
  ⟨(try_statement_lowering ctx_empty (stat_ident "a") (.mk "e" (stat_ident "b"))
      (.node 50 (stat_ident "c") .NULL) (by decide) (by decide)).2,
   by decide, rfl, rfl, rfl,
   (try_statement_lowering ctx_empty (stat_ident "a") .NULL
      (.node 51 (stat_ident "c") .NULL) (by decide) (by decide)).2,
   rfl, rfl⟩


/-! ## The finally block -/

/-- C29, amended: the finally block of a try statement that is lowered natively (the routine
reaches every block of the statement, none of them signals not-implemented, the routine returns
success) has the layout `FinallyLayout`: it is preceded by one `OP_pop` and its code is in the
stream. When the statement has no catch block the finally block is lowered inside a frame that
reserves two stack cells (and carries no label, no scope and no exception frame), and
`OP_end_finally` is appended after it; when the statement has a catch block the finally block is
lowered without any frame and nothing is appended after it. An unwind that crosses the frame of
the finally block emits two `OP_pop` for it, after the cleanup of the frames it leaves. -/
theorem finally_block_lowering (ctx : compiler_ctx_t) (try_statement : statement_t)
    (catch_block : catch_block_t) (addr : Nat) (finally_stat : statement_t)
    (next : statement_list)
    (hn : try_native ctx (.mk try_statement catch_block (.node addr finally_stat next)) = true)
    (hs : SUCCEEDED (compile_try_statement ctx
      (.mk try_statement catch_block (.node addr finally_stat next))).1 = true) :
    FinallyLayout ctx
      (compile_try_statement ctx (.mk try_statement catch_block (.node addr finally_stat next))).2
      try_statement catch_block addr finally_stat next ∧
    (finally_frame catch_block = none ↔ catch_block ≠ .NULL) ∧
    ∀ (frames : List statement_ctx_t) (k : Nat),
      unwind_ops (⟨2, false, false, UINT_MAX, UINT_MAX⟩ :: frames) (k + 1) =
        ((frames.take (k + 1)).map frame_cleanup).flatten ++
        List.replicate (2 + ((frames.take (k + 1)).map fun f => f.stack_use).sum) OP_pop := by
  refine ⟨?_, ?_, ?_⟩
  · obtain ⟨tp, tsc, hp, hsp⟩ := try_spine ctx try_statement catch_block
      (.node addr finally_stat next) hn hs
    obtain ⟨_, _, _, heq, _⟩ := hsp _ rfl _ rfl _ rfl
    clear hsp
    have hs' := succeeded_not_failed hs
    unfold try_native at hn
    simp only [Bool.and_eq_true] at hn
    obtain ⟨_, n3⟩ := hn
    unfold FinallyLayout
    cases hfp : finally_body_entry ctx
        (.mk try_statement catch_block (.node addr finally_stat next)) with
    | none => rw [hfp] at n3; exact absurd n3 Bool.false_ne_true
    | some w =>
      obtain ⟨fp, fsc⟩ := w
      rw [hfp] at n3
      have hfb := of_decide_eq_true n3
      obtain ⟨_, _, _, f4, f5⟩ := finally_entry_eq hp hfp _ rfl _ rfl
      rw [heq] at hs' ⊢
      obtain ⟨q1, q2, q3, q4, q5, q6, _, q8⟩ := try_finally_facts _
        (.STAT_TRY (.mk try_statement catch_block (.node addr finally_stat next)))
        ctx.code_off ctx.no_fallback catch_block addr finally_stat next fsc f5
        (compile_statement (set_no_fallback fp true) fsc finally_stat) (by rw [f4])
        _ rfl hfb hs'
      refine ⟨fp, fsc, rfl, by rw [f4, q2]; exact Nat.succ_pos _, ?_, q4, q6, ?_⟩
      · rw [f4, q2, Nat.add_sub_cancel]
        exact q3
      · cases catch_block with
        | NULL => exact ⟨f5, q8.1, q8.2⟩
        | mk identifier statement => exact ⟨f5, q8⟩
  · cases catch_block with
    | NULL => exact ⟨fun h => Option.noConfusion h, fun h => absurd rfl h⟩
    | mk identifier statement => exact ⟨fun _ h => catch_block_t.noConfusion h, fun _ => rfl⟩
  · intro frames k
    simp [unwind_ops, frame_cleanup]

/-- The statement `try { a; } finally { break; }` lowered inside a loop: the finally block is
lowered in a frame of two stack cells, so its `break` emits two `OP_pop` before `OP_undefined`
and `OP_jmp`, and `OP_end_finally` ends the stream. The statement
`try { a; } catch(e) { b; } finally { c; }`: the finally block is lowered without a frame. -/
theorem finally_block_lowering_witness :
    FinallyLayout (ctx_frames [loop_frame_sample])
      (compile_try_statement (ctx_frames [loop_frame_sample]) try_break_sample).2
      (stat_ident "a") .NULL 53 (.STAT_BREAK ⟨none⟩) .NULL ∧
    emitted_ops (compile_try_statement (ctx_frames [loop_frame_sample]) try_break_sample).2 0 9 =
      [OP_push_except, OP_ident, OP_pop_except, OP_pop, OP_pop, OP_pop, OP_undefined, OP_jmp,
       OP_end_finally] ∧
    FinallyLayout ctx_empty (compile_try_statement ctx_empty try_catch_finally_sample).2
      (stat_ident "a") (.mk "e" (stat_ident "b")) 50 (stat_ident "c") .NULL :=
  ⟨(finally_block_lowering (ctx_frames [loop_frame_sample]) (stat_ident "a") .NULL 53
      (.STAT_BREAK ⟨none⟩) .NULL (by decide) (by decide)).1,
   by decide,
   (finally_block_lowering ctx_empty (stat_ident "a") (.mk "e" (stat_ident "b")) 50
      (stat_ident "c") .NULL (by decide) (by decide)).1⟩

/-- C29, as stated, fails: `try { a; } catch(e) { b; } finally { break; }` lowered inside a loop
is lowered natively, the finally block is lowered without a frame (the frame passed is null), and
its `break` emits no `OP_pop` before `OP_undefined` and `OP_jmp`: the stream is `OP_push_except`,
`OP_ident`, `OP_pop_except`, `OP_jmp`, `OP_ident`, `OP_pop_scope`, `OP_pop`, `OP_undefined`,
`OP_jmp`. -/
theorem finally_without_frame :
    try_native (ctx_frames [loop_frame_sample]) try_catch_break_sample = true ∧
    (compile_try_statement (ctx_frames [loop_frame_sample]) try_catch_break_sample).1 = S_OK ∧
    ((finally_body_entry (ctx_frames [loop_frame_sample]) try_catch_break_sample).get
      (by decide)).2 = none ∧
    (compile_try_statement (ctx_frames [loop_frame_sample]) try_catch_break_sample).2.code_off
      = 9 ∧
    emitted_ops
      (compile_try_statement (ctx_frames [loop_frame_sample]) try_catch_break_sample).2 0 9 =
      [OP_push_except, OP_ident, OP_pop_except, OP_jmp, OP_ident, OP_pop_scope, OP_pop,
       OP_undefined, OP_jmp] :=
  ⟨by decide, by decide, rfl, by decide, by decide⟩

/-! ## The layout of a switch statement -/

/-- The loop over the clause expressions has seen a default clause only if one was seen before
or the list has one. -/
theorem case_exprs_have_default :
    ∀ (cl : case_clausule_t) (v : case_loop_t),
      (compile_case_exprs v cl).have_default = true →
      v.have_default = true ∨ 0 < default_count cl
  | .NULL, v, h => by rw [compile_case_exprs] at h; exact Or.inl h
  | .mk none stat next, v, _ => by
    refine Or.inr ?_
    rw [default_count]
    simp
  | .mk (some e) stat next, v, h => by
    rw [compile_case_exprs] at h
    dsimp only at h
    have hd : default_count (.mk (some e) stat next) = default_count next := by
      rw [default_count]; simp
    rw [hd]
    split at h
    · exact Or.inl h
    · split at h
      · exact Or.inl h
      · have r := case_exprs_have_default next _ h
        exact r

/-- The code of the clause expressions ends at or after the offset at which it starts. -/
theorem case_expr_layout_le (final : compiler_ctx_t) (cj : Nat → Nat) :
    ∀ (cl : case_clausule_t) (i off e : Nat), CaseExprLayout final cj i off cl e → off ≤ e
  | .NULL, i, off, e, h => by
    rw [CaseExprLayout] at h
    exact le_of_eq h.symm
  | .mk none stat next, i, off, e, h => by
    rw [CaseExprLayout] at h
    exact case_expr_layout_le final cj next i off e h
  | .mk (some ex) stat next, i, off, e, h => by
    rw [CaseExprLayout] at h
    obtain ⟨s, h1, _, _, _, _, h6⟩ := h
    have k := (compile_expression_keeps s ex).1
    have := case_expr_layout_le final cj next _ _ e h6
    omega

/-- The loop over the clause expressions, when it does not fail: the stream it leaves has the
layout of the clause expressions from its entry offset on, the instructions below the entry
offset are kept, and so are the jumps recorded before. -/
theorem compile_case_exprs_layout :
    ∀ (cl : case_clausule_t) (v : case_loop_t),
      ¬ FAILED (compile_case_exprs v cl).hres = true →
      CaseExprLayout (compile_case_exprs v cl).ctx (compile_case_exprs v cl).case_jmps v.i
        v.ctx.code_off cl (compile_case_exprs v cl).ctx.code_off ∧
      v.ctx.code_off ≤ (compile_case_exprs v cl).ctx.code_off ∧
      (∀ k, k < v.ctx.code_off → (compile_case_exprs v cl).ctx.instrs k = v.ctx.instrs k) ∧
      (∀ j, j < v.i → (compile_case_exprs v cl).case_jmps j = v.case_jmps j)
  | .NULL, v, _ => by
    rw [compile_case_exprs, CaseExprLayout]
    exact ⟨rfl, le_refl _, fun _ _ => rfl, fun _ _ => rfl⟩
  | .mk none stat next, v, hf => by
    rw [compile_case_exprs] at hf ⊢
    rw [CaseExprLayout]
    exact compile_case_exprs_layout next { v with have_default := true } hf
  | .mk (some e) stat next, v, hf => by
    rw [compile_case_exprs] at hf ⊢
    dsimp only at hf ⊢
    have kv := compile_expression_keeps v.ctx e
    by_cases h1 : FAILED (compile_expression v.ctx e).1 = true
    · rw [if_pos h1] at hf
      exact absurd h1 hf
    rw [if_neg h1] at hf ⊢
    by_cases h2 : (push_instr (compile_expression v.ctx e).2 OP_case).1 = UINT_MAX
    · rw [if_pos h2] at hf
      exact absurd failed_oom hf
    rw [if_neg h2] at hf ⊢
    obtain ⟨p1, p2, p3, p4, _⟩ := push_instr_ok (compile_expression v.ctx e).2 OP_case h2
    obtain ⟨r1, r2, r3, r4⟩ := compile_case_exprs_layout next
      { v with hres := (compile_expression v.ctx e).1,
               ctx := (push_instr (compile_expression v.ctx e).2 OP_case).2,
               case_jmps := Function.update v.case_jmps v.i
                 (push_instr (compile_expression v.ctx e).2 OP_case).1,
               i := v.i + 1 } hf
    dsimp only at r1 r2 r3 r4
    rw [p2] at r1 r2 r3
    have hcj := (r4 v.i (Nat.lt_succ_self _)).trans
      ((Function.update_same _ _ _).trans p1)
    rw [CaseExprLayout]
    refine ⟨⟨v.ctx, rfl, h1, fun k _ hk => ?_, hcj, ?_, r1⟩, by have := kv.1; omega,
      fun k hk => ?_, fun j hj => ?_⟩
    · rw [r3 k (by omega), p4 k (Nat.ne_of_lt hk)]
    · rw [hcj, r3 _ (Nat.lt_succ_self _)]
      exact p3
    · rw [r3 k (by have := kv.1; omega), p4 k (Nat.ne_of_lt (lt_of_lt_of_le hk kv.1)),
        kv.2 k hk]
    · rw [r4 j (by omega), Function.update_noteq (Nat.ne_of_lt hj)]

/-- The layout of the clause expressions is kept by a stream that differs from the stream of `s`
below the end offset at most in the operands of the recorded jumps. -/
theorem case_expr_layout_mono (s final : compiler_ctx_t) (cj : Nat → Nat) (n : Nat)
    (hInc : ∀ j, j < n → ∀ j', j' < j → cj j' < cj j) :
    ∀ (cl : case_clausule_t) (i off e : Nat), CaseExprLayout s cj i off cl e →
      i + case_count cl ≤ n → (∀ j, j < i → cj j < off) →
      (∀ p, p < e → (∀ j, j < n → cj j ≠ p) → final.instrs p = s.instrs p) →
      (∀ p, p < e → (final.instrs p).op = (s.instrs p).op) →
      CaseExprLayout final cj i off cl e
  | .NULL, i, off, e, h, _, _, _, _ => by
    rw [CaseExprLayout] at h ⊢
    exact h
  | .mk none stat next, i, off, e, h, hn, hlt, hT, hO => by
    rw [CaseExprLayout] at h ⊢
    refine case_expr_layout_mono s final cj n hInc next i off e h ?_ hlt hT hO
    rw [case_count] at hn
    omega
  | .mk (some ex) stat next, i, off, e, h, hn, hlt, hT, hO => by
    rw [CaseExprLayout] at h ⊢
    obtain ⟨s1, h1, h2, h3, h4, h5, h6⟩ := h
    have hcnt : case_count (.mk (some ex) stat next) = 1 + case_count next := by
      rw [case_count]; rfl
    rw [hcnt] at hn
    have kv := (compile_expression_keeps s1 ex).1
    have hle := case_expr_layout_le s cj next _ _ e h6
    refine ⟨s1, h1, h2, fun k hk1 hk2 => ?_, h4, ?_,
      case_expr_layout_mono s final cj n hInc next _ _ e h6 (by omega) (fun j hj => ?_) hT hO⟩
    · rw [hT k (by omega) (fun j hj hjk => ?_)]
      · exact h3 k hk1 hk2
      · rcases Nat.lt_trichotomy j i with hji | hji | hji
        · have := hlt j hji
          omega
        · rw [hji, h4] at hjk
          omega
        · have := hInc j hj i hji
          rw [h4] at this
          omega
    · rw [hO _ (by omega)]
      exact h5
    · rcases Nat.lt_or_ge j i with hji | hji
      · have := hlt j hji
        omega
      · have e1 : j = i := by omega
        rw [e1, h4]
        exact Nat.lt_succ_self _

/-- The jumps of the clause expressions stand at or after the offset at which their code
starts. -/
theorem case_expr_layout_ge (final : compiler_ctx_t) (cj : Nat → Nat) :
    ∀ (cl : case_clausule_t) (i off e : Nat), CaseExprLayout final cj i off cl e →
      ∀ j, i ≤ j → j < i + case_count cl → off ≤ cj j
  | .NULL, i, off, e, _, j, h1, h2 => by
    rw [case_count] at h2
    omega
  | .mk none stat next, i, off, e, h, j, h1, h2 => by
    rw [CaseExprLayout] at h
    refine case_expr_layout_ge final cj next i off e h j h1 ?_
    rw [case_count] at h2
    simpa using h2
  | .mk (some ex) stat next, i, off, e, h, j, h1, h2 => by
    rw [CaseExprLayout] at h
    obtain ⟨s, a1, _, _, a4, _, a6⟩ := h
    have hcnt : case_count (.mk (some ex) stat next) = 1 + case_count next := by
      rw [case_count]; rfl
    rw [hcnt] at h2
    have kv := (compile_expression_keeps s ex).1
    rcases Nat.eq_or_lt_of_le h1 with e1 | e1
    · rw [← e1, a4]
      omega
    · have := case_expr_layout_ge final cj next _ _ e a6 j e1 (by omega)
      omega

/-- The `OP_pop` that follows the clause expressions, when the block does not fail. -/
theorem switch_pop_fact (v : case_loop_t)
    (hs : ¬ FAILED
      (if SUCCEEDED v.hres = true then
        if (push_instr v.ctx OP_pop).1 ≠ UINT_MAX then
          ((if (push_instr (push_instr v.ctx OP_pop).2 OP_jmp).1 = UINT_MAX then E_OUTOFMEMORY
            else v.hres, (push_instr (push_instr v.ctx OP_pop).2 OP_jmp).2),
            (push_instr (push_instr v.ctx OP_pop).2 OP_jmp).1)
        else ((E_OUTOFMEMORY, (push_instr v.ctx OP_pop).2), 0)
      else ((v.hres, v.ctx), 0) : (HRESULT × compiler_ctx_t) × Nat).1.1 = true) :
    ((push_instr (push_instr v.ctx OP_pop).2 OP_jmp).2.instrs v.ctx.code_off).op = OP_pop := by
  by_cases h1 : SUCCEEDED v.hres = true
  · rw [if_pos h1] at hs
    by_cases h2 : (push_instr v.ctx OP_pop).1 ≠ UINT_MAX
    · rw [if_pos h2] at hs
      dsimp only at hs
      by_cases h3 : (push_instr (push_instr v.ctx OP_pop).2 OP_jmp).1 = UINT_MAX
      · rw [if_pos h3] at hs
        exact absurd failed_oom hs
      · obtain ⟨_, a2, a3, _, _⟩ := push_instr_ok v.ctx OP_pop h2
        obtain ⟨_, _, _, b4, _⟩ := push_instr_ok (push_instr v.ctx OP_pop).2 OP_jmp h3
        rw [b4 _ (by omega)]
        exact a3
    · rw [if_neg h2] at hs
      exact absurd failed_oom hs
  · rw [if_neg h1] at hs
    refine absurd ?_ h1
    simp only [FAILED, SUCCEEDED, decide_eq_true_eq, not_lt] at hs ⊢
    exact hs

/-- C27: a switch statement that is lowered natively (the routine reaches the clause bodies in
the state `cp` with the frame `sc`, the jump table `cj` and the default jump `dj`, and the
bodies are lowered without fallback and without failure; the clause list has at most one
default clause) keeps the code before it and has this layout. The discriminant is lowered once,
at the entry offset. The clauses with an expression follow in source order, each as the code of
its expression and one `OP_case` (`CaseExprLayout`), at the increasing offsets `cj 0`, `cj 1`,
... up to the number of such clauses. Then come `OP_pop` and the `OP_jmp` at `dj`
(`SwitchHeadLayout`). Without a default clause the `OP_jmp` carries the end offset, at which
the break label is bound; with one it carries the offset of the body of the default clause, and
the clause bodies follow one another in source order with nothing between them
(`SwitchLayout`). -/
theorem switch_statement_lowering (ctx cp : compiler_ctx_t) (sc : statement_ctx_t)
    (cj : Nat → Nat) (dj : Nat) (hres : HRESULT) (expr : expression_t)
    (case_list : case_clausule_t)
    (hp : switch_bodies_entry ctx (.mk expr case_list) = some (cp, sc, cj, dj, hres))
    (hd : default_count case_list ≤ 1)
    (hret : (compile_case_bodies cp sc ctx.code_off (.STAT_SWITCH (.mk expr case_list)) cj
      dj 0 hres case_list).returned = false)
    (hok : ¬ FAILED (compile_case_bodies cp sc ctx.code_off (.STAT_SWITCH (.mk expr case_list))
      cj dj 0 hres case_list).hres = true) :
    Keeps ctx (compile_switch_statement ctx (.mk expr case_list)).2 ∧
    SwitchHeadLayout ctx (compile_switch_statement ctx (.mk expr case_list)).2 cj dj cp.code_off
      expr case_list ∧
    (∀ j, j < case_count case_list → ∀ j', j' < j → cj j' < cj j) ∧
    (default_count case_list = 0 →
      ((compile_switch_statement ctx (.mk expr case_list)).2.instrs dj).arg1
        = .uint (compile_switch_statement ctx (.mk expr case_list)).2.code_off) ∧
    (compile_switch_statement ctx (.mk expr case_list)).2.labels
        (sc.break_label &&& (LABEL_FLAG - 1))
      = (compile_switch_statement ctx (.mk expr case_list)).2.code_off ∧
    SwitchLayout (compile_switch_statement ctx (.mk expr case_list)).2 sc ctx.code_off
      (.STAT_SWITCH (.mk expr case_list)) cj dj 0 cp.code_off case_list := by
  have hK : Keeps ctx (compile_switch_statement ctx (.mk expr case_list)).2 :=
    ⟨(compile_switch_statement_rel (.mk expr case_list) (Rel.refl ctx)).off_ge,
     (compile_switch_statement_rel (.mk expr case_list) (Rel.refl ctx)).instrs_eq⟩
  refine ⟨hK, ?_⟩
  clear hK
  unfold switch_bodies_entry at hp
  dsimp only at hp
  obtain ⟨h1, hp⟩ := ite_none_some hp
  obtain ⟨h2, hp⟩ := ite_none_some hp
  obtain ⟨h3, hp⟩ := ite_none_some hp
  obtain ⟨h4, hp⟩ := ite_none_some hp
  have e := Option.some.inj hp
  have e1 := congrArg Prod.fst e
  have e2 := congrArg (fun x => x.2.1) e
  have e3 := congrArg (fun x => x.2.2.1) e
  have e4 := congrArg (fun x => x.2.2.2.1) e
  have e5 := congrArg (fun x => x.2.2.2.2) e
  dsimp only at e1 e2 e3 e4 e5
  clear hp e
  obtain ⟨j1, j2, j3, j4, j5⟩ := switch_jmp_facts _ h4
  have j6 := switch_pop_fact _ h4
  have inv := compile_case_exprs_inv case_list
    ⟨(compile_expression ctx expr).1,
     (heap_alloc (alloc_label (compile_expression ctx expr).2).2).2, fun _ => 0, 0, false⟩
    (fun j hj => absurd hj (Nat.not_lt_zero _)) j1
  obtain ⟨y1, y2, y3, _⟩ := compile_case_exprs_layout case_list
    ⟨(compile_expression ctx expr).1,
     (heap_alloc (alloc_label (compile_expression ctx expr).2).2).2, fun _ => 0, 0, false⟩ j1
  dsimp only at y1 y2 y3
  have hnd : default_count case_list = 0 → (compile_case_exprs
      ⟨(compile_expression ctx expr).1,
       (heap_alloc (alloc_label (compile_expression ctx expr).2).2).2, fun _ => 0, 0, false⟩
      case_list).have_default = false := by
    intro h0
    cases hv : (compile_case_exprs
      ⟨(compile_expression ctx expr).1,
       (heap_alloc (alloc_label (compile_expression ctx expr).2).2).2, fun _ => 0, 0, false⟩
      case_list).have_default
    · rfl
    · rcases case_exprs_have_default case_list _ hv with h | h
      · exact Bool.noConfusion h
      · omega
  rw [j2] at e1 e4 e5
  dsimp only at e1 e4 e5
  have h5 : ¬ FAILED hres = true := e5 ▸ j1
  have hb : sc.break_label = (alloc_label (compile_expression ctx expr).2).1 := by rw [← e2]
  have key : ∃ final : compiler_ctx_t,
      compile_switch_statement ctx (.mk expr case_list) = (S_OK, final) ∧
      final.code_off = (compile_case_bodies cp sc ctx.code_off
        (.STAT_SWITCH (.mk expr case_list)) cj dj 0 hres case_list).ctx.code_off ∧
      (∀ p, p ≠ dj → final.instrs p = (compile_case_bodies cp sc ctx.code_off
        (.STAT_SWITCH (.mk expr case_list)) cj dj 0 hres case_list).ctx.instrs p) ∧
      (0 < default_count case_list → final.instrs dj = (compile_case_bodies cp sc ctx.code_off
        (.STAT_SWITCH (.mk expr case_list)) cj dj 0 hres case_list).ctx.instrs dj) ∧
      (∀ p, (final.instrs p).op = ((compile_case_bodies cp sc ctx.code_off
        (.STAT_SWITCH (.mk expr case_list)) cj dj 0 hres case_list).ctx.instrs p).op) ∧
      (default_count case_list = 0 → (final.instrs dj).arg1 = .uint final.code_off) ∧
      final.labels (sc.break_label &&& (LABEL_FLAG - 1)) = final.code_off := by
    refine ⟨label_set_addr
        (if (!(compile_case_exprs
            ⟨(compile_expression ctx expr).1,
             (heap_alloc (alloc_label (compile_expression ctx expr).2).2).2, fun _ => 0, 0, false⟩
            case_list).have_default) = true then
          set_arg1 (compile_case_bodies cp sc ctx.code_off (.STAT_SWITCH (.mk expr case_list)) cj
            dj 0 hres case_list).ctx dj
            (.uint (compile_case_bodies cp sc ctx.code_off (.STAT_SWITCH (.mk expr case_list)) cj
              dj 0 hres case_list).ctx.code_off)
        else (compile_case_bodies cp sc ctx.code_off (.STAT_SWITCH (.mk expr case_list)) cj
            dj 0 hres case_list).ctx) sc.break_label, ?_, ?_, ?_, ?_, ?_, ?_, ?_⟩
    · rw [compile_switch_statement_unfold]
      simp only [h1, h2, h3, j2, ↓reduceIte, Bool.not_true, Bool.not_false, Bool.false_eq_true,
        if_true, if_false]
      simp only [h5, e1, e2, e3, e4, e5, hret, hok, ↓reduceIte, Bool.false_eq_true, if_false]
      rw [hb]
    · show (if _ then _ else _ : compiler_ctx_t).code_off = _
      split <;> rfl
    · intro p hp
      show (if _ then _ else _ : compiler_ctx_t).instrs p = _
      split
      · exact set_arg1_other _ _ hp
      · rfl
    · intro h0
      show (if _ then _ else _ : compiler_ctx_t).instrs dj = _
      rw [inv.2.1 h0]
      rfl
    · intro p
      show ((if _ then _ else _ : compiler_ctx_t).instrs p).op = _
      split
      · by_cases e : p = dj
        · rw [e, set_arg1_same]
        · rw [set_arg1_other _ _ e]
      · rfl
    · intro h0
      show ((if _ then _ else _ : compiler_ctx_t).instrs dj).arg1
        = .uint (if _ then _ else _ : compiler_ctx_t).code_off
      rw [hnd h0]
      simp only [Bool.not_false, if_true]
      rw [set_arg1_same]
      rfl
    · show Function.update _ _ _ _ = _
      rw [Function.update_same]
      rfl
  obtain ⟨final, hF, f1, f2, f3, f4, f5, f6⟩ := key
  rw [hF]
  dsimp only
  have hjs : ∀ j, 0 ≤ j → j < 0 + case_count case_list →
      cj j < cp.code_off ∧ cj j ≠ dj ∧ ∀ j', 0 ≤ j' → j' < j → cj j' ≠ cj j := by
    intro j _ hj
    obtain ⟨a1, _, a3⟩ := inv.1 j hj
    rw [e3] at a1 a3
    rw [← e1, ← e4, j3]
    exact ⟨by omega, by omega, fun j' _ hj' => Nat.ne_of_lt (a3 j' hj')⟩
  have hdj : dj < cp.code_off := by
    rw [← e1, ← e4, j3]; omega
  obtain ⟨l1, _, l3, l4⟩ := compile_case_bodies_layout sc ctx.code_off
    (.STAT_SWITCH (.mk expr case_list)) cj dj final
    _ case_list cp 0 hres rfl hjs hdj hd hret hok f1 f2 f3
  have hcp : cp.code_off = (compile_case_exprs
      ⟨(compile_expression ctx expr).1,
       (heap_alloc (alloc_label (compile_expression ctx expr).2).2).2, fun _ => 0, 0, false⟩
      case_list).ctx.code_off + 2 := by rw [← e1, j3]
  have hoff : (heap_alloc (alloc_label (compile_expression ctx expr).2).2).2.code_off
      = (compile_expression ctx expr).2.code_off := by
    rw [(heap_alloc_proj _).2.2.2.2.1, (lay_alloc _ h2).2.2.1]
  have hins : (heap_alloc (alloc_label (compile_expression ctx expr).2).2).2.instrs
      = (compile_expression ctx expr).2.instrs := by
    rw [(heap_alloc_proj _).1, (lay_alloc _ h2).2.2.2.1]
  rw [hoff] at y1 y2 y3
  rw [hins] at y3
  rw [e3] at y1
  have hInc : ∀ j, j < case_count case_list → ∀ j', j' < j → cj j' < cj j := by
    intro j hj j' hj'
    have a3 := (inv.1 j (by rw [Nat.zero_add]; exact hj)).2.2 j' hj'
    rw [e3] at a3
    exact a3
  have hge := case_expr_layout_ge _ cj case_list 0 _ _ y1
  have hT : ∀ p, p < (compile_case_exprs
      ⟨(compile_expression ctx expr).1,
       (heap_alloc (alloc_label (compile_expression ctx expr).2).2).2, fun _ => 0, 0, false⟩
      case_list).ctx.code_off → (∀ j, j < case_count case_list → cj j ≠ p) →
      final.instrs p = (compile_case_exprs
      ⟨(compile_expression ctx expr).1,
       (heap_alloc (alloc_label (compile_expression ctx expr).2).2).2, fun _ => 0, 0, false⟩
      case_list).ctx.instrs p := by
    intro p hp hne
    rw [f2 p (by omega), l3 p (by omega) (fun j _ hj => hne j (by omega)) (fun _ => by omega),
      ← e1, j5 p hp]
  have hO : ∀ p, p < (compile_case_exprs
      ⟨(compile_expression ctx expr).1,
       (heap_alloc (alloc_label (compile_expression ctx expr).2).2).2, fun _ => 0, 0, false⟩
      case_list).ctx.code_off →
      (final.instrs p).op = ((compile_case_exprs
      ⟨(compile_expression ctx expr).1,
       (heap_alloc (alloc_label (compile_expression ctx expr).2).2).2, fun _ => 0, 0, false⟩
      case_list).ctx.instrs p).op := by
    intro p hp
    rw [f4, l4 p (by omega), ← e1, j5 p hp]
  refine ⟨⟨h1, fun k hk => ?_, _, case_expr_layout_mono _ final cj (case_count case_list) hInc
      case_list 0 _ _ y1 (by omega) (fun j hj => absurd hj (Nat.not_lt_zero _)) hT hO,
      ?_, e4.symm, ?_, hcp⟩, hInc, f5, f6, l1⟩
  · rw [hT k (by omega) (fun j hj hjk => ?_), y3 k hk]
    have := hge j (Nat.zero_le _) (by omega)
    omega
  · rw [f4, l4 _ (by omega), ← e1]
    exact j6
  · rw [f4, l4 _ hdj, ← e1, ← e4]
    exact j4

/-- The statement `switch(x) { case 1: a; case 2: b; }` from the empty context: the stream is
the discriminant, the two clause expressions each followed by `OP_case`, `OP_pop`, `OP_jmp` and
the two bodies; the `OP_jmp` (offset 6) carries the end offset 10. -/
theorem switch_statement_lowering_witness :
    (Keeps ctx_empty (compile_switch_statement ctx_empty switch_nodefault_sample).2 ∧
     SwitchHeadLayout ctx_empty (compile_switch_statement ctx_empty switch_nodefault_sample).2
       ((switch_bodies_entry ctx_empty switch_nodefault_sample).get (by decide)).2.2.1
       ((switch_bodies_entry ctx_empty switch_nodefault_sample).get (by decide)).2.2.2.1
       ((switch_bodies_entry ctx_empty switch_nodefault_sample).get (by decide)).1.code_off
       (expr_ident "x")
       (.mk (some (expr_int 1)) (.node 60 (stat_ident "a") (.node 61 (stat_ident "b") .NULL))
         (.mk (some (expr_int 2)) (.node 61 (stat_ident "b") .NULL) .NULL)) ∧
     (∀ j, j < case_count
         (.mk (some (expr_int 1)) (.node 60 (stat_ident "a") (.node 61 (stat_ident "b") .NULL))
           (.mk (some (expr_int 2)) (.node 61 (stat_ident "b") .NULL) .NULL)) →
       ∀ j', j' < j →
         ((switch_bodies_entry ctx_empty switch_nodefault_sample).get (by decide)).2.2.1 j'
           < ((switch_bodies_entry ctx_empty switch_nodefault_sample).get (by decide)).2.2.1 j) ∧
     (default_count
         (.mk (some (expr_int 1)) (.node 60 (stat_ident "a") (.node 61 (stat_ident "b") .NULL))
           (.mk (some (expr_int 2)) (.node 61 (stat_ident "b") .NULL) .NULL)) = 0 →
       ((compile_switch_statement ctx_empty switch_nodefault_sample).2.instrs
         ((switch_bodies_entry ctx_empty switch_nodefault_sample).get (by decide)).2.2.2.1).arg1
         = .uint (compile_switch_statement ctx_empty switch_nodefault_sample).2.code_off) ∧
     (compile_switch_statement ctx_empty switch_nodefault_sample).2.labels
       (((switch_bodies_entry ctx_empty switch_nodefault_sample).get (by decide)).2.1.break_label
         &&& (LABEL_FLAG - 1))
       = (compile_switch_statement ctx_empty switch_nodefault_sample).2.code_off ∧
     SwitchLayout (compile_switch_statement ctx_empty switch_nodefault_sample).2
       ((switch_bodies_entry ctx_empty switch_nodefault_sample).get (by decide)).2.1
       ctx_empty.code_off (.STAT_SWITCH switch_nodefault_sample)
       ((switch_bodies_entry ctx_empty switch_nodefault_sample).get (by decide)).2.2.1
       ((switch_bodies_entry ctx_empty switch_nodefault_sample).get (by decide)).2.2.2.1 0
       ((switch_bodies_entry ctx_empty switch_nodefault_sample).get (by decide)).1.code_off
       (.mk (some (expr_int 1)) (.node 60 (stat_ident "a") (.node 61 (stat_ident "b") .NULL))
         (.mk (some (expr_int 2)) (.node 61 (stat_ident "b") .NULL) .NULL))) ∧
    emitted_ops (compile_switch_statement ctx_empty switch_nodefault_sample).2 0 10
      = [OP_ident, OP_int, OP_case, OP_int, OP_case, OP_pop, OP_jmp, OP_ident, OP_pop,
         OP_ident] ∧
    (compile_switch_statement ctx_empty switch_nodefault_sample).2.code_off = 10 ∧
    ((switch_bodies_entry ctx_empty switch_nodefault_sample).get (by decide)).2.2.1 0 = 2 ∧
    ((switch_bodies_entry ctx_empty switch_nodefault_sample).get (by decide)).2.2.1 1 = 4 ∧
    ((switch_bodies_entry ctx_empty switch_nodefault_sample).get (by decide)).2.2.2.1 = 6 ∧
    ((compile_switch_statement ctx_empty switch_nodefault_sample).2.instrs 2).arg1 = .uint 7 ∧
    ((compile_switch_statement ctx_empty switch_nodefault_sample).2.instrs 4).arg1 = .uint 9 ∧
    ((compile_switch_statement ctx_empty switch_nodefault_sample).2.instrs 6).arg1 = .uint 10 :=
  ⟨switch_statement_lowering ctx_empty
      ((switch_bodies_entry ctx_empty switch_nodefault_sample).get (by decide)).1
      ((switch_bodies_entry ctx_empty switch_nodefault_sample).get (by decide)).2.1
      ((switch_bodies_entry ctx_empty switch_nodefault_sample).get (by decide)).2.2.1
      ((switch_bodies_entry ctx_empty switch_nodefault_sample).get (by decide)).2.2.2.1
      ((switch_bodies_entry ctx_empty switch_nodefault_sample).get (by decide)).2.2.2.2
      (expr_ident "x")
      (.mk (some (expr_int 1)) (.node 60 (stat_ident "a") (.node 61 (stat_ident "b") .NULL))
        (.mk (some (expr_int 2)) (.node 61 (stat_ident "b") .NULL) .NULL))
      (Option.some_get (by decide)).symm (by decide) (by decide) (by decide),
   by decide, by decide, by decide, by decide, by decide, rfl, rfl, rfl⟩

/-! ## The result code `E_NOTIMPL`: expressions -/

theorem ni_of_code {r : HRESULT × compiler_ctx_t} (h : r.1 = S_OK ∨ r.1 = E_OUTOFMEMORY) :
    NotImplAt r := by
  refine ⟨fun h1 => ?_⟩
  rcases h with h | h <;> rw [h] at h1 <;> exact absurd h1 (by decide)

theorem ni_ok (c : compiler_ctx_t) : NotImplAt (S_OK, c) :=
  ⟨fun h => absurd (show S_OK = E_NOTIMPL from h) (by decide)⟩

theorem ni_oom (c : compiler_ctx_t) : NotImplAt (E_OUTOFMEMORY, c) :=
  ⟨fun h => absurd (show E_OUTOFMEMORY = E_NOTIMPL from h) (by decide)⟩

/-- An offset that reads as `E_NOTIMPL` when it is taken for a result code is `0x80004001`. -/
theorem unsigned_notimpl (n : Nat) (h : unsigned_to_HRESULT n = E_NOTIMPL) :
    n % 0x100000000 = 0x80004001 := by
  unfold unsigned_to_HRESULT E_NOTIMPL at h
  split at h
  · have h' : ((n % 0x100000000 : Nat) : Int) = 0x80004001 - 0x100000000 := h
    omega
  · have h' : ((n % 0x100000000 : Nat) : Int) - 0x100000000 = 0x80004001 - 0x100000000 := h
    omega

theorem literal_as_bstr_code (c : compiler_ctx_t) (l : literal_t) :
    (literal_as_bstr c l).1 = S_OK ∨ (literal_as_bstr c l).1 = E_OUTOFMEMORY := by
  unfold literal_as_bstr double_to_bstr
  split <;> dsimp only <;> (try split) <;> simp

theorem literal_as_bstr_ni (c : compiler_ctx_t) (l : literal_t) :
    NotImplAt ((literal_as_bstr c l).1, (literal_as_bstr c l).2.2) :=
  @ni_of_code ((literal_as_bstr c l).1, (literal_as_bstr c l).2.2) (literal_as_bstr_code c l)

theorem push_instr_hres_ni (c : compiler_ctx_t) (op : jsop_t) : NotImplAt (push_instr_hres c op) := by
  unfold push_instr_hres
  dsimp only
  split
  · exact ni_oom _
  · exact ni_ok _

theorem push_instr_int_ni (c : compiler_ctx_t) (op : jsop_t) (arg : Int) : NotImplAt (push_instr_int c op arg) := by
  unfold push_instr_int
  dsimp only
  repeat' (first
    | with_reducible (first
        | assumption
        | apply literal_as_bstr_ni
        | apply push_instr_hres_ni
        | exact ni_ok _
        | exact ni_oom _)
    | split)

theorem push_instr_uint_ni (c : compiler_ctx_t) (op : jsop_t) (arg : Nat) : NotImplAt (push_instr_uint c op arg) := by
  unfold push_instr_uint
  dsimp only
  repeat' (first
    | with_reducible (first
        | assumption
        | apply literal_as_bstr_ni
        | apply push_instr_hres_ni
        | apply push_instr_int_ni
        | exact ni_ok _
        | exact ni_oom _)
    | split)

theorem push_instr_str_ni (c : compiler_ctx_t) (op : jsop_t) (arg : String) : NotImplAt (push_instr_str c op arg) := by
  unfold push_instr_str
  dsimp only
  repeat' (first
    | with_reducible (first
        | assumption
        | apply literal_as_bstr_ni
        | apply push_instr_hres_ni
        | apply push_instr_int_ni
        | apply push_instr_uint_ni
        | exact ni_ok _
        | exact ni_oom _)
    | split)

theorem push_instr_bstr_ni (c : compiler_ctx_t) (op : jsop_t) (arg : String) : NotImplAt (push_instr_bstr c op arg) := by
  unfold push_instr_bstr
  dsimp only
  repeat' (first
    | with_reducible (first
        | assumption
        | apply literal_as_bstr_ni
        | apply push_instr_hres_ni
        | apply push_instr_int_ni
        | apply push_instr_uint_ni
        | apply push_instr_str_ni
        | exact ni_ok _
        | exact ni_oom _)
    | split)

theorem push_instr_bstr_uint_ni (c : compiler_ctx_t) (op : jsop_t) (arg1 : String) (arg2 : Nat) : NotImplAt (push_instr_bstr_uint c op arg1 arg2) := by
  unfold push_instr_bstr_uint
  dsimp only
  repeat' (first
    | with_reducible (first
        | assumption
        | apply literal_as_bstr_ni
        | apply push_instr_hres_ni
        | apply push_instr_int_ni
        | apply push_instr_uint_ni
        | apply push_instr_str_ni
        | apply push_instr_bstr_ni
        | exact ni_ok _
        | exact ni_oom _)
    | split)

theorem push_instr_uint_str_ni (c : compiler_ctx_t) (op : jsop_t) (arg1 : Nat) (arg2 : String) : NotImplAt (push_instr_uint_str c op arg1 arg2) := by
  unfold push_instr_uint_str
  dsimp only
  repeat' (first
    | with_reducible (first
        | assumption
        | apply literal_as_bstr_ni
        | apply push_instr_hres_ni
        | apply push_instr_int_ni
        | apply push_instr_uint_ni
        | apply push_instr_str_ni
        | apply push_instr_bstr_ni
        | apply push_instr_bstr_uint_ni
        | exact ni_ok _
        | exact ni_oom _)
    | split)

theorem push_instr_double_ni (c : compiler_ctx_t) (op : jsop_t) (arg : DOUBLE) : NotImplAt (push_instr_double c op arg) := by
  unfold push_instr_double
  dsimp only
  repeat' (first
    | with_reducible (first
        | assumption
        | apply literal_as_bstr_ni
        | apply push_instr_hres_ni
        | apply push_instr_int_ni
        | apply push_instr_uint_ni
        | apply push_instr_str_ni
        | apply push_instr_bstr_ni
        | apply push_instr_bstr_uint_ni
        | apply push_instr_uint_str_ni
        | exact ni_ok _
        | exact ni_oom _)
    | split)

theorem push_undefined_loop_ni (n : Nat) :
    ∀ (c : compiler_ctx_t), NotImplAt (push_undefined_loop c n) := by
  induction n with
  | zero => intro c; exact ni_ok _
  | succ n ih =>
    intro c
    unfold push_undefined_loop
    dsimp only
    split
    · exact ni_oom _
    · exact ih _

/-- The literal `null` is lowered by returning the value of `push_instr`, an offset: it is
`E_NOTIMPL` only for the offset `0x80004001`. -/
theorem compile_literal_null_ni (c : compiler_ctx_t) :
    NotImplAt (unsigned_to_HRESULT (push_instr c OP_null).1, (push_instr c OP_null).2) := by
  refine ⟨fun h => ?_⟩
  have h1 := unsigned_notimpl _ h
  rcases push_instr_cases c OP_null with ⟨hp, e⟩ | ⟨hp, n, _, _, e⟩
  · rw [e] at h1
    exact absurd (show UINT_MAX % 0x100000000 = 0x80004001 from h1) (by decide)
  · rw [e] at h1 ⊢
    dsimp only at h1 ⊢
    omega

theorem compile_literal_ni (c : compiler_ctx_t) (literal : literal_t) : NotImplAt (compile_literal c literal) := by
  unfold compile_literal
  split <;> (try dsimp only)
  repeat' (first
    | with_reducible (first
        | assumption
        | apply literal_as_bstr_ni
        | apply push_instr_hres_ni
        | apply push_instr_int_ni
        | apply push_instr_uint_ni
        | apply push_instr_str_ni
        | apply push_instr_bstr_ni
        | apply push_instr_bstr_uint_ni
        | apply push_instr_uint_str_ni
        | apply push_instr_double_ni
        | apply push_undefined_loop_ni
        | apply compile_literal_null_ni
        | exact ni_ok _
        | exact ni_oom _)
    | split)

theorem compile_function_expression_ni (c : compiler_ctx_t) (expr : function_expression_t) : NotImplAt (compile_function_expression c expr) := by
  unfold compile_function_expression
  split <;> (try dsimp only)
  repeat' (first
    | with_reducible (first
        | assumption
        | apply literal_as_bstr_ni
        | apply push_instr_hres_ni
        | apply push_instr_int_ni
        | apply push_instr_uint_ni
        | apply push_instr_str_ni
        | apply push_instr_bstr_ni
        | apply push_instr_bstr_uint_ni
        | apply push_instr_uint_str_ni
        | apply push_instr_double_ni
        | apply push_undefined_loop_ni
        | apply compile_literal_ni
        | exact ni_ok _
        | exact ni_oom _)
    | split)

theorem compile_binary_expression_ni_aux (c : compiler_ctx_t) {e1 e2 : expression_t} (op : jsop_t)
    (ih1 : (∀ (c : compiler_ctx_t), NotImplAt (compile_expression_noret c e1 none).1))
    (ih2 : (∀ (c : compiler_ctx_t), NotImplAt (compile_expression_noret c e2 none).1)) :
    NotImplAt (compile_binary_expression c (.mk e1 e2) op) := by
  rw [compile_binary_expression.eq_def]
  try dsimp only
  repeat' (first
    | with_reducible (first
        | assumption
        | apply ih1
        | apply ih2
        | apply ih3
        | apply ihm
        | apply iha
        | apply ihn
        | apply ihl
        | apply literal_as_bstr_ni
        | apply push_instr_hres_ni
        | apply push_instr_int_ni
        | apply push_instr_uint_ni
        | apply push_instr_str_ni
        | apply push_instr_bstr_ni
        | apply push_instr_bstr_uint_ni
        | apply push_instr_uint_str_ni
        | apply push_instr_double_ni
        | apply push_undefined_loop_ni
        | apply compile_literal_ni
        | apply compile_function_expression_ni
        | exact ni_ok _
        | exact ni_oom _)
    | split)

theorem compile_unary_expression_ni_aux (c : compiler_ctx_t) {e1 : expression_t} (op : jsop_t)
    (ih1 : (∀ (c : compiler_ctx_t), NotImplAt (compile_expression_noret c e1 none).1)) :
    NotImplAt (compile_unary_expression c (.mk e1) op) := by
  rw [compile_unary_expression.eq_def]
  try dsimp only
  repeat' (first
    | with_reducible (first
        | assumption
        | apply ih1
        | apply ih2
        | apply ih3
        | apply ihm
        | apply iha
        | apply ihn
        | apply ihl
        | apply literal_as_bstr_ni
        | apply push_instr_hres_ni
        | apply push_instr_int_ni
        | apply push_instr_uint_ni
        | apply push_instr_str_ni
        | apply push_instr_bstr_ni
        | apply push_instr_bstr_uint_ni
        | apply push_instr_uint_str_ni
        | apply push_instr_double_ni
        | apply push_undefined_loop_ni
        | apply compile_literal_ni
        | apply compile_function_expression_ni
        | exact ni_ok _
        | exact ni_oom _)
    | split)

theorem compile_member_expression_ni_aux (c : compiler_ctx_t) {e1 : expression_t} (i : String)
    (ih1 : (∀ (c : compiler_ctx_t), NotImplAt (compile_expression_noret c e1 none).1)) :
    NotImplAt (compile_member_expression c (.mk e1 i)) := by
  rw [compile_member_expression.eq_def]
  try dsimp only
  repeat' (first
    | with_reducible (first
        | assumption
        | apply ih1
        | apply ih2
        | apply ih3
        | apply ihm
        | apply iha
        | apply ihn
        | apply ihl
        | apply literal_as_bstr_ni
        | apply push_instr_hres_ni
        | apply push_instr_int_ni
        | apply push_instr_uint_ni
        | apply push_instr_str_ni
        | apply push_instr_bstr_ni
        | apply push_instr_bstr_uint_ni
        | apply push_instr_uint_str_ni
        | apply push_instr_double_ni
        | apply push_undefined_loop_ni
        | apply compile_literal_ni
        | apply compile_function_expression_ni
        | exact ni_ok _
        | exact ni_oom _)
    | split)

theorem compile_memberid_binary_ni_aux (c : compiler_ctx_t) {e1 e2 : expression_t} (t : binary_type_t) (flags : Nat)
    (ih1 : (∀ (c : compiler_ctx_t), NotImplAt (compile_expression_noret c e1 none).1))
    (ih2 : (∀ (c : compiler_ctx_t), NotImplAt (compile_expression_noret c e2 none).1)) :
    NotImplAt (compile_memberid_expression c (.binary t (.mk e1 e2)) flags) := by
  rw [compile_memberid_expression]
  try dsimp only
  repeat' (first
    | with_reducible (first
        | assumption
        | apply ih1
        | apply ih2
        | apply ih3
        | apply ihm
        | apply iha
        | apply ihn
        | apply ihl
        | apply literal_as_bstr_ni
        | apply push_instr_hres_ni
        | apply push_instr_int_ni
        | apply push_instr_uint_ni
        | apply push_instr_str_ni
        | apply push_instr_bstr_ni
        | apply push_instr_bstr_uint_ni
        | apply push_instr_uint_str_ni
        | apply push_instr_double_ni
        | apply push_undefined_loop_ni
        | apply compile_literal_ni
        | apply compile_function_expression_ni
        | exact ni_ok _
        | exact ni_oom _)
    | split)

theorem compile_memberid_member_ni_aux (c : compiler_ctx_t) {e1 : expression_t} (i : String) (flags : Nat)
    (ih1 : (∀ (c : compiler_ctx_t), NotImplAt (compile_expression_noret c e1 none).1)) :
    NotImplAt (compile_memberid_expression c (.EXPR_MEMBER (.mk e1 i)) flags) := by
  rw [compile_memberid_expression]
  try dsimp only
  repeat' (first
    | with_reducible (first
        | assumption
        | apply ih1
        | apply ih2
        | apply ih3
        | apply ihm
        | apply iha
        | apply ihn
        | apply ihl
        | apply literal_as_bstr_ni
        | apply push_instr_hres_ni
        | apply push_instr_int_ni
        | apply push_instr_uint_ni
        | apply push_instr_str_ni
        | apply push_instr_bstr_ni
        | apply push_instr_bstr_uint_ni
        | apply push_instr_uint_str_ni
        | apply push_instr_double_ni
        | apply push_undefined_loop_ni
        | apply compile_literal_ni
        | apply compile_function_expression_ni
        | exact ni_ok _
        | exact ni_oom _)
    | split)

theorem compile_increment_expression_ni_aux (c : compiler_ctx_t) {e1 : expression_t} (op : jsop_t) (n : Int)
    (ih1 : (∀ (c : compiler_ctx_t), NotImplAt (compile_expression_noret c e1 none).1))
    (ihm : (∀ (flags : Nat) (c : compiler_ctx_t), NotImplAt (compile_memberid_expression c e1 flags))) :
    NotImplAt (compile_increment_expression c (.mk e1) op n) := by
  rw [compile_increment_expression.eq_def]
  try dsimp only
  repeat' (first
    | with_reducible (first
        | assumption
        | apply ih1
        | apply ih2
        | apply ih3
        | apply ihm
        | apply iha
        | apply ihn
        | apply ihl
        | apply literal_as_bstr_ni
        | apply push_instr_hres_ni
        | apply push_instr_int_ni
        | apply push_instr_uint_ni
        | apply push_instr_str_ni
        | apply push_instr_bstr_ni
        | apply push_instr_bstr_uint_ni
        | apply push_instr_uint_str_ni
        | apply push_instr_double_ni
        | apply push_undefined_loop_ni
        | apply compile_literal_ni
        | apply compile_function_expression_ni
        | exact ni_ok _
        | exact ni_oom _)
    | split)

theorem compile_comma_expression_ni_aux (c : compiler_ctx_t) {e1 e2 : expression_t}
    (ih1 : (∀ (c : compiler_ctx_t), NotImplAt (compile_expression_noret c e1 none).1))
    (ih2 : (∀ (c : compiler_ctx_t), NotImplAt (compile_expression_noret c e2 none).1)) :
    NotImplAt (compile_comma_expression c (.mk e1 e2)) := by
  rw [compile_comma_expression.eq_def]
  try dsimp only
  repeat' (first
    | with_reducible (first
        | assumption
        | apply ih1
        | apply ih2
        | apply ih3
        | apply ihm
        | apply iha
        | apply ihn
        | apply ihl
        | apply literal_as_bstr_ni
        | apply push_instr_hres_ni
        | apply push_instr_int_ni
        | apply push_instr_uint_ni
        | apply push_instr_str_ni
        | apply push_instr_bstr_ni
        | apply push_instr_bstr_uint_ni
        | apply push_instr_uint_str_ni
        | apply push_instr_double_ni
        | apply push_undefined_loop_ni
        | apply compile_literal_ni
        | apply compile_function_expression_ni
        | exact ni_ok _
        | exact ni_oom _)
    | split)

theorem compile_logical_expression_ni_aux (c : compiler_ctx_t) {e1 e2 : expression_t} (op : jsop_t)
    (ih1 : (∀ (c : compiler_ctx_t), NotImplAt (compile_expression_noret c e1 none).1))
    (ih2 : (∀ (c : compiler_ctx_t), NotImplAt (compile_expression_noret c e2 none).1)) :
    NotImplAt (compile_logical_expression c (.mk e1 e2) op) := by
  rw [compile_logical_expression.eq_def]
  try dsimp only
  repeat' (first
    | with_reducible (first
        | assumption
        | apply ih1
        | apply ih2
        | apply ih3
        | apply ihm
        | apply iha
        | apply ihn
        | apply ihl
        | apply literal_as_bstr_ni
        | apply push_instr_hres_ni
        | apply push_instr_int_ni
        | apply push_instr_uint_ni
        | apply push_instr_str_ni
        | apply push_instr_bstr_ni
        | apply push_instr_bstr_uint_ni
        | apply push_instr_uint_str_ni
        | apply push_instr_double_ni
        | apply push_undefined_loop_ni
        | apply compile_literal_ni
        | apply compile_function_expression_ni
        | exact ni_ok _
        | exact ni_oom _)
    | split)

theorem compile_conditional_expression_ni_aux (c : compiler_ctx_t) {e1 e2 e3 : expression_t}
    (ih1 : (∀ (c : compiler_ctx_t), NotImplAt (compile_expression_noret c e1 none).1))
    (ih2 : (∀ (c : compiler_ctx_t), NotImplAt (compile_expression_noret c e2 none).1))
    (ih3 : (∀ (c : compiler_ctx_t), NotImplAt (compile_expression_noret c e3 none).1)) :
    NotImplAt (compile_conditional_expression c (.mk e1 e2 e3)) := by
  rw [compile_conditional_expression.eq_def]
  try dsimp only
  repeat' (first
    | with_reducible (first
        | assumption
        | apply ih1
        | apply ih2
        | apply ih3
        | apply ihm
        | apply iha
        | apply ihn
        | apply ihl
        | apply literal_as_bstr_ni
        | apply push_instr_hres_ni
        | apply push_instr_int_ni
        | apply push_instr_uint_ni
        | apply push_instr_str_ni
        | apply push_instr_bstr_ni
        | apply push_instr_bstr_uint_ni
        | apply push_instr_uint_str_ni
        | apply push_instr_double_ni
        | apply push_undefined_loop_ni
        | apply compile_literal_ni
        | apply compile_function_expression_ni
        | exact ni_ok _
        | exact ni_oom _)
    | split)

theorem compile_argument_list_ni_aux (c : compiler_ctx_t) {e1 : expression_t} {next : argument_t} (n : Nat)
    (ih1 : (∀ (c : compiler_ctx_t), NotImplAt (compile_expression_noret c e1 none).1))
    (iha : (∀ (n : Nat) (c : compiler_ctx_t), NotImplAt (compile_argument_list c next n).1)) :
    NotImplAt (compile_argument_list c (.mk e1 next) n).1 := by
  rw [compile_argument_list.eq_def]
  try dsimp only
  repeat' (first
    | with_reducible (first
        | assumption
        | apply ih1
        | apply ih2
        | apply ih3
        | apply ihm
        | apply iha
        | apply ihn
        | apply ihl
        | apply literal_as_bstr_ni
        | apply push_instr_hres_ni
        | apply push_instr_int_ni
        | apply push_instr_uint_ni
        | apply push_instr_str_ni
        | apply push_instr_bstr_ni
        | apply push_instr_bstr_uint_ni
        | apply push_instr_uint_str_ni
        | apply push_instr_double_ni
        | apply push_undefined_loop_ni
        | apply compile_literal_ni
        | apply compile_function_expression_ni
        | exact ni_ok _
        | exact ni_oom _)
    | split)

theorem compile_new_expression_ni_aux (c : compiler_ctx_t) {e1 : expression_t} {args : argument_t}
    (ih1 : (∀ (c : compiler_ctx_t), NotImplAt (compile_expression_noret c e1 none).1))
    (iha : (∀ (n : Nat) (c : compiler_ctx_t), NotImplAt (compile_argument_list c args n).1)) :
    NotImplAt (compile_new_expression c (.mk e1 args)) := by
  rw [compile_new_expression.eq_def]
  try dsimp only
  repeat' (first
    | with_reducible (first
        | assumption
        | apply ih1
        | apply ih2
        | apply ih3
        | apply ihm
        | apply iha
        | apply ihn
        | apply ihl
        | apply literal_as_bstr_ni
        | apply push_instr_hres_ni
        | apply push_instr_int_ni
        | apply push_instr_uint_ni
        | apply push_instr_str_ni
        | apply push_instr_bstr_ni
        | apply push_instr_bstr_uint_ni
        | apply push_instr_uint_str_ni
        | apply push_instr_double_ni
        | apply push_undefined_loop_ni
        | apply compile_literal_ni
        | apply compile_function_expression_ni
        | exact ni_ok _
        | exact ni_oom _)
    | split)

theorem compile_call_expression_ni_aux (c : compiler_ctx_t) {e1 : expression_t} {args : argument_t} (no_ret : Option Bool)
    (ih1 : (∀ (c : compiler_ctx_t), NotImplAt (compile_expression_noret c e1 none).1))
    (ihm : (∀ (flags : Nat) (c : compiler_ctx_t), NotImplAt (compile_memberid_expression c e1 flags)))
    (iha : (∀ (n : Nat) (c : compiler_ctx_t), NotImplAt (compile_argument_list c args n).1)) :
    NotImplAt (compile_call_expression c (.mk e1 args) no_ret).1 := by
  rw [compile_call_expression.eq_def]
  try dsimp only
  repeat' (first
    | with_reducible (first
        | assumption
        | apply ih1
        | apply ih2
        | apply ih3
        | apply ihm
        | apply iha
        | apply ihn
        | apply ihl
        | apply literal_as_bstr_ni
        | apply push_instr_hres_ni
        | apply push_instr_int_ni
        | apply push_instr_uint_ni
        | apply push_instr_str_ni
        | apply push_instr_bstr_ni
        | apply push_instr_bstr_uint_ni
        | apply push_instr_uint_str_ni
        | apply push_instr_double_ni
        | apply push_undefined_loop_ni
        | apply compile_literal_ni
        | apply compile_function_expression_ni
        | exact ni_ok _
        | exact ni_oom _)
    | split)

theorem compile_delete_array_ni_aux (c : compiler_ctx_t) {e1 e2 : expression_t} (t : binary_type_t)
    (ih1 : (∀ (c : compiler_ctx_t), NotImplAt (compile_expression_noret c e1 none).1))
    (ih2 : (∀ (c : compiler_ctx_t), NotImplAt (compile_expression_noret c e2 none).1))
    (ih3 : (∀ (c : compiler_ctx_t), NotImplAt (compile_expression_noret c (.binary t (.mk e1 e2)) none).1)) :
    NotImplAt (compile_delete_expression c (.mk (.binary t (.mk e1 e2)))) := by
  rw [compile_delete_expression.eq_def]
  try dsimp only
  repeat' (first
    | with_reducible (first
        | assumption
        | apply ih1
        | apply ih2
        | apply ih3
        | apply ihm
        | apply iha
        | apply ihn
        | apply ihl
        | apply literal_as_bstr_ni
        | apply push_instr_hres_ni
        | apply push_instr_int_ni
        | apply push_instr_uint_ni
        | apply push_instr_str_ni
        | apply push_instr_bstr_ni
        | apply push_instr_bstr_uint_ni
        | apply push_instr_uint_str_ni
        | apply push_instr_double_ni
        | apply push_undefined_loop_ni
        | apply compile_literal_ni
        | apply compile_function_expression_ni
        | exact ni_ok _
        | exact ni_oom _)
    | split)

theorem compile_delete_member_ni_aux (c : compiler_ctx_t) {e1 : expression_t} (i : String)
    (ih1 : (∀ (c : compiler_ctx_t), NotImplAt (compile_expression_noret c e1 none).1))
    (ih3 : (∀ (c : compiler_ctx_t), NotImplAt (compile_expression_noret c (.EXPR_MEMBER (.mk e1 i)) none).1)) :
    NotImplAt (compile_delete_expression c (.mk (.EXPR_MEMBER (.mk e1 i)))) := by
  rw [compile_delete_expression.eq_def]
  try dsimp only
  repeat' (first
    | with_reducible (first
        | assumption
        | apply ih1
        | apply ih2
        | apply ih3
        | apply ihm
        | apply iha
        | apply ihn
        | apply ihl
        | apply literal_as_bstr_ni
        | apply push_instr_hres_ni
        | apply push_instr_int_ni
        | apply push_instr_uint_ni
        | apply push_instr_str_ni
        | apply push_instr_bstr_ni
        | apply push_instr_bstr_uint_ni
        | apply push_instr_uint_str_ni
        | apply push_instr_double_ni
        | apply push_undefined_loop_ni
        | apply compile_literal_ni
        | apply compile_function_expression_ni
        | exact ni_ok _
        | exact ni_oom _)
    | split)

theorem compile_delete_other_ni_aux (c : compiler_ctx_t) {e1 : expression_t}
    (ih1 : (∀ (c : compiler_ctx_t), NotImplAt (compile_expression_noret c e1 none).1))
    (hty : e1.type ≠ .EXPR_ARRAY ∧ e1.type ≠ .EXPR_MEMBER) :
    NotImplAt (compile_delete_expression c (.mk e1)) := by
  rw [compile_delete_expression.eq_def]
  dsimp only
  rw [if_neg hty.1, if_neg hty.2]
  repeat' (first
    | with_reducible (first
        | assumption
        | apply ih1
        | apply literal_as_bstr_ni
        | apply push_instr_hres_ni
        | apply push_instr_int_ni
        | apply push_instr_uint_ni
        | apply push_instr_str_ni
        | apply push_instr_bstr_ni
        | apply push_instr_bstr_uint_ni
        | apply push_instr_uint_str_ni
        | apply push_instr_double_ni
        | apply push_undefined_loop_ni
        | apply compile_literal_ni
        | apply compile_function_expression_ni
        | exact ni_ok _
        | exact ni_oom _)
    | split)

theorem compile_assign_expression_ni_aux (c : compiler_ctx_t) {e1 e2 : expression_t} (op : jsop_t)
    (ih1 : (∀ (c : compiler_ctx_t), NotImplAt (compile_expression_noret c e1 none).1))
    (ihm : (∀ (flags : Nat) (c : compiler_ctx_t), NotImplAt (compile_memberid_expression c e1 flags)))
    (ih2 : (∀ (c : compiler_ctx_t), NotImplAt (compile_expression_noret c e2 none).1)) :
    NotImplAt (compile_assign_expression c (.mk e1 e2) op) := by
  rw [compile_assign_expression.eq_def]
  try dsimp only
  repeat' (first
    | with_reducible (first
        | assumption
        | apply ih1
        | apply ih2
        | apply ih3
        | apply ihm
        | apply iha
        | apply ihn
        | apply ihl
        | apply literal_as_bstr_ni
        | apply push_instr_hres_ni
        | apply push_instr_int_ni
        | apply push_instr_uint_ni
        | apply push_instr_str_ni
        | apply push_instr_bstr_ni
        | apply push_instr_bstr_uint_ni
        | apply push_instr_uint_str_ni
        | apply push_instr_double_ni
        | apply push_undefined_loop_ni
        | apply compile_literal_ni
        | apply compile_function_expression_ni
        | exact ni_ok _
        | exact ni_oom _)
    | split)

theorem compile_typeof_expression_ni_aux (c : compiler_ctx_t) {e1 : expression_t}
    (ih1 : (∀ (c : compiler_ctx_t), NotImplAt (compile_expression_noret c e1 none).1))
    (ihm : (∀ (flags : Nat) (c : compiler_ctx_t), NotImplAt (compile_memberid_expression c e1 flags))) :
    NotImplAt (compile_typeof_expression c (.mk e1)) := by
  rw [compile_typeof_expression.eq_def]
  try dsimp only
  repeat' (first
    | with_reducible (first
        | assumption
        | apply ih1
        | apply ih2
        | apply ih3
        | apply ihm
        | apply iha
        | apply ihn
        | apply ihl
        | apply literal_as_bstr_ni
        | apply push_instr_hres_ni
        | apply push_instr_int_ni
        | apply push_instr_uint_ni
        | apply push_instr_str_ni
        | apply push_instr_bstr_ni
        | apply push_instr_bstr_uint_ni
        | apply push_instr_uint_str_ni
        | apply push_instr_double_ni
        | apply push_undefined_loop_ni
        | apply compile_literal_ni
        | apply compile_function_expression_ni
        | exact ni_ok _
        | exact ni_oom _)
    | split)

theorem compile_array_elements_ni_aux (c : compiler_ctx_t) {e1 : expression_t} {next : array_element_t} (elision n : Nat)
    (ih1 : (∀ (c : compiler_ctx_t), NotImplAt (compile_expression_noret c e1 none).1))
    (ihn : (∀ (n : Nat) (c : compiler_ctx_t), NotImplAt (compile_array_elements c next n).1)) :
    NotImplAt (compile_array_elements c (.mk elision e1 next) n).1 := by
  rw [compile_array_elements.eq_def]
  try dsimp only
  repeat' (first
    | with_reducible (first
        | assumption
        | apply ih1
        | apply ih2
        | apply ih3
        | apply ihm
        | apply iha
        | apply ihn
        | apply ihl
        | apply literal_as_bstr_ni
        | apply push_instr_hres_ni
        | apply push_instr_int_ni
        | apply push_instr_uint_ni
        | apply push_instr_str_ni
        | apply push_instr_bstr_ni
        | apply push_instr_bstr_uint_ni
        | apply push_instr_uint_str_ni
        | apply push_instr_double_ni
        | apply push_undefined_loop_ni
        | apply compile_literal_ni
        | apply compile_function_expression_ni
        | exact ni_ok _
        | exact ni_oom _)
    | split)

theorem compile_array_literal_ni_aux (c : compiler_ctx_t) {l : array_element_t} (n : Nat)
    (ihl : (∀ (n : Nat) (c : compiler_ctx_t), NotImplAt (compile_array_elements c l n).1)) :
    NotImplAt (compile_array_literal c (.mk l n)) := by
  rw [compile_array_literal.eq_def]
  try dsimp only
  repeat' (first
    | with_reducible (first
        | assumption
        | apply ih1
        | apply ih2
        | apply ih3
        | apply ihm
        | apply iha
        | apply ihn
        | apply ihl
        | apply literal_as_bstr_ni
        | apply push_instr_hres_ni
        | apply push_instr_int_ni
        | apply push_instr_uint_ni
        | apply push_instr_str_ni
        | apply push_instr_bstr_ni
        | apply push_instr_bstr_uint_ni
        | apply push_instr_uint_str_ni
        | apply push_instr_double_ni
        | apply push_undefined_loop_ni
        | apply compile_literal_ni
        | apply compile_function_expression_ni
        | exact ni_ok _
        | exact ni_oom _)
    | split)

theorem compile_property_list_ni_aux (c : compiler_ctx_t) {e1 : expression_t} {next : prop_val_t} (name : literal_t)
    (ih1 : (∀ (c : compiler_ctx_t), NotImplAt (compile_expression_noret c e1 none).1))
    (ihn : (∀ (c : compiler_ctx_t), NotImplAt (compile_property_list c next))) :
    NotImplAt (compile_property_list c (.mk name e1 next)) := by
  rw [compile_property_list.eq_def]
  try dsimp only
  repeat' (first
    | with_reducible (first
        | assumption
        | apply ih1
        | apply ih2
        | apply ih3
        | apply ihm
        | apply iha
        | apply ihn
        | apply ihl
        | apply literal_as_bstr_ni
        | apply push_instr_hres_ni
        | apply push_instr_int_ni
        | apply push_instr_uint_ni
        | apply push_instr_str_ni
        | apply push_instr_bstr_ni
        | apply push_instr_bstr_uint_ni
        | apply push_instr_uint_str_ni
        | apply push_instr_double_ni
        | apply push_undefined_loop_ni
        | apply compile_literal_ni
        | apply compile_function_expression_ni
        | exact ni_ok _
        | exact ni_oom _)
    | split)

theorem compile_object_literal_ni_aux (c : compiler_ctx_t) {l : prop_val_t}
    (ihn : (∀ (c : compiler_ctx_t), NotImplAt (compile_property_list c l))) :
    NotImplAt (compile_object_literal c (.mk l)) := by
  rw [compile_object_literal.eq_def]
  try dsimp only
  repeat' (first
    | with_reducible (first
        | assumption
        | apply ih1
        | apply ih2
        | apply ih3
        | apply ihm
        | apply iha
        | apply ihn
        | apply ihl
        | apply literal_as_bstr_ni
        | apply push_instr_hres_ni
        | apply push_instr_int_ni
        | apply push_instr_uint_ni
        | apply push_instr_str_ni
        | apply push_instr_bstr_ni
        | apply push_instr_bstr_uint_ni
        | apply push_instr_uint_str_ni
        | apply push_instr_double_ni
        | apply push_undefined_loop_ni
        | apply compile_literal_ni
        | apply compile_function_expression_ni
        | exact ni_ok _
        | exact ni_oom _)
    | split)

mutual
theorem compile_expression_noret_ni :
    ∀ (e : expression_t) (no_ret : Option Bool) (c : compiler_ctx_t),
      NotImplAt (compile_expression_noret c e no_ret).1
  | .binary type expr, no_ret, c => by
    cases type <;> rw [compile_expression_noret] <;>
    first
      | exact compile_binary_expression_ni _ _ c
      | exact compile_binary_expression_ni _ c
      | exact compile_binary_expression_ni _ _ _ c
      | exact compile_logical_expression_ni _ _ c
      | exact compile_logical_expression_ni _ c
      | exact compile_logical_expression_ni _ _ _ c
      | exact compile_assign_expression_ni _ _ c
      | exact compile_assign_expression_ni _ c
      | exact compile_assign_expression_ni _ _ _ c
      | exact compile_comma_expression_ni _ _ c
      | exact compile_comma_expression_ni _ c
      | exact compile_comma_expression_ni _ _ _ c
      | exact compile_unary_expression_ni _ _ c
      | exact compile_unary_expression_ni _ c
      | exact compile_unary_expression_ni _ _ _ c
      | exact compile_delete_expression_ni _ _ c
      | exact compile_delete_expression_ni _ c
      | exact compile_delete_expression_ni _ _ _ c
      | exact compile_increment_expression_ni _ _ c
      | exact compile_increment_expression_ni _ c
      | exact compile_increment_expression_ni _ _ _ c
      | exact compile_typeof_expression_ni _ _ c
      | exact compile_typeof_expression_ni _ c
      | exact compile_typeof_expression_ni _ _ _ c
  | .unary type expr, no_ret, c => by
    cases type <;> rw [compile_expression_noret] <;>
    first
      | exact compile_binary_expression_ni _ _ c
      | exact compile_binary_expression_ni _ c
      | exact compile_binary_expression_ni _ _ _ c
      | exact compile_logical_expression_ni _ _ c
      | exact compile_logical_expression_ni _ c
      | exact compile_logical_expression_ni _ _ _ c
      | exact compile_assign_expression_ni _ _ c
      | exact compile_assign_expression_ni _ c
      | exact compile_assign_expression_ni _ _ _ c
      | exact compile_comma_expression_ni _ _ c
      | exact compile_comma_expression_ni _ c
      | exact compile_comma_expression_ni _ _ _ c
      | exact compile_unary_expression_ni _ _ c
      | exact compile_unary_expression_ni _ c
      | exact compile_unary_expression_ni _ _ _ c
      | exact compile_delete_expression_ni _ _ c
      | exact compile_delete_expression_ni _ c
      | exact compile_delete_expression_ni _ _ _ c
      | exact compile_increment_expression_ni _ _ c
      | exact compile_increment_expression_ni _ c
      | exact compile_increment_expression_ni _ _ _ c
      | exact compile_typeof_expression_ni _ _ c
      | exact compile_typeof_expression_ni _ c
      | exact compile_typeof_expression_ni _ _ _ c
  | .EXPR_CALL expr, no_ret, c => by
    rw [compile_expression_noret]; exact compile_call_expression_ni expr no_ret c
  | .EXPR_COND expr, no_ret, c => by
    rw [compile_expression_noret]; exact compile_conditional_expression_ni expr c
  | .EXPR_FUNC expr, no_ret, c => by
    rw [compile_expression_noret]; exact compile_function_expression_ni c expr
  | .EXPR_IDENT expr, no_ret, c => by
    rw [compile_expression_noret]; exact push_instr_bstr_ni c _ _
  | .EXPR_LITERAL expr, no_ret, c => by
    rw [compile_expression_noret]; exact compile_literal_ni c _
  | .EXPR_MEMBER expr, no_ret, c => by
    rw [compile_expression_noret]; exact compile_member_expression_ni expr c
  | .EXPR_NEW expr, no_ret, c => by
    rw [compile_expression_noret]; exact compile_new_expression_ni expr c
  | .EXPR_PROPVAL expr, no_ret, c => by
    rw [compile_expression_noret]; exact compile_object_literal_ni expr c
  | .EXPR_ARRAYLIT expr, no_ret, c => by
    rw [compile_expression_noret]; exact compile_array_literal_ni expr c
  | .EXPR_THIS, no_ret, c => by
    rw [compile_expression_noret]; exact push_instr_hres_ni c _

theorem compile_binary_expression_ni :
    ∀ (e : binary_expression_t) (op : jsop_t) (c : compiler_ctx_t), NotImplAt (compile_binary_expression c e op)
  | .mk e1 e2, op, c => compile_binary_expression_ni_aux c op (compile_expression_noret_ni e1 none) (compile_expression_noret_ni e2 none)

theorem compile_unary_expression_ni :
    ∀ (e : unary_expression_t) (op : jsop_t) (c : compiler_ctx_t), NotImplAt (compile_unary_expression c e op)
  | .mk e1, op, c => compile_unary_expression_ni_aux c op (compile_expression_noret_ni e1 none)

theorem compile_member_expression_ni :
    ∀ (e : member_expression_t) (c : compiler_ctx_t), NotImplAt (compile_member_expression c e)
  | .mk e1 i, c => compile_member_expression_ni_aux c i (compile_expression_noret_ni e1 none)

theorem compile_memberid_expression_ni :
    ∀ (e : expression_t) (flags : Nat) (c : compiler_ctx_t), NotImplAt (compile_memberid_expression c e flags)
  | .EXPR_IDENT i, flags, c => by rw [compile_memberid_expression]; exact push_instr_bstr_uint_ni c _ _ _
  | .binary t (.mk e1 e2), flags, c => compile_memberid_binary_ni_aux c t flags (compile_expression_noret_ni e1 none) (compile_expression_noret_ni e2 none)
  | .EXPR_MEMBER (.mk e1 i), flags, c => compile_memberid_member_ni_aux c i flags (compile_expression_noret_ni e1 none)
  | .unary _ _, flags, c => by
    rw [compile_memberid_expression] <;> first | exact ni_ok _ | (intros; contradiction)
  | .EXPR_COND _, flags, c => by
    rw [compile_memberid_expression] <;> first | exact ni_ok _ | (intros; contradiction)
  | .EXPR_NEW _, flags, c => by
    rw [compile_memberid_expression] <;> first | exact ni_ok _ | (intros; contradiction)
  | .EXPR_CALL _, flags, c => by
    rw [compile_memberid_expression] <;> first | exact ni_ok _ | (intros; contradiction)
  | .EXPR_THIS, flags, c => by
    rw [compile_memberid_expression] <;> first | exact ni_ok _ | (intros; contradiction)
  | .EXPR_FUNC _, flags, c => by
    rw [compile_memberid_expression] <;> first | exact ni_ok _ | (intros; contradiction)
  | .EXPR_ARRAYLIT _, flags, c => by
    rw [compile_memberid_expression] <;> first | exact ni_ok _ | (intros; contradiction)
  | .EXPR_PROPVAL _, flags, c => by
    rw [compile_memberid_expression] <;> first | exact ni_ok _ | (intros; contradiction)
  | .EXPR_LITERAL _, flags, c => by
    rw [compile_memberid_expression] <;> first | exact ni_ok _ | (intros; contradiction)

theorem compile_increment_expression_ni :
    ∀ (e : unary_expression_t) (op : jsop_t) (n : Int) (c : compiler_ctx_t), NotImplAt (compile_increment_expression c e op n)
  | .mk e1, op, n, c => compile_increment_expression_ni_aux c op n (compile_expression_noret_ni e1 none) (compile_memberid_expression_ni e1)

theorem compile_comma_expression_ni :
    ∀ (e : binary_expression_t) (c : compiler_ctx_t), NotImplAt (compile_comma_expression c e)
  | .mk e1 e2, c => compile_comma_expression_ni_aux c (compile_expression_noret_ni e1 none) (compile_expression_noret_ni e2 none)

theorem compile_logical_expression_ni :
    ∀ (e : binary_expression_t) (op : jsop_t) (c : compiler_ctx_t), NotImplAt (compile_logical_expression c e op)
  | .mk e1 e2, op, c => compile_logical_expression_ni_aux c op (compile_expression_noret_ni e1 none) (compile_expression_noret_ni e2 none)

theorem compile_conditional_expression_ni :
    ∀ (e : conditional_expression_t) (c : compiler_ctx_t), NotImplAt (compile_conditional_expression c e)
  | .mk e1 e2 e3, c => compile_conditional_expression_ni_aux c (compile_expression_noret_ni e1 none) (compile_expression_noret_ni e2 none) (compile_expression_noret_ni e3 none)

theorem compile_argument_list_ni :
    ∀ (args : argument_t) (n : Nat) (c : compiler_ctx_t), NotImplAt (compile_argument_list c args n).1
  | .NULL, n, c => by rw [compile_argument_list]; exact ni_ok _
  | .mk e1 next, n, c => compile_argument_list_ni_aux c n (compile_expression_noret_ni e1 none) (compile_argument_list_ni next)

theorem compile_new_expression_ni :
    ∀ (e : call_expression_t) (c : compiler_ctx_t), NotImplAt (compile_new_expression c e)
  | .mk e1 args, c => compile_new_expression_ni_aux c (compile_expression_noret_ni e1 none) (compile_argument_list_ni args)

theorem compile_call_expression_ni :
    ∀ (e : call_expression_t) (no_ret : Option Bool) (c : compiler_ctx_t), NotImplAt (compile_call_expression c e no_ret).1
  | .mk e1 args, no_ret, c => compile_call_expression_ni_aux c no_ret (compile_expression_noret_ni e1 none) (compile_memberid_expression_ni e1) (compile_argument_list_ni args)

theorem compile_delete_expression_ni :
    ∀ (e : unary_expression_t) (c : compiler_ctx_t), NotImplAt (compile_delete_expression c e)
  | .mk (.binary t (.mk e1 e2)), c => compile_delete_array_ni_aux c t (compile_expression_noret_ni e1 none) (compile_expression_noret_ni e2 none) (compile_expression_noret_ni (.binary t (.mk e1 e2)) none)
  | .mk (.EXPR_MEMBER (.mk e1 i)), c => compile_delete_member_ni_aux c i (compile_expression_noret_ni e1 none) (compile_expression_noret_ni (.EXPR_MEMBER (.mk e1 i)) none)
  | .mk (.unary t u), c => compile_delete_other_ni_aux c (compile_expression_noret_ni (.unary t u) none) (by cases t <;> constructor <;> intro h <;> cases h)
  | .mk (.EXPR_COND u), c => compile_delete_other_ni_aux c (compile_expression_noret_ni (.EXPR_COND u) none) (by constructor <;> intro h <;> cases h)
  | .mk (.EXPR_NEW u), c => compile_delete_other_ni_aux c (compile_expression_noret_ni (.EXPR_NEW u) none) (by constructor <;> intro h <;> cases h)
  | .mk (.EXPR_CALL u), c => compile_delete_other_ni_aux c (compile_expression_noret_ni (.EXPR_CALL u) none) (by constructor <;> intro h <;> cases h)
  | .mk (.EXPR_THIS), c => compile_delete_other_ni_aux c (compile_expression_noret_ni (.EXPR_THIS) none) (by constructor <;> intro h <;> cases h)
  | .mk (.EXPR_FUNC u), c => compile_delete_other_ni_aux c (compile_expression_noret_ni (.EXPR_FUNC u) none) (by constructor <;> intro h <;> cases h)
  | .mk (.EXPR_IDENT u), c => compile_delete_other_ni_aux c (compile_expression_noret_ni (.EXPR_IDENT u) none) (by constructor <;> intro h <;> cases h)
  | .mk (.EXPR_ARRAYLIT u), c => compile_delete_other_ni_aux c (compile_expression_noret_ni (.EXPR_ARRAYLIT u) none) (by constructor <;> intro h <;> cases h)
  | .mk (.EXPR_PROPVAL u), c => compile_delete_other_ni_aux c (compile_expression_noret_ni (.EXPR_PROPVAL u) none) (by constructor <;> intro h <;> cases h)
  | .mk (.EXPR_LITERAL u), c => compile_delete_other_ni_aux c (compile_expression_noret_ni (.EXPR_LITERAL u) none) (by constructor <;> intro h <;> cases h)

theorem compile_assign_expression_ni :
    ∀ (e : binary_expression_t) (op : jsop_t) (c : compiler_ctx_t), NotImplAt (compile_assign_expression c e op)
  | .mk e1 e2, op, c => compile_assign_expression_ni_aux c op (compile_expression_noret_ni e1 none) (compile_memberid_expression_ni e1) (compile_expression_noret_ni e2 none)

theorem compile_typeof_expression_ni :
    ∀ (e : unary_expression_t) (c : compiler_ctx_t), NotImplAt (compile_typeof_expression c e)
  | .mk e1, c => compile_typeof_expression_ni_aux c (compile_expression_noret_ni e1 none) (compile_memberid_expression_ni e1)

theorem compile_array_elements_ni :
    ∀ (l : array_element_t) (n : Nat) (c : compiler_ctx_t), NotImplAt (compile_array_elements c l n).1
  | .NULL, n, c => by rw [compile_array_elements]; exact ni_ok _
  | .mk elision e1 next, n, c => compile_array_elements_ni_aux c elision n (compile_expression_noret_ni e1 none) (compile_array_elements_ni next)

theorem compile_array_literal_ni :
    ∀ (e : array_literal_expression_t) (c : compiler_ctx_t), NotImplAt (compile_array_literal c e)
  | .mk l n, c => compile_array_literal_ni_aux c n (compile_array_elements_ni l)

theorem compile_property_list_ni :
    ∀ (l : prop_val_t) (c : compiler_ctx_t), NotImplAt (compile_property_list c l)
  | .NULL, c => by rw [compile_property_list]; exact ni_ok _
  | .mk name e1 next, c => compile_property_list_ni_aux c name (compile_expression_noret_ni e1 none) (compile_property_list_ni next)

theorem compile_object_literal_ni :
    ∀ (e : property_value_expression_t) (c : compiler_ctx_t), NotImplAt (compile_object_literal c e)
  | .mk l, c => compile_object_literal_ni_aux c (compile_property_list_ni l)
end

/-! ## The result code `E_NOTIMPL`: statements -/

theorem nis_of_ni {r : HRESULT × compiler_ctx_t} (h : NotImplAt r) : NotImplStat r :=
  ⟨fun e => Or.inr (h.out e)⟩

theorem nis_ok (c : compiler_ctx_t) : NotImplStat (S_OK, c) := nis_of_ni (ni_ok c)

theorem nis_oom (c : compiler_ctx_t) : NotImplStat (E_OUTOFMEMORY, c) := nis_of_ni (ni_oom c)

theorem nis_of_ne {hr : HRESULT} {c : compiler_ctx_t} (h : ¬ hr = E_NOTIMPL) :
    NotImplStat (hr, c) :=
  ⟨fun e => absurd e h⟩

theorem not_failed_ne_notimpl {hr : HRESULT} (h : ¬ FAILED hr = true) : ¬ hr = E_NOTIMPL := by
  intro e
  rw [e] at h
  exact h (by decide)

theorem nis_ite {p : Prop} [Decidable p] {A B : HRESULT × compiler_ctx_t}
    (hA : p → NotImplStat A) (hB : ¬ p → NotImplStat B) : NotImplStat (if p then A else B) := by
  split
  · exact hA (by assumption)
  · exact hB (by assumption)

theorem nis_ite_fst {α : Type} {p : Prop} [Decidable p] {A B : (HRESULT × compiler_ctx_t) × α}
    (hA : p → NotImplStat A.1) (hB : ¬ p → NotImplStat B.1) :
    NotImplStat (if p then A else B).1 := by
  split
  · exact hA (by assumption)
  · exact hB (by assumption)

theorem nis_ite_failed {x B : HRESULT × compiler_ctx_t}
    (hx : NotImplStat x) (hB : ¬ FAILED x.1 = true → NotImplStat B) :
    NotImplStat (if FAILED x.1 = true then x else B) := by
  split
  · exact hx
  · exact hB (by assumption)

theorem nis_ite_oom {x : Nat × compiler_ctx_t} {B : HRESULT × compiler_ctx_t}
    (hB : ¬ x.1 = UINT_MAX → NotImplStat B) :
    NotImplStat (if x.1 = UINT_MAX then (E_OUTOFMEMORY, x.2) else B) := by
  split
  · exact nis_oom _
  · exact hB (by assumption)

/-- The interpreter fallback signals `E_NOTIMPL` only when the fallback is forbidden. -/
theorem compile_interp_fallback_nis (c : compiler_ctx_t) (stat : statement_t) :
    NotImplStat (compile_interp_fallback c stat) := by
  unfold compile_interp_fallback
  dsimp only
  split
  · exact ⟨fun _ => Or.inl (by assumption)⟩
  · split
    · exact nis_oom _
    · exact nis_ok _

theorem nis_frame (c : compiler_ctx_t) (sc : Option statement_ctx_t)
    {r : HRESULT × compiler_ctx_t} (h : NotImplStat r) : NotImplStat (pop_stat_ctx c sc r) := by
  cases sc with
  | none => exact h
  | some frame => exact ⟨h.out⟩

theorem compile_expression_nis (c : compiler_ctx_t) (e : expression_t) :
    NotImplStat (compile_expression c e) :=
  nis_of_ni (compile_expression_noret_ni e none c)

theorem compile_variable_list_nis (l : variable_declaration_t) :
    ∀ (c : compiler_ctx_t), NotImplStat (compile_variable_list c l) := by
  induction l with
  | NULL => intro c; exact nis_ok _
  | mk identifier expr next ih =>
    intro c
    rw [compile_variable_list.eq_def]
    cases expr with
    | none => exact ih _
    | some e =>
      dsimp only
      repeat' (first
    | with_reducible (first
        | intro _
        | assumption
        | apply nis_ite_failed
        | apply nis_ite_oom
        | apply ih
        | apply nis_ite
        | apply nis_ite_fst
        | exact nis_of_ni (push_instr_hres_ni _ _)
        | exact nis_of_ni (push_instr_int_ni _ _ _)
        | exact nis_of_ni (push_instr_uint_ni _ _ _)
        | exact nis_of_ni (push_instr_str_ni _ _ _)
        | exact nis_of_ni (push_instr_bstr_ni _ _ _)
        | exact nis_of_ni (push_instr_double_ni _ _ _)
        | exact nis_of_ni (push_instr_bstr_uint_ni _ _ _ _)
        | exact nis_of_ni (push_instr_uint_str_ni _ _ _ _)
        | exact compile_expression_nis _ _
        | exact nis_of_ni (compile_expression_noret_ni _ _ _)
        | exact nis_of_ni (compile_memberid_expression_ni _ _ _)
        | exact compile_interp_fallback_nis _ _
        | exact nis_ok _
        | exact nis_oom _
        | exact nis_of_ne (by assumption))
    | (lift_lets; intro _))

theorem compile_var_statement_nis (c : compiler_ctx_t) (stat : var_statement_t) :
    NotImplStat (compile_var_statement c stat) := by
  unfold compile_var_statement
  dsimp only
  repeat' (first
    | with_reducible (first
        | intro _
        | assumption
        | apply nis_ite_failed
        | apply nis_ite_oom
        | apply compile_variable_list_nis
        | apply nis_ite
        | apply nis_ite_fst
        | exact nis_of_ni (push_instr_hres_ni _ _)
        | exact nis_of_ni (push_instr_int_ni _ _ _)
        | exact nis_of_ni (push_instr_uint_ni _ _ _)
        | exact nis_of_ni (push_instr_str_ni _ _ _)
        | exact nis_of_ni (push_instr_bstr_ni _ _ _)
        | exact nis_of_ni (push_instr_double_ni _ _ _)
        | exact nis_of_ni (push_instr_bstr_uint_ni _ _ _ _)
        | exact nis_of_ni (push_instr_uint_str_ni _ _ _ _)
        | exact compile_expression_nis _ _
        | exact nis_of_ni (compile_expression_noret_ni _ _ _)
        | exact nis_of_ni (compile_memberid_expression_ni _ _ _)
        | exact compile_interp_fallback_nis _ _
        | exact nis_ok _
        | exact nis_oom _
        | exact nis_of_ne (by assumption))
    | (lift_lets; intro _))

theorem compile_expression_statement_nis (c : compiler_ctx_t) (stat : expression_statement_t) :
    NotImplStat (compile_expression_statement c stat) := by
  unfold compile_expression_statement
  dsimp only
  repeat' (first
    | with_reducible (first
        | intro _
        | assumption
        | apply nis_ite_failed
        | apply nis_ite_oom
        | apply nis_ite
        | apply nis_ite_fst
        | exact nis_of_ni (push_instr_hres_ni _ _)
        | exact nis_of_ni (push_instr_int_ni _ _ _)
        | exact nis_of_ni (push_instr_uint_ni _ _ _)
        | exact nis_of_ni (push_instr_str_ni _ _ _)
        | exact nis_of_ni (push_instr_bstr_ni _ _ _)
        | exact nis_of_ni (push_instr_double_ni _ _ _)
        | exact nis_of_ni (push_instr_bstr_uint_ni _ _ _ _)
        | exact nis_of_ni (push_instr_uint_str_ni _ _ _ _)
        | exact compile_expression_nis _ _
        | exact nis_of_ni (compile_expression_noret_ni _ _ _)
        | exact nis_of_ni (compile_memberid_expression_ni _ _ _)
        | exact compile_interp_fallback_nis _ _
        | exact nis_ok _
        | exact nis_oom _
        | exact nis_of_ne (by assumption))
    | (lift_lets; intro _))

theorem compile_throw_statement_nis (c : compiler_ctx_t) (stat : expression_statement_t) :
    NotImplStat (compile_throw_statement c stat) := by
  unfold compile_throw_statement compile_expression
  dsimp only
  repeat' (first
    | with_reducible (first
        | intro _
        | assumption
        | apply nis_ite_failed
        | apply nis_ite_oom
        | apply nis_ite
        | apply nis_ite_fst
        | exact nis_of_ni (push_instr_hres_ni _ _)
        | exact nis_of_ni (push_instr_int_ni _ _ _)
        | exact nis_of_ni (push_instr_uint_ni _ _ _)
        | exact nis_of_ni (push_instr_str_ni _ _ _)
        | exact nis_of_ni (push_instr_bstr_ni _ _ _)
        | exact nis_of_ni (push_instr_double_ni _ _ _)
        | exact nis_of_ni (push_instr_bstr_uint_ni _ _ _ _)
        | exact nis_of_ni (push_instr_uint_str_ni _ _ _ _)
        | exact compile_expression_nis _ _
        | exact nis_of_ni (compile_expression_noret_ni _ _ _)
        | exact nis_of_ni (compile_memberid_expression_ni _ _ _)
        | exact compile_interp_fallback_nis _ _
        | exact nis_ok _
        | exact nis_oom _
        | exact nis_of_ne (by assumption))
    | (lift_lets; intro _))

theorem pop_to_stat_frames_nis (l : List statement_ctx_t) :
    ∀ (k n : Nat) (c : compiler_ctx_t), NotImplStat (pop_to_stat_frames c l k n).1 := by
  induction l with
  | nil => intro k n c; exact nis_ok _
  | cons iter next ih =>
    intro k n c
    rw [pop_to_stat_frames.eq_def]
    dsimp only
    repeat' (first
    | with_reducible (first
        | intro _
        | assumption
        | apply nis_ite_failed
        | apply nis_ite_oom
        | apply ih
        | apply nis_ite
        | apply nis_ite_fst
        | exact nis_of_ni (push_instr_hres_ni _ _)
        | exact nis_of_ni (push_instr_int_ni _ _ _)
        | exact nis_of_ni (push_instr_uint_ni _ _ _)
        | exact nis_of_ni (push_instr_str_ni _ _ _)
        | exact nis_of_ni (push_instr_bstr_ni _ _ _)
        | exact nis_of_ni (push_instr_double_ni _ _ _)
        | exact nis_of_ni (push_instr_bstr_uint_ni _ _ _ _)
        | exact nis_of_ni (push_instr_uint_str_ni _ _ _ _)
        | exact compile_expression_nis _ _
        | exact nis_of_ni (compile_expression_noret_ni _ _ _)
        | exact nis_of_ni (compile_memberid_expression_ni _ _ _)
        | exact compile_interp_fallback_nis _ _
        | exact nis_ok _
        | exact nis_oom _
        | exact nis_of_ne (by assumption))
    | (lift_lets; intro _)
    | split)

theorem pop_to_stat_pops_nis (n : Nat) :
    ∀ (c : compiler_ctx_t), NotImplStat (pop_to_stat_pops c n) := by
  induction n with
  | zero => intro c; exact nis_ok _
  | succ n ih =>
    intro c
    rw [pop_to_stat_pops.eq_def]
    dsimp only
    repeat' (first
    | with_reducible (first
        | intro _
        | assumption
        | apply nis_ite_failed
        | apply nis_ite_oom
        | apply ih
        | apply nis_ite
        | apply nis_ite_fst
        | exact nis_of_ni (push_instr_hres_ni _ _)
        | exact nis_of_ni (push_instr_int_ni _ _ _)
        | exact nis_of_ni (push_instr_uint_ni _ _ _)
        | exact nis_of_ni (push_instr_str_ni _ _ _)
        | exact nis_of_ni (push_instr_bstr_ni _ _ _)
        | exact nis_of_ni (push_instr_double_ni _ _ _)
        | exact nis_of_ni (push_instr_bstr_uint_ni _ _ _ _)
        | exact nis_of_ni (push_instr_uint_str_ni _ _ _ _)
        | exact compile_expression_nis _ _
        | exact nis_of_ni (compile_expression_noret_ni _ _ _)
        | exact nis_of_ni (compile_memberid_expression_ni _ _ _)
        | exact compile_interp_fallback_nis _ _
        | exact nis_ok _
        | exact nis_oom _
        | exact nis_of_ne (by assumption))
    | (lift_lets; intro _))

theorem pop_to_stat_nis (c : compiler_ctx_t) (k : Nat) : NotImplStat (pop_to_stat c k) := by
  unfold pop_to_stat
  dsimp only
  repeat' (first
    | with_reducible (first
        | intro _
        | assumption
        | apply nis_ite_failed
        | apply nis_ite_oom
        | apply pop_to_stat_frames_nis
        | apply pop_to_stat_pops_nis
        | apply nis_ite
        | apply nis_ite_fst
        | exact nis_of_ni (push_instr_hres_ni _ _)
        | exact nis_of_ni (push_instr_int_ni _ _ _)
        | exact nis_of_ni (push_instr_uint_ni _ _ _)
        | exact nis_of_ni (push_instr_str_ni _ _ _)
        | exact nis_of_ni (push_instr_bstr_ni _ _ _)
        | exact nis_of_ni (push_instr_double_ni _ _ _)
        | exact nis_of_ni (push_instr_bstr_uint_ni _ _ _ _)
        | exact nis_of_ni (push_instr_uint_str_ni _ _ _ _)
        | exact compile_expression_nis _ _
        | exact nis_of_ni (compile_expression_noret_ni _ _ _)
        | exact nis_of_ni (compile_memberid_expression_ni _ _ _)
        | exact compile_interp_fallback_nis _ _
        | exact nis_ok _
        | exact nis_oom _
        | exact nis_of_ne (by assumption))
    | (lift_lets; intro _))

theorem compile_continue_statement_nis (c : compiler_ctx_t) (stat : branch_statement_t) :
    NotImplStat (compile_continue_statement c stat) := by
  unfold compile_continue_statement
  split <;> (try dsimp only)
  all_goals repeat' (first
    | with_reducible (first
        | intro _
        | assumption
        | apply nis_ite_failed
        | apply nis_ite_oom
        | apply pop_to_stat_nis
        | apply nis_ite
        | apply nis_ite_fst
        | exact nis_of_ni (push_instr_hres_ni _ _)
        | exact nis_of_ni (push_instr_int_ni _ _ _)
        | exact nis_of_ni (push_instr_uint_ni _ _ _)
        | exact nis_of_ni (push_instr_str_ni _ _ _)
        | exact nis_of_ni (push_instr_bstr_ni _ _ _)
        | exact nis_of_ni (push_instr_double_ni _ _ _)
        | exact nis_of_ni (push_instr_bstr_uint_ni _ _ _ _)
        | exact nis_of_ni (push_instr_uint_str_ni _ _ _ _)
        | exact compile_expression_nis _ _
        | exact nis_of_ni (compile_expression_noret_ni _ _ _)
        | exact nis_of_ni (compile_memberid_expression_ni _ _ _)
        | exact compile_interp_fallback_nis _ _
        | exact nis_ok _
        | exact nis_oom _
        | exact nis_of_ne (by assumption))
    | (lift_lets; intro _))

theorem compile_break_statement_nis (c : compiler_ctx_t) (stat : branch_statement_t) :
    NotImplStat (compile_break_statement c stat) := by
  unfold compile_break_statement
  split <;> (try dsimp only)
  all_goals repeat' (first
    | with_reducible (first
        | intro _
        | assumption
        | apply nis_ite_failed
        | apply nis_ite_oom
        | apply pop_to_stat_nis
        | apply nis_ite
        | apply nis_ite_fst
        | exact nis_of_ni (push_instr_hres_ni _ _)
        | exact nis_of_ni (push_instr_int_ni _ _ _)
        | exact nis_of_ni (push_instr_uint_ni _ _ _)
        | exact nis_of_ni (push_instr_str_ni _ _ _)
        | exact nis_of_ni (push_instr_bstr_ni _ _ _)
        | exact nis_of_ni (push_instr_double_ni _ _ _)
        | exact nis_of_ni (push_instr_bstr_uint_ni _ _ _ _)
        | exact nis_of_ni (push_instr_uint_str_ni _ _ _ _)
        | exact compile_expression_nis _ _
        | exact nis_of_ni (compile_expression_noret_ni _ _ _)
        | exact nis_of_ni (compile_memberid_expression_ni _ _ _)
        | exact compile_interp_fallback_nis _ _
        | exact nis_ok _
        | exact nis_oom _
        | exact nis_of_ne (by assumption))
    | (lift_lets; intro _))

set_option maxRecDepth 8000 in
theorem compile_block_statement_nis_aux (c : compiler_ctx_t) {addr : Nat} {stat : statement_t} {next : statement_list}
    (ih1 : (∀ (sc : Option statement_ctx_t) (c : compiler_ctx_t), NotImplStat (compile_statement c sc stat)))
    (ihn : (∀ (c : compiler_ctx_t), NotImplStat (compile_block_statement c next))) :
    NotImplStat (compile_block_statement c (.node addr stat next)) := by
  rw [compile_block_statement_unfold]
  skip
  all_goals lift_lets
  all_goals intros
  all_goals repeat' (first
    | with_reducible (first
        | intro _
        | assumption
        | apply nis_ite_failed
        | apply nis_ite_oom
        | apply ih1
        | apply ih2
        | apply ih3
        | apply ihn
        | apply nis_ite
        | apply nis_ite_fst
        | exact nis_of_ni (push_instr_hres_ni _ _)
        | exact nis_of_ni (push_instr_int_ni _ _ _)
        | exact nis_of_ni (push_instr_uint_ni _ _ _)
        | exact nis_of_ni (push_instr_str_ni _ _ _)
        | exact nis_of_ni (push_instr_bstr_ni _ _ _)
        | exact nis_of_ni (push_instr_double_ni _ _ _)
        | exact nis_of_ni (push_instr_bstr_uint_ni _ _ _ _)
        | exact nis_of_ni (push_instr_uint_str_ni _ _ _ _)
        | exact compile_expression_nis _ _
        | exact nis_of_ni (compile_expression_noret_ni _ _ _)
        | exact nis_of_ni (compile_memberid_expression_ni _ _ _)
        | exact compile_interp_fallback_nis _ _
        | exact compile_var_statement_nis _ _
        | exact compile_expression_statement_nis _ _
        | exact compile_throw_statement_nis _ _
        | exact compile_continue_statement_nis _ _
        | exact compile_break_statement_nis _ _
        | exact compile_variable_list_nis _ _
        | exact nis_ok _
        | exact nis_oom _
        | exact nis_of_ne (by assumption))
    | (lift_lets; intro _))

set_option maxRecDepth 8000 in
theorem compile_if_else_nis_aux (c : compiler_ctx_t) {expr : expression_t} {if_stat stat : statement_t} {addr : Nat} {nx : statement_list}
    (ih1 : (∀ (sc : Option statement_ctx_t) (c : compiler_ctx_t), NotImplStat (compile_statement c sc if_stat)))
    (ih2 : (∀ (sc : Option statement_ctx_t) (c : compiler_ctx_t), NotImplStat (compile_statement c sc stat))) :
    NotImplStat (compile_if_statement c (.mk expr if_stat (.node addr stat nx))) := by
  rw [compile_if_statement_unfold]
  skip
  all_goals lift_lets
  all_goals intros
  all_goals repeat' (first
    | with_reducible (first
        | intro _
        | assumption
        | apply nis_ite_failed
        | apply nis_ite_oom
        | apply ih1
        | apply ih2
        | apply ih3
        | apply ihn
        | apply nis_ite
        | apply nis_ite_fst
        | exact nis_of_ni (push_instr_hres_ni _ _)
        | exact nis_of_ni (push_instr_int_ni _ _ _)
        | exact nis_of_ni (push_instr_uint_ni _ _ _)
        | exact nis_of_ni (push_instr_str_ni _ _ _)
        | exact nis_of_ni (push_instr_bstr_ni _ _ _)
        | exact nis_of_ni (push_instr_double_ni _ _ _)
        | exact nis_of_ni (push_instr_bstr_uint_ni _ _ _ _)
        | exact nis_of_ni (push_instr_uint_str_ni _ _ _ _)
        | exact compile_expression_nis _ _
        | exact nis_of_ni (compile_expression_noret_ni _ _ _)
        | exact nis_of_ni (compile_memberid_expression_ni _ _ _)
        | exact compile_interp_fallback_nis _ _
        | exact compile_var_statement_nis _ _
        | exact compile_expression_statement_nis _ _
        | exact compile_throw_statement_nis _ _
        | exact compile_continue_statement_nis _ _
        | exact compile_break_statement_nis _ _
        | exact compile_variable_list_nis _ _
        | exact nis_ok _
        | exact nis_oom _
        | exact nis_of_ne (by assumption))
    | (lift_lets; intro _))

set_option maxRecDepth 8000 in
theorem compile_if_nis_aux (c : compiler_ctx_t) {expr : expression_t} {if_stat : statement_t}
    (ih1 : (∀ (sc : Option statement_ctx_t) (c : compiler_ctx_t), NotImplStat (compile_statement c sc if_stat))) :
    NotImplStat (compile_if_statement c (.mk expr if_stat .NULL)) := by
  rw [compile_if_statement_unfold]
  skip
  all_goals lift_lets
  all_goals intros
  all_goals repeat' (first
    | with_reducible (first
        | intro _
        | assumption
        | apply nis_ite_failed
        | apply nis_ite_oom
        | apply ih1
        | apply ih2
        | apply ih3
        | apply ihn
        | apply nis_ite
        | apply nis_ite_fst
        | exact nis_of_ni (push_instr_hres_ni _ _)
        | exact nis_of_ni (push_instr_int_ni _ _ _)
        | exact nis_of_ni (push_instr_uint_ni _ _ _)
        | exact nis_of_ni (push_instr_str_ni _ _ _)
        | exact nis_of_ni (push_instr_bstr_ni _ _ _)
        | exact nis_of_ni (push_instr_double_ni _ _ _)
        | exact nis_of_ni (push_instr_bstr_uint_ni _ _ _ _)
        | exact nis_of_ni (push_instr_uint_str_ni _ _ _ _)
        | exact compile_expression_nis _ _
        | exact nis_of_ni (compile_expression_noret_ni _ _ _)
        | exact nis_of_ni (compile_memberid_expression_ni _ _ _)
        | exact compile_interp_fallback_nis _ _
        | exact compile_var_statement_nis _ _
        | exact compile_expression_statement_nis _ _
        | exact compile_throw_statement_nis _ _
        | exact compile_continue_statement_nis _ _
        | exact compile_break_statement_nis _ _
        | exact compile_variable_list_nis _ _
        | exact nis_ok _
        | exact nis_oom _
        | exact nis_of_ne (by assumption))
    | (lift_lets; intro _))

set_option maxRecDepth 8000 in
theorem compile_while_statement_nis_aux (c : compiler_ctx_t) {do_while : Bool} {expr : expression_t} {statement : statement_t}
    (ih1 : (∀ (sc : Option statement_ctx_t) (c : compiler_ctx_t), NotImplStat (compile_statement c sc statement))) :
    NotImplStat (compile_while_statement c (.mk do_while expr statement)) := by
  rw [compile_while_statement_unfold]
  cases do_while <;> simp only [Bool.not_true, Bool.not_false, Bool.false_eq_true, if_true, if_false]
  all_goals lift_lets
  all_goals intros
  all_goals repeat' (first
    | with_reducible (first
        | intro _
        | assumption
        | apply nis_ite_failed
        | apply nis_ite_oom
        | apply ih1
        | apply ih2
        | apply ih3
        | apply ihn
        | apply nis_ite
        | apply nis_ite_fst
        | exact nis_of_ni (push_instr_hres_ni _ _)
        | exact nis_of_ni (push_instr_int_ni _ _ _)
        | exact nis_of_ni (push_instr_uint_ni _ _ _)
        | exact nis_of_ni (push_instr_str_ni _ _ _)
        | exact nis_of_ni (push_instr_bstr_ni _ _ _)
        | exact nis_of_ni (push_instr_double_ni _ _ _)
        | exact nis_of_ni (push_instr_bstr_uint_ni _ _ _ _)
        | exact nis_of_ni (push_instr_uint_str_ni _ _ _ _)
        | exact compile_expression_nis _ _
        | exact nis_of_ni (compile_expression_noret_ni _ _ _)
        | exact nis_of_ni (compile_memberid_expression_ni _ _ _)
        | exact compile_interp_fallback_nis _ _
        | exact compile_var_statement_nis _ _
        | exact compile_expression_statement_nis _ _
        | exact compile_throw_statement_nis _ _
        | exact compile_continue_statement_nis _ _
        | exact compile_break_statement_nis _ _
        | exact compile_variable_list_nis _ _
        | exact nis_ok _
        | exact nis_oom _
        | exact nis_of_ne (by assumption))
    | (lift_lets; intro _))

set_option maxRecDepth 8000 in
theorem compile_for_statement_nis_aux (c : compiler_ctx_t) {variable_list : variable_declaration_t} {begin_expr expr end_expr : Option expression_t} {statement : statement_t}
    (ih1 : (∀ (sc : Option statement_ctx_t) (c : compiler_ctx_t), NotImplStat (compile_statement c sc statement))) :
    NotImplStat (compile_for_statement c (.mk variable_list begin_expr expr end_expr statement)) := by
  rw [compile_for_statement_unfold]
  skip
  all_goals lift_lets
  all_goals intros
  all_goals repeat' (first
    | with_reducible (first
        | intro _
        | assumption
        | apply nis_ite_failed
        | apply nis_ite_oom
        | apply ih1
        | apply ih2
        | apply ih3
        | apply ihn
        | apply nis_ite
        | apply nis_ite_fst
        | exact nis_of_ni (push_instr_hres_ni _ _)
        | exact nis_of_ni (push_instr_int_ni _ _ _)
        | exact nis_of_ni (push_instr_uint_ni _ _ _)
        | exact nis_of_ni (push_instr_str_ni _ _ _)
        | exact nis_of_ni (push_instr_bstr_ni _ _ _)
        | exact nis_of_ni (push_instr_double_ni _ _ _)
        | exact nis_of_ni (push_instr_bstr_uint_ni _ _ _ _)
        | exact nis_of_ni (push_instr_uint_str_ni _ _ _ _)
        | exact compile_expression_nis _ _
        | exact nis_of_ni (compile_expression_noret_ni _ _ _)
        | exact nis_of_ni (compile_memberid_expression_ni _ _ _)
        | exact compile_interp_fallback_nis _ _
        | exact compile_var_statement_nis _ _
        | exact compile_expression_statement_nis _ _
        | exact compile_throw_statement_nis _ _
        | exact compile_continue_statement_nis _ _
        | exact compile_break_statement_nis _ _
        | exact compile_variable_list_nis _ _
        | exact nis_ok _
        | exact nis_oom _
        | exact nis_of_ne (by assumption))
    | (lift_lets; intro _)
    | cases variable_list
    | cases begin_expr
    | cases expr
    | cases end_expr)

set_option maxRecDepth 8000 in
theorem compile_forin_statement_nis_aux (c : compiler_ctx_t) {variable_ : variable_declaration_t} {expr in_expr : expression_t} {statement : statement_t}
    (ih1 : (∀ (sc : Option statement_ctx_t) (c : compiler_ctx_t), NotImplStat (compile_statement c sc statement))) :
    NotImplStat (compile_forin_statement c (.mk variable_ expr in_expr statement)) := by
  rw [compile_forin_statement_unfold]
  cases variable_
  all_goals lift_lets
  all_goals intros
  all_goals repeat' (first
    | with_reducible (first
        | intro _
        | assumption
        | apply nis_ite_failed
        | apply nis_ite_oom
        | apply ih1
        | apply ih2
        | apply ih3
        | apply ihn
        | apply nis_ite
        | apply nis_ite_fst
        | exact nis_of_ni (push_instr_hres_ni _ _)
        | exact nis_of_ni (push_instr_int_ni _ _ _)
        | exact nis_of_ni (push_instr_uint_ni _ _ _)
        | exact nis_of_ni (push_instr_str_ni _ _ _)
        | exact nis_of_ni (push_instr_bstr_ni _ _ _)
        | exact nis_of_ni (push_instr_double_ni _ _ _)
        | exact nis_of_ni (push_instr_bstr_uint_ni _ _ _ _)
        | exact nis_of_ni (push_instr_uint_str_ni _ _ _ _)
        | exact compile_expression_nis _ _
        | exact nis_of_ni (compile_expression_noret_ni _ _ _)
        | exact nis_of_ni (compile_memberid_expression_ni _ _ _)
        | exact compile_interp_fallback_nis _ _
        | exact compile_var_statement_nis _ _
        | exact compile_expression_statement_nis _ _
        | exact compile_throw_statement_nis _ _
        | exact compile_continue_statement_nis _ _
        | exact compile_break_statement_nis _ _
        | exact compile_variable_list_nis _ _
        | exact nis_ok _
        | exact nis_oom _
        | exact nis_of_ne (by assumption))
    | (lift_lets; intro _))

set_option maxRecDepth 8000 in
theorem compile_with_statement_nis_aux (c : compiler_ctx_t) {expr : expression_t} {statement : statement_t}
    (ih1 : (∀ (sc : Option statement_ctx_t) (c : compiler_ctx_t), NotImplStat (compile_statement c sc statement))) :
    NotImplStat (compile_with_statement c (.mk expr statement)) := by
  rw [compile_with_statement_unfold]
  skip
  all_goals lift_lets
  all_goals intros
  all_goals repeat' (first
    | with_reducible (first
        | intro _
        | assumption
        | apply nis_ite_failed
        | apply nis_ite_oom
        | apply ih1
        | apply ih2
        | apply ih3
        | apply ihn
        | apply nis_ite
        | apply nis_ite_fst
        | exact nis_of_ni (push_instr_hres_ni _ _)
        | exact nis_of_ni (push_instr_int_ni _ _ _)
        | exact nis_of_ni (push_instr_uint_ni _ _ _)
        | exact nis_of_ni (push_instr_str_ni _ _ _)
        | exact nis_of_ni (push_instr_bstr_ni _ _ _)
        | exact nis_of_ni (push_instr_double_ni _ _ _)
        | exact nis_of_ni (push_instr_bstr_uint_ni _ _ _ _)
        | exact nis_of_ni (push_instr_uint_str_ni _ _ _ _)
        | exact compile_expression_nis _ _
        | exact nis_of_ni (compile_expression_noret_ni _ _ _)
        | exact nis_of_ni (compile_memberid_expression_ni _ _ _)
        | exact compile_interp_fallback_nis _ _
        | exact compile_var_statement_nis _ _
        | exact compile_expression_statement_nis _ _
        | exact compile_throw_statement_nis _ _
        | exact compile_continue_statement_nis _ _
        | exact compile_break_statement_nis _ _
        | exact compile_variable_list_nis _ _
        | exact nis_ok _
        | exact nis_oom _
        | exact nis_of_ne (by assumption))
    | (lift_lets; intro _))

set_option maxRecDepth 8000 in
theorem compile_try_catch_finally_nis_aux (c : compiler_ctx_t) {try_statement cstat fstat : statement_t} {identifier : String} {addr : Nat} {fnext : statement_list}
    (ih1 : (∀ (sc : Option statement_ctx_t) (c : compiler_ctx_t), NotImplStat (compile_statement c sc try_statement)))
    (ih2 : (∀ (sc : Option statement_ctx_t) (c : compiler_ctx_t), NotImplStat (compile_statement c sc cstat)))
    (ih3 : (∀ (sc : Option statement_ctx_t) (c : compiler_ctx_t), NotImplStat (compile_statement c sc fstat))) :
    NotImplStat (compile_try_statement c (.mk try_statement (.mk identifier cstat) (.node addr fstat fnext))) := by
  rw [compile_try_statement_unfold]
  skip
  all_goals lift_lets
  all_goals intros
  all_goals repeat' (first
    | with_reducible (first
        | intro _
        | assumption
        | apply nis_ite_failed
        | apply nis_ite_oom
        | apply ih1
        | apply ih2
        | apply ih3
        | apply ihn
        | apply nis_ite
        | apply nis_ite_fst
        | exact nis_of_ni (push_instr_hres_ni _ _)
        | exact nis_of_ni (push_instr_int_ni _ _ _)
        | exact nis_of_ni (push_instr_uint_ni _ _ _)
        | exact nis_of_ni (push_instr_str_ni _ _ _)
        | exact nis_of_ni (push_instr_bstr_ni _ _ _)
        | exact nis_of_ni (push_instr_double_ni _ _ _)
        | exact nis_of_ni (push_instr_bstr_uint_ni _ _ _ _)
        | exact nis_of_ni (push_instr_uint_str_ni _ _ _ _)
        | exact compile_expression_nis _ _
        | exact nis_of_ni (compile_expression_noret_ni _ _ _)
        | exact nis_of_ni (compile_memberid_expression_ni _ _ _)
        | exact compile_interp_fallback_nis _ _
        | exact compile_var_statement_nis _ _
        | exact compile_expression_statement_nis _ _
        | exact compile_throw_statement_nis _ _
        | exact compile_continue_statement_nis _ _
        | exact compile_break_statement_nis _ _
        | exact compile_variable_list_nis _ _
        | exact nis_ok _
        | exact nis_oom _
        | exact nis_of_ne (by assumption))
    | (lift_lets; intro _))

set_option maxRecDepth 8000 in
theorem compile_try_catch_nofinally_nis_aux (c : compiler_ctx_t) {try_statement cstat : statement_t} {identifier : String}
    (ih1 : (∀ (sc : Option statement_ctx_t) (c : compiler_ctx_t), NotImplStat (compile_statement c sc try_statement)))
    (ih2 : (∀ (sc : Option statement_ctx_t) (c : compiler_ctx_t), NotImplStat (compile_statement c sc cstat))) :
    NotImplStat (compile_try_statement c (.mk try_statement (.mk identifier cstat) .NULL)) := by
  rw [compile_try_statement_unfold]
  skip
  all_goals lift_lets
  all_goals intros
  all_goals repeat' (first
    | with_reducible (first
        | intro _
        | assumption
        | apply nis_ite_failed
        | apply nis_ite_oom
        | apply ih1
        | apply ih2
        | apply ih3
        | apply ihn
        | apply nis_ite
        | apply nis_ite_fst
        | exact nis_of_ni (push_instr_hres_ni _ _)
        | exact nis_of_ni (push_instr_int_ni _ _ _)
        | exact nis_of_ni (push_instr_uint_ni _ _ _)
        | exact nis_of_ni (push_instr_str_ni _ _ _)
        | exact nis_of_ni (push_instr_bstr_ni _ _ _)
        | exact nis_of_ni (push_instr_double_ni _ _ _)
        | exact nis_of_ni (push_instr_bstr_uint_ni _ _ _ _)
        | exact nis_of_ni (push_instr_uint_str_ni _ _ _ _)
        | exact compile_expression_nis _ _
        | exact nis_of_ni (compile_expression_noret_ni _ _ _)
        | exact nis_of_ni (compile_memberid_expression_ni _ _ _)
        | exact compile_interp_fallback_nis _ _
        | exact compile_var_statement_nis _ _
        | exact compile_expression_statement_nis _ _
        | exact compile_throw_statement_nis _ _
        | exact compile_continue_statement_nis _ _
        | exact compile_break_statement_nis _ _
        | exact compile_variable_list_nis _ _
        | exact nis_ok _
        | exact nis_oom _
        | exact nis_of_ne (by assumption))
    | (lift_lets; intro _))

set_option maxRecDepth 8000 in
theorem compile_try_nocatch_finally_nis_aux (c : compiler_ctx_t) {try_statement fstat : statement_t} {addr : Nat} {fnext : statement_list}
    (ih1 : (∀ (sc : Option statement_ctx_t) (c : compiler_ctx_t), NotImplStat (compile_statement c sc try_statement)))
    (ih3 : (∀ (sc : Option statement_ctx_t) (c : compiler_ctx_t), NotImplStat (compile_statement c sc fstat))) :
    NotImplStat (compile_try_statement c (.mk try_statement .NULL (.node addr fstat fnext))) := by
  rw [compile_try_statement_unfold]
  skip
  all_goals lift_lets
  all_goals intros
  all_goals repeat' (first
    | with_reducible (first
        | intro _
        | assumption
        | apply nis_ite_failed
        | apply nis_ite_oom
        | apply ih1
        | apply ih2
        | apply ih3
        | apply ihn
        | apply nis_ite
        | apply nis_ite_fst
        | exact nis_of_ni (push_instr_hres_ni _ _)
        | exact nis_of_ni (push_instr_int_ni _ _ _)
        | exact nis_of_ni (push_instr_uint_ni _ _ _)
        | exact nis_of_ni (push_instr_str_ni _ _ _)
        | exact nis_of_ni (push_instr_bstr_ni _ _ _)
        | exact nis_of_ni (push_instr_double_ni _ _ _)
        | exact nis_of_ni (push_instr_bstr_uint_ni _ _ _ _)
        | exact nis_of_ni (push_instr_uint_str_ni _ _ _ _)
        | exact compile_expression_nis _ _
        | exact nis_of_ni (compile_expression_noret_ni _ _ _)
        | exact nis_of_ni (compile_memberid_expression_ni _ _ _)
        | exact compile_interp_fallback_nis _ _
        | exact compile_var_statement_nis _ _
        | exact compile_expression_statement_nis _ _
        | exact compile_throw_statement_nis _ _
        | exact compile_continue_statement_nis _ _
        | exact compile_break_statement_nis _ _
        | exact compile_variable_list_nis _ _
        | exact nis_ok _
        | exact nis_oom _
        | exact nis_of_ne (by assumption))
    | (lift_lets; intro _))

set_option maxRecDepth 8000 in
theorem compile_try_nocatch_nofinally_nis_aux (c : compiler_ctx_t) {try_statement : statement_t}
    (ih1 : (∀ (sc : Option statement_ctx_t) (c : compiler_ctx_t), NotImplStat (compile_statement c sc try_statement))) :
    NotImplStat (compile_try_statement c (.mk try_statement .NULL .NULL)) := by
  rw [compile_try_statement_unfold]
  skip
  all_goals lift_lets
  all_goals intros
  all_goals repeat' (first
    | with_reducible (first
        | intro _
        | assumption
        | apply nis_ite_failed
        | apply nis_ite_oom
        | apply ih1
        | apply ih2
        | apply ih3
        | apply ihn
        | apply nis_ite
        | apply nis_ite_fst
        | exact nis_of_ni (push_instr_hres_ni _ _)
        | exact nis_of_ni (push_instr_int_ni _ _ _)
        | exact nis_of_ni (push_instr_uint_ni _ _ _)
        | exact nis_of_ni (push_instr_str_ni _ _ _)
        | exact nis_of_ni (push_instr_bstr_ni _ _ _)
        | exact nis_of_ni (push_instr_double_ni _ _ _)
        | exact nis_of_ni (push_instr_bstr_uint_ni _ _ _ _)
        | exact nis_of_ni (push_instr_uint_str_ni _ _ _ _)
        | exact compile_expression_nis _ _
        | exact nis_of_ni (compile_expression_noret_ni _ _ _)
        | exact nis_of_ni (compile_memberid_expression_ni _ _ _)
        | exact compile_interp_fallback_nis _ _
        | exact compile_var_statement_nis _ _
        | exact compile_expression_statement_nis _ _
        | exact compile_throw_statement_nis _ _
        | exact compile_continue_statement_nis _ _
        | exact compile_break_statement_nis _ _
        | exact compile_variable_list_nis _ _
        | exact nis_ok _
        | exact nis_oom _
        | exact nis_of_ne (by assumption))
    | (lift_lets; intro _))


theorem compile_case_exprs_nis :
    ∀ (cl : case_clausule_t) (v : case_loop_t), NotImplStat (v.hres, v.ctx) →
      NotImplStat ((compile_case_exprs v cl).hres, (compile_case_exprs v cl).ctx)
  | .NULL, v, h => by
    rw [compile_case_exprs]
    exact h
  | .mk none stat next, v, h => by
    rw [compile_case_exprs]
    exact compile_case_exprs_nis next { v with have_default := true } h
  | .mk (some e) stat next, v, h => by
    rw [compile_case_exprs]
    dsimp only
    split
    · exact ⟨(compile_expression_nis v.ctx e).out⟩
    · split
      · exact nis_oom _
      · rename_i hf _
        exact compile_case_exprs_nis next _ (nis_of_ne (not_failed_ne_notimpl hf))

theorem succeeded_ne_notimpl {hr : HRESULT} (h : SUCCEEDED hr = true) : ¬ hr = E_NOTIMPL := by
  intro e
  rw [e] at h
  exact absurd h (by decide)

theorem switch_jmp_nis (v : case_loop_t) (h : NotImplStat (v.hres, v.ctx)) :
    NotImplStat
      (if SUCCEEDED v.hres = true then
        if (push_instr v.ctx OP_pop).1 ≠ UINT_MAX then
          ((if (push_instr (push_instr v.ctx OP_pop).2 OP_jmp).1 = UINT_MAX then E_OUTOFMEMORY
            else v.hres, (push_instr (push_instr v.ctx OP_pop).2 OP_jmp).2),
            (push_instr (push_instr v.ctx OP_pop).2 OP_jmp).1)
        else ((E_OUTOFMEMORY, (push_instr v.ctx OP_pop).2), 0)
      else ((v.hres, v.ctx), 0) : (HRESULT × compiler_ctx_t) × Nat).1 := by
  split
  · rename_i hs
    split
    · dsimp only
      split
      · exact nis_oom _
      · exact nis_of_ne (succeeded_ne_notimpl hs)
    · exact nis_oom _
  · exact h

theorem compile_case_statements_nis_aux (c : compiler_ctx_t) (off : Nat)
    {sc : statement_ctx_t} {stat stat_iter : statement_t} {next : case_clausule_t}
    {hres : HRESULT} {addr : Nat} {stat_next : statement_list}
    (ihn : ∀ (c : compiler_ctx_t) (hres : HRESULT), ¬ hres = E_NOTIMPL →
      NotImplStat ((compile_case_statements c sc off stat next hres stat_next).1,
        (compile_case_statements c sc off stat next hres stat_next).2.1))
    (h : ¬ hres = E_NOTIMPL) :
    NotImplStat
      ((compile_case_statements c sc off stat next hres (.node addr stat_iter stat_next)).1,
       (compile_case_statements c sc off stat next hres (.node addr stat_iter stat_next)).2.1) := by
  rw [compile_case_statements_unfold]
  lift_lets
  intro prev_no_fallback hres1 ctx1 r pop
  split
  · exact nis_of_ne h
  · split
    · exact ⟨(compile_interp_fallback_nis _ _).out⟩
    · rename_i hne
      split
      · exact nis_of_ne hne
      · rename_i hf
        split
        · exact nis_oom _
        · exact ihn _ _ hne

theorem compile_case_bodies_nis_aux (c : compiler_ctx_t) (off : Nat)
    {sc : statement_ctx_t}
    {stat : statement_t} {case_jmps : Nat → Nat} {default_jmp i : Nat} {hres : HRESULT}
    {expr : Option expression_t} {iter_stat : statement_list} {next : case_clausule_t}
    (ihs : ∀ (c : compiler_ctx_t) (hres : HRESULT), ¬ hres = E_NOTIMPL →
      NotImplStat ((compile_case_statements c sc off stat next hres iter_stat).1,
        (compile_case_statements c sc off stat next hres iter_stat).2.1))
    (ihn : ∀ (c : compiler_ctx_t) (i : Nat) (hres : HRESULT), ¬ hres = E_NOTIMPL →
      NotImplStat ((compile_case_bodies c sc off stat case_jmps default_jmp i hres next).hres,
        (compile_case_bodies c sc off stat case_jmps default_jmp i hres next).ctx))
    (h : ¬ hres = E_NOTIMPL) :
    NotImplStat
      ((compile_case_bodies c sc off stat case_jmps default_jmp i hres
        (.mk expr iter_stat next)).hres,
       (compile_case_bodies c sc off stat case_jmps default_jmp i hres
        (.mk expr iter_stat next)).ctx) := by
  rw [compile_case_bodies_unfold]
  lift_lets
  intro ctx1 i1 body
  split
  · exact ihn _ _ _ h
  · split
    · exact ihs _ _ h
    · split
      · exact ihs _ _ h
      · rename_i hf
        exact ihn _ _ _ (not_failed_ne_notimpl hf)

theorem compile_case_statements_nis :
    ∀ (l : statement_list) (off : Nat) (sc : statement_ctx_t)
      (stat : statement_t) (next : case_clausule_t) (c : compiler_ctx_t) (hres : HRESULT),
      ¬ hres = E_NOTIMPL →
      NotImplStat ((compile_case_statements c sc off stat next hres l).1,
        (compile_case_statements c sc off stat next hres l).2.1)
  | .NULL, off, sc, stat, next, c, hres, h => by
    rw [compile_case_statements]
    exact nis_of_ne h
  | .node addr stat_iter stat_next, off, sc, stat, next, c, hres, h =>
    compile_case_statements_nis_aux c off
      (fun c hres h => compile_case_statements_nis stat_next off sc stat next c hres h) h

theorem compile_case_bodies_nis :
    ∀ (cl : case_clausule_t) (c : compiler_ctx_t) (off : Nat) (sc : statement_ctx_t)
      (stat : statement_t) (case_jmps : Nat → Nat) (default_jmp i : Nat) (hres : HRESULT),
      ¬ hres = E_NOTIMPL →
      NotImplStat ((compile_case_bodies c sc off stat case_jmps default_jmp i hres cl).hres,
        (compile_case_bodies c sc off stat case_jmps default_jmp i hres cl).ctx)
  | .NULL, c, off, sc, stat, case_jmps, default_jmp, i, hres, h => by
    rw [compile_case_bodies]
    exact nis_of_ne h
  | .mk expr iter_stat next, c, off, sc, stat, case_jmps, default_jmp, i, hres, h =>
    compile_case_bodies_nis_aux c off
      (fun c hres h => compile_case_statements_nis iter_stat off sc stat next c hres h)
      (fun c i hres h =>
        compile_case_bodies_nis next c off sc stat case_jmps default_jmp i hres h) h

theorem compile_switch_statement_nis_aux (c : compiler_ctx_t) {expr : expression_t}
    {case_list : case_clausule_t}
    (ihb : ∀ (c : compiler_ctx_t) (off : Nat) (sc : statement_ctx_t) (stat : statement_t)
      (case_jmps : Nat → Nat) (default_jmp i : Nat) (hres : HRESULT), ¬ hres = E_NOTIMPL →
      NotImplStat
        ((compile_case_bodies c sc off stat case_jmps default_jmp i hres case_list).hres,
         (compile_case_bodies c sc off stat case_jmps default_jmp i hres case_list).ctx)) :
    NotImplStat (compile_switch_statement c (.mk expr case_list)) := by
  rw [compile_switch_statement_unfold]
  lift_lets
  intro off_backup hres break_label stat_ctx case_jmps cases instr djmp jmp default_jmp bodies ctx1
  split
  · exact compile_expression_nis _ _
  rename_i hf
  split
  · exact nis_oom _
  split
  · exact nis_oom _
  have hj : NotImplStat jmp.1 :=
    switch_jmp_nis cases (compile_case_exprs_nis case_list
      ⟨hres.1, case_jmps.2, fun _ => 0, 0, false⟩ (nis_of_ne (not_failed_ne_notimpl hf)))
  split
  · exact hj
  rename_i hjok
  have hb : NotImplStat (bodies.hres, bodies.ctx) := ihb _ _ _ _ _ _ _ _ (not_failed_ne_notimpl hjok)
  split
  · exact hb
  split
  · exact hb
  · exact nis_ok _

mutual
theorem compile_statement_nis :
    ∀ (s : statement_t) (sc : Option statement_ctx_t) (c : compiler_ctx_t),
      NotImplStat (compile_statement c sc s)
  | .STAT_BLOCK (.mk stat_list), sc, c => by
    rw [compile_statement]
    exact nis_frame c sc (compile_block_statement_nis stat_list _)
  | .STAT_BREAK stat, sc, c => by
    rw [compile_statement]
    exact nis_frame c sc (compile_break_statement_nis _ stat)
  | .STAT_CONTINUE stat, sc, c => by
    rw [compile_statement]
    exact nis_frame c sc (compile_continue_statement_nis _ stat)
  | .STAT_EMPTY, sc, c => by
    rw [compile_statement]
    exact nis_frame c sc (nis_of_ni (push_instr_hres_ni _ OP_undefined))
  | .STAT_EXPR stat, sc, c => by
    rw [compile_statement]
    exact nis_frame c sc (compile_expression_statement_nis _ stat)
  | .STAT_FOR stat, sc, c => by
    rw [compile_statement]
    exact nis_frame c sc (compile_for_statement_nis stat _)
  | .STAT_FORIN stat, sc, c => by
    rw [compile_statement]
    exact nis_frame c sc (compile_forin_statement_nis stat _)
  | .STAT_IF stat, sc, c => by
    rw [compile_statement]
    exact nis_frame c sc (compile_if_statement_nis stat _)
  | .STAT_LABEL stat, sc, c => by
    rw [compile_statement]
    exact nis_frame c sc (nis_of_ni (push_instr_hres_ni _ OP_label))
  | .STAT_SWITCH (.mk expr case_list), sc, c => by
    rw [compile_statement]
    exact nis_frame c sc (compile_switch_statement_nis_aux _
      (fun c off sc stat case_jmps default_jmp i hres h =>
        compile_case_bodies_nis case_list c off sc stat case_jmps default_jmp i hres h))
  | .STAT_THROW stat, sc, c => by
    rw [compile_statement]
    exact nis_frame c sc (compile_throw_statement_nis _ stat)
  | .STAT_TRY stat, sc, c => by
    rw [compile_statement]
    exact nis_frame c sc (compile_try_statement_nis stat _)
  | .STAT_VAR stat, sc, c => by
    rw [compile_statement]
    exact nis_frame c sc (compile_var_statement_nis _ stat)
  | .STAT_WHILE stat, sc, c => by
    rw [compile_statement]
    exact nis_frame c sc (compile_while_statement_nis stat _)
  | .STAT_WITH stat, sc, c => by
    rw [compile_statement]
    exact nis_frame c sc (compile_with_statement_nis stat _)
  | .STAT_RETURN expr, sc, c => by
    rw [compile_statement]
    exact nis_frame c sc (compile_interp_fallback_nis _ _)

theorem compile_block_statement_nis :
    ∀ (s : statement_list) (c : compiler_ctx_t), NotImplStat (compile_block_statement c s)
  | .NULL, c => by
    rw [compile_block_statement]
    exact nis_of_ni (push_instr_hres_ni _ _)
  | .node addr stat next, c => compile_block_statement_nis_aux c (compile_statement_nis stat)
      (compile_block_statement_nis next)

theorem compile_if_statement_nis :
    ∀ (s : if_statement_t) (c : compiler_ctx_t), NotImplStat (compile_if_statement c s)
  | .mk expr if_stat (.node addr stat nx), c => compile_if_else_nis_aux c (compile_statement_nis if_stat) (compile_statement_nis stat)
  | .mk expr if_stat .NULL, c => compile_if_nis_aux c (compile_statement_nis if_stat)

theorem compile_while_statement_nis :
    ∀ (s : while_statement_t) (c : compiler_ctx_t), NotImplStat (compile_while_statement c s)
  | .mk do_while expr statement, c => compile_while_statement_nis_aux c (compile_statement_nis statement)

theorem compile_for_statement_nis :
    ∀ (s : for_statement_t) (c : compiler_ctx_t), NotImplStat (compile_for_statement c s)
  | .mk variable_list begin_expr expr end_expr statement, c => compile_for_statement_nis_aux c (compile_statement_nis statement)

theorem compile_forin_statement_nis :
    ∀ (s : forin_statement_t) (c : compiler_ctx_t), NotImplStat (compile_forin_statement c s)
  | .mk variable_ expr in_expr statement, c => compile_forin_statement_nis_aux c (compile_statement_nis statement)

theorem compile_with_statement_nis :
    ∀ (s : with_statement_t) (c : compiler_ctx_t), NotImplStat (compile_with_statement c s)
  | .mk expr statement, c => compile_with_statement_nis_aux c (compile_statement_nis statement)

theorem compile_try_statement_nis :
    ∀ (s : try_statement_t) (c : compiler_ctx_t), NotImplStat (compile_try_statement c s)
  | .mk t (.mk ident cs) (.node addr fs fnext), c => compile_try_catch_finally_nis_aux c (compile_statement_nis t) (compile_statement_nis cs) (compile_statement_nis fs)
  | .mk t (.mk ident cs) .NULL, c => compile_try_catch_nofinally_nis_aux c (compile_statement_nis t) (compile_statement_nis cs)
  | .mk t .NULL (.node addr fs fnext), c => compile_try_nocatch_finally_nis_aux c (compile_statement_nis t) (compile_statement_nis fs)
  | .mk t .NULL .NULL, c => compile_try_nocatch_nofinally_nis_aux c (compile_statement_nis t)
end

/-! ## The result code `E_NOTIMPL` at the entry points -/

/-- The compiler that `init_compiler` hands out: a failure is `E_OUTOFMEMORY`, and after a
success the fallback is permitted when it was permitted in a compiler that existed before. -/
theorem init_compiler_fallback (parser : parser_ctx_t)
    (hp : parser.compiler = true → parser.ctx.no_fallback = false) :
    ((init_compiler parser).1 = S_OK ∨ (init_compiler parser).1 = E_OUTOFMEMORY) ∧
    (¬ FAILED (init_compiler parser).1 = true → (init_compiler parser).2.ctx.no_fallback = false) := by
  have hh : ∀ c : compiler_ctx_t, (heap_alloc c).2.no_fallback = c.no_fallback :=
    fun c => (heap_alloc_proj c).2.2.2.2.2.2.2.2.2.2.1
  obtain ⟨code, compiler, ctx⟩ := parser
  dsimp only at hp
  unfold init_compiler
  dsimp only
  cases code <;> cases compiler
  all_goals repeat' split
  all_goals first
    | exact ⟨Or.inr rfl, fun h => absurd failed_oom h⟩
    | exact ⟨Or.inl rfl, fun _ => rfl⟩
    | exact ⟨Or.inl rfl, fun _ => hp rfl⟩
    | exact ⟨Or.inl rfl, fun _ => (hh _).trans (hp rfl)⟩
    | (exfalso; simp_all)

/-- C23: where `E_NOTIMPL` comes from. The buffer size `code_size` is a 32-bit unsigned that
is zero or `64 * 2 ^ k`, so at most `2 ^ 31`, and the write cursor never passes it: every
stream that the compiler builds ends at or below the offset `0x80004001`. For such a stream
`compile_statement` returns `E_NOTIMPL` only if the fallback was forbidden when it was called,
`compile_expression` never returns `E_NOTIMPL`, and `compile_subscript_stat`, entered with the
fallback permitted, never returns `E_NOTIMPL`. (The bound matters for the literal `null` alone,
which is lowered by returning the offset of its instruction as the result code.) -/
theorem not_implemented_sources (ctx : compiler_ctx_t) (stat_ctx : Option statement_ctx_t)
    (stat : statement_t) (expr : expression_t) (parser : parser_ctx_t) (addr : Nat)
    (next : statement_list) (compile_block : Bool) (ret_off : Nat)
    (hp : parser.compiler = true → parser.ctx.no_fallback = false) :
    ((compile_statement ctx stat_ctx stat).2.code_off ≤ 0x80004001 →
      (compile_statement ctx stat_ctx stat).1 = E_NOTIMPL → ctx.no_fallback = true) ∧
    ((compile_expression ctx expr).2.code_off ≤ 0x80004001 →
      (compile_expression ctx expr).1 ≠ E_NOTIMPL) ∧
    ((compile_subscript_stat parser addr stat next compile_block ret_off).2.1.ctx.code_off
        ≤ 0x80004001 →
      (compile_subscript_stat parser addr stat next compile_block ret_off).1 ≠ E_NOTIMPL) := by
  refine ⟨fun hb h => ?_, fun hb h => ?_, ?_⟩
  · have hr := (compile_statement_rel stat stat_ctx (Rel.refl ctx)).no_fallback_eq
    rw [← hr]
    rcases (compile_statement_nis stat stat_ctx ctx).out h with h1 | h1
    · exact h1
    · exact absurd hb (Nat.not_le.mpr h1)
  · exact absurd hb (Nat.not_le.mpr ((compile_expression_noret_ni expr none ctx).out h))
  · obtain ⟨i1, i2⟩ := init_compiler_fallback parser hp
    unfold compile_subscript_stat
    dsimp only
    split
    · intro _ h
      rcases i1 with e | e <;> rw [e] at h <;> exact absurd h (by decide)
    · rename_i hi
      have hn := i2 hi
      have key : ∀ r : HRESULT × compiler_ctx_t, NotImplStat r →
          r.2.no_fallback = (init_compiler parser).2.ctx.no_fallback →
          r.2.code_off ≤ 0x80004001 → r.1 ≠ E_NOTIMPL := by
        intro r hr he hb h
        rcases hr.out h with h1 | h1
        · rw [he, hn] at h1
          exact Bool.noConfusion h1
        · exact absurd hb (Nat.not_le.mpr h1)
      split
      · rename_i hb
        split
        · exact key _ (compile_block_statement_nis _ _)
            (compile_block_statement_rel _ (Rel.refl _)).no_fallback_eq
        · exact fun hb h => absurd hb (Nat.not_le.mpr ((push_instr_hres_ni _ _).out h))
      · split
        · exact key _ (compile_statement_nis _ _ _)
            (compile_statement_rel _ _ (Rel.refl _)).no_fallback_eq
        · exact fun hb h => absurd hb (Nat.not_le.mpr ((push_instr_hres_ni _ _).out h))

/-- The statement `return;` with the fallback forbidden is answered with `E_NOTIMPL`; with the
fallback permitted `compile_subscript_stat` lowers `return;` without `E_NOTIMPL`; and
the literal `null` at the offset 0 is lowered with the result 0, not `E_NOTIMPL`. -/
theorem not_implemented_sources_witness :
    (compile_statement ctx_strict none stat_return_sample).2.code_off ≤ 0x80004001 ∧
    (compile_statement ctx_strict none stat_return_sample).1 = E_NOTIMPL ∧
    ctx_strict.no_fallback = true ∧
    (compile_expression ctx_strict expr_null).2.code_off ≤ 0x80004001 ∧
    (compile_expression ctx_strict expr_null).1 = 0 ∧
    (compile_expression ctx_strict expr_null).1 ≠ E_NOTIMPL ∧
    (parser_empty.compiler = true → parser_empty.ctx.no_fallback = false) ∧
    (compile_subscript_stat parser_empty 1 stat_return_sample .NULL false 0).2.1.ctx.code_off
      ≤ 0x80004001 ∧
    (compile_subscript_stat parser_empty 1 stat_return_sample .NULL false 0).1 = S_OK ∧
    (compile_subscript_stat parser_empty 1 stat_return_sample .NULL false 0).1 ≠ E_NOTIMPL :=
  ⟨by decide, by decide,
   (not_implemented_sources ctx_strict none stat_return_sample expr_null parser_empty 1 .NULL
     false 0 (fun h => Bool.noConfusion h)).1 (by decide) (by decide),
   by decide, by decide,
   (not_implemented_sources ctx_strict none stat_return_sample expr_null parser_empty 1 .NULL
     false 0 (fun h => Bool.noConfusion h)).2.1 (by decide),
   fun h => Bool.noConfusion h, by decide, by decide,
   (not_implemented_sources ctx_strict none stat_return_sample expr_null parser_empty 1 .NULL
     false 0 (fun h => Bool.noConfusion h)).2.2 (by decide)⟩

/-! ## Address operands: primitives -/

theorem boundv_step {lo : Nat} {c c1 : compiler_ctx_t} {t : Nat}
    (hr : Rel c.code_off c.labels_cnt c c1)
    (hB : c1.labels_cnt ≤ LABEL_FLAG) (h : BoundV lo c t) : BoundV lo c1 t := by
  refine ⟨h.1, lt_of_lt_of_le h.2.1 hr.cnt_ge, ?_, ?_⟩
  · rw [hr.labels_eq hB _ h.2.1]
    exact h.2.2.1
  · rw [hr.labels_eq hB _ h.2.1]
    exact le_trans h.2.2.2 hr.off_ge

theorem okv_step {lo : Nat} {c c1 : compiler_ctx_t} {t : Nat}
    (hr : Rel c.code_off c.labels_cnt c c1)
    (hB : c1.labels_cnt ≤ LABEL_FLAG) (h : OkV lo c t) : OkV lo c1 t := by
  rcases h with h | h
  · exact Or.inl ⟨h.1, le_trans h.2 hr.off_ge⟩
  · exact Or.inr (boundv_step hr hB h)

theorem tokok_step {P : Nat → Prop} {lo : Nat} {c c1 : compiler_ctx_t} {v : Nat}
    (hr : Rel c.code_off c.labels_cnt c c1) (hB : c1.labels_cnt ≤ LABEL_FLAG)
    (h : TokOK P lo c v) : TokOK P lo c1 v := by
  rcases h with h | h | h
  · exact Or.inl ⟨h.1, le_trans h.2 hr.off_ge⟩
  · exact Or.inr (Or.inl (boundv_step hr hB h))
  · exact Or.inr (Or.inr h)

theorem good_step {P : Nat → Prop} {lo : Nat} {c c1 : compiler_ctx_t} {i : Nat}
    (hr : Rel c.code_off c.labels_cnt c c1) (hB : c1.labels_cnt ≤ LABEL_FLAG)
    (hi : i < c.code_off) (h : Good P lo c i) : Good P lo c1 i := by
  intro ha
  rw [hr.instrs_eq i hi] at ha ⊢
  obtain ⟨v, e, hv⟩ := h ha
  exact ⟨v, e, tokok_step hr hB hv⟩

/-- A step from `c` to `c1` that leaves the stream of `c` alone and appends instructions that are
in order. -/
theorem seg_step {P E : Nat → Prop} {B : List Nat} {F : List statement_ctx_t} {lo : Nat}
    {c c1 : compiler_ctx_t} (h : Seg P E B F lo c) (hr : Rel c.code_off c.labels_cnt c c1)
    (hn : c1.labels_cnt ≤ LABEL_FLAG → ∀ i, c.code_off ≤ i → i < c1.code_off → ¬ E i →
      Good P lo c1 i) : Seg P E B F lo c1 := by
  refine ⟨hr.stat_ctx_eq.trans h.frames, fun hB t ht => ?_, fun hB i hlo hi hE => ?_,
    fun hB t ht => ?_, le_trans h.lo_le hr.off_ge, h.flag⟩
  · exact okv_step hr hB (h.bound (le_trans hr.cnt_mono hB) t ht)
  · by_cases hc : i < c.code_off
    · exact good_step hr hB hc (h.good (le_trans hr.cnt_mono hB) i hlo hc hE)
    · exact hn hB i (Nat.le_of_not_lt hc) hi hE
  · exact lt_of_lt_of_le (h.pend (le_trans hr.cnt_mono hB) t ht) hr.cnt_mono

/-- A step that appends nothing. -/
theorem seg_step_same {P E : Nat → Prop} {B : List Nat} {F : List statement_ctx_t} {lo : Nat}
    {c c1 : compiler_ctx_t} (h : Seg P E B F lo c) (hr : Rel c.code_off c.labels_cnt c c1)
    (ho : c1.code_off ≤ c.code_off) : Seg P E B F lo c1 :=
  seg_step h hr (fun _ i h1 h2 _ => absurd (lt_of_lt_of_le h2 ho) (Nat.not_lt.2 h1))

theorem seg_mono_e {P E E1 : Nat → Prop} {B : List Nat} {F : List statement_ctx_t} {lo : Nat}
    {c : compiler_ctx_t} (h : Seg P E B F lo c)
    (hE : ∀ i, E i → E1 i) : Seg P E1 B F lo c :=
  ⟨h.frames, h.bound, fun hB i hlo hi hE1 => h.good hB i hlo hi (fun he => hE1 (hE i he)),
    h.pend, h.lo_le, h.flag⟩

theorem seg_of_segs {P E : Nat → Prop} {B : List Nat} {F : List statement_ctx_t} {lo : Nat}
    {r : HRESULT × compiler_ctx_t} (h : SegS P E B F lo r) (hs : ¬ FAILED r.1 = true) :
    Seg P E B F lo r.2 := h hs

theorem heap_alloc_seg {P E : Nat → Prop} {B : List Nat} {F : List statement_ctx_t} {lo : Nat}
    {c : compiler_ctx_t} (h : Seg P E B F lo c) : Seg P E B F lo (heap_alloc c).2 :=
  seg_step_same h (heap_alloc_rel (Rel.refl c)) (le_of_eq (heap_alloc_proj c).2.2.2.2.1)

theorem compiler_alloc_string_seg {P E : Nat → Prop} {B : List Nat} {F : List statement_ctx_t}
    {lo : Nat} {c : compiler_ctx_t} (str : String) (h : Seg P E B F lo c) :
    Seg P E B F lo (compiler_alloc_string c str).2 :=
  seg_step_same h (compiler_alloc_string_rel str (Rel.refl c))
    (le_of_eq (compiler_alloc_string_proj c str).2.1)

theorem compiler_alloc_bstr_seg {P E : Nat → Prop} {B : List Nat} {F : List statement_ctx_t}
    {lo : Nat} {c : compiler_ctx_t} (str : String) (h : Seg P E B F lo c) :
    Seg P E B F lo (compiler_alloc_bstr c str).2 :=
  seg_step_same h (compiler_alloc_bstr_rel str (Rel.refl c))
    (le_of_eq (compiler_alloc_bstr_proj c str).2.1)

/-- The state after `push_instr`: nothing is appended when it fails, and one instruction with
the opcode `op` at the returned offset when it succeeds. -/
theorem push_instr_new (c : compiler_ctx_t) (op : jsop_t) (i : Nat)
    (h1 : c.code_off ≤ i) (h2 : i < (push_instr c op).2.code_off) :
    i = (push_instr c op).1 ∧ ((push_instr c op).2.instrs i).op = op := by
  rcases push_instr_cases c op with ⟨hp, e⟩ | ⟨hp, n, _, _, e⟩
  · rw [e] at h2
    exact absurd h2 (Nat.not_lt.2 h1)
  · rw [e] at h2 ⊢
    have hi : i = c.code_off := Nat.le_antisymm (Nat.le_of_lt_succ h2) h1
    subst hi
    refine ⟨rfl, ?_⟩
    show (Function.update c.instrs c.code_off _ c.code_off).op = op
    rw [Function.update_same]

/-- An instruction whose first operand is not an address. -/
theorem seg_push {P E : Nat → Prop} {B : List Nat} {F : List statement_ctx_t} {lo : Nat}
    {c : compiler_ctx_t} {op : jsop_t} (h : Seg P E B F lo c)
    (hop : instr_info_arg1_type op ≠ ARG_ADDR) : Seg P E B F lo (push_instr c op).2 :=
  seg_step h (push_instr_rel op (Rel.refl c)) (fun _ i h1 h2 _ ha =>
    absurd ((push_instr_new c op i h1 h2).2 ▸ ha) hop)

/-- A jump that is still to be patched. -/
theorem seg_push_exempt {P E : Nat → Prop} {B : List Nat} {F : List statement_ctx_t} {lo : Nat}
    {c : compiler_ctx_t} {op : jsop_t} (h : Seg P E B F lo c) (hE : E (push_instr c op).1) :
    Seg P E B F lo (push_instr c op).2 :=
  seg_step h (push_instr_rel op (Rel.refl c)) (fun _ i h1 h2 hn =>
    absurd ((push_instr_new c op i h1 h2).1 ▸ hE) hn)

theorem push_instr_hres_seg {P E : Nat → Prop} {B : List Nat} {F : List statement_ctx_t}
    {lo : Nat} {c : compiler_ctx_t} {op : jsop_t} (h : Seg P E B F lo c)
    (hop : instr_info_arg1_type op ≠ ARG_ADDR) : SegS P E B F lo (push_instr_hres c op) :=
  fun _ => seg_push h hop

/-- The fields of the state that `Seg` looks at, after `set_arg1`. -/
theorem seg_of_eq {P E : Nat → Prop} {B : List Nat} {F : List statement_ctx_t} {lo : Nat}
    {c c1 : compiler_ctx_t} (h : Seg P E B F lo c) (e1 : c1.stat_ctx = c.stat_ctx)
    (e2 : c1.labels_cnt = c.labels_cnt) (e3 : c1.labels = c.labels)
    (e4 : c1.code_off = c.code_off)
    (hg : c.labels_cnt ≤ LABEL_FLAG → ∀ i, lo ≤ i → i < c.code_off → ¬ E i →
      Good P lo c i → Good P lo c1 i) : Seg P E B F lo c1 := by
  refine ⟨e1.trans h.frames, fun hB t ht => ?_, fun hB i hlo hi hE => ?_, fun hB t ht => ?_,
    e4 ▸ h.lo_le, h.flag⟩
  · rw [e2] at hB
    rcases h.bound hB t ht with b | ⟨b0, b1, b2, b3⟩
    · exact Or.inl ⟨b.1, e4 ▸ b.2⟩
    · exact Or.inr ⟨b0, e2 ▸ b1, by rw [e3]; exact b2, by rw [e3, e4]; exact b3⟩
  · rw [e2] at hB
    rw [e4] at hi
    exact hg hB i hlo hi hE (h.good hB i hlo hi hE)
  · rw [e2] at hB ⊢
    exact h.pend hB t ht

theorem tokok_of_eq {P : Nat → Prop} {lo : Nat} {c c1 : compiler_ctx_t} {v : Nat}
    (e2 : c1.labels_cnt = c.labels_cnt) (e3 : c1.labels = c.labels)
    (e4 : c1.code_off = c.code_off) (h : TokOK P lo c v) : TokOK P lo c1 v := by
  rcases h with h | h | h
  · exact Or.inl ⟨h.1, e4 ▸ h.2⟩
  · exact Or.inr (Or.inl ⟨h.1, e2 ▸ h.2.1, by rw [e3]; exact h.2.2.1,
      by rw [e3, e4]; exact h.2.2.2⟩)
  · exact Or.inr (Or.inr h)

/-- Patching the jump at `p` with the offset that the stream has reached. -/
theorem seg_patch {P E : Nat → Prop} {B : List Nat} {F : List statement_ctx_t} {lo : Nat}
    {c : compiler_ctx_t} {p v : Nat} (h : Seg P (fun i => i = p ∨ E i) B F lo c)
    (hv : v ≤ c.code_off) (hv1 : c.code_off ≤ v) : Seg P E B F lo (set_arg1 c p (.uint v)) := by
  refine ⟨h.frames, h.bound, fun hB i hlo hi hE => ?_, h.pend, h.lo_le, h.flag⟩
  by_cases hp : i = p
  · subst hp
    intro _
    exact ⟨v, by rw [set_arg1_same], Or.inl ⟨le_trans h.lo_le hv1, hv⟩⟩
  · intro ha
    rw [set_arg1_other _ _ hp] at ha ⊢
    obtain ⟨w, e, hw⟩ := h.good hB i hlo hi (fun he => he.elim hp hE) ha
    exact ⟨w, e, tokok_of_eq rfl rfl rfl hw⟩

/-- Writing the second operand. -/
theorem seg_set_arg2 {P E : Nat → Prop} {B : List Nat} {F : List statement_ctx_t} {lo : Nat}
    {c : compiler_ctx_t} (p : Nat) (v : instr_arg_t) (h : Seg P E B F lo c) :
    Seg P E B F lo (set_arg2 c p v) := by
  refine seg_of_eq h rfl rfl rfl rfl (fun _ i _ _ _ hg ha => ?_)
  by_cases hp : i = p
  · subst hp
    rw [set_arg2_same] at ha ⊢
    obtain ⟨w, e, hw⟩ := hg ha
    exact ⟨w, e, tokok_of_eq rfl rfl rfl hw⟩
  · rw [set_arg2_other _ _ hp] at ha ⊢
    obtain ⟨w, e, hw⟩ := hg ha
    exact ⟨w, e, tokok_of_eq rfl rfl rfl hw⟩

theorem seg_set_eval {P E : Nat → Prop} {B : List Nat} {F : List statement_ctx_t} {lo : Nat}
    {c : compiler_ctx_t} (s : statement_t) (ev : statement_eval_t) (h : Seg P E B F lo c) :
    Seg P E B F lo (set_eval c s ev) :=
  seg_of_eq h rfl rfl rfl rfl (fun _ _ _ _ _ hg ha =>
    (hg ha).imp fun _ hw => ⟨hw.1, tokok_of_eq rfl rfl rfl hw.2⟩)

theorem seg_set_no_fallback {P E : Nat → Prop} {B : List Nat} {F : List statement_ctx_t}
    {lo : Nat} {c : compiler_ctx_t} (v : Bool) (h : Seg P E B F lo c) :
    Seg P E B F lo (set_no_fallback c v) :=
  seg_of_eq h rfl rfl rfl rfl (fun _ _ _ _ _ hg ha =>
    (hg ha).imp fun _ hw => ⟨hw.1, tokok_of_eq rfl rfl rfl hw.2⟩)

/-- An instruction that is appended with its first operand: the operand is arbitrary when the
opcode has no address, and an offset of the stream or a pending token when it has one. -/
theorem seg_push_arg {P E : Nat → Prop} {B : List Nat} {F : List statement_ctx_t} {lo : Nat}
    {c : compiler_ctx_t} {op : jsop_t} {v : instr_arg_t} (h : Seg P E B F lo c)
    (hv : instr_info_arg1_type op = ARG_ADDR →
      ∃ w, v = .uint w ∧ ((lo ≤ w ∧ w ≤ c.code_off) ∨ P w))
    (hne : ¬ (push_instr c op).1 = UINT_MAX) :
    Seg P E B F lo (set_arg1 (push_instr c op).2 (push_instr c op).1 v) := by
  obtain ⟨p1, p2, p3, _, _⟩ := push_instr_ok c op hne
  refine seg_step h (set_arg1_rel v (push_instr_rel op (Rel.refl c))
    (push_instr_idx_ge (Rel.refl c) hne)) (fun _ i h1 h2 _ ha => ?_)
  have hi : i = c.code_off := by
    have : i < c.code_off + 1 := p2 ▸ h2
    exact Nat.le_antisymm (Nat.le_of_lt_succ this) h1
  subst hi
  rw [p1, set_arg1_same] at ha ⊢
  obtain ⟨w, e, hw⟩ := hv (p3 ▸ ha)
  refine ⟨w, e, ?_⟩
  rcases hw with hw | hw
  · exact Or.inl ⟨hw.1, le_trans hw.2 (Nat.le_of_lt h2)⟩
  · exact Or.inr (Or.inr hw)

theorem seg_push_arg_na {P E : Nat → Prop} {B : List Nat} {F : List statement_ctx_t} {lo : Nat}
    {c : compiler_ctx_t} {op : jsop_t} {v : instr_arg_t} (h : Seg P E B F lo c)
    (hop : instr_info_arg1_type op ≠ ARG_ADDR) (hne : ¬ (push_instr c op).1 = UINT_MAX) :
    Seg P E B F lo (set_arg1 (push_instr c op).2 (push_instr c op).1 v) :=
  seg_push_arg h (fun ha => absurd ha hop) hne

theorem seg_push_uint {P E : Nat → Prop} {B : List Nat} {F : List statement_ctx_t} {lo : Nat}
    {c : compiler_ctx_t} {op : jsop_t} {w : Nat} (h : Seg P E B F lo c)
    (hw : (lo ≤ w ∧ w ≤ c.code_off) ∨ P w) (hne : ¬ (push_instr c op).1 = UINT_MAX) :
    Seg P E B F lo (set_arg1 (push_instr c op).2 (push_instr c op).1 (.uint w)) :=
  seg_push_arg h (fun _ => ⟨w, rfl, hw⟩) hne

/-! ## Address operands: results -/

theorem segs_ite_failed_self {P E : Nat → Prop} {B : List Nat} {F : List statement_ctx_t}
    {lo : Nat} {x r : HRESULT × compiler_ctx_t}
    (h : ¬ FAILED x.1 = true → SegS P E B F lo r) :
    SegS P E B F lo (if FAILED x.1 = true then x else r) := by
  split
  · next hf => exact fun hs => absurd hf hs
  · next hf => exact h hf

theorem segs_ite_failed {P E : Nat → Prop} {B : List Nat} {F : List statement_ctx_t}
    {lo : Nat} {x : HRESULT} {c : compiler_ctx_t} {r : HRESULT × compiler_ctx_t}
    (h : ¬ FAILED x = true → SegS P E B F lo r) :
    SegS P E B F lo (if FAILED x = true then (x, c) else r) := by
  split
  · next hf => exact fun hs => absurd hf hs
  · next hf => exact h hf

theorem segs_ite_oom {P E : Nat → Prop} {B : List Nat} {F : List statement_ctx_t}
    {lo : Nat} {p : Prop} [Decidable p] {c : compiler_ctx_t} {r : HRESULT × compiler_ctx_t}
    (h : ¬ p → SegS P E B F lo r) :
    SegS P E B F lo (if p then (E_OUTOFMEMORY, c) else r) := by
  split
  · exact fun hs => absurd failed_oom hs
  · next hf => exact h hf

theorem segs_ite {P E : Nat → Prop} {B : List Nat} {F : List statement_ctx_t}
    {lo : Nat} {p : Prop} [Decidable p] {r1 r2 : HRESULT × compiler_ctx_t}
    (h1 : p → SegS P E B F lo r1) (h2 : ¬ p → SegS P E B F lo r2) :
    SegS P E B F lo (if p then r1 else r2) := by
  split
  · next hp => exact h1 hp
  · next hp => exact h2 hp

theorem segs_oom {P E : Nat → Prop} {B : List Nat} {F : List statement_ctx_t}
    {lo : Nat} {c : compiler_ctx_t} : SegS P E B F lo (E_OUTOFMEMORY, c) :=
  fun hs => absurd failed_oom hs

theorem segs_ok {P E : Nat → Prop} {B : List Nat} {F : List statement_ctx_t}
    {lo : Nat} {x : HRESULT} {c : compiler_ctx_t} (h : Seg P E B F lo c) :
    SegS P E B F lo (x, c) := fun _ => h

/-- The first component of a result that carries one more value. -/
theorem segs_fst_ite_failed {α : Type} {P E : Nat → Prop} {B : List Nat}
    {F : List statement_ctx_t} {lo : Nat} {x : HRESULT × compiler_ctx_t} {y : α}
    {r : (HRESULT × compiler_ctx_t) × α}
    (h : ¬ FAILED x.1 = true → SegS P E B F lo r.1) :
    SegS P E B F lo (if FAILED x.1 = true then (x, y) else r).1 := by
  split
  · next hf => exact fun hs => absurd hf hs
  · next hf => exact h hf

theorem segs_fst_ite_oom {α : Type} {P E : Nat → Prop} {B : List Nat}
    {F : List statement_ctx_t} {lo : Nat} {p : Prop} [Decidable p] {c : compiler_ctx_t} {y : α}
    {r : (HRESULT × compiler_ctx_t) × α}
    (h : ¬ p → SegS P E B F lo r.1) :
    SegS P E B F lo (if p then ((E_OUTOFMEMORY, c), y) else r).1 := by
  split
  · exact fun hs => absurd failed_oom hs
  · next hf => exact h hf

theorem segs_fst_ite {α : Type} {P E : Nat → Prop} {B : List Nat}
    {F : List statement_ctx_t} {lo : Nat} {p : Prop} [Decidable p]
    {r1 r2 : (HRESULT × compiler_ctx_t) × α}
    (h1 : p → SegS P E B F lo r1.1) (h2 : ¬ p → SegS P E B F lo r2.1) :
    SegS P E B F lo (if p then r1 else r2).1 := by
  split
  · next hp => exact h1 hp
  · next hp => exact h2 hp

/-! ## Address operands: expressions -/

theorem seg_push_hres {P E : Nat → Prop} {B : List Nat} {F : List statement_ctx_t} {lo : Nat}
    {c : compiler_ctx_t} {op : jsop_t} (h : Seg P E B F lo c)
    (hop : instr_info_arg1_type op ≠ ARG_ADDR) : Seg P E B F lo (push_instr_hres c op).2 :=
  seg_push h hop

theorem seg_ite {P E : Nat → Prop} {B : List Nat} {F : List statement_ctx_t} {lo : Nat}
    {p : Prop} [Decidable p] {r1 r2 : HRESULT × compiler_ctx_t}
    (h1 : p → Seg P E B F lo r1.2) (h2 : ¬ p → Seg P E B F lo r2.2) :
    Seg P E B F lo (if p then r1 else r2).2 := by
  split
  · next hp => exact h1 hp
  · next hp => exact h2 hp

theorem literal_as_bstr_seg {P E : Nat → Prop} {B : List Nat} {F : List statement_ctx_t}
    {lo : Nat} {c : compiler_ctx_t} (literal : literal_t) (h : Seg P E B F lo c) :
    Seg P E B F lo (literal_as_bstr c literal).2.2 := by
  unfold literal_as_bstr int_to_bstr double_to_bstr
  split <;> (try dsimp only) <;>
  repeat' (first
    | with_reducible (first
        | exact h
        | apply heap_alloc_seg
        | apply compiler_alloc_bstr_seg
        | apply compiler_alloc_string_seg)
    | split)

theorem push_instr_int_seg {P E : Nat → Prop} {B : List Nat} {F : List statement_ctx_t} {lo : Nat} {c : compiler_ctx_t} (op : jsop_t) (arg : Int)
    (h : Seg P E B F lo c)
    (hop : instr_info_arg1_type op ≠ ARG_ADDR) : SegS P E B F lo (push_instr_int c op arg) := by
  unfold push_instr_int
  dsimp only
  repeat' (first
    | with_reducible (first
        | exact h
        | assumption
        | exact seg_mono_e h (fun _ hi => Or.inr hi)
        | exact seg_mono_e h (fun _ hi => Or.inr (Or.inr hi))
        | intro _
        | apply segs_ite_failed_self
        | apply segs_ite_failed
        | apply segs_ite_oom
        | apply segs_fst_ite_failed
        | apply segs_fst_ite_oom
        | exact segs_oom
        | refine seg_push ?_ (by first | assumption | decide | (split <;> decide))
        | refine seg_push_hres ?_ (by first | assumption | decide | (split <;> decide))
        | refine seg_push_exempt ?_ (Or.inl rfl)
        | refine seg_push_exempt ?_ (Or.inr (Or.inl rfl))
        | refine seg_push_arg_na ?_ (by first | assumption | decide | (split <;> decide)) (by assumption)
        | refine seg_patch ?_ (le_refl _) (le_refl _)
        | apply seg_set_arg2
        | apply heap_alloc_seg
        | apply compiler_alloc_string_seg
        | apply compiler_alloc_bstr_seg
        | apply literal_as_bstr_seg
        | apply push_instr_hres_seg
        | apply seg_of_segs (push_instr_hres_seg _ _)
        | refine seg_of_segs (segs_ite ?_ ?_) (by assumption)
        | apply seg_ite
        | apply segs_ite
        | apply segs_fst_ite)
    | decide
    | split
    | with_reducible (apply segs_ok))

theorem push_instr_str_seg {P E : Nat → Prop} {B : List Nat} {F : List statement_ctx_t} {lo : Nat} {c : compiler_ctx_t} (op : jsop_t) (arg : String)
    (h : Seg P E B F lo c)
    (hop : instr_info_arg1_type op ≠ ARG_ADDR) : SegS P E B F lo (push_instr_str c op arg) := by
  unfold push_instr_str
  dsimp only
  repeat' (first
    | with_reducible (first
        | exact h
        | assumption
        | exact seg_mono_e h (fun _ hi => Or.inr hi)
        | exact seg_mono_e h (fun _ hi => Or.inr (Or.inr hi))
        | intro _
        | apply segs_ite_failed_self
        | apply segs_ite_failed
        | apply segs_ite_oom
        | apply segs_fst_ite_failed
        | apply segs_fst_ite_oom
        | exact segs_oom
        | refine seg_push ?_ (by first | assumption | decide | (split <;> decide))
        | refine seg_push_hres ?_ (by first | assumption | decide | (split <;> decide))
        | refine seg_push_exempt ?_ (Or.inl rfl)
        | refine seg_push_exempt ?_ (Or.inr (Or.inl rfl))
        | refine seg_push_arg_na ?_ (by first | assumption | decide | (split <;> decide)) (by assumption)
        | refine seg_patch ?_ (le_refl _) (le_refl _)
        | apply seg_set_arg2
        | apply heap_alloc_seg
        | apply compiler_alloc_string_seg
        | apply compiler_alloc_bstr_seg
        | apply literal_as_bstr_seg
        | apply push_instr_hres_seg
        | apply push_instr_int_seg
        | apply seg_of_segs (push_instr_hres_seg _ _)
        | apply seg_of_segs (push_instr_int_seg _ _ _ _)
        | refine seg_of_segs (segs_ite ?_ ?_) (by assumption)
        | apply seg_ite
        | apply segs_ite
        | apply segs_fst_ite)
    | decide
    | split
    | with_reducible (apply segs_ok))

theorem push_instr_bstr_seg {P E : Nat → Prop} {B : List Nat} {F : List statement_ctx_t} {lo : Nat} {c : compiler_ctx_t} (op : jsop_t) (arg : String)
    (h : Seg P E B F lo c)
    (hop : instr_info_arg1_type op ≠ ARG_ADDR) : SegS P E B F lo (push_instr_bstr c op arg) := by
  unfold push_instr_bstr
  dsimp only
  repeat' (first
    | with_reducible (first
        | exact h
        | assumption
        | exact seg_mono_e h (fun _ hi => Or.inr hi)
        | exact seg_mono_e h (fun _ hi => Or.inr (Or.inr hi))
        | intro _
        | apply segs_ite_failed_self
        | apply segs_ite_failed
        | apply segs_ite_oom
        | apply segs_fst_ite_failed
        | apply segs_fst_ite_oom
        | exact segs_oom
        | refine seg_push ?_ (by first | assumption | decide | (split <;> decide))
        | refine seg_push_hres ?_ (by first | assumption | decide | (split <;> decide))
        | refine seg_push_exempt ?_ (Or.inl rfl)
        | refine seg_push_exempt ?_ (Or.inr (Or.inl rfl))
        | refine seg_push_arg_na ?_ (by first | assumption | decide | (split <;> decide)) (by assumption)
        | refine seg_patch ?_ (le_refl _) (le_refl _)
        | apply seg_set_arg2
        | apply heap_alloc_seg
        | apply compiler_alloc_string_seg
        | apply compiler_alloc_bstr_seg
        | apply literal_as_bstr_seg
        | apply push_instr_hres_seg
        | apply push_instr_int_seg
        | apply push_instr_str_seg
        | apply seg_of_segs (push_instr_hres_seg _ _)
        | apply seg_of_segs (push_instr_int_seg _ _ _ _)
        | apply seg_of_segs (push_instr_str_seg _ _ _ _)
        | refine seg_of_segs (segs_ite ?_ ?_) (by assumption)
        | apply seg_ite
        | apply segs_ite
        | apply segs_fst_ite)
    | decide
    | split
    | with_reducible (apply segs_ok))

theorem push_instr_bstr_uint_seg {P E : Nat → Prop} {B : List Nat} {F : List statement_ctx_t} {lo : Nat} {c : compiler_ctx_t} (op : jsop_t) (arg1 : String) (arg2 : Nat)
    (h : Seg P E B F lo c)
    (hop : instr_info_arg1_type op ≠ ARG_ADDR) : SegS P E B F lo (push_instr_bstr_uint c op arg1 arg2) := by
  unfold push_instr_bstr_uint
  dsimp only
  repeat' (first
    | with_reducible (first
        | exact h
        | assumption
        | exact seg_mono_e h (fun _ hi => Or.inr hi)
        | exact seg_mono_e h (fun _ hi => Or.inr (Or.inr hi))
        | intro _
        | apply segs_ite_failed_self
        | apply segs_ite_failed
        | apply segs_ite_oom
        | apply segs_fst_ite_failed
        | apply segs_fst_ite_oom
        | exact segs_oom
        | refine seg_push ?_ (by first | assumption | decide | (split <;> decide))
        | refine seg_push_hres ?_ (by first | assumption | decide | (split <;> decide))
        | refine seg_push_exempt ?_ (Or.inl rfl)
        | refine seg_push_exempt ?_ (Or.inr (Or.inl rfl))
        | refine seg_push_arg_na ?_ (by first | assumption | decide | (split <;> decide)) (by assumption)
        | refine seg_patch ?_ (le_refl _) (le_refl _)
        | apply seg_set_arg2
        | apply heap_alloc_seg
        | apply compiler_alloc_string_seg
        | apply compiler_alloc_bstr_seg
        | apply literal_as_bstr_seg
        | apply push_instr_hres_seg
        | apply push_instr_int_seg
        | apply push_instr_str_seg
        | apply push_instr_bstr_seg
        | apply seg_of_segs (push_instr_hres_seg _ _)
        | apply seg_of_segs (push_instr_int_seg _ _ _ _)
        | apply seg_of_segs (push_instr_str_seg _ _ _ _)
        | apply seg_of_segs (push_instr_bstr_seg _ _ _ _)
        | refine seg_of_segs (segs_ite ?_ ?_) (by assumption)
        | apply seg_ite
        | apply segs_ite
        | apply segs_fst_ite)
    | decide
    | split
    | with_reducible (apply segs_ok))

theorem push_instr_uint_str_seg {P E : Nat → Prop} {B : List Nat} {F : List statement_ctx_t} {lo : Nat} {c : compiler_ctx_t} (op : jsop_t) (arg1 : Nat) (arg2 : String)
    (h : Seg P E B F lo c)
    (hop : instr_info_arg1_type op ≠ ARG_ADDR) : SegS P E B F lo (push_instr_uint_str c op arg1 arg2) := by
  unfold push_instr_uint_str
  dsimp only
  repeat' (first
    | with_reducible (first
        | exact h
        | assumption
        | exact seg_mono_e h (fun _ hi => Or.inr hi)
        | exact seg_mono_e h (fun _ hi => Or.inr (Or.inr hi))
        | intro _
        | apply segs_ite_failed_self
        | apply segs_ite_failed
        | apply segs_ite_oom
        | apply segs_fst_ite_failed
        | apply segs_fst_ite_oom
        | exact segs_oom
        | refine seg_push ?_ (by first | assumption | decide | (split <;> decide))
        | refine seg_push_hres ?_ (by first | assumption | decide | (split <;> decide))
        | refine seg_push_exempt ?_ (Or.inl rfl)
        | refine seg_push_exempt ?_ (Or.inr (Or.inl rfl))
        | refine seg_push_arg_na ?_ (by first | assumption | decide | (split <;> decide)) (by assumption)
        | refine seg_patch ?_ (le_refl _) (le_refl _)
        | apply seg_set_arg2
        | apply heap_alloc_seg
        | apply compiler_alloc_string_seg
        | apply compiler_alloc_bstr_seg
        | apply literal_as_bstr_seg
        | apply push_instr_hres_seg
        | apply push_instr_int_seg
        | apply push_instr_str_seg
        | apply push_instr_bstr_seg
        | apply push_instr_bstr_uint_seg
        | apply seg_of_segs (push_instr_hres_seg _ _)
        | apply seg_of_segs (push_instr_int_seg _ _ _ _)
        | apply seg_of_segs (push_instr_str_seg _ _ _ _)
        | apply seg_of_segs (push_instr_bstr_seg _ _ _ _)
        | apply seg_of_segs (push_instr_bstr_uint_seg _ _ _ _ _)
        | refine seg_of_segs (segs_ite ?_ ?_) (by assumption)
        | apply seg_ite
        | apply segs_ite
        | apply segs_fst_ite)
    | decide
    | split
    | with_reducible (apply segs_ok))

theorem push_instr_double_seg {P E : Nat → Prop} {B : List Nat} {F : List statement_ctx_t} {lo : Nat} {c : compiler_ctx_t} (op : jsop_t) (arg : DOUBLE)
    (h : Seg P E B F lo c)
    (hop : instr_info_arg1_type op ≠ ARG_ADDR) : SegS P E B F lo (push_instr_double c op arg) := by
  unfold push_instr_double
  dsimp only
  repeat' (first
    | with_reducible (first
        | exact h
        | assumption
        | exact seg_mono_e h (fun _ hi => Or.inr hi)
        | exact seg_mono_e h (fun _ hi => Or.inr (Or.inr hi))
        | intro _
        | apply segs_ite_failed_self
        | apply segs_ite_failed
        | apply segs_ite_oom
        | apply segs_fst_ite_failed
        | apply segs_fst_ite_oom
        | exact segs_oom
        | refine seg_push ?_ (by first | assumption | decide | (split <;> decide))
        | refine seg_push_hres ?_ (by first | assumption | decide | (split <;> decide))
        | refine seg_push_exempt ?_ (Or.inl rfl)
        | refine seg_push_exempt ?_ (Or.inr (Or.inl rfl))
        | refine seg_push_arg_na ?_ (by first | assumption | decide | (split <;> decide)) (by assumption)
        | refine seg_patch ?_ (le_refl _) (le_refl _)
        | apply seg_set_arg2
        | apply heap_alloc_seg
        | apply compiler_alloc_string_seg
        | apply compiler_alloc_bstr_seg
        | apply literal_as_bstr_seg
        | apply push_instr_hres_seg
        | apply push_instr_int_seg
        | apply push_instr_str_seg
        | apply push_instr_bstr_seg
        | apply push_instr_bstr_uint_seg
        | apply push_instr_uint_str_seg
        | apply seg_of_segs (push_instr_hres_seg _ _)
        | apply seg_of_segs (push_instr_int_seg _ _ _ _)
        | apply seg_of_segs (push_instr_str_seg _ _ _ _)
        | apply seg_of_segs (push_instr_bstr_seg _ _ _ _)
        | apply seg_of_segs (push_instr_bstr_uint_seg _ _ _ _ _)
        | apply seg_of_segs (push_instr_uint_str_seg _ _ _ _ _)
        | refine seg_of_segs (segs_ite ?_ ?_) (by assumption)
        | apply seg_ite
        | apply segs_ite
        | apply segs_fst_ite)
    | decide
    | split
    | with_reducible (apply segs_ok))

theorem push_instr_uint_seg {P E : Nat → Prop} {B : List Nat} {F : List statement_ctx_t} {lo : Nat} {c : compiler_ctx_t} (op : jsop_t) (arg : Nat)
    (h : Seg P E B F lo c) (hop : instr_info_arg1_type op ≠ ARG_ADDR) :
    SegS P E B F lo (push_instr_uint c op arg) := by
  unfold push_instr_uint
  dsimp only
  repeat' (first
    | with_reducible (first
        | exact h
        | assumption
        | exact seg_mono_e h (fun _ hi => Or.inr hi)
        | exact seg_mono_e h (fun _ hi => Or.inr (Or.inr hi))
        | intro _
        | apply segs_ite_failed_self
        | apply segs_ite_failed
        | apply segs_ite_oom
        | apply segs_fst_ite_failed
        | apply segs_fst_ite_oom
        | exact segs_oom
        | refine seg_push ?_ (by first | assumption | decide | (split <;> decide))
        | refine seg_push_hres ?_ (by first | assumption | decide | (split <;> decide))
        | refine seg_push_exempt ?_ (Or.inl rfl)
        | refine seg_push_exempt ?_ (Or.inr (Or.inl rfl))
        | refine seg_push_arg_na ?_ (by first | assumption | decide | (split <;> decide)) (by assumption)
        | refine seg_patch ?_ (le_refl _) (le_refl _)
        | apply seg_set_arg2
        | apply heap_alloc_seg
        | apply compiler_alloc_string_seg
        | apply compiler_alloc_bstr_seg
        | apply literal_as_bstr_seg
        | apply push_instr_hres_seg
        | apply push_instr_int_seg
        | apply push_instr_str_seg
        | apply push_instr_bstr_seg
        | apply push_instr_bstr_uint_seg
        | apply push_instr_uint_str_seg
        | apply push_instr_double_seg
        | apply seg_of_segs (push_instr_hres_seg _ _)
        | apply seg_of_segs (push_instr_int_seg _ _ _ _)
        | apply seg_of_segs (push_instr_str_seg _ _ _ _)
        | apply seg_of_segs (push_instr_bstr_seg _ _ _ _)
        | apply seg_of_segs (push_instr_bstr_uint_seg _ _ _ _ _)
        | apply seg_of_segs (push_instr_uint_str_seg _ _ _ _ _)
        | apply seg_of_segs (push_instr_double_seg _ _ _ _)
        | refine seg_of_segs (segs_ite ?_ ?_) (by assumption)
        | apply seg_ite
        | apply segs_ite
        | apply segs_fst_ite)
    | decide
    | split
    | with_reducible (apply segs_ok))

/-- An address-typed instruction that is appended with its target: an offset of the stream or a
pending token. -/
theorem push_instr_uint_addr_seg {P E : Nat → Prop} {B : List Nat} {F : List statement_ctx_t} {lo : Nat} {c : compiler_ctx_t} (op : jsop_t) (arg : Nat)
    (h : Seg P E B F lo c) (hw : (lo ≤ arg ∧ arg ≤ c.code_off) ∨ P arg) :
    SegS P E B F lo (push_instr_uint c op arg) := by
  unfold push_instr_uint
  dsimp only
  refine segs_ite_oom (fun hne => segs_ok (seg_push_uint h hw hne))

theorem push_undefined_loop_seg {P : Nat → Prop} {B : List Nat} {F : List statement_ctx_t} {lo : Nat} (n : Nat) :
    ∀ {E : Nat → Prop} {c : compiler_ctx_t}, Seg P E B F lo c →
      SegS P E B F lo (push_undefined_loop c n) := by
  induction n with
  | zero => intro E c h; exact segs_ok h
  | succ n ih =>
    intro E c h
    unfold push_undefined_loop
    dsimp only
    exact segs_ite_oom (fun _ => ih (seg_push h (by decide)))

theorem compile_literal_seg {P E : Nat → Prop} {B : List Nat} {F : List statement_ctx_t} {lo : Nat} {c : compiler_ctx_t} (literal : literal_t)
    (h : Seg P E B F lo c) : SegS P E B F lo (compile_literal c literal) := by
  unfold compile_literal
  split <;> (try dsimp only)
  repeat' (first
    | with_reducible (first
        | exact h
        | assumption
        | exact seg_mono_e h (fun _ hi => Or.inr hi)
        | exact seg_mono_e h (fun _ hi => Or.inr (Or.inr hi))
        | intro _
        | apply segs_ite_failed_self
        | apply segs_ite_failed
        | apply segs_ite_oom
        | apply segs_fst_ite_failed
        | apply segs_fst_ite_oom
        | exact segs_oom
        | refine seg_push ?_ (by first | assumption | decide | (split <;> decide))
        | refine seg_push_hres ?_ (by first | assumption | decide | (split <;> decide))
        | refine seg_push_exempt ?_ (Or.inl rfl)
        | refine seg_push_exempt ?_ (Or.inr (Or.inl rfl))
        | refine seg_push_arg_na ?_ (by first | assumption | decide | (split <;> decide)) (by assumption)
        | refine seg_patch ?_ (le_refl _) (le_refl _)
        | apply seg_set_arg2
        | apply heap_alloc_seg
        | apply compiler_alloc_string_seg
        | apply compiler_alloc_bstr_seg
        | apply literal_as_bstr_seg
        | apply push_instr_hres_seg
        | apply push_instr_int_seg
        | apply push_instr_str_seg
        | apply push_instr_bstr_seg
        | apply push_instr_bstr_uint_seg
        | apply push_instr_uint_str_seg
        | apply push_instr_double_seg
        | apply push_instr_uint_seg
        | apply push_undefined_loop_seg
        | apply seg_of_segs (push_instr_hres_seg _ _)
        | apply seg_of_segs (push_instr_int_seg _ _ _ _)
        | apply seg_of_segs (push_instr_str_seg _ _ _ _)
        | apply seg_of_segs (push_instr_bstr_seg _ _ _ _)
        | apply seg_of_segs (push_instr_bstr_uint_seg _ _ _ _ _)
        | apply seg_of_segs (push_instr_uint_str_seg _ _ _ _ _)
        | apply seg_of_segs (push_instr_double_seg _ _ _ _)
        | apply seg_of_segs (push_instr_uint_seg _ _ _ _)
        | apply seg_of_segs (push_undefined_loop_seg _ _)
        | refine seg_of_segs (segs_ite ?_ ?_) (by assumption)
        | apply seg_ite
        | apply segs_ite
        | apply segs_fst_ite)
    | decide
    | split
    | with_reducible (apply segs_ok))

theorem compile_function_expression_seg {P E : Nat → Prop} {B : List Nat} {F : List statement_ctx_t} {lo : Nat} {c : compiler_ctx_t} (expr : function_expression_t)
    (h : Seg P E B F lo c) : SegS P E B F lo (compile_function_expression c expr) := by
  unfold compile_function_expression
  split <;> (try dsimp only)
  repeat' (first
    | with_reducible (first
        | exact h
        | assumption
        | exact seg_mono_e h (fun _ hi => Or.inr hi)
        | exact seg_mono_e h (fun _ hi => Or.inr (Or.inr hi))
        | intro _
        | apply segs_ite_failed_self
        | apply segs_ite_failed
        | apply segs_ite_oom
        | apply segs_fst_ite_failed
        | apply segs_fst_ite_oom
        | exact segs_oom
        | refine seg_push ?_ (by first | assumption | decide | (split <;> decide))
        | refine seg_push_hres ?_ (by first | assumption | decide | (split <;> decide))
        | refine seg_push_exempt ?_ (Or.inl rfl)
        | refine seg_push_exempt ?_ (Or.inr (Or.inl rfl))
        | refine seg_push_arg_na ?_ (by first | assumption | decide | (split <;> decide)) (by assumption)
        | refine seg_patch ?_ (le_refl _) (le_refl _)
        | apply seg_set_arg2
        | apply heap_alloc_seg
        | apply compiler_alloc_string_seg
        | apply compiler_alloc_bstr_seg
        | apply literal_as_bstr_seg
        | apply push_instr_hres_seg
        | apply push_instr_int_seg
        | apply push_instr_str_seg
        | apply push_instr_bstr_seg
        | apply push_instr_bstr_uint_seg
        | apply push_instr_uint_str_seg
        | apply push_instr_double_seg
        | apply push_instr_uint_seg
        | apply push_undefined_loop_seg
        | apply compile_literal_seg
        | apply seg_of_segs (push_instr_hres_seg _ _)
        | apply seg_of_segs (push_instr_int_seg _ _ _ _)
        | apply seg_of_segs (push_instr_str_seg _ _ _ _)
        | apply seg_of_segs (push_instr_bstr_seg _ _ _ _)
        | apply seg_of_segs (push_instr_bstr_uint_seg _ _ _ _ _)
        | apply seg_of_segs (push_instr_uint_str_seg _ _ _ _ _)
        | apply seg_of_segs (push_instr_double_seg _ _ _ _)
        | apply seg_of_segs (push_instr_uint_seg _ _ _ _)
        | apply seg_of_segs (push_undefined_loop_seg _ _)
        | apply seg_of_segs (compile_literal_seg _ _)
        | refine seg_of_segs (segs_ite ?_ ?_) (by assumption)
        | apply seg_ite
        | apply segs_ite
        | apply segs_fst_ite)
    | decide
    | split
    | with_reducible (apply segs_ok))

theorem compile_binary_expression_seg_aux {P E : Nat → Prop} {B : List Nat} {F : List statement_ctx_t} {lo : Nat} {c : compiler_ctx_t} {e1 e2 : expression_t} (op : jsop_t)
    (ih1 : (∀ {E : Nat → Prop} {c : compiler_ctx_t}, Seg P E B F lo c →
      SegS P E B F lo (compile_expression_noret c e1 none).1))
    (ih2 : (∀ {E : Nat → Prop} {c : compiler_ctx_t}, Seg P E B F lo c →
      SegS P E B F lo (compile_expression_noret c e2 none).1))
    (hop : instr_info_arg1_type op ≠ ARG_ADDR)
    (h : Seg P E B F lo c) : SegS P E B F lo (compile_binary_expression c (.mk e1 e2) op) := by
  rw [compile_binary_expression.eq_def]
  try dsimp only
  repeat' (first
    | with_reducible (first
        | exact h
        | assumption
        | exact seg_mono_e h (fun _ hi => Or.inr hi)
        | exact seg_mono_e h (fun _ hi => Or.inr (Or.inr hi))
        | intro _
        | apply segs_ite_failed_self
        | apply segs_ite_failed
        | apply segs_ite_oom
        | apply segs_fst_ite_failed
        | apply segs_fst_ite_oom
        | exact segs_oom
        | refine seg_push ?_ (by first | assumption | decide | (split <;> decide))
        | refine seg_push_hres ?_ (by first | assumption | decide | (split <;> decide))
        | refine seg_push_exempt ?_ (Or.inl rfl)
        | refine seg_push_exempt ?_ (Or.inr (Or.inl rfl))
        | refine seg_push_arg_na ?_ (by first | assumption | decide | (split <;> decide)) (by assumption)
        | refine seg_patch ?_ (le_refl _) (le_refl _)
        | apply seg_set_arg2
        | apply heap_alloc_seg
        | apply compiler_alloc_string_seg
        | apply compiler_alloc_bstr_seg
        | apply literal_as_bstr_seg
        | apply ih1
        | apply ih2
        | apply push_instr_hres_seg
        | apply push_instr_int_seg
        | apply push_instr_str_seg
        | apply push_instr_bstr_seg
        | apply push_instr_bstr_uint_seg
        | apply push_instr_uint_str_seg
        | apply push_instr_double_seg
        | apply push_instr_uint_seg
        | apply push_undefined_loop_seg
        | apply compile_literal_seg
        | apply compile_function_expression_seg
        | apply seg_of_segs (ih1 _)
        | apply seg_of_segs (ih2 _)
        | apply seg_of_segs (push_instr_hres_seg _ _)
        | apply seg_of_segs (push_instr_int_seg _ _ _ _)
        | apply seg_of_segs (push_instr_str_seg _ _ _ _)
        | apply seg_of_segs (push_instr_bstr_seg _ _ _ _)
        | apply seg_of_segs (push_instr_bstr_uint_seg _ _ _ _ _)
        | apply seg_of_segs (push_instr_uint_str_seg _ _ _ _ _)
        | apply seg_of_segs (push_instr_double_seg _ _ _ _)
        | apply seg_of_segs (push_instr_uint_seg _ _ _ _)
        | apply seg_of_segs (push_undefined_loop_seg _ _)
        | apply seg_of_segs (compile_literal_seg _ _)
        | apply seg_of_segs (compile_function_expression_seg _ _)
        | refine seg_of_segs (segs_ite ?_ ?_) (by assumption)
        | apply seg_ite
        | apply segs_ite
        | apply segs_fst_ite)
    | decide
    | split
    | with_reducible (apply segs_ok))

theorem compile_unary_expression_seg_aux {P E : Nat → Prop} {B : List Nat} {F : List statement_ctx_t} {lo : Nat} {c : compiler_ctx_t} {e1 : expression_t} (op : jsop_t)
    (ih1 : (∀ {E : Nat → Prop} {c : compiler_ctx_t}, Seg P E B F lo c →
      SegS P E B F lo (compile_expression_noret c e1 none).1))
    (hop : instr_info_arg1_type op ≠ ARG_ADDR)
    (h : Seg P E B F lo c) : SegS P E B F lo (compile_unary_expression c (.mk e1) op) := by
  rw [compile_unary_expression.eq_def]
  try dsimp only
  repeat' (first
    | with_reducible (first
        | exact h
        | assumption
        | exact seg_mono_e h (fun _ hi => Or.inr hi)
        | exact seg_mono_e h (fun _ hi => Or.inr (Or.inr hi))
        | intro _
        | apply segs_ite_failed_self
        | apply segs_ite_failed
        | apply segs_ite_oom
        | apply segs_fst_ite_failed
        | apply segs_fst_ite_oom
        | exact segs_oom
        | refine seg_push ?_ (by first | assumption | decide | (split <;> decide))
        | refine seg_push_hres ?_ (by first | assumption | decide | (split <;> decide))
        | refine seg_push_exempt ?_ (Or.inl rfl)
        | refine seg_push_exempt ?_ (Or.inr (Or.inl rfl))
        | refine seg_push_arg_na ?_ (by first | assumption | decide | (split <;> decide)) (by assumption)
        | refine seg_patch ?_ (le_refl _) (le_refl _)
        | apply seg_set_arg2
        | apply heap_alloc_seg
        | apply compiler_alloc_string_seg
        | apply compiler_alloc_bstr_seg
        | apply literal_as_bstr_seg
        | apply ih1
        | apply push_instr_hres_seg
        | apply push_instr_int_seg
        | apply push_instr_str_seg
        | apply push_instr_bstr_seg
        | apply push_instr_bstr_uint_seg
        | apply push_instr_uint_str_seg
        | apply push_instr_double_seg
        | apply push_instr_uint_seg
        | apply push_undefined_loop_seg
        | apply compile_literal_seg
        | apply compile_function_expression_seg
        | apply seg_of_segs (ih1 _)
        | apply seg_of_segs (push_instr_hres_seg _ _)
        | apply seg_of_segs (push_instr_int_seg _ _ _ _)
        | apply seg_of_segs (push_instr_str_seg _ _ _ _)
        | apply seg_of_segs (push_instr_bstr_seg _ _ _ _)
        | apply seg_of_segs (push_instr_bstr_uint_seg _ _ _ _ _)
        | apply seg_of_segs (push_instr_uint_str_seg _ _ _ _ _)
        | apply seg_of_segs (push_instr_double_seg _ _ _ _)
        | apply seg_of_segs (push_instr_uint_seg _ _ _ _)
        | apply seg_of_segs (push_undefined_loop_seg _ _)
        | apply seg_of_segs (compile_literal_seg _ _)
        | apply seg_of_segs (compile_function_expression_seg _ _)
        | refine seg_of_segs (segs_ite ?_ ?_) (by assumption)
        | apply seg_ite
        | apply segs_ite
        | apply segs_fst_ite)
    | decide
    | split
    | with_reducible (apply segs_ok))

theorem compile_member_expression_seg_aux {P E : Nat → Prop} {B : List Nat} {F : List statement_ctx_t} {lo : Nat} {c : compiler_ctx_t} {e1 : expression_t} (i : String)
    (ih1 : (∀ {E : Nat → Prop} {c : compiler_ctx_t}, Seg P E B F lo c →
      SegS P E B F lo (compile_expression_noret c e1 none).1))
    (h : Seg P E B F lo c) : SegS P E B F lo (compile_member_expression c (.mk e1 i)) := by
  rw [compile_member_expression.eq_def]
  try dsimp only
  repeat' (first
    | with_reducible (first
        | exact h
        | assumption
        | exact seg_mono_e h (fun _ hi => Or.inr hi)
        | exact seg_mono_e h (fun _ hi => Or.inr (Or.inr hi))
        | intro _
        | apply segs_ite_failed_self
        | apply segs_ite_failed
        | apply segs_ite_oom
        | apply segs_fst_ite_failed
        | apply segs_fst_ite_oom
        | exact segs_oom
        | refine seg_push ?_ (by first | assumption | decide | (split <;> decide))
        | refine seg_push_hres ?_ (by first | assumption | decide | (split <;> decide))
        | refine seg_push_exempt ?_ (Or.inl rfl)
        | refine seg_push_exempt ?_ (Or.inr (Or.inl rfl))
        | refine seg_push_arg_na ?_ (by first | assumption | decide | (split <;> decide)) (by assumption)
        | refine seg_patch ?_ (le_refl _) (le_refl _)
        | apply seg_set_arg2
        | apply heap_alloc_seg
        | apply compiler_alloc_string_seg
        | apply compiler_alloc_bstr_seg
        | apply literal_as_bstr_seg
        | apply ih1
        | apply push_instr_hres_seg
        | apply push_instr_int_seg
        | apply push_instr_str_seg
        | apply push_instr_bstr_seg
        | apply push_instr_bstr_uint_seg
        | apply push_instr_uint_str_seg
        | apply push_instr_double_seg
        | apply push_instr_uint_seg
        | apply push_undefined_loop_seg
        | apply compile_literal_seg
        | apply compile_function_expression_seg
        | apply seg_of_segs (ih1 _)
        | apply seg_of_segs (push_instr_hres_seg _ _)
        | apply seg_of_segs (push_instr_int_seg _ _ _ _)
        | apply seg_of_segs (push_instr_str_seg _ _ _ _)
        | apply seg_of_segs (push_instr_bstr_seg _ _ _ _)
        | apply seg_of_segs (push_instr_bstr_uint_seg _ _ _ _ _)
        | apply seg_of_segs (push_instr_uint_str_seg _ _ _ _ _)
        | apply seg_of_segs (push_instr_double_seg _ _ _ _)
        | apply seg_of_segs (push_instr_uint_seg _ _ _ _)
        | apply seg_of_segs (push_undefined_loop_seg _ _)
        | apply seg_of_segs (compile_literal_seg _ _)
        | apply seg_of_segs (compile_function_expression_seg _ _)
        | refine seg_of_segs (segs_ite ?_ ?_) (by assumption)
        | apply seg_ite
        | apply segs_ite
        | apply segs_fst_ite)
    | decide
    | split
    | with_reducible (apply segs_ok))

theorem compile_memberid_binary_seg_aux {P E : Nat → Prop} {B : List Nat} {F : List statement_ctx_t} {lo : Nat} {c : compiler_ctx_t} {e1 e2 : expression_t} (t : binary_type_t) (flags : Nat)
    (ih1 : (∀ {E : Nat → Prop} {c : compiler_ctx_t}, Seg P E B F lo c →
      SegS P E B F lo (compile_expression_noret c e1 none).1))
    (ih2 : (∀ {E : Nat → Prop} {c : compiler_ctx_t}, Seg P E B F lo c →
      SegS P E B F lo (compile_expression_noret c e2 none).1))
    (h : Seg P E B F lo c) : SegS P E B F lo (compile_memberid_expression c (.binary t (.mk e1 e2)) flags) := by
  rw [compile_memberid_expression]
  try dsimp only
  repeat' (first
    | with_reducible (first
        | exact h
        | assumption
        | exact seg_mono_e h (fun _ hi => Or.inr hi)
        | exact seg_mono_e h (fun _ hi => Or.inr (Or.inr hi))
        | intro _
        | apply segs_ite_failed_self
        | apply segs_ite_failed
        | apply segs_ite_oom
        | apply segs_fst_ite_failed
        | apply segs_fst_ite_oom
        | exact segs_oom
        | refine seg_push ?_ (by first | assumption | decide | (split <;> decide))
        | refine seg_push_hres ?_ (by first | assumption | decide | (split <;> decide))
        | refine seg_push_exempt ?_ (Or.inl rfl)
        | refine seg_push_exempt ?_ (Or.inr (Or.inl rfl))
        | refine seg_push_arg_na ?_ (by first | assumption | decide | (split <;> decide)) (by assumption)
        | refine seg_patch ?_ (le_refl _) (le_refl _)
        | apply seg_set_arg2
        | apply heap_alloc_seg
        | apply compiler_alloc_string_seg
        | apply compiler_alloc_bstr_seg
        | apply literal_as_bstr_seg
        | apply ih1
        | apply ih2
        | apply push_instr_hres_seg
        | apply push_instr_int_seg
        | apply push_instr_str_seg
        | apply push_instr_bstr_seg
        | apply push_instr_bstr_uint_seg
        | apply push_instr_uint_str_seg
        | apply push_instr_double_seg
        | apply push_instr_uint_seg
        | apply push_undefined_loop_seg
        | apply compile_literal_seg
        | apply compile_function_expression_seg
        | apply seg_of_segs (ih1 _)
        | apply seg_of_segs (ih2 _)
        | apply seg_of_segs (push_instr_hres_seg _ _)
        | apply seg_of_segs (push_instr_int_seg _ _ _ _)
        | apply seg_of_segs (push_instr_str_seg _ _ _ _)
        | apply seg_of_segs (push_instr_bstr_seg _ _ _ _)
        | apply seg_of_segs (push_instr_bstr_uint_seg _ _ _ _ _)
        | apply seg_of_segs (push_instr_uint_str_seg _ _ _ _ _)
        | apply seg_of_segs (push_instr_double_seg _ _ _ _)
        | apply seg_of_segs (push_instr_uint_seg _ _ _ _)
        | apply seg_of_segs (push_undefined_loop_seg _ _)
        | apply seg_of_segs (compile_literal_seg _ _)
        | apply seg_of_segs (compile_function_expression_seg _ _)
        | refine seg_of_segs (segs_ite ?_ ?_) (by assumption)
        | apply seg_ite
        | apply segs_ite
        | apply segs_fst_ite)
    | decide
    | split
    | with_reducible (apply segs_ok))

theorem compile_memberid_member_seg_aux {P E : Nat → Prop} {B : List Nat} {F : List statement_ctx_t} {lo : Nat} {c : compiler_ctx_t} {e1 : expression_t} (i : String) (flags : Nat)
    (ih1 : (∀ {E : Nat → Prop} {c : compiler_ctx_t}, Seg P E B F lo c →
      SegS P E B F lo (compile_expression_noret c e1 none).1))
    (h : Seg P E B F lo c) : SegS P E B F lo (compile_memberid_expression c (.EXPR_MEMBER (.mk e1 i)) flags) := by
  rw [compile_memberid_expression]
  try dsimp only
  repeat' (first
    | with_reducible (first
        | exact h
        | assumption
        | exact seg_mono_e h (fun _ hi => Or.inr hi)
        | exact seg_mono_e h (fun _ hi => Or.inr (Or.inr hi))
        | intro _
        | apply segs_ite_failed_self
        | apply segs_ite_failed
        | apply segs_ite_oom
        | apply segs_fst_ite_failed
        | apply segs_fst_ite_oom
        | exact segs_oom
        | refine seg_push ?_ (by first | assumption | decide | (split <;> decide))
        | refine seg_push_hres ?_ (by first | assumption | decide | (split <;> decide))
        | refine seg_push_exempt ?_ (Or.inl rfl)
        | refine seg_push_exempt ?_ (Or.inr (Or.inl rfl))
        | refine seg_push_arg_na ?_ (by first | assumption | decide | (split <;> decide)) (by assumption)
        | refine seg_patch ?_ (le_refl _) (le_refl _)
        | apply seg_set_arg2
        | apply heap_alloc_seg
        | apply compiler_alloc_string_seg
        | apply compiler_alloc_bstr_seg
        | apply literal_as_bstr_seg
        | apply ih1
        | apply push_instr_hres_seg
        | apply push_instr_int_seg
        | apply push_instr_str_seg
        | apply push_instr_bstr_seg
        | apply push_instr_bstr_uint_seg
        | apply push_instr_uint_str_seg
        | apply push_instr_double_seg
        | apply push_instr_uint_seg
        | apply push_undefined_loop_seg
        | apply compile_literal_seg
        | apply compile_function_expression_seg
        | apply seg_of_segs (ih1 _)
        | apply seg_of_segs (push_instr_hres_seg _ _)
        | apply seg_of_segs (push_instr_int_seg _ _ _ _)
        | apply seg_of_segs (push_instr_str_seg _ _ _ _)
        | apply seg_of_segs (push_instr_bstr_seg _ _ _ _)
        | apply seg_of_segs (push_instr_bstr_uint_seg _ _ _ _ _)
        | apply seg_of_segs (push_instr_uint_str_seg _ _ _ _ _)
        | apply seg_of_segs (push_instr_double_seg _ _ _ _)
        | apply seg_of_segs (push_instr_uint_seg _ _ _ _)
        | apply seg_of_segs (push_undefined_loop_seg _ _)
        | apply seg_of_segs (compile_literal_seg _ _)
        | apply seg_of_segs (compile_function_expression_seg _ _)
        | refine seg_of_segs (segs_ite ?_ ?_) (by assumption)
        | apply seg_ite
        | apply segs_ite
        | apply segs_fst_ite)
    | decide
    | split
    | with_reducible (apply segs_ok))

theorem compile_increment_expression_seg_aux {P E : Nat → Prop} {B : List Nat} {F : List statement_ctx_t} {lo : Nat} {c : compiler_ctx_t} {e1 : expression_t} (op : jsop_t) (n : Int)
    (ih1 : (∀ {E : Nat → Prop} {c : compiler_ctx_t}, Seg P E B F lo c →
      SegS P E B F lo (compile_expression_noret c e1 none).1))
    (ihm : (∀ (flags : Nat) {E : Nat → Prop} {c : compiler_ctx_t}, Seg P E B F lo c →
      SegS P E B F lo (compile_memberid_expression c e1 flags)))
    (hop : instr_info_arg1_type op ≠ ARG_ADDR)
    (h : Seg P E B F lo c) : SegS P E B F lo (compile_increment_expression c (.mk e1) op n) := by
  rw [compile_increment_expression.eq_def]
  try dsimp only
  repeat' (first
    | with_reducible (first
        | exact h
        | assumption
        | exact seg_mono_e h (fun _ hi => Or.inr hi)
        | exact seg_mono_e h (fun _ hi => Or.inr (Or.inr hi))
        | intro _
        | apply segs_ite_failed_self
        | apply segs_ite_failed
        | apply segs_ite_oom
        | apply segs_fst_ite_failed
        | apply segs_fst_ite_oom
        | exact segs_oom
        | refine seg_push ?_ (by first | assumption | decide | (split <;> decide))
        | refine seg_push_hres ?_ (by first | assumption | decide | (split <;> decide))
        | refine seg_push_exempt ?_ (Or.inl rfl)
        | refine seg_push_exempt ?_ (Or.inr (Or.inl rfl))
        | refine seg_push_arg_na ?_ (by first | assumption | decide | (split <;> decide)) (by assumption)
        | refine seg_patch ?_ (le_refl _) (le_refl _)
        | apply seg_set_arg2
        | apply heap_alloc_seg
        | apply compiler_alloc_string_seg
        | apply compiler_alloc_bstr_seg
        | apply literal_as_bstr_seg
        | apply ih1
        | apply ihm
        | apply push_instr_hres_seg
        | apply push_instr_int_seg
        | apply push_instr_str_seg
        | apply push_instr_bstr_seg
        | apply push_instr_bstr_uint_seg
        | apply push_instr_uint_str_seg
        | apply push_instr_double_seg
        | apply push_instr_uint_seg
        | apply push_undefined_loop_seg
        | apply compile_literal_seg
        | apply compile_function_expression_seg
        | apply seg_of_segs (ih1 _)
        | apply seg_of_segs (ihm _ _)
        | apply seg_of_segs (push_instr_hres_seg _ _)
        | apply seg_of_segs (push_instr_int_seg _ _ _ _)
        | apply seg_of_segs (push_instr_str_seg _ _ _ _)
        | apply seg_of_segs (push_instr_bstr_seg _ _ _ _)
        | apply seg_of_segs (push_instr_bstr_uint_seg _ _ _ _ _)
        | apply seg_of_segs (push_instr_uint_str_seg _ _ _ _ _)
        | apply seg_of_segs (push_instr_double_seg _ _ _ _)
        | apply seg_of_segs (push_instr_uint_seg _ _ _ _)
        | apply seg_of_segs (push_undefined_loop_seg _ _)
        | apply seg_of_segs (compile_literal_seg _ _)
        | apply seg_of_segs (compile_function_expression_seg _ _)
        | refine seg_of_segs (segs_ite ?_ ?_) (by assumption)
        | apply seg_ite
        | apply segs_ite
        | apply segs_fst_ite)
    | decide
    | split
    | with_reducible (apply segs_ok))

theorem compile_comma_expression_seg_aux {P E : Nat → Prop} {B : List Nat} {F : List statement_ctx_t} {lo : Nat} {c : compiler_ctx_t} {e1 e2 : expression_t}
    (ih1 : (∀ {E : Nat → Prop} {c : compiler_ctx_t}, Seg P E B F lo c →
      SegS P E B F lo (compile_expression_noret c e1 none).1))
    (ih2 : (∀ {E : Nat → Prop} {c : compiler_ctx_t}, Seg P E B F lo c →
      SegS P E B F lo (compile_expression_noret c e2 none).1))
    (h : Seg P E B F lo c) : SegS P E B F lo (compile_comma_expression c (.mk e1 e2)) := by
  rw [compile_comma_expression.eq_def]
  try dsimp only
  repeat' (first
    | with_reducible (first
        | exact h
        | assumption
        | exact seg_mono_e h (fun _ hi => Or.inr hi)
        | exact seg_mono_e h (fun _ hi => Or.inr (Or.inr hi))
        | intro _
        | apply segs_ite_failed_self
        | apply segs_ite_failed
        | apply segs_ite_oom
        | apply segs_fst_ite_failed
        | apply segs_fst_ite_oom
        | exact segs_oom
        | refine seg_push ?_ (by first | assumption | decide | (split <;> decide))
        | refine seg_push_hres ?_ (by first | assumption | decide | (split <;> decide))
        | refine seg_push_exempt ?_ (Or.inl rfl)
        | refine seg_push_exempt ?_ (Or.inr (Or.inl rfl))
        | refine seg_push_arg_na ?_ (by first | assumption | decide | (split <;> decide)) (by assumption)
        | refine seg_patch ?_ (le_refl _) (le_refl _)
        | apply seg_set_arg2
        | apply heap_alloc_seg
        | apply compiler_alloc_string_seg
        | apply compiler_alloc_bstr_seg
        | apply literal_as_bstr_seg
        | apply ih1
        | apply ih2
        | apply push_instr_hres_seg
        | apply push_instr_int_seg
        | apply push_instr_str_seg
        | apply push_instr_bstr_seg
        | apply push_instr_bstr_uint_seg
        | apply push_instr_uint_str_seg
        | apply push_instr_double_seg
        | apply push_instr_uint_seg
        | apply push_undefined_loop_seg
        | apply compile_literal_seg
        | apply compile_function_expression_seg
        | apply seg_of_segs (ih1 _)
        | apply seg_of_segs (ih2 _)
        | apply seg_of_segs (push_instr_hres_seg _ _)
        | apply seg_of_segs (push_instr_int_seg _ _ _ _)
        | apply seg_of_segs (push_instr_str_seg _ _ _ _)
        | apply seg_of_segs (push_instr_bstr_seg _ _ _ _)
        | apply seg_of_segs (push_instr_bstr_uint_seg _ _ _ _ _)
        | apply seg_of_segs (push_instr_uint_str_seg _ _ _ _ _)
        | apply seg_of_segs (push_instr_double_seg _ _ _ _)
        | apply seg_of_segs (push_instr_uint_seg _ _ _ _)
        | apply seg_of_segs (push_undefined_loop_seg _ _)
        | apply seg_of_segs (compile_literal_seg _ _)
        | apply seg_of_segs (compile_function_expression_seg _ _)
        | refine seg_of_segs (segs_ite ?_ ?_) (by assumption)
        | apply seg_ite
        | apply segs_ite
        | apply segs_fst_ite)
    | decide
    | split
    | with_reducible (apply segs_ok))

theorem compile_logical_expression_seg_aux {P E : Nat → Prop} {B : List Nat} {F : List statement_ctx_t} {lo : Nat} {c : compiler_ctx_t} {e1 e2 : expression_t} (op : jsop_t)
    (ih1 : (∀ {E : Nat → Prop} {c : compiler_ctx_t}, Seg P E B F lo c →
      SegS P E B F lo (compile_expression_noret c e1 none).1))
    (ih2 : (∀ {E : Nat → Prop} {c : compiler_ctx_t}, Seg P E B F lo c →
      SegS P E B F lo (compile_expression_noret c e2 none).1))
    (h : Seg P E B F lo c) : SegS P E B F lo (compile_logical_expression c (.mk e1 e2) op) := by
  rw [compile_logical_expression.eq_def]
  try dsimp only
  repeat' (first
    | with_reducible (first
        | exact h
        | assumption
        | exact seg_mono_e h (fun _ hi => Or.inr hi)
        | exact seg_mono_e h (fun _ hi => Or.inr (Or.inr hi))
        | intro _
        | apply segs_ite_failed_self
        | apply segs_ite_failed
        | apply segs_ite_oom
        | apply segs_fst_ite_failed
        | apply segs_fst_ite_oom
        | exact segs_oom
        | refine seg_push ?_ (by first | assumption | decide | (split <;> decide))
        | refine seg_push_hres ?_ (by first | assumption | decide | (split <;> decide))
        | refine seg_push_exempt ?_ (Or.inl rfl)
        | refine seg_push_exempt ?_ (Or.inr (Or.inl rfl))
        | refine seg_push_arg_na ?_ (by first | assumption | decide | (split <;> decide)) (by assumption)
        | refine seg_patch ?_ (le_refl _) (le_refl _)
        | apply seg_set_arg2
        | apply heap_alloc_seg
        | apply compiler_alloc_string_seg
        | apply compiler_alloc_bstr_seg
        | apply literal_as_bstr_seg
        | apply ih1
        | apply ih2
        | apply push_instr_hres_seg
        | apply push_instr_int_seg
        | apply push_instr_str_seg
        | apply push_instr_bstr_seg
        | apply push_instr_bstr_uint_seg
        | apply push_instr_uint_str_seg
        | apply push_instr_double_seg
        | apply push_instr_uint_seg
        | apply push_undefined_loop_seg
        | apply compile_literal_seg
        | apply compile_function_expression_seg
        | apply seg_of_segs (ih1 _)
        | apply seg_of_segs (ih2 _)
        | apply seg_of_segs (push_instr_hres_seg _ _)
        | apply seg_of_segs (push_instr_int_seg _ _ _ _)
        | apply seg_of_segs (push_instr_str_seg _ _ _ _)
        | apply seg_of_segs (push_instr_bstr_seg _ _ _ _)
        | apply seg_of_segs (push_instr_bstr_uint_seg _ _ _ _ _)
        | apply seg_of_segs (push_instr_uint_str_seg _ _ _ _ _)
        | apply seg_of_segs (push_instr_double_seg _ _ _ _)
        | apply seg_of_segs (push_instr_uint_seg _ _ _ _)
        | apply seg_of_segs (push_undefined_loop_seg _ _)
        | apply seg_of_segs (compile_literal_seg _ _)
        | apply seg_of_segs (compile_function_expression_seg _ _)
        | refine seg_of_segs (segs_ite ?_ ?_) (by assumption)
        | apply seg_ite
        | apply segs_ite
        | apply segs_fst_ite)
    | decide
    | split
    | with_reducible (apply segs_ok))

theorem compile_conditional_expression_seg_aux {P E : Nat → Prop} {B : List Nat} {F : List statement_ctx_t} {lo : Nat} {c : compiler_ctx_t} {e1 e2 e3 : expression_t}
    (ih1 : (∀ {E : Nat → Prop} {c : compiler_ctx_t}, Seg P E B F lo c →
      SegS P E B F lo (compile_expression_noret c e1 none).1))
    (ih2 : (∀ {E : Nat → Prop} {c : compiler_ctx_t}, Seg P E B F lo c →
      SegS P E B F lo (compile_expression_noret c e2 none).1))
    (ih3 : (∀ {E : Nat → Prop} {c : compiler_ctx_t}, Seg P E B F lo c →
      SegS P E B F lo (compile_expression_noret c e3 none).1))
    (h : Seg P E B F lo c) : SegS P E B F lo (compile_conditional_expression c (.mk e1 e2 e3)) := by
  rw [compile_conditional_expression.eq_def]
  try dsimp only
  repeat' (first
    | with_reducible (first
        | exact h
        | assumption
        | exact seg_mono_e h (fun _ hi => Or.inr hi)
        | exact seg_mono_e h (fun _ hi => Or.inr (Or.inr hi))
        | intro _
        | apply segs_ite_failed_self
        | apply segs_ite_failed
        | apply segs_ite_oom
        | apply segs_fst_ite_failed
        | apply segs_fst_ite_oom
        | exact segs_oom
        | refine seg_push ?_ (by first | assumption | decide | (split <;> decide))
        | refine seg_push_hres ?_ (by first | assumption | decide | (split <;> decide))
        | refine seg_push_exempt ?_ (Or.inl rfl)
        | refine seg_push_exempt ?_ (Or.inr (Or.inl rfl))
        | refine seg_push_arg_na ?_ (by first | assumption | decide | (split <;> decide)) (by assumption)
        | refine seg_patch ?_ (le_refl _) (le_refl _)
        | apply seg_set_arg2
        | apply heap_alloc_seg
        | apply compiler_alloc_string_seg
        | apply compiler_alloc_bstr_seg
        | apply literal_as_bstr_seg
        | apply ih1
        | apply ih2
        | apply ih3
        | apply push_instr_hres_seg
        | apply push_instr_int_seg
        | apply push_instr_str_seg
        | apply push_instr_bstr_seg
        | apply push_instr_bstr_uint_seg
        | apply push_instr_uint_str_seg
        | apply push_instr_double_seg
        | apply push_instr_uint_seg
        | apply push_undefined_loop_seg
        | apply compile_literal_seg
        | apply compile_function_expression_seg
        | apply seg_of_segs (ih1 _)
        | apply seg_of_segs (ih2 _)
        | apply seg_of_segs (ih3 _)
        | apply seg_of_segs (push_instr_hres_seg _ _)
        | apply seg_of_segs (push_instr_int_seg _ _ _ _)
        | apply seg_of_segs (push_instr_str_seg _ _ _ _)
        | apply seg_of_segs (push_instr_bstr_seg _ _ _ _)
        | apply seg_of_segs (push_instr_bstr_uint_seg _ _ _ _ _)
        | apply seg_of_segs (push_instr_uint_str_seg _ _ _ _ _)
        | apply seg_of_segs (push_instr_double_seg _ _ _ _)
        | apply seg_of_segs (push_instr_uint_seg _ _ _ _)
        | apply seg_of_segs (push_undefined_loop_seg _ _)
        | apply seg_of_segs (compile_literal_seg _ _)
        | apply seg_of_segs (compile_function_expression_seg _ _)
        | refine seg_of_segs (segs_ite ?_ ?_) (by assumption)
        | apply seg_ite
        | apply segs_ite
        | apply segs_fst_ite)
    | decide
    | split
    | with_reducible (apply segs_ok))

theorem compile_argument_list_seg_aux {P E : Nat → Prop} {B : List Nat} {F : List statement_ctx_t} {lo : Nat} {c : compiler_ctx_t} {e1 : expression_t} {next : argument_t} (n : Nat)
    (ih1 : (∀ {E : Nat → Prop} {c : compiler_ctx_t}, Seg P E B F lo c →
      SegS P E B F lo (compile_expression_noret c e1 none).1))
    (iha : (∀ (n : Nat) {E : Nat → Prop} {c : compiler_ctx_t}, Seg P E B F lo c →
      SegS P E B F lo (compile_argument_list c next n).1))
    (h : Seg P E B F lo c) : SegS P E B F lo (compile_argument_list c (.mk e1 next) n).1 := by
  rw [compile_argument_list.eq_def]
  try dsimp only
  repeat' (first
    | with_reducible (first
        | exact h
        | assumption
        | exact seg_mono_e h (fun _ hi => Or.inr hi)
        | exact seg_mono_e h (fun _ hi => Or.inr (Or.inr hi))
        | intro _
        | apply segs_ite_failed_self
        | apply segs_ite_failed
        | apply segs_ite_oom
        | apply segs_fst_ite_failed
        | apply segs_fst_ite_oom
        | exact segs_oom
        | refine seg_push ?_ (by first | assumption | decide | (split <;> decide))
        | refine seg_push_hres ?_ (by first | assumption | decide | (split <;> decide))
        | refine seg_push_exempt ?_ (Or.inl rfl)
        | refine seg_push_exempt ?_ (Or.inr (Or.inl rfl))
        | refine seg_push_arg_na ?_ (by first | assumption | decide | (split <;> decide)) (by assumption)
        | refine seg_patch ?_ (le_refl _) (le_refl _)
        | apply seg_set_arg2
        | apply heap_alloc_seg
        | apply compiler_alloc_string_seg
        | apply compiler_alloc_bstr_seg
        | apply literal_as_bstr_seg
        | apply ih1
        | apply iha
        | apply push_instr_hres_seg
        | apply push_instr_int_seg
        | apply push_instr_str_seg
        | apply push_instr_bstr_seg
        | apply push_instr_bstr_uint_seg
        | apply push_instr_uint_str_seg
        | apply push_instr_double_seg
        | apply push_instr_uint_seg
        | apply push_undefined_loop_seg
        | apply compile_literal_seg
        | apply compile_function_expression_seg
        | apply seg_of_segs (ih1 _)
        | apply seg_of_segs (iha _ _)
        | apply seg_of_segs (push_instr_hres_seg _ _)
        | apply seg_of_segs (push_instr_int_seg _ _ _ _)
        | apply seg_of_segs (push_instr_str_seg _ _ _ _)
        | apply seg_of_segs (push_instr_bstr_seg _ _ _ _)
        | apply seg_of_segs (push_instr_bstr_uint_seg _ _ _ _ _)
        | apply seg_of_segs (push_instr_uint_str_seg _ _ _ _ _)
        | apply seg_of_segs (push_instr_double_seg _ _ _ _)
        | apply seg_of_segs (push_instr_uint_seg _ _ _ _)
        | apply seg_of_segs (push_undefined_loop_seg _ _)
        | apply seg_of_segs (compile_literal_seg _ _)
        | apply seg_of_segs (compile_function_expression_seg _ _)
        | refine seg_of_segs (segs_ite ?_ ?_) (by assumption)
        | apply seg_ite
        | apply segs_ite
        | apply segs_fst_ite)
    | decide
    | split
    | with_reducible (apply segs_ok))

theorem compile_new_expression_seg_aux {P E : Nat → Prop} {B : List Nat} {F : List statement_ctx_t} {lo : Nat} {c : compiler_ctx_t} {e1 : expression_t} {args : argument_t}
    (ih1 : (∀ {E : Nat → Prop} {c : compiler_ctx_t}, Seg P E B F lo c →
      SegS P E B F lo (compile_expression_noret c e1 none).1))
    (iha : (∀ (n : Nat) {E : Nat → Prop} {c : compiler_ctx_t}, Seg P E B F lo c →
      SegS P E B F lo (compile_argument_list c args n).1))
    (h : Seg P E B F lo c) : SegS P E B F lo (compile_new_expression c (.mk e1 args)) := by
  rw [compile_new_expression.eq_def]
  try dsimp only
  repeat' (first
    | with_reducible (first
        | exact h
        | assumption
        | exact seg_mono_e h (fun _ hi => Or.inr hi)
        | exact seg_mono_e h (fun _ hi => Or.inr (Or.inr hi))
        | intro _
        | apply segs_ite_failed_self
        | apply segs_ite_failed
        | apply segs_ite_oom
        | apply segs_fst_ite_failed
        | apply segs_fst_ite_oom
        | exact segs_oom
        | refine seg_push ?_ (by first | assumption | decide | (split <;> decide))
        | refine seg_push_hres ?_ (by first | assumption | decide | (split <;> decide))
        | refine seg_push_exempt ?_ (Or.inl rfl)
        | refine seg_push_exempt ?_ (Or.inr (Or.inl rfl))
        | refine seg_push_arg_na ?_ (by first | assumption | decide | (split <;> decide)) (by assumption)
        | refine seg_patch ?_ (le_refl _) (le_refl _)
        | apply seg_set_arg2
        | apply heap_alloc_seg
        | apply compiler_alloc_string_seg
        | apply compiler_alloc_bstr_seg
        | apply literal_as_bstr_seg
        | apply ih1
        | apply iha
        | apply push_instr_hres_seg
        | apply push_instr_int_seg
        | apply push_instr_str_seg
        | apply push_instr_bstr_seg
        | apply push_instr_bstr_uint_seg
        | apply push_instr_uint_str_seg
        | apply push_instr_double_seg
        | apply push_instr_uint_seg
        | apply push_undefined_loop_seg
        | apply compile_literal_seg
        | apply compile_function_expression_seg
        | apply seg_of_segs (ih1 _)
        | apply seg_of_segs (iha _ _)
        | apply seg_of_segs (push_instr_hres_seg _ _)
        | apply seg_of_segs (push_instr_int_seg _ _ _ _)
        | apply seg_of_segs (push_instr_str_seg _ _ _ _)
        | apply seg_of_segs (push_instr_bstr_seg _ _ _ _)
        | apply seg_of_segs (push_instr_bstr_uint_seg _ _ _ _ _)
        | apply seg_of_segs (push_instr_uint_str_seg _ _ _ _ _)
        | apply seg_of_segs (push_instr_double_seg _ _ _ _)
        | apply seg_of_segs (push_instr_uint_seg _ _ _ _)
        | apply seg_of_segs (push_undefined_loop_seg _ _)
        | apply seg_of_segs (compile_literal_seg _ _)
        | apply seg_of_segs (compile_function_expression_seg _ _)
        | refine seg_of_segs (segs_ite ?_ ?_) (by assumption)
        | apply seg_ite
        | apply segs_ite
        | apply segs_fst_ite)
    | decide
    | split
    | with_reducible (apply segs_ok))

theorem compile_call_expression_seg_aux {P E : Nat → Prop} {B : List Nat} {F : List statement_ctx_t} {lo : Nat} {c : compiler_ctx_t} {e1 : expression_t} {args : argument_t} (no_ret : Option Bool)
    (ih1 : (∀ {E : Nat → Prop} {c : compiler_ctx_t}, Seg P E B F lo c →
      SegS P E B F lo (compile_expression_noret c e1 none).1))
    (ihm : (∀ (flags : Nat) {E : Nat → Prop} {c : compiler_ctx_t}, Seg P E B F lo c →
      SegS P E B F lo (compile_memberid_expression c e1 flags)))
    (iha : (∀ (n : Nat) {E : Nat → Prop} {c : compiler_ctx_t}, Seg P E B F lo c →
      SegS P E B F lo (compile_argument_list c args n).1))
    (h : Seg P E B F lo c) : SegS P E B F lo (compile_call_expression c (.mk e1 args) no_ret).1 := by
  rw [compile_call_expression.eq_def]
  dsimp only
  by_cases hm : is_memberid_expr e1.type = true
  on_goal 1 => simp only [if_pos hm]
  on_goal 2 => simp only [if_neg hm]
  all_goals
  repeat' (first
    | with_reducible (first
        | exact h
        | assumption
        | exact seg_mono_e h (fun _ hi => Or.inr hi)
        | exact seg_mono_e h (fun _ hi => Or.inr (Or.inr hi))
        | intro _
        | apply segs_ite_failed_self
        | apply segs_ite_failed
        | apply segs_ite_oom
        | apply segs_fst_ite_failed
        | apply segs_fst_ite_oom
        | exact segs_oom
        | refine seg_push ?_ (by first | assumption | decide | (split <;> decide))
        | refine seg_push_hres ?_ (by first | assumption | decide | (split <;> decide))
        | refine seg_push_exempt ?_ (Or.inl rfl)
        | refine seg_push_exempt ?_ (Or.inr (Or.inl rfl))
        | refine seg_push_arg_na ?_ (by first | assumption | decide | (split <;> decide)) (by assumption)
        | refine seg_patch ?_ (le_refl _) (le_refl _)
        | apply seg_set_arg2
        | apply heap_alloc_seg
        | apply compiler_alloc_string_seg
        | apply compiler_alloc_bstr_seg
        | apply literal_as_bstr_seg
        | apply ih1
        | apply ihm
        | apply iha
        | apply push_instr_hres_seg
        | apply push_instr_int_seg
        | apply push_instr_str_seg
        | apply push_instr_bstr_seg
        | apply push_instr_bstr_uint_seg
        | apply push_instr_uint_str_seg
        | apply push_instr_double_seg
        | apply push_instr_uint_seg
        | apply push_undefined_loop_seg
        | apply compile_literal_seg
        | apply compile_function_expression_seg
        | apply seg_of_segs (ih1 _)
        | apply seg_of_segs (ihm _ _)
        | apply seg_of_segs (iha _ _)
        | apply seg_of_segs (push_instr_hres_seg _ _)
        | apply seg_of_segs (push_instr_int_seg _ _ _ _)
        | apply seg_of_segs (push_instr_str_seg _ _ _ _)
        | apply seg_of_segs (push_instr_bstr_seg _ _ _ _)
        | apply seg_of_segs (push_instr_bstr_uint_seg _ _ _ _ _)
        | apply seg_of_segs (push_instr_uint_str_seg _ _ _ _ _)
        | apply seg_of_segs (push_instr_double_seg _ _ _ _)
        | apply seg_of_segs (push_instr_uint_seg _ _ _ _)
        | apply seg_of_segs (push_undefined_loop_seg _ _)
        | apply seg_of_segs (compile_literal_seg _ _)
        | apply seg_of_segs (compile_function_expression_seg _ _)
        | refine seg_of_segs (segs_ite ?_ ?_) (by assumption)
        | apply seg_ite
        | apply segs_ite
        | apply segs_fst_ite)
    | decide
    | split
    | with_reducible (apply segs_ok))

theorem compile_delete_array_seg_aux {P E : Nat → Prop} {B : List Nat} {F : List statement_ctx_t} {lo : Nat} {c : compiler_ctx_t} {e1 e2 : expression_t} (t : binary_type_t)
    (ih1 : (∀ {E : Nat → Prop} {c : compiler_ctx_t}, Seg P E B F lo c →
      SegS P E B F lo (compile_expression_noret c e1 none).1))
    (ih2 : (∀ {E : Nat → Prop} {c : compiler_ctx_t}, Seg P E B F lo c →
      SegS P E B F lo (compile_expression_noret c e2 none).1))
    (ih3 : (∀ {E : Nat → Prop} {c : compiler_ctx_t}, Seg P E B F lo c →
      SegS P E B F lo (compile_expression_noret c (.binary t (.mk e1 e2)) none).1))
    (h : Seg P E B F lo c) : SegS P E B F lo (compile_delete_expression c (.mk (.binary t (.mk e1 e2)))) := by
  rw [compile_delete_expression.eq_def]
  try dsimp only
  repeat' (first
    | with_reducible (first
        | exact h
        | assumption
        | exact seg_mono_e h (fun _ hi => Or.inr hi)
        | exact seg_mono_e h (fun _ hi => Or.inr (Or.inr hi))
        | intro _
        | apply segs_ite_failed_self
        | apply segs_ite_failed
        | apply segs_ite_oom
        | apply segs_fst_ite_failed
        | apply segs_fst_ite_oom
        | exact segs_oom
        | refine seg_push ?_ (by first | assumption | decide | (split <;> decide))
        | refine seg_push_hres ?_ (by first | assumption | decide | (split <;> decide))
        | refine seg_push_exempt ?_ (Or.inl rfl)
        | refine seg_push_exempt ?_ (Or.inr (Or.inl rfl))
        | refine seg_push_arg_na ?_ (by first | assumption | decide | (split <;> decide)) (by assumption)
        | refine seg_patch ?_ (le_refl _) (le_refl _)
        | apply seg_set_arg2
        | apply heap_alloc_seg
        | apply compiler_alloc_string_seg
        | apply compiler_alloc_bstr_seg
        | apply literal_as_bstr_seg
        | apply ih1
        | apply ih2
        | apply ih3
        | apply push_instr_hres_seg
        | apply push_instr_int_seg
        | apply push_instr_str_seg
        | apply push_instr_bstr_seg
        | apply push_instr_bstr_uint_seg
        | apply push_instr_uint_str_seg
        | apply push_instr_double_seg
        | apply push_instr_uint_seg
        | apply push_undefined_loop_seg
        | apply compile_literal_seg
        | apply compile_function_expression_seg
        | apply seg_of_segs (ih1 _)
        | apply seg_of_segs (ih2 _)
        | apply seg_of_segs (ih3 _)
        | apply seg_of_segs (push_instr_hres_seg _ _)
        | apply seg_of_segs (push_instr_int_seg _ _ _ _)
        | apply seg_of_segs (push_instr_str_seg _ _ _ _)
        | apply seg_of_segs (push_instr_bstr_seg _ _ _ _)
        | apply seg_of_segs (push_instr_bstr_uint_seg _ _ _ _ _)
        | apply seg_of_segs (push_instr_uint_str_seg _ _ _ _ _)
        | apply seg_of_segs (push_instr_double_seg _ _ _ _)
        | apply seg_of_segs (push_instr_uint_seg _ _ _ _)
        | apply seg_of_segs (push_undefined_loop_seg _ _)
        | apply seg_of_segs (compile_literal_seg _ _)
        | apply seg_of_segs (compile_function_expression_seg _ _)
        | refine seg_of_segs (segs_ite ?_ ?_) (by assumption)
        | apply seg_ite
        | apply segs_ite
        | apply segs_fst_ite)
    | decide
    | split
    | with_reducible (apply segs_ok))

theorem compile_delete_member_seg_aux {P E : Nat → Prop} {B : List Nat} {F : List statement_ctx_t} {lo : Nat} {c : compiler_ctx_t} {e1 : expression_t} (i : String)
    (ih1 : (∀ {E : Nat → Prop} {c : compiler_ctx_t}, Seg P E B F lo c →
      SegS P E B F lo (compile_expression_noret c e1 none).1))
    (ih3 : (∀ {E : Nat → Prop} {c : compiler_ctx_t}, Seg P E B F lo c →
      SegS P E B F lo (compile_expression_noret c (.EXPR_MEMBER (.mk e1 i)) none).1))
    (h : Seg P E B F lo c) : SegS P E B F lo (compile_delete_expression c (.mk (.EXPR_MEMBER (.mk e1 i)))) := by
  rw [compile_delete_expression.eq_def]
  try dsimp only
  repeat' (first
    | with_reducible (first
        | exact h
        | assumption
        | exact seg_mono_e h (fun _ hi => Or.inr hi)
        | exact seg_mono_e h (fun _ hi => Or.inr (Or.inr hi))
        | intro _
        | apply segs_ite_failed_self
        | apply segs_ite_failed
        | apply segs_ite_oom
        | apply segs_fst_ite_failed
        | apply segs_fst_ite_oom
        | exact segs_oom
        | refine seg_push ?_ (by first | assumption | decide | (split <;> decide))
        | refine seg_push_hres ?_ (by first | assumption | decide | (split <;> decide))
        | refine seg_push_exempt ?_ (Or.inl rfl)
        | refine seg_push_exempt ?_ (Or.inr (Or.inl rfl))
        | refine seg_push_arg_na ?_ (by first | assumption | decide | (split <;> decide)) (by assumption)
        | refine seg_patch ?_ (le_refl _) (le_refl _)
        | apply seg_set_arg2
        | apply heap_alloc_seg
        | apply compiler_alloc_string_seg
        | apply compiler_alloc_bstr_seg
        | apply literal_as_bstr_seg
        | apply ih1
        | apply ih3
        | apply push_instr_hres_seg
        | apply push_instr_int_seg
        | apply push_instr_str_seg
        | apply push_instr_bstr_seg
        | apply push_instr_bstr_uint_seg
        | apply push_instr_uint_str_seg
        | apply push_instr_double_seg
        | apply push_instr_uint_seg
        | apply push_undefined_loop_seg
        | apply compile_literal_seg
        | apply compile_function_expression_seg
        | apply seg_of_segs (ih1 _)
        | apply seg_of_segs (ih3 _)
        | apply seg_of_segs (push_instr_hres_seg _ _)
        | apply seg_of_segs (push_instr_int_seg _ _ _ _)
        | apply seg_of_segs (push_instr_str_seg _ _ _ _)
        | apply seg_of_segs (push_instr_bstr_seg _ _ _ _)
        | apply seg_of_segs (push_instr_bstr_uint_seg _ _ _ _ _)
        | apply seg_of_segs (push_instr_uint_str_seg _ _ _ _ _)
        | apply seg_of_segs (push_instr_double_seg _ _ _ _)
        | apply seg_of_segs (push_instr_uint_seg _ _ _ _)
        | apply seg_of_segs (push_undefined_loop_seg _ _)
        | apply seg_of_segs (compile_literal_seg _ _)
        | apply seg_of_segs (compile_function_expression_seg _ _)
        | refine seg_of_segs (segs_ite ?_ ?_) (by assumption)
        | apply seg_ite
        | apply segs_ite
        | apply segs_fst_ite)
    | decide
    | split
    | with_reducible (apply segs_ok))

theorem compile_delete_other_seg_aux {P E : Nat → Prop} {B : List Nat} {F : List statement_ctx_t} {lo : Nat} {c : compiler_ctx_t} {e1 : expression_t}
    (ih1 : (∀ {E : Nat → Prop} {c : compiler_ctx_t}, Seg P E B F lo c →
      SegS P E B F lo (compile_expression_noret c e1 none).1))
    (hty : e1.type ≠ .EXPR_ARRAY ∧ e1.type ≠ .EXPR_MEMBER)
    (h : Seg P E B F lo c) : SegS P E B F lo (compile_delete_expression c (.mk e1)) := by
  rw [compile_delete_expression.eq_def]
  dsimp only
  rw [if_neg hty.1, if_neg hty.2]
  repeat' (first
    | with_reducible (first
        | exact h
        | assumption
        | exact seg_mono_e h (fun _ hi => Or.inr hi)
        | exact seg_mono_e h (fun _ hi => Or.inr (Or.inr hi))
        | intro _
        | apply segs_ite_failed_self
        | apply segs_ite_failed
        | apply segs_ite_oom
        | apply segs_fst_ite_failed
        | apply segs_fst_ite_oom
        | exact segs_oom
        | refine seg_push ?_ (by first | assumption | decide | (split <;> decide))
        | refine seg_push_hres ?_ (by first | assumption | decide | (split <;> decide))
        | refine seg_push_exempt ?_ (Or.inl rfl)
        | refine seg_push_exempt ?_ (Or.inr (Or.inl rfl))
        | refine seg_push_arg_na ?_ (by first | assumption | decide | (split <;> decide)) (by assumption)
        | refine seg_patch ?_ (le_refl _) (le_refl _)
        | apply seg_set_arg2
        | apply heap_alloc_seg
        | apply compiler_alloc_string_seg
        | apply compiler_alloc_bstr_seg
        | apply literal_as_bstr_seg
        | apply ih1
        | apply push_instr_hres_seg
        | apply push_instr_int_seg
        | apply push_instr_str_seg
        | apply push_instr_bstr_seg
        | apply push_instr_bstr_uint_seg
        | apply push_instr_uint_str_seg
        | apply push_instr_double_seg
        | apply push_instr_uint_seg
        | apply push_undefined_loop_seg
        | apply compile_literal_seg
        | apply compile_function_expression_seg
        | apply seg_of_segs (ih1 _)
        | apply seg_of_segs (push_instr_hres_seg _ _)
        | apply seg_of_segs (push_instr_int_seg _ _ _ _)
        | apply seg_of_segs (push_instr_str_seg _ _ _ _)
        | apply seg_of_segs (push_instr_bstr_seg _ _ _ _)
        | apply seg_of_segs (push_instr_bstr_uint_seg _ _ _ _ _)
        | apply seg_of_segs (push_instr_uint_str_seg _ _ _ _ _)
        | apply seg_of_segs (push_instr_double_seg _ _ _ _)
        | apply seg_of_segs (push_instr_uint_seg _ _ _ _)
        | apply seg_of_segs (push_undefined_loop_seg _ _)
        | apply seg_of_segs (compile_literal_seg _ _)
        | apply seg_of_segs (compile_function_expression_seg _ _)
        | refine seg_of_segs (segs_ite ?_ ?_) (by assumption)
        | apply seg_ite
        | apply segs_ite
        | apply segs_fst_ite)
    | decide
    | split
    | with_reducible (apply segs_ok))

theorem compile_assign_expression_seg_aux {P E : Nat → Prop} {B : List Nat} {F : List statement_ctx_t} {lo : Nat} {c : compiler_ctx_t} {e1 e2 : expression_t} (op : jsop_t)
    (ih1 : (∀ {E : Nat → Prop} {c : compiler_ctx_t}, Seg P E B F lo c →
      SegS P E B F lo (compile_expression_noret c e1 none).1))
    (ihm : (∀ (flags : Nat) {E : Nat → Prop} {c : compiler_ctx_t}, Seg P E B F lo c →
      SegS P E B F lo (compile_memberid_expression c e1 flags)))
    (ih2 : (∀ {E : Nat → Prop} {c : compiler_ctx_t}, Seg P E B F lo c →
      SegS P E B F lo (compile_expression_noret c e2 none).1))
    (hop : instr_info_arg1_type op ≠ ARG_ADDR)
    (h : Seg P E B F lo c) : SegS P E B F lo (compile_assign_expression c (.mk e1 e2) op) := by
  rw [compile_assign_expression.eq_def]
  dsimp only
  by_cases ho : op ≠ OP_LAST
  on_goal 1 => simp only [if_pos ho]
  on_goal 2 => simp only [if_neg ho]
  all_goals
  repeat' (first
    | with_reducible (first
        | exact h
        | assumption
        | exact seg_mono_e h (fun _ hi => Or.inr hi)
        | exact seg_mono_e h (fun _ hi => Or.inr (Or.inr hi))
        | intro _
        | apply segs_ite_failed_self
        | apply segs_ite_failed
        | apply segs_ite_oom
        | apply segs_fst_ite_failed
        | apply segs_fst_ite_oom
        | exact segs_oom
        | refine seg_push ?_ (by first | assumption | decide | (split <;> decide))
        | refine seg_push_hres ?_ (by first | assumption | decide | (split <;> decide))
        | refine seg_push_exempt ?_ (Or.inl rfl)
        | refine seg_push_exempt ?_ (Or.inr (Or.inl rfl))
        | refine seg_push_arg_na ?_ (by first | assumption | decide | (split <;> decide)) (by assumption)
        | refine seg_patch ?_ (le_refl _) (le_refl _)
        | apply seg_set_arg2
        | apply heap_alloc_seg
        | apply compiler_alloc_string_seg
        | apply compiler_alloc_bstr_seg
        | apply literal_as_bstr_seg
        | apply ih1
        | apply ihm
        | apply ih2
        | apply push_instr_hres_seg
        | apply push_instr_int_seg
        | apply push_instr_str_seg
        | apply push_instr_bstr_seg
        | apply push_instr_bstr_uint_seg
        | apply push_instr_uint_str_seg
        | apply push_instr_double_seg
        | apply push_instr_uint_seg
        | apply push_undefined_loop_seg
        | apply compile_literal_seg
        | apply compile_function_expression_seg
        | apply seg_of_segs (ih1 _)
        | apply seg_of_segs (ihm _ _)
        | apply seg_of_segs (ih2 _)
        | apply seg_of_segs (push_instr_hres_seg _ _)
        | apply seg_of_segs (push_instr_int_seg _ _ _ _)
        | apply seg_of_segs (push_instr_str_seg _ _ _ _)
        | apply seg_of_segs (push_instr_bstr_seg _ _ _ _)
        | apply seg_of_segs (push_instr_bstr_uint_seg _ _ _ _ _)
        | apply seg_of_segs (push_instr_uint_str_seg _ _ _ _ _)
        | apply seg_of_segs (push_instr_double_seg _ _ _ _)
        | apply seg_of_segs (push_instr_uint_seg _ _ _ _)
        | apply seg_of_segs (push_undefined_loop_seg _ _)
        | apply seg_of_segs (compile_literal_seg _ _)
        | apply seg_of_segs (compile_function_expression_seg _ _)
        | refine seg_of_segs (segs_ite ?_ ?_) (by assumption)
        | apply seg_ite
        | apply segs_ite
        | apply segs_fst_ite)
    | decide
    | split
    | with_reducible (apply segs_ok))

theorem compile_typeof_expression_seg_aux {P E : Nat → Prop} {B : List Nat} {F : List statement_ctx_t} {lo : Nat} {c : compiler_ctx_t} {e1 : expression_t}
    (ih1 : (∀ {E : Nat → Prop} {c : compiler_ctx_t}, Seg P E B F lo c →
      SegS P E B F lo (compile_expression_noret c e1 none).1))
    (ihm : (∀ (flags : Nat) {E : Nat → Prop} {c : compiler_ctx_t}, Seg P E B F lo c →
      SegS P E B F lo (compile_memberid_expression c e1 flags)))
    (h : Seg P E B F lo c) : SegS P E B F lo (compile_typeof_expression c (.mk e1)) := by
  rw [compile_typeof_expression.eq_def]
  try dsimp only
  repeat' (first
    | with_reducible (first
        | exact h
        | assumption
        | exact seg_mono_e h (fun _ hi => Or.inr hi)
        | exact seg_mono_e h (fun _ hi => Or.inr (Or.inr hi))
        | intro _
        | apply segs_ite_failed_self
        | apply segs_ite_failed
        | apply segs_ite_oom
        | apply segs_fst_ite_failed
        | apply segs_fst_ite_oom
        | exact segs_oom
        | refine seg_push ?_ (by first | assumption | decide | (split <;> decide))
        | refine seg_push_hres ?_ (by first | assumption | decide | (split <;> decide))
        | refine seg_push_exempt ?_ (Or.inl rfl)
        | refine seg_push_exempt ?_ (Or.inr (Or.inl rfl))
        | refine seg_push_arg_na ?_ (by first | assumption | decide | (split <;> decide)) (by assumption)
        | refine seg_patch ?_ (le_refl _) (le_refl _)
        | apply seg_set_arg2
        | apply heap_alloc_seg
        | apply compiler_alloc_string_seg
        | apply compiler_alloc_bstr_seg
        | apply literal_as_bstr_seg
        | apply ih1
        | apply ihm
        | apply push_instr_hres_seg
        | apply push_instr_int_seg
        | apply push_instr_str_seg
        | apply push_instr_bstr_seg
        | apply push_instr_bstr_uint_seg
        | apply push_instr_uint_str_seg
        | apply push_instr_double_seg
        | apply push_instr_uint_seg
        | apply push_undefined_loop_seg
        | apply compile_literal_seg
        | apply compile_function_expression_seg
        | apply seg_of_segs (ih1 _)
        | apply seg_of_segs (ihm _ _)
        | apply seg_of_segs (push_instr_hres_seg _ _)
        | apply seg_of_segs (push_instr_int_seg _ _ _ _)
        | apply seg_of_segs (push_instr_str_seg _ _ _ _)
        | apply seg_of_segs (push_instr_bstr_seg _ _ _ _)
        | apply seg_of_segs (push_instr_bstr_uint_seg _ _ _ _ _)
        | apply seg_of_segs (push_instr_uint_str_seg _ _ _ _ _)
        | apply seg_of_segs (push_instr_double_seg _ _ _ _)
        | apply seg_of_segs (push_instr_uint_seg _ _ _ _)
        | apply seg_of_segs (push_undefined_loop_seg _ _)
        | apply seg_of_segs (compile_literal_seg _ _)
        | apply seg_of_segs (compile_function_expression_seg _ _)
        | refine seg_of_segs (segs_ite ?_ ?_) (by assumption)
        | apply seg_ite
        | apply segs_ite
        | apply segs_fst_ite)
    | decide
    | split
    | with_reducible (apply segs_ok))

theorem compile_array_elements_seg_aux {P E : Nat → Prop} {B : List Nat} {F : List statement_ctx_t} {lo : Nat} {c : compiler_ctx_t} {e1 : expression_t} {next : array_element_t} (elision n : Nat)
    (ih1 : (∀ {E : Nat → Prop} {c : compiler_ctx_t}, Seg P E B F lo c →
      SegS P E B F lo (compile_expression_noret c e1 none).1))
    (ihn : (∀ (n : Nat) {E : Nat → Prop} {c : compiler_ctx_t}, Seg P E B F lo c →
      SegS P E B F lo (compile_array_elements c next n).1))
    (h : Seg P E B F lo c) : SegS P E B F lo (compile_array_elements c (.mk elision e1 next) n).1 := by
  rw [compile_array_elements.eq_def]
  try dsimp only
  repeat' (first
    | with_reducible (first
        | exact h
        | assumption
        | exact seg_mono_e h (fun _ hi => Or.inr hi)
        | exact seg_mono_e h (fun _ hi => Or.inr (Or.inr hi))
        | intro _
        | apply segs_ite_failed_self
        | apply segs_ite_failed
        | apply segs_ite_oom
        | apply segs_fst_ite_failed
        | apply segs_fst_ite_oom
        | exact segs_oom
        | refine seg_push ?_ (by first | assumption | decide | (split <;> decide))
        | refine seg_push_hres ?_ (by first | assumption | decide | (split <;> decide))
        | refine seg_push_exempt ?_ (Or.inl rfl)
        | refine seg_push_exempt ?_ (Or.inr (Or.inl rfl))
        | refine seg_push_arg_na ?_ (by first | assumption | decide | (split <;> decide)) (by assumption)
        | refine seg_patch ?_ (le_refl _) (le_refl _)
        | apply seg_set_arg2
        | apply heap_alloc_seg
        | apply compiler_alloc_string_seg
        | apply compiler_alloc_bstr_seg
        | apply literal_as_bstr_seg
        | apply ih1
        | apply ihn
        | apply push_instr_hres_seg
        | apply push_instr_int_seg
        | apply push_instr_str_seg
        | apply push_instr_bstr_seg
        | apply push_instr_bstr_uint_seg
        | apply push_instr_uint_str_seg
        | apply push_instr_double_seg
        | apply push_instr_uint_seg
        | apply push_undefined_loop_seg
        | apply compile_literal_seg
        | apply compile_function_expression_seg
        | apply seg_of_segs (ih1 _)
        | apply seg_of_segs (ihn _ _)
        | apply seg_of_segs (push_instr_hres_seg _ _)
        | apply seg_of_segs (push_instr_int_seg _ _ _ _)
        | apply seg_of_segs (push_instr_str_seg _ _ _ _)
        | apply seg_of_segs (push_instr_bstr_seg _ _ _ _)
        | apply seg_of_segs (push_instr_bstr_uint_seg _ _ _ _ _)
        | apply seg_of_segs (push_instr_uint_str_seg _ _ _ _ _)
        | apply seg_of_segs (push_instr_double_seg _ _ _ _)
        | apply seg_of_segs (push_instr_uint_seg _ _ _ _)
        | apply seg_of_segs (push_undefined_loop_seg _ _)
        | apply seg_of_segs (compile_literal_seg _ _)
        | apply seg_of_segs (compile_function_expression_seg _ _)
        | refine seg_of_segs (segs_ite ?_ ?_) (by assumption)
        | apply seg_ite
        | apply segs_ite
        | apply segs_fst_ite)
    | decide
    | split
    | with_reducible (apply segs_ok))

theorem compile_array_literal_seg_aux {P E : Nat → Prop} {B : List Nat} {F : List statement_ctx_t} {lo : Nat} {c : compiler_ctx_t} {l : array_element_t} (n : Nat)
    (ihl : (∀ (n : Nat) {E : Nat → Prop} {c : compiler_ctx_t}, Seg P E B F lo c →
      SegS P E B F lo (compile_array_elements c l n).1))
    (h : Seg P E B F lo c) : SegS P E B F lo (compile_array_literal c (.mk l n)) := by
  rw [compile_array_literal.eq_def]
  try dsimp only
  repeat' (first
    | with_reducible (first
        | exact h
        | assumption
        | exact seg_mono_e h (fun _ hi => Or.inr hi)
        | exact seg_mono_e h (fun _ hi => Or.inr (Or.inr hi))
        | intro _
        | apply segs_ite_failed_self
        | apply segs_ite_failed
        | apply segs_ite_oom
        | apply segs_fst_ite_failed
        | apply segs_fst_ite_oom
        | exact segs_oom
        | refine seg_push ?_ (by first | assumption | decide | (split <;> decide))
        | refine seg_push_hres ?_ (by first | assumption | decide | (split <;> decide))
        | refine seg_push_exempt ?_ (Or.inl rfl)
        | refine seg_push_exempt ?_ (Or.inr (Or.inl rfl))
        | refine seg_push_arg_na ?_ (by first | assumption | decide | (split <;> decide)) (by assumption)
        | refine seg_patch ?_ (le_refl _) (le_refl _)
        | apply seg_set_arg2
        | apply heap_alloc_seg
        | apply compiler_alloc_string_seg
        | apply compiler_alloc_bstr_seg
        | apply literal_as_bstr_seg
        | apply ihl
        | apply push_instr_hres_seg
        | apply push_instr_int_seg
        | apply push_instr_str_seg
        | apply push_instr_bstr_seg
        | apply push_instr_bstr_uint_seg
        | apply push_instr_uint_str_seg
        | apply push_instr_double_seg
        | apply push_instr_uint_seg
        | apply push_undefined_loop_seg
        | apply compile_literal_seg
        | apply compile_function_expression_seg
        | apply seg_of_segs (ihl _ _)
        | apply seg_of_segs (push_instr_hres_seg _ _)
        | apply seg_of_segs (push_instr_int_seg _ _ _ _)
        | apply seg_of_segs (push_instr_str_seg _ _ _ _)
        | apply seg_of_segs (push_instr_bstr_seg _ _ _ _)
        | apply seg_of_segs (push_instr_bstr_uint_seg _ _ _ _ _)
        | apply seg_of_segs (push_instr_uint_str_seg _ _ _ _ _)
        | apply seg_of_segs (push_instr_double_seg _ _ _ _)
        | apply seg_of_segs (push_instr_uint_seg _ _ _ _)
        | apply seg_of_segs (push_undefined_loop_seg _ _)
        | apply seg_of_segs (compile_literal_seg _ _)
        | apply seg_of_segs (compile_function_expression_seg _ _)
        | refine seg_of_segs (segs_ite ?_ ?_) (by assumption)
        | apply seg_ite
        | apply segs_ite
        | apply segs_fst_ite)
    | decide
    | split
    | with_reducible (apply segs_ok))

theorem compile_property_list_seg_aux {P E : Nat → Prop} {B : List Nat} {F : List statement_ctx_t} {lo : Nat} {c : compiler_ctx_t} {e1 : expression_t} {next : prop_val_t} (name : literal_t)
    (ih1 : (∀ {E : Nat → Prop} {c : compiler_ctx_t}, Seg P E B F lo c →
      SegS P E B F lo (compile_expression_noret c e1 none).1))
    (ihn : (∀ {E : Nat → Prop} {c : compiler_ctx_t}, Seg P E B F lo c →
      SegS P E B F lo (compile_property_list c next)))
    (h : Seg P E B F lo c) : SegS P E B F lo (compile_property_list c (.mk name e1 next)) := by
  rw [compile_property_list.eq_def]
  try dsimp only
  repeat' (first
    | with_reducible (first
        | exact h
        | assumption
        | exact seg_mono_e h (fun _ hi => Or.inr hi)
        | exact seg_mono_e h (fun _ hi => Or.inr (Or.inr hi))
        | intro _
        | apply segs_ite_failed_self
        | apply segs_ite_failed
        | apply segs_ite_oom
        | apply segs_fst_ite_failed
        | apply segs_fst_ite_oom
        | exact segs_oom
        | refine seg_push ?_ (by first | assumption | decide | (split <;> decide))
        | refine seg_push_hres ?_ (by first | assumption | decide | (split <;> decide))
        | refine seg_push_exempt ?_ (Or.inl rfl)
        | refine seg_push_exempt ?_ (Or.inr (Or.inl rfl))
        | refine seg_push_arg_na ?_ (by first | assumption | decide | (split <;> decide)) (by assumption)
        | refine seg_patch ?_ (le_refl _) (le_refl _)
        | apply seg_set_arg2
        | apply heap_alloc_seg
        | apply compiler_alloc_string_seg
        | apply compiler_alloc_bstr_seg
        | apply literal_as_bstr_seg
        | apply ih1
        | apply ihn
        | apply push_instr_hres_seg
        | apply push_instr_int_seg
        | apply push_instr_str_seg
        | apply push_instr_bstr_seg
        | apply push_instr_bstr_uint_seg
        | apply push_instr_uint_str_seg
        | apply push_instr_double_seg
        | apply push_instr_uint_seg
        | apply push_undefined_loop_seg
        | apply compile_literal_seg
        | apply compile_function_expression_seg
        | apply seg_of_segs (ih1 _)
        | apply seg_of_segs (ihn _)
        | apply seg_of_segs (push_instr_hres_seg _ _)
        | apply seg_of_segs (push_instr_int_seg _ _ _ _)
        | apply seg_of_segs (push_instr_str_seg _ _ _ _)
        | apply seg_of_segs (push_instr_bstr_seg _ _ _ _)
        | apply seg_of_segs (push_instr_bstr_uint_seg _ _ _ _ _)
        | apply seg_of_segs (push_instr_uint_str_seg _ _ _ _ _)
        | apply seg_of_segs (push_instr_double_seg _ _ _ _)
        | apply seg_of_segs (push_instr_uint_seg _ _ _ _)
        | apply seg_of_segs (push_undefined_loop_seg _ _)
        | apply seg_of_segs (compile_literal_seg _ _)
        | apply seg_of_segs (compile_function_expression_seg _ _)
        | refine seg_of_segs (segs_ite ?_ ?_) (by assumption)
        | apply seg_ite
        | apply segs_ite
        | apply segs_fst_ite)
    | decide
    | split
    | with_reducible (apply segs_ok))

theorem compile_object_literal_seg_aux {P E : Nat → Prop} {B : List Nat} {F : List statement_ctx_t} {lo : Nat} {c : compiler_ctx_t} {l : prop_val_t}
    (ihn : (∀ {E : Nat → Prop} {c : compiler_ctx_t}, Seg P E B F lo c →
      SegS P E B F lo (compile_property_list c l)))
    (h : Seg P E B F lo c) : SegS P E B F lo (compile_object_literal c (.mk l)) := by
  rw [compile_object_literal.eq_def]
  try dsimp only
  repeat' (first
    | with_reducible (first
        | exact h
        | assumption
        | exact seg_mono_e h (fun _ hi => Or.inr hi)
        | exact seg_mono_e h (fun _ hi => Or.inr (Or.inr hi))
        | intro _
        | apply segs_ite_failed_self
        | apply segs_ite_failed
        | apply segs_ite_oom
        | apply segs_fst_ite_failed
        | apply segs_fst_ite_oom
        | exact segs_oom
        | refine seg_push ?_ (by first | assumption | decide | (split <;> decide))
        | refine seg_push_hres ?_ (by first | assumption | decide | (split <;> decide))
        | refine seg_push_exempt ?_ (Or.inl rfl)
        | refine seg_push_exempt ?_ (Or.inr (Or.inl rfl))
        | refine seg_push_arg_na ?_ (by first | assumption | decide | (split <;> decide)) (by assumption)
        | refine seg_patch ?_ (le_refl _) (le_refl _)
        | apply seg_set_arg2
        | apply heap_alloc_seg
        | apply compiler_alloc_string_seg
        | apply compiler_alloc_bstr_seg
        | apply literal_as_bstr_seg
        | apply ihn
        | apply push_instr_hres_seg
        | apply push_instr_int_seg
        | apply push_instr_str_seg
        | apply push_instr_bstr_seg
        | apply push_instr_bstr_uint_seg
        | apply push_instr_uint_str_seg
        | apply push_instr_double_seg
        | apply push_instr_uint_seg
        | apply push_undefined_loop_seg
        | apply compile_literal_seg
        | apply compile_function_expression_seg
        | apply seg_of_segs (ihn _)
        | apply seg_of_segs (push_instr_hres_seg _ _)
        | apply seg_of_segs (push_instr_int_seg _ _ _ _)
        | apply seg_of_segs (push_instr_str_seg _ _ _ _)
        | apply seg_of_segs (push_instr_bstr_seg _ _ _ _)
        | apply seg_of_segs (push_instr_bstr_uint_seg _ _ _ _ _)
        | apply seg_of_segs (push_instr_uint_str_seg _ _ _ _ _)
        | apply seg_of_segs (push_instr_double_seg _ _ _ _)
        | apply seg_of_segs (push_instr_uint_seg _ _ _ _)
        | apply seg_of_segs (push_undefined_loop_seg _ _)
        | apply seg_of_segs (compile_literal_seg _ _)
        | apply seg_of_segs (compile_function_expression_seg _ _)
        | refine seg_of_segs (segs_ite ?_ ?_) (by assumption)
        | apply seg_ite
        | apply segs_ite
        | apply segs_fst_ite)
    | decide
    | split
    | with_reducible (apply segs_ok))

mutual
theorem compile_expression_noret_seg {P : Nat → Prop} {B : List Nat} {F : List statement_ctx_t} {lo : Nat} :
    ∀ (e : expression_t) (no_ret : Option Bool) {E : Nat → Prop} {c : compiler_ctx_t},
      Seg P E B F lo c → SegS P E B F lo (compile_expression_noret c e no_ret).1
  | .binary type expr, no_ret, E, c, h => by
    cases type <;> rw [compile_expression_noret] <;>
    first
      | with_reducible exact compile_binary_expression_seg _ _ (by decide) h
      | with_reducible exact compile_binary_expression_seg _ _ _ (by decide) h
      | with_reducible exact compile_binary_expression_seg _ _ h
      | with_reducible exact compile_binary_expression_seg _ h
      | with_reducible exact compile_logical_expression_seg _ _ (by decide) h
      | with_reducible exact compile_logical_expression_seg _ _ _ (by decide) h
      | with_reducible exact compile_logical_expression_seg _ _ h
      | with_reducible exact compile_logical_expression_seg _ h
      | with_reducible exact compile_assign_expression_seg _ _ (by decide) h
      | with_reducible exact compile_assign_expression_seg _ _ _ (by decide) h
      | with_reducible exact compile_assign_expression_seg _ _ h
      | with_reducible exact compile_assign_expression_seg _ h
      | with_reducible exact compile_comma_expression_seg _ _ (by decide) h
      | with_reducible exact compile_comma_expression_seg _ _ _ (by decide) h
      | with_reducible exact compile_comma_expression_seg _ _ h
      | with_reducible exact compile_comma_expression_seg _ h
      | with_reducible exact compile_unary_expression_seg _ _ (by decide) h
      | with_reducible exact compile_unary_expression_seg _ _ _ (by decide) h
      | with_reducible exact compile_unary_expression_seg _ _ h
      | with_reducible exact compile_unary_expression_seg _ h
      | with_reducible exact compile_delete_expression_seg _ _ (by decide) h
      | with_reducible exact compile_delete_expression_seg _ _ _ (by decide) h
      | with_reducible exact compile_delete_expression_seg _ _ h
      | with_reducible exact compile_delete_expression_seg _ h
      | with_reducible exact compile_increment_expression_seg _ _ (by decide) h
      | with_reducible exact compile_increment_expression_seg _ _ _ (by decide) h
      | with_reducible exact compile_increment_expression_seg _ _ h
      | with_reducible exact compile_increment_expression_seg _ h
      | with_reducible exact compile_typeof_expression_seg _ _ (by decide) h
      | with_reducible exact compile_typeof_expression_seg _ _ _ (by decide) h
      | with_reducible exact compile_typeof_expression_seg _ _ h
      | with_reducible exact compile_typeof_expression_seg _ h
  | .unary type expr, no_ret, E, c, h => by
    cases type <;> rw [compile_expression_noret] <;>
    first
      | with_reducible exact compile_binary_expression_seg _ _ (by decide) h
      | with_reducible exact compile_binary_expression_seg _ _ _ (by decide) h
      | with_reducible exact compile_binary_expression_seg _ _ h
      | with_reducible exact compile_binary_expression_seg _ h
      | with_reducible exact compile_logical_expression_seg _ _ (by decide) h
      | with_reducible exact compile_logical_expression_seg _ _ _ (by decide) h
      | with_reducible exact compile_logical_expression_seg _ _ h
      | with_reducible exact compile_logical_expression_seg _ h
      | with_reducible exact compile_assign_expression_seg _ _ (by decide) h
      | with_reducible exact compile_assign_expression_seg _ _ _ (by decide) h
      | with_reducible exact compile_assign_expression_seg _ _ h
      | with_reducible exact compile_assign_expression_seg _ h
      | with_reducible exact compile_comma_expression_seg _ _ (by decide) h
      | with_reducible exact compile_comma_expression_seg _ _ _ (by decide) h
      | with_reducible exact compile_comma_expression_seg _ _ h
      | with_reducible exact compile_comma_expression_seg _ h
      | with_reducible exact compile_unary_expression_seg _ _ (by decide) h
      | with_reducible exact compile_unary_expression_seg _ _ _ (by decide) h
      | with_reducible exact compile_unary_expression_seg _ _ h
      | with_reducible exact compile_unary_expression_seg _ h
      | with_reducible exact compile_delete_expression_seg _ _ (by decide) h
      | with_reducible exact compile_delete_expression_seg _ _ _ (by decide) h
      | with_reducible exact compile_delete_expression_seg _ _ h
      | with_reducible exact compile_delete_expression_seg _ h
      | with_reducible exact compile_increment_expression_seg _ _ (by decide) h
      | with_reducible exact compile_increment_expression_seg _ _ _ (by decide) h
      | with_reducible exact compile_increment_expression_seg _ _ h
      | with_reducible exact compile_increment_expression_seg _ h
      | with_reducible exact compile_typeof_expression_seg _ _ (by decide) h
      | with_reducible exact compile_typeof_expression_seg _ _ _ (by decide) h
      | with_reducible exact compile_typeof_expression_seg _ _ h
      | with_reducible exact compile_typeof_expression_seg _ h
  | .EXPR_CALL expr, no_ret, E, c, h => by
    rw [compile_expression_noret]; exact compile_call_expression_seg expr no_ret h
  | .EXPR_COND expr, no_ret, E, c, h => by
    rw [compile_expression_noret]; exact compile_conditional_expression_seg expr h
  | .EXPR_FUNC expr, no_ret, E, c, h => by
    rw [compile_expression_noret]; exact compile_function_expression_seg expr h
  | .EXPR_IDENT expr, no_ret, E, c, h => by
    rw [compile_expression_noret]; exact push_instr_bstr_seg _ _ h (by decide)
  | .EXPR_LITERAL expr, no_ret, E, c, h => by
    rw [compile_expression_noret]; exact compile_literal_seg _ h
  | .EXPR_MEMBER expr, no_ret, E, c, h => by
    rw [compile_expression_noret]; exact compile_member_expression_seg expr h
  | .EXPR_NEW expr, no_ret, E, c, h => by
    rw [compile_expression_noret]; exact compile_new_expression_seg expr h
  | .EXPR_PROPVAL expr, no_ret, E, c, h => by
    rw [compile_expression_noret]; exact compile_object_literal_seg expr h
  | .EXPR_ARRAYLIT expr, no_ret, E, c, h => by
    rw [compile_expression_noret]; exact compile_array_literal_seg expr h
  | .EXPR_THIS, no_ret, E, c, h => by
    rw [compile_expression_noret]; exact push_instr_hres_seg h (by decide)

theorem compile_binary_expression_seg {P : Nat → Prop} {B : List Nat} {F : List statement_ctx_t} {lo : Nat} :
    ∀ (e : binary_expression_t) (op : jsop_t) (_ : instr_info_arg1_type op ≠ ARG_ADDR) {E : Nat → Prop} {c : compiler_ctx_t},
      Seg P E B F lo c → SegS P E B F lo (compile_binary_expression c e op)
  | .mk e1 e2, op, hop, E, c, h => compile_binary_expression_seg_aux op (compile_expression_noret_seg e1 none) (compile_expression_noret_seg e2 none) hop h

theorem compile_unary_expression_seg {P : Nat → Prop} {B : List Nat} {F : List statement_ctx_t} {lo : Nat} :
    ∀ (e : unary_expression_t) (op : jsop_t) (_ : instr_info_arg1_type op ≠ ARG_ADDR) {E : Nat → Prop} {c : compiler_ctx_t},
      Seg P E B F lo c → SegS P E B F lo (compile_unary_expression c e op)
  | .mk e1, op, hop, E, c, h => compile_unary_expression_seg_aux op (compile_expression_noret_seg e1 none) hop h

theorem compile_member_expression_seg {P : Nat → Prop} {B : List Nat} {F : List statement_ctx_t} {lo : Nat} :
    ∀ (e : member_expression_t) {E : Nat → Prop} {c : compiler_ctx_t},
      Seg P E B F lo c → SegS P E B F lo (compile_member_expression c e)
  | .mk e1 i, E, c, h => compile_member_expression_seg_aux i (compile_expression_noret_seg e1 none) h

theorem compile_memberid_expression_seg {P : Nat → Prop} {B : List Nat} {F : List statement_ctx_t} {lo : Nat} :
    ∀ (e : expression_t) (flags : Nat) {E : Nat → Prop} {c : compiler_ctx_t},
      Seg P E B F lo c → SegS P E B F lo (compile_memberid_expression c e flags)
  | .EXPR_IDENT i, flags, E, c, h => by rw [compile_memberid_expression]; exact push_instr_bstr_uint_seg _ _ _ h (by decide)
  | .binary t (.mk e1 e2), flags, E, c, h => compile_memberid_binary_seg_aux t flags (compile_expression_noret_seg e1 none) (compile_expression_noret_seg e2 none) h
  | .EXPR_MEMBER (.mk e1 i), flags, E, c, h => compile_memberid_member_seg_aux i flags (compile_expression_noret_seg e1 none) h
  | .unary _ _, flags, E, c, h => by
    rw [compile_memberid_expression] <;> first | exact segs_ok h | (intros; contradiction)
  | .EXPR_COND _, flags, E, c, h => by
    rw [compile_memberid_expression] <;> first | exact segs_ok h | (intros; contradiction)
  | .EXPR_NEW _, flags, E, c, h => by
    rw [compile_memberid_expression] <;> first | exact segs_ok h | (intros; contradiction)
  | .EXPR_CALL _, flags, E, c, h => by
    rw [compile_memberid_expression] <;> first | exact segs_ok h | (intros; contradiction)
  | .EXPR_THIS, flags, E, c, h => by
    rw [compile_memberid_expression] <;> first | exact segs_ok h | (intros; contradiction)
  | .EXPR_FUNC _, flags, E, c, h => by
    rw [compile_memberid_expression] <;> first | exact segs_ok h | (intros; contradiction)
  | .EXPR_ARRAYLIT _, flags, E, c, h => by
    rw [compile_memberid_expression] <;> first | exact segs_ok h | (intros; contradiction)
  | .EXPR_PROPVAL _, flags, E, c, h => by
    rw [compile_memberid_expression] <;> first | exact segs_ok h | (intros; contradiction)
  | .EXPR_LITERAL _, flags, E, c, h => by
    rw [compile_memberid_expression] <;> first | exact segs_ok h | (intros; contradiction)

theorem compile_increment_expression_seg {P : Nat → Prop} {B : List Nat} {F : List statement_ctx_t} {lo : Nat} :
    ∀ (e : unary_expression_t) (op : jsop_t) (n : Int) (_ : instr_info_arg1_type op ≠ ARG_ADDR) {E : Nat → Prop} {c : compiler_ctx_t},
      Seg P E B F lo c → SegS P E B F lo (compile_increment_expression c e op n)
  | .mk e1, op, n, hop, E, c, h => compile_increment_expression_seg_aux op n (compile_expression_noret_seg e1 none) (compile_memberid_expression_seg e1) hop h

theorem compile_comma_expression_seg {P : Nat → Prop} {B : List Nat} {F : List statement_ctx_t} {lo : Nat} :
    ∀ (e : binary_expression_t) {E : Nat → Prop} {c : compiler_ctx_t},
      Seg P E B F lo c → SegS P E B F lo (compile_comma_expression c e)
  | .mk e1 e2, E, c, h => compile_comma_expression_seg_aux (compile_expression_noret_seg e1 none) (compile_expression_noret_seg e2 none) h

theorem compile_logical_expression_seg {P : Nat → Prop} {B : List Nat} {F : List statement_ctx_t} {lo : Nat} :
    ∀ (e : binary_expression_t) (op : jsop_t) {E : Nat → Prop} {c : compiler_ctx_t},
      Seg P E B F lo c → SegS P E B F lo (compile_logical_expression c e op)
  | .mk e1 e2, op, E, c, h => compile_logical_expression_seg_aux op (compile_expression_noret_seg e1 none) (compile_expression_noret_seg e2 none) h

theorem compile_conditional_expression_seg {P : Nat → Prop} {B : List Nat} {F : List statement_ctx_t} {lo : Nat} :
    ∀ (e : conditional_expression_t) {E : Nat → Prop} {c : compiler_ctx_t},
      Seg P E B F lo c → SegS P E B F lo (compile_conditional_expression c e)
  | .mk e1 e2 e3, E, c, h => compile_conditional_expression_seg_aux (compile_expression_noret_seg e1 none) (compile_expression_noret_seg e2 none) (compile_expression_noret_seg e3 none) h

theorem compile_argument_list_seg {P : Nat → Prop} {B : List Nat} {F : List statement_ctx_t} {lo : Nat} :
    ∀ (args : argument_t) (n : Nat) {E : Nat → Prop} {c : compiler_ctx_t},
      Seg P E B F lo c → SegS P E B F lo (compile_argument_list c args n).1
  | .NULL, n, E, c, h => by rw [compile_argument_list]; exact segs_ok h
  | .mk e1 next, n, E, c, h => compile_argument_list_seg_aux n (compile_expression_noret_seg e1 none) (compile_argument_list_seg next) h

theorem compile_new_expression_seg {P : Nat → Prop} {B : List Nat} {F : List statement_ctx_t} {lo : Nat} :
    ∀ (e : call_expression_t) {E : Nat → Prop} {c : compiler_ctx_t},
      Seg P E B F lo c → SegS P E B F lo (compile_new_expression c e)
  | .mk e1 args, E, c, h => compile_new_expression_seg_aux (compile_expression_noret_seg e1 none) (compile_argument_list_seg args) h

theorem compile_call_expression_seg {P : Nat → Prop} {B : List Nat} {F : List statement_ctx_t} {lo : Nat} :
    ∀ (e : call_expression_t) (no_ret : Option Bool) {E : Nat → Prop} {c : compiler_ctx_t},
      Seg P E B F lo c → SegS P E B F lo (compile_call_expression c e no_ret).1
  | .mk e1 args, no_ret, E, c, h => compile_call_expression_seg_aux no_ret (compile_expression_noret_seg e1 none) (compile_memberid_expression_seg e1) (compile_argument_list_seg args) h

theorem compile_delete_expression_seg {P : Nat → Prop} {B : List Nat} {F : List statement_ctx_t} {lo : Nat} :
    ∀ (e : unary_expression_t) {E : Nat → Prop} {c : compiler_ctx_t},
      Seg P E B F lo c → SegS P E B F lo (compile_delete_expression c e)
  | .mk (.binary t (.mk e1 e2)), E, c, h => compile_delete_array_seg_aux t (compile_expression_noret_seg e1 none) (compile_expression_noret_seg e2 none) (compile_expression_noret_seg (.binary t (.mk e1 e2)) none) h
  | .mk (.EXPR_MEMBER (.mk e1 i)), E, c, h => compile_delete_member_seg_aux i (compile_expression_noret_seg e1 none) (compile_expression_noret_seg (.EXPR_MEMBER (.mk e1 i)) none) h
  | .mk (.unary t u), E, c, h => compile_delete_other_seg_aux (compile_expression_noret_seg (.unary t u) none) (by cases t <;> constructor <;> intro h <;> cases h) h
  | .mk (.EXPR_COND u), E, c, h => compile_delete_other_seg_aux (compile_expression_noret_seg (.EXPR_COND u) none) (by constructor <;> intro h <;> cases h) h
  | .mk (.EXPR_NEW u), E, c, h => compile_delete_other_seg_aux (compile_expression_noret_seg (.EXPR_NEW u) none) (by constructor <;> intro h <;> cases h) h
  | .mk (.EXPR_CALL u), E, c, h => compile_delete_other_seg_aux (compile_expression_noret_seg (.EXPR_CALL u) none) (by constructor <;> intro h <;> cases h) h
  | .mk (.EXPR_THIS), E, c, h => compile_delete_other_seg_aux (compile_expression_noret_seg (.EXPR_THIS) none) (by constructor <;> intro h <;> cases h) h
  | .mk (.EXPR_FUNC u), E, c, h => compile_delete_other_seg_aux (compile_expression_noret_seg (.EXPR_FUNC u) none) (by constructor <;> intro h <;> cases h) h
  | .mk (.EXPR_IDENT u), E, c, h => compile_delete_other_seg_aux (compile_expression_noret_seg (.EXPR_IDENT u) none) (by constructor <;> intro h <;> cases h) h
  | .mk (.EXPR_ARRAYLIT u), E, c, h => compile_delete_other_seg_aux (compile_expression_noret_seg (.EXPR_ARRAYLIT u) none) (by constructor <;> intro h <;> cases h) h
  | .mk (.EXPR_PROPVAL u), E, c, h => compile_delete_other_seg_aux (compile_expression_noret_seg (.EXPR_PROPVAL u) none) (by constructor <;> intro h <;> cases h) h
  | .mk (.EXPR_LITERAL u), E, c, h => compile_delete_other_seg_aux (compile_expression_noret_seg (.EXPR_LITERAL u) none) (by constructor <;> intro h <;> cases h) h

theorem compile_assign_expression_seg {P : Nat → Prop} {B : List Nat} {F : List statement_ctx_t} {lo : Nat} :
    ∀ (e : binary_expression_t) (op : jsop_t) (_ : instr_info_arg1_type op ≠ ARG_ADDR) {E : Nat → Prop} {c : compiler_ctx_t},
      Seg P E B F lo c → SegS P E B F lo (compile_assign_expression c e op)
  | .mk e1 e2, op, hop, E, c, h => compile_assign_expression_seg_aux op (compile_expression_noret_seg e1 none) (compile_memberid_expression_seg e1) (compile_expression_noret_seg e2 none) hop h

theorem compile_typeof_expression_seg {P : Nat → Prop} {B : List Nat} {F : List statement_ctx_t} {lo : Nat} :
    ∀ (e : unary_expression_t) {E : Nat → Prop} {c : compiler_ctx_t},
      Seg P E B F lo c → SegS P E B F lo (compile_typeof_expression c e)
  | .mk e1, E, c, h => compile_typeof_expression_seg_aux (compile_expression_noret_seg e1 none) (compile_memberid_expression_seg e1) h

theorem compile_array_elements_seg {P : Nat → Prop} {B : List Nat} {F : List statement_ctx_t} {lo : Nat} :
    ∀ (l : array_element_t) (n : Nat) {E : Nat → Prop} {c : compiler_ctx_t},
      Seg P E B F lo c → SegS P E B F lo (compile_array_elements c l n).1
  | .NULL, n, E, c, h => by rw [compile_array_elements]; exact segs_ok h
  | .mk elision e1 next, n, E, c, h => compile_array_elements_seg_aux elision n (compile_expression_noret_seg e1 none) (compile_array_elements_seg next) h

theorem compile_array_literal_seg {P : Nat → Prop} {B : List Nat} {F : List statement_ctx_t} {lo : Nat} :
    ∀ (e : array_literal_expression_t) {E : Nat → Prop} {c : compiler_ctx_t},
      Seg P E B F lo c → SegS P E B F lo (compile_array_literal c e)
  | .mk l n, E, c, h => compile_array_literal_seg_aux n (compile_array_elements_seg l) h

theorem compile_property_list_seg {P : Nat → Prop} {B : List Nat} {F : List statement_ctx_t} {lo : Nat} :
    ∀ (l : prop_val_t) {E : Nat → Prop} {c : compiler_ctx_t},
      Seg P E B F lo c → SegS P E B F lo (compile_property_list c l)
  | .NULL, E, c, h => by rw [compile_property_list]; exact segs_ok h
  | .mk name e1 next, E, c, h => compile_property_list_seg_aux name (compile_expression_noret_seg e1 none) (compile_property_list_seg next) h

theorem compile_object_literal_seg {P : Nat → Prop} {B : List Nat} {F : List statement_ctx_t} {lo : Nat} :
    ∀ (e : property_value_expression_t) {E : Nat → Prop} {c : compiler_ctx_t},
      Seg P E B F lo c → SegS P E B F lo (compile_object_literal c e)
  | .mk l, E, c, h => compile_object_literal_seg_aux (compile_property_list_seg l) h
end

/-! ## Address operands: labels and frames -/

theorem frames_mono {P P1 : Nat → Prop} {F : List statement_ctx_t}
    (h : ∀ f ∈ F, FrameOK P f) (hP : ∀ v, P v → P1 v) : ∀ f ∈ F, FrameOK P1 f :=
  fun f hf => ⟨fun hb => hP _ ((h f hf).1 hb), fun hc => hP _ ((h f hf).2 hc)⟩

theorem frames_cons {P : Nat → Prop} {F : List statement_ctx_t} {f : statement_ctx_t}
    (hf : FrameOK P f) (h : ∀ g ∈ F, FrameOK P g) : ∀ g ∈ f :: F, FrameOK P g := by
  intro g hg
  rcases List.mem_cons.1 hg with e | hg
  · rw [e]; exact hf
  · exact h g hg

/-- A frame without labels, as `with` and `try` push them. -/
theorem frameok_plain {P : Nat → Prop} (n : Nat) (s e : Bool) :
    FrameOK P ⟨n, s, e, UINT_MAX, UINT_MAX⟩ :=
  ⟨fun h => absurd rfl h, fun h => absurd rfl h⟩

/-- The offset reached is a value in order from now on. -/
theorem seg_mark {P E : Nat → Prop} {B : List Nat} {F : List statement_ctx_t} {lo : Nat}
    {c : compiler_ctx_t} (h : Seg P E B F lo c) : Seg P E (c.code_off :: B) F lo c :=
  ⟨h.frames, fun hB t ht => (List.mem_cons.1 ht).elim
    (fun e => Or.inl ⟨e ▸ h.lo_le, le_of_eq e⟩)
    (h.bound hB t), h.good, h.pend, h.lo_le, h.flag⟩

/-- Pending tokens that are known to be in order are pending no more. -/
theorem seg_close {P P1 E : Nat → Prop} {B B1 : List Nat} {F : List statement_ctx_t} {lo : Nat}
    {c : compiler_ctx_t} (h : Seg P1 E B1 F lo c) (hP : ∀ v, P1 v → v ∈ B1 ∨ P v)
    (hP1 : ∀ v, P v → P1 v) (hB : ∀ v ∈ B, v ∈ B1) : Seg P E B F lo c := by
  refine ⟨h.frames, fun hc t ht => h.bound hc t (hB t ht), fun hc i hlo hi hE ha => ?_,
    fun hc t ht => h.pend hc t (hP1 t ht), h.lo_le, fun t ht => h.flag t (hP1 t ht)⟩
  obtain ⟨v, e, hv⟩ := h.good hc i hlo hi hE ha
  refine ⟨v, e, ?_⟩
  rcases hv with hv | hv | hv
  · exact Or.inl hv
  · exact Or.inr (Or.inl hv)
  · rcases hP v hv with hv | hv
    · rcases h.bound hc v hv with hv | hv
      · exact Or.inl hv
      · exact Or.inr (Or.inl hv)
    · exact Or.inr (Or.inr hv)

/-- More tokens are pending: tokens of labels that have been handed out. -/
theorem seg_extend {P P1 E : Nat → Prop} {B : List Nat} {F : List statement_ctx_t} {lo : Nat}
    {c : compiler_ctx_t} (h : Seg P E B F lo c) (hP : ∀ v, P v → P1 v)
    (hn : c.labels_cnt ≤ LABEL_FLAG → ∀ v, P1 v → (v &&& (LABEL_FLAG - 1)) < c.labels_cnt)
    (hf : ∀ v, P1 v → v &&& LABEL_FLAG ≠ 0) :
    Seg P1 E B F lo c := by
  refine ⟨h.frames, h.bound, fun hc i hlo hi hE ha => ?_, hn, h.lo_le, hf⟩
  obtain ⟨v, e, hv⟩ := h.good hc i hlo hi hE ha
  refine ⟨v, e, ?_⟩
  rcases hv with hv | hv | hv
  · exact Or.inl hv
  · exact Or.inr (Or.inl hv)
  · exact Or.inr (Or.inr (hP v hv))

theorem alloc_label_off (c : compiler_ctx_t) : (alloc_label c).2.code_off = c.code_off := by
  rcases alloc_label_cases c with ⟨hp, e⟩ | ⟨hp, n, h1, h2, e⟩ <;> rw [e]

/-- The token that `alloc_label` hands out carries the label flag. -/
theorem alloc_label_flag (c : compiler_ctx_t) (hne : ¬ (alloc_label c).1 = UINT_MAX) :
    (alloc_label c).1 &&& LABEL_FLAG ≠ 0 := by
  rw [(alloc_label_cnt c hne).1]
  show (c.labels_cnt ||| 2 ^ 31) &&& 2 ^ 31 ≠ 0
  intro h0
  have h3 : ((c.labels_cnt ||| 2 ^ 31) &&& 2 ^ 31).testBit 31 = true := by
    rw [Nat.testBit_and, Nat.testBit_or, Nat.testBit_two_pow_self, Bool.or_true]
    rfl
  rw [h0, Nat.zero_testBit] at h3
  exact Bool.noConfusion h3

/-- The token that `alloc_label` hands out is pending from then on. -/
theorem seg_alloc {P E : Nat → Prop} {B : List Nat} {F : List statement_ctx_t} {lo : Nat}
    {c : compiler_ctx_t} (h : Seg P E B F lo c) (hne : ¬ (alloc_label c).1 = UINT_MAX) :
    Seg (fun v => v = (alloc_label c).1 ∨ P v) E B F lo (alloc_label c).2 := by
  have h1 : Seg P E B F lo (alloc_label c).2 :=
    seg_step_same h (alloc_label_rel (Rel.refl c)) (le_of_eq (alloc_label_off c))
  obtain ⟨e1, e2⟩ := alloc_label_cnt c hne
  refine seg_extend h1 (fun v hv => Or.inr hv) (fun hc v hv => ?_) (fun v hv => ?_)
  · rcases hv with hv | hv
    · rw [hv, e1, e2]
      rw [e2] at hc
      rw [label_index c.labels_cnt (Nat.lt_of_succ_le hc)]
      exact Nat.lt_succ_self _
    · exact h1.pend hc v hv
  · rcases hv with hv | hv
    · rw [hv]
      exact alloc_label_flag c hne
    · exact h1.flag v hv

theorem okv_bind {lo : Nat} {c : compiler_ctx_t} {t v : Nat} (hlo : lo ≤ c.code_off)
    (h : OkV lo c v) : OkV lo (label_set_addr c t) v := by
  rcases h with h | ⟨h0, h1, h2, h3⟩
  · exact Or.inl h
  · refine Or.inr ⟨h0, h1, ?_, ?_⟩
    · show lo ≤ Function.update c.labels (t &&& (LABEL_FLAG - 1)) c.code_off _
      by_cases e : (v &&& (LABEL_FLAG - 1)) = (t &&& (LABEL_FLAG - 1))
      · rw [e, Function.update_same]; exact hlo
      · rw [Function.update_noteq e]; exact h2
    · show Function.update c.labels (t &&& (LABEL_FLAG - 1)) c.code_off _ ≤ c.code_off
      by_cases e : (v &&& (LABEL_FLAG - 1)) = (t &&& (LABEL_FLAG - 1))
      · rw [e, Function.update_same]
      · rw [Function.update_noteq e]; exact h3

/-- Binding a pending label: its token is in order from now on. -/
theorem seg_bind {P E : Nat → Prop} {B : List Nat} {F : List statement_ctx_t} {lo : Nat}
    {c : compiler_ctx_t} {t : Nat} (h : Seg P E B F lo c) (ht : P t) :
    Seg P E (t :: B) F lo (label_set_addr c t) := by
  refine ⟨h.frames, fun hc v hv => ?_, fun hc i hlo hi hE ha => ?_, h.pend, h.lo_le, h.flag⟩
  · rcases List.mem_cons.1 hv with e | hv
    · rw [e]
      refine Or.inr ⟨h.flag t ht, h.pend hc t ht, ?_, ?_⟩
      · show lo ≤ Function.update c.labels (t &&& (LABEL_FLAG - 1)) c.code_off _
        rw [Function.update_same]
        exact h.lo_le
      · show Function.update c.labels (t &&& (LABEL_FLAG - 1)) c.code_off _ ≤ c.code_off
        rw [Function.update_same]
    · exact okv_bind h.lo_le (h.bound hc v hv)
  · obtain ⟨v, e, hv⟩ := h.good hc i hlo hi hE ha
    refine ⟨v, e, ?_⟩
    rcases hv with hv | hv | hv
    · exact Or.inl hv
    · rcases @okv_bind lo c t v h.lo_le (Or.inr hv) with hv | hv
      · exact Or.inl hv
      · exact Or.inr (Or.inl hv)
    · exact Or.inr (Or.inr hv)

/-- The last label of a routine is bound: its tokens are pending no more. -/
theorem seg_bind_last {P P1 E : Nat → Prop} {B B1 : List Nat} {F : List statement_ctx_t}
    {lo : Nat} {c : compiler_ctx_t} {t : Nat} (h : Seg P1 E B1 F lo c) (ht : P1 t)
    (hP : ∀ v, P1 v → v = t ∨ v ∈ B1 ∨ P v) (hP1 : ∀ v, P v → P1 v) (hB : ∀ v ∈ B, v ∈ B1) :
    Seg P E B F lo (label_set_addr c t) :=
  seg_close (seg_bind h ht)
    (fun v hv => (hP v hv).elim (fun e => Or.inl (e ▸ List.mem_cons_self _ _))
      (fun hv => hv.elim (fun hv => Or.inl (List.mem_cons_of_mem _ hv)) Or.inr))
    hP1 (fun v hv => List.mem_cons_of_mem _ (hB v hv))

/-- The break label of a loop is bound, after its continue label `t2` and with the offset `j`
of its head reached. -/
theorem seg_bind_loop {P E : Nat → Prop} {B : List Nat} {F : List statement_ctx_t}
    {lo : Nat} {c : compiler_ctx_t} {t : Nat} (t2 j : Nat)
    (h : Seg (fun v => v = t2 ∨ v = t ∨ P v) E (t2 :: j :: B) F lo c) :
    Seg P E B F lo (label_set_addr c t) :=
  seg_bind_last h (Or.inr (Or.inl rfl))
    (fun v hv => hv.elim (fun e => Or.inr (Or.inl (e ▸ List.mem_cons_self _ _)))
      (fun hv => hv.elim Or.inl (fun hv => Or.inr (Or.inr hv))))
    (fun v hv => Or.inr (Or.inr hv))
    (fun v hv => List.mem_cons_of_mem _ (List.mem_cons_of_mem _ hv))

/-- The break label of a `for in` loop is bound, after its continue label `t2`. -/
theorem seg_bind_forin {P E : Nat → Prop} {B : List Nat} {F : List statement_ctx_t}
    {lo : Nat} {c : compiler_ctx_t} {t : Nat} (t2 : Nat)
    (h : Seg (fun v => v = t2 ∨ v = t ∨ P v) E (t2 :: B) F lo c) :
    Seg P E B F lo (label_set_addr c t) :=
  seg_bind_last h (Or.inr (Or.inl rfl))
    (fun v hv => hv.elim (fun e => Or.inr (Or.inl (e ▸ List.mem_cons_self _ _)))
      (fun hv => hv.elim Or.inl (fun hv => Or.inr (Or.inr hv))))
    (fun v hv => Or.inr (Or.inr hv))
    (fun v hv => List.mem_cons_of_mem _ hv)

/-- The break label of a `switch` is bound. -/
theorem seg_bind_switch {P E : Nat → Prop} {B : List Nat} {F : List statement_ctx_t}
    {lo : Nat} {c : compiler_ctx_t} {t : Nat}
    (h : Seg (fun v => v = t ∨ P v) E B F lo c) :
    Seg P E B F lo (label_set_addr c t) :=
  seg_bind_last h (Or.inl rfl)
    (fun v hv => hv.elim Or.inl (fun hv => Or.inr (Or.inr hv)))
    (fun v hv => Or.inr hv) (fun v hv => hv)

/-- A jump to a value that is known to be in order. -/
theorem seg_push_known {P E : Nat → Prop} {B : List Nat} {F : List statement_ctx_t} {lo : Nat}
    {c : compiler_ctx_t} {op : jsop_t} {w : Nat} (h : Seg P E B F lo c) (hw : w ∈ B ∨ P w) :
    SegS P E B F lo (push_instr_uint c op w) := by
  intro hs
  have hne : ¬ (push_instr c op).1 = UINT_MAX := by
    intro e
    apply hs
    unfold push_instr_uint
    simp only [e, ↓reduceIte]
    exact failed_oom
  have e : (push_instr_uint c op w).2 = set_arg1 (push_instr c op).2 (push_instr c op).1 (.uint w) := by
    unfold push_instr_uint
    simp only [hne, ↓reduceIte]
  rw [e]
  obtain ⟨p1, p2, p3, _, _⟩ := push_instr_ok c op hne
  refine seg_step h (set_arg1_rel _ (push_instr_rel op (Rel.refl c))
    (push_instr_idx_ge (Rel.refl c) hne)) (fun hc i h1 h2 _ ha => ?_)
  have hi : i = c.code_off := by
    have : i < c.code_off + 1 := p2 ▸ h2
    exact Nat.le_antisymm (Nat.le_of_lt_succ this) h1
  subst hi
  rw [p1, set_arg1_same]
  refine ⟨w, rfl, ?_⟩
  rcases hw with hw | hw
  · have hr : Rel c.code_off c.labels_cnt c
        (set_arg1 (push_instr c op).2 (push_instr c op).1 (.uint w)) :=
      set_arg1_rel _ (push_instr_rel op (Rel.refl c)) (push_instr_idx_ge (Rel.refl c) hne)
    rcases okv_step hr hc (h.bound (le_trans hr.cnt_mono hc) w hw) with hv | hv
    · exact Or.inl hv
    · exact Or.inr (Or.inl hv)
  · exact Or.inr (Or.inr hw)

/-- The fallback to the interpreter appends one `OP_tree`. -/
theorem compile_interp_fallback_seg {P E : Nat → Prop} {B : List Nat} {F : List statement_ctx_t}
    {lo : Nat} {c : compiler_ctx_t} (stat : statement_t) (h : Seg P E B F lo c) :
    SegS P E B F lo (compile_interp_fallback c stat) := by
  unfold compile_interp_fallback
  dsimp only
  split
  · exact fun hs => absurd (show FAILED E_NOTIMPL = true by decide) hs
  · split
    · exact segs_oom
    · next hne => exact segs_ok (seg_push_arg_na h (by decide) hne)

/-- The rollback of a routine that was entered at `c` and has reached `c1`, and the fallback to
the interpreter. -/
theorem seg_fallback {P E : Nat → Prop} {B : List Nat} {F : List statement_ctx_t} {lo : Nat}
    {c c1 : compiler_ctx_t} (stat : statement_t) (ev : statement_eval_t)
    (h : Seg P E B F lo c) (hr : Rel c.code_off c.labels_cnt c c1) :
    SegS P E B F lo
      (compile_interp_fallback (set_eval (set_code_off c1 c.code_off) stat ev) stat) :=
  compile_interp_fallback_seg stat
    (seg_step_same h (set_eval_rel stat ev (Rel.rollback hr)) (le_refl _))

/-- The prologue and the epilogue of `compile_statement` around a routine. -/
theorem frame_seg {P E : Nat → Prop} {B : List Nat} {lo : Nat}
    (R : compiler_ctx_t → HRESULT × compiler_ctx_t)
    (hR : ∀ {F : List statement_ctx_t} {c : compiler_ctx_t}, Seg P E B F lo c →
      (∀ f ∈ F, FrameOK P f) → SegS P E B F lo (R c))
    {F : List statement_ctx_t} {c : compiler_ctx_t} (sc : Option statement_ctx_t)
    (h : Seg P E B F lo c) (hF : ∀ f ∈ F, FrameOK P f) (hsc : ∀ f, sc = some f → FrameOK P f) :
    SegS P E B F lo (pop_stat_ctx c sc (R (push_stat_ctx c sc))) := by
  cases sc with
  | none => exact hR h hF
  | some f =>
    intro hs
    have h1 : Seg P E B (f :: F) lo (push_stat_ctx c (some f)) :=
      ⟨by show f :: c.stat_ctx = f :: F; rw [h.frames], h.bound, h.good, h.pend, h.lo_le,
        h.flag⟩
    have h2 := hR h1 (frames_cons (hsc f rfl) hF) hs
    exact ⟨h.frames, h2.bound, h2.good, h2.pend, h2.lo_le, h2.flag⟩

/-- The lowering of a body: fallback is forbidden for the body and the flag is restored. -/
theorem seg_body {s : statement_t} {P E : Nat → Prop} {B : List Nat} {F : List statement_ctx_t}
    {lo : Nat}
    (ih : ∀ (sc : Option statement_ctx_t) {c : compiler_ctx_t}, Seg P E B F lo c →
      (∀ f ∈ F, FrameOK P f) → (∀ f, sc = some f → FrameOK P f) →
      SegS P E B F lo (compile_statement c sc s))
    {c : compiler_ctx_t} (sc : Option statement_ctx_t) (nf : Bool)
    (h : Seg P E B F lo c) (hF : ∀ f ∈ F, FrameOK P f) (hsc : ∀ f, sc = some f → FrameOK P f)
    (hs : ¬ FAILED (compile_statement (set_no_fallback c true) sc s).1 = true) :
    Seg P E B F lo (set_no_fallback (compile_statement (set_no_fallback c true) sc s).2 nf) :=
  seg_set_no_fallback nf (ih sc (seg_set_no_fallback true h) hF hsc hs)

theorem find_break_ctx_mem (l : List statement_ctx_t) :
    ∀ (k : Nat) {r : Nat × statement_ctx_t}, find_break_ctx l k = some r →
      r.2 ∈ l ∧ r.2.break_label ≠ UINT_MAX := by
  induction l with
  | nil => intro k r h; rw [find_break_ctx] at h; cases h
  | cons f l ih =>
    intro k r h
    rw [find_break_ctx] at h
    by_cases hb : f.break_label ≠ UINT_MAX
    · rw [if_pos hb] at h
      cases h
      exact ⟨List.mem_cons_self _ _, hb⟩
    · rw [if_neg hb] at h
      exact ⟨List.mem_cons_of_mem _ (ih _ h).1, (ih _ h).2⟩

theorem find_continue_ctx_mem (l : List statement_ctx_t) :
    ∀ (k : Nat) {r : Nat × statement_ctx_t}, find_continue_ctx l k = some r →
      r.2 ∈ l ∧ r.2.continue_label ≠ UINT_MAX := by
  induction l with
  | nil => intro k r h; rw [find_continue_ctx] at h; cases h
  | cons f l ih =>
    intro k r h
    rw [find_continue_ctx] at h
    by_cases hb : f.continue_label ≠ UINT_MAX
    · rw [if_pos hb] at h
      cases h
      exact ⟨List.mem_cons_self _ _, hb⟩
    · rw [if_neg hb] at h
      exact ⟨List.mem_cons_of_mem _ (ih _ h).1, (ih _ h).2⟩

theorem seg_opt_push {P E : Nat → Prop} {B : List Nat} {F : List statement_ctx_t} {lo : Nat}
    {c : compiler_ctx_t} {b : Bool} {op : jsop_t} (h : Seg P E B F lo c)
    (hop : instr_info_arg1_type op ≠ ARG_ADDR) :
    Seg P E B F lo (if b = true then push_instr_hres c op else (S_OK, c)).2 := by
  split
  · exact seg_push h hop
  · exact h

theorem pop_to_stat_frames_seg {P E : Nat → Prop} {B : List Nat} {F : List statement_ctx_t}
    {lo : Nat} (l : List statement_ctx_t) :
    ∀ (k n : Nat) {c : compiler_ctx_t}, Seg P E B F lo c →
      Seg P E B F lo (pop_to_stat_frames c l k n).1.2 := by
  induction l with
  | nil => intro k n c h; rw [pop_to_stat_frames]; exact h
  | cons f l ih =>
    intro k n c h
    rw [pop_to_stat_frames]
    dsimp only
    have s1 := @seg_opt_push P E B F lo c f.using_scope OP_pop_scope h (by decide)
    generalize (if f.using_scope = true then push_instr_hres c OP_pop_scope else (S_OK, c)) = x
      at s1 ⊢
    have s2 := @seg_opt_push P E B F lo x.2 f.using_except OP_pop_except s1 (by decide)
    generalize (if f.using_except = true then push_instr_hres x.2 OP_pop_except
      else (S_OK, x.2)) = y at s2 ⊢
    split
    · exact s1
    · split
      · exact s2
      · split
        · exact s2
        · exact ih _ _ s2

theorem pop_to_stat_pops_seg {P E : Nat → Prop} {B : List Nat} {F : List statement_ctx_t}
    {lo : Nat} (n : Nat) :
    ∀ {c : compiler_ctx_t}, Seg P E B F lo c → Seg P E B F lo (pop_to_stat_pops c n).2 := by
  induction n with
  | zero => intro c h; rw [pop_to_stat_pops]; exact h
  | succ n ih =>
    intro c h
    rw [pop_to_stat_pops]
    split
    · exact seg_push h (by decide)
    · exact ih (seg_push h (by decide))

theorem pop_to_stat_seg {P E : Nat → Prop} {B : List Nat} {F : List statement_ctx_t}
    {lo : Nat} {c : compiler_ctx_t} (k : Nat) (h : Seg P E B F lo c) :
    Seg P E B F lo (pop_to_stat c k).2 := by
  unfold pop_to_stat
  dsimp only
  split
  · exact pop_to_stat_frames_seg _ _ _ h
  · exact pop_to_stat_pops_seg _ (pop_to_stat_frames_seg _ _ _ h)

theorem compile_break_statement_seg {P E : Nat → Prop} {B : List Nat}
    {F : List statement_ctx_t} {lo : Nat} {c : compiler_ctx_t} (stat : branch_statement_t)
    (h : Seg P E B F lo c) (hF : ∀ f ∈ F, FrameOK P f) :
    SegS P E B F lo (compile_break_statement c stat) := by
  unfold compile_break_statement
  split
  · exact compile_interp_fallback_seg _ (seg_set_eval _ _ h)
  · next pop_ctx hfind =>
    obtain ⟨m1, m2⟩ := find_break_ctx_mem _ _ hfind
    rw [h.frames] at m1
    dsimp only
    split
    · exact compile_interp_fallback_seg _ (seg_set_eval _ _ h)
    · split
      · next hf => exact fun hs => absurd hf hs
      · next hf =>
        split
        · exact segs_oom
        · exact seg_push_known (seg_push (pop_to_stat_seg _ h) (by decide))
            (Or.inr ((hF _ m1).1 m2))

theorem compile_continue_statement_seg {P E : Nat → Prop} {B : List Nat}
    {F : List statement_ctx_t} {lo : Nat} {c : compiler_ctx_t} (stat : branch_statement_t)
    (h : Seg P E B F lo c) (hF : ∀ f ∈ F, FrameOK P f) :
    SegS P E B F lo (compile_continue_statement c stat) := by
  unfold compile_continue_statement
  split
  · exact compile_interp_fallback_seg _ (seg_set_eval _ _ h)
  · next pop_ctx hfind =>
    obtain ⟨m1, m2⟩ := find_continue_ctx_mem _ _ hfind
    rw [h.frames] at m1
    dsimp only
    split
    · exact compile_interp_fallback_seg _ (seg_set_eval _ _ h)
    · split
      · next hf => exact fun hs => absurd hf hs
      · next hf =>
        split
        · exact segs_oom
        · exact seg_push_known (seg_push (pop_to_stat_seg _ h) (by decide))
            (Or.inr ((hF _ m1).2 m2))

/-! ## Address operands: statements -/

theorem seg_guard {P E : Nat → Prop} {B : List Nat} {F : List statement_ctx_t} {lo : Nat}
    {c : compiler_ctx_t} (h : Seg P E B F lo c) : Seg P E B F lo c := h

theorem segs_guard {P E : Nat → Prop} {B : List Nat} {F : List statement_ctx_t} {lo : Nat}
    {r : HRESULT × compiler_ctx_t} (h : SegS P E B F lo r) : SegS P E B F lo r := h

theorem rel_guard {a b : Nat} {c0 c : compiler_ctx_t} (h : Rel a b c0 c) : Rel a b c0 c := h

theorem hop_guard {op : jsop_t} (h : instr_info_arg1_type op ≠ ARG_ADDR) :
    instr_info_arg1_type op ≠ ARG_ADDR := h

theorem seg_alloc_plain {P E : Nat → Prop} {B : List Nat} {F : List statement_ctx_t} {lo : Nat}
    {c : compiler_ctx_t} (h : Seg P E B F lo c) : Seg P E B F lo (alloc_label c).2 :=
  seg_step_same h (alloc_label_rel (Rel.refl c)) (le_of_eq (alloc_label_off c))

theorem segf_guard {P E : Nat → Prop} {B : List Nat} {F : List statement_ctx_t} {lo : Nat}
    {r : (HRESULT × compiler_ctx_t) × Bool} (h : SegF P E B F lo r) : SegF P E B F lo r := h

theorem seg_of_segf {P E : Nat → Prop} {B : List Nat} {F : List statement_ctx_t} {lo : Nat}
    {r : (HRESULT × compiler_ctx_t) × Bool} (h : SegF P E B F lo r) (hn : ¬ r.2 = true) :
    Seg P E B F lo r.1.2 := h hn

theorem segf_ite_true {P E : Nat → Prop} {B : List Nat} {F : List statement_ctx_t} {lo : Nat}
    {p : Prop} [Decidable p] {x : HRESULT × compiler_ctx_t}
    {r : (HRESULT × compiler_ctx_t) × Bool} (h : ¬ p → SegF P E B F lo r) :
    SegF P E B F lo (if p then (x, true) else r) := by
  split
  · exact fun hn => absurd rfl hn
  · next hp => exact h hp

theorem segf_ok {P E : Nat → Prop} {B : List Nat} {F : List statement_ctx_t} {lo : Nat}
    {x : HRESULT} {c : compiler_ctx_t} (h : Seg P E B F lo c) :
    SegF P E B F lo ((x, c), false) := fun _ => h

theorem segs_fst_ite_failed2 {α : Type} {P E : Nat → Prop} {B : List Nat}
    {F : List statement_ctx_t} {lo : Nat} {x : HRESULT} {c : compiler_ctx_t} {y : α}
    {r : (HRESULT × compiler_ctx_t) × α}
    (h : ¬ FAILED x = true → SegS P E B F lo r.1) :
    SegS P E B F lo (if FAILED x = true then ((x, c), y) else r).1 := by
  split
  · next hf => exact fun hs => absurd hf hs
  · next hf => exact h hf

theorem frameok_none {P : Nat → Prop} : ∀ f, (none : Option statement_ctx_t) = some f → FrameOK P f :=
  fun _ e => Option.noConfusion e

theorem frameok_some {P : Nat → Prop} {g : statement_ctx_t} (h : FrameOK P g) :
    ∀ f, some g = some f → FrameOK P f :=
  fun _ e => Option.some.inj e ▸ h

/-- The frame of a loop, whose labels are pending. -/
theorem frameok_loop {P : Nat → Prop} {t t2 : Nat} (n : Nat) (s e : Bool) :
    FrameOK (fun v => v = t2 ∨ v = t ∨ P v) ⟨n, s, e, t, t2⟩ :=
  ⟨fun _ => Or.inr (Or.inl rfl), fun _ => Or.inl rfl⟩

/-- The frame of a `switch`, whose break label is pending. -/
theorem frameok_switch {P : Nat → Prop} {t : Nat} (n : Nat) (s e : Bool) :
    FrameOK (fun v => v = t ∨ P v) ⟨n, s, e, t, UINT_MAX⟩ :=
  ⟨fun _ => Or.inl rfl, fun h => absurd rfl h⟩

/-- The offset that the head of a `while` loop hands on is the one that was marked. -/
theorem while_head_known {B : List Nat} {p q r : Prop} [Decidable p]
    [Decidable q] [Decidable r] {x : compiler_ctx_t} {a b d : HRESULT × compiler_ctx_t}
    {j t2 : Nat}
    (h : ¬ FAILED (if p then ((E_OUTOFMEMORY, x), 0) else
      if q then (a, j) else if r then (b, j) else (d, j)).1.1 = true) :
    (if p then ((E_OUTOFMEMORY, x), 0) else
      if q then (a, j) else if r then (b, j) else (d, j)).2 ∈ t2 :: j :: B := by
  by_cases hp : p
  · rw [if_pos hp] at h
    exact absurd failed_oom h
  · rw [if_neg hp]
    refine List.mem_cons_of_mem _ ?_
    split
    · exact List.mem_cons_self _ _
    · split <;> exact List.mem_cons_self _ _

theorem compile_expression_seg {P E : Nat → Prop} {B : List Nat} {F : List statement_ctx_t}
    {lo : Nat} {c : compiler_ctx_t} (e : expression_t) (h : Seg P E B F lo c) :
    SegS P E B F lo (compile_expression c e) :=
  compile_expression_noret_seg e none h

theorem compile_variable_list_seg {P E : Nat → Prop} {B : List Nat} {F : List statement_ctx_t}
    {lo : Nat} (l : variable_declaration_t) :
    ∀ {c : compiler_ctx_t}, Seg P E B F lo c → SegS P E B F lo (compile_variable_list c l) := by
  induction l with
  | NULL => intro c h; rw [compile_variable_list]; exact segs_ok h
  | mk identifier expr next ih =>
    intro c h
    rw [compile_variable_list.eq_def]
    cases expr with
    | none => exact ih h
    | some e =>
      dsimp only
      exact segs_ite_failed_self (fun h1 => segs_ite_failed_self (fun h2 =>
        ih (push_instr_bstr_seg _ _ (compile_expression_seg e h h1) (by decide) h2)))

theorem compile_var_statement_seg {P E : Nat → Prop} {B : List Nat} {F : List statement_ctx_t}
    {lo : Nat} {c : compiler_ctx_t} (stat : var_statement_t) (h : Seg P E B F lo c) :
    SegS P E B F lo (compile_var_statement c stat) := by
  unfold compile_var_statement
  dsimp only
  exact segs_ite_failed_self (fun h1 =>
    push_instr_hres_seg (compile_variable_list_seg _ h h1) (by decide))

theorem compile_expression_statement_seg {P E : Nat → Prop} {B : List Nat}
    {F : List statement_ctx_t} {lo : Nat} {c : compiler_ctx_t} (stat : expression_statement_t)
    (h : Seg P E B F lo c) : SegS P E B F lo (compile_expression_statement c stat) := by
  unfold compile_expression_statement
  dsimp only
  exact segs_ite_failed_self (fun h1 => segs_ite
    (fun _ => segs_ite_oom (fun _ =>
      segs_ok (seg_push (compile_expression_noret_seg _ _ h h1) (by decide))))
    (fun _ => segs_ok (compile_expression_noret_seg _ _ h h1)))

theorem compile_throw_statement_seg {P E : Nat → Prop} {B : List Nat}
    {F : List statement_ctx_t} {lo : Nat} {c : compiler_ctx_t} (stat : expression_statement_t)
    (h : Seg P E B F lo c) : SegS P E B F lo (compile_throw_statement c stat) := by
  unfold compile_throw_statement
  dsimp only
  exact segs_ite_failed_self (fun h1 =>
    push_instr_hres_seg (compile_expression_seg _ h h1) (by decide))

set_option maxRecDepth 8000 in
theorem compile_block_statement_seg_aux {P E : Nat → Prop} {B : List Nat} {F : List statement_ctx_t} {lo : Nat} {c : compiler_ctx_t} {addr : Nat} {stat : statement_t} {next : statement_list}
    (ih1 : (∀ (sc : Option statement_ctx_t) {P E : Nat → Prop} {B : List Nat} {F : List statement_ctx_t} {lo : Nat} {c : compiler_ctx_t},
      Seg P E B F lo c → (∀ f ∈ F, FrameOK P f) → (∀ f, sc = some f → FrameOK P f) →
      SegS P E B F lo (compile_statement c sc stat)))
    (ihn : (∀ {P E : Nat → Prop} {B : List Nat} {F : List statement_ctx_t} {lo : Nat} {c : compiler_ctx_t},
      Seg P E B F lo c → (∀ f ∈ F, FrameOK P f) → SegS P E B F lo (compile_block_statement c next)))
    (h : Seg P E B F lo c) (hF : ∀ f ∈ F, FrameOK P f) :
    SegS P E B F lo (compile_block_statement c (.node addr stat next)) := by
  rw [compile_block_statement_unfold]
  skip
  all_goals lift_lets
  all_goals intro 
  all_goals intros
  all_goals repeat' (first
    | (with_reducible (apply seg_guard); with_reducible (first
        | apply h
        | apply seg_mono_e h (fun _ hi => Or.inr hi)
        | apply seg_mono_e h (fun _ hi => Or.inr (Or.inr hi))
        | apply seg_mark
        | apply seg_bind _ (Or.inl rfl)
        | apply seg_alloc (seg_alloc _ (by assumption)) (by assumption)
        | apply seg_alloc _ (by assumption)
        | apply seg_alloc_plain
        | apply seg_push _ (by first | assumption | decide | (split <;> decide))
        | apply seg_push_hres _ (by first | assumption | decide | (split <;> decide))
        | apply seg_push_exempt _ (Or.inl rfl)
        | apply seg_push_exempt _ (Or.inr (Or.inl rfl))
        | apply seg_push_arg_na _ (by first | assumption | decide | (split <;> decide)) (by assumption)
        | apply seg_patch _ (le_refl _) (le_refl _)
        | apply seg_set_arg2
        | apply seg_set_no_fallback
        | apply heap_alloc_seg
        | apply compiler_alloc_string_seg
        | apply compiler_alloc_bstr_seg
        | apply seg_of_segs (push_instr_uint_seg _ _ _ (by decide))
        | apply seg_of_segs (seg_push_known _ _)
        | apply seg_body ih1
        | apply seg_of_segs (ih1 _ _ _ _)
        | apply seg_of_segs (push_instr_hres_seg _ _)
        | apply seg_of_segs (push_instr_int_seg _ _ _ _)
        | apply seg_of_segs (push_instr_str_seg _ _ _ _)
        | apply seg_of_segs (push_instr_bstr_seg _ _ _ _)
        | apply seg_of_segs (push_instr_bstr_uint_seg _ _ _ _ _)
        | apply seg_of_segs (push_instr_uint_str_seg _ _ _ _ _)
        | apply seg_of_segs (push_instr_double_seg _ _ _ _)
        | apply seg_of_segs (compile_expression_seg _ _)
        | apply seg_of_segs (compile_expression_noret_seg _ _ _)
        | apply seg_of_segs (compile_memberid_expression_seg _ _ _)
        | apply seg_of_segs (compile_variable_list_seg _ _)
        | apply seg_of_segs (segs_ite_failed_self _) (by assumption)
        | apply seg_of_segs (segs_ite_failed _) (by assumption)
        | apply seg_of_segs (segs_ite_oom _) (by assumption)
        | apply seg_of_segs (segs_fst_ite_oom _) (by assumption)
        | apply seg_of_segs (segs_fst_ite_failed _) (by assumption)
        | apply seg_of_segs (segs_fst_ite _ _) (by assumption)
        | apply seg_of_segs (segs_ite _ _) (by assumption)
        | apply seg_ite
        | apply seg_of_segf _ (by assumption)))
    | (with_reducible (apply segs_guard); with_reducible (first
        | apply segs_ite_failed_self
        | apply segs_ite_failed
        | apply segs_ite_oom
        | apply segs_fst_ite_failed
        | apply segs_fst_ite_failed2
        | apply segs_fst_ite_oom
        | apply segs_oom
        | apply seg_fallback _ _ h _
        | apply seg_fallback _ _ (seg_mono_e h (fun _ hi => Or.inr hi)) _
        | apply seg_fallback _ _ (seg_mono_e h (fun _ hi => Or.inr (Or.inr hi))) _
        | apply push_instr_uint_seg _ _ _ (by decide)
        | apply seg_push_known
        | apply ih1
        | apply ihn
        | apply push_instr_hres_seg
        | apply push_instr_int_seg
        | apply push_instr_str_seg
        | apply push_instr_bstr_seg
        | apply push_instr_bstr_uint_seg
        | apply push_instr_uint_str_seg
        | apply push_instr_double_seg
        | apply compile_expression_seg
        | apply compile_expression_noret_seg
        | apply compile_memberid_expression_seg
        | apply compile_variable_list_seg
        | apply segs_ite
        | apply segs_fst_ite))
    | (with_reducible (apply segf_guard); with_reducible (first
        | apply segf_ite_true
        | apply segf_ok))
    | (with_reducible (apply rel_guard); with_reducible (first
        | apply Rel.refl _
        | apply Rel.ite_failed
        | apply Rel.ite_oom
        | apply Rel.ite
        | apply Rel.ite1
        | apply Rel.ite2
        | apply Rel.ite0
        | apply Rel.ite21
        | apply body_step (compile_statement_rel _)
        | apply compile_statement_rel
        | apply compile_block_statement_rel
        | apply set_arg1_rel
        | apply set_arg2_rel
        | apply push_instr_idx_ge
        | apply push_instr_rel
        | apply push_instr_hres_rel
        | apply push_instr_int_rel
        | apply push_instr_uint_rel
        | apply push_instr_str_rel
        | apply push_instr_bstr_rel
        | apply push_instr_bstr_uint_rel
        | apply push_instr_uint_str_rel
        | apply push_instr_double_rel
        | apply heap_alloc_rel
        | apply compiler_alloc_string_rel
        | apply compiler_alloc_bstr_rel
        | apply compile_expression_rel
        | apply compile_expression_noret_rel
        | apply compile_memberid_expression_rel
        | apply set_eval_rel
        | apply compile_interp_fallback_rel
        | apply alloc_label_rel
        | apply label_set_addr_rel
        | apply Rel.rollback
        | apply compile_variable_list_rel
        | apply pop_to_stat_rel))
    | with_reducible (first
        | assumption
        | apply hF
        | apply frames_mono hF (fun _ hv => Or.inr (Or.inr hv))
        | apply frames_mono hF (fun _ hv => Or.inr hv)
        | apply frameok_none
        | apply frameok_some (frameok_plain _ _ _)
        | apply frameok_some (frameok_loop _ _ _)
        | apply frameok_some (frameok_switch _ _ _)
        | apply not_failed_ok
        | apply Or.inl (List.mem_cons_self _ _)
        | apply Or.inl (List.mem_cons_of_mem _ (List.mem_cons_self _ _))
        | apply Or.inr (Or.inl rfl)
        | apply Or.inr (Or.inr (Or.inl rfl))
        | apply push_instr_idx_ge
        | intro _)
    | (with_reducible (apply hop_guard); decide)
    | (lift_lets; intro _)
    | split
    | with_reducible (apply segs_ok))

set_option maxRecDepth 8000 in
theorem compile_if_else_seg_aux {P E : Nat → Prop} {B : List Nat} {F : List statement_ctx_t} {lo : Nat} {c : compiler_ctx_t} {expr : expression_t} {if_stat stat : statement_t} {addr : Nat} {nx : statement_list}
    (ih1 : (∀ (sc : Option statement_ctx_t) {P E : Nat → Prop} {B : List Nat} {F : List statement_ctx_t} {lo : Nat} {c : compiler_ctx_t},
      Seg P E B F lo c → (∀ f ∈ F, FrameOK P f) → (∀ f, sc = some f → FrameOK P f) →
      SegS P E B F lo (compile_statement c sc if_stat)))
    (ih2 : (∀ (sc : Option statement_ctx_t) {P E : Nat → Prop} {B : List Nat} {F : List statement_ctx_t} {lo : Nat} {c : compiler_ctx_t},
      Seg P E B F lo c → (∀ f ∈ F, FrameOK P f) → (∀ f, sc = some f → FrameOK P f) →
      SegS P E B F lo (compile_statement c sc stat)))
    (h : Seg P E B F lo c) (hF : ∀ f ∈ F, FrameOK P f) :
    SegS P E B F lo (compile_if_statement c (.mk expr if_stat (.node addr stat nx))) := by
  rw [compile_if_statement_unfold]
  skip
  all_goals lift_lets
  all_goals intro 
  all_goals intros
  all_goals repeat' (first
    | (with_reducible (apply seg_guard); with_reducible (first
        | apply h
        | apply seg_mono_e h (fun _ hi => Or.inr hi)
        | apply seg_mono_e h (fun _ hi => Or.inr (Or.inr hi))
        | apply seg_mark
        | apply seg_bind _ (Or.inl rfl)
        | apply seg_alloc (seg_alloc _ (by assumption)) (by assumption)
        | apply seg_alloc _ (by assumption)
        | apply seg_alloc_plain
        | apply seg_push _ (by first | assumption | decide | (split <;> decide))
        | apply seg_push_hres _ (by first | assumption | decide | (split <;> decide))
        | apply seg_push_exempt _ (Or.inl rfl)
        | apply seg_push_exempt _ (Or.inr (Or.inl rfl))
        | apply seg_push_arg_na _ (by first | assumption | decide | (split <;> decide)) (by assumption)
        | apply seg_patch _ (le_refl _) (le_refl _)
        | apply seg_set_arg2
        | apply seg_set_no_fallback
        | apply heap_alloc_seg
        | apply compiler_alloc_string_seg
        | apply compiler_alloc_bstr_seg
        | apply seg_of_segs (push_instr_uint_seg _ _ _ (by decide))
        | apply seg_of_segs (seg_push_known _ _)
        | apply seg_body ih1
        | apply seg_of_segs (ih1 _ _ _ _)
        | apply seg_body ih2
        | apply seg_of_segs (ih2 _ _ _ _)
        | apply seg_of_segs (push_instr_hres_seg _ _)
        | apply seg_of_segs (push_instr_int_seg _ _ _ _)
        | apply seg_of_segs (push_instr_str_seg _ _ _ _)
        | apply seg_of_segs (push_instr_bstr_seg _ _ _ _)
        | apply seg_of_segs (push_instr_bstr_uint_seg _ _ _ _ _)
        | apply seg_of_segs (push_instr_uint_str_seg _ _ _ _ _)
        | apply seg_of_segs (push_instr_double_seg _ _ _ _)
        | apply seg_of_segs (compile_expression_seg _ _)
        | apply seg_of_segs (compile_expression_noret_seg _ _ _)
        | apply seg_of_segs (compile_memberid_expression_seg _ _ _)
        | apply seg_of_segs (compile_variable_list_seg _ _)
        | apply seg_of_segs (segs_ite_failed_self _) (by assumption)
        | apply seg_of_segs (segs_ite_failed _) (by assumption)
        | apply seg_of_segs (segs_ite_oom _) (by assumption)
        | apply seg_of_segs (segs_fst_ite_oom _) (by assumption)
        | apply seg_of_segs (segs_fst_ite_failed _) (by assumption)
        | apply seg_of_segs (segs_fst_ite _ _) (by assumption)
        | apply seg_of_segs (segs_ite _ _) (by assumption)
        | apply seg_ite
        | apply seg_of_segf _ (by assumption)))
    | (with_reducible (apply segs_guard); with_reducible (first
        | apply segs_ite_failed_self
        | apply segs_ite_failed
        | apply segs_ite_oom
        | apply segs_fst_ite_failed
        | apply segs_fst_ite_failed2
        | apply segs_fst_ite_oom
        | apply segs_oom
        | apply seg_fallback _ _ h _
        | apply seg_fallback _ _ (seg_mono_e h (fun _ hi => Or.inr hi)) _
        | apply seg_fallback _ _ (seg_mono_e h (fun _ hi => Or.inr (Or.inr hi))) _
        | apply push_instr_uint_seg _ _ _ (by decide)
        | apply seg_push_known
        | apply ih1
        | apply ih2
        | apply push_instr_hres_seg
        | apply push_instr_int_seg
        | apply push_instr_str_seg
        | apply push_instr_bstr_seg
        | apply push_instr_bstr_uint_seg
        | apply push_instr_uint_str_seg
        | apply push_instr_double_seg
        | apply compile_expression_seg
        | apply compile_expression_noret_seg
        | apply compile_memberid_expression_seg
        | apply compile_variable_list_seg
        | apply segs_ite
        | apply segs_fst_ite))
    | (with_reducible (apply segf_guard); with_reducible (first
        | apply segf_ite_true
        | apply segf_ok))
    | (with_reducible (apply rel_guard); with_reducible (first
        | apply Rel.refl _
        | apply Rel.ite_failed
        | apply Rel.ite_oom
        | apply Rel.ite
        | apply Rel.ite1
        | apply Rel.ite2
        | apply Rel.ite0
        | apply Rel.ite21
        | apply body_step (compile_statement_rel _)
        | apply compile_statement_rel
        | apply compile_block_statement_rel
        | apply set_arg1_rel
        | apply set_arg2_rel
        | apply push_instr_idx_ge
        | apply push_instr_rel
        | apply push_instr_hres_rel
        | apply push_instr_int_rel
        | apply push_instr_uint_rel
        | apply push_instr_str_rel
        | apply push_instr_bstr_rel
        | apply push_instr_bstr_uint_rel
        | apply push_instr_uint_str_rel
        | apply push_instr_double_rel
        | apply heap_alloc_rel
        | apply compiler_alloc_string_rel
        | apply compiler_alloc_bstr_rel
        | apply compile_expression_rel
        | apply compile_expression_noret_rel
        | apply compile_memberid_expression_rel
        | apply set_eval_rel
        | apply compile_interp_fallback_rel
        | apply alloc_label_rel
        | apply label_set_addr_rel
        | apply Rel.rollback
        | apply compile_variable_list_rel
        | apply pop_to_stat_rel))
    | with_reducible (first
        | assumption
        | apply hF
        | apply frames_mono hF (fun _ hv => Or.inr (Or.inr hv))
        | apply frames_mono hF (fun _ hv => Or.inr hv)
        | apply frameok_none
        | apply frameok_some (frameok_plain _ _ _)
        | apply frameok_some (frameok_loop _ _ _)
        | apply frameok_some (frameok_switch _ _ _)
        | apply not_failed_ok
        | apply Or.inl (List.mem_cons_self _ _)
        | apply Or.inl (List.mem_cons_of_mem _ (List.mem_cons_self _ _))
        | apply Or.inr (Or.inl rfl)
        | apply Or.inr (Or.inr (Or.inl rfl))
        | apply push_instr_idx_ge
        | intro _)
    | (with_reducible (apply hop_guard); decide)
    | (lift_lets; intro _)
    | split
    | with_reducible (apply segs_ok))

set_option maxRecDepth 8000 in
theorem compile_if_seg_aux {P E : Nat → Prop} {B : List Nat} {F : List statement_ctx_t} {lo : Nat} {c : compiler_ctx_t} {expr : expression_t} {if_stat : statement_t}
    (ih1 : (∀ (sc : Option statement_ctx_t) {P E : Nat → Prop} {B : List Nat} {F : List statement_ctx_t} {lo : Nat} {c : compiler_ctx_t},
      Seg P E B F lo c → (∀ f ∈ F, FrameOK P f) → (∀ f, sc = some f → FrameOK P f) →
      SegS P E B F lo (compile_statement c sc if_stat)))
    (h : Seg P E B F lo c) (hF : ∀ f ∈ F, FrameOK P f) :
    SegS P E B F lo (compile_if_statement c (.mk expr if_stat .NULL)) := by
  rw [compile_if_statement_unfold]
  skip
  all_goals lift_lets
  all_goals intro 
  all_goals intros
  all_goals repeat' (first
    | (with_reducible (apply seg_guard); with_reducible (first
        | apply h
        | apply seg_mono_e h (fun _ hi => Or.inr hi)
        | apply seg_mono_e h (fun _ hi => Or.inr (Or.inr hi))
        | apply seg_mark
        | apply seg_bind _ (Or.inl rfl)
        | apply seg_alloc (seg_alloc _ (by assumption)) (by assumption)
        | apply seg_alloc _ (by assumption)
        | apply seg_alloc_plain
        | apply seg_push _ (by first | assumption | decide | (split <;> decide))
        | apply seg_push_hres _ (by first | assumption | decide | (split <;> decide))
        | apply seg_push_exempt _ (Or.inl rfl)
        | apply seg_push_exempt _ (Or.inr (Or.inl rfl))
        | apply seg_push_arg_na _ (by first | assumption | decide | (split <;> decide)) (by assumption)
        | apply seg_patch _ (le_refl _) (le_refl _)
        | apply seg_set_arg2
        | apply seg_set_no_fallback
        | apply heap_alloc_seg
        | apply compiler_alloc_string_seg
        | apply compiler_alloc_bstr_seg
        | apply seg_of_segs (push_instr_uint_seg _ _ _ (by decide))
        | apply seg_of_segs (seg_push_known _ _)
        | apply seg_body ih1
        | apply seg_of_segs (ih1 _ _ _ _)
        | apply seg_of_segs (push_instr_hres_seg _ _)
        | apply seg_of_segs (push_instr_int_seg _ _ _ _)
        | apply seg_of_segs (push_instr_str_seg _ _ _ _)
        | apply seg_of_segs (push_instr_bstr_seg _ _ _ _)
        | apply seg_of_segs (push_instr_bstr_uint_seg _ _ _ _ _)
        | apply seg_of_segs (push_instr_uint_str_seg _ _ _ _ _)
        | apply seg_of_segs (push_instr_double_seg _ _ _ _)
        | apply seg_of_segs (compile_expression_seg _ _)
        | apply seg_of_segs (compile_expression_noret_seg _ _ _)
        | apply seg_of_segs (compile_memberid_expression_seg _ _ _)
        | apply seg_of_segs (compile_variable_list_seg _ _)
        | apply seg_of_segs (segs_ite_failed_self _) (by assumption)
        | apply seg_of_segs (segs_ite_failed _) (by assumption)
        | apply seg_of_segs (segs_ite_oom _) (by assumption)
        | apply seg_of_segs (segs_fst_ite_oom _) (by assumption)
        | apply seg_of_segs (segs_fst_ite_failed _) (by assumption)
        | apply seg_of_segs (segs_fst_ite _ _) (by assumption)
        | apply seg_of_segs (segs_ite _ _) (by assumption)
        | apply seg_ite
        | apply seg_of_segf _ (by assumption)))
    | (with_reducible (apply segs_guard); with_reducible (first
        | apply segs_ite_failed_self
        | apply segs_ite_failed
        | apply segs_ite_oom
        | apply segs_fst_ite_failed
        | apply segs_fst_ite_failed2
        | apply segs_fst_ite_oom
        | apply segs_oom
        | apply seg_fallback _ _ h _
        | apply seg_fallback _ _ (seg_mono_e h (fun _ hi => Or.inr hi)) _
        | apply seg_fallback _ _ (seg_mono_e h (fun _ hi => Or.inr (Or.inr hi))) _
        | apply push_instr_uint_seg _ _ _ (by decide)
        | apply seg_push_known
        | apply ih1
        | apply push_instr_hres_seg
        | apply push_instr_int_seg
        | apply push_instr_str_seg
        | apply push_instr_bstr_seg
        | apply push_instr_bstr_uint_seg
        | apply push_instr_uint_str_seg
        | apply push_instr_double_seg
        | apply compile_expression_seg
        | apply compile_expression_noret_seg
        | apply compile_memberid_expression_seg
        | apply compile_variable_list_seg
        | apply segs_ite
        | apply segs_fst_ite))
    | (with_reducible (apply segf_guard); with_reducible (first
        | apply segf_ite_true
        | apply segf_ok))
    | (with_reducible (apply rel_guard); with_reducible (first
        | apply Rel.refl _
        | apply Rel.ite_failed
        | apply Rel.ite_oom
        | apply Rel.ite
        | apply Rel.ite1
        | apply Rel.ite2
        | apply Rel.ite0
        | apply Rel.ite21
        | apply body_step (compile_statement_rel _)
        | apply compile_statement_rel
        | apply compile_block_statement_rel
        | apply set_arg1_rel
        | apply set_arg2_rel
        | apply push_instr_idx_ge
        | apply push_instr_rel
        | apply push_instr_hres_rel
        | apply push_instr_int_rel
        | apply push_instr_uint_rel
        | apply push_instr_str_rel
        | apply push_instr_bstr_rel
        | apply push_instr_bstr_uint_rel
        | apply push_instr_uint_str_rel
        | apply push_instr_double_rel
        | apply heap_alloc_rel
        | apply compiler_alloc_string_rel
        | apply compiler_alloc_bstr_rel
        | apply compile_expression_rel
        | apply compile_expression_noret_rel
        | apply compile_memberid_expression_rel
        | apply set_eval_rel
        | apply compile_interp_fallback_rel
        | apply alloc_label_rel
        | apply label_set_addr_rel
        | apply Rel.rollback
        | apply compile_variable_list_rel
        | apply pop_to_stat_rel))
    | with_reducible (first
        | assumption
        | apply hF
        | apply frames_mono hF (fun _ hv => Or.inr (Or.inr hv))
        | apply frames_mono hF (fun _ hv => Or.inr hv)
        | apply frameok_none
        | apply frameok_some (frameok_plain _ _ _)
        | apply frameok_some (frameok_loop _ _ _)
        | apply frameok_some (frameok_switch _ _ _)
        | apply not_failed_ok
        | apply Or.inl (List.mem_cons_self _ _)
        | apply Or.inl (List.mem_cons_of_mem _ (List.mem_cons_self _ _))
        | apply Or.inr (Or.inl rfl)
        | apply Or.inr (Or.inr (Or.inl rfl))
        | apply push_instr_idx_ge
        | intro _)
    | (with_reducible (apply hop_guard); decide)
    | (lift_lets; intro _)
    | split
    | with_reducible (apply segs_ok))

set_option maxRecDepth 8000 in
theorem compile_with_statement_seg_aux {P E : Nat → Prop} {B : List Nat} {F : List statement_ctx_t} {lo : Nat} {c : compiler_ctx_t} {expr : expression_t} {statement : statement_t}
    (ih1 : (∀ (sc : Option statement_ctx_t) {P E : Nat → Prop} {B : List Nat} {F : List statement_ctx_t} {lo : Nat} {c : compiler_ctx_t},
      Seg P E B F lo c → (∀ f ∈ F, FrameOK P f) → (∀ f, sc = some f → FrameOK P f) →
      SegS P E B F lo (compile_statement c sc statement)))
    (h : Seg P E B F lo c) (hF : ∀ f ∈ F, FrameOK P f) :
    SegS P E B F lo (compile_with_statement c (.mk expr statement)) := by
  rw [compile_with_statement_unfold]
  skip
  all_goals lift_lets
  all_goals intro 
  all_goals intros
  all_goals repeat' (first
    | (with_reducible (apply seg_guard); with_reducible (first
        | apply h
        | apply seg_mono_e h (fun _ hi => Or.inr hi)
        | apply seg_mono_e h (fun _ hi => Or.inr (Or.inr hi))
        | apply seg_mark
        | apply seg_bind _ (Or.inl rfl)
        | apply seg_alloc (seg_alloc _ (by assumption)) (by assumption)
        | apply seg_alloc _ (by assumption)
        | apply seg_alloc_plain
        | apply seg_push _ (by first | assumption | decide | (split <;> decide))
        | apply seg_push_hres _ (by first | assumption | decide | (split <;> decide))
        | apply seg_push_exempt _ (Or.inl rfl)
        | apply seg_push_exempt _ (Or.inr (Or.inl rfl))
        | apply seg_push_arg_na _ (by first | assumption | decide | (split <;> decide)) (by assumption)
        | apply seg_patch _ (le_refl _) (le_refl _)
        | apply seg_set_arg2
        | apply seg_set_no_fallback
        | apply heap_alloc_seg
        | apply compiler_alloc_string_seg
        | apply compiler_alloc_bstr_seg
        | apply seg_of_segs (push_instr_uint_seg _ _ _ (by decide))
        | apply seg_of_segs (seg_push_known _ _)
        | apply seg_body ih1
        | apply seg_of_segs (ih1 _ _ _ _)
        | apply seg_of_segs (push_instr_hres_seg _ _)
        | apply seg_of_segs (push_instr_int_seg _ _ _ _)
        | apply seg_of_segs (push_instr_str_seg _ _ _ _)
        | apply seg_of_segs (push_instr_bstr_seg _ _ _ _)
        | apply seg_of_segs (push_instr_bstr_uint_seg _ _ _ _ _)
        | apply seg_of_segs (push_instr_uint_str_seg _ _ _ _ _)
        | apply seg_of_segs (push_instr_double_seg _ _ _ _)
        | apply seg_of_segs (compile_expression_seg _ _)
        | apply seg_of_segs (compile_expression_noret_seg _ _ _)
        | apply seg_of_segs (compile_memberid_expression_seg _ _ _)
        | apply seg_of_segs (compile_variable_list_seg _ _)
        | apply seg_of_segs (segs_ite_failed_self _) (by assumption)
        | apply seg_of_segs (segs_ite_failed _) (by assumption)
        | apply seg_of_segs (segs_ite_oom _) (by assumption)
        | apply seg_of_segs (segs_fst_ite_oom _) (by assumption)
        | apply seg_of_segs (segs_fst_ite_failed _) (by assumption)
        | apply seg_of_segs (segs_fst_ite _ _) (by assumption)
        | apply seg_of_segs (segs_ite _ _) (by assumption)
        | apply seg_ite
        | apply seg_of_segf _ (by assumption)))
    | (with_reducible (apply segs_guard); with_reducible (first
        | apply segs_ite_failed_self
        | apply segs_ite_failed
        | apply segs_ite_oom
        | apply segs_fst_ite_failed
        | apply segs_fst_ite_failed2
        | apply segs_fst_ite_oom
        | apply segs_oom
        | apply seg_fallback _ _ h _
        | apply seg_fallback _ _ (seg_mono_e h (fun _ hi => Or.inr hi)) _
        | apply seg_fallback _ _ (seg_mono_e h (fun _ hi => Or.inr (Or.inr hi))) _
        | apply push_instr_uint_seg _ _ _ (by decide)
        | apply seg_push_known
        | apply ih1
        | apply push_instr_hres_seg
        | apply push_instr_int_seg
        | apply push_instr_str_seg
        | apply push_instr_bstr_seg
        | apply push_instr_bstr_uint_seg
        | apply push_instr_uint_str_seg
        | apply push_instr_double_seg
        | apply compile_expression_seg
        | apply compile_expression_noret_seg
        | apply compile_memberid_expression_seg
        | apply compile_variable_list_seg
        | apply segs_ite
        | apply segs_fst_ite))
    | (with_reducible (apply segf_guard); with_reducible (first
        | apply segf_ite_true
        | apply segf_ok))
    | (with_reducible (apply rel_guard); with_reducible (first
        | apply Rel.refl _
        | apply Rel.ite_failed
        | apply Rel.ite_oom
        | apply Rel.ite
        | apply Rel.ite1
        | apply Rel.ite2
        | apply Rel.ite0
        | apply Rel.ite21
        | apply body_step (compile_statement_rel _)
        | apply compile_statement_rel
        | apply compile_block_statement_rel
        | apply set_arg1_rel
        | apply set_arg2_rel
        | apply push_instr_idx_ge
        | apply push_instr_rel
        | apply push_instr_hres_rel
        | apply push_instr_int_rel
        | apply push_instr_uint_rel
        | apply push_instr_str_rel
        | apply push_instr_bstr_rel
        | apply push_instr_bstr_uint_rel
        | apply push_instr_uint_str_rel
        | apply push_instr_double_rel
        | apply heap_alloc_rel
        | apply compiler_alloc_string_rel
        | apply compiler_alloc_bstr_rel
        | apply compile_expression_rel
        | apply compile_expression_noret_rel
        | apply compile_memberid_expression_rel
        | apply set_eval_rel
        | apply compile_interp_fallback_rel
        | apply alloc_label_rel
        | apply label_set_addr_rel
        | apply Rel.rollback
        | apply compile_variable_list_rel
        | apply pop_to_stat_rel))
    | with_reducible (first
        | assumption
        | apply hF
        | apply frames_mono hF (fun _ hv => Or.inr (Or.inr hv))
        | apply frames_mono hF (fun _ hv => Or.inr hv)
        | apply frameok_none
        | apply frameok_some (frameok_plain _ _ _)
        | apply frameok_some (frameok_loop _ _ _)
        | apply frameok_some (frameok_switch _ _ _)
        | apply not_failed_ok
        | apply Or.inl (List.mem_cons_self _ _)
        | apply Or.inl (List.mem_cons_of_mem _ (List.mem_cons_self _ _))
        | apply Or.inr (Or.inl rfl)
        | apply Or.inr (Or.inr (Or.inl rfl))
        | apply push_instr_idx_ge
        | intro _)
    | (with_reducible (apply hop_guard); decide)
    | (lift_lets; intro _)
    | split
    | with_reducible (apply segs_ok))

set_option maxRecDepth 8000 in
theorem compile_while_seg_aux {P E : Nat → Prop} {B : List Nat} {F : List statement_ctx_t} {lo : Nat} {c : compiler_ctx_t} {expr : expression_t} {statement : statement_t}
    (ih1 : (∀ (sc : Option statement_ctx_t) {P E : Nat → Prop} {B : List Nat} {F : List statement_ctx_t} {lo : Nat} {c : compiler_ctx_t},
      Seg P E B F lo c → (∀ f ∈ F, FrameOK P f) → (∀ f, sc = some f → FrameOK P f) →
      SegS P E B F lo (compile_statement c sc statement)))
    (h : Seg P E B F lo c) (hF : ∀ f ∈ F, FrameOK P f) :
    SegS P E B F lo (compile_while_statement c (.mk false expr statement)) := by
  rw [compile_while_statement_unfold]
  simp only [Bool.not_true, Bool.not_false, Bool.false_eq_true, if_true, if_false]
  all_goals lift_lets
  all_goals intro 
  all_goals intros
  all_goals repeat' (first
    | (with_reducible (apply seg_guard); with_reducible (first
        | apply h
        | apply seg_mono_e h (fun _ hi => Or.inr hi)
        | apply seg_mono_e h (fun _ hi => Or.inr (Or.inr hi))
        | apply seg_mark
        | apply seg_bind _ (Or.inl rfl)
        | apply seg_bind_loop (alloc_label (alloc_label c).2).1 (push_instr (alloc_label (alloc_label c).2).2 OP_undefined).2.code_off _
        | apply seg_alloc (seg_alloc _ (by assumption)) (by assumption)
        | apply seg_alloc _ (by assumption)
        | apply seg_alloc_plain
        | apply seg_push _ (by first | assumption | decide | (split <;> decide))
        | apply seg_push_hres _ (by first | assumption | decide | (split <;> decide))
        | apply seg_push_exempt _ (Or.inl rfl)
        | apply seg_push_exempt _ (Or.inr (Or.inl rfl))
        | apply seg_push_arg_na _ (by first | assumption | decide | (split <;> decide)) (by assumption)
        | apply seg_patch _ (le_refl _) (le_refl _)
        | apply seg_set_arg2
        | apply seg_set_no_fallback
        | apply heap_alloc_seg
        | apply compiler_alloc_string_seg
        | apply compiler_alloc_bstr_seg
        | apply seg_of_segs (push_instr_uint_seg _ _ _ (by decide))
        | apply seg_of_segs (seg_push_known _ _)
        | apply seg_body ih1
        | apply seg_of_segs (ih1 _ _ _ _)
        | apply seg_of_segs (push_instr_hres_seg _ _)
        | apply seg_of_segs (push_instr_int_seg _ _ _ _)
        | apply seg_of_segs (push_instr_str_seg _ _ _ _)
        | apply seg_of_segs (push_instr_bstr_seg _ _ _ _)
        | apply seg_of_segs (push_instr_bstr_uint_seg _ _ _ _ _)
        | apply seg_of_segs (push_instr_uint_str_seg _ _ _ _ _)
        | apply seg_of_segs (push_instr_double_seg _ _ _ _)
        | apply seg_of_segs (compile_expression_seg _ _)
        | apply seg_of_segs (compile_expression_noret_seg _ _ _)
        | apply seg_of_segs (compile_memberid_expression_seg _ _ _)
        | apply seg_of_segs (compile_variable_list_seg _ _)
        | apply seg_of_segs (segs_ite_failed_self _) (by assumption)
        | apply seg_of_segs (segs_ite_failed _) (by assumption)
        | apply seg_of_segs (segs_ite_oom _) (by assumption)
        | apply seg_of_segs (segs_fst_ite_oom _) (by assumption)
        | apply seg_of_segs (segs_fst_ite_failed _) (by assumption)
        | apply seg_of_segs (segs_fst_ite _ _) (by assumption)
        | apply seg_of_segs (segs_ite _ _) (by assumption)
        | apply seg_ite
        | apply seg_of_segf _ (by assumption)))
    | (with_reducible (apply segs_guard); with_reducible (first
        | apply segs_ite_failed_self
        | apply segs_ite_failed
        | apply segs_ite_oom
        | apply segs_fst_ite_failed
        | apply segs_fst_ite_failed2
        | apply segs_fst_ite_oom
        | apply segs_oom
        | apply seg_fallback _ _ h _
        | apply seg_fallback _ _ (seg_mono_e h (fun _ hi => Or.inr hi)) _
        | apply seg_fallback _ _ (seg_mono_e h (fun _ hi => Or.inr (Or.inr hi))) _
        | apply push_instr_uint_seg _ _ _ (by decide)
        | apply seg_push_known
        | apply ih1
        | apply push_instr_hres_seg
        | apply push_instr_int_seg
        | apply push_instr_str_seg
        | apply push_instr_bstr_seg
        | apply push_instr_bstr_uint_seg
        | apply push_instr_uint_str_seg
        | apply push_instr_double_seg
        | apply compile_expression_seg
        | apply compile_expression_noret_seg
        | apply compile_memberid_expression_seg
        | apply compile_variable_list_seg
        | apply segs_ite
        | apply segs_fst_ite))
    | (with_reducible (apply segf_guard); with_reducible (first
        | apply segf_ite_true
        | apply segf_ok))
    | (with_reducible (apply rel_guard); with_reducible (first
        | apply Rel.refl _
        | apply Rel.ite_failed
        | apply Rel.ite_oom
        | apply Rel.ite
        | apply Rel.ite1
        | apply Rel.ite2
        | apply Rel.ite0
        | apply Rel.ite21
        | apply body_step (compile_statement_rel _)
        | apply compile_statement_rel
        | apply compile_block_statement_rel
        | apply set_arg1_rel
        | apply set_arg2_rel
        | apply push_instr_idx_ge
        | apply push_instr_rel
        | apply push_instr_hres_rel
        | apply push_instr_int_rel
        | apply push_instr_uint_rel
        | apply push_instr_str_rel
        | apply push_instr_bstr_rel
        | apply push_instr_bstr_uint_rel
        | apply push_instr_uint_str_rel
        | apply push_instr_double_rel
        | apply heap_alloc_rel
        | apply compiler_alloc_string_rel
        | apply compiler_alloc_bstr_rel
        | apply compile_expression_rel
        | apply compile_expression_noret_rel
        | apply compile_memberid_expression_rel
        | apply set_eval_rel
        | apply compile_interp_fallback_rel
        | apply alloc_label_rel
        | apply label_set_addr_rel
        | apply Rel.rollback
        | apply compile_variable_list_rel
        | apply pop_to_stat_rel))
    | with_reducible (first
        | assumption
        | apply hF
        | apply frames_mono hF (fun _ hv => Or.inr (Or.inr hv))
        | apply frames_mono hF (fun _ hv => Or.inr hv)
        | apply frameok_none
        | apply frameok_some (frameok_plain _ _ _)
        | apply frameok_some (frameok_loop _ _ _)
        | apply frameok_some (frameok_switch _ _ _)
        | apply not_failed_ok
        | apply Or.inl (List.mem_cons_self _ _)
        | apply Or.inl (List.mem_cons_of_mem _ (List.mem_cons_self _ _))
        | apply Or.inr (Or.inl rfl)
        | apply Or.inr (Or.inr (Or.inl rfl))
        | apply push_instr_idx_ge
        | apply Or.inl (while_head_known (by assumption))
        | intro _)
    | (with_reducible (apply hop_guard); decide)
    | (lift_lets; intro _)
    | split
    | with_reducible (apply segs_ok))

set_option maxRecDepth 8000 in
theorem compile_do_while_seg_aux {P E : Nat → Prop} {B : List Nat} {F : List statement_ctx_t} {lo : Nat} {c : compiler_ctx_t} {expr : expression_t} {statement : statement_t}
    (ih1 : (∀ (sc : Option statement_ctx_t) {P E : Nat → Prop} {B : List Nat} {F : List statement_ctx_t} {lo : Nat} {c : compiler_ctx_t},
      Seg P E B F lo c → (∀ f ∈ F, FrameOK P f) → (∀ f, sc = some f → FrameOK P f) →
      SegS P E B F lo (compile_statement c sc statement)))
    (h : Seg P E B F lo c) (hF : ∀ f ∈ F, FrameOK P f) :
    SegS P E B F lo (compile_while_statement c (.mk true expr statement)) := by
  rw [compile_while_statement_unfold]
  simp only [Bool.not_true, Bool.not_false, Bool.false_eq_true, if_true, if_false]
  all_goals lift_lets
  all_goals intro 
  all_goals intros
  all_goals repeat' (first
    | (with_reducible (apply seg_guard); with_reducible (first
        | apply h
        | apply seg_mono_e h (fun _ hi => Or.inr hi)
        | apply seg_mono_e h (fun _ hi => Or.inr (Or.inr hi))
        | apply seg_mark
        | apply seg_bind _ (Or.inl rfl)
        | apply seg_bind_loop (alloc_label (alloc_label c).2).1 (alloc_label (alloc_label c).2).2.code_off _
        | apply seg_alloc (seg_alloc _ (by assumption)) (by assumption)
        | apply seg_alloc _ (by assumption)
        | apply seg_alloc_plain
        | apply seg_push _ (by first | assumption | decide | (split <;> decide))
        | apply seg_push_hres _ (by first | assumption | decide | (split <;> decide))
        | apply seg_push_exempt _ (Or.inl rfl)
        | apply seg_push_exempt _ (Or.inr (Or.inl rfl))
        | apply seg_push_arg_na _ (by first | assumption | decide | (split <;> decide)) (by assumption)
        | apply seg_patch _ (le_refl _) (le_refl _)
        | apply seg_set_arg2
        | apply seg_set_no_fallback
        | apply heap_alloc_seg
        | apply compiler_alloc_string_seg
        | apply compiler_alloc_bstr_seg
        | apply seg_of_segs (push_instr_uint_seg _ _ _ (by decide))
        | apply seg_of_segs (seg_push_known _ _)
        | apply seg_body ih1
        | apply seg_of_segs (ih1 _ _ _ _)
        | apply seg_of_segs (push_instr_hres_seg _ _)
        | apply seg_of_segs (push_instr_int_seg _ _ _ _)
        | apply seg_of_segs (push_instr_str_seg _ _ _ _)
        | apply seg_of_segs (push_instr_bstr_seg _ _ _ _)
        | apply seg_of_segs (push_instr_bstr_uint_seg _ _ _ _ _)
        | apply seg_of_segs (push_instr_uint_str_seg _ _ _ _ _)
        | apply seg_of_segs (push_instr_double_seg _ _ _ _)
        | apply seg_of_segs (compile_expression_seg _ _)
        | apply seg_of_segs (compile_expression_noret_seg _ _ _)
        | apply seg_of_segs (compile_memberid_expression_seg _ _ _)
        | apply seg_of_segs (compile_variable_list_seg _ _)
        | apply seg_of_segs (segs_ite_failed_self _) (by assumption)
        | apply seg_of_segs (segs_ite_failed _) (by assumption)
        | apply seg_of_segs (segs_ite_oom _) (by assumption)
        | apply seg_of_segs (segs_fst_ite_oom _) (by assumption)
        | apply seg_of_segs (segs_fst_ite_failed _) (by assumption)
        | apply seg_of_segs (segs_fst_ite _ _) (by assumption)
        | apply seg_of_segs (segs_ite _ _) (by assumption)
        | apply seg_ite
        | apply seg_of_segf _ (by assumption)))
    | (with_reducible (apply segs_guard); with_reducible (first
        | apply segs_ite_failed_self
        | apply segs_ite_failed
        | apply segs_ite_oom
        | apply segs_fst_ite_failed
        | apply segs_fst_ite_failed2
        | apply segs_fst_ite_oom
        | apply segs_oom
        | apply seg_fallback _ _ h _
        | apply seg_fallback _ _ (seg_mono_e h (fun _ hi => Or.inr hi)) _
        | apply seg_fallback _ _ (seg_mono_e h (fun _ hi => Or.inr (Or.inr hi))) _
        | apply push_instr_uint_seg _ _ _ (by decide)
        | apply seg_push_known
        | apply ih1
        | apply push_instr_hres_seg
        | apply push_instr_int_seg
        | apply push_instr_str_seg
        | apply push_instr_bstr_seg
        | apply push_instr_bstr_uint_seg
        | apply push_instr_uint_str_seg
        | apply push_instr_double_seg
        | apply compile_expression_seg
        | apply compile_expression_noret_seg
        | apply compile_memberid_expression_seg
        | apply compile_variable_list_seg
        | apply segs_ite
        | apply segs_fst_ite))
    | (with_reducible (apply segf_guard); with_reducible (first
        | apply segf_ite_true
        | apply segf_ok))
    | (with_reducible (apply rel_guard); with_reducible (first
        | apply Rel.refl _
        | apply Rel.ite_failed
        | apply Rel.ite_oom
        | apply Rel.ite
        | apply Rel.ite1
        | apply Rel.ite2
        | apply Rel.ite0
        | apply Rel.ite21
        | apply body_step (compile_statement_rel _)
        | apply compile_statement_rel
        | apply compile_block_statement_rel
        | apply set_arg1_rel
        | apply set_arg2_rel
        | apply push_instr_idx_ge
        | apply push_instr_rel
        | apply push_instr_hres_rel
        | apply push_instr_int_rel
        | apply push_instr_uint_rel
        | apply push_instr_str_rel
        | apply push_instr_bstr_rel
        | apply push_instr_bstr_uint_rel
        | apply push_instr_uint_str_rel
        | apply push_instr_double_rel
        | apply heap_alloc_rel
        | apply compiler_alloc_string_rel
        | apply compiler_alloc_bstr_rel
        | apply compile_expression_rel
        | apply compile_expression_noret_rel
        | apply compile_memberid_expression_rel
        | apply set_eval_rel
        | apply compile_interp_fallback_rel
        | apply alloc_label_rel
        | apply label_set_addr_rel
        | apply Rel.rollback
        | apply compile_variable_list_rel
        | apply pop_to_stat_rel))
    | with_reducible (first
        | assumption
        | apply hF
        | apply frames_mono hF (fun _ hv => Or.inr (Or.inr hv))
        | apply frames_mono hF (fun _ hv => Or.inr hv)
        | apply frameok_none
        | apply frameok_some (frameok_plain _ _ _)
        | apply frameok_some (frameok_loop _ _ _)
        | apply frameok_some (frameok_switch _ _ _)
        | apply not_failed_ok
        | apply Or.inl (List.mem_cons_self _ _)
        | apply Or.inl (List.mem_cons_of_mem _ (List.mem_cons_self _ _))
        | apply Or.inr (Or.inl rfl)
        | apply Or.inr (Or.inr (Or.inl rfl))
        | apply push_instr_idx_ge
        | intro _)
    | (with_reducible (apply hop_guard); decide)
    | (lift_lets; intro _)
    | split
    | with_reducible (apply segs_ok))

set_option maxHeartbeats 1600000 in
set_option maxRecDepth 8000 in
theorem compile_for_statement_seg_aux {P E : Nat → Prop} {B : List Nat} {F : List statement_ctx_t} {lo : Nat} {c : compiler_ctx_t} {variable_list : variable_declaration_t} {begin_expr expr end_expr : Option expression_t} {statement : statement_t}
    (ih1 : (∀ (sc : Option statement_ctx_t) {P E : Nat → Prop} {B : List Nat} {F : List statement_ctx_t} {lo : Nat} {c : compiler_ctx_t},
      Seg P E B F lo c → (∀ f ∈ F, FrameOK P f) → (∀ f, sc = some f → FrameOK P f) →
      SegS P E B F lo (compile_statement c sc statement)))
    (h : Seg P E B F lo c) (hF : ∀ f ∈ F, FrameOK P f) :
    SegS P E B F lo (compile_for_statement c (.mk variable_list begin_expr expr end_expr statement)) := by
  rw [compile_for_statement_unfold]
  skip
  all_goals lift_lets
  all_goals intro off_backup init break_label continue_label stat_ctx instr expr_off
  all_goals intros
  all_goals repeat' (first
    | (with_reducible (apply seg_guard); with_reducible (first
        | apply h
        | apply seg_mono_e h (fun _ hi => Or.inr hi)
        | apply seg_mono_e h (fun _ hi => Or.inr (Or.inr hi))
        | apply seg_mark
        | apply seg_bind _ (Or.inl rfl)
        | apply seg_bind_loop continue_label.1 expr_off _
        | apply seg_alloc (seg_alloc _ (by assumption)) (by assumption)
        | apply seg_alloc _ (by assumption)
        | apply seg_alloc_plain
        | apply seg_push _ (by first | assumption | decide | (split <;> decide))
        | apply seg_push_hres _ (by first | assumption | decide | (split <;> decide))
        | apply seg_push_exempt _ (Or.inl rfl)
        | apply seg_push_exempt _ (Or.inr (Or.inl rfl))
        | apply seg_push_arg_na _ (by first | assumption | decide | (split <;> decide)) (by assumption)
        | apply seg_patch _ (le_refl _) (le_refl _)
        | apply seg_set_arg2
        | apply seg_set_no_fallback
        | apply heap_alloc_seg
        | apply compiler_alloc_string_seg
        | apply compiler_alloc_bstr_seg
        | apply seg_of_segs (push_instr_uint_seg _ _ _ (by decide))
        | apply seg_of_segs (seg_push_known _ _)
        | apply seg_body ih1
        | apply seg_of_segs (ih1 _ _ _ _)
        | apply seg_of_segs (push_instr_hres_seg _ _)
        | apply seg_of_segs (push_instr_int_seg _ _ _ _)
        | apply seg_of_segs (push_instr_str_seg _ _ _ _)
        | apply seg_of_segs (push_instr_bstr_seg _ _ _ _)
        | apply seg_of_segs (push_instr_bstr_uint_seg _ _ _ _ _)
        | apply seg_of_segs (push_instr_uint_str_seg _ _ _ _ _)
        | apply seg_of_segs (push_instr_double_seg _ _ _ _)
        | apply seg_of_segs (compile_expression_seg _ _)
        | apply seg_of_segs (compile_expression_noret_seg _ _ _)
        | apply seg_of_segs (compile_memberid_expression_seg _ _ _)
        | apply seg_of_segs (compile_variable_list_seg _ _)
        | apply seg_of_segs (segs_ite_failed_self _) (by assumption)
        | apply seg_of_segs (segs_ite_failed _) (by assumption)
        | apply seg_of_segs (segs_ite_oom _) (by assumption)
        | apply seg_of_segs (segs_fst_ite_oom _) (by assumption)
        | apply seg_of_segs (segs_fst_ite_failed _) (by assumption)
        | apply seg_of_segs (segs_fst_ite _ _) (by assumption)
        | apply seg_of_segs (segs_ite _ _) (by assumption)
        | apply seg_ite
        | apply seg_of_segf _ (by assumption)))
    | (with_reducible (apply segs_guard); with_reducible (first
        | apply segs_ite_failed_self
        | apply segs_ite_failed
        | apply segs_ite_oom
        | apply segs_fst_ite_failed
        | apply segs_fst_ite_failed2
        | apply segs_fst_ite_oom
        | apply segs_oom
        | apply seg_fallback _ _ h _
        | apply seg_fallback _ _ (seg_mono_e h (fun _ hi => Or.inr hi)) _
        | apply seg_fallback _ _ (seg_mono_e h (fun _ hi => Or.inr (Or.inr hi))) _
        | apply push_instr_uint_seg _ _ _ (by decide)
        | apply seg_push_known
        | apply ih1
        | apply push_instr_hres_seg
        | apply push_instr_int_seg
        | apply push_instr_str_seg
        | apply push_instr_bstr_seg
        | apply push_instr_bstr_uint_seg
        | apply push_instr_uint_str_seg
        | apply push_instr_double_seg
        | apply compile_expression_seg
        | apply compile_expression_noret_seg
        | apply compile_memberid_expression_seg
        | apply compile_variable_list_seg
        | apply segs_ite
        | apply segs_fst_ite))
    | (with_reducible (apply segf_guard); with_reducible (first
        | apply segf_ite_true
        | apply segf_ok))
    | (with_reducible (apply rel_guard); with_reducible (first
        | apply Rel.refl _
        | apply Rel.ite_failed
        | apply Rel.ite_oom
        | apply Rel.ite
        | apply Rel.ite1
        | apply Rel.ite2
        | apply Rel.ite0
        | apply Rel.ite21
        | apply body_step (compile_statement_rel _)
        | apply compile_statement_rel
        | apply compile_block_statement_rel
        | apply set_arg1_rel
        | apply set_arg2_rel
        | apply push_instr_idx_ge
        | apply push_instr_rel
        | apply push_instr_hres_rel
        | apply push_instr_int_rel
        | apply push_instr_uint_rel
        | apply push_instr_str_rel
        | apply push_instr_bstr_rel
        | apply push_instr_bstr_uint_rel
        | apply push_instr_uint_str_rel
        | apply push_instr_double_rel
        | apply heap_alloc_rel
        | apply compiler_alloc_string_rel
        | apply compiler_alloc_bstr_rel
        | apply compile_expression_rel
        | apply compile_expression_noret_rel
        | apply compile_memberid_expression_rel
        | apply set_eval_rel
        | apply compile_interp_fallback_rel
        | apply alloc_label_rel
        | apply label_set_addr_rel
        | apply Rel.rollback
        | apply compile_variable_list_rel
        | apply pop_to_stat_rel))
    | with_reducible (first
        | assumption
        | apply hF
        | apply frames_mono hF (fun _ hv => Or.inr (Or.inr hv))
        | apply frames_mono hF (fun _ hv => Or.inr hv)
        | apply frameok_none
        | apply frameok_some (frameok_plain _ _ _)
        | apply frameok_some (frameok_loop _ _ _)
        | apply frameok_some (frameok_switch _ _ _)
        | apply not_failed_ok
        | apply Or.inl (List.mem_cons_self _ _)
        | apply Or.inl (List.mem_cons_of_mem _ (List.mem_cons_self _ _))
        | apply Or.inr (Or.inl rfl)
        | apply Or.inr (Or.inr (Or.inl rfl))
        | apply push_instr_idx_ge
        | intro _)
    | (with_reducible (apply hop_guard); decide)
    | (lift_lets; intro _)
    | split
    | with_reducible (apply segs_ok)
    | cases variable_list
    | cases begin_expr
    | cases expr
    | cases end_expr)

set_option maxRecDepth 8000 in
theorem compile_forin_statement_seg_aux {P E : Nat → Prop} {B : List Nat} {F : List statement_ctx_t} {lo : Nat} {c : compiler_ctx_t} {variable_ : variable_declaration_t} {expr in_expr : expression_t} {statement : statement_t}
    (ih1 : (∀ (sc : Option statement_ctx_t) {P E : Nat → Prop} {B : List Nat} {F : List statement_ctx_t} {lo : Nat} {c : compiler_ctx_t},
      Seg P E B F lo c → (∀ f ∈ F, FrameOK P f) → (∀ f, sc = some f → FrameOK P f) →
      SegS P E B F lo (compile_statement c sc statement)))
    (h : Seg P E B F lo c) (hF : ∀ f ∈ F, FrameOK P f) :
    SegS P E B F lo (compile_forin_statement c (.mk variable_ expr in_expr statement)) := by
  rw [compile_forin_statement_unfold]
  cases variable_
  all_goals lift_lets
  all_goals intro off_backup init break_label continue_label
  all_goals intros
  all_goals repeat' (first
    | (with_reducible (apply seg_guard); with_reducible (first
        | apply h
        | apply seg_mono_e h (fun _ hi => Or.inr hi)
        | apply seg_mono_e h (fun _ hi => Or.inr (Or.inr hi))
        | apply seg_mark
        | apply seg_bind _ (Or.inl rfl)
        | apply seg_bind_forin continue_label.1 _
        | apply seg_alloc (seg_alloc _ (by assumption)) (by assumption)
        | apply seg_alloc _ (by assumption)
        | apply seg_alloc_plain
        | apply seg_push _ (by first | assumption | decide | (split <;> decide))
        | apply seg_push_hres _ (by first | assumption | decide | (split <;> decide))
        | apply seg_push_exempt _ (Or.inl rfl)
        | apply seg_push_exempt _ (Or.inr (Or.inl rfl))
        | apply seg_push_arg_na _ (by first | assumption | decide | (split <;> decide)) (by assumption)
        | apply seg_patch _ (le_refl _) (le_refl _)
        | apply seg_set_arg2
        | apply seg_set_no_fallback
        | apply heap_alloc_seg
        | apply compiler_alloc_string_seg
        | apply compiler_alloc_bstr_seg
        | apply seg_of_segs (push_instr_uint_seg _ _ _ (by decide))
        | apply seg_of_segs (seg_push_known _ _)
        | apply seg_body ih1
        | apply seg_of_segs (ih1 _ _ _ _)
        | apply seg_of_segs (push_instr_hres_seg _ _)
        | apply seg_of_segs (push_instr_int_seg _ _ _ _)
        | apply seg_of_segs (push_instr_str_seg _ _ _ _)
        | apply seg_of_segs (push_instr_bstr_seg _ _ _ _)
        | apply seg_of_segs (push_instr_bstr_uint_seg _ _ _ _ _)
        | apply seg_of_segs (push_instr_uint_str_seg _ _ _ _ _)
        | apply seg_of_segs (push_instr_double_seg _ _ _ _)
        | apply seg_of_segs (compile_expression_seg _ _)
        | apply seg_of_segs (compile_expression_noret_seg _ _ _)
        | apply seg_of_segs (compile_memberid_expression_seg _ _ _)
        | apply seg_of_segs (compile_variable_list_seg _ _)
        | apply seg_of_segs (segs_ite_failed_self _) (by assumption)
        | apply seg_of_segs (segs_ite_failed _) (by assumption)
        | apply seg_of_segs (segs_ite_oom _) (by assumption)
        | apply seg_of_segs (segs_fst_ite_oom _) (by assumption)
        | apply seg_of_segs (segs_fst_ite_failed _) (by assumption)
        | apply seg_of_segs (segs_fst_ite _ _) (by assumption)
        | apply seg_of_segs (segs_ite _ _) (by assumption)
        | apply seg_ite
        | apply seg_of_segf _ (by assumption)))
    | (with_reducible (apply segs_guard); with_reducible (first
        | apply segs_ite_failed_self
        | apply segs_ite_failed
        | apply segs_ite_oom
        | apply segs_fst_ite_failed
        | apply segs_fst_ite_failed2
        | apply segs_fst_ite_oom
        | apply segs_oom
        | apply seg_fallback _ _ h _
        | apply seg_fallback _ _ (seg_mono_e h (fun _ hi => Or.inr hi)) _
        | apply seg_fallback _ _ (seg_mono_e h (fun _ hi => Or.inr (Or.inr hi))) _
        | apply push_instr_uint_seg _ _ _ (by decide)
        | apply seg_push_known
        | apply ih1
        | apply push_instr_hres_seg
        | apply push_instr_int_seg
        | apply push_instr_str_seg
        | apply push_instr_bstr_seg
        | apply push_instr_bstr_uint_seg
        | apply push_instr_uint_str_seg
        | apply push_instr_double_seg
        | apply compile_expression_seg
        | apply compile_expression_noret_seg
        | apply compile_memberid_expression_seg
        | apply compile_variable_list_seg
        | apply segs_ite
        | apply segs_fst_ite))
    | (with_reducible (apply segf_guard); with_reducible (first
        | apply segf_ite_true
        | apply segf_ok))
    | (with_reducible (apply rel_guard); with_reducible (first
        | apply Rel.refl _
        | apply Rel.ite_failed
        | apply Rel.ite_oom
        | apply Rel.ite
        | apply Rel.ite1
        | apply Rel.ite2
        | apply Rel.ite0
        | apply Rel.ite21
        | apply body_step (compile_statement_rel _)
        | apply compile_statement_rel
        | apply compile_block_statement_rel
        | apply set_arg1_rel
        | apply set_arg2_rel
        | apply push_instr_idx_ge
        | apply push_instr_rel
        | apply push_instr_hres_rel
        | apply push_instr_int_rel
        | apply push_instr_uint_rel
        | apply push_instr_str_rel
        | apply push_instr_bstr_rel
        | apply push_instr_bstr_uint_rel
        | apply push_instr_uint_str_rel
        | apply push_instr_double_rel
        | apply heap_alloc_rel
        | apply compiler_alloc_string_rel
        | apply compiler_alloc_bstr_rel
        | apply compile_expression_rel
        | apply compile_expression_noret_rel
        | apply compile_memberid_expression_rel
        | apply set_eval_rel
        | apply compile_interp_fallback_rel
        | apply alloc_label_rel
        | apply label_set_addr_rel
        | apply Rel.rollback
        | apply compile_variable_list_rel
        | apply pop_to_stat_rel))
    | with_reducible (first
        | assumption
        | apply hF
        | apply frames_mono hF (fun _ hv => Or.inr (Or.inr hv))
        | apply frames_mono hF (fun _ hv => Or.inr hv)
        | apply frameok_none
        | apply frameok_some (frameok_plain _ _ _)
        | apply frameok_some (frameok_loop _ _ _)
        | apply frameok_some (frameok_switch _ _ _)
        | apply not_failed_ok
        | apply Or.inl (List.mem_cons_self _ _)
        | apply Or.inl (List.mem_cons_of_mem _ (List.mem_cons_self _ _))
        | apply Or.inr (Or.inl rfl)
        | apply Or.inr (Or.inr (Or.inl rfl))
        | apply push_instr_idx_ge
        | intro _)
    | (with_reducible (apply hop_guard); decide)
    | (lift_lets; intro _)
    | split
    | with_reducible (apply segs_ok))

set_option maxRecDepth 8000 in
theorem compile_try_catch_finally_seg_aux {P E : Nat → Prop} {B : List Nat} {F : List statement_ctx_t} {lo : Nat} {c : compiler_ctx_t} {try_statement cstat fstat : statement_t} {identifier : String} {addr : Nat} {fnext : statement_list}
    (ih1 : (∀ (sc : Option statement_ctx_t) {P E : Nat → Prop} {B : List Nat} {F : List statement_ctx_t} {lo : Nat} {c : compiler_ctx_t},
      Seg P E B F lo c → (∀ f ∈ F, FrameOK P f) → (∀ f, sc = some f → FrameOK P f) →
      SegS P E B F lo (compile_statement c sc try_statement)))
    (ih2 : (∀ (sc : Option statement_ctx_t) {P E : Nat → Prop} {B : List Nat} {F : List statement_ctx_t} {lo : Nat} {c : compiler_ctx_t},
      Seg P E B F lo c → (∀ f ∈ F, FrameOK P f) → (∀ f, sc = some f → FrameOK P f) →
      SegS P E B F lo (compile_statement c sc cstat)))
    (ih3 : (∀ (sc : Option statement_ctx_t) {P E : Nat → Prop} {B : List Nat} {F : List statement_ctx_t} {lo : Nat} {c : compiler_ctx_t},
      Seg P E B F lo c → (∀ f ∈ F, FrameOK P f) → (∀ f, sc = some f → FrameOK P f) →
      SegS P E B F lo (compile_statement c sc fstat)))
    (h : Seg P E B F lo c) (hF : ∀ f ∈ F, FrameOK P f) :
    SegS P E B F lo (compile_try_statement c (.mk try_statement (.mk identifier cstat) (.node addr fstat fnext))) := by
  rw [compile_try_statement_unfold]
  skip
  all_goals lift_lets
  all_goals intro 
  all_goals intros
  all_goals repeat' (first
    | (with_reducible (apply seg_guard); with_reducible (first
        | apply h
        | apply seg_mono_e h (fun _ hi => Or.inr hi)
        | apply seg_mono_e h (fun _ hi => Or.inr (Or.inr hi))
        | apply seg_mark
        | apply seg_bind _ (Or.inl rfl)
        | apply seg_alloc (seg_alloc _ (by assumption)) (by assumption)
        | apply seg_alloc _ (by assumption)
        | apply seg_alloc_plain
        | apply seg_push _ (by first | assumption | decide | (split <;> decide))
        | apply seg_push_hres _ (by first | assumption | decide | (split <;> decide))
        | apply seg_push_exempt _ (Or.inl rfl)
        | apply seg_push_exempt _ (Or.inr (Or.inl rfl))
        | apply seg_push_arg_na _ (by first | assumption | decide | (split <;> decide)) (by assumption)
        | apply seg_patch _ (le_refl _) (le_refl _)
        | apply seg_set_arg2
        | apply seg_set_no_fallback
        | apply heap_alloc_seg
        | apply compiler_alloc_string_seg
        | apply compiler_alloc_bstr_seg
        | apply seg_of_segs (push_instr_uint_seg _ _ _ (by decide))
        | apply seg_of_segs (seg_push_known _ _)
        | apply seg_body ih1
        | apply seg_of_segs (ih1 _ _ _ _)
        | apply seg_body ih2
        | apply seg_of_segs (ih2 _ _ _ _)
        | apply seg_body ih3
        | apply seg_of_segs (ih3 _ _ _ _)
        | apply seg_of_segs (push_instr_hres_seg _ _)
        | apply seg_of_segs (push_instr_int_seg _ _ _ _)
        | apply seg_of_segs (push_instr_str_seg _ _ _ _)
        | apply seg_of_segs (push_instr_bstr_seg _ _ _ _)
        | apply seg_of_segs (push_instr_bstr_uint_seg _ _ _ _ _)
        | apply seg_of_segs (push_instr_uint_str_seg _ _ _ _ _)
        | apply seg_of_segs (push_instr_double_seg _ _ _ _)
        | apply seg_of_segs (compile_expression_seg _ _)
        | apply seg_of_segs (compile_expression_noret_seg _ _ _)
        | apply seg_of_segs (compile_memberid_expression_seg _ _ _)
        | apply seg_of_segs (compile_variable_list_seg _ _)
        | apply seg_of_segs (segs_ite_failed_self _) (by assumption)
        | apply seg_of_segs (segs_ite_failed _) (by assumption)
        | apply seg_of_segs (segs_ite_oom _) (by assumption)
        | apply seg_of_segs (segs_fst_ite_oom _) (by assumption)
        | apply seg_of_segs (segs_fst_ite_failed _) (by assumption)
        | apply seg_of_segs (segs_fst_ite _ _) (by assumption)
        | apply seg_of_segs (segs_ite _ _) (by assumption)
        | apply seg_ite
        | apply seg_of_segf _ (by assumption)))
    | (with_reducible (apply segs_guard); with_reducible (first
        | apply segs_ite_failed_self
        | apply segs_ite_failed
        | apply segs_ite_oom
        | apply segs_fst_ite_failed
        | apply segs_fst_ite_failed2
        | apply segs_fst_ite_oom
        | apply segs_oom
        | apply seg_fallback _ _ h _
        | apply seg_fallback _ _ (seg_mono_e h (fun _ hi => Or.inr hi)) _
        | apply seg_fallback _ _ (seg_mono_e h (fun _ hi => Or.inr (Or.inr hi))) _
        | apply push_instr_uint_seg _ _ _ (by decide)
        | apply seg_push_known
        | apply ih1
        | apply ih2
        | apply ih3
        | apply push_instr_hres_seg
        | apply push_instr_int_seg
        | apply push_instr_str_seg
        | apply push_instr_bstr_seg
        | apply push_instr_bstr_uint_seg
        | apply push_instr_uint_str_seg
        | apply push_instr_double_seg
        | apply compile_expression_seg
        | apply compile_expression_noret_seg
        | apply compile_memberid_expression_seg
        | apply compile_variable_list_seg
        | apply segs_ite
        | apply segs_fst_ite))
    | (with_reducible (apply segf_guard); with_reducible (first
        | apply segf_ite_true
        | apply segf_ok))
    | (with_reducible (apply rel_guard); with_reducible (first
        | apply Rel.refl _
        | apply Rel.ite_failed
        | apply Rel.ite_oom
        | apply Rel.ite
        | apply Rel.ite1
        | apply Rel.ite2
        | apply Rel.ite0
        | apply Rel.ite21
        | apply body_step (compile_statement_rel _)
        | apply compile_statement_rel
        | apply compile_block_statement_rel
        | apply set_arg1_rel
        | apply set_arg2_rel
        | apply push_instr_idx_ge
        | apply push_instr_rel
        | apply push_instr_hres_rel
        | apply push_instr_int_rel
        | apply push_instr_uint_rel
        | apply push_instr_str_rel
        | apply push_instr_bstr_rel
        | apply push_instr_bstr_uint_rel
        | apply push_instr_uint_str_rel
        | apply push_instr_double_rel
        | apply heap_alloc_rel
        | apply compiler_alloc_string_rel
        | apply compiler_alloc_bstr_rel
        | apply compile_expression_rel
        | apply compile_expression_noret_rel
        | apply compile_memberid_expression_rel
        | apply set_eval_rel
        | apply compile_interp_fallback_rel
        | apply alloc_label_rel
        | apply label_set_addr_rel
        | apply Rel.rollback
        | apply compile_variable_list_rel
        | apply pop_to_stat_rel))
    | with_reducible (first
        | assumption
        | apply hF
        | apply frames_mono hF (fun _ hv => Or.inr (Or.inr hv))
        | apply frames_mono hF (fun _ hv => Or.inr hv)
        | apply frameok_none
        | apply frameok_some (frameok_plain _ _ _)
        | apply frameok_some (frameok_loop _ _ _)
        | apply frameok_some (frameok_switch _ _ _)
        | apply not_failed_ok
        | apply Or.inl (List.mem_cons_self _ _)
        | apply Or.inl (List.mem_cons_of_mem _ (List.mem_cons_self _ _))
        | apply Or.inr (Or.inl rfl)
        | apply Or.inr (Or.inr (Or.inl rfl))
        | apply push_instr_idx_ge
        | intro _)
    | (with_reducible (apply hop_guard); decide)
    | (lift_lets; intro _)
    | split
    | with_reducible (apply segs_ok))

set_option maxRecDepth 8000 in
theorem compile_try_catch_nofinally_seg_aux {P E : Nat → Prop} {B : List Nat} {F : List statement_ctx_t} {lo : Nat} {c : compiler_ctx_t} {try_statement cstat : statement_t} {identifier : String}
    (ih1 : (∀ (sc : Option statement_ctx_t) {P E : Nat → Prop} {B : List Nat} {F : List statement_ctx_t} {lo : Nat} {c : compiler_ctx_t},
      Seg P E B F lo c → (∀ f ∈ F, FrameOK P f) → (∀ f, sc = some f → FrameOK P f) →
      SegS P E B F lo (compile_statement c sc try_statement)))
    (ih2 : (∀ (sc : Option statement_ctx_t) {P E : Nat → Prop} {B : List Nat} {F : List statement_ctx_t} {lo : Nat} {c : compiler_ctx_t},
      Seg P E B F lo c → (∀ f ∈ F, FrameOK P f) → (∀ f, sc = some f → FrameOK P f) →
      SegS P E B F lo (compile_statement c sc cstat)))
    (h : Seg P E B F lo c) (hF : ∀ f ∈ F, FrameOK P f) :
    SegS P E B F lo (compile_try_statement c (.mk try_statement (.mk identifier cstat) .NULL)) := by
  rw [compile_try_statement_unfold]
  skip
  all_goals lift_lets
  all_goals intro 
  all_goals intros
  all_goals repeat' (first
    | (with_reducible (apply seg_guard); with_reducible (first
        | apply h
        | apply seg_mono_e h (fun _ hi => Or.inr hi)
        | apply seg_mono_e h (fun _ hi => Or.inr (Or.inr hi))
        | apply seg_mark
        | apply seg_bind _ (Or.inl rfl)
        | apply seg_alloc (seg_alloc _ (by assumption)) (by assumption)
        | apply seg_alloc _ (by assumption)
        | apply seg_alloc_plain
        | apply seg_push _ (by first | assumption | decide | (split <;> decide))
        | apply seg_push_hres _ (by first | assumption | decide | (split <;> decide))
        | apply seg_push_exempt _ (Or.inl rfl)
        | apply seg_push_exempt _ (Or.inr (Or.inl rfl))
        | apply seg_push_arg_na _ (by first | assumption | decide | (split <;> decide)) (by assumption)
        | apply seg_patch _ (le_refl _) (le_refl _)
        | apply seg_set_arg2
        | apply seg_set_no_fallback
        | apply heap_alloc_seg
        | apply compiler_alloc_string_seg
        | apply compiler_alloc_bstr_seg
        | apply seg_of_segs (push_instr_uint_seg _ _ _ (by decide))
        | apply seg_of_segs (seg_push_known _ _)
        | apply seg_body ih1
        | apply seg_of_segs (ih1 _ _ _ _)
        | apply seg_body ih2
        | apply seg_of_segs (ih2 _ _ _ _)
        | apply seg_of_segs (push_instr_hres_seg _ _)
        | apply seg_of_segs (push_instr_int_seg _ _ _ _)
        | apply seg_of_segs (push_instr_str_seg _ _ _ _)
        | apply seg_of_segs (push_instr_bstr_seg _ _ _ _)
        | apply seg_of_segs (push_instr_bstr_uint_seg _ _ _ _ _)
        | apply seg_of_segs (push_instr_uint_str_seg _ _ _ _ _)
        | apply seg_of_segs (push_instr_double_seg _ _ _ _)
        | apply seg_of_segs (compile_expression_seg _ _)
        | apply seg_of_segs (compile_expression_noret_seg _ _ _)
        | apply seg_of_segs (compile_memberid_expression_seg _ _ _)
        | apply seg_of_segs (compile_variable_list_seg _ _)
        | apply seg_of_segs (segs_ite_failed_self _) (by assumption)
        | apply seg_of_segs (segs_ite_failed _) (by assumption)
        | apply seg_of_segs (segs_ite_oom _) (by assumption)
        | apply seg_of_segs (segs_fst_ite_oom _) (by assumption)
        | apply seg_of_segs (segs_fst_ite_failed _) (by assumption)
        | apply seg_of_segs (segs_fst_ite _ _) (by assumption)
        | apply seg_of_segs (segs_ite _ _) (by assumption)
        | apply seg_ite
        | apply seg_of_segf _ (by assumption)))
    | (with_reducible (apply segs_guard); with_reducible (first
        | apply segs_ite_failed_self
        | apply segs_ite_failed
        | apply segs_ite_oom
        | apply segs_fst_ite_failed
        | apply segs_fst_ite_failed2
        | apply segs_fst_ite_oom
        | apply segs_oom
        | apply seg_fallback _ _ h _
        | apply seg_fallback _ _ (seg_mono_e h (fun _ hi => Or.inr hi)) _
        | apply seg_fallback _ _ (seg_mono_e h (fun _ hi => Or.inr (Or.inr hi))) _
        | apply push_instr_uint_seg _ _ _ (by decide)
        | apply seg_push_known
        | apply ih1
        | apply ih2
        | apply push_instr_hres_seg
        | apply push_instr_int_seg
        | apply push_instr_str_seg
        | apply push_instr_bstr_seg
        | apply push_instr_bstr_uint_seg
        | apply push_instr_uint_str_seg
        | apply push_instr_double_seg
        | apply compile_expression_seg
        | apply compile_expression_noret_seg
        | apply compile_memberid_expression_seg
        | apply compile_variable_list_seg
        | apply segs_ite
        | apply segs_fst_ite))
    | (with_reducible (apply segf_guard); with_reducible (first
        | apply segf_ite_true
        | apply segf_ok))
    | (with_reducible (apply rel_guard); with_reducible (first
        | apply Rel.refl _
        | apply Rel.ite_failed
        | apply Rel.ite_oom
        | apply Rel.ite
        | apply Rel.ite1
        | apply Rel.ite2
        | apply Rel.ite0
        | apply Rel.ite21
        | apply body_step (compile_statement_rel _)
        | apply compile_statement_rel
        | apply compile_block_statement_rel
        | apply set_arg1_rel
        | apply set_arg2_rel
        | apply push_instr_idx_ge
        | apply push_instr_rel
        | apply push_instr_hres_rel
        | apply push_instr_int_rel
        | apply push_instr_uint_rel
        | apply push_instr_str_rel
        | apply push_instr_bstr_rel
        | apply push_instr_bstr_uint_rel
        | apply push_instr_uint_str_rel
        | apply push_instr_double_rel
        | apply heap_alloc_rel
        | apply compiler_alloc_string_rel
        | apply compiler_alloc_bstr_rel
        | apply compile_expression_rel
        | apply compile_expression_noret_rel
        | apply compile_memberid_expression_rel
        | apply set_eval_rel
        | apply compile_interp_fallback_rel
        | apply alloc_label_rel
        | apply label_set_addr_rel
        | apply Rel.rollback
        | apply compile_variable_list_rel
        | apply pop_to_stat_rel))
    | with_reducible (first
        | assumption
        | apply hF
        | apply frames_mono hF (fun _ hv => Or.inr (Or.inr hv))
        | apply frames_mono hF (fun _ hv => Or.inr hv)
        | apply frameok_none
        | apply frameok_some (frameok_plain _ _ _)
        | apply frameok_some (frameok_loop _ _ _)
        | apply frameok_some (frameok_switch _ _ _)
        | apply not_failed_ok
        | apply Or.inl (List.mem_cons_self _ _)
        | apply Or.inl (List.mem_cons_of_mem _ (List.mem_cons_self _ _))
        | apply Or.inr (Or.inl rfl)
        | apply Or.inr (Or.inr (Or.inl rfl))
        | apply push_instr_idx_ge
        | intro _)
    | (with_reducible (apply hop_guard); decide)
    | (lift_lets; intro _)
    | split
    | with_reducible (apply segs_ok))

set_option maxRecDepth 8000 in
theorem compile_try_nocatch_finally_seg_aux {P E : Nat → Prop} {B : List Nat} {F : List statement_ctx_t} {lo : Nat} {c : compiler_ctx_t} {try_statement fstat : statement_t} {addr : Nat} {fnext : statement_list}
    (ih1 : (∀ (sc : Option statement_ctx_t) {P E : Nat → Prop} {B : List Nat} {F : List statement_ctx_t} {lo : Nat} {c : compiler_ctx_t},
      Seg P E B F lo c → (∀ f ∈ F, FrameOK P f) → (∀ f, sc = some f → FrameOK P f) →
      SegS P E B F lo (compile_statement c sc try_statement)))
    (ih3 : (∀ (sc : Option statement_ctx_t) {P E : Nat → Prop} {B : List Nat} {F : List statement_ctx_t} {lo : Nat} {c : compiler_ctx_t},
      Seg P E B F lo c → (∀ f ∈ F, FrameOK P f) → (∀ f, sc = some f → FrameOK P f) →
      SegS P E B F lo (compile_statement c sc fstat)))
    (h : Seg P E B F lo c) (hF : ∀ f ∈ F, FrameOK P f) :
    SegS P E B F lo (compile_try_statement c (.mk try_statement .NULL (.node addr fstat fnext))) := by
  rw [compile_try_statement_unfold]
  skip
  all_goals lift_lets
  all_goals intro 
  all_goals intros
  all_goals repeat' (first
    | (with_reducible (apply seg_guard); with_reducible (first
        | apply h
        | apply seg_mono_e h (fun _ hi => Or.inr hi)
        | apply seg_mono_e h (fun _ hi => Or.inr (Or.inr hi))
        | apply seg_mark
        | apply seg_bind _ (Or.inl rfl)
        | apply seg_alloc (seg_alloc _ (by assumption)) (by assumption)
        | apply seg_alloc _ (by assumption)
        | apply seg_alloc_plain
        | apply seg_push _ (by first | assumption | decide | (split <;> decide))
        | apply seg_push_hres _ (by first | assumption | decide | (split <;> decide))
        | apply seg_push_exempt _ (Or.inl rfl)
        | apply seg_push_exempt _ (Or.inr (Or.inl rfl))
        | apply seg_push_arg_na _ (by first | assumption | decide | (split <;> decide)) (by assumption)
        | apply seg_patch _ (le_refl _) (le_refl _)
        | apply seg_set_arg2
        | apply seg_set_no_fallback
        | apply heap_alloc_seg
        | apply compiler_alloc_string_seg
        | apply compiler_alloc_bstr_seg
        | apply seg_of_segs (push_instr_uint_seg _ _ _ (by decide))
        | apply seg_of_segs (seg_push_known _ _)
        | apply seg_body ih1
        | apply seg_of_segs (ih1 _ _ _ _)
        | apply seg_body ih3
        | apply seg_of_segs (ih3 _ _ _ _)
        | apply seg_of_segs (push_instr_hres_seg _ _)
        | apply seg_of_segs (push_instr_int_seg _ _ _ _)
        | apply seg_of_segs (push_instr_str_seg _ _ _ _)
        | apply seg_of_segs (push_instr_bstr_seg _ _ _ _)
        | apply seg_of_segs (push_instr_bstr_uint_seg _ _ _ _ _)
        | apply seg_of_segs (push_instr_uint_str_seg _ _ _ _ _)
        | apply seg_of_segs (push_instr_double_seg _ _ _ _)
        | apply seg_of_segs (compile_expression_seg _ _)
        | apply seg_of_segs (compile_expression_noret_seg _ _ _)
        | apply seg_of_segs (compile_memberid_expression_seg _ _ _)
        | apply seg_of_segs (compile_variable_list_seg _ _)
        | apply seg_of_segs (segs_ite_failed_self _) (by assumption)
        | apply seg_of_segs (segs_ite_failed _) (by assumption)
        | apply seg_of_segs (segs_ite_oom _) (by assumption)
        | apply seg_of_segs (segs_fst_ite_oom _) (by assumption)
        | apply seg_of_segs (segs_fst_ite_failed _) (by assumption)
        | apply seg_of_segs (segs_fst_ite _ _) (by assumption)
        | apply seg_of_segs (segs_ite _ _) (by assumption)
        | apply seg_ite
        | apply seg_of_segf _ (by assumption)))
    | (with_reducible (apply segs_guard); with_reducible (first
        | apply segs_ite_failed_self
        | apply segs_ite_failed
        | apply segs_ite_oom
        | apply segs_fst_ite_failed
        | apply segs_fst_ite_failed2
        | apply segs_fst_ite_oom
        | apply segs_oom
        | apply seg_fallback _ _ h _
        | apply seg_fallback _ _ (seg_mono_e h (fun _ hi => Or.inr hi)) _
        | apply seg_fallback _ _ (seg_mono_e h (fun _ hi => Or.inr (Or.inr hi))) _
        | apply push_instr_uint_seg _ _ _ (by decide)
        | apply seg_push_known
        | apply ih1
        | apply ih3
        | apply push_instr_hres_seg
        | apply push_instr_int_seg
        | apply push_instr_str_seg
        | apply push_instr_bstr_seg
        | apply push_instr_bstr_uint_seg
        | apply push_instr_uint_str_seg
        | apply push_instr_double_seg
        | apply compile_expression_seg
        | apply compile_expression_noret_seg
        | apply compile_memberid_expression_seg
        | apply compile_variable_list_seg
        | apply segs_ite
        | apply segs_fst_ite))
    | (with_reducible (apply segf_guard); with_reducible (first
        | apply segf_ite_true
        | apply segf_ok))
    | (with_reducible (apply rel_guard); with_reducible (first
        | apply Rel.refl _
        | apply Rel.ite_failed
        | apply Rel.ite_oom
        | apply Rel.ite
        | apply Rel.ite1
        | apply Rel.ite2
        | apply Rel.ite0
        | apply Rel.ite21
        | apply body_step (compile_statement_rel _)
        | apply compile_statement_rel
        | apply compile_block_statement_rel
        | apply set_arg1_rel
        | apply set_arg2_rel
        | apply push_instr_idx_ge
        | apply push_instr_rel
        | apply push_instr_hres_rel
        | apply push_instr_int_rel
        | apply push_instr_uint_rel
        | apply push_instr_str_rel
        | apply push_instr_bstr_rel
        | apply push_instr_bstr_uint_rel
        | apply push_instr_uint_str_rel
        | apply push_instr_double_rel
        | apply heap_alloc_rel
        | apply compiler_alloc_string_rel
        | apply compiler_alloc_bstr_rel
        | apply compile_expression_rel
        | apply compile_expression_noret_rel
        | apply compile_memberid_expression_rel
        | apply set_eval_rel
        | apply compile_interp_fallback_rel
        | apply alloc_label_rel
        | apply label_set_addr_rel
        | apply Rel.rollback
        | apply compile_variable_list_rel
        | apply pop_to_stat_rel))
    | with_reducible (first
        | assumption
        | apply hF
        | apply frames_mono hF (fun _ hv => Or.inr (Or.inr hv))
        | apply frames_mono hF (fun _ hv => Or.inr hv)
        | apply frameok_none
        | apply frameok_some (frameok_plain _ _ _)
        | apply frameok_some (frameok_loop _ _ _)
        | apply frameok_some (frameok_switch _ _ _)
        | apply not_failed_ok
        | apply Or.inl (List.mem_cons_self _ _)
        | apply Or.inl (List.mem_cons_of_mem _ (List.mem_cons_self _ _))
        | apply Or.inr (Or.inl rfl)
        | apply Or.inr (Or.inr (Or.inl rfl))
        | apply push_instr_idx_ge
        | intro _)
    | (with_reducible (apply hop_guard); decide)
    | (lift_lets; intro _)
    | split
    | with_reducible (apply segs_ok))

set_option maxRecDepth 8000 in
theorem compile_try_nocatch_nofinally_seg_aux {P E : Nat → Prop} {B : List Nat} {F : List statement_ctx_t} {lo : Nat} {c : compiler_ctx_t} {try_statement : statement_t}
    (ih1 : (∀ (sc : Option statement_ctx_t) {P E : Nat → Prop} {B : List Nat} {F : List statement_ctx_t} {lo : Nat} {c : compiler_ctx_t},
      Seg P E B F lo c → (∀ f ∈ F, FrameOK P f) → (∀ f, sc = some f → FrameOK P f) →
      SegS P E B F lo (compile_statement c sc try_statement)))
    (h : Seg P E B F lo c) (hF : ∀ f ∈ F, FrameOK P f) :
    SegS P E B F lo (compile_try_statement c (.mk try_statement .NULL .NULL)) := by
  rw [compile_try_statement_unfold]
  skip
  all_goals lift_lets
  all_goals intro 
  all_goals intros
  all_goals repeat' (first
    | (with_reducible (apply seg_guard); with_reducible (first
        | apply h
        | apply seg_mono_e h (fun _ hi => Or.inr hi)
        | apply seg_mono_e h (fun _ hi => Or.inr (Or.inr hi))
        | apply seg_mark
        | apply seg_bind _ (Or.inl rfl)
        | apply seg_alloc (seg_alloc _ (by assumption)) (by assumption)
        | apply seg_alloc _ (by assumption)
        | apply seg_alloc_plain
        | apply seg_push _ (by first | assumption | decide | (split <;> decide))
        | apply seg_push_hres _ (by first | assumption | decide | (split <;> decide))
        | apply seg_push_exempt _ (Or.inl rfl)
        | apply seg_push_exempt _ (Or.inr (Or.inl rfl))
        | apply seg_push_arg_na _ (by first | assumption | decide | (split <;> decide)) (by assumption)
        | apply seg_patch _ (le_refl _) (le_refl _)
        | apply seg_set_arg2
        | apply seg_set_no_fallback
        | apply heap_alloc_seg
        | apply compiler_alloc_string_seg
        | apply compiler_alloc_bstr_seg
        | apply seg_of_segs (push_instr_uint_seg _ _ _ (by decide))
        | apply seg_of_segs (seg_push_known _ _)
        | apply seg_body ih1
        | apply seg_of_segs (ih1 _ _ _ _)
        | apply seg_of_segs (push_instr_hres_seg _ _)
        | apply seg_of_segs (push_instr_int_seg _ _ _ _)
        | apply seg_of_segs (push_instr_str_seg _ _ _ _)
        | apply seg_of_segs (push_instr_bstr_seg _ _ _ _)
        | apply seg_of_segs (push_instr_bstr_uint_seg _ _ _ _ _)
        | apply seg_of_segs (push_instr_uint_str_seg _ _ _ _ _)
        | apply seg_of_segs (push_instr_double_seg _ _ _ _)
        | apply seg_of_segs (compile_expression_seg _ _)
        | apply seg_of_segs (compile_expression_noret_seg _ _ _)
        | apply seg_of_segs (compile_memberid_expression_seg _ _ _)
        | apply seg_of_segs (compile_variable_list_seg _ _)
        | apply seg_of_segs (segs_ite_failed_self _) (by assumption)
        | apply seg_of_segs (segs_ite_failed _) (by assumption)
        | apply seg_of_segs (segs_ite_oom _) (by assumption)
        | apply seg_of_segs (segs_fst_ite_oom _) (by assumption)
        | apply seg_of_segs (segs_fst_ite_failed _) (by assumption)
        | apply seg_of_segs (segs_fst_ite _ _) (by assumption)
        | apply seg_of_segs (segs_ite _ _) (by assumption)
        | apply seg_ite
        | apply seg_of_segf _ (by assumption)))
    | (with_reducible (apply segs_guard); with_reducible (first
        | apply segs_ite_failed_self
        | apply segs_ite_failed
        | apply segs_ite_oom
        | apply segs_fst_ite_failed
        | apply segs_fst_ite_failed2
        | apply segs_fst_ite_oom
        | apply segs_oom
        | apply seg_fallback _ _ h _
        | apply seg_fallback _ _ (seg_mono_e h (fun _ hi => Or.inr hi)) _
        | apply seg_fallback _ _ (seg_mono_e h (fun _ hi => Or.inr (Or.inr hi))) _
        | apply push_instr_uint_seg _ _ _ (by decide)
        | apply seg_push_known
        | apply ih1
        | apply push_instr_hres_seg
        | apply push_instr_int_seg
        | apply push_instr_str_seg
        | apply push_instr_bstr_seg
        | apply push_instr_bstr_uint_seg
        | apply push_instr_uint_str_seg
        | apply push_instr_double_seg
        | apply compile_expression_seg
        | apply compile_expression_noret_seg
        | apply compile_memberid_expression_seg
        | apply compile_variable_list_seg
        | apply segs_ite
        | apply segs_fst_ite))
    | (with_reducible (apply segf_guard); with_reducible (first
        | apply segf_ite_true
        | apply segf_ok))
    | (with_reducible (apply rel_guard); with_reducible (first
        | apply Rel.refl _
        | apply Rel.ite_failed
        | apply Rel.ite_oom
        | apply Rel.ite
        | apply Rel.ite1
        | apply Rel.ite2
        | apply Rel.ite0
        | apply Rel.ite21
        | apply body_step (compile_statement_rel _)
        | apply compile_statement_rel
        | apply compile_block_statement_rel
        | apply set_arg1_rel
        | apply set_arg2_rel
        | apply push_instr_idx_ge
        | apply push_instr_rel
        | apply push_instr_hres_rel
        | apply push_instr_int_rel
        | apply push_instr_uint_rel
        | apply push_instr_str_rel
        | apply push_instr_bstr_rel
        | apply push_instr_bstr_uint_rel
        | apply push_instr_uint_str_rel
        | apply push_instr_double_rel
        | apply heap_alloc_rel
        | apply compiler_alloc_string_rel
        | apply compiler_alloc_bstr_rel
        | apply compile_expression_rel
        | apply compile_expression_noret_rel
        | apply compile_memberid_expression_rel
        | apply set_eval_rel
        | apply compile_interp_fallback_rel
        | apply alloc_label_rel
        | apply label_set_addr_rel
        | apply Rel.rollback
        | apply compile_variable_list_rel
        | apply pop_to_stat_rel))
    | with_reducible (first
        | assumption
        | apply hF
        | apply frames_mono hF (fun _ hv => Or.inr (Or.inr hv))
        | apply frames_mono hF (fun _ hv => Or.inr hv)
        | apply frameok_none
        | apply frameok_some (frameok_plain _ _ _)
        | apply frameok_some (frameok_loop _ _ _)
        | apply frameok_some (frameok_switch _ _ _)
        | apply not_failed_ok
        | apply Or.inl (List.mem_cons_self _ _)
        | apply Or.inl (List.mem_cons_of_mem _ (List.mem_cons_self _ _))
        | apply Or.inr (Or.inl rfl)
        | apply Or.inr (Or.inr (Or.inl rfl))
        | apply push_instr_idx_ge
        | intro _)
    | (with_reducible (apply hop_guard); decide)
    | (lift_lets; intro _)
    | split
    | with_reducible (apply segs_ok))

/-! ## Address operands: switch statements -/

/-- The loop over the clause expressions records a jump at the index `i` and above only. -/
theorem compile_case_exprs_jmps_below :
    ∀ (cl : case_clausule_t) (v : case_loop_t) (k : Nat), k < v.i →
      (compile_case_exprs v cl).case_jmps k = v.case_jmps k
  | .NULL, v, k, _ => by rw [compile_case_exprs]
  | .mk none stat next, v, k, hk => by
    rw [compile_case_exprs]
    exact compile_case_exprs_jmps_below next { v with have_default := true } k hk
  | .mk (some e) stat next, v, k, hk => by
    rw [compile_case_exprs]
    dsimp only
    split
    · rfl
    · split
      · show Function.update v.case_jmps v.i _ k = _
        rw [Function.update_noteq (Nat.ne_of_lt hk)]
      · rw [compile_case_exprs_jmps_below next _ k (Nat.lt_succ_of_lt hk)]
        show Function.update v.case_jmps v.i _ k = _
        rw [Function.update_noteq (Nat.ne_of_lt hk)]

/-- The loop over the clause expressions has seen a default clause only if there is one. -/
theorem compile_case_exprs_default :
    ∀ (cl : case_clausule_t) (v : case_loop_t),
      (compile_case_exprs v cl).have_default = true →
      v.have_default = true ∨ 0 < default_count cl
  | .NULL, v, h => by rw [compile_case_exprs] at h; exact Or.inl h
  | .mk none stat next, v, _ => by
    refine Or.inr ?_
    rw [default_count]
    simp
  | .mk (some e) stat next, v, h => by
    rw [compile_case_exprs] at h
    dsimp only at h
    have hd : default_count (.mk (some e) stat next) = default_count next := by
      rw [default_count]; simp
    rw [hd]
    split at h
    · exact Or.inl h
    · split at h
      · exact Or.inl h
      · have r := compile_case_exprs_default next _ h
        exact r

/-- The loop over the clause expressions: the `OP_case` jumps it appends are still to be
patched. -/
theorem compile_case_exprs_seg {P E : Nat → Prop} {B : List Nat} {F : List statement_ctx_t}
    {lo : Nat} :
    ∀ (cl : case_clausule_t) (v : case_loop_t), Seg P E B F lo v.ctx →
      (∀ k, v.i ≤ k → k < v.i + case_count cl → E ((compile_case_exprs v cl).case_jmps k)) →
      ¬ FAILED (compile_case_exprs v cl).hres = true →
      Seg P E B F lo (compile_case_exprs v cl).ctx
  | .NULL, v, h, _, _ => by rw [compile_case_exprs]; exact h
  | .mk none stat next, v, h, hE, hf => by
    rw [compile_case_exprs] at hf hE ⊢
    refine compile_case_exprs_seg next { v with have_default := true } h
      (fun k h1 h2 => hE k h1 ?_) hf
    rw [case_count]
    simpa using h2
  | .mk (some e) stat next, v, h, hE, hf => by
    have hcnt : case_count (.mk (some e) stat next) = 1 + case_count next := by
      rw [case_count]; rfl
    rw [hcnt] at hE
    rw [compile_case_exprs] at hf hE ⊢
    dsimp only at hf hE ⊢
    by_cases h1 : FAILED (compile_expression v.ctx e).1 = true
    · rw [if_pos h1] at hf; exact absurd h1 hf
    · rw [if_neg h1] at hf hE ⊢
      by_cases h2 : (push_instr (compile_expression v.ctx e).2 OP_case).1 = UINT_MAX
      · rw [if_pos h2] at hf; exact absurd failed_oom hf
      · rw [if_neg h2] at hf hE ⊢
        have hpos : E (push_instr (compile_expression v.ctx e).2 OP_case).1 := by
          have := hE v.i (le_refl _) (by omega)
          rw [compile_case_exprs_jmps_below next _ v.i (Nat.lt_succ_self _)] at this
          have e1 : Function.update v.case_jmps v.i
              (push_instr (compile_expression v.ctx e).2 OP_case).1 v.i =
              (push_instr (compile_expression v.ctx e).2 OP_case).1 := Function.update_same _ _ _
          exact e1 ▸ this
        exact compile_case_exprs_seg next _
          (seg_push_exempt (compile_expression_seg e h h1) hpos)
          (fun k k1 k2 => hE k (Nat.le_of_succ_le k1) (by
            have : v.i + 1 + case_count next = v.i + (1 + case_count next) := by omega
            exact this ▸ k2)) hf

/-- The two jumps that follow the clause expressions: the default jump is still to be patched. -/
theorem switch_jmp_seg {P E : Nat → Prop} {B : List Nat} {F : List statement_ctx_t} {lo : Nat}
    (v : case_loop_t) (h : Seg P E B F lo v.ctx)
    (hs : ¬ FAILED
      (if SUCCEEDED v.hres = true then
        if (push_instr v.ctx OP_pop).1 ≠ UINT_MAX then
          ((if (push_instr (push_instr v.ctx OP_pop).2 OP_jmp).1 = UINT_MAX then E_OUTOFMEMORY
            else v.hres, (push_instr (push_instr v.ctx OP_pop).2 OP_jmp).2),
            (push_instr (push_instr v.ctx OP_pop).2 OP_jmp).1)
        else ((E_OUTOFMEMORY, (push_instr v.ctx OP_pop).2), 0)
      else ((v.hres, v.ctx), 0) : (HRESULT × compiler_ctx_t) × Nat).1.1 = true)
    (hE : E (if SUCCEEDED v.hres = true then
        if (push_instr v.ctx OP_pop).1 ≠ UINT_MAX then
          ((if (push_instr (push_instr v.ctx OP_pop).2 OP_jmp).1 = UINT_MAX then E_OUTOFMEMORY
            else v.hres, (push_instr (push_instr v.ctx OP_pop).2 OP_jmp).2),
            (push_instr (push_instr v.ctx OP_pop).2 OP_jmp).1)
        else ((E_OUTOFMEMORY, (push_instr v.ctx OP_pop).2), 0)
      else ((v.hres, v.ctx), 0) : (HRESULT × compiler_ctx_t) × Nat).2) :
    Seg P E B F lo
      (if SUCCEEDED v.hres = true then
        if (push_instr v.ctx OP_pop).1 ≠ UINT_MAX then
          ((if (push_instr (push_instr v.ctx OP_pop).2 OP_jmp).1 = UINT_MAX then E_OUTOFMEMORY
            else v.hres, (push_instr (push_instr v.ctx OP_pop).2 OP_jmp).2),
            (push_instr (push_instr v.ctx OP_pop).2 OP_jmp).1)
        else ((E_OUTOFMEMORY, (push_instr v.ctx OP_pop).2), 0)
      else ((v.hres, v.ctx), 0) : (HRESULT × compiler_ctx_t) × Nat).1.2 := by
  by_cases h1 : SUCCEEDED v.hres = true
  · rw [if_pos h1] at hs hE ⊢
    by_cases h2 : (push_instr v.ctx OP_pop).1 ≠ UINT_MAX
    · rw [if_pos h2] at hs hE ⊢
      exact seg_push_exempt (seg_push h (by decide)) hE
    · rw [if_neg h2] at hs
      exact absurd failed_oom hs
  · rw [if_neg h1]
    exact h

/-- The loop over the statements of a clause, for a non-empty list: when a statement cannot be
lowered natively, the result is the fallback of the whole switch statement, which was entered
at `c0`. -/
theorem compile_case_statements_seg_aux {stat_iter : statement_t} {stat_next : statement_list}
    {addr : Nat} {F : List statement_ctx_t} {lo : Nat} {c0 : compiler_ctx_t}
    (sc : statement_ctx_t) (stat : statement_t) (next : case_clausule_t)
    (ih1 : ∀ (sc : Option statement_ctx_t) {P E : Nat → Prop} {B : List Nat}
      {F : List statement_ctx_t} {lo : Nat} {c : compiler_ctx_t},
      Seg P E B F lo c → (∀ f ∈ F, FrameOK P f) → (∀ f, sc = some f → FrameOK P f) →
      SegS P E B F lo (compile_statement c sc stat_iter))
    (ihn : ∀ {P E P0 E0 : Nat → Prop} {B B0 : List Nat} {c : compiler_ctx_t} (hres : HRESULT),
      Seg P0 E0 B0 F lo c0 → Rel c0.code_off c0.labels_cnt c0 c → Seg P E B F lo c →
      (∀ f ∈ F, FrameOK P f) → FrameOK P sc →
      ¬ FAILED (compile_case_statements c sc c0.code_off stat next hres stat_next).1 = true →
      ((compile_case_statements c sc c0.code_off stat next hres stat_next).2.2 = true →
        Seg P0 E0 B0 F lo (compile_case_statements c sc c0.code_off stat next hres stat_next).2.1) ∧
      ((compile_case_statements c sc c0.code_off stat next hres stat_next).2.2 = false →
        Seg P E B F lo (compile_case_statements c sc c0.code_off stat next hres stat_next).2.1))
    {P E P0 E0 : Nat → Prop} {B B0 : List Nat} {c : compiler_ctx_t} (hres : HRESULT)
    (h0 : Seg P0 E0 B0 F lo c0) (hr : Rel c0.code_off c0.labels_cnt c0 c)
    (h : Seg P E B F lo c) (hF : ∀ f ∈ F, FrameOK P f) (hsc : FrameOK P sc) :
    ¬ FAILED (compile_case_statements c sc c0.code_off stat next hres
      (.node addr stat_iter stat_next)).1 = true →
    ((compile_case_statements c sc c0.code_off stat next hres
        (.node addr stat_iter stat_next)).2.2 = true →
      Seg P0 E0 B0 F lo (compile_case_statements c sc c0.code_off stat next hres
        (.node addr stat_iter stat_next)).2.1) ∧
    ((compile_case_statements c sc c0.code_off stat next hres
        (.node addr stat_iter stat_next)).2.2 = false →
      Seg P E B F lo (compile_case_statements c sc c0.code_off stat next hres
        (.node addr stat_iter stat_next)).2.1) := by
  rw [compile_case_statements_unfold]
  lift_lets
  intro prev_no_fallback body ctx1 r pop
  have hr1 : Rel c0.code_off c0.labels_cnt c0 ctx1 :=
    body_step (compile_statement_rel stat_iter) hr hr
  have hr2 : Rel c0.code_off c0.labels_cnt c0 pop.2 := by
    show Rel c0.code_off c0.labels_cnt c0
      (if (!stat_next.is_null) = true then push_instr_hres ctx1 OP_pop else (S_OK, ctx1)).2
    split
    · exact push_instr_hres_rel _ hr1
    · exact hr1
  split
  · exact fun _ => ⟨fun e => Bool.noConfusion e, fun _ => h⟩
  · split
    · intro hs
      exact ⟨fun _ => seg_fallback stat _ h0 hr1 hs, fun e => Bool.noConfusion e⟩
    · split
      · next hf => exact fun hs => absurd hf hs
      · next hf =>
        have s1 : Seg P E B F lo ctx1 :=
          seg_set_no_fallback _ (ih1 (some sc) (seg_set_no_fallback true h) hF
            (frameok_some hsc) hf)
        have s2 : Seg P E B F lo pop.2 :=
          @seg_opt_push P E B F lo ctx1 (!stat_next.is_null) OP_pop s1 (by decide)
        split
        · exact fun hs => absurd failed_oom hs
        · exact ihn _ h0 hr2 s2 hF hsc

/-- The loop over the clauses that patches the jumps, for a non-empty list: the jumps of the
clauses `i` and above and the default jump, when a default clause is left, are still to be
patched at entry. -/
theorem compile_case_bodies_seg_aux {expr : Option expression_t} {iter_stat : statement_list}
    {next : case_clausule_t} {F : List statement_ctx_t} {lo : Nat} {c0 : compiler_ctx_t}
    (sc : statement_ctx_t) (stat : statement_t) (cj : Nat → Nat) (dj : Nat)
    (ihs : ∀ {P E P0 E0 : Nat → Prop} {B B0 : List Nat} {c : compiler_ctx_t} (hres : HRESULT),
      Seg P0 E0 B0 F lo c0 → Rel c0.code_off c0.labels_cnt c0 c → Seg P E B F lo c →
      (∀ f ∈ F, FrameOK P f) → FrameOK P sc →
      ¬ FAILED (compile_case_statements c sc c0.code_off stat next hres iter_stat).1 = true →
      ((compile_case_statements c sc c0.code_off stat next hres iter_stat).2.2 = true →
        Seg P0 E0 B0 F lo (compile_case_statements c sc c0.code_off stat next hres iter_stat).2.1) ∧
      ((compile_case_statements c sc c0.code_off stat next hres iter_stat).2.2 = false →
        Seg P E B F lo (compile_case_statements c sc c0.code_off stat next hres iter_stat).2.1))
    (ihn : ∀ {P E P0 E0 : Nat → Prop} {B B0 : List Nat} {c : compiler_ctx_t} (i : Nat)
      (hres : HRESULT),
      (∀ k, i ≤ k → k < i + case_count next → c0.code_off ≤ cj k) →
      Seg P0 E0 B0 F lo c0 → Rel c0.code_off c0.labels_cnt c0 c →
      Seg P (fun p => (∃ k, i ≤ k ∧ k < i + case_count next ∧ p = cj k) ∨
        (0 < default_count next ∧ p = dj) ∨ E p) B F lo c →
      (∀ f ∈ F, FrameOK P f) → FrameOK P sc →
      ¬ FAILED (compile_case_bodies c sc c0.code_off stat cj dj i hres next).hres = true →
      ((compile_case_bodies c sc c0.code_off stat cj dj i hres next).returned = true →
        Seg P0 E0 B0 F lo (compile_case_bodies c sc c0.code_off stat cj dj i hres next).ctx) ∧
      ((compile_case_bodies c sc c0.code_off stat cj dj i hres next).returned = false →
        Seg P E B F lo (compile_case_bodies c sc c0.code_off stat cj dj i hres next).ctx))
    {P E P0 E0 : Nat → Prop} {B B0 : List Nat} {c : compiler_ctx_t} (i : Nat) (hres : HRESULT)
    (hj : ∀ k, i ≤ k → k < i + case_count (.mk expr iter_stat next) → c0.code_off ≤ cj k)
    (hd : c0.code_off ≤ dj)
    (h0 : Seg P0 E0 B0 F lo c0) (hr : Rel c0.code_off c0.labels_cnt c0 c)
    (h : Seg P (fun p => (∃ k, i ≤ k ∧ k < i + case_count (.mk expr iter_stat next) ∧ p = cj k) ∨
        (0 < default_count (.mk expr iter_stat next) ∧ p = dj) ∨ E p) B F lo c)
    (hF : ∀ f ∈ F, FrameOK P f) (hsc : FrameOK P sc) :
    ¬ FAILED (compile_case_bodies c sc c0.code_off stat cj dj i hres
      (.mk expr iter_stat next)).hres = true →
    ((compile_case_bodies c sc c0.code_off stat cj dj i hres
        (.mk expr iter_stat next)).returned = true →
      Seg P0 E0 B0 F lo (compile_case_bodies c sc c0.code_off stat cj dj i hres
        (.mk expr iter_stat next)).ctx) ∧
    ((compile_case_bodies c sc c0.code_off stat cj dj i hres
        (.mk expr iter_stat next)).returned = false →
      Seg P E B F lo (compile_case_bodies c sc c0.code_off stat cj dj i hres
        (.mk expr iter_stat next)).ctx) := by
  have hcnt : case_count (.mk expr iter_stat next)
      = (if expr.isSome then 1 else 0) + case_count next := by rw [case_count]
  have hdcnt : default_count (.mk expr iter_stat next)
      = (if expr.isSome then 0 else 1) + default_count next := by rw [default_count]
  rw [hcnt] at hj h
  rw [hdcnt] at h
  rw [compile_case_bodies_unfold]
  lift_lets
  intro ctx1 i1 body
  have hpos : c0.code_off ≤ (if expr.isSome = true then cj i else dj) := by
    split
    · next hs =>
      apply hj i (le_refl _)
      rw [if_pos hs]
      omega
    · exact hd
  have hr1 : Rel c0.code_off c0.labels_cnt c0 ctx1 := set_arg1_rel _ hr hpos
  have hj1 : ∀ k, i1 ≤ k → k < i1 + case_count next → c0.code_off ≤ cj k := by
    intro k k1 k2
    by_cases hs : expr.isSome = true
    · have e1 : i1 = i + 1 := if_pos hs
      rw [if_pos hs] at hj
      exact hj k (by omega) (by omega)
    · have e1 : i1 = i := if_neg hs
      rw [if_neg hs] at hj
      exact hj k (by omega) (by omega)
  have s1 : Seg P (fun p => (∃ k, i1 ≤ k ∧ k < i1 + case_count next ∧ p = cj k) ∨
      (0 < default_count next ∧ p = dj) ∨ E p) B F lo ctx1 := by
    refine seg_patch (seg_mono_e h ?_) (le_refl _) (le_refl _)
    intro p hp
    by_cases hs : expr.isSome = true
    · have e1 : i1 = i + 1 := if_pos hs
      rw [if_pos hs] at hp ⊢
      rw [if_pos hs] at hp
      rcases hp with ⟨k, k1, k2, k3⟩ | ⟨k1, k2⟩ | hp
      · by_cases hk : k = i
        · exact Or.inl (by rw [k3, hk])
        · exact Or.inr (Or.inl ⟨k, by omega, by omega, k3⟩)
      · exact Or.inr (Or.inr (Or.inl ⟨by omega, k2⟩))
      · exact Or.inr (Or.inr (Or.inr hp))
    · have e1 : i1 = i := if_neg hs
      rw [if_neg hs] at hp ⊢
      rw [if_neg hs] at hp
      rcases hp with ⟨k, k1, k2, k3⟩ | ⟨_, k2⟩ | hp
      · exact Or.inr (Or.inl ⟨k, by omega, by omega, k3⟩)
      · exact Or.inl k2
      · exact Or.inr (Or.inr (Or.inr hp))
  split
  · exact ihn i1 hres hj1 h0 hr1 s1 hF hsc
  · have hb := @ihs P _ P0 E0 B B0 ctx1 hres h0 hr1 s1 hF hsc
    split
    · next hret =>
      intro hs
      exact ⟨fun _ => (hb hs).1 hret, fun e => Bool.noConfusion e⟩
    · next hret =>
      have hret' : body.2.2 = false := by
        cases hb2 : body.2.2
        · rfl
        · exact absurd hb2 hret
      split
      · next hf => exact fun hs => absurd hf hs
      · next hf =>
        have hrb : Rel c0.code_off c0.labels_cnt c0 body.2.1 :=
          compile_case_statements_rel iter_stat sc stat next hres hr1 (Or.inl hret')
        exact ihn i1 body.1 hj1 h0 hrb ((hb hf).2 hret') hF hsc

/-- The lowering of a switch statement, given the loop over its clauses. -/
theorem compile_switch_statement_seg_aux {expr : expression_t} {case_list : case_clausule_t}
    {P E : Nat → Prop} {B : List Nat} {F : List statement_ctx_t} {lo : Nat}
    {c : compiler_ctx_t}
    (ihb : ∀ {P E P0 E0 : Nat → Prop} {B B0 : List Nat} {c1 : compiler_ctx_t}
      (sc : statement_ctx_t) (stat : statement_t) (cj : Nat → Nat) (dj : Nat) (i : Nat)
      (hres : HRESULT),
      (∀ k, i ≤ k → k < i + case_count case_list → c.code_off ≤ cj k) → c.code_off ≤ dj →
      Seg P0 E0 B0 F lo c → Rel c.code_off c.labels_cnt c c1 →
      Seg P (fun p => (∃ k, i ≤ k ∧ k < i + case_count case_list ∧ p = cj k) ∨
        (0 < default_count case_list ∧ p = dj) ∨ E p) B F lo c1 →
      (∀ f ∈ F, FrameOK P f) → FrameOK P sc →
      ¬ FAILED (compile_case_bodies c1 sc c.code_off stat cj dj i hres case_list).hres = true →
      ((compile_case_bodies c1 sc c.code_off stat cj dj i hres case_list).returned = true →
        Seg P0 E0 B0 F lo (compile_case_bodies c1 sc c.code_off stat cj dj i hres case_list).ctx) ∧
      ((compile_case_bodies c1 sc c.code_off stat cj dj i hres case_list).returned = false →
        Seg P E B F lo (compile_case_bodies c1 sc c.code_off stat cj dj i hres case_list).ctx))
    (h : Seg P E B F lo c) (hF : ∀ f ∈ F, FrameOK P f) :
    SegS P E B F lo (compile_switch_statement c (.mk expr case_list)) := by
  rw [compile_switch_statement_unfold]
  lift_lets
  intro off_backup hres break_label stat_ctx case_jmps cases instr djmp jmp default_jmp bodies ctx1
  apply segs_ite_failed_self
  intro h1
  apply segs_ite_oom
  intro h2
  apply segs_ite_oom
  intro h3
  apply segs_ite_failed_self
  intro h4
  have r1 : Rel c.code_off c.labels_cnt c hres.2 := compile_expression_rel _ (Rel.refl c)
  have r2 : Rel c.code_off c.labels_cnt c break_label.2 := alloc_label_rel r1
  have r3 : Rel c.code_off c.labels_cnt c case_jmps.2 := heap_alloc_rel r2
  have rc := compile_case_exprs_rel case_list ⟨hres.1, case_jmps.2, fun _ => 0, 0, false⟩ r3
    (fun j hj => absurd hj (Nat.not_lt_zero _))
  have r4 : Rel c.code_off c.labels_cnt c jmp.1.2 := switch_jmp_rel cases rc.1
  have hidx := switch_jmp_idx cases rc.1 h4
  have hjs : ∀ k, 0 ≤ k → k < 0 + case_count case_list → c.code_off ≤ cases.case_jmps k :=
    fun k _ k2 => rc.2 hidx.1 k k2
  have s1 : Seg P E B F lo hres.2 := compile_expression_seg _ h h1
  have s2 : Seg (fun v => v = break_label.1 ∨ P v) E B F lo break_label.2 := seg_alloc s1 h2
  have s3 : Seg (fun v => v = break_label.1 ∨ P v)
      (fun p => (∃ k, 0 ≤ k ∧ k < 0 + case_count case_list ∧ p = cases.case_jmps k) ∨
        p = default_jmp ∨ E p) B F lo case_jmps.2 :=
    seg_mono_e (heap_alloc_seg s2) (fun _ hp => Or.inr (Or.inr hp))
  have s4 : Seg (fun v => v = break_label.1 ∨ P v)
      (fun p => (∃ k, 0 ≤ k ∧ k < 0 + case_count case_list ∧ p = cases.case_jmps k) ∨
        p = default_jmp ∨ E p) B F lo cases.ctx :=
    compile_case_exprs_seg case_list ⟨hres.1, case_jmps.2, fun _ => 0, 0, false⟩ s3
      (fun k k1 k2 => Or.inl ⟨k, k1, k2, rfl⟩) hidx.1
  have s5 : Seg (fun v => v = break_label.1 ∨ P v)
      (fun p => (∃ k, 0 ≤ k ∧ k < 0 + case_count case_list ∧ p = cases.case_jmps k) ∨
        p = default_jmp ∨ E p) B F lo jmp.1.2 :=
    switch_jmp_seg cases s4 h4 (Or.inr (Or.inl rfl))
  have hF1 : ∀ f ∈ F, FrameOK (fun v => v = break_label.1 ∨ P v) f :=
    frames_mono hF (fun _ hv => Or.inr hv)
  have hsc : FrameOK (fun v => v = break_label.1 ∨ P v) stat_ctx := frameok_switch _ _ _
  apply segs_ite
  · intro hret hs
    have sa : Seg (fun v => v = break_label.1 ∨ P v)
        (fun p => (∃ k, 0 ≤ k ∧ k < 0 + case_count case_list ∧ p = cases.case_jmps k) ∨
          (0 < default_count case_list ∧ p = default_jmp) ∨ (p = default_jmp ∨ E p)) B F lo
        jmp.1.2 :=
      seg_mono_e s5 (fun _ hp => hp.elim Or.inl (fun hp => Or.inr (Or.inr hp)))
    exact ((ihb stat_ctx (.STAT_SWITCH (.mk expr case_list)) cases.case_jmps default_jmp 0
      jmp.1.1 hjs hidx.2 h r4 sa hF1 hsc hs).1 hret)
  · intro hret
    have hret' : bodies.returned = false := by
      cases hb2 : bodies.returned
      · rfl
      · exact absurd hb2 hret
    apply segs_ite_failed
    intro hs
    apply segs_ok
    apply seg_bind_switch
    show Seg (fun v => v = break_label.1 ∨ P v) E B F lo
      (if (!cases.have_default) = true then
        set_arg1 bodies.ctx default_jmp (.uint bodies.ctx.code_off) else bodies.ctx)
    by_cases hd : cases.have_default = true
    · have hdc : 0 < default_count case_list :=
        (compile_case_exprs_default case_list _ hd).elim (fun e => Bool.noConfusion e) id
      have sa : Seg (fun v => v = break_label.1 ∨ P v)
          (fun p => (∃ k, 0 ≤ k ∧ k < 0 + case_count case_list ∧ p = cases.case_jmps k) ∨
            (0 < default_count case_list ∧ p = default_jmp) ∨ E p) B F lo jmp.1.2 :=
        seg_mono_e s5 (fun _ hp => hp.elim Or.inl (fun hp => hp.elim
          (fun e => Or.inr (Or.inl ⟨hdc, e⟩)) (fun hp => Or.inr (Or.inr hp))))
      have sb := (ihb stat_ctx (.STAT_SWITCH (.mk expr case_list)) cases.case_jmps default_jmp 0
        jmp.1.1 hjs hidx.2 h r4 sa hF1 hsc hs).2 hret'
      rw [if_neg (by rw [hd]; decide)]
      exact sb
    · have sa : Seg (fun v => v = break_label.1 ∨ P v)
          (fun p => (∃ k, 0 ≤ k ∧ k < 0 + case_count case_list ∧ p = cases.case_jmps k) ∨
            (0 < default_count case_list ∧ p = default_jmp) ∨ (p = default_jmp ∨ E p)) B F lo
          jmp.1.2 :=
        seg_mono_e s5 (fun _ hp => hp.elim Or.inl (fun hp => Or.inr (Or.inr hp)))
      have sb := (ihb stat_ctx (.STAT_SWITCH (.mk expr case_list)) cases.case_jmps default_jmp 0
        jmp.1.1 hjs hidx.2 h r4 sa hF1 hsc hs).2 hret'
      have hd' : cases.have_default = false := by
        cases hb2 : cases.have_default
        · rfl
        · exact absurd hb2 hd
      rw [if_pos (by rw [hd']; decide)]
      exact seg_patch sb (le_refl _) (le_refl _)

mutual
theorem compile_statement_seg :
    ∀ (s : statement_t) (sc : Option statement_ctx_t) {P E : Nat → Prop} {B : List Nat} {F : List statement_ctx_t} {lo : Nat} {c : compiler_ctx_t},
      Seg P E B F lo c → (∀ f ∈ F, FrameOK P f) → (∀ f, sc = some f → FrameOK P f) →
      SegS P E B F lo (compile_statement c sc s)
  | .STAT_BLOCK (.mk stat_list), sc, P, E, B, F, lo, c, h, hF, hsc => by
    rw [compile_statement]
    exact frame_seg (fun c' => compile_block_statement c' stat_list) (fun h' hF' => compile_block_statement_seg stat_list h' hF') sc h hF hsc
  | .STAT_BREAK stat, sc, P, E, B, F, lo, c, h, hF, hsc => by
    rw [compile_statement]
    exact frame_seg (fun c' => compile_break_statement c' stat) (fun h' hF' => compile_break_statement_seg stat h' hF') sc h hF hsc
  | .STAT_CONTINUE stat, sc, P, E, B, F, lo, c, h, hF, hsc => by
    rw [compile_statement]
    exact frame_seg (fun c' => compile_continue_statement c' stat) (fun h' hF' => compile_continue_statement_seg stat h' hF') sc h hF hsc
  | .STAT_EMPTY, sc, P, E, B, F, lo, c, h, hF, hsc => by
    rw [compile_statement]
    exact frame_seg (fun c' => push_instr_hres c' OP_undefined) (fun h' hF' => push_instr_hres_seg h' (by decide)) sc h hF hsc
  | .STAT_EXPR stat, sc, P, E, B, F, lo, c, h, hF, hsc => by
    rw [compile_statement]
    exact frame_seg (fun c' => compile_expression_statement c' stat) (fun h' hF' => compile_expression_statement_seg stat h') sc h hF hsc
  | .STAT_FOR stat, sc, P, E, B, F, lo, c, h, hF, hsc => by
    rw [compile_statement]
    exact frame_seg (fun c' => compile_for_statement c' stat) (fun h' hF' => compile_for_statement_seg stat h' hF') sc h hF hsc
  | .STAT_FORIN stat, sc, P, E, B, F, lo, c, h, hF, hsc => by
    rw [compile_statement]
    exact frame_seg (fun c' => compile_forin_statement c' stat) (fun h' hF' => compile_forin_statement_seg stat h' hF') sc h hF hsc
  | .STAT_IF stat, sc, P, E, B, F, lo, c, h, hF, hsc => by
    rw [compile_statement]
    exact frame_seg (fun c' => compile_if_statement c' stat) (fun h' hF' => compile_if_statement_seg stat h' hF') sc h hF hsc
  | .STAT_LABEL stat, sc, P, E, B, F, lo, c, h, hF, hsc => by
    rw [compile_statement]
    exact frame_seg (fun c' => push_instr_hres c' OP_label) (fun h' hF' => push_instr_hres_seg h' (by decide)) sc h hF hsc
  | .STAT_SWITCH stat, sc, P, E, B, F, lo, c, h, hF, hsc => by
    rw [compile_statement]
    exact frame_seg (fun c' => compile_switch_statement c' stat) (fun h' hF' => compile_switch_statement_seg stat h' hF') sc h hF hsc
  | .STAT_THROW stat, sc, P, E, B, F, lo, c, h, hF, hsc => by
    rw [compile_statement]
    exact frame_seg (fun c' => compile_throw_statement c' stat) (fun h' hF' => compile_throw_statement_seg stat h') sc h hF hsc
  | .STAT_TRY stat, sc, P, E, B, F, lo, c, h, hF, hsc => by
    rw [compile_statement]
    exact frame_seg (fun c' => compile_try_statement c' stat) (fun h' hF' => compile_try_statement_seg stat h' hF') sc h hF hsc
  | .STAT_VAR stat, sc, P, E, B, F, lo, c, h, hF, hsc => by
    rw [compile_statement]
    exact frame_seg (fun c' => compile_var_statement c' stat) (fun h' hF' => compile_var_statement_seg stat h') sc h hF hsc
  | .STAT_WHILE stat, sc, P, E, B, F, lo, c, h, hF, hsc => by
    rw [compile_statement]
    exact frame_seg (fun c' => compile_while_statement c' stat) (fun h' hF' => compile_while_statement_seg stat h' hF') sc h hF hsc
  | .STAT_WITH stat, sc, P, E, B, F, lo, c, h, hF, hsc => by
    rw [compile_statement]
    exact frame_seg (fun c' => compile_with_statement c' stat) (fun h' hF' => compile_with_statement_seg stat h' hF') sc h hF hsc
  | .STAT_RETURN expr, sc, P, E, B, F, lo, c, h, hF, hsc => by
    rw [compile_statement]
    exact frame_seg (fun c' => compile_interp_fallback c' (.STAT_RETURN expr)) (fun h' hF' => compile_interp_fallback_seg _ h') sc h hF hsc

theorem compile_block_statement_seg :
    ∀ (s : statement_list) {P E : Nat → Prop} {B : List Nat} {F : List statement_ctx_t} {lo : Nat} {c : compiler_ctx_t},
      Seg P E B F lo c → (∀ f ∈ F, FrameOK P f) → SegS P E B F lo (compile_block_statement c s)
  | .NULL, P, E, B, F, lo, c, h, hF => by
    rw [compile_block_statement]
    exact push_instr_hres_seg h (by decide)
  | .node addr stat next, P, E, B, F, lo, c, h, hF => compile_block_statement_seg_aux (compile_statement_seg stat)
      (fun h' hF' => compile_block_statement_seg next h' hF') h hF

theorem compile_if_statement_seg :
    ∀ (s : if_statement_t) {P E : Nat → Prop} {B : List Nat} {F : List statement_ctx_t} {lo : Nat} {c : compiler_ctx_t},
      Seg P E B F lo c → (∀ f ∈ F, FrameOK P f) → SegS P E B F lo (compile_if_statement c s)
  | .mk expr if_stat (.node addr stat nx), P, E, B, F, lo, c, h, hF => compile_if_else_seg_aux (compile_statement_seg if_stat) (compile_statement_seg stat) h hF
  | .mk expr if_stat .NULL, P, E, B, F, lo, c, h, hF => compile_if_seg_aux (compile_statement_seg if_stat) h hF

theorem compile_while_statement_seg :
    ∀ (s : while_statement_t) {P E : Nat → Prop} {B : List Nat} {F : List statement_ctx_t} {lo : Nat} {c : compiler_ctx_t},
      Seg P E B F lo c → (∀ f ∈ F, FrameOK P f) → SegS P E B F lo (compile_while_statement c s)
  | .mk true expr statement, P, E, B, F, lo, c, h, hF => compile_do_while_seg_aux (compile_statement_seg statement) h hF
  | .mk false expr statement, P, E, B, F, lo, c, h, hF => compile_while_seg_aux (compile_statement_seg statement) h hF

theorem compile_for_statement_seg :
    ∀ (s : for_statement_t) {P E : Nat → Prop} {B : List Nat} {F : List statement_ctx_t} {lo : Nat} {c : compiler_ctx_t},
      Seg P E B F lo c → (∀ f ∈ F, FrameOK P f) → SegS P E B F lo (compile_for_statement c s)
  | .mk variable_list begin_expr expr end_expr statement, P, E, B, F, lo, c, h, hF => compile_for_statement_seg_aux (compile_statement_seg statement) h hF

theorem compile_forin_statement_seg :
    ∀ (s : forin_statement_t) {P E : Nat → Prop} {B : List Nat} {F : List statement_ctx_t} {lo : Nat} {c : compiler_ctx_t},
      Seg P E B F lo c → (∀ f ∈ F, FrameOK P f) → SegS P E B F lo (compile_forin_statement c s)
  | .mk variable_ expr in_expr statement, P, E, B, F, lo, c, h, hF => compile_forin_statement_seg_aux (compile_statement_seg statement) h hF

theorem compile_with_statement_seg :
    ∀ (s : with_statement_t) {P E : Nat → Prop} {B : List Nat} {F : List statement_ctx_t} {lo : Nat} {c : compiler_ctx_t},
      Seg P E B F lo c → (∀ f ∈ F, FrameOK P f) → SegS P E B F lo (compile_with_statement c s)
  | .mk expr statement, P, E, B, F, lo, c, h, hF => compile_with_statement_seg_aux (compile_statement_seg statement) h hF

theorem compile_case_statements_seg :
    ∀ (l : statement_list) {F : List statement_ctx_t} {lo : Nat} {c0 : compiler_ctx_t}
      (sc : statement_ctx_t) (stat : statement_t) (next : case_clausule_t)
      {P E P0 E0 : Nat → Prop} {B B0 : List Nat} {c : compiler_ctx_t} (hres : HRESULT),
      Seg P0 E0 B0 F lo c0 → Rel c0.code_off c0.labels_cnt c0 c → Seg P E B F lo c →
      (∀ f ∈ F, FrameOK P f) → FrameOK P sc →
      ¬ FAILED (compile_case_statements c sc c0.code_off stat next hres l).1 = true →
      ((compile_case_statements c sc c0.code_off stat next hres l).2.2 = true → Seg P0 E0 B0 F lo (compile_case_statements c sc c0.code_off stat next hres l).2.1) ∧
      ((compile_case_statements c sc c0.code_off stat next hres l).2.2 = false → Seg P E B F lo (compile_case_statements c sc c0.code_off stat next hres l).2.1)
  | .NULL, F, lo, c0, sc, stat, next, P, E, P0, E0, B, B0, c, hres, h0, hr, h, hF, hsc => by
    rw [compile_case_statements]
    exact fun _ => ⟨fun e => Bool.noConfusion e, fun _ => h⟩
  | .node addr stat_iter stat_next, F, lo, c0, sc, stat, next, P, E, P0, E0, B, B0, c, hres,
      h0, hr, h, hF, hsc =>
    compile_case_statements_seg_aux sc stat next (compile_statement_seg stat_iter)
      (fun hres h0 hr h hF hsc =>
        compile_case_statements_seg stat_next sc stat next hres h0 hr h hF hsc)
      hres h0 hr h hF hsc

theorem compile_case_bodies_seg :
    ∀ (cl : case_clausule_t) {F : List statement_ctx_t} {lo : Nat} {c0 : compiler_ctx_t}
      (sc : statement_ctx_t) (stat : statement_t) (cj : Nat → Nat) (dj : Nat)
      {P E P0 E0 : Nat → Prop} {B B0 : List Nat} {c : compiler_ctx_t} (i : Nat)
      (hres : HRESULT),
      (∀ k, i ≤ k → k < i + case_count cl → c0.code_off ≤ cj k) → c0.code_off ≤ dj →
      Seg P0 E0 B0 F lo c0 → Rel c0.code_off c0.labels_cnt c0 c →
      Seg P (fun p => (∃ k, i ≤ k ∧ k < i + case_count cl ∧ p = cj k) ∨
        (0 < default_count cl ∧ p = dj) ∨ E p) B F lo c →
      (∀ f ∈ F, FrameOK P f) → FrameOK P sc →
      ¬ FAILED (compile_case_bodies c sc c0.code_off stat cj dj i hres cl).hres = true →
      ((compile_case_bodies c sc c0.code_off stat cj dj i hres cl).returned = true → Seg P0 E0 B0 F lo (compile_case_bodies c sc c0.code_off stat cj dj i hres cl).ctx) ∧
      ((compile_case_bodies c sc c0.code_off stat cj dj i hres cl).returned = false → Seg P E B F lo (compile_case_bodies c sc c0.code_off stat cj dj i hres cl).ctx)
  | .NULL, F, lo, c0, sc, stat, cj, dj, P, E, P0, E0, B, B0, c, i, hres, hj, hd, h0, hr, h,
      hF, hsc => by
    rw [compile_case_bodies]
    refine fun _ => ⟨fun e => Bool.noConfusion e, fun _ => seg_mono_e h (fun p hp => ?_)⟩
    rcases hp with ⟨k, k1, k2, _⟩ | ⟨k1, _⟩ | hp
    · rw [case_count] at k2
      exact absurd k2 (Nat.not_lt.2 k1)
    · rw [default_count] at k1
      exact absurd k1 (Nat.lt_irrefl 0)
    · exact hp
  | .mk expr iter_stat next, F, lo, c0, sc, stat, cj, dj, P, E, P0, E0, B, B0, c, i, hres,
      hj, hd, h0, hr, h, hF, hsc =>
    compile_case_bodies_seg_aux sc stat cj dj
      (fun hres h0 hr h hF hsc =>
        compile_case_statements_seg iter_stat sc stat next hres h0 hr h hF hsc)
      (fun i hres hj h0 hr h hF hsc =>
        compile_case_bodies_seg next sc stat cj dj i hres hj hd h0 hr h hF hsc)
      i hres hj hd h0 hr h hF hsc

theorem compile_switch_statement_seg :
    ∀ (s : switch_statement_t) {P E : Nat → Prop} {B : List Nat} {F : List statement_ctx_t} {lo : Nat} {c : compiler_ctx_t},
      Seg P E B F lo c → (∀ f ∈ F, FrameOK P f) → SegS P E B F lo (compile_switch_statement c s)
  | .mk expr case_list, P, E, B, F, lo, c, h, hF => compile_switch_statement_seg_aux
      (fun sc stat cj dj i hres hj hd h0 hr h hF hsc =>
        compile_case_bodies_seg case_list sc stat cj dj i hres hj hd h0 hr h hF hsc) h hF

theorem compile_try_statement_seg :
    ∀ (s : try_statement_t) {P E : Nat → Prop} {B : List Nat} {F : List statement_ctx_t} {lo : Nat} {c : compiler_ctx_t},
      Seg P E B F lo c → (∀ f ∈ F, FrameOK P f) → SegS P E B F lo (compile_try_statement c s)
  | .mk t (.mk ident cs) (.node addr fs fnext), P, E, B, F, lo, c, h, hF => compile_try_catch_finally_seg_aux (compile_statement_seg t) (compile_statement_seg cs) (compile_statement_seg fs) h hF
  | .mk t (.mk ident cs) .NULL, P, E, B, F, lo, c, h, hF => compile_try_catch_nofinally_seg_aux (compile_statement_seg t) (compile_statement_seg cs) h hF
  | .mk t .NULL (.node addr fs fnext), P, E, B, F, lo, c, h, hF => compile_try_nocatch_finally_seg_aux (compile_statement_seg t) (compile_statement_seg fs) h hF
  | .mk t .NULL .NULL, P, E, B, F, lo, c, h, hF => compile_try_nocatch_nofinally_seg_aux (compile_statement_seg t) h hF

end

/-! ## Address operands after label resolution -/

/-- The state after `resolve_label` at `off`: only the first operand of the instruction at `off`
may change, and it changes as the source says. -/
theorem resolve_label_facts (c : compiler_ctx_t) (off : Nat) :
    (resolve_label c off).code_off = c.code_off ∧ (resolve_label c off).labels = c.labels ∧
    (∀ i, i ≠ off → (resolve_label c off).instrs i = c.instrs i) ∧
    ((resolve_label c off).instrs off).op = (c.instrs off).op ∧
    (instr_info_arg1_type (c.instrs off).op = ARG_ADDR → ∀ v, (c.instrs off).arg1 = .uint v →
      ((resolve_label c off).instrs off).arg1 =
        .uint (if v &&& LABEL_FLAG ≠ 0 then c.labels (v &&& (LABEL_FLAG - 1)) else v)) := by
  unfold resolve_label
  split
  · next ha =>
    split
    · next v hv =>
      split
      · next hf =>
        refine ⟨rfl, rfl, fun i hi => set_arg1_other _ _ hi, by rw [set_arg1_same], ?_⟩
        intro _ w hw
        rw [hv] at hw
        cases hw
        rw [set_arg1_same, if_pos hf]
      · next hf =>
        refine ⟨rfl, rfl, fun _ _ => rfl, rfl, ?_⟩
        intro _ w hw
        rw [hv] at hw
        cases hw
        rw [if_neg hf, hv]
    · next hv =>
      refine ⟨rfl, rfl, fun _ _ => rfl, rfl, ?_⟩
      intro _ w hw
      exact absurd hw (hv w)
  · next ha =>
    exact ⟨rfl, rfl, fun _ _ => rfl, rfl, fun h => absurd h ha⟩

/-- The loop of `resolve_labels` over the `n` instructions from `off` on: the instructions
outside the range are kept, and so are the labels and the write cursor; an instruction of the
range keeps its opcode, and its first operand, when it is an address, is resolved. -/
theorem resolve_labels_loop_facts :
    ∀ (n off : Nat) (c : compiler_ctx_t),
      (resolve_labels_loop c n off).code_off = c.code_off ∧
      (resolve_labels_loop c n off).labels = c.labels ∧
      (∀ i, (i < off ∨ off + n ≤ i) → (resolve_labels_loop c n off).instrs i = c.instrs i) ∧
      (∀ i, off ≤ i → i < off + n →
        ((resolve_labels_loop c n off).instrs i).op = (c.instrs i).op ∧
        (instr_info_arg1_type (c.instrs i).op = ARG_ADDR → ∀ v, (c.instrs i).arg1 = .uint v →
          ((resolve_labels_loop c n off).instrs i).arg1 =
            .uint (if v &&& LABEL_FLAG ≠ 0 then c.labels (v &&& (LABEL_FLAG - 1)) else v)))
  | 0, off, c => by
    rw [resolve_labels_loop]
    exact ⟨rfl, rfl, fun _ _ => rfl, fun i h1 h2 => absurd h2 (by omega)⟩
  | n + 1, off, c => by
    rw [resolve_labels_loop]
    obtain ⟨a1, a2, a3, a4, a5⟩ := resolve_label_facts c off
    obtain ⟨b1, b2, b3, b4⟩ := resolve_labels_loop_facts n (off + 1) (resolve_label c off)
    refine ⟨b1.trans a1, b2.trans a2, fun i hi => ?_, fun i h1 h2 => ?_⟩
    · rw [b3 i (by omega), a3 i (by omega)]
    · by_cases e : i = off
      · subst e
        rw [b3 i (Or.inl (Nat.lt_succ_self _))]
        exact ⟨a4, a5⟩
      · obtain ⟨c1, c2⟩ := b4 i (by omega) (by omega)
        rw [a3 i e] at c1 c2
        rw [a2] at c2
        exact ⟨c1, c2⟩

/-- The compiler that `init_compiler` hands out has an empty context stack, when a compiler
that existed before had one. -/
theorem init_compiler_stack (parser : parser_ctx_t)
    (hp : parser.compiler = true → parser.ctx.stat_ctx = [])
    (hs : ¬ FAILED (init_compiler parser).1 = true) :
    (init_compiler parser).2.ctx.stat_ctx = [] := by
  have hh : ∀ c : compiler_ctx_t, (heap_alloc c).2.stat_ctx = c.stat_ctx :=
    fun c => (heap_alloc_proj c).2.2.2.2.2.2.2.2.2.1
  obtain ⟨code, compiler, ctx⟩ := parser
  dsimp only at hp
  revert hs
  unfold init_compiler
  dsimp only
  cases code <;> cases compiler
  all_goals repeat' split
  all_goals first
    | exact fun h => absurd failed_oom h
    | exact fun _ => rfl
    | exact fun _ => hp rfl
    | exact fun _ => (hh _).trans (hp rfl)
    | (exfalso; simp_all)

/-- The lowered state of a unit: when `compile_subscript_stat` succeeds, with an empty context
stack at entry, the state in which it calls `resolve_labels` has its address operands in order
from `ret_off` on, with no token pending and no jump left to patch. -/
theorem subscript_stat_lowered_seg (parser : parser_ctx_t) (addr : Nat) (stat : statement_t)
    (next : statement_list) (compile_block : Bool) (ret_off : Nat)
    (hstack : parser.compiler = true → parser.ctx.stat_ctx = [])
    (hs : SUCCEEDED (compile_subscript_stat parser addr stat next compile_block ret_off).1
      = true) :
    ¬ FAILED (init_compiler parser).1 = true ∧
    (compile_subscript_stat parser addr stat next compile_block ret_off).2.2
      = (init_compiler parser).2.ctx.code_off ∧
    (compile_subscript_stat parser addr stat next compile_block ret_off).2.1.ctx
      = (push_instr_hres (resolve_labels
          (subscript_stat_lowered parser addr stat next compile_block)
          (init_compiler parser).2.ctx.code_off) OP_ret).2 ∧
    ¬ FAILED (push_instr_hres (resolve_labels
          (subscript_stat_lowered parser addr stat next compile_block)
          (init_compiler parser).2.ctx.code_off) OP_ret).1 = true ∧
    Seg (fun _ => False) (fun _ => False) [] [] (init_compiler parser).2.ctx.code_off
      (subscript_stat_lowered parser addr stat next compile_block) := by
  have hs' := succeeded_not_failed hs
  clear hs
  revert hs'
  unfold compile_subscript_stat subscript_stat_lowered
  dsimp only
  by_cases hi : FAILED (init_compiler parser).1 = true
  · rw [if_pos hi]
    intro h
    exact absurd hi h
  rw [if_neg hi]
  have hst := init_compiler_stack parser hstack hi
  have s0 : Seg (fun _ => False) (fun _ => False) [] [] (init_compiler parser).2.ctx.code_off
      (init_compiler parser).2.ctx :=
    ⟨hst, fun _ t ht => absurd ht (List.not_mem_nil t),
     fun _ i h1 h2 => absurd h2 (Nat.not_lt.2 h1), fun _ t ht => ht.elim, le_refl _,
     fun t ht => ht.elim⟩
  have hF : ∀ f ∈ ([] : List statement_ctx_t), FrameOK (fun _ => False) f :=
    fun f hf => absurd hf (List.not_mem_nil f)
  have sl : SegS (fun _ => False) (fun _ => False) [] [] (init_compiler parser).2.ctx.code_off
      (if (compile_block && !next.is_null) = true then
        compile_block_statement (init_compiler parser).2.ctx (.node addr stat next)
      else compile_statement (init_compiler parser).2.ctx none stat) := by
    split
    · exact compile_block_statement_seg _ s0 hF
    · exact compile_statement_seg stat none s0 hF (fun f hf => Option.noConfusion hf)
  generalize (if (compile_block && !next.is_null) = true then
        compile_block_statement (init_compiler parser).2.ctx (.node addr stat next)
      else compile_statement (init_compiler parser).2.ctx none stat) = low at sl ⊢
  by_cases hl : FAILED low.1 = true
  · rw [if_pos hl]
    intro h
    exact absurd hl h
  rw [if_neg hl]
  intro hs
  exact ⟨hi, rfl, rfl, hs, sl hl⟩

/-- The address operands of a unit: when `compile_subscript_stat` succeeds, with a lowered state
that has at most `2^31` labels and a stream of at most `2^31` instructions, the stream ends with
the `OP_ret` at the offset `r`, and every instruction of the range from `ret_off` on whose
opcode has an address as first operand carries an offset `t` with `ret_off ≤ t ≤ r`. -/
theorem subscript_stat_operands (parser : parser_ctx_t) (addr : Nat) (stat : statement_t)
    (next : statement_list) (compile_block : Bool) (ret_off : Nat)
    (hstack : parser.compiler = true → parser.ctx.stat_ctx = [])
    (hs : SUCCEEDED (compile_subscript_stat parser addr stat next compile_block ret_off).1
      = true)
    (hoff : (compile_subscript_stat parser addr stat next compile_block
      ret_off).2.1.ctx.code_off ≤ LABEL_FLAG)
    (hcnt : (subscript_stat_lowered parser addr stat next compile_block).labels_cnt
      ≤ LABEL_FLAG) :
    ∃ r, (compile_subscript_stat parser addr stat next compile_block ret_off).2.1.ctx.code_off
        = r + 1 ∧
      (subscript_stat_lowered parser addr stat next compile_block).code_off = r ∧
      ((compile_subscript_stat parser addr stat next compile_block
        ret_off).2.1.ctx.instrs r).op = OP_ret ∧
      (compile_subscript_stat parser addr stat next compile_block ret_off).2.2 ≤ r ∧
      ∀ i, (compile_subscript_stat parser addr stat next compile_block ret_off).2.2 ≤ i →
        i < r + 1 →
        instr_info_arg1_type ((compile_subscript_stat parser addr stat next compile_block
          ret_off).2.1.ctx.instrs i).op = ARG_ADDR →
        ∃ t, ((compile_subscript_stat parser addr stat next compile_block
            ret_off).2.1.ctx.instrs i).arg1 = .uint t ∧
          (compile_subscript_stat parser addr stat next compile_block ret_off).2.2 ≤ t ∧
          t ≤ r := by
  obtain ⟨_, e1, e2, hs', sg⟩ := subscript_stat_lowered_seg parser addr stat next compile_block
    ret_off hstack hs
  rw [e1]
  rw [e2] at hoff ⊢
  generalize subscript_stat_lowered parser addr stat next compile_block = low at *
  generalize (init_compiler parser).2.ctx.code_off = lo at *
  have hne : ¬ (push_instr (resolve_labels low lo) OP_ret).1 = UINT_MAX := by
    intro e
    apply hs'
    unfold push_instr_hres
    simp only [e, ↓reduceIte]
    exact failed_oom
  have e : (push_instr_hres (resolve_labels low lo) OP_ret).2
      = (push_instr (resolve_labels low lo) OP_ret).2 := by
    unfold push_instr_hres
    simp only [hne, ↓reduceIte]
  rw [e] at hoff ⊢
  obtain ⟨_, p2, p3, p4, _⟩ := push_instr_ok (resolve_labels low lo) OP_ret hne
  obtain ⟨r1, r2, r3, r4⟩ := resolve_labels_loop_facts (low.code_off - lo) lo low
  have hco : (resolve_labels low lo).code_off = low.code_off := r1
  have hin : (resolve_labels low lo).instrs
      = (resolve_labels_loop low (low.code_off - lo) lo).instrs := rfl
  rw [hco] at p2 p3 p4
  rw [p2] at hoff
  have hlo := sg.lo_le
  refine ⟨low.code_off, p2, rfl, p3, hlo, fun i h1 h2 ha => ?_⟩
  have hlt : low.code_off < LABEL_FLAG := hoff
  by_cases hir : i = low.code_off
  · rw [hir, p3] at ha
    exact absurd ha (by decide)
  have hi2 : i < low.code_off := by omega
  rw [p4 i hir, hin] at ha ⊢
  obtain ⟨q1, q2⟩ := r4 i h1 (by omega)
  rw [q1] at ha
  obtain ⟨v, ev, hv⟩ := sg.good hcnt i h1 hi2 (fun h => h) ha
  rw [q2 ha v ev]
  refine ⟨_, rfl, ?_⟩
  rcases hv with ⟨v1, v2⟩ | ⟨v0, _, v2, v3⟩ | hv
  · have hz : v &&& LABEL_FLAG = 0 := lt_flag v (lt_of_le_of_lt v2 hlt)
    rw [if_neg (fun h => h hz)]
    exact ⟨v1, v2⟩
  · rw [if_pos v0]
    exact ⟨v2, v3⟩
  · exact hv.elim


/-- C22: after a successful `compile_subscript_stat` (entered with an empty context stack; the
stream holds at most `2^31` instructions and the lowering has handed out at most `2^31`
labels), the stream ends with the `OP_ret` at an offset `r`, and every instruction of the range
from `ret_off` on whose opcode has an address as first operand carries an offset `t` with
`ret_off ≤ t ≤ r`: every jump of the unit lands inside the unit. Before the labels are
resolved, in the lowered state, every such operand is an offset of that range or the token of a
label that has been handed out and is bound to an offset of that range (`Good` with no pending
token): every label that an instruction of the unit refers to is bound in the unit. -/
theorem unit_jumps_inside_unit (parser : parser_ctx_t) (addr : Nat) (stat : statement_t)
    (next : statement_list) (compile_block : Bool) (ret_off : Nat)
    (hstack : parser.compiler = true → parser.ctx.stat_ctx = [])
    (hs : SUCCEEDED (compile_subscript_stat parser addr stat next compile_block ret_off).1
      = true)
    (hoff : (compile_subscript_stat parser addr stat next compile_block
      ret_off).2.1.ctx.code_off ≤ LABEL_FLAG)
    (hcnt : (subscript_stat_lowered parser addr stat next compile_block).labels_cnt
      ≤ LABEL_FLAG) :
    (∃ r, (compile_subscript_stat parser addr stat next compile_block
          ret_off).2.1.ctx.code_off = r + 1 ∧
      (subscript_stat_lowered parser addr stat next compile_block).code_off = r ∧
      ((compile_subscript_stat parser addr stat next compile_block
        ret_off).2.1.ctx.instrs r).op = OP_ret ∧
      (compile_subscript_stat parser addr stat next compile_block ret_off).2.2 ≤ r ∧
      ∀ i, (compile_subscript_stat parser addr stat next compile_block ret_off).2.2 ≤ i →
        i < r + 1 →
        instr_info_arg1_type ((compile_subscript_stat parser addr stat next compile_block
          ret_off).2.1.ctx.instrs i).op = ARG_ADDR →
        ∃ t, ((compile_subscript_stat parser addr stat next compile_block
            ret_off).2.1.ctx.instrs i).arg1 = .uint t ∧
          (compile_subscript_stat parser addr stat next compile_block ret_off).2.2 ≤ t ∧
          t ≤ r) ∧
    ∀ i, (compile_subscript_stat parser addr stat next compile_block ret_off).2.2 ≤ i →
      i < (subscript_stat_lowered parser addr stat next compile_block).code_off →
      Good (fun _ => False)
        (compile_subscript_stat parser addr stat next compile_block ret_off).2.2
        (subscript_stat_lowered parser addr stat next compile_block) i := by
  refine ⟨subscript_stat_operands parser addr stat next compile_block ret_off hstack hs hoff
    hcnt, fun i h1 h2 => ?_⟩
  obtain ⟨_, e1, _, _, sg⟩ := subscript_stat_lowered_seg parser addr stat next compile_block
    ret_off hstack hs
  rw [e1] at h1 ⊢
  exact sg.good hcnt i h1 h2 (fun h => h)

/-- The statement `while(c) break;` from a fresh parser context: the unit ends with `OP_ret`
at the offset 7, the exit jump (offset 2) and the jump of the `break` (offset 5) carry 7 and the
backward jump (offset 6) carries 1; before the resolution the first two carry the token of the
break label. -/
theorem unit_jumps_inside_unit_witness :
    ((∃ r, (compile_subscript_stat parser_empty 1 stat_break_loop_sample .NULL false
          0).2.1.ctx.code_off = r + 1 ∧
      (subscript_stat_lowered parser_empty 1 stat_break_loop_sample .NULL false).code_off = r ∧
      ((compile_subscript_stat parser_empty 1 stat_break_loop_sample .NULL false
        0).2.1.ctx.instrs r).op = OP_ret ∧
      (compile_subscript_stat parser_empty 1 stat_break_loop_sample .NULL false 0).2.2 ≤ r ∧
      ∀ i, (compile_subscript_stat parser_empty 1 stat_break_loop_sample .NULL false 0).2.2 ≤ i →
        i < r + 1 →
        instr_info_arg1_type ((compile_subscript_stat parser_empty 1 stat_break_loop_sample
          .NULL false 0).2.1.ctx.instrs i).op = ARG_ADDR →
        ∃ t, ((compile_subscript_stat parser_empty 1 stat_break_loop_sample .NULL false
            0).2.1.ctx.instrs i).arg1 = .uint t ∧
          (compile_subscript_stat parser_empty 1 stat_break_loop_sample .NULL false 0).2.2 ≤ t ∧
          t ≤ r) ∧
    ∀ i, (compile_subscript_stat parser_empty 1 stat_break_loop_sample .NULL false 0).2.2 ≤ i →
      i < (subscript_stat_lowered parser_empty 1 stat_break_loop_sample .NULL false).code_off →
      Good (fun _ => False)
        (compile_subscript_stat parser_empty 1 stat_break_loop_sample .NULL false 0).2.2
        (subscript_stat_lowered parser_empty 1 stat_break_loop_sample .NULL false) i) ∧
    (compile_subscript_stat parser_empty 1 stat_break_loop_sample .NULL false 0).2.2 = 0 ∧
    emitted_ops (compile_subscript_stat parser_empty 1 stat_break_loop_sample .NULL false
      0).2.1.ctx 0 8 =
      [OP_undefined, OP_ident, OP_jmp_z, OP_pop, OP_undefined, OP_jmp, OP_jmp, OP_ret] ∧
    ((compile_subscript_stat parser_empty 1 stat_break_loop_sample .NULL false
      0).2.1.ctx.instrs 2).arg1 = .uint 7 ∧
    ((compile_subscript_stat parser_empty 1 stat_break_loop_sample .NULL false
      0).2.1.ctx.instrs 5).arg1 = .uint 7 ∧
    ((compile_subscript_stat parser_empty 1 stat_break_loop_sample .NULL false
      0).2.1.ctx.instrs 6).arg1 = .uint 1 ∧
    ((subscript_stat_lowered parser_empty 1 stat_break_loop_sample .NULL false).instrs 2).arg1
      = .uint 0x80000000 ∧
    ((subscript_stat_lowered parser_empty 1 stat_break_loop_sample .NULL false).instrs 5).arg1
      = .uint 0x80000000 :=
  ⟨unit_jumps_inside_unit parser_empty 1 stat_break_loop_sample .NULL false 0 (fun _ => rfl)
    (by decide) (by decide) (by decide), by decide, by decide, rfl, rfl, rfl, rfl, rfl⟩


/-- C1: after a successful `compile_subscript_stat` (entered with an empty context stack; the
stream holds at most `2^31` instructions and the lowering has handed out at most `2^31`
labels), no instruction of the range from `ret_off` to the end of the stream whose opcode has
an address as first operand has the label flag set in that operand: the operand is an unsigned
value without the bit `LABEL_FLAG`. -/
theorem no_label_token_left (parser : parser_ctx_t) (addr : Nat) (stat : statement_t)
    (next : statement_list) (compile_block : Bool) (ret_off : Nat)
    (hstack : parser.compiler = true → parser.ctx.stat_ctx = [])
    (hs : SUCCEEDED (compile_subscript_stat parser addr stat next compile_block ret_off).1
      = true)
    (hoff : (compile_subscript_stat parser addr stat next compile_block
      ret_off).2.1.ctx.code_off ≤ LABEL_FLAG)
    (hcnt : (subscript_stat_lowered parser addr stat next compile_block).labels_cnt
      ≤ LABEL_FLAG) :
    ∀ i, (compile_subscript_stat parser addr stat next compile_block ret_off).2.2 ≤ i →
      i < (compile_subscript_stat parser addr stat next compile_block
        ret_off).2.1.ctx.code_off →
      instr_info_arg1_type ((compile_subscript_stat parser addr stat next compile_block
        ret_off).2.1.ctx.instrs i).op = ARG_ADDR →
      ∃ t, ((compile_subscript_stat parser addr stat next compile_block
          ret_off).2.1.ctx.instrs i).arg1 = .uint t ∧ t &&& LABEL_FLAG = 0 := by
  obtain ⟨r, e1, _, _, _, h⟩ := subscript_stat_operands parser addr stat next compile_block
    ret_off hstack hs hoff hcnt
  intro i h1 h2 ha
  rw [e1] at h2 hoff
  obtain ⟨t, et, _, ht⟩ := h i h1 h2 ha
  exact ⟨t, et, lt_flag t (lt_of_le_of_lt ht hoff)⟩

/-- The statements `a; while(cond) { b; }`, lowered as an implicit block from a fresh parser
context: the exit jump of the loop (offset 4) carries 8, the offset of `OP_ret`, and the
backward jump (offset 7) carries 3; before the resolution the exit jump carries the token
`0x80000000` of the break label. -/
theorem no_label_token_left_witness :
    (∀ i, (compile_subscript_stat parser_empty 1 (stat_ident "a")
        (.node 2 stat_while_sample .NULL) true 0).2.2 ≤ i →
      i < (compile_subscript_stat parser_empty 1 (stat_ident "a")
        (.node 2 stat_while_sample .NULL) true 0).2.1.ctx.code_off →
      instr_info_arg1_type ((compile_subscript_stat parser_empty 1 (stat_ident "a")
        (.node 2 stat_while_sample .NULL) true 0).2.1.ctx.instrs i).op = ARG_ADDR →
      ∃ t, ((compile_subscript_stat parser_empty 1 (stat_ident "a")
          (.node 2 stat_while_sample .NULL) true 0).2.1.ctx.instrs i).arg1 = .uint t ∧
        t &&& LABEL_FLAG = 0) ∧
    (compile_subscript_stat parser_empty 1 (stat_ident "a")
      (.node 2 stat_while_sample .NULL) true 0).2.1.ctx.code_off = 9 ∧
    emitted_ops (compile_subscript_stat parser_empty 1 (stat_ident "a")
      (.node 2 stat_while_sample .NULL) true 0).2.1.ctx 0 9 =
      [OP_ident, OP_pop, OP_undefined, OP_ident, OP_jmp_z, OP_pop, OP_ident, OP_jmp, OP_ret] ∧
    ((compile_subscript_stat parser_empty 1 (stat_ident "a")
      (.node 2 stat_while_sample .NULL) true 0).2.1.ctx.instrs 4).arg1 = .uint 8 ∧
    ((compile_subscript_stat parser_empty 1 (stat_ident "a")
      (.node 2 stat_while_sample .NULL) true 0).2.1.ctx.instrs 7).arg1 = .uint 3 ∧
    ((subscript_stat_lowered parser_empty 1 (stat_ident "a")
      (.node 2 stat_while_sample .NULL) true).instrs 4).arg1 = .uint 0x80000000 :=
  ⟨no_label_token_left parser_empty 1 (stat_ident "a") (.node 2 stat_while_sample .NULL) true 0
    (fun _ => rfl) (by decide) (by decide) (by decide), by decide, by decide, rfl, rfl, rfl⟩


/-! ## Short-circuit expressions -/

theorem compile_expression_and (ctx : compiler_ctx_t) (e : binary_expression_t) :
    compile_expression ctx (.binary .EXPR_AND e) = compile_logical_expression ctx e OP_cnd_z := by
  unfold compile_expression
  rw [compile_expression_noret]

theorem compile_expression_or (ctx : compiler_ctx_t) (e : binary_expression_t) :
    compile_expression ctx (.binary .EXPR_OR e) = compile_logical_expression ctx e OP_cnd_nz := by
  unfold compile_expression
  rw [compile_expression_noret]

theorem compile_logical_expression_unfold (ctx : compiler_ctx_t) (a b : expression_t)
    (op : jsop_t) :
    compile_logical_expression ctx (.mk a b) op =
      (if FAILED (compile_expression ctx a).1 = true then compile_expression ctx a else
       if (push_instr (compile_expression ctx a).2 op).1 = UINT_MAX then
         (E_OUTOFMEMORY, (push_instr (compile_expression ctx a).2 op).2) else
       if FAILED (compile_expression (push_instr (compile_expression ctx a).2 op).2 b).1 = true
         then compile_expression (push_instr (compile_expression ctx a).2 op).2 b else
       (S_OK, set_arg1 (compile_expression (push_instr (compile_expression ctx a).2 op).2 b).2
         (push_instr (compile_expression ctx a).2 op).1
         (.uint (compile_expression (push_instr (compile_expression ctx a).2 op).2 b).2.code_off)))
    := by
  rw [compile_logical_expression]
  rfl

theorem logical_layout (ctx : compiler_ctx_t) (a b : expression_t) (op : jsop_t)
    (hs : ¬ FAILED (compile_logical_expression ctx (.mk a b) op).1 = true) :
    LogicalLayout ctx (compile_logical_expression ctx (.mk a b) op).2 a b op := by
  unfold LogicalLayout
  rw [compile_logical_expression_unfold] at hs ⊢
  generalize compile_expression ctx a = A at *
  by_cases h1 : FAILED A.1 = true
  · rw [if_pos h1] at hs
    exact absurd h1 hs
  rw [if_neg h1] at hs ⊢
  by_cases h2 : (push_instr A.2 op).1 = UINT_MAX
  · rw [if_pos h2] at hs
    exact absurd failed_oom hs
  rw [if_neg h2] at hs ⊢
  obtain ⟨p1, p2, p3, p4, _⟩ := push_instr_ok A.2 op h2
  have hk := compile_expression_keeps (push_instr A.2 op).2 b
  generalize compile_expression (push_instr A.2 op).2 b = B at *
  by_cases h3 : FAILED B.1 = true
  · rw [if_pos h3] at hs
    exact absurd h3 hs
  rw [if_neg h3]
  rw [p1]
  obtain ⟨k1, k2⟩ := hk
  rw [p2] at k1 k2
  refine ⟨h1, p2, h3, rfl, ?_, fun i hi => ?_, ?_, ?_, fun i hi => ?_⟩
  · exact lt_of_lt_of_le (Nat.lt_succ_self _) k1
  · rw [set_arg1_other _ _ (Nat.ne_of_lt hi), k2 i (Nat.lt_succ_of_lt hi)]
    exact p4 i (Nat.ne_of_lt hi)
  · rw [set_arg1_same]
    show (B.2.instrs A.2.code_off).op = op
    rw [k2 _ (Nat.lt_succ_self _)]
    exact p3
  · rw [set_arg1_same]
    rfl
  · exact set_arg1_other _ _ hi

/-- C32: for every `a && b` (respectively `a || b`) that is lowered with success, the stream at
entry is kept and what is appended is the code of `a`, one `OP_cnd_z` (respectively
`OP_cnd_nz`), and the code of `b`, which ends the stream: nothing else, no pop and no dup, is
emitted at this level. The first operand of the branch is the offset right after the last
instruction of the code of `b`. -/
theorem logical_expression_lowering (ctx : compiler_ctx_t) (a b : expression_t) :
    (SUCCEEDED (compile_expression ctx (.binary .EXPR_AND (.mk a b))).1 = true →
      Keeps ctx (compile_expression ctx (.binary .EXPR_AND (.mk a b))).2 ∧
      LogicalLayout ctx (compile_expression ctx (.binary .EXPR_AND (.mk a b))).2 a b OP_cnd_z) ∧
    (SUCCEEDED (compile_expression ctx (.binary .EXPR_OR (.mk a b))).1 = true →
      Keeps ctx (compile_expression ctx (.binary .EXPR_OR (.mk a b))).2 ∧
      LogicalLayout ctx (compile_expression ctx (.binary .EXPR_OR (.mk a b))).2 a b OP_cnd_nz) := by
  refine ⟨fun hs => ⟨compile_expression_keeps _ _, ?_⟩,
    fun hs => ⟨compile_expression_keeps _ _, ?_⟩⟩
  · rw [compile_expression_and] at hs ⊢
    exact logical_layout ctx a b OP_cnd_z (succeeded_not_failed hs)
  · rw [compile_expression_or] at hs ⊢
    exact logical_layout ctx a b OP_cnd_nz (succeeded_not_failed hs)

/-- The expressions `a && b` and `a || b`, lowered from the empty state. -/
theorem logical_expression_lowering_witness :
    (SUCCEEDED (compile_expression ctx_empty and_sample).1 = true ∧
      LogicalLayout ctx_empty (compile_expression ctx_empty and_sample).2 (expr_ident "a")
        (expr_ident "b") OP_cnd_z) ∧
    (SUCCEEDED (compile_expression ctx_empty or_sample).1 = true ∧
      LogicalLayout ctx_empty (compile_expression ctx_empty or_sample).2 (expr_ident "a")
        (expr_ident "b") OP_cnd_nz) :=
  ⟨⟨by decide, ((logical_expression_lowering ctx_empty (expr_ident "a") (expr_ident "b")).1
      (by decide)).2⟩,
   ⟨by decide, ((logical_expression_lowering ctx_empty (expr_ident "a") (expr_ident "b")).2
      (by decide)).2⟩⟩


/-! ## Conditional expressions -/

theorem compile_conditional_expression_unfold (ctx : compiler_ctx_t) (c t f : expression_t) :
    compile_conditional_expression ctx (.mk c t f) =
      (if FAILED (compile_expression ctx c).1 = true then compile_expression ctx c else
       if (push_instr (compile_expression ctx c).2 OP_cnd_z).1 = UINT_MAX then
         (E_OUTOFMEMORY, cond_true_entry ctx c) else
       if FAILED (compile_expression (cond_true_entry ctx c) t).1 = true then
         compile_expression (cond_true_entry ctx c) t else
       if (push_instr (compile_expression (cond_true_entry ctx c) t).2 OP_jmp).1 = UINT_MAX then
         (E_OUTOFMEMORY, (push_instr (compile_expression (cond_true_entry ctx c) t).2 OP_jmp).2)
       else
       if (push_instr (set_arg1 (push_instr (compile_expression (cond_true_entry ctx c) t).2
            OP_jmp).2 (push_instr (compile_expression ctx c).2 OP_cnd_z).1
            (.uint (push_instr (compile_expression (cond_true_entry ctx c) t).2
              OP_jmp).2.code_off)) OP_pop).1 = UINT_MAX then
         (E_OUTOFMEMORY, cond_false_entry ctx c t) else
       if FAILED (compile_expression (cond_false_entry ctx c t) f).1 = true then
         compile_expression (cond_false_entry ctx c t) f else
       (S_OK, set_arg1 (compile_expression (cond_false_entry ctx c t) f).2
         (push_instr (compile_expression (cond_true_entry ctx c) t).2 OP_jmp).1
         (.uint (compile_expression (cond_false_entry ctx c t) f).2.code_off))) := by
  rw [compile_conditional_expression]
  rfl

theorem compile_expression_cond (ctx : compiler_ctx_t) (e : conditional_expression_t) :
    compile_expression ctx (.EXPR_COND e) = compile_conditional_expression ctx e := by
  unfold compile_expression
  rw [compile_expression_noret]

/-- C33: for every conditional expression `c ? t : f` that is lowered with success, the stream
at entry is kept and what is appended is the code of `c`, `OP_cnd_z`, the code of `t`, `OP_jmp`,
`OP_pop`, and the code of `f`, which ends the stream. The operand of the `OP_cnd_z` is the
offset of that `OP_pop`, where the false path starts, and the operand of the `OP_jmp` is the
offset just past the code of `f`. -/
theorem conditional_expression_lowering (ctx : compiler_ctx_t) (c t f : expression_t)
    (hs : SUCCEEDED (compile_expression ctx (.EXPR_COND (.mk c t f))).1 = true) :
    Keeps ctx (compile_expression ctx (.EXPR_COND (.mk c t f))).2 ∧
    CondLayout ctx (compile_expression ctx (.EXPR_COND (.mk c t f))).2 c t f := by
  refine ⟨compile_expression_keeps _ _, ?_⟩
  have hs' := succeeded_not_failed hs
  clear hs
  rw [compile_expression_cond, compile_conditional_expression_unfold] at hs' ⊢
  unfold CondLayout
  have ect : cond_true_entry ctx c = (push_instr (compile_expression ctx c).2 OP_cnd_z).2 := rfl
  have ecf : cond_false_entry ctx c t = (push_instr (set_arg1 (push_instr (compile_expression
      (cond_true_entry ctx c) t).2 OP_jmp).2 (push_instr (compile_expression ctx c).2 OP_cnd_z).1
      (.uint (push_instr (compile_expression (cond_true_entry ctx c) t).2
        OP_jmp).2.code_off)) OP_pop).2 := rfl
  generalize compile_expression ctx c = C at *
  by_cases h1 : FAILED C.1 = true
  · rw [if_pos h1] at hs'
    exact absurd h1 hs'
  rw [if_neg h1] at hs' ⊢
  by_cases h2 : (push_instr C.2 OP_cnd_z).1 = UINT_MAX
  · rw [if_pos h2] at hs'
    exact absurd failed_oom hs'
  rw [if_neg h2] at hs' ⊢
  obtain ⟨p1, p2, p3, p4, _⟩ := push_instr_ok C.2 OP_cnd_z h2
  rw [← ect] at p2 p3 p4
  rw [p1] at ecf hs' ⊢
  clear p1 h2
  obtain ⟨k1, k2⟩ := compile_expression_keeps (cond_true_entry ctx c) t
  generalize cond_true_entry ctx c = ce at *
  generalize compile_expression ce t = T at *
  by_cases h3 : FAILED T.1 = true
  · rw [if_pos h3] at hs'
    exact absurd h3 hs'
  rw [if_neg h3] at hs' ⊢
  by_cases h4 : (push_instr T.2 OP_jmp).1 = UINT_MAX
  · rw [if_pos h4] at hs'
    exact absurd failed_oom hs'
  rw [if_neg h4] at hs' ⊢
  obtain ⟨q1, q2, q3, q4, _⟩ := push_instr_ok T.2 OP_jmp h4
  rw [q1, q2] at hs' ⊢
  rw [q2] at ecf
  clear q1 h4
  generalize push_instr T.2 OP_jmp = je at *
  by_cases h5 : (push_instr (set_arg1 je.2 C.2.code_off (.uint (T.2.code_off + 1))) OP_pop).1
      = UINT_MAX
  · rw [if_pos h5] at hs'
    exact absurd failed_oom hs'
  rw [if_neg h5] at hs' ⊢
  obtain ⟨_, r2, r3, r4, _⟩ := push_instr_ok _ OP_pop h5
  rw [← ecf] at r2 r3 r4
  have r2' : (cond_false_entry ctx c t).code_off = T.2.code_off + 2 := by
    rw [r2]
    show je.2.code_off + 1 = _
    rw [q2]
  have r3' : ((cond_false_entry ctx c t).instrs (T.2.code_off + 1)).op = OP_pop := by
    rw [← q2]
    exact r3
  have r4' : ∀ i, i ≠ T.2.code_off + 1 →
      (cond_false_entry ctx c t).instrs i
        = (set_arg1 je.2 C.2.code_off (.uint (T.2.code_off + 1))).instrs i := by
    intro i hi
    refine r4 i ?_
    show i ≠ je.2.code_off
    rw [q2]
    exact hi
  clear r2 r3 r4 h5 ecf
  obtain ⟨m1, m2⟩ := compile_expression_keeps (cond_false_entry ctx c t) f
  generalize cond_false_entry ctx c t = cf at *
  generalize compile_expression cf f = Fx at *
  by_cases h6 : FAILED Fx.1 = true
  · rw [if_pos h6] at hs'
    exact absurd h6 hs'
  rw [if_neg h6]
  rw [p2] at k1 k2
  rw [r2'] at m1 m2
  have low : ∀ i, i < T.2.code_off → i ≠ C.2.code_off →
      (set_arg1 Fx.2 T.2.code_off (.uint Fx.2.code_off)).instrs i = T.2.instrs i := by
    intro i hi hne
    rw [set_arg1_other _ _ (Nat.ne_of_lt hi), m2 i (by omega), r4' i (by omega),
      set_arg1_other _ _ hne]
    exact q4 i (Nat.ne_of_lt hi)
  refine ⟨h1, p2, h3, r2', h6, rfl, fun i hi => ?_, ?_, ?_, fun i h1 h2 => ?_, ?_, ?_, ?_,
    fun i hi => ?_⟩
  · rw [low i (by omega) (Nat.ne_of_lt hi), k2 i (by omega)]
    exact p4 i (Nat.ne_of_lt hi)
  · rw [set_arg1_other _ _ (by omega), m2 _ (by omega), r4' _ (by omega), set_arg1_same]
    show (je.2.instrs C.2.code_off).op = OP_cnd_z
    rw [q4 _ (by omega), k2 _ (by omega)]
    exact p3
  · rw [set_arg1_other _ _ (by omega), m2 _ (by omega), r4' _ (by omega), set_arg1_same]
  · exact low i h2 (by omega)
  · rw [set_arg1_same]
    show (Fx.2.instrs T.2.code_off).op = OP_jmp
    rw [m2 _ (by omega), r4' _ (by omega), set_arg1_other _ _ (by omega)]
    exact q3
  · rw [set_arg1_same]
    rfl
  · rw [set_arg1_other _ _ (by omega), m2 _ (by omega)]
    exact r3'
  · exact set_arg1_other _ _ hi

/-- The expression `c ? t : f`, lowered from the empty state. -/
theorem conditional_expression_lowering_witness :
    SUCCEEDED (compile_expression ctx_empty cond_sample).1 = true ∧
    CondLayout ctx_empty (compile_expression ctx_empty cond_sample).2 (expr_ident "c")
      (expr_ident "t") (expr_ident "f") :=
  ⟨by decide, (conditional_expression_lowering ctx_empty (expr_ident "c") (expr_ident "t")
    (expr_ident "f") (by decide)).2⟩


/-! ## The `if` statement -/

theorem compile_if_statement_parts (ctx : compiler_ctx_t) (expr : expression_t)
    (if_stat : statement_t) (else_stat : statement_list) :
    compile_if_statement ctx (.mk expr if_stat else_stat) =
      (if FAILED (compile_expression ctx expr).1 = true then compile_expression ctx expr else
       if (push_instr (compile_expression ctx expr).2 OP_jmp_z).1 = UINT_MAX then
         (E_OUTOFMEMORY, if_then_entry ctx expr) else
       if FAILED (compile_statement (if_then_entry ctx expr) none if_stat).1 = true then
         compile_statement (if_then_entry ctx expr) none if_stat else
       if (push_instr (compile_statement (if_then_entry ctx expr) none if_stat).2 OP_jmp).1
           = UINT_MAX then
         (E_OUTOFMEMORY,
           (push_instr (compile_statement (if_then_entry ctx expr) none if_stat).2 OP_jmp).2)
       else
       if FAILED (if_else_part (set_arg1
            (push_instr (compile_statement (if_then_entry ctx expr) none if_stat).2 OP_jmp).2
            (push_instr (compile_expression ctx expr).2 OP_jmp_z).1
            (.uint (push_instr (compile_statement (if_then_entry ctx expr) none if_stat).2
              OP_jmp).2.code_off)) else_stat).1 = true then
         if_else_part (if_else_entry ctx expr if_stat) else_stat else
       (S_OK, set_arg1 (if_else_part (if_else_entry ctx expr if_stat) else_stat).2
         (push_instr (compile_statement (if_then_entry ctx expr) none if_stat).2 OP_jmp).1
         (.uint (if_else_part (if_else_entry ctx expr if_stat) else_stat).2.code_off))) := by
  rw [compile_if_statement_unfold]
  cases else_stat <;> rfl

theorem if_else_part_keeps (c : compiler_ctx_t) (else_stat : statement_list) :
    Keeps c (if_else_part c else_stat).2 := by
  cases else_stat with
  | NULL =>
    show Keeps c (push_instr_hres c OP_undefined).2
    exact ⟨(push_instr_hres_rel OP_undefined (Rel.refl c)).off_ge,
      (push_instr_hres_rel OP_undefined (Rel.refl c)).instrs_eq⟩
  | node addr stat next =>
    show Keeps c (compile_statement c none stat).2
    exact ⟨(compile_statement_rel stat none (Rel.refl c)).off_ge,
      (compile_statement_rel stat none (Rel.refl c)).instrs_eq⟩

/-- C31: for every `if` statement that is lowered with success, the stream at entry is kept and
what is appended is the code of the condition, `OP_jmp_z`, the code of the then-branch,
`OP_jmp`, and the else part, which ends the stream: the code of the else-branch, or exactly one
`OP_undefined` when there is no else. The operand of the `OP_jmp_z` is the offset of the first
instruction of the else part and the operand of the `OP_jmp` is the offset just past the else
part; both are offsets of the stream, without the label flag (for a stream shorter than
`LABEL_FLAG`). -/
theorem if_statement_lowering (ctx : compiler_ctx_t) (expr : expression_t)
    (if_stat : statement_t) (else_stat : statement_list)
    (hs : SUCCEEDED (compile_if_statement ctx (.mk expr if_stat else_stat)).1 = true) :
    Keeps ctx (compile_if_statement ctx (.mk expr if_stat else_stat)).2 ∧
    IfLayout ctx (compile_if_statement ctx (.mk expr if_stat else_stat)).2 expr if_stat
      else_stat := by
  have hk := compile_if_statement_rel (.mk expr if_stat else_stat) (Rel.refl ctx)
  refine ⟨⟨hk.off_ge, hk.instrs_eq⟩, ?_⟩
  have hs' := succeeded_not_failed hs
  clear hs hk
  rw [compile_if_statement_parts] at hs' ⊢
  unfold IfLayout
  have ect : if_then_entry ctx expr = (push_instr (compile_expression ctx expr).2 OP_jmp_z).2 :=
    rfl
  have ecf : if_else_entry ctx expr if_stat = set_arg1
      (push_instr (compile_statement (if_then_entry ctx expr) none if_stat).2 OP_jmp).2
      (push_instr (compile_expression ctx expr).2 OP_jmp_z).1
      (.uint (push_instr (compile_statement (if_then_entry ctx expr) none if_stat).2
        OP_jmp).2.code_off) := rfl
  generalize compile_expression ctx expr = C at *
  by_cases h1 : FAILED C.1 = true
  · rw [if_pos h1] at hs'
    exact absurd h1 hs'
  rw [if_neg h1] at hs' ⊢
  by_cases h2 : (push_instr C.2 OP_jmp_z).1 = UINT_MAX
  · rw [if_pos h2] at hs'
    exact absurd failed_oom hs'
  rw [if_neg h2] at hs' ⊢
  obtain ⟨p1, p2, p3, p4, _⟩ := push_instr_ok C.2 OP_jmp_z h2
  rw [← ect] at p2 p3 p4
  rw [p1] at ecf hs' ⊢
  clear p1 h2
  have hT := compile_statement_rel if_stat none (Rel.refl (if_then_entry ctx expr))
  have k1 := hT.off_ge
  have k2 := hT.instrs_eq
  clear hT
  generalize if_then_entry ctx expr = ce at *
  generalize compile_statement ce none if_stat = T at *
  by_cases h3 : FAILED T.1 = true
  · rw [if_pos h3] at hs'
    exact absurd h3 hs'
  rw [if_neg h3] at hs' ⊢
  by_cases h4 : (push_instr T.2 OP_jmp).1 = UINT_MAX
  · rw [if_pos h4] at hs'
    exact absurd failed_oom hs'
  rw [if_neg h4] at hs' ⊢
  obtain ⟨q1, q2, q3, q4, _⟩ := push_instr_ok T.2 OP_jmp h4
  rw [q1, q2] at hs' ⊢
  rw [q2] at ecf
  clear q1 h4
  generalize push_instr T.2 OP_jmp = je at *
  rw [← ecf] at hs' ⊢
  have r2 : (if_else_entry ctx expr if_stat).code_off = T.2.code_off + 1 := by
    rw [ecf]
    exact q2
  have r4 : ∀ i, (if_else_entry ctx expr if_stat).instrs i
      = (set_arg1 je.2 C.2.code_off (.uint (T.2.code_off + 1))).instrs i := by
    intro i
    rw [ecf]
  obtain ⟨m1, m2⟩ := if_else_part_keeps (if_else_entry ctx expr if_stat) else_stat
  have hN : else_stat = .NULL →
      (if_else_part (if_else_entry ctx expr if_stat) else_stat)
        = push_instr_hres (if_else_entry ctx expr if_stat) OP_undefined := by
    intro e
    rw [e]
    rfl
  clear ecf
  generalize if_else_entry ctx expr if_stat = cf at *
  generalize if_else_part cf else_stat = Ex at *
  by_cases h6 : FAILED Ex.1 = true
  · rw [if_pos h6] at hs'
    exact absurd h6 hs'
  rw [if_neg h6]
  rw [p2] at k1 k2
  rw [r2] at m1 m2
  have low : ∀ i, i < T.2.code_off → i ≠ C.2.code_off →
      (set_arg1 Ex.2 T.2.code_off (.uint Ex.2.code_off)).instrs i = T.2.instrs i := by
    intro i hi hne
    rw [set_arg1_other _ _ (Nat.ne_of_lt hi), m2 i (by omega), r4 i,
      set_arg1_other _ _ hne]
    exact q4 i (Nat.ne_of_lt hi)
  refine ⟨h1, p2, h3, r2, h6, rfl, ?_, fun i hi => ?_, ?_, ?_, fun i h1 h2 => ?_, ?_, ?_,
    fun i hi => ?_, fun e => ?_, fun hlt => ?_⟩
  · rw [r2]
    exact m1
  · rw [low i (by omega) (Nat.ne_of_lt hi), k2 i (by omega)]
    exact p4 i (Nat.ne_of_lt hi)
  · rw [set_arg1_other _ _ (by omega), m2 _ (by omega), r4, set_arg1_same]
    show (je.2.instrs C.2.code_off).op = OP_jmp_z
    rw [q4 _ (by omega), k2 _ (by omega)]
    exact p3
  · rw [set_arg1_other _ _ (by omega), m2 _ (by omega), r4, set_arg1_same]
  · exact low i h2 (by omega)
  · rw [set_arg1_same]
    show (Ex.2.instrs T.2.code_off).op = OP_jmp
    rw [m2 _ (by omega), r4, set_arg1_other _ _ (by omega)]
    exact q3
  · rw [set_arg1_same]
    rfl
  · exact set_arg1_other _ _ hi
  · have hE := hN e
    subst hE
    obtain ⟨_, u2, u3, _, _⟩ := (push_instr_hres_ok cf OP_undefined).2 h6
    rw [r2] at u2 u3
    refine ⟨u2, ?_⟩
    rw [set_arg1_other _ _ (by omega)]
    exact u3
  · have hlt' : Ex.2.code_off < LABEL_FLAG := hlt
    exact ⟨lt_flag _ (lt_of_le_of_lt m1 hlt'), lt_flag _ hlt'⟩

/-- The statements `if(c) a;` and `if(c) a; else b;`, lowered from the empty state. -/
theorem if_statement_lowering_witness :
    (SUCCEEDED (compile_if_statement ctx_empty if_sample).1 = true ∧
      IfLayout ctx_empty (compile_if_statement ctx_empty if_sample).2 (expr_ident "c")
        (stat_ident "a") .NULL) ∧
    (SUCCEEDED (compile_if_statement ctx_empty if_else_sample).1 = true ∧
      IfLayout ctx_empty (compile_if_statement ctx_empty if_else_sample).2 (expr_ident "c")
        (stat_ident "a") (.node 1 (stat_ident "b") .NULL)) :=
  ⟨⟨by decide, (if_statement_lowering ctx_empty (expr_ident "c") (stat_ident "a") .NULL
      (by decide)).2⟩,
   ⟨by decide, (if_statement_lowering ctx_empty (expr_ident "c") (stat_ident "a")
      (.node 1 (stat_ident "b") .NULL) (by decide)).2⟩⟩


/-! ## Calls and `new` -/

theorem compile_argument_list_step (c : compiler_ctx_t) (expr : expression_t) (next : argument_t)
    (n : Nat) :
    compile_argument_list c (.mk expr next) n =
      (if FAILED (compile_expression c expr).1 = true then (compile_expression c expr, n)
       else compile_argument_list (compile_expression c expr).2 next (n + 1)) := by
  rw [compile_argument_list]
  rfl

/-- The loop over the arguments: when no argument fails, the count grows by the number of
arguments, the stream at entry is kept, and every stream that agrees with the result below its
end has the arguments laid out from left to right. -/
theorem compile_argument_list_layout :
    ∀ (args : argument_t) (c : compiler_ctx_t) (n : Nat),
      ¬ FAILED (compile_argument_list c args n).1.1 = true →
      (compile_argument_list c args n).2 = n + args.toList.length ∧
      Keeps c (compile_argument_list c args n).1.2 ∧
      ∀ final : compiler_ctx_t,
        (∀ i, i < (compile_argument_list c args n).1.2.code_off →
          final.instrs i = (compile_argument_list c args n).1.2.instrs i) →
        ArgsLayout final c.code_off args.toList (compile_argument_list c args n).1.2.code_off
  | .NULL, c, n, _ => by
    rw [compile_argument_list]
    exact ⟨rfl, ⟨le_refl _, fun _ _ => rfl⟩, fun _ _ => rfl⟩
  | .mk expr next, c, n, hs => by
    rw [compile_argument_list_step] at hs ⊢
    obtain ⟨k1, k2⟩ := compile_expression_keeps c expr
    by_cases h1 : FAILED (compile_expression c expr).1 = true
    · rw [if_pos h1] at hs
      exact absurd h1 hs
    rw [if_neg h1] at hs ⊢
    obtain ⟨r1, ⟨r2, r3⟩, r4⟩ := compile_argument_list_layout next _ (n + 1) hs
    refine ⟨?_, ⟨le_trans k1 r2, fun i hi => ?_⟩, fun final hf => ?_⟩
    · rw [r1]
      show n + 1 + next.toList.length = n + (next.toList.length + 1)
      omega
    · rw [r3 i (lt_of_lt_of_le hi k1), k2 i hi]
    · refine ⟨c, rfl, fun i hi => ?_, h1, fun i hi => ?_, r4 final hf⟩
      · rw [hf i (lt_of_lt_of_le hi (le_trans k1 r2)), r3 i (lt_of_lt_of_le hi k1), k2 i hi]
      · rw [hf i (lt_of_lt_of_le hi r2), r3 i hi]

theorem compile_call_expression_unfold (ctx : compiler_ctx_t) (expression : expression_t)
    (args : argument_t) (no_ret : Option Bool) :
    compile_call_expression ctx (.mk expression args) no_ret =
      (if FAILED (call_callee ctx expression).1 = true then
         (call_callee ctx expression, no_ret) else
       if FAILED (compile_argument_list (call_callee ctx expression).2 args 0).1.1 = true then
         ((compile_argument_list (call_callee ctx expression).2 args 0).1, no_ret) else
       if (push_instr (compile_argument_list (call_callee ctx expression).2 args 0).1.2
           (call_op expression)).1 = UINT_MAX then
         ((E_OUTOFMEMORY,
           (push_instr (compile_argument_list (call_callee ctx expression).2 args 0).1.2
             (call_op expression)).2), no_ret) else
       ((S_OK, set_arg2 (set_arg1
          (push_instr (compile_argument_list (call_callee ctx expression).2 args 0).1.2
             (call_op expression)).2
          (push_instr (compile_argument_list (call_callee ctx expression).2 args 0).1.2
             (call_op expression)).1
          (.uint (compile_argument_list (call_callee ctx expression).2 args 0).2))
          (push_instr (compile_argument_list (call_callee ctx expression).2 args 0).1.2
             (call_op expression)).1
          (.lng (if no_ret.isNone = true then 1 else 0))),
        if no_ret.isSome = true then some true else no_ret)) := by
  rw [compile_call_expression]
  rfl

theorem compile_new_expression_unfold (ctx : compiler_ctx_t) (expression : expression_t)
    (args : argument_t) :
    compile_new_expression ctx (.mk expression args) =
      (if FAILED (compile_expression ctx expression).1 = true then
         compile_expression ctx expression else
       if FAILED (compile_argument_list (compile_expression ctx expression).2 args 0).1.1 = true
         then (compile_argument_list (compile_expression ctx expression).2 args 0).1 else
       push_instr_int (compile_argument_list (compile_expression ctx expression).2 args 0).1.2
         OP_new (compile_argument_list (compile_expression ctx expression).2 args 0).2) := by
  rw [compile_new_expression]
  rfl

theorem call_callee_keeps (ctx : compiler_ctx_t) (expression : expression_t) :
    Keeps ctx (call_callee ctx expression).2 := by
  unfold call_callee
  by_cases h : is_memberid_expr expression.type = true
  · rw [if_pos h]
    exact ⟨(compile_memberid_expression_rel expression 0 (Rel.refl ctx)).off_ge,
      (compile_memberid_expression_rel expression 0 (Rel.refl ctx)).instrs_eq⟩
  · rw [if_neg h]
    exact compile_expression_keeps ctx expression

theorem call_layout (ctx : compiler_ctx_t) (expression : expression_t) (args : argument_t)
    (no_ret : Option Bool)
    (hs : ¬ FAILED (compile_call_expression ctx (.mk expression args) no_ret).1.1 = true) :
    Keeps ctx (compile_call_expression ctx (.mk expression args) no_ret).1.2 ∧
    CallLayout ctx (compile_call_expression ctx (.mk expression args) no_ret).1.2 expression
      args ∧
    ((compile_call_expression ctx (.mk expression args) no_ret).1.2.instrs
      ((compile_call_expression ctx (.mk expression args) no_ret).1.2.code_off - 1)).arg2
      = .lng (if no_ret.isNone = true then 1 else 0) ∧
    (compile_call_expression ctx (.mk expression args) no_ret).2
      = (if no_ret.isSome = true then some true else no_ret) := by
  unfold CallLayout
  rw [compile_call_expression_unfold] at hs ⊢
  obtain ⟨c1, c2⟩ := call_callee_keeps ctx expression
  generalize call_callee ctx expression = A at *
  by_cases h1 : FAILED A.1 = true
  · rw [if_pos h1] at hs
    exact absurd h1 hs
  rw [if_neg h1] at hs ⊢
  by_cases h2 : FAILED (compile_argument_list A.2 args 0).1.1 = true
  · rw [if_pos h2] at hs
    exact absurd h2 hs
  rw [if_neg h2] at hs ⊢
  obtain ⟨a1, ⟨a2, a3⟩, a4⟩ := compile_argument_list_layout args A.2 0 h2
  generalize compile_argument_list A.2 args 0 = R at *
  by_cases h3 : (push_instr R.1.2 (call_op expression)).1 = UINT_MAX
  · rw [if_pos h3] at hs
    exact absurd failed_oom hs
  rw [if_neg h3]
  obtain ⟨p1, p2, p3, p4, _⟩ := push_instr_ok R.1.2 (call_op expression) h3
  rw [p1]
  generalize push_instr R.1.2 (call_op expression) = P at *
  have hoff : (set_arg2 (set_arg1 P.2 R.1.2.code_off (.uint R.2)) R.1.2.code_off
      (.lng (if no_ret.isNone = true then 1 else 0))).code_off = R.1.2.code_off + 1 := p2
  have low : ∀ i, i < R.1.2.code_off →
      (set_arg2 (set_arg1 P.2 R.1.2.code_off (.uint R.2)) R.1.2.code_off
        (.lng (if no_ret.isNone = true then 1 else 0))).instrs i = R.1.2.instrs i := by
    intro i hi
    rw [set_arg2_other _ _ (Nat.ne_of_lt hi), set_arg1_other _ _ (Nat.ne_of_lt hi)]
    exact p4 i (Nat.ne_of_lt hi)
  refine ⟨⟨?_, fun i hi => ?_⟩, ⟨h1, fun i hi => ?_, R.1.2.code_off, a4 _ low, hoff, ?_, ?_⟩,
    ?_, rfl⟩
  · show ctx.code_off ≤ (set_arg2 _ _ _).code_off
    rw [hoff]
    exact le_trans c1 (le_trans a2 (Nat.le_succ _))
  · show (set_arg2 _ _ _).instrs i = _
    rw [low i (lt_of_lt_of_le hi (le_trans c1 a2)), a3 i (lt_of_lt_of_le hi c1), c2 i hi]
  · show (set_arg2 _ _ _).instrs i = _
    rw [low i (lt_of_lt_of_le hi a2), a3 i hi]
  · show ((set_arg2 _ _ _).instrs _).op = _
    rw [set_arg2_same, set_arg1_same]
    exact p3
  · show ((set_arg2 _ _ _).instrs _).arg1 = _
    rw [set_arg2_same, set_arg1_same, a1, Nat.zero_add]
  · show ((set_arg2 _ _ _).instrs ((set_arg2 _ _ _).code_off - 1)).arg2 = _
    rw [hoff, Nat.add_sub_cancel, set_arg2_same]

theorem new_layout (ctx : compiler_ctx_t) (expression : expression_t) (args : argument_t)
    (hs : ¬ FAILED (compile_new_expression ctx (.mk expression args)).1 = true) :
    Keeps ctx (compile_new_expression ctx (.mk expression args)).2 ∧
    NewLayout ctx (compile_new_expression ctx (.mk expression args)).2 expression args := by
  unfold NewLayout
  rw [compile_new_expression_unfold] at hs ⊢
  obtain ⟨c1, c2⟩ := compile_expression_keeps ctx expression
  generalize compile_expression ctx expression = A at *
  by_cases h1 : FAILED A.1 = true
  · rw [if_pos h1] at hs
    exact absurd h1 hs
  rw [if_neg h1] at hs ⊢
  by_cases h2 : FAILED (compile_argument_list A.2 args 0).1.1 = true
  · rw [if_pos h2] at hs
    exact absurd h2 hs
  rw [if_neg h2] at hs ⊢
  obtain ⟨a1, ⟨a2, a3⟩, a4⟩ := compile_argument_list_layout args A.2 0 h2
  generalize compile_argument_list A.2 args 0 = R at *
  obtain ⟨_, p2, p3, p4, p5⟩ := (push_instr_int_ok R.1.2 OP_new R.2).2 hs
  have low : ∀ i, i < R.1.2.code_off →
      (push_instr_int R.1.2 OP_new R.2).2.instrs i = R.1.2.instrs i :=
    fun i hi => p5 i (Nat.ne_of_lt hi)
  refine ⟨⟨?_, fun i hi => ?_⟩, h1, fun i hi => ?_, R.1.2.code_off, a4 _ low, p2, p3, ?_⟩
  · rw [p2]
    exact le_trans c1 (le_trans a2 (Nat.le_succ _))
  · rw [low i (lt_of_lt_of_le hi (le_trans c1 a2)), a3 i (lt_of_lt_of_le hi c1), c2 i hi]
  · rw [low i (lt_of_lt_of_le hi a2), a3 i hi]
  · rw [p4, a1, Nat.zero_add]

theorem is_memberid_expr_iff (e : expression_t) :
    is_memberid_expr e.type = true ↔
      (∃ x, e = .EXPR_IDENT x) ∨ (∃ x, e = .EXPR_MEMBER x) ∨ (∃ x, e = .binary .EXPR_ARRAY x) := by
  cases e with
  | binary t x =>
    cases t <;> first
      | exact ⟨fun _ => Or.inr (Or.inr ⟨x, rfl⟩), fun _ => rfl⟩
      | exact ⟨fun h => absurd (show false = true from h) (by decide), fun h => by
          rcases h with ⟨_, h⟩ | ⟨_, h⟩ | ⟨_, h⟩ <;> cases h⟩
  | unary t x =>
    cases t <;> exact ⟨fun h => absurd (show false = true from h) (by decide), fun h => by
      rcases h with ⟨_, h⟩ | ⟨_, h⟩ | ⟨_, h⟩ <;> cases h⟩
  | EXPR_IDENT x => exact ⟨fun _ => Or.inl ⟨x, rfl⟩, fun _ => rfl⟩
  | EXPR_MEMBER x => exact ⟨fun _ => Or.inr (Or.inl ⟨x, rfl⟩), fun _ => rfl⟩
  | _ =>
    exact ⟨fun h => absurd (show false = true from h) (by decide), fun h => by
      rcases h with ⟨_, h⟩ | ⟨_, h⟩ | ⟨_, h⟩ <;> cases h⟩

/-- C35: a call expression that is lowered with success (through `compile_expression`, or with
a no-value cell) keeps the stream at entry and appends the code of the callee, the code of the
arguments from left to right, and one call instruction whose first operand is the number of
arguments. When the callee is an identifier, a member access or an indexed access it is lowered
as a reference (`compile_memberid_expression`) and the instruction is `OP_call_member`;
otherwise it is lowered as a value (`compile_expression`) and the instruction is `OP_call`. A
`new` expression that is lowered with success keeps the stream at entry and appends the code of
the callee, always lowered as a value, the code of the arguments from left to right, and one
`OP_new` whose operand is the number of arguments. -/
theorem call_new_lowering (ctx : compiler_ctx_t) (expression : expression_t)
    (args : argument_t) :
    (∀ no_ret : Option Bool,
      SUCCEEDED (compile_call_expression ctx (.mk expression args) no_ret).1.1 = true →
      Keeps ctx (compile_call_expression ctx (.mk expression args) no_ret).1.2 ∧
      CallLayout ctx (compile_call_expression ctx (.mk expression args) no_ret).1.2 expression
        args) ∧
    compile_expression ctx (.EXPR_CALL (.mk expression args))
      = (compile_call_expression ctx (.mk expression args) none).1 ∧
    (((∃ x, expression = .EXPR_IDENT x) ∨ (∃ x, expression = .EXPR_MEMBER x) ∨
        (∃ x, expression = .binary .EXPR_ARRAY x)) →
      call_callee ctx expression = compile_memberid_expression ctx expression 0 ∧
      call_op expression = OP_call_member) ∧
    (¬ ((∃ x, expression = .EXPR_IDENT x) ∨ (∃ x, expression = .EXPR_MEMBER x) ∨
        (∃ x, expression = .binary .EXPR_ARRAY x)) →
      call_callee ctx expression = compile_expression ctx expression ∧
      call_op expression = OP_call) ∧
    (SUCCEEDED (compile_expression ctx (.EXPR_NEW (.mk expression args))).1 = true →
      Keeps ctx (compile_expression ctx (.EXPR_NEW (.mk expression args))).2 ∧
      NewLayout ctx (compile_expression ctx (.EXPR_NEW (.mk expression args))).2 expression
        args) := by
  have en : compile_expression ctx (.EXPR_NEW (.mk expression args))
      = compile_new_expression ctx (.mk expression args) := by
    unfold compile_expression
    rw [compile_expression_noret]
  refine ⟨fun no_ret hs => ?_, ?_, fun h => ?_, fun h => ?_, fun hs => ?_⟩
  · obtain ⟨h1, h2, _⟩ := call_layout ctx expression args no_ret (succeeded_not_failed hs)
    exact ⟨h1, h2⟩
  · unfold compile_expression
    rw [compile_expression_noret]
  · have hm := (is_memberid_expr_iff expression).2 h
    unfold call_callee call_op
    rw [if_pos hm, if_pos hm]
    exact ⟨rfl, rfl⟩
  · have hm : ¬ is_memberid_expr expression.type = true :=
      fun w => h ((is_memberid_expr_iff expression).1 w)
    unfold call_callee call_op
    rw [if_neg hm, if_neg hm]
    exact ⟨rfl, rfl⟩
  · rw [en] at hs ⊢
    exact new_layout ctx expression args (succeeded_not_failed hs)

/-- The expressions `f(1, x)`, `(1, g)(1, x)` and `new f(1, x)`, lowered from the empty
state. -/
theorem call_new_lowering_witness :
    (SUCCEEDED (compile_call_expression ctx_empty (.mk (expr_ident "f") args_sample)
        (some false)).1.1 = true ∧
      CallLayout ctx_empty (compile_call_expression ctx_empty
        (.mk (expr_ident "f") args_sample) (some false)).1.2 (expr_ident "f") args_sample ∧
      call_op (expr_ident "f") = OP_call_member) ∧
    (SUCCEEDED (compile_call_expression ctx_empty (.mk callee_value_sample args_sample)
        none).1.1 = true ∧
      CallLayout ctx_empty (compile_call_expression ctx_empty
        (.mk callee_value_sample args_sample) none).1.2 callee_value_sample args_sample ∧
      call_op callee_value_sample = OP_call) ∧
    (SUCCEEDED (compile_expression ctx_empty
        (.EXPR_NEW (.mk (expr_ident "f") args_sample))).1 = true ∧
      NewLayout ctx_empty (compile_expression ctx_empty
        (.EXPR_NEW (.mk (expr_ident "f") args_sample))).2 (expr_ident "f") args_sample) :=
  ⟨⟨by decide,
      ((call_new_lowering ctx_empty (expr_ident "f") args_sample).1 (some false) (by decide)).2,
      ((call_new_lowering ctx_empty (expr_ident "f") args_sample).2.2.1
        (Or.inl ⟨⟨"f"⟩, rfl⟩)).2⟩,
   ⟨by decide,
      ((call_new_lowering ctx_empty callee_value_sample args_sample).1 none (by decide)).2,
      ((call_new_lowering ctx_empty callee_value_sample args_sample).2.2.2.1
        (by
          intro h
          rcases h with ⟨_, h⟩ | ⟨_, h⟩ | ⟨_, h⟩ <;> cases h)).2⟩,
   ⟨by decide,
      ((call_new_lowering ctx_empty (expr_ident "f") args_sample).2.2.2.2 (by decide)).2⟩⟩


/-! ## Array literals -/

theorem push_undefined_loop_layout :
    ∀ (n : Nat) (c : compiler_ctx_t), ¬ FAILED (push_undefined_loop c n).1 = true →
      (push_undefined_loop c n).2.code_off = c.code_off + n ∧
      (∀ i, i < c.code_off → (push_undefined_loop c n).2.instrs i = c.instrs i) ∧
      ∀ k, k < n → ((push_undefined_loop c n).2.instrs (c.code_off + k)).op = OP_undefined
  | 0, c, _ => by
    rw [push_undefined_loop]
    exact ⟨rfl, fun _ _ => rfl, fun k hk => absurd hk (Nat.not_lt_zero k)⟩
  | n + 1, c, hs => by
    rw [push_undefined_loop] at hs ⊢
    try dsimp only at hs ⊢
    by_cases h1 : (push_instr c OP_undefined).1 = UINT_MAX
    · rw [if_pos h1] at hs
      exact absurd failed_oom hs
    rw [if_neg h1] at hs ⊢
    obtain ⟨_, p2, p3, p4, _⟩ := push_instr_ok c OP_undefined h1
    obtain ⟨r1, r2, r3⟩ := push_undefined_loop_layout n _ hs
    rw [p2] at r1 r2 r3
    refine ⟨by rw [r1]; omega, fun i hi => ?_, fun k hk => ?_⟩
    · rw [r2 i (Nat.lt_succ_of_lt hi)]
      exact p4 i (Nat.ne_of_lt hi)
    · cases k with
      | zero =>
        rw [Nat.add_zero, r2 _ (Nat.lt_succ_self _)]
        exact p3
      | succ k =>
        have := r3 k (Nat.lt_of_succ_lt_succ hk)
        rw [show c.code_off + (k + 1) = c.code_off + 1 + k by omega]
        exact this

theorem items_layout_holes (final : compiler_ctx_t) (rest : List (Option expression_t))
    (e : Nat) :
    ∀ (n off : Nat), (∀ k, k < n → (final.instrs (off + k)).op = OP_undefined) →
      ItemsLayout final (off + n) rest e →
      ItemsLayout final off (List.replicate n none ++ rest) e
  | 0, off, _, h => h
  | n + 1, off, hu, h => by
    show (final.instrs off).op = OP_undefined ∧
      ItemsLayout final (off + 1) (List.replicate n none ++ rest) e
    refine ⟨hu 0 (Nat.succ_pos n), items_layout_holes final rest e n (off + 1) (fun k hk => ?_)
      ?_⟩
    · rw [show off + 1 + k = off + (k + 1) by omega]
      exact hu (k + 1) (Nat.succ_lt_succ hk)
    · rw [show off + 1 + n = off + (n + 1) by omega]
      exact h

theorem compile_array_elements_step (c : compiler_ctx_t) (elision : Nat) (expr : expression_t)
    (next : array_element_t) (n : Nat) :
    compile_array_elements c (.mk elision expr next) n =
      (if FAILED (push_undefined_loop c elision).1 = true then
         (push_undefined_loop c elision, n + (elision + 1)) else
       if FAILED (compile_expression (push_undefined_loop c elision).2 expr).1 = true then
         (compile_expression (push_undefined_loop c elision).2 expr, n + (elision + 1)) else
       compile_array_elements (compile_expression (push_undefined_loop c elision).2 expr).2 next
         (n + (elision + 1))) := by
  rw [compile_array_elements]
  rfl

/-- The loop over the elements of an array literal: when nothing fails, the count grows by the
number of items of the list, the stream at entry is kept, and every stream that agrees with the
result below its end has the items of the list laid out in order, followed by what it has from
that end on. -/
theorem compile_array_elements_layout :
    ∀ (list : array_element_t) (c : compiler_ctx_t) (n : Nat),
      ¬ FAILED (compile_array_elements c list n).1.1 = true →
      (compile_array_elements c list n).2 = n + list.items.length ∧
      Keeps c (compile_array_elements c list n).1.2 ∧
      ∀ (final : compiler_ctx_t) (rest : List (Option expression_t)) (e : Nat),
        (∀ i, i < (compile_array_elements c list n).1.2.code_off →
          final.instrs i = (compile_array_elements c list n).1.2.instrs i) →
        ItemsLayout final (compile_array_elements c list n).1.2.code_off rest e →
        ItemsLayout final c.code_off (list.items ++ rest) e
  | .NULL, c, n, _ => by
    rw [compile_array_elements]
    exact ⟨rfl, ⟨le_refl _, fun _ _ => rfl⟩, fun _ _ _ _ h => h⟩
  | .mk elision expr next, c, n, hs => by
    rw [compile_array_elements_step] at hs ⊢
    by_cases h1 : FAILED (push_undefined_loop c elision).1 = true
    · rw [if_pos h1] at hs
      exact absurd h1 hs
    rw [if_neg h1] at hs ⊢
    obtain ⟨u1, u2, u3⟩ := push_undefined_loop_layout elision c h1
    obtain ⟨k1, k2⟩ := compile_expression_keeps (push_undefined_loop c elision).2 expr
    generalize push_undefined_loop c elision = U at *
    by_cases h2 : FAILED (compile_expression U.2 expr).1 = true
    · rw [if_pos h2] at hs
      exact absurd h2 hs
    rw [if_neg h2] at hs ⊢
    obtain ⟨r1, ⟨r2, r3⟩, r4⟩ := compile_array_elements_layout next _ (n + (elision + 1)) hs
    have hcu : c.code_off ≤ U.2.code_off := by rw [u1]; exact Nat.le_add_right _ _
    refine ⟨?_, ⟨le_trans hcu (le_trans k1 r2), fun i hi => ?_⟩, fun final rest e hf hl => ?_⟩
    · rw [r1]
      show _ = n + (List.replicate elision none ++ some expr :: next.items).length
      rw [List.length_append, List.length_replicate, List.length_cons]
      omega
    · rw [r3 i (lt_of_lt_of_le hi (le_trans hcu k1)), k2 i (lt_of_lt_of_le hi hcu), u2 i hi]
    · show ItemsLayout final c.code_off
        ((List.replicate elision none ++ some expr :: next.items) ++ rest) e
      rw [List.append_assoc]
      refine items_layout_holes final _ e elision c.code_off (fun k hk => ?_) ?_
      · have hlt : c.code_off + k < U.2.code_off := by rw [u1]; omega
        rw [hf _ (lt_of_lt_of_le hlt (le_trans k1 r2)), r3 _ (lt_of_lt_of_le hlt k1),
          k2 _ hlt]
        exact u3 k hk
      · rw [← u1]
        refine ⟨U.2, rfl, fun i hi => ?_, h2, fun i hi => ?_, r4 final rest e hf hl⟩
        · rw [hf i (lt_of_lt_of_le hi (le_trans k1 r2)), r3 i (lt_of_lt_of_le hi k1), k2 i hi]
        · rw [hf i (lt_of_lt_of_le hi r2), r3 i hi]

theorem compile_array_literal_unfold (ctx : compiler_ctx_t) (list : array_element_t)
    (length : Nat) :
    compile_array_literal ctx (.mk list length) =
      (if FAILED (compile_array_elements ctx list length).1.1 = true then
         (compile_array_elements ctx list length).1 else
       if FAILED (push_undefined_loop (compile_array_elements ctx list length).1.2 length).1
           = true then
         push_undefined_loop (compile_array_elements ctx list length).1.2 length else
       push_instr_uint (push_undefined_loop (compile_array_elements ctx list length).1.2
         length).2 OP_carray (compile_array_elements ctx list length).2) := by
  rw [compile_array_literal]

theorem items_length :
    ∀ list : array_element_t, list.items.length = list.element_count + list.elision_count
  | .NULL => rfl
  | .mk elision expr next => by
    show (List.replicate elision none ++ some expr :: next.items).length
      = 1 + next.element_count + (elision + next.elision_count)
    rw [List.length_append, List.length_replicate, List.length_cons, items_length next]
    omega

/-- C34: an array literal that is lowered with success keeps the stream at entry and appends
its items in source position order, one `OP_undefined` for each elision and each trailing hole
and the code of the expression for each element, and then one `OP_carray`, which ends the
stream. The operand of the `OP_carray` is the number of items: the number of element
expressions plus the total number of elisions plus the trailing length. -/
theorem array_literal_lowering (ctx : compiler_ctx_t) (list : array_element_t) (length : Nat)
    (hs : SUCCEEDED (compile_expression ctx (.EXPR_ARRAYLIT (.mk list length))).1 = true) :
    Keeps ctx (compile_expression ctx (.EXPR_ARRAYLIT (.mk list length))).2 ∧
    (array_literal_items (.mk list length)).length
      = list.element_count + list.elision_count + length ∧
    ∃ e, ItemsLayout (compile_expression ctx (.EXPR_ARRAYLIT (.mk list length))).2 ctx.code_off
        (array_literal_items (.mk list length)) e ∧
      (compile_expression ctx (.EXPR_ARRAYLIT (.mk list length))).2.code_off = e + 1 ∧
      ((compile_expression ctx (.EXPR_ARRAYLIT (.mk list length))).2.instrs e).op = OP_carray ∧
      ((compile_expression ctx (.EXPR_ARRAYLIT (.mk list length))).2.instrs e).arg1
        = .uint (list.element_count + list.elision_count + length) := by
  have hlen : (array_literal_items (.mk list length)).length
      = list.element_count + list.elision_count + length := by
    show (list.items ++ List.replicate length none).length = _
    rw [List.length_append, List.length_replicate, items_length]
  refine ⟨compile_expression_keeps _ _, hlen, ?_⟩
  have hs' := succeeded_not_failed hs
  clear hs
  have ea : compile_expression ctx (.EXPR_ARRAYLIT (.mk list length))
      = compile_array_literal ctx (.mk list length) := by
    unfold compile_expression
    rw [compile_expression_noret]
  rw [ea, compile_array_literal_unfold] at hs' ⊢
  by_cases h1 : FAILED (compile_array_elements ctx list length).1.1 = true
  · rw [if_pos h1] at hs'
    exact absurd h1 hs'
  rw [if_neg h1] at hs' ⊢
  obtain ⟨a1, ⟨a2, a3⟩, a4⟩ := compile_array_elements_layout list ctx length h1
  generalize compile_array_elements ctx list length = R at *
  by_cases h2 : FAILED (push_undefined_loop R.1.2 length).1 = true
  · rw [if_pos h2] at hs'
    exact absurd h2 hs'
  rw [if_neg h2] at hs' ⊢
  obtain ⟨u1, u2, u3⟩ := push_undefined_loop_layout length R.1.2 h2
  generalize push_undefined_loop R.1.2 length = U at *
  obtain ⟨_, p2, p3, p4, p5⟩ := (push_instr_uint_ok U.2 OP_carray R.2).2 hs'
  have hru : R.1.2.code_off ≤ U.2.code_off := by rw [u1]; exact Nat.le_add_right _ _
  refine ⟨U.2.code_off, ?_, p2, p3, ?_⟩
  · show ItemsLayout _ ctx.code_off (list.items ++ List.replicate length none) U.2.code_off
    refine a4 _ _ _ (fun i hi => ?_) ?_
    · rw [p5 i (Nat.ne_of_lt (lt_of_lt_of_le hi hru))]
      exact u2 i hi
    · have := items_layout_holes (push_instr_uint U.2 OP_carray R.2).2 [] U.2.code_off length
        R.1.2.code_off (fun k hk => ?_) (show ItemsLayout _ _ [] _ from u1)
      · rw [List.append_nil] at this
        exact this
      · rw [p5 _ (Nat.ne_of_lt (by rw [u1]; omega))]
        exact u3 k hk
  · rw [p4, a1, items_length]
    congr 1
    omega

/-- The array literal `[a, , b, , ]`, lowered from the empty state: four items and the operand
4. -/
theorem array_literal_lowering_witness :
    SUCCEEDED (compile_expression ctx_empty (.EXPR_ARRAYLIT array_sample)).1 = true ∧
    ∃ e, ItemsLayout (compile_expression ctx_empty (.EXPR_ARRAYLIT array_sample)).2
        ctx_empty.code_off (array_literal_items array_sample) e ∧
      (compile_expression ctx_empty (.EXPR_ARRAYLIT array_sample)).2.code_off = e + 1 ∧
      ((compile_expression ctx_empty (.EXPR_ARRAYLIT array_sample)).2.instrs e).op = OP_carray ∧
      ((compile_expression ctx_empty (.EXPR_ARRAYLIT array_sample)).2.instrs e).arg1
        = .uint 4 :=
  ⟨by decide, (array_literal_lowering ctx_empty
    (.mk 0 (expr_ident "a") (.mk 1 (expr_ident "b") .NULL)) 1 (by decide)).2.2⟩


/-! ## Label resolution -/

theorem resolve_label_other (c : compiler_ctx_t) (off : Nat) :
    (¬ carries_token c off → resolve_label c off = c) ∧
    (∀ i, ((resolve_label c off).instrs i).arg2 = (c.instrs i).arg2) := by
  unfold resolve_label carries_token
  split
  · next ha =>
    split
    · next v hv =>
      split
      · next hf =>
        refine ⟨fun h => absurd ⟨ha, v, hv, hf⟩ h, fun i => ?_⟩
        by_cases e : i = off
        · subst e
          rw [set_arg1_same]
        · rw [set_arg1_other _ _ e]
      · exact ⟨fun _ => rfl, fun _ => rfl⟩
    · exact ⟨fun _ => rfl, fun _ => rfl⟩
  · exact ⟨fun _ => rfl, fun _ => rfl⟩

theorem resolve_labels_loop_other :
    ∀ (n off : Nat) (c : compiler_ctx_t),
      (∀ i, ¬ (off ≤ i ∧ i < off + n ∧ carries_token c i) →
        (resolve_labels_loop c n off).instrs i = c.instrs i) ∧
      (∀ i, ((resolve_labels_loop c n off).instrs i).arg2 = (c.instrs i).arg2)
  | 0, off, c => by
    rw [resolve_labels_loop]
    exact ⟨fun _ _ => rfl, fun _ => rfl⟩
  | n + 1, off, c => by
    rw [resolve_labels_loop]
    obtain ⟨a1, a2⟩ := resolve_label_other c off
    obtain ⟨_, _, a3, _, _⟩ := resolve_label_facts c off
    obtain ⟨b1, b2⟩ := resolve_labels_loop_other n (off + 1) (resolve_label c off)
    obtain ⟨_, _, b3, _⟩ := resolve_labels_loop_facts n (off + 1) (resolve_label c off)
    refine ⟨fun i hi => ?_, fun i => (b2 i).trans (a2 i)⟩
    by_cases e : i = off
    · subst e
      rw [b3 i (Or.inl (Nat.lt_succ_self _)), a1]
      exact fun h => hi ⟨le_refl _, by omega, h⟩
    · have hc : carries_token (resolve_label c off) i ↔ carries_token c i := by
        unfold carries_token
        rw [a3 i e]
      rw [b1 i (fun h => hi ⟨by omega, by omega, hc.1 h.2.2⟩)]
      exact a3 i e

/-- C37: for every compiler state and every offset `off`, `resolve_labels(off)` replaces the
first operand of each instruction of `[off, end)` that carries a label token (the operand is
address-typed and has `LABEL_FLAG` set) by the offset the label array holds for the token,
which is the offset `label_set_addr` recorded for it; it changes no opcode, no second operand,
no other instruction (inside or outside `[off, end)`), neither the length of the stream nor the
label array; and it sets the label count to 0. -/
theorem resolve_labels_effect (c : compiler_ctx_t) (off : Nat) :
    (∀ i v, off ≤ i → i < c.code_off → instr_info_arg1_type (c.instrs i).op = ARG_ADDR →
      (c.instrs i).arg1 = .uint v → v &&& LABEL_FLAG ≠ 0 →
      ((resolve_labels c off).instrs i).arg1 = .uint (c.labels (v &&& (LABEL_FLAG - 1)))) ∧
    (∀ (s : compiler_ctx_t) (label : Nat),
      (label_set_addr s label).labels (label &&& (LABEL_FLAG - 1)) = s.code_off) ∧
    (∀ i, ((resolve_labels c off).instrs i).op = (c.instrs i).op) ∧
    (∀ i, ((resolve_labels c off).instrs i).arg2 = (c.instrs i).arg2) ∧
    (∀ i, ¬ (off ≤ i ∧ i < c.code_off ∧ carries_token c i) →
      (resolve_labels c off).instrs i = c.instrs i) ∧
    (resolve_labels c off).code_off = c.code_off ∧
    (resolve_labels c off).labels = c.labels ∧
    (resolve_labels c off).labels_cnt = 0 := by
  obtain ⟨a1, a2, a3, a4⟩ := resolve_labels_loop_facts (c.code_off - off) off c
  obtain ⟨b1, b2⟩ := resolve_labels_loop_other (c.code_off - off) off c
  refine ⟨fun i v h1 h2 h3 h4 h5 => ?_, fun s label => ?_, fun i => ?_, b2, fun i hi => ?_,
    a1, a2, rfl⟩
  · have := (a4 i h1 (by omega)).2 h3 v h4
    rw [if_pos h5] at this
    exact this
  · show Function.update _ _ _ _ = _
    rw [Function.update_same]
  · exact (resolve_labels_proj c off).2.1 i
  · exact b1 i (fun h => hi ⟨h.1, by omega, h.2.2⟩)

/-- The stream `OP_pop; OP_jmp <token of label 0>; OP_int <LABEL_FLAG>` with label 0 bound to
3: the operand of the jump is resolved to 3, the two other instructions are kept, the operand
of `OP_int`, which is not address-typed, included. -/
theorem resolve_labels_effect_witness :
    ((resolve_labels ctx_token_sample 0).instrs 1).op = OP_jmp ∧
    ((resolve_labels ctx_token_sample 0).instrs 1).arg1 = .uint 3 ∧
    (resolve_labels ctx_token_sample 0).instrs 2 = ctx_token_sample.instrs 2 ∧
    (resolve_labels ctx_token_sample 0).labels_cnt = 0 :=
  ⟨(resolve_labels_effect ctx_token_sample 0).2.2.1 1,
   (resolve_labels_effect ctx_token_sample 0).1 1 LABEL_FLAG (by decide) (by decide)
     (by decide) rfl (by decide),
   (resolve_labels_effect ctx_token_sample 0).2.2.2.2.1 2
     (fun h => absurd h.2.2.1 (by decide)),
   (resolve_labels_effect ctx_token_sample 0).2.2.2.2.2.2.2⟩


/-! ## The fallback-forbidden flag -/

theorem with_entry_rel {ctx cp : compiler_ctx_t} {sc : statement_ctx_t} {expr : expression_t} {statement : statement_t}
    (hp : with_body_entry ctx (.mk expr statement) = some (cp, sc)) :
    Rel ctx.code_off ctx.labels_cnt ctx cp := by
  have h : Rel ctx.code_off ctx.labels_cnt ctx ctx := Rel.refl ctx
  unfold with_body_entry at hp
  try dsimp only at hp
  obtain ⟨h1, hp⟩ := ite_none_some hp
  obtain ⟨h2, hp⟩ := ite_none_some hp
  obtain ⟨e1, e2⟩ := Prod.mk.inj (Option.some.inj hp)
  rw [← e1]
  repeat' (first
    | with_reducible (first
        | exact h
        | assumption
        | exact Rel.refl _
        | intro _
        | apply body_step (compile_statement_rel _)
        | apply Rel.ite
        | apply Rel.ite1
        | apply Rel.ite2
        | apply Rel.ite0
        | apply set_arg1_rel
        | apply set_arg2_rel
        | apply push_instr_idx_ge
        | apply push_instr_rel
        | apply push_instr_hres_rel
        | apply push_instr_int_rel
        | apply push_instr_uint_rel
        | apply push_instr_str_rel
        | apply push_instr_bstr_rel
        | apply push_instr_bstr_uint_rel
        | apply push_instr_uint_str_rel
        | apply push_instr_double_rel
        | apply heap_alloc_rel
        | apply compiler_alloc_string_rel
        | apply compiler_alloc_bstr_rel
        | apply compile_expression_rel
        | apply compile_expression_noret_rel
        | apply compile_memberid_expression_rel
        | apply set_eval_rel
        | apply compile_interp_fallback_rel
        | apply alloc_label_rel
        | apply label_set_addr_rel
        | apply Rel.rollback
        | apply compile_variable_list_rel
        | apply pop_to_stat_rel)
    | split)

theorem while_entry_rel {ctx cp : compiler_ctx_t} {sc : statement_ctx_t} {expr : expression_t} {statement : statement_t}
    (hp : while_body_entry ctx (.mk false expr statement) = some (cp, sc)) :
    Rel ctx.code_off ctx.labels_cnt ctx cp := by
  have h : Rel ctx.code_off ctx.labels_cnt ctx ctx := Rel.refl ctx
  unfold while_body_entry at hp
  simp only [↓reduceIte, Bool.not_true, Bool.not_false, Bool.false_eq_true, if_true, if_false] at hp
  try dsimp only at hp
  obtain ⟨h1, hp⟩ := ite_none_some hp
  obtain ⟨h2, hp⟩ := ite_none_some hp
  obtain ⟨h3, hp⟩ := ite_none_some hp
  obtain ⟨h4, hp⟩ := ite_none_some hp
  obtain ⟨h5, hp⟩ := ite_none_some hp
  obtain ⟨h6, hp⟩ := ite_none_some hp
  obtain ⟨e1, e2⟩ := Prod.mk.inj (Option.some.inj hp)
  rw [← e1]
  repeat' (first
    | with_reducible (first
        | exact h
        | assumption
        | exact Rel.refl _
        | intro _
        | apply body_step (compile_statement_rel _)
        | apply Rel.ite
        | apply Rel.ite1
        | apply Rel.ite2
        | apply Rel.ite0
        | apply set_arg1_rel
        | apply set_arg2_rel
        | apply push_instr_idx_ge
        | apply push_instr_rel
        | apply push_instr_hres_rel
        | apply push_instr_int_rel
        | apply push_instr_uint_rel
        | apply push_instr_str_rel
        | apply push_instr_bstr_rel
        | apply push_instr_bstr_uint_rel
        | apply push_instr_uint_str_rel
        | apply push_instr_double_rel
        | apply heap_alloc_rel
        | apply compiler_alloc_string_rel
        | apply compiler_alloc_bstr_rel
        | apply compile_expression_rel
        | apply compile_expression_noret_rel
        | apply compile_memberid_expression_rel
        | apply set_eval_rel
        | apply compile_interp_fallback_rel
        | apply alloc_label_rel
        | apply label_set_addr_rel
        | apply Rel.rollback
        | apply compile_variable_list_rel
        | apply pop_to_stat_rel)
    | split)

theorem do_while_entry_rel {ctx cp : compiler_ctx_t} {sc : statement_ctx_t} {expr : expression_t} {statement : statement_t}
    (hp : while_body_entry ctx (.mk true expr statement) = some (cp, sc)) :
    Rel ctx.code_off ctx.labels_cnt ctx cp := by
  have h : Rel ctx.code_off ctx.labels_cnt ctx ctx := Rel.refl ctx
  unfold while_body_entry at hp
  simp only [↓reduceIte, Bool.not_true, Bool.not_false, Bool.false_eq_true, if_true, if_false] at hp
  try dsimp only at hp
  obtain ⟨h1, hp⟩ := ite_none_some hp
  obtain ⟨h2, hp⟩ := ite_none_some hp
  obtain ⟨e1, e2⟩ := Prod.mk.inj (Option.some.inj hp)
  rw [← e1]
  repeat' (first
    | with_reducible (first
        | exact h
        | assumption
        | exact Rel.refl _
        | intro _
        | apply body_step (compile_statement_rel _)
        | apply Rel.ite
        | apply Rel.ite1
        | apply Rel.ite2
        | apply Rel.ite0
        | apply set_arg1_rel
        | apply set_arg2_rel
        | apply push_instr_idx_ge
        | apply push_instr_rel
        | apply push_instr_hres_rel
        | apply push_instr_int_rel
        | apply push_instr_uint_rel
        | apply push_instr_str_rel
        | apply push_instr_bstr_rel
        | apply push_instr_bstr_uint_rel
        | apply push_instr_uint_str_rel
        | apply push_instr_double_rel
        | apply heap_alloc_rel
        | apply compiler_alloc_string_rel
        | apply compiler_alloc_bstr_rel
        | apply compile_expression_rel
        | apply compile_expression_noret_rel
        | apply compile_memberid_expression_rel
        | apply set_eval_rel
        | apply compile_interp_fallback_rel
        | apply alloc_label_rel
        | apply label_set_addr_rel
        | apply Rel.rollback
        | apply compile_variable_list_rel
        | apply pop_to_stat_rel)
    | split)

theorem for_entry_rel {ctx cp : compiler_ctx_t} {sc : statement_ctx_t} {variable_list : variable_declaration_t} {begin_expr expr end_expr : Option expression_t} {statement : statement_t}
    (hp : for_body_entry ctx (.mk variable_list begin_expr expr end_expr statement) = some (cp, sc)) :
    Rel ctx.code_off ctx.labels_cnt ctx cp := by
  cases variable_list <;> cases begin_expr <;> cases expr
  all_goals (
    have h : Rel ctx.code_off ctx.labels_cnt ctx ctx := Rel.refl ctx
    unfold for_body_entry at hp
    try dsimp only at hp
    obtain ⟨h1, hp⟩ := ite_none_some hp
    obtain ⟨h2, hp⟩ := ite_none_some hp
    obtain ⟨h3, hp⟩ := ite_none_some hp
    obtain ⟨h4, hp⟩ := ite_none_some hp
    obtain ⟨h5, hp⟩ := ite_none_some hp
    obtain ⟨h6, hp⟩ := ite_none_some hp
    obtain ⟨e1, e2⟩ := Prod.mk.inj (Option.some.inj hp)
    rw [← e1]
    repeat' (first
      | with_reducible (first
          | exact h
          | assumption
          | exact Rel.refl _
          | intro _
          | apply body_step (compile_statement_rel _)
          | apply Rel.ite
          | apply Rel.ite1
          | apply Rel.ite2
          | apply Rel.ite0
          | apply set_arg1_rel
          | apply set_arg2_rel
          | apply push_instr_idx_ge
          | apply push_instr_rel
          | apply push_instr_hres_rel
          | apply push_instr_int_rel
          | apply push_instr_uint_rel
          | apply push_instr_str_rel
          | apply push_instr_bstr_rel
          | apply push_instr_bstr_uint_rel
          | apply push_instr_uint_str_rel
          | apply push_instr_double_rel
          | apply heap_alloc_rel
          | apply compiler_alloc_string_rel
          | apply compiler_alloc_bstr_rel
          | apply compile_expression_rel
          | apply compile_expression_noret_rel
          | apply compile_memberid_expression_rel
          | apply set_eval_rel
          | apply compile_interp_fallback_rel
          | apply alloc_label_rel
          | apply label_set_addr_rel
          | apply Rel.rollback
          | apply compile_variable_list_rel
          | apply pop_to_stat_rel)
      | split))

theorem forin_entry_rel {ctx cp : compiler_ctx_t} {sc : statement_ctx_t} {variable_ : variable_declaration_t} {expr in_expr : expression_t} {statement : statement_t}
    (hp : forin_body_entry ctx (.mk variable_ expr in_expr statement) = some (cp, sc)) :
    Rel ctx.code_off ctx.labels_cnt ctx cp := by
  cases variable_
  all_goals (
    have h : Rel ctx.code_off ctx.labels_cnt ctx ctx := Rel.refl ctx
    unfold forin_body_entry at hp
    try dsimp only at hp
    obtain ⟨h1, hp⟩ := ite_none_some hp
    obtain ⟨h2, hp⟩ := ite_none_some hp
    obtain ⟨h3, hp⟩ := ite_none_some hp
    obtain ⟨h4, hp⟩ := ite_none_some hp
    obtain ⟨h5, hp⟩ := ite_none_some hp
    obtain ⟨h6, hp⟩ := ite_none_some hp
    obtain ⟨h7, hp⟩ := ite_none_some hp
    obtain ⟨h8, hp⟩ := ite_none_some hp
    obtain ⟨h9, hp⟩ := ite_none_some hp
    obtain ⟨e1, e2⟩ := Prod.mk.inj (Option.some.inj hp)
    rw [← e1]
    repeat' (first
      | with_reducible (first
          | exact h
          | assumption
          | exact Rel.refl _
          | intro _
          | apply body_step (compile_statement_rel _)
          | apply Rel.ite
          | apply Rel.ite1
          | apply Rel.ite2
          | apply Rel.ite0
          | apply set_arg1_rel
          | apply set_arg2_rel
          | apply push_instr_idx_ge
          | apply push_instr_rel
          | apply push_instr_hres_rel
          | apply push_instr_int_rel
          | apply push_instr_uint_rel
          | apply push_instr_str_rel
          | apply push_instr_bstr_rel
          | apply push_instr_bstr_uint_rel
          | apply push_instr_uint_str_rel
          | apply push_instr_double_rel
          | apply heap_alloc_rel
          | apply compiler_alloc_string_rel
          | apply compiler_alloc_bstr_rel
          | apply compile_expression_rel
          | apply compile_expression_noret_rel
          | apply compile_memberid_expression_rel
          | apply set_eval_rel
          | apply compile_interp_fallback_rel
          | apply alloc_label_rel
          | apply label_set_addr_rel
          | apply Rel.rollback
          | apply compile_variable_list_rel
          | apply pop_to_stat_rel)
      | split))

theorem try_entry_rel {ctx cp : compiler_ctx_t} {sc : statement_ctx_t} {try_statement : statement_t} {catch_block : catch_block_t} {finally_statement : statement_list}
    (hp : try_body_entry ctx (.mk try_statement catch_block finally_statement) = some (cp, sc)) :
    Rel ctx.code_off ctx.labels_cnt ctx cp := by
  cases catch_block
  all_goals (
    have h : Rel ctx.code_off ctx.labels_cnt ctx ctx := Rel.refl ctx
    unfold try_body_entry at hp
    try dsimp only at hp
    obtain ⟨h1, hp⟩ := ite_none_some hp
    obtain ⟨h2, hp⟩ := ite_none_some hp
    obtain ⟨e1, e2⟩ := Prod.mk.inj (Option.some.inj hp)
    rw [← e1]
    repeat' (first
      | with_reducible (first
          | exact h
          | assumption
          | exact Rel.refl _
          | intro _
          | apply body_step (compile_statement_rel _)
          | apply Rel.ite
          | apply Rel.ite1
          | apply Rel.ite2
          | apply Rel.ite0
          | apply set_arg1_rel
          | apply set_arg2_rel
          | apply push_instr_idx_ge
          | apply push_instr_rel
          | apply push_instr_hres_rel
          | apply push_instr_int_rel
          | apply push_instr_uint_rel
          | apply push_instr_str_rel
          | apply push_instr_bstr_rel
          | apply push_instr_bstr_uint_rel
          | apply push_instr_uint_str_rel
          | apply push_instr_double_rel
          | apply heap_alloc_rel
          | apply compiler_alloc_string_rel
          | apply compiler_alloc_bstr_rel
          | apply compile_expression_rel
          | apply compile_expression_noret_rel
          | apply compile_memberid_expression_rel
          | apply set_eval_rel
          | apply compile_interp_fallback_rel
          | apply alloc_label_rel
          | apply label_set_addr_rel
          | apply Rel.rollback
          | apply compile_variable_list_rel
          | apply pop_to_stat_rel)
      | split))

theorem catch_entry_rel {ctx cp : compiler_ctx_t} {sc : statement_ctx_t} {try_statement cstat : statement_t} {identifier : String} {finally_statement : statement_list}
    (hp : catch_body_entry ctx (.mk try_statement (.mk identifier cstat) finally_statement) = some (cp, sc)) :
    Rel ctx.code_off ctx.labels_cnt ctx cp := by
  have h : Rel ctx.code_off ctx.labels_cnt ctx ctx := Rel.refl ctx
  unfold catch_body_entry at hp
  try dsimp only at hp
  obtain ⟨h1, hp⟩ := ite_none_some hp
  obtain ⟨h2, hp⟩ := ite_none_some hp
  obtain ⟨h3, hp⟩ := ite_none_some hp
  obtain ⟨h4, hp⟩ := ite_none_some hp
  obtain ⟨h5, hp⟩ := ite_none_some hp
  obtain ⟨h6, hp⟩ := ite_none_some hp
  obtain ⟨e1, e2⟩ := Prod.mk.inj (Option.some.inj hp)
  rw [← e1]
  repeat' (first
    | with_reducible (first
        | exact h
        | assumption
        | exact Rel.refl _
        | intro _
        | apply body_step (compile_statement_rel _)
        | apply Rel.ite
        | apply Rel.ite1
        | apply Rel.ite2
        | apply Rel.ite0
        | apply set_arg1_rel
        | apply set_arg2_rel
        | apply push_instr_idx_ge
        | apply push_instr_rel
        | apply push_instr_hres_rel
        | apply push_instr_int_rel
        | apply push_instr_uint_rel
        | apply push_instr_str_rel
        | apply push_instr_bstr_rel
        | apply push_instr_bstr_uint_rel
        | apply push_instr_uint_str_rel
        | apply push_instr_double_rel
        | apply heap_alloc_rel
        | apply compiler_alloc_string_rel
        | apply compiler_alloc_bstr_rel
        | apply compile_expression_rel
        | apply compile_expression_noret_rel
        | apply compile_memberid_expression_rel
        | apply set_eval_rel
        | apply compile_interp_fallback_rel
        | apply alloc_label_rel
        | apply label_set_addr_rel
        | apply Rel.rollback
        | apply compile_variable_list_rel
        | apply pop_to_stat_rel)
    | split)

theorem finally_entry_rel {ctx cp : compiler_ctx_t} {sc : Option statement_ctx_t} {try_statement fstat : statement_t} {catch_block : catch_block_t} {addr : Nat} {fnext : statement_list}
    (hp : finally_body_entry ctx (.mk try_statement catch_block (.node addr fstat fnext)) = some (cp, sc)) :
    Rel ctx.code_off ctx.labels_cnt ctx cp := by
  cases catch_block
  all_goals (
    have h : Rel ctx.code_off ctx.labels_cnt ctx ctx := Rel.refl ctx
    unfold finally_body_entry at hp
    try dsimp only at hp
    obtain ⟨h1, hp⟩ := ite_none_some hp
    obtain ⟨h2, hp⟩ := ite_none_some hp
    obtain ⟨h3, hp⟩ := ite_none_some hp
    obtain ⟨h4, hp⟩ := ite_none_some hp
    obtain ⟨h5, hp⟩ := ite_none_some hp
    obtain ⟨h6, hp⟩ := ite_none_some hp
    obtain ⟨h7, hp⟩ := ite_none_some hp
    obtain ⟨e1, e2⟩ := Prod.mk.inj (Option.some.inj hp)
    rw [← e1]
    repeat' (first
      | with_reducible (first
          | exact h
          | assumption
          | exact Rel.refl _
          | intro _
          | apply body_step (compile_statement_rel _)
          | apply Rel.ite
          | apply Rel.ite1
          | apply Rel.ite2
          | apply Rel.ite0
          | apply set_arg1_rel
          | apply set_arg2_rel
          | apply push_instr_idx_ge
          | apply push_instr_rel
          | apply push_instr_hres_rel
          | apply push_instr_int_rel
          | apply push_instr_uint_rel
          | apply push_instr_str_rel
          | apply push_instr_bstr_rel
          | apply push_instr_bstr_uint_rel
          | apply push_instr_uint_str_rel
          | apply push_instr_double_rel
          | apply heap_alloc_rel
          | apply compiler_alloc_string_rel
          | apply compiler_alloc_bstr_rel
          | apply compile_expression_rel
          | apply compile_expression_noret_rel
          | apply compile_memberid_expression_rel
          | apply set_eval_rel
          | apply compile_interp_fallback_rel
          | apply alloc_label_rel
          | apply label_set_addr_rel
          | apply Rel.rollback
          | apply compile_variable_list_rel
          | apply pop_to_stat_rel)
      | split))


theorem switch_entry_rel {ctx cp : compiler_ctx_t} {sc : statement_ctx_t}
    {case_jmps : Nat → Nat} {default_jmp : Nat} {hres : HRESULT} {expr : expression_t}
    {case_list : case_clausule_t}
    (hp : switch_bodies_entry ctx (.mk expr case_list)
      = some (cp, sc, case_jmps, default_jmp, hres)) :
    Rel ctx.code_off ctx.labels_cnt ctx cp ∧
    (∀ j, j < 0 + case_count case_list → ctx.code_off ≤ case_jmps j) ∧
    ctx.code_off ≤ default_jmp := by
  have h : Rel ctx.code_off ctx.labels_cnt ctx ctx := Rel.refl ctx
  unfold switch_bodies_entry at hp
  dsimp only at hp
  obtain ⟨h1, hp⟩ := ite_none_some hp
  obtain ⟨h2, hp⟩ := ite_none_some hp
  obtain ⟨h3, hp⟩ := ite_none_some hp
  obtain ⟨h4, hp⟩ := ite_none_some hp
  have e := Option.some.inj hp
  have e1 := congrArg Prod.fst e
  have e3 := congrArg (fun x => x.2.2.1) e
  have e4 := congrArg (fun x => x.2.2.2.1) e
  dsimp only at e1 e3 e4
  have r1 : Rel ctx.code_off ctx.labels_cnt ctx (compile_expression ctx expr).2 :=
    compile_expression_rel _ h
  have r3 := heap_alloc_rel (alloc_label_rel r1)
  have hc := compile_case_exprs_rel case_list
    ⟨(compile_expression ctx expr).1,
     (heap_alloc (alloc_label (compile_expression ctx expr).2).2).2, fun _ => 0, 0, false⟩ r3
    (fun j hj => absurd hj (Nat.not_lt_zero _))
  have hidx := switch_jmp_idx _ hc.1 h4
  rw [e4] at hidx
  refine ⟨?_, fun j hjj => ?_, hidx.2⟩
  · rw [← e1]
    exact switch_jmp_rel _ hc.1
  · rw [← e3]
    exact hc.2 hidx.1 j hjj

theorem fallback_flag {ctx c1 : compiler_ctx_t} {r : HRESULT × compiler_ctx_t}
    {stat : statement_t} {ev : statement_eval_t} (hr : Rel ctx.code_off ctx.labels_cnt ctx c1)
    (e : r = compile_interp_fallback (set_eval (set_code_off c1 ctx.code_off) stat ev) stat) :
    ∃ F : compiler_ctx_t, F.no_fallback = ctx.no_fallback ∧ F.code_off = ctx.code_off ∧
      r = compile_interp_fallback F stat :=
  ⟨set_eval (set_code_off c1 ctx.code_off) stat ev, hr.no_fallback_eq, rfl, e⟩

/-- C38: the flag `ctx->no_fallback`. (1) For every statement, frame and state, whatever the
outcome, the flag has the same value when `compile_statement` returns as when it was called. (2)
Each routine that lowers a body (the body of a `with`, `while`, `do`, `for` or `for-in`
statement, the try, catch and finally blocks, the clauses of a `switch` statement) reaches the
body in a state `cp` in which the flag still has the value of the entry; it lowers the body in
`set_no_fallback cp true`, where the flag is TRUE; and when the body signals `E_NOTIMPL` the
routine returns what `compile_interp_fallback` returns in a state in which the flag has the
value of the entry again (and the stream is rewound to the entry offset). (3) The branches of
an `if` statement, which is no such body, are lowered in states in which the flag has the value
of the entry. -/
theorem no_fallback_discipline (ctx : compiler_ctx_t) :
    (∀ (stat : statement_t) (sc : Option statement_ctx_t),
      (compile_statement ctx sc stat).2.no_fallback = ctx.no_fallback) ∧
    (∀ (cp : compiler_ctx_t) (sc : statement_ctx_t) (expr : expression_t)
        (statement : statement_t),
      with_body_entry ctx (.mk expr statement) = some (cp, sc) →
      cp.no_fallback = ctx.no_fallback ∧ (set_no_fallback cp true).no_fallback = true ∧
      ((compile_statement (set_no_fallback cp true) (some sc) statement).1 = E_NOTIMPL →
        ∃ F : compiler_ctx_t, F.no_fallback = ctx.no_fallback ∧ F.code_off = ctx.code_off ∧
          compile_with_statement ctx (.mk expr statement)
            = compile_interp_fallback F (.STAT_WITH (.mk expr statement)))) ∧
    (∀ (cp : compiler_ctx_t) (sc : statement_ctx_t) (do_while : Bool) (expr : expression_t)
        (statement : statement_t),
      while_body_entry ctx (.mk do_while expr statement) = some (cp, sc) →
      cp.no_fallback = ctx.no_fallback ∧ (set_no_fallback cp true).no_fallback = true ∧
      ((compile_statement (set_no_fallback cp true) (some sc) statement).1 = E_NOTIMPL →
        ∃ F : compiler_ctx_t, F.no_fallback = ctx.no_fallback ∧ F.code_off = ctx.code_off ∧
          compile_while_statement ctx (.mk do_while expr statement)
            = compile_interp_fallback F (.STAT_WHILE (.mk do_while expr statement)))) ∧
    (∀ (cp : compiler_ctx_t) (sc : statement_ctx_t) (variable_list : variable_declaration_t)
        (begin_expr cond end_expr : Option expression_t) (statement : statement_t),
      for_body_entry ctx (.mk variable_list begin_expr cond end_expr statement) = some (cp, sc) →
      cp.no_fallback = ctx.no_fallback ∧ (set_no_fallback cp true).no_fallback = true ∧
      ((compile_statement (set_no_fallback cp true) (some sc) statement).1 = E_NOTIMPL →
        ∃ F : compiler_ctx_t, F.no_fallback = ctx.no_fallback ∧ F.code_off = ctx.code_off ∧
          compile_for_statement ctx (.mk variable_list begin_expr cond end_expr statement)
            = compile_interp_fallback F
                (.STAT_FOR (.mk variable_list begin_expr cond end_expr statement)))) ∧
    (∀ (cp : compiler_ctx_t) (sc : statement_ctx_t) (variable_ : variable_declaration_t)
        (expr in_expr : expression_t) (statement : statement_t),
      forin_body_entry ctx (.mk variable_ expr in_expr statement) = some (cp, sc) →
      cp.no_fallback = ctx.no_fallback ∧ (set_no_fallback cp true).no_fallback = true ∧
      ((compile_statement (set_no_fallback cp true) (some sc) statement).1 = E_NOTIMPL →
        ∃ F : compiler_ctx_t, F.no_fallback = ctx.no_fallback ∧ F.code_off = ctx.code_off ∧
          compile_forin_statement ctx (.mk variable_ expr in_expr statement)
            = compile_interp_fallback F
                (.STAT_FORIN (.mk variable_ expr in_expr statement)))) ∧
    (∀ (cp : compiler_ctx_t) (sc : statement_ctx_t) (try_statement : statement_t)
        (catch_block : catch_block_t) (finally_statement : statement_list),
      try_body_entry ctx (.mk try_statement catch_block finally_statement) = some (cp, sc) →
      cp.no_fallback = ctx.no_fallback ∧ (set_no_fallback cp true).no_fallback = true ∧
      ((compile_statement (set_no_fallback cp true) (some sc) try_statement).1 = E_NOTIMPL →
        ∃ F : compiler_ctx_t, F.no_fallback = ctx.no_fallback ∧ F.code_off = ctx.code_off ∧
          compile_try_statement ctx (.mk try_statement catch_block finally_statement)
            = compile_interp_fallback F
                (.STAT_TRY (.mk try_statement catch_block finally_statement)))) ∧
    (∀ (cp : compiler_ctx_t) (sc : statement_ctx_t) (try_statement statement : statement_t)
        (identifier : String) (finally_statement : statement_list),
      catch_body_entry ctx (.mk try_statement (.mk identifier statement) finally_statement)
        = some (cp, sc) →
      cp.no_fallback = ctx.no_fallback ∧ (set_no_fallback cp true).no_fallback = true ∧
      ((compile_statement (set_no_fallback cp true) (some sc) statement).1 = E_NOTIMPL →
        ∃ F : compiler_ctx_t, F.no_fallback = ctx.no_fallback ∧ F.code_off = ctx.code_off ∧
          compile_try_statement ctx
              (.mk try_statement (.mk identifier statement) finally_statement)
            = compile_interp_fallback F
                (.STAT_TRY (.mk try_statement (.mk identifier statement) finally_statement)))) ∧
    (∀ (cp : compiler_ctx_t) (try_statement statement : statement_t)
        (catch_block : catch_block_t) (addr : Nat) (next : statement_list)
        (fsc : Option statement_ctx_t),
      finally_body_entry ctx (.mk try_statement catch_block (.node addr statement next))
        = some (cp, fsc) →
      cp.no_fallback = ctx.no_fallback ∧ (set_no_fallback cp true).no_fallback = true ∧
      ((compile_statement (set_no_fallback cp true) fsc statement).1 = E_NOTIMPL →
        ∃ F : compiler_ctx_t, F.no_fallback = ctx.no_fallback ∧ F.code_off = ctx.code_off ∧
          compile_try_statement ctx (.mk try_statement catch_block (.node addr statement next))
            = compile_interp_fallback F
                (.STAT_TRY (.mk try_statement catch_block (.node addr statement next))))) ∧
    (∀ (cp : compiler_ctx_t) (sc : statement_ctx_t) (expr : expression_t)
        (case_list : case_clausule_t) (case_jmps : Nat → Nat) (default_jmp : Nat)
        (hres : HRESULT),
      switch_bodies_entry ctx (.mk expr case_list)
        = some (cp, sc, case_jmps, default_jmp, hres) →
      cp.no_fallback = ctx.no_fallback ∧
      (compile_case_bodies cp sc ctx.code_off (.STAT_SWITCH (.mk expr case_list)) case_jmps
        default_jmp 0 hres case_list).ctx.no_fallback = ctx.no_fallback ∧
      ((compile_case_bodies cp sc ctx.code_off (.STAT_SWITCH (.mk expr case_list)) case_jmps
          default_jmp 0 hres case_list).returned = true →
        ∃ F : compiler_ctx_t, F.no_fallback = ctx.no_fallback ∧ F.code_off = ctx.code_off ∧
          compile_switch_statement ctx (.mk expr case_list)
            = compile_interp_fallback F (.STAT_SWITCH (.mk expr case_list)))) ∧
    (∀ (s : compiler_ctx_t) (sc : statement_ctx_t) (off_backup : Nat) (stat : statement_t)
        (next : case_clausule_t) (hres : HRESULT) (addr : Nat) (stat_iter : statement_t)
        (stat_next : statement_list),
      (next.is_null || !(next.stat.ptr_eq (.node addr stat_iter stat_next))) = true →
      (compile_statement (set_no_fallback s true) (some sc) stat_iter).1 = E_NOTIMPL →
      ∃ F : compiler_ctx_t, F.no_fallback = s.no_fallback ∧ F.code_off = off_backup ∧
        compile_case_statements s sc off_backup stat next hres (.node addr stat_iter stat_next)
          = ((compile_interp_fallback F stat).1, (compile_interp_fallback F stat).2, true)) ∧
    (∀ (expr : expression_t) (if_stat : statement_t),
      (if_then_entry ctx expr).no_fallback = ctx.no_fallback ∧
      (if_else_entry ctx expr if_stat).no_fallback = ctx.no_fallback) := by
  refine ⟨fun stat sc => (compile_statement_rel stat sc (Rel.refl ctx)).no_fallback_eq,
    fun cp sc expr statement hp => ⟨(with_entry_rel hp).no_fallback_eq, rfl, fun hb => ?_⟩,
    fun cp sc do_while expr statement hp => ?_,
    fun cp sc variable_list begin_expr cond end_expr statement hp =>
      ⟨(for_entry_rel hp).no_fallback_eq, rfl, fun hb => ?_⟩,
    fun cp sc variable_ expr in_expr statement hp =>
      ⟨(forin_entry_rel hp).no_fallback_eq, rfl, fun hb => ?_⟩,
    fun cp sc try_statement catch_block finally_statement hp =>
      ⟨(try_entry_rel hp).no_fallback_eq, rfl, fun hb => ?_⟩,
    fun cp sc try_statement statement identifier finally_statement hp =>
      ⟨(catch_entry_rel hp).no_fallback_eq, rfl, fun hb => ?_⟩,
    fun cp try_statement statement catch_block addr next fsc hp =>
      ⟨(finally_entry_rel hp).no_fallback_eq, rfl, fun hb => ?_⟩,
    fun cp sc expr case_list case_jmps default_jmp hres hp =>
      ⟨(switch_entry_rel hp).1.no_fallback_eq, ?_, fun hb => ?_⟩,
    fun s sc off_backup stat next hres addr stat_iter stat_next hl hb => ?_,
    fun expr if_stat => ⟨?_, ?_⟩⟩
  · obtain ⟨c1, hr, _, e⟩ := with_fallback_facts hp hb
    exact fallback_flag hr e
  · cases do_while
    · refine ⟨(while_entry_rel hp).no_fallback_eq, rfl, fun hb => ?_⟩
      obtain ⟨c1, hr, _, e⟩ := while_fallback_facts hp hb
      exact fallback_flag hr e
    · refine ⟨(do_while_entry_rel hp).no_fallback_eq, rfl, fun hb => ?_⟩
      obtain ⟨c1, hr, _, e⟩ := do_while_fallback_facts hp hb
      exact fallback_flag hr e
  · obtain ⟨c1, hr, _, e⟩ := for_fallback_facts hp hb
    exact fallback_flag hr e
  · obtain ⟨c1, hr, _, e⟩ := forin_fallback_facts hp hb
    exact fallback_flag hr e
  · obtain ⟨c1, hr, _, e⟩ := try_fallback_facts hp hb
    exact fallback_flag hr e
  · obtain ⟨c1, hr, _, e⟩ := catch_fallback_facts hp hb
    exact fallback_flag hr e
  · obtain ⟨c1, hr, _, e⟩ := finally_fallback_facts hp hb
    exact fallback_flag hr e
  · obtain ⟨r, hj, hd⟩ := switch_entry_rel hp
    exact (compile_case_bodies_rel case_list sc _ case_jmps default_jmp 0 hres hj hd r
      (Or.inr ⟨rfl, rfl⟩)).no_fallback_eq
  · obtain ⟨c1, hr, _, e⟩ := switch_fallback_facts hp hb
    exact fallback_flag hr e
  · refine ⟨set_eval (set_code_off (set_no_fallback
      (compile_statement (set_no_fallback s true) (some sc) stat_iter).2 s.no_fallback)
      off_backup) stat .switch_statement_eval, rfl, rfl, ?_⟩
    rw [compile_case_statements_unfold]
    simp only [hl, hb, ↓reduceIte, Bool.not_true, Bool.false_eq_true, if_true, if_false]
  · exact (push_instr_rel OP_jmp_z (compile_expression_rel expr (Rel.refl ctx))).no_fallback_eq
  · show (push_instr (compile_statement (if_then_entry ctx expr) none if_stat).2
      OP_jmp).2.no_fallback = _
    exact (push_instr_rel OP_jmp (compile_statement_rel if_stat none
      (push_instr_rel OP_jmp_z (compile_expression_rel expr (Rel.refl ctx))))).no_fallback_eq

/-- The `while` loop `while(c) return;` entered with fallback permitted: the body is reached
with the flag still FALSE, it signals `E_NOTIMPL`, and the routine calls the fallback in a state
in which the flag is FALSE again, from which it returns with the flag FALSE. -/
theorem no_fallback_discipline_witness :
    (compile_statement ctx_empty none (.STAT_WHILE while_return_sample)).2.no_fallback = false ∧
    ∃ cp sc, while_body_entry ctx_empty while_return_sample = some (cp, sc) ∧
      cp.no_fallback = false ∧
      (compile_statement (set_no_fallback cp true) (some sc) stat_return_sample).1 = E_NOTIMPL ∧
      ∃ F : compiler_ctx_t, F.no_fallback = false ∧ F.code_off = 0 ∧
        compile_while_statement ctx_empty while_return_sample
          = compile_interp_fallback F (.STAT_WHILE while_return_sample) :=
  ⟨(no_fallback_discipline ctx_empty).1 _ _,
   _, _, rfl,
   ((no_fallback_discipline ctx_empty).2.2.1 _ _ false (.EXPR_IDENT ⟨"c"⟩) stat_return_sample
     rfl).1,
   by decide,
   ((no_fallback_discipline ctx_empty).2.2.1 _ _ false (.EXPR_IDENT ⟨"c"⟩) stat_return_sample
     rfl).2.2 (by decide)⟩


/-! ## The patches of a switch statement -/

/-- A step from `c` to `c1` that leaves the stream of `c` alone and appends instructions that are
in order. -/
theorem ops_step {E : Nat → Prop} {lo : Nat} {c c1 : compiler_ctx_t} (h : ExprOps E lo c)
    (hr : Rel c.code_off c.labels_cnt c c1)
    (hc : ∀ i, c.code_off ≤ i → i < c1.code_off →
      ((c1.instrs i).op = OP_call ∨ (c1.instrs i).op = OP_call_member) →
      (c1.instrs i).arg2 = .lng 1)
    (ha : ∀ i, c.code_off ≤ i → i < c1.code_off → ¬ E i →
      instr_info_arg1_type (c1.instrs i).op = ARG_ADDR →
      ∃ v, (c1.instrs i).arg1 = .uint v ∧ lo ≤ v ∧ v ≤ c1.code_off) : ExprOps E lo c1 := by
  refine ⟨fun i hlo hi => ?_, fun i hlo hi hE => ?_, le_trans h.lo_le hr.off_ge⟩
  · by_cases hlt : i < c.code_off
    · rw [hr.instrs_eq i hlt]
      exact h.calls i hlo hlt
    · exact hc i (Nat.le_of_not_lt hlt) hi
  · by_cases hlt : i < c.code_off
    · rw [hr.instrs_eq i hlt]
      intro ht
      obtain ⟨v, e, v1, v2⟩ := h.addrs i hlo hlt hE ht
      exact ⟨v, e, v1, le_trans v2 hr.off_ge⟩
    · exact ha i (Nat.le_of_not_lt hlt) hi hE

/-- A step that appends nothing. -/
theorem ops_step_same {E : Nat → Prop} {lo : Nat} {c c1 : compiler_ctx_t} (h : ExprOps E lo c)
    (hr : Rel c.code_off c.labels_cnt c c1) (ho : c1.code_off ≤ c.code_off) : ExprOps E lo c1 :=
  ops_step h hr
    (fun i h1 h2 => absurd (lt_of_lt_of_le h2 ho) (Nat.not_lt.2 h1))
    (fun i h1 h2 => absurd (lt_of_lt_of_le h2 ho) (Nat.not_lt.2 h1))

theorem ops_mono_e {E E1 : Nat → Prop} {lo : Nat} {c : compiler_ctx_t} (h : ExprOps E lo c)
    (hE : ∀ i, E i → E1 i) : ExprOps E1 lo c :=
  ⟨h.calls, fun i hlo hi hE1 => h.addrs i hlo hi (fun he => hE1 (hE i he)), h.lo_le⟩

theorem ops_of_opss {E : Nat → Prop} {lo : Nat} {r : HRESULT × compiler_ctx_t}
    (h : ExprOpsS E lo r) (hs : ¬ FAILED r.1 = true) : ExprOps E lo r.2 := h hs

theorem heap_alloc_ops {E : Nat → Prop} {lo : Nat} {c : compiler_ctx_t} (h : ExprOps E lo c) :
    ExprOps E lo (heap_alloc c).2 :=
  ops_step_same h (heap_alloc_rel (Rel.refl c)) (le_of_eq (heap_alloc_proj c).2.2.2.2.1)

theorem compiler_alloc_string_ops {E : Nat → Prop} {lo : Nat} {c : compiler_ctx_t}
    (str : String) (h : ExprOps E lo c) : ExprOps E lo (compiler_alloc_string c str).2 :=
  ops_step_same h (compiler_alloc_string_rel str (Rel.refl c))
    (le_of_eq (compiler_alloc_string_proj c str).2.1)

theorem compiler_alloc_bstr_ops {E : Nat → Prop} {lo : Nat} {c : compiler_ctx_t}
    (str : String) (h : ExprOps E lo c) : ExprOps E lo (compiler_alloc_bstr c str).2 :=
  ops_step_same h (compiler_alloc_bstr_rel str (Rel.refl c))
    (le_of_eq (compiler_alloc_bstr_proj c str).2.1)

/-- An instruction that is no call and whose first operand is not an address. -/
theorem ops_push {E : Nat → Prop} {lo : Nat} {c : compiler_ctx_t} {op : jsop_t}
    (h : ExprOps E lo c)
    (hop : instr_info_arg1_type op ≠ ARG_ADDR ∧ op ≠ OP_call ∧ op ≠ OP_call_member) :
    ExprOps E lo (push_instr c op).2 :=
  ops_step h (push_instr_rel op (Rel.refl c))
    (fun i h1 h2 hc => by
      rw [(push_instr_new c op i h1 h2).2] at hc
      exact hc.elim (fun e => absurd e hop.2.1) (fun e => absurd e hop.2.2))
    (fun i h1 h2 _ ha => absurd ((push_instr_new c op i h1 h2).2 ▸ ha) hop.1)

theorem push_instr_hres_ops {E : Nat → Prop} {lo : Nat} {c : compiler_ctx_t} {op : jsop_t}
    (h : ExprOps E lo c)
    (hop : instr_info_arg1_type op ≠ ARG_ADDR ∧ op ≠ OP_call ∧ op ≠ OP_call_member) :
    ExprOpsS E lo (push_instr_hres c op) :=
  fun _ => ops_push h hop

/-- A jump that is still to be patched. -/
theorem ops_push_exempt {E : Nat → Prop} {lo : Nat} {c : compiler_ctx_t} {op : jsop_t}
    (h : ExprOps E lo c) (hE : E (push_instr c op).1)
    (hop : op ≠ OP_call ∧ op ≠ OP_call_member) : ExprOps E lo (push_instr c op).2 :=
  ops_step h (push_instr_rel op (Rel.refl c))
    (fun i h1 h2 hc => by
      rw [(push_instr_new c op i h1 h2).2] at hc
      exact hc.elim (fun e => absurd e hop.1) (fun e => absurd e hop.2))
    (fun i h1 h2 hn => absurd ((push_instr_new c op i h1 h2).1 ▸ hE) hn)

/-- Patching the jump at `p` with the offset that the stream has reached. -/
theorem ops_patch {E : Nat → Prop} {lo : Nat} {c : compiler_ctx_t} {p v : Nat}
    (h : ExprOps (fun i => i = p ∨ E i) lo c) (hv : v ≤ c.code_off) (hv1 : c.code_off ≤ v) :
    ExprOps E lo (set_arg1 c p (.uint v)) := by
  refine ⟨fun i hlo hi => ?_, fun i hlo hi hE => ?_, h.lo_le⟩
  · by_cases hp : i = p
    · subst hp
      rw [set_arg1_same]
      exact h.calls i hlo hi
    · rw [set_arg1_other _ _ hp]
      exact h.calls i hlo hi
  · by_cases hp : i = p
    · subst hp
      intro _
      exact ⟨v, by rw [set_arg1_same], le_trans h.lo_le hv1, hv⟩
    · rw [set_arg1_other _ _ hp]
      exact h.addrs i hlo hi (fun he => he.elim hp hE)

/-- An instruction that is appended with its first operand. -/
theorem ops_push_arg_na {E : Nat → Prop} {lo : Nat} {c : compiler_ctx_t} {op : jsop_t}
    {v : instr_arg_t} (h : ExprOps E lo c)
    (hop : instr_info_arg1_type op ≠ ARG_ADDR ∧ op ≠ OP_call ∧ op ≠ OP_call_member)
    (hne : ¬ (push_instr c op).1 = UINT_MAX) :
    ExprOps E lo (set_arg1 (push_instr c op).2 (push_instr c op).1 v) := by
  obtain ⟨p1, p2, p3, _, _⟩ := push_instr_ok c op hne
  have hi : ∀ i, c.code_off ≤ i →
      i < (set_arg1 (push_instr c op).2 (push_instr c op).1 v).code_off → i = c.code_off := by
    intro i h1 h2
    have : i < c.code_off + 1 := p2 ▸ h2
    exact Nat.le_antisymm (Nat.le_of_lt_succ this) h1
  refine ops_step h (set_arg1_rel v (push_instr_rel op (Rel.refl c))
    (push_instr_idx_ge (Rel.refl c) hne)) (fun i h1 h2 hc => ?_) (fun i h1 h2 _ ha => ?_)
  · have e := hi i h1 h2
    subst e
    rw [p1, set_arg1_same] at hc
    exact hc.elim (fun e => absurd (p3 ▸ e) hop.2.1) (fun e => absurd (p3 ▸ e) hop.2.2)
  · have e := hi i h1 h2
    subst e
    rw [p1, set_arg1_same] at ha
    exact absurd (p3 ▸ ha) hop.1

/-- An instruction that is appended with both operands; a call instruction with the second
operand 1. -/
theorem ops_push_args {E : Nat → Prop} {lo : Nat} {c : compiler_ctx_t} {op : jsop_t}
    {v w : instr_arg_t} (h : ExprOps E lo c) (hop : instr_info_arg1_type op ≠ ARG_ADDR)
    (hw : (op = OP_call ∨ op = OP_call_member) → w = .lng 1)
    (hne : ¬ (push_instr c op).1 = UINT_MAX) :
    ExprOps E lo
      (set_arg2 (set_arg1 (push_instr c op).2 (push_instr c op).1 v) (push_instr c op).1 w) := by
  obtain ⟨p1, p2, p3, p4, _⟩ := push_instr_ok c op hne
  have hr : Rel c.code_off c.labels_cnt c
      (set_arg2 (set_arg1 (push_instr c op).2 (push_instr c op).1 v) (push_instr c op).1 w) :=
    set_arg2_rel w (set_arg1_rel v (push_instr_rel op (Rel.refl c))
      (push_instr_idx_ge (Rel.refl c) hne)) (push_instr_idx_ge (Rel.refl c) hne)
  have hi : ∀ i, c.code_off ≤ i →
      i < (set_arg2 (set_arg1 (push_instr c op).2 (push_instr c op).1 v)
        (push_instr c op).1 w).code_off → i = c.code_off := by
    intro i h1 h2
    have : i < c.code_off + 1 := p2 ▸ h2
    exact Nat.le_antisymm (Nat.le_of_lt_succ this) h1
  refine ops_step h hr (fun i h1 h2 hc => ?_) (fun i h1 h2 _ ha => ?_)
  · have e := hi i h1 h2
    subst e
    rw [p1, set_arg2_same] at hc ⊢
    rw [set_arg1_same] at hc
    exact hw (hc.imp (fun e => p3 ▸ e) (fun e => p3 ▸ e))
  · have e := hi i h1 h2
    subst e
    rw [p1, set_arg2_same, set_arg1_same] at ha
    exact absurd (p3 ▸ ha) hop

/-! ## Calls and address operands: results -/

theorem opss_ite_failed_self {E : Nat → Prop} {lo : Nat} {x r : HRESULT × compiler_ctx_t}
    (h : ¬ FAILED x.1 = true → ExprOpsS E lo r) :
    ExprOpsS E lo (if FAILED x.1 = true then x else r) := by
  split
  · next hf => exact fun hs => absurd hf hs
  · next hf => exact h hf

theorem opss_ite_failed {E : Nat → Prop} {lo : Nat} {x : HRESULT} {c : compiler_ctx_t}
    {r : HRESULT × compiler_ctx_t} (h : ¬ FAILED x = true → ExprOpsS E lo r) :
    ExprOpsS E lo (if FAILED x = true then (x, c) else r) := by
  split
  · next hf => exact fun hs => absurd hf hs
  · next hf => exact h hf

theorem opss_ite_oom {E : Nat → Prop} {lo : Nat} {p : Prop} [Decidable p] {c : compiler_ctx_t}
    {r : HRESULT × compiler_ctx_t} (h : ¬ p → ExprOpsS E lo r) :
    ExprOpsS E lo (if p then (E_OUTOFMEMORY, c) else r) := by
  split
  · exact fun hs => absurd failed_oom hs
  · next hf => exact h hf

theorem opss_ite {E : Nat → Prop} {lo : Nat} {p : Prop} [Decidable p]
    {r1 r2 : HRESULT × compiler_ctx_t}
    (h1 : p → ExprOpsS E lo r1) (h2 : ¬ p → ExprOpsS E lo r2) :
    ExprOpsS E lo (if p then r1 else r2) := by
  split
  · next hp => exact h1 hp
  · next hp => exact h2 hp

theorem opss_oom {E : Nat → Prop} {lo : Nat} {c : compiler_ctx_t} :
    ExprOpsS E lo (E_OUTOFMEMORY, c) :=
  fun hs => absurd failed_oom hs

theorem opss_ok {E : Nat → Prop} {lo : Nat} {x : HRESULT} {c : compiler_ctx_t}
    (h : ExprOps E lo c) : ExprOpsS E lo (x, c) := fun _ => h

theorem opss_fst_ite_failed {α : Type} {E : Nat → Prop} {lo : Nat}
    {x : HRESULT × compiler_ctx_t} {y : α} {r : (HRESULT × compiler_ctx_t) × α}
    (h : ¬ FAILED x.1 = true → ExprOpsS E lo r.1) :
    ExprOpsS E lo (if FAILED x.1 = true then (x, y) else r).1 := by
  split
  · next hf => exact fun hs => absurd hf hs
  · next hf => exact h hf

theorem opss_fst_ite_oom {α : Type} {E : Nat → Prop} {lo : Nat} {p : Prop} [Decidable p]
    {c : compiler_ctx_t} {y : α} {r : (HRESULT × compiler_ctx_t) × α}
    (h : ¬ p → ExprOpsS E lo r.1) :
    ExprOpsS E lo (if p then ((E_OUTOFMEMORY, c), y) else r).1 := by
  split
  · exact fun hs => absurd failed_oom hs
  · next hf => exact h hf

theorem opss_fst_ite {α : Type} {E : Nat → Prop} {lo : Nat} {p : Prop} [Decidable p]
    {r1 r2 : (HRESULT × compiler_ctx_t) × α}
    (h1 : p → ExprOpsS E lo r1.1) (h2 : ¬ p → ExprOpsS E lo r2.1) :
    ExprOpsS E lo (if p then r1 else r2).1 := by
  split
  · next hp => exact h1 hp
  · next hp => exact h2 hp

/-! ## Calls and address operands: expressions -/

theorem ops_push_hres {E : Nat → Prop} {lo : Nat}
    {c : compiler_ctx_t} {op : jsop_t} (h : ExprOps E lo c)
    (hop : instr_info_arg1_type op ≠ ARG_ADDR ∧ op ≠ OP_call ∧ op ≠ OP_call_member) : ExprOps E lo (push_instr_hres c op).2 :=
  ops_push h hop

theorem ops_ite {E : Nat → Prop} {lo : Nat}
    {p : Prop} [Decidable p] {r1 r2 : HRESULT × compiler_ctx_t}
    (h1 : p → ExprOps E lo r1.2) (h2 : ¬ p → ExprOps E lo r2.2) :
    ExprOps E lo (if p then r1 else r2).2 := by
  split
  · next hp => exact h1 hp
  · next hp => exact h2 hp

theorem literal_as_bstr_ops {E : Nat → Prop} {lo : Nat} {c : compiler_ctx_t} (literal : literal_t) (h : ExprOps E lo c) :
    ExprOps E lo (literal_as_bstr c literal).2.2 := by
  unfold literal_as_bstr int_to_bstr double_to_bstr
  split <;> (try dsimp only) <;>
  repeat' (first
    | with_reducible (first
        | exact h
        | apply heap_alloc_ops
        | apply compiler_alloc_bstr_ops
        | apply compiler_alloc_string_ops)
    | split)

theorem push_instr_int_ops {E : Nat → Prop} {lo : Nat} {c : compiler_ctx_t} (op : jsop_t) (arg : Int)
    (h : ExprOps E lo c)
    (hop : instr_info_arg1_type op ≠ ARG_ADDR ∧ op ≠ OP_call ∧ op ≠ OP_call_member) : ExprOpsS E lo (push_instr_int c op arg) := by
  unfold push_instr_int
  dsimp only
  repeat' (first
    | with_reducible (first
        | exact h
        | assumption
        | exact ops_mono_e h (fun _ hi => Or.inr hi)
        | exact ops_mono_e h (fun _ hi => Or.inr (Or.inr hi))
        | intro _
        | apply opss_ite_failed_self
        | apply opss_ite_failed
        | apply opss_ite_oom
        | apply opss_fst_ite_failed
        | apply opss_fst_ite_oom
        | exact opss_oom
        | refine ops_push ?_ (by first | assumption | decide | (split <;> decide))
        | refine ops_push_hres ?_ (by first | assumption | decide | (split <;> decide))
        | refine ops_push_exempt ?_ (Or.inl rfl) (by first | exact hop | exact hop.2 | decide)
        | refine ops_push_exempt ?_ (Or.inr (Or.inl rfl)) (by first | exact hop | exact hop.2 | decide)
        | refine ops_push_args ?_ (by first | exact hop.1 | decide | (split <;> decide)) (by first | exact fun hc => absurd hc (by decide) | exact fun hc => absurd hc (not_or.2 hop.2) | (intro _; simp)) (by assumption)
        | refine ops_push_arg_na ?_ (by first | assumption | decide | (split <;> decide)) (by assumption)
        | refine ops_patch ?_ (le_refl _) (le_refl _)
        | apply heap_alloc_ops
        | apply compiler_alloc_string_ops
        | apply compiler_alloc_bstr_ops
        | apply literal_as_bstr_ops
        | apply push_instr_hres_ops
        | apply ops_of_opss (push_instr_hres_ops _ _)
        | refine ops_of_opss (opss_ite ?_ ?_) (by assumption)
        | apply ops_ite
        | apply opss_ite
        | apply opss_fst_ite)
    | decide
    | split
    | with_reducible (apply opss_ok))

theorem push_instr_str_ops {E : Nat → Prop} {lo : Nat} {c : compiler_ctx_t} (op : jsop_t) (arg : String)
    (h : ExprOps E lo c)
    (hop : instr_info_arg1_type op ≠ ARG_ADDR ∧ op ≠ OP_call ∧ op ≠ OP_call_member) : ExprOpsS E lo (push_instr_str c op arg) := by
  unfold push_instr_str
  dsimp only
  repeat' (first
    | with_reducible (first
        | exact h
        | assumption
        | exact ops_mono_e h (fun _ hi => Or.inr hi)
        | exact ops_mono_e h (fun _ hi => Or.inr (Or.inr hi))
        | intro _
        | apply opss_ite_failed_self
        | apply opss_ite_failed
        | apply opss_ite_oom
        | apply opss_fst_ite_failed
        | apply opss_fst_ite_oom
        | exact opss_oom
        | refine ops_push ?_ (by first | assumption | decide | (split <;> decide))
        | refine ops_push_hres ?_ (by first | assumption | decide | (split <;> decide))
        | refine ops_push_exempt ?_ (Or.inl rfl) (by first | exact hop | exact hop.2 | decide)
        | refine ops_push_exempt ?_ (Or.inr (Or.inl rfl)) (by first | exact hop | exact hop.2 | decide)
        | refine ops_push_args ?_ (by first | exact hop.1 | decide | (split <;> decide)) (by first | exact fun hc => absurd hc (by decide) | exact fun hc => absurd hc (not_or.2 hop.2) | (intro _; simp)) (by assumption)
        | refine ops_push_arg_na ?_ (by first | assumption | decide | (split <;> decide)) (by assumption)
        | refine ops_patch ?_ (le_refl _) (le_refl _)
        | apply heap_alloc_ops
        | apply compiler_alloc_string_ops
        | apply compiler_alloc_bstr_ops
        | apply literal_as_bstr_ops
        | apply push_instr_hres_ops
        | apply push_instr_int_ops
        | apply ops_of_opss (push_instr_hres_ops _ _)
        | apply ops_of_opss (push_instr_int_ops _ _ _ _)
        | refine ops_of_opss (opss_ite ?_ ?_) (by assumption)
        | apply ops_ite
        | apply opss_ite
        | apply opss_fst_ite)
    | decide
    | split
    | with_reducible (apply opss_ok))

theorem push_instr_bstr_ops {E : Nat → Prop} {lo : Nat} {c : compiler_ctx_t} (op : jsop_t) (arg : String)
    (h : ExprOps E lo c)
    (hop : instr_info_arg1_type op ≠ ARG_ADDR ∧ op ≠ OP_call ∧ op ≠ OP_call_member) : ExprOpsS E lo (push_instr_bstr c op arg) := by
  unfold push_instr_bstr
  dsimp only
  repeat' (first
    | with_reducible (first
        | exact h
        | assumption
        | exact ops_mono_e h (fun _ hi => Or.inr hi)
        | exact ops_mono_e h (fun _ hi => Or.inr (Or.inr hi))
        | intro _
        | apply opss_ite_failed_self
        | apply opss_ite_failed
        | apply opss_ite_oom
        | apply opss_fst_ite_failed
        | apply opss_fst_ite_oom
        | exact opss_oom
        | refine ops_push ?_ (by first | assumption | decide | (split <;> decide))
        | refine ops_push_hres ?_ (by first | assumption | decide | (split <;> decide))
        | refine ops_push_exempt ?_ (Or.inl rfl) (by first | exact hop | exact hop.2 | decide)
        | refine ops_push_exempt ?_ (Or.inr (Or.inl rfl)) (by first | exact hop | exact hop.2 | decide)
        | refine ops_push_args ?_ (by first | exact hop.1 | decide | (split <;> decide)) (by first | exact fun hc => absurd hc (by decide) | exact fun hc => absurd hc (not_or.2 hop.2) | (intro _; simp)) (by assumption)
        | refine ops_push_arg_na ?_ (by first | assumption | decide | (split <;> decide)) (by assumption)
        | refine ops_patch ?_ (le_refl _) (le_refl _)
        | apply heap_alloc_ops
        | apply compiler_alloc_string_ops
        | apply compiler_alloc_bstr_ops
        | apply literal_as_bstr_ops
        | apply push_instr_hres_ops
        | apply push_instr_int_ops
        | apply push_instr_str_ops
        | apply ops_of_opss (push_instr_hres_ops _ _)
        | apply ops_of_opss (push_instr_int_ops _ _ _ _)
        | apply ops_of_opss (push_instr_str_ops _ _ _ _)
        | refine ops_of_opss (opss_ite ?_ ?_) (by assumption)
        | apply ops_ite
        | apply opss_ite
        | apply opss_fst_ite)
    | decide
    | split
    | with_reducible (apply opss_ok))

theorem push_instr_bstr_uint_ops {E : Nat → Prop} {lo : Nat} {c : compiler_ctx_t} (op : jsop_t) (arg1 : String) (arg2 : Nat)
    (h : ExprOps E lo c)
    (hop : instr_info_arg1_type op ≠ ARG_ADDR ∧ op ≠ OP_call ∧ op ≠ OP_call_member) : ExprOpsS E lo (push_instr_bstr_uint c op arg1 arg2) := by
  unfold push_instr_bstr_uint
  dsimp only
  repeat' (first
    | with_reducible (first
        | exact h
        | assumption
        | exact ops_mono_e h (fun _ hi => Or.inr hi)
        | exact ops_mono_e h (fun _ hi => Or.inr (Or.inr hi))
        | intro _
        | apply opss_ite_failed_self
        | apply opss_ite_failed
        | apply opss_ite_oom
        | apply opss_fst_ite_failed
        | apply opss_fst_ite_oom
        | exact opss_oom
        | refine ops_push ?_ (by first | assumption | decide | (split <;> decide))
        | refine ops_push_hres ?_ (by first | assumption | decide | (split <;> decide))
        | refine ops_push_exempt ?_ (Or.inl rfl) (by first | exact hop | exact hop.2 | decide)
        | refine ops_push_exempt ?_ (Or.inr (Or.inl rfl)) (by first | exact hop | exact hop.2 | decide)
        | refine ops_push_args ?_ (by first | exact hop.1 | decide | (split <;> decide)) (by first | exact fun hc => absurd hc (by decide) | exact fun hc => absurd hc (not_or.2 hop.2) | (intro _; simp)) (by assumption)
        | refine ops_push_arg_na ?_ (by first | assumption | decide | (split <;> decide)) (by assumption)
        | refine ops_patch ?_ (le_refl _) (le_refl _)
        | apply heap_alloc_ops
        | apply compiler_alloc_string_ops
        | apply compiler_alloc_bstr_ops
        | apply literal_as_bstr_ops
        | apply push_instr_hres_ops
        | apply push_instr_int_ops
        | apply push_instr_str_ops
        | apply push_instr_bstr_ops
        | apply ops_of_opss (push_instr_hres_ops _ _)
        | apply ops_of_opss (push_instr_int_ops _ _ _ _)
        | apply ops_of_opss (push_instr_str_ops _ _ _ _)
        | apply ops_of_opss (push_instr_bstr_ops _ _ _ _)
        | refine ops_of_opss (opss_ite ?_ ?_) (by assumption)
        | apply ops_ite
        | apply opss_ite
        | apply opss_fst_ite)
    | decide
    | split
    | with_reducible (apply opss_ok))

theorem push_instr_uint_str_ops {E : Nat → Prop} {lo : Nat} {c : compiler_ctx_t} (op : jsop_t) (arg1 : Nat) (arg2 : String)
    (h : ExprOps E lo c)
    (hop : instr_info_arg1_type op ≠ ARG_ADDR ∧ op ≠ OP_call ∧ op ≠ OP_call_member) : ExprOpsS E lo (push_instr_uint_str c op arg1 arg2) := by
  unfold push_instr_uint_str
  dsimp only
  repeat' (first
    | with_reducible (first
        | exact h
        | assumption
        | exact ops_mono_e h (fun _ hi => Or.inr hi)
        | exact ops_mono_e h (fun _ hi => Or.inr (Or.inr hi))
        | intro _
        | apply opss_ite_failed_self
        | apply opss_ite_failed
        | apply opss_ite_oom
        | apply opss_fst_ite_failed
        | apply opss_fst_ite_oom
        | exact opss_oom
        | refine ops_push ?_ (by first | assumption | decide | (split <;> decide))
        | refine ops_push_hres ?_ (by first | assumption | decide | (split <;> decide))
        | refine ops_push_exempt ?_ (Or.inl rfl) (by first | exact hop | exact hop.2 | decide)
        | refine ops_push_exempt ?_ (Or.inr (Or.inl rfl)) (by first | exact hop | exact hop.2 | decide)
        | refine ops_push_args ?_ (by first | exact hop.1 | decide | (split <;> decide)) (by first | exact fun hc => absurd hc (by decide) | exact fun hc => absurd hc (not_or.2 hop.2) | (intro _; simp)) (by assumption)
        | refine ops_push_arg_na ?_ (by first | assumption | decide | (split <;> decide)) (by assumption)
        | refine ops_patch ?_ (le_refl _) (le_refl _)
        | apply heap_alloc_ops
        | apply compiler_alloc_string_ops
        | apply compiler_alloc_bstr_ops
        | apply literal_as_bstr_ops
        | apply push_instr_hres_ops
        | apply push_instr_int_ops
        | apply push_instr_str_ops
        | apply push_instr_bstr_ops
        | apply push_instr_bstr_uint_ops
        | apply ops_of_opss (push_instr_hres_ops _ _)
        | apply ops_of_opss (push_instr_int_ops _ _ _ _)
        | apply ops_of_opss (push_instr_str_ops _ _ _ _)
        | apply ops_of_opss (push_instr_bstr_ops _ _ _ _)
        | apply ops_of_opss (push_instr_bstr_uint_ops _ _ _ _ _)
        | refine ops_of_opss (opss_ite ?_ ?_) (by assumption)
        | apply ops_ite
        | apply opss_ite
        | apply opss_fst_ite)
    | decide
    | split
    | with_reducible (apply opss_ok))

theorem push_instr_double_ops {E : Nat → Prop} {lo : Nat} {c : compiler_ctx_t} (op : jsop_t) (arg : DOUBLE)
    (h : ExprOps E lo c)
    (hop : instr_info_arg1_type op ≠ ARG_ADDR ∧ op ≠ OP_call ∧ op ≠ OP_call_member) : ExprOpsS E lo (push_instr_double c op arg) := by
  unfold push_instr_double
  dsimp only
  repeat' (first
    | with_reducible (first
        | exact h
        | assumption
        | exact ops_mono_e h (fun _ hi => Or.inr hi)
        | exact ops_mono_e h (fun _ hi => Or.inr (Or.inr hi))
        | intro _
        | apply opss_ite_failed_self
        | apply opss_ite_failed
        | apply opss_ite_oom
        | apply opss_fst_ite_failed
        | apply opss_fst_ite_oom
        | exact opss_oom
        | refine ops_push ?_ (by first | assumption | decide | (split <;> decide))
        | refine ops_push_hres ?_ (by first | assumption | decide | (split <;> decide))
        | refine ops_push_exempt ?_ (Or.inl rfl) (by first | exact hop | exact hop.2 | decide)
        | refine ops_push_exempt ?_ (Or.inr (Or.inl rfl)) (by first | exact hop | exact hop.2 | decide)
        | refine ops_push_args ?_ (by first | exact hop.1 | decide | (split <;> decide)) (by first | exact fun hc => absurd hc (by decide) | exact fun hc => absurd hc (not_or.2 hop.2) | (intro _; simp)) (by assumption)
        | refine ops_push_arg_na ?_ (by first | assumption | decide | (split <;> decide)) (by assumption)
        | refine ops_patch ?_ (le_refl _) (le_refl _)
        | apply heap_alloc_ops
        | apply compiler_alloc_string_ops
        | apply compiler_alloc_bstr_ops
        | apply literal_as_bstr_ops
        | apply push_instr_hres_ops
        | apply push_instr_int_ops
        | apply push_instr_str_ops
        | apply push_instr_bstr_ops
        | apply push_instr_bstr_uint_ops
        | apply push_instr_uint_str_ops
        | apply ops_of_opss (push_instr_hres_ops _ _)
        | apply ops_of_opss (push_instr_int_ops _ _ _ _)
        | apply ops_of_opss (push_instr_str_ops _ _ _ _)
        | apply ops_of_opss (push_instr_bstr_ops _ _ _ _)
        | apply ops_of_opss (push_instr_bstr_uint_ops _ _ _ _ _)
        | apply ops_of_opss (push_instr_uint_str_ops _ _ _ _ _)
        | refine ops_of_opss (opss_ite ?_ ?_) (by assumption)
        | apply ops_ite
        | apply opss_ite
        | apply opss_fst_ite)
    | decide
    | split
    | with_reducible (apply opss_ok))

theorem push_instr_uint_ops {E : Nat → Prop} {lo : Nat} {c : compiler_ctx_t} (op : jsop_t) (arg : Nat)
    (h : ExprOps E lo c) (hop : instr_info_arg1_type op ≠ ARG_ADDR ∧ op ≠ OP_call ∧ op ≠ OP_call_member) :
    ExprOpsS E lo (push_instr_uint c op arg) := by
  unfold push_instr_uint
  dsimp only
  repeat' (first
    | with_reducible (first
        | exact h
        | assumption
        | exact ops_mono_e h (fun _ hi => Or.inr hi)
        | exact ops_mono_e h (fun _ hi => Or.inr (Or.inr hi))
        | intro _
        | apply opss_ite_failed_self
        | apply opss_ite_failed
        | apply opss_ite_oom
        | apply opss_fst_ite_failed
        | apply opss_fst_ite_oom
        | exact opss_oom
        | refine ops_push ?_ (by first | assumption | decide | (split <;> decide))
        | refine ops_push_hres ?_ (by first | assumption | decide | (split <;> decide))
        | refine ops_push_exempt ?_ (Or.inl rfl) (by first | exact hop | exact hop.2 | decide)
        | refine ops_push_exempt ?_ (Or.inr (Or.inl rfl)) (by first | exact hop | exact hop.2 | decide)
        | refine ops_push_args ?_ (by first | exact hop.1 | decide | (split <;> decide)) (by first | exact fun hc => absurd hc (by decide) | exact fun hc => absurd hc (not_or.2 hop.2) | (intro _; simp)) (by assumption)
        | refine ops_push_arg_na ?_ (by first | assumption | decide | (split <;> decide)) (by assumption)
        | refine ops_patch ?_ (le_refl _) (le_refl _)
        | apply heap_alloc_ops
        | apply compiler_alloc_string_ops
        | apply compiler_alloc_bstr_ops
        | apply literal_as_bstr_ops
        | apply push_instr_hres_ops
        | apply push_instr_int_ops
        | apply push_instr_str_ops
        | apply push_instr_bstr_ops
        | apply push_instr_bstr_uint_ops
        | apply push_instr_uint_str_ops
        | apply push_instr_double_ops
        | apply ops_of_opss (push_instr_hres_ops _ _)
        | apply ops_of_opss (push_instr_int_ops _ _ _ _)
        | apply ops_of_opss (push_instr_str_ops _ _ _ _)
        | apply ops_of_opss (push_instr_bstr_ops _ _ _ _)
        | apply ops_of_opss (push_instr_bstr_uint_ops _ _ _ _ _)
        | apply ops_of_opss (push_instr_uint_str_ops _ _ _ _ _)
        | apply ops_of_opss (push_instr_double_ops _ _ _ _)
        | refine ops_of_opss (opss_ite ?_ ?_) (by assumption)
        | apply ops_ite
        | apply opss_ite
        | apply opss_fst_ite)
    | decide
    | split
    | with_reducible (apply opss_ok))

theorem push_undefined_loop_ops {lo : Nat} (n : Nat) :
    ∀ {E : Nat → Prop} {c : compiler_ctx_t}, ExprOps E lo c →
      ExprOpsS E lo (push_undefined_loop c n) := by
  induction n with
  | zero => intro E c h; exact opss_ok h
  | succ n ih =>
    intro E c h
    unfold push_undefined_loop
    dsimp only
    exact opss_ite_oom (fun _ => ih (ops_push h (by decide)))

theorem compile_literal_ops {E : Nat → Prop} {lo : Nat} {c : compiler_ctx_t} (literal : literal_t)
    (h : ExprOps E lo c) : ExprOpsS E lo (compile_literal c literal) := by
  unfold compile_literal
  split <;> (try dsimp only)
  repeat' (first
    | with_reducible (first
        | exact h
        | assumption
        | exact ops_mono_e h (fun _ hi => Or.inr hi)
        | exact ops_mono_e h (fun _ hi => Or.inr (Or.inr hi))
        | intro _
        | apply opss_ite_failed_self
        | apply opss_ite_failed
        | apply opss_ite_oom
        | apply opss_fst_ite_failed
        | apply opss_fst_ite_oom
        | exact opss_oom
        | refine ops_push ?_ (by first | assumption | decide | (split <;> decide))
        | refine ops_push_hres ?_ (by first | assumption | decide | (split <;> decide))
        | refine ops_push_exempt ?_ (Or.inl rfl) (by first | exact hop | exact hop.2 | decide)
        | refine ops_push_exempt ?_ (Or.inr (Or.inl rfl)) (by first | exact hop | exact hop.2 | decide)
        | refine ops_push_args ?_ (by first | exact hop.1 | decide | (split <;> decide)) (by first | exact fun hc => absurd hc (by decide) | exact fun hc => absurd hc (not_or.2 hop.2) | (intro _; simp)) (by assumption)
        | refine ops_push_arg_na ?_ (by first | assumption | decide | (split <;> decide)) (by assumption)
        | refine ops_patch ?_ (le_refl _) (le_refl _)
        | apply heap_alloc_ops
        | apply compiler_alloc_string_ops
        | apply compiler_alloc_bstr_ops
        | apply literal_as_bstr_ops
        | apply push_instr_hres_ops
        | apply push_instr_int_ops
        | apply push_instr_str_ops
        | apply push_instr_bstr_ops
        | apply push_instr_bstr_uint_ops
        | apply push_instr_uint_str_ops
        | apply push_instr_double_ops
        | apply push_instr_uint_ops
        | apply push_undefined_loop_ops
        | apply ops_of_opss (push_instr_hres_ops _ _)
        | apply ops_of_opss (push_instr_int_ops _ _ _ _)
        | apply ops_of_opss (push_instr_str_ops _ _ _ _)
        | apply ops_of_opss (push_instr_bstr_ops _ _ _ _)
        | apply ops_of_opss (push_instr_bstr_uint_ops _ _ _ _ _)
        | apply ops_of_opss (push_instr_uint_str_ops _ _ _ _ _)
        | apply ops_of_opss (push_instr_double_ops _ _ _ _)
        | apply ops_of_opss (push_instr_uint_ops _ _ _ _)
        | apply ops_of_opss (push_undefined_loop_ops _ _)
        | refine ops_of_opss (opss_ite ?_ ?_) (by assumption)
        | apply ops_ite
        | apply opss_ite
        | apply opss_fst_ite)
    | decide
    | split
    | with_reducible (apply opss_ok))

theorem compile_function_expression_ops {E : Nat → Prop} {lo : Nat} {c : compiler_ctx_t} (expr : function_expression_t)
    (h : ExprOps E lo c) : ExprOpsS E lo (compile_function_expression c expr) := by
  unfold compile_function_expression
  split <;> (try dsimp only)
  repeat' (first
    | with_reducible (first
        | exact h
        | assumption
        | exact ops_mono_e h (fun _ hi => Or.inr hi)
        | exact ops_mono_e h (fun _ hi => Or.inr (Or.inr hi))
        | intro _
        | apply opss_ite_failed_self
        | apply opss_ite_failed
        | apply opss_ite_oom
        | apply opss_fst_ite_failed
        | apply opss_fst_ite_oom
        | exact opss_oom
        | refine ops_push ?_ (by first | assumption | decide | (split <;> decide))
        | refine ops_push_hres ?_ (by first | assumption | decide | (split <;> decide))
        | refine ops_push_exempt ?_ (Or.inl rfl) (by first | exact hop | exact hop.2 | decide)
        | refine ops_push_exempt ?_ (Or.inr (Or.inl rfl)) (by first | exact hop | exact hop.2 | decide)
        | refine ops_push_args ?_ (by first | exact hop.1 | decide | (split <;> decide)) (by first | exact fun hc => absurd hc (by decide) | exact fun hc => absurd hc (not_or.2 hop.2) | (intro _; simp)) (by assumption)
        | refine ops_push_arg_na ?_ (by first | assumption | decide | (split <;> decide)) (by assumption)
        | refine ops_patch ?_ (le_refl _) (le_refl _)
        | apply heap_alloc_ops
        | apply compiler_alloc_string_ops
        | apply compiler_alloc_bstr_ops
        | apply literal_as_bstr_ops
        | apply push_instr_hres_ops
        | apply push_instr_int_ops
        | apply push_instr_str_ops
        | apply push_instr_bstr_ops
        | apply push_instr_bstr_uint_ops
        | apply push_instr_uint_str_ops
        | apply push_instr_double_ops
        | apply push_instr_uint_ops
        | apply push_undefined_loop_ops
        | apply compile_literal_ops
        | apply ops_of_opss (push_instr_hres_ops _ _)
        | apply ops_of_opss (push_instr_int_ops _ _ _ _)
        | apply ops_of_opss (push_instr_str_ops _ _ _ _)
        | apply ops_of_opss (push_instr_bstr_ops _ _ _ _)
        | apply ops_of_opss (push_instr_bstr_uint_ops _ _ _ _ _)
        | apply ops_of_opss (push_instr_uint_str_ops _ _ _ _ _)
        | apply ops_of_opss (push_instr_double_ops _ _ _ _)
        | apply ops_of_opss (push_instr_uint_ops _ _ _ _)
        | apply ops_of_opss (push_undefined_loop_ops _ _)
        | apply ops_of_opss (compile_literal_ops _ _)
        | refine ops_of_opss (opss_ite ?_ ?_) (by assumption)
        | apply ops_ite
        | apply opss_ite
        | apply opss_fst_ite)
    | decide
    | split
    | with_reducible (apply opss_ok))

theorem compile_binary_expression_ops_aux {E : Nat → Prop} {lo : Nat} {c : compiler_ctx_t} {e1 e2 : expression_t} (op : jsop_t)
    (ih1 : (∀ {E : Nat → Prop} {c : compiler_ctx_t}, ExprOps E lo c →
      ExprOpsS E lo (compile_expression_noret c e1 none).1))
    (ih2 : (∀ {E : Nat → Prop} {c : compiler_ctx_t}, ExprOps E lo c →
      ExprOpsS E lo (compile_expression_noret c e2 none).1))
    (hop : instr_info_arg1_type op ≠ ARG_ADDR ∧ op ≠ OP_call ∧ op ≠ OP_call_member)
    (h : ExprOps E lo c) : ExprOpsS E lo (compile_binary_expression c (.mk e1 e2) op) := by
  rw [compile_binary_expression.eq_def]
  try dsimp only
  repeat' (first
    | with_reducible (first
        | exact h
        | assumption
        | exact ops_mono_e h (fun _ hi => Or.inr hi)
        | exact ops_mono_e h (fun _ hi => Or.inr (Or.inr hi))
        | intro _
        | apply opss_ite_failed_self
        | apply opss_ite_failed
        | apply opss_ite_oom
        | apply opss_fst_ite_failed
        | apply opss_fst_ite_oom
        | exact opss_oom
        | refine ops_push ?_ (by first | assumption | decide | (split <;> decide))
        | refine ops_push_hres ?_ (by first | assumption | decide | (split <;> decide))
        | refine ops_push_exempt ?_ (Or.inl rfl) (by first | exact hop | exact hop.2 | decide)
        | refine ops_push_exempt ?_ (Or.inr (Or.inl rfl)) (by first | exact hop | exact hop.2 | decide)
        | refine ops_push_args ?_ (by first | exact hop.1 | decide | (split <;> decide)) (by first | exact fun hc => absurd hc (by decide) | exact fun hc => absurd hc (not_or.2 hop.2) | (intro _; simp)) (by assumption)
        | refine ops_push_arg_na ?_ (by first | assumption | decide | (split <;> decide)) (by assumption)
        | refine ops_patch ?_ (le_refl _) (le_refl _)
        | apply heap_alloc_ops
        | apply compiler_alloc_string_ops
        | apply compiler_alloc_bstr_ops
        | apply literal_as_bstr_ops
        | apply ih1
        | apply ih2
        | apply push_instr_hres_ops
        | apply push_instr_int_ops
        | apply push_instr_str_ops
        | apply push_instr_bstr_ops
        | apply push_instr_bstr_uint_ops
        | apply push_instr_uint_str_ops
        | apply push_instr_double_ops
        | apply push_instr_uint_ops
        | apply push_undefined_loop_ops
        | apply compile_literal_ops
        | apply compile_function_expression_ops
        | apply ops_of_opss (ih1 _)
        | apply ops_of_opss (ih2 _)
        | apply ops_of_opss (push_instr_hres_ops _ _)
        | apply ops_of_opss (push_instr_int_ops _ _ _ _)
        | apply ops_of_opss (push_instr_str_ops _ _ _ _)
        | apply ops_of_opss (push_instr_bstr_ops _ _ _ _)
        | apply ops_of_opss (push_instr_bstr_uint_ops _ _ _ _ _)
        | apply ops_of_opss (push_instr_uint_str_ops _ _ _ _ _)
        | apply ops_of_opss (push_instr_double_ops _ _ _ _)
        | apply ops_of_opss (push_instr_uint_ops _ _ _ _)
        | apply ops_of_opss (push_undefined_loop_ops _ _)
        | apply ops_of_opss (compile_literal_ops _ _)
        | apply ops_of_opss (compile_function_expression_ops _ _)
        | refine ops_of_opss (opss_ite ?_ ?_) (by assumption)
        | apply ops_ite
        | apply opss_ite
        | apply opss_fst_ite)
    | decide
    | split
    | with_reducible (apply opss_ok))

theorem compile_unary_expression_ops_aux {E : Nat → Prop} {lo : Nat} {c : compiler_ctx_t} {e1 : expression_t} (op : jsop_t)
    (ih1 : (∀ {E : Nat → Prop} {c : compiler_ctx_t}, ExprOps E lo c →
      ExprOpsS E lo (compile_expression_noret c e1 none).1))
    (hop : instr_info_arg1_type op ≠ ARG_ADDR ∧ op ≠ OP_call ∧ op ≠ OP_call_member)
    (h : ExprOps E lo c) : ExprOpsS E lo (compile_unary_expression c (.mk e1) op) := by
  rw [compile_unary_expression.eq_def]
  try dsimp only
  repeat' (first
    | with_reducible (first
        | exact h
        | assumption
        | exact ops_mono_e h (fun _ hi => Or.inr hi)
        | exact ops_mono_e h (fun _ hi => Or.inr (Or.inr hi))
        | intro _
        | apply opss_ite_failed_self
        | apply opss_ite_failed
        | apply opss_ite_oom
        | apply opss_fst_ite_failed
        | apply opss_fst_ite_oom
        | exact opss_oom
        | refine ops_push ?_ (by first | assumption | decide | (split <;> decide))
        | refine ops_push_hres ?_ (by first | assumption | decide | (split <;> decide))
        | refine ops_push_exempt ?_ (Or.inl rfl) (by first | exact hop | exact hop.2 | decide)
        | refine ops_push_exempt ?_ (Or.inr (Or.inl rfl)) (by first | exact hop | exact hop.2 | decide)
        | refine ops_push_args ?_ (by first | exact hop.1 | decide | (split <;> decide)) (by first | exact fun hc => absurd hc (by decide) | exact fun hc => absurd hc (not_or.2 hop.2) | (intro _; simp)) (by assumption)
        | refine ops_push_arg_na ?_ (by first | assumption | decide | (split <;> decide)) (by assumption)
        | refine ops_patch ?_ (le_refl _) (le_refl _)
        | apply heap_alloc_ops
        | apply compiler_alloc_string_ops
        | apply compiler_alloc_bstr_ops
        | apply literal_as_bstr_ops
        | apply ih1
        | apply push_instr_hres_ops
        | apply push_instr_int_ops
        | apply push_instr_str_ops
        | apply push_instr_bstr_ops
        | apply push_instr_bstr_uint_ops
        | apply push_instr_uint_str_ops
        | apply push_instr_double_ops
        | apply push_instr_uint_ops
        | apply push_undefined_loop_ops
        | apply compile_literal_ops
        | apply compile_function_expression_ops
        | apply ops_of_opss (ih1 _)
        | apply ops_of_opss (push_instr_hres_ops _ _)
        | apply ops_of_opss (push_instr_int_ops _ _ _ _)
        | apply ops_of_opss (push_instr_str_ops _ _ _ _)
        | apply ops_of_opss (push_instr_bstr_ops _ _ _ _)
        | apply ops_of_opss (push_instr_bstr_uint_ops _ _ _ _ _)
        | apply ops_of_opss (push_instr_uint_str_ops _ _ _ _ _)
        | apply ops_of_opss (push_instr_double_ops _ _ _ _)
        | apply ops_of_opss (push_instr_uint_ops _ _ _ _)
        | apply ops_of_opss (push_undefined_loop_ops _ _)
        | apply ops_of_opss (compile_literal_ops _ _)
        | apply ops_of_opss (compile_function_expression_ops _ _)
        | refine ops_of_opss (opss_ite ?_ ?_) (by assumption)
        | apply ops_ite
        | apply opss_ite
        | apply opss_fst_ite)
    | decide
    | split
    | with_reducible (apply opss_ok))

theorem compile_member_expression_ops_aux {E : Nat → Prop} {lo : Nat} {c : compiler_ctx_t} {e1 : expression_t} (i : String)
    (ih1 : (∀ {E : Nat → Prop} {c : compiler_ctx_t}, ExprOps E lo c →
      ExprOpsS E lo (compile_expression_noret c e1 none).1))
    (h : ExprOps E lo c) : ExprOpsS E lo (compile_member_expression c (.mk e1 i)) := by
  rw [compile_member_expression.eq_def]
  try dsimp only
  repeat' (first
    | with_reducible (first
        | exact h
        | assumption
        | exact ops_mono_e h (fun _ hi => Or.inr hi)
        | exact ops_mono_e h (fun _ hi => Or.inr (Or.inr hi))
        | intro _
        | apply opss_ite_failed_self
        | apply opss_ite_failed
        | apply opss_ite_oom
        | apply opss_fst_ite_failed
        | apply opss_fst_ite_oom
        | exact opss_oom
        | refine ops_push ?_ (by first | assumption | decide | (split <;> decide))
        | refine ops_push_hres ?_ (by first | assumption | decide | (split <;> decide))
        | refine ops_push_exempt ?_ (Or.inl rfl) (by first | exact hop | exact hop.2 | decide)
        | refine ops_push_exempt ?_ (Or.inr (Or.inl rfl)) (by first | exact hop | exact hop.2 | decide)
        | refine ops_push_args ?_ (by first | exact hop.1 | decide | (split <;> decide)) (by first | exact fun hc => absurd hc (by decide) | exact fun hc => absurd hc (not_or.2 hop.2) | (intro _; simp)) (by assumption)
        | refine ops_push_arg_na ?_ (by first | assumption | decide | (split <;> decide)) (by assumption)
        | refine ops_patch ?_ (le_refl _) (le_refl _)
        | apply heap_alloc_ops
        | apply compiler_alloc_string_ops
        | apply compiler_alloc_bstr_ops
        | apply literal_as_bstr_ops
        | apply ih1
        | apply push_instr_hres_ops
        | apply push_instr_int_ops
        | apply push_instr_str_ops
        | apply push_instr_bstr_ops
        | apply push_instr_bstr_uint_ops
        | apply push_instr_uint_str_ops
        | apply push_instr_double_ops
        | apply push_instr_uint_ops
        | apply push_undefined_loop_ops
        | apply compile_literal_ops
        | apply compile_function_expression_ops
        | apply ops_of_opss (ih1 _)
        | apply ops_of_opss (push_instr_hres_ops _ _)
        | apply ops_of_opss (push_instr_int_ops _ _ _ _)
        | apply ops_of_opss (push_instr_str_ops _ _ _ _)
        | apply ops_of_opss (push_instr_bstr_ops _ _ _ _)
        | apply ops_of_opss (push_instr_bstr_uint_ops _ _ _ _ _)
        | apply ops_of_opss (push_instr_uint_str_ops _ _ _ _ _)
        | apply ops_of_opss (push_instr_double_ops _ _ _ _)
        | apply ops_of_opss (push_instr_uint_ops _ _ _ _)
        | apply ops_of_opss (push_undefined_loop_ops _ _)
        | apply ops_of_opss (compile_literal_ops _ _)
        | apply ops_of_opss (compile_function_expression_ops _ _)
        | refine ops_of_opss (opss_ite ?_ ?_) (by assumption)
        | apply ops_ite
        | apply opss_ite
        | apply opss_fst_ite)
    | decide
    | split
    | with_reducible (apply opss_ok))

theorem compile_memberid_binary_ops_aux {E : Nat → Prop} {lo : Nat} {c : compiler_ctx_t} {e1 e2 : expression_t} (t : binary_type_t) (flags : Nat)
    (ih1 : (∀ {E : Nat → Prop} {c : compiler_ctx_t}, ExprOps E lo c →
      ExprOpsS E lo (compile_expression_noret c e1 none).1))
    (ih2 : (∀ {E : Nat → Prop} {c : compiler_ctx_t}, ExprOps E lo c →
      ExprOpsS E lo (compile_expression_noret c e2 none).1))
    (h : ExprOps E lo c) : ExprOpsS E lo (compile_memberid_expression c (.binary t (.mk e1 e2)) flags) := by
  rw [compile_memberid_expression]
  try dsimp only
  repeat' (first
    | with_reducible (first
        | exact h
        | assumption
        | exact ops_mono_e h (fun _ hi => Or.inr hi)
        | exact ops_mono_e h (fun _ hi => Or.inr (Or.inr hi))
        | intro _
        | apply opss_ite_failed_self
        | apply opss_ite_failed
        | apply opss_ite_oom
        | apply opss_fst_ite_failed
        | apply opss_fst_ite_oom
        | exact opss_oom
        | refine ops_push ?_ (by first | assumption | decide | (split <;> decide))
        | refine ops_push_hres ?_ (by first | assumption | decide | (split <;> decide))
        | refine ops_push_exempt ?_ (Or.inl rfl) (by first | exact hop | exact hop.2 | decide)
        | refine ops_push_exempt ?_ (Or.inr (Or.inl rfl)) (by first | exact hop | exact hop.2 | decide)
        | refine ops_push_args ?_ (by first | exact hop.1 | decide | (split <;> decide)) (by first | exact fun hc => absurd hc (by decide) | exact fun hc => absurd hc (not_or.2 hop.2) | (intro _; simp)) (by assumption)
        | refine ops_push_arg_na ?_ (by first | assumption | decide | (split <;> decide)) (by assumption)
        | refine ops_patch ?_ (le_refl _) (le_refl _)
        | apply heap_alloc_ops
        | apply compiler_alloc_string_ops
        | apply compiler_alloc_bstr_ops
        | apply literal_as_bstr_ops
        | apply ih1
        | apply ih2
        | apply push_instr_hres_ops
        | apply push_instr_int_ops
        | apply push_instr_str_ops
        | apply push_instr_bstr_ops
        | apply push_instr_bstr_uint_ops
        | apply push_instr_uint_str_ops
        | apply push_instr_double_ops
        | apply push_instr_uint_ops
        | apply push_undefined_loop_ops
        | apply compile_literal_ops
        | apply compile_function_expression_ops
        | apply ops_of_opss (ih1 _)
        | apply ops_of_opss (ih2 _)
        | apply ops_of_opss (push_instr_hres_ops _ _)
        | apply ops_of_opss (push_instr_int_ops _ _ _ _)
        | apply ops_of_opss (push_instr_str_ops _ _ _ _)
        | apply ops_of_opss (push_instr_bstr_ops _ _ _ _)
        | apply ops_of_opss (push_instr_bstr_uint_ops _ _ _ _ _)
        | apply ops_of_opss (push_instr_uint_str_ops _ _ _ _ _)
        | apply ops_of_opss (push_instr_double_ops _ _ _ _)
        | apply ops_of_opss (push_instr_uint_ops _ _ _ _)
        | apply ops_of_opss (push_undefined_loop_ops _ _)
        | apply ops_of_opss (compile_literal_ops _ _)
        | apply ops_of_opss (compile_function_expression_ops _ _)
        | refine ops_of_opss (opss_ite ?_ ?_) (by assumption)
        | apply ops_ite
        | apply opss_ite
        | apply opss_fst_ite)
    | decide
    | split
    | with_reducible (apply opss_ok))

theorem compile_memberid_member_ops_aux {E : Nat → Prop} {lo : Nat} {c : compiler_ctx_t} {e1 : expression_t} (i : String) (flags : Nat)
    (ih1 : (∀ {E : Nat → Prop} {c : compiler_ctx_t}, ExprOps E lo c →
      ExprOpsS E lo (compile_expression_noret c e1 none).1))
    (h : ExprOps E lo c) : ExprOpsS E lo (compile_memberid_expression c (.EXPR_MEMBER (.mk e1 i)) flags) := by
  rw [compile_memberid_expression]
  try dsimp only
  repeat' (first
    | with_reducible (first
        | exact h
        | assumption
        | exact ops_mono_e h (fun _ hi => Or.inr hi)
        | exact ops_mono_e h (fun _ hi => Or.inr (Or.inr hi))
        | intro _
        | apply opss_ite_failed_self
        | apply opss_ite_failed
        | apply opss_ite_oom
        | apply opss_fst_ite_failed
        | apply opss_fst_ite_oom
        | exact opss_oom
        | refine ops_push ?_ (by first | assumption | decide | (split <;> decide))
        | refine ops_push_hres ?_ (by first | assumption | decide | (split <;> decide))
        | refine ops_push_exempt ?_ (Or.inl rfl) (by first | exact hop | exact hop.2 | decide)
        | refine ops_push_exempt ?_ (Or.inr (Or.inl rfl)) (by first | exact hop | exact hop.2 | decide)
        | refine ops_push_args ?_ (by first | exact hop.1 | decide | (split <;> decide)) (by first | exact fun hc => absurd hc (by decide) | exact fun hc => absurd hc (not_or.2 hop.2) | (intro _; simp)) (by assumption)
        | refine ops_push_arg_na ?_ (by first | assumption | decide | (split <;> decide)) (by assumption)
        | refine ops_patch ?_ (le_refl _) (le_refl _)
        | apply heap_alloc_ops
        | apply compiler_alloc_string_ops
        | apply compiler_alloc_bstr_ops
        | apply literal_as_bstr_ops
        | apply ih1
        | apply push_instr_hres_ops
        | apply push_instr_int_ops
        | apply push_instr_str_ops
        | apply push_instr_bstr_ops
        | apply push_instr_bstr_uint_ops
        | apply push_instr_uint_str_ops
        | apply push_instr_double_ops
        | apply push_instr_uint_ops
        | apply push_undefined_loop_ops
        | apply compile_literal_ops
        | apply compile_function_expression_ops
        | apply ops_of_opss (ih1 _)
        | apply ops_of_opss (push_instr_hres_ops _ _)
        | apply ops_of_opss (push_instr_int_ops _ _ _ _)
        | apply ops_of_opss (push_instr_str_ops _ _ _ _)
        | apply ops_of_opss (push_instr_bstr_ops _ _ _ _)
        | apply ops_of_opss (push_instr_bstr_uint_ops _ _ _ _ _)
        | apply ops_of_opss (push_instr_uint_str_ops _ _ _ _ _)
        | apply ops_of_opss (push_instr_double_ops _ _ _ _)
        | apply ops_of_opss (push_instr_uint_ops _ _ _ _)
        | apply ops_of_opss (push_undefined_loop_ops _ _)
        | apply ops_of_opss (compile_literal_ops _ _)
        | apply ops_of_opss (compile_function_expression_ops _ _)
        | refine ops_of_opss (opss_ite ?_ ?_) (by assumption)
        | apply ops_ite
        | apply opss_ite
        | apply opss_fst_ite)
    | decide
    | split
    | with_reducible (apply opss_ok))

theorem compile_increment_expression_ops_aux {E : Nat → Prop} {lo : Nat} {c : compiler_ctx_t} {e1 : expression_t} (op : jsop_t) (n : Int)
    (ih1 : (∀ {E : Nat → Prop} {c : compiler_ctx_t}, ExprOps E lo c →
      ExprOpsS E lo (compile_expression_noret c e1 none).1))
    (ihm : (∀ (flags : Nat) {E : Nat → Prop} {c : compiler_ctx_t}, ExprOps E lo c →
      ExprOpsS E lo (compile_memberid_expression c e1 flags)))
    (hop : instr_info_arg1_type op ≠ ARG_ADDR ∧ op ≠ OP_call ∧ op ≠ OP_call_member)
    (h : ExprOps E lo c) : ExprOpsS E lo (compile_increment_expression c (.mk e1) op n) := by
  rw [compile_increment_expression.eq_def]
  try dsimp only
  repeat' (first
    | with_reducible (first
        | exact h
        | assumption
        | exact ops_mono_e h (fun _ hi => Or.inr hi)
        | exact ops_mono_e h (fun _ hi => Or.inr (Or.inr hi))
        | intro _
        | apply opss_ite_failed_self
        | apply opss_ite_failed
        | apply opss_ite_oom
        | apply opss_fst_ite_failed
        | apply opss_fst_ite_oom
        | exact opss_oom
        | refine ops_push ?_ (by first | assumption | decide | (split <;> decide))
        | refine ops_push_hres ?_ (by first | assumption | decide | (split <;> decide))
        | refine ops_push_exempt ?_ (Or.inl rfl) (by first | exact hop | exact hop.2 | decide)
        | refine ops_push_exempt ?_ (Or.inr (Or.inl rfl)) (by first | exact hop | exact hop.2 | decide)
        | refine ops_push_args ?_ (by first | exact hop.1 | decide | (split <;> decide)) (by first | exact fun hc => absurd hc (by decide) | exact fun hc => absurd hc (not_or.2 hop.2) | (intro _; simp)) (by assumption)
        | refine ops_push_arg_na ?_ (by first | assumption | decide | (split <;> decide)) (by assumption)
        | refine ops_patch ?_ (le_refl _) (le_refl _)
        | apply heap_alloc_ops
        | apply compiler_alloc_string_ops
        | apply compiler_alloc_bstr_ops
        | apply literal_as_bstr_ops
        | apply ih1
        | apply ihm
        | apply push_instr_hres_ops
        | apply push_instr_int_ops
        | apply push_instr_str_ops
        | apply push_instr_bstr_ops
        | apply push_instr_bstr_uint_ops
        | apply push_instr_uint_str_ops
        | apply push_instr_double_ops
        | apply push_instr_uint_ops
        | apply push_undefined_loop_ops
        | apply compile_literal_ops
        | apply compile_function_expression_ops
        | apply ops_of_opss (ih1 _)
        | apply ops_of_opss (ihm _ _)
        | apply ops_of_opss (push_instr_hres_ops _ _)
        | apply ops_of_opss (push_instr_int_ops _ _ _ _)
        | apply ops_of_opss (push_instr_str_ops _ _ _ _)
        | apply ops_of_opss (push_instr_bstr_ops _ _ _ _)
        | apply ops_of_opss (push_instr_bstr_uint_ops _ _ _ _ _)
        | apply ops_of_opss (push_instr_uint_str_ops _ _ _ _ _)
        | apply ops_of_opss (push_instr_double_ops _ _ _ _)
        | apply ops_of_opss (push_instr_uint_ops _ _ _ _)
        | apply ops_of_opss (push_undefined_loop_ops _ _)
        | apply ops_of_opss (compile_literal_ops _ _)
        | apply ops_of_opss (compile_function_expression_ops _ _)
        | refine ops_of_opss (opss_ite ?_ ?_) (by assumption)
        | apply ops_ite
        | apply opss_ite
        | apply opss_fst_ite)
    | decide
    | split
    | with_reducible (apply opss_ok))

theorem compile_comma_expression_ops_aux {E : Nat → Prop} {lo : Nat} {c : compiler_ctx_t} {e1 e2 : expression_t}
    (ih1 : (∀ {E : Nat → Prop} {c : compiler_ctx_t}, ExprOps E lo c →
      ExprOpsS E lo (compile_expression_noret c e1 none).1))
    (ih2 : (∀ {E : Nat → Prop} {c : compiler_ctx_t}, ExprOps E lo c →
      ExprOpsS E lo (compile_expression_noret c e2 none).1))
    (h : ExprOps E lo c) : ExprOpsS E lo (compile_comma_expression c (.mk e1 e2)) := by
  rw [compile_comma_expression.eq_def]
  try dsimp only
  repeat' (first
    | with_reducible (first
        | exact h
        | assumption
        | exact ops_mono_e h (fun _ hi => Or.inr hi)
        | exact ops_mono_e h (fun _ hi => Or.inr (Or.inr hi))
        | intro _
        | apply opss_ite_failed_self
        | apply opss_ite_failed
        | apply opss_ite_oom
        | apply opss_fst_ite_failed
        | apply opss_fst_ite_oom
        | exact opss_oom
        | refine ops_push ?_ (by first | assumption | decide | (split <;> decide))
        | refine ops_push_hres ?_ (by first | assumption | decide | (split <;> decide))
        | refine ops_push_exempt ?_ (Or.inl rfl) (by first | exact hop | exact hop.2 | decide)
        | refine ops_push_exempt ?_ (Or.inr (Or.inl rfl)) (by first | exact hop | exact hop.2 | decide)
        | refine ops_push_args ?_ (by first | exact hop.1 | decide | (split <;> decide)) (by first | exact fun hc => absurd hc (by decide) | exact fun hc => absurd hc (not_or.2 hop.2) | (intro _; simp)) (by assumption)
        | refine ops_push_arg_na ?_ (by first | assumption | decide | (split <;> decide)) (by assumption)
        | refine ops_patch ?_ (le_refl _) (le_refl _)
        | apply heap_alloc_ops
        | apply compiler_alloc_string_ops
        | apply compiler_alloc_bstr_ops
        | apply literal_as_bstr_ops
        | apply ih1
        | apply ih2
        | apply push_instr_hres_ops
        | apply push_instr_int_ops
        | apply push_instr_str_ops
        | apply push_instr_bstr_ops
        | apply push_instr_bstr_uint_ops
        | apply push_instr_uint_str_ops
        | apply push_instr_double_ops
        | apply push_instr_uint_ops
        | apply push_undefined_loop_ops
        | apply compile_literal_ops
        | apply compile_function_expression_ops
        | apply ops_of_opss (ih1 _)
        | apply ops_of_opss (ih2 _)
        | apply ops_of_opss (push_instr_hres_ops _ _)
        | apply ops_of_opss (push_instr_int_ops _ _ _ _)
        | apply ops_of_opss (push_instr_str_ops _ _ _ _)
        | apply ops_of_opss (push_instr_bstr_ops _ _ _ _)
        | apply ops_of_opss (push_instr_bstr_uint_ops _ _ _ _ _)
        | apply ops_of_opss (push_instr_uint_str_ops _ _ _ _ _)
        | apply ops_of_opss (push_instr_double_ops _ _ _ _)
        | apply ops_of_opss (push_instr_uint_ops _ _ _ _)
        | apply ops_of_opss (push_undefined_loop_ops _ _)
        | apply ops_of_opss (compile_literal_ops _ _)
        | apply ops_of_opss (compile_function_expression_ops _ _)
        | refine ops_of_opss (opss_ite ?_ ?_) (by assumption)
        | apply ops_ite
        | apply opss_ite
        | apply opss_fst_ite)
    | decide
    | split
    | with_reducible (apply opss_ok))

theorem compile_logical_expression_ops_aux {E : Nat → Prop} {lo : Nat} {c : compiler_ctx_t} {e1 e2 : expression_t} (op : jsop_t)
    (ih1 : (∀ {E : Nat → Prop} {c : compiler_ctx_t}, ExprOps E lo c →
      ExprOpsS E lo (compile_expression_noret c e1 none).1))
    (ih2 : (∀ {E : Nat → Prop} {c : compiler_ctx_t}, ExprOps E lo c →
      ExprOpsS E lo (compile_expression_noret c e2 none).1))
    (hop : op ≠ OP_call ∧ op ≠ OP_call_member)
    (h : ExprOps E lo c) : ExprOpsS E lo (compile_logical_expression c (.mk e1 e2) op) := by
  rw [compile_logical_expression.eq_def]
  try dsimp only
  repeat' (first
    | with_reducible (first
        | exact h
        | assumption
        | exact ops_mono_e h (fun _ hi => Or.inr hi)
        | exact ops_mono_e h (fun _ hi => Or.inr (Or.inr hi))
        | intro _
        | apply opss_ite_failed_self
        | apply opss_ite_failed
        | apply opss_ite_oom
        | apply opss_fst_ite_failed
        | apply opss_fst_ite_oom
        | exact opss_oom
        | refine ops_push ?_ (by first | assumption | decide | (split <;> decide))
        | refine ops_push_hres ?_ (by first | assumption | decide | (split <;> decide))
        | refine ops_push_exempt ?_ (Or.inl rfl) (by first | exact hop | exact hop.2 | decide)
        | refine ops_push_exempt ?_ (Or.inr (Or.inl rfl)) (by first | exact hop | exact hop.2 | decide)
        | refine ops_push_args ?_ (by first | exact hop.1 | decide | (split <;> decide)) (by first | exact fun hc => absurd hc (by decide) | exact fun hc => absurd hc (not_or.2 hop.2) | (intro _; simp)) (by assumption)
        | refine ops_push_arg_na ?_ (by first | assumption | decide | (split <;> decide)) (by assumption)
        | refine ops_patch ?_ (le_refl _) (le_refl _)
        | apply heap_alloc_ops
        | apply compiler_alloc_string_ops
        | apply compiler_alloc_bstr_ops
        | apply literal_as_bstr_ops
        | apply ih1
        | apply ih2
        | apply push_instr_hres_ops
        | apply push_instr_int_ops
        | apply push_instr_str_ops
        | apply push_instr_bstr_ops
        | apply push_instr_bstr_uint_ops
        | apply push_instr_uint_str_ops
        | apply push_instr_double_ops
        | apply push_instr_uint_ops
        | apply push_undefined_loop_ops
        | apply compile_literal_ops
        | apply compile_function_expression_ops
        | apply ops_of_opss (ih1 _)
        | apply ops_of_opss (ih2 _)
        | apply ops_of_opss (push_instr_hres_ops _ _)
        | apply ops_of_opss (push_instr_int_ops _ _ _ _)
        | apply ops_of_opss (push_instr_str_ops _ _ _ _)
        | apply ops_of_opss (push_instr_bstr_ops _ _ _ _)
        | apply ops_of_opss (push_instr_bstr_uint_ops _ _ _ _ _)
        | apply ops_of_opss (push_instr_uint_str_ops _ _ _ _ _)
        | apply ops_of_opss (push_instr_double_ops _ _ _ _)
        | apply ops_of_opss (push_instr_uint_ops _ _ _ _)
        | apply ops_of_opss (push_undefined_loop_ops _ _)
        | apply ops_of_opss (compile_literal_ops _ _)
        | apply ops_of_opss (compile_function_expression_ops _ _)
        | refine ops_of_opss (opss_ite ?_ ?_) (by assumption)
        | apply ops_ite
        | apply opss_ite
        | apply opss_fst_ite)
    | decide
    | split
    | with_reducible (apply opss_ok))

theorem compile_conditional_expression_ops_aux {E : Nat → Prop} {lo : Nat} {c : compiler_ctx_t} {e1 e2 e3 : expression_t}
    (ih1 : (∀ {E : Nat → Prop} {c : compiler_ctx_t}, ExprOps E lo c →
      ExprOpsS E lo (compile_expression_noret c e1 none).1))
    (ih2 : (∀ {E : Nat → Prop} {c : compiler_ctx_t}, ExprOps E lo c →
      ExprOpsS E lo (compile_expression_noret c e2 none).1))
    (ih3 : (∀ {E : Nat → Prop} {c : compiler_ctx_t}, ExprOps E lo c →
      ExprOpsS E lo (compile_expression_noret c e3 none).1))
    (h : ExprOps E lo c) : ExprOpsS E lo (compile_conditional_expression c (.mk e1 e2 e3)) := by
  rw [compile_conditional_expression.eq_def]
  try dsimp only
  repeat' (first
    | with_reducible (first
        | exact h
        | assumption
        | exact ops_mono_e h (fun _ hi => Or.inr hi)
        | exact ops_mono_e h (fun _ hi => Or.inr (Or.inr hi))
        | intro _
        | apply opss_ite_failed_self
        | apply opss_ite_failed
        | apply opss_ite_oom
        | apply opss_fst_ite_failed
        | apply opss_fst_ite_oom
        | exact opss_oom
        | refine ops_push ?_ (by first | assumption | decide | (split <;> decide))
        | refine ops_push_hres ?_ (by first | assumption | decide | (split <;> decide))
        | refine ops_push_exempt ?_ (Or.inl rfl) (by first | exact hop | exact hop.2 | decide)
        | refine ops_push_exempt ?_ (Or.inr (Or.inl rfl)) (by first | exact hop | exact hop.2 | decide)
        | refine ops_push_args ?_ (by first | exact hop.1 | decide | (split <;> decide)) (by first | exact fun hc => absurd hc (by decide) | exact fun hc => absurd hc (not_or.2 hop.2) | (intro _; simp)) (by assumption)
        | refine ops_push_arg_na ?_ (by first | assumption | decide | (split <;> decide)) (by assumption)
        | refine ops_patch ?_ (le_refl _) (le_refl _)
        | apply heap_alloc_ops
        | apply compiler_alloc_string_ops
        | apply compiler_alloc_bstr_ops
        | apply literal_as_bstr_ops
        | apply ih1
        | apply ih2
        | apply ih3
        | apply push_instr_hres_ops
        | apply push_instr_int_ops
        | apply push_instr_str_ops
        | apply push_instr_bstr_ops
        | apply push_instr_bstr_uint_ops
        | apply push_instr_uint_str_ops
        | apply push_instr_double_ops
        | apply push_instr_uint_ops
        | apply push_undefined_loop_ops
        | apply compile_literal_ops
        | apply compile_function_expression_ops
        | apply ops_of_opss (ih1 _)
        | apply ops_of_opss (ih2 _)
        | apply ops_of_opss (ih3 _)
        | apply ops_of_opss (push_instr_hres_ops _ _)
        | apply ops_of_opss (push_instr_int_ops _ _ _ _)
        | apply ops_of_opss (push_instr_str_ops _ _ _ _)
        | apply ops_of_opss (push_instr_bstr_ops _ _ _ _)
        | apply ops_of_opss (push_instr_bstr_uint_ops _ _ _ _ _)
        | apply ops_of_opss (push_instr_uint_str_ops _ _ _ _ _)
        | apply ops_of_opss (push_instr_double_ops _ _ _ _)
        | apply ops_of_opss (push_instr_uint_ops _ _ _ _)
        | apply ops_of_opss (push_undefined_loop_ops _ _)
        | apply ops_of_opss (compile_literal_ops _ _)
        | apply ops_of_opss (compile_function_expression_ops _ _)
        | refine ops_of_opss (opss_ite ?_ ?_) (by assumption)
        | apply ops_ite
        | apply opss_ite
        | apply opss_fst_ite)
    | decide
    | split
    | with_reducible (apply opss_ok))

theorem compile_argument_list_ops_aux {E : Nat → Prop} {lo : Nat} {c : compiler_ctx_t} {e1 : expression_t} {next : argument_t} (n : Nat)
    (ih1 : (∀ {E : Nat → Prop} {c : compiler_ctx_t}, ExprOps E lo c →
      ExprOpsS E lo (compile_expression_noret c e1 none).1))
    (iha : (∀ (n : Nat) {E : Nat → Prop} {c : compiler_ctx_t}, ExprOps E lo c →
      ExprOpsS E lo (compile_argument_list c next n).1))
    (h : ExprOps E lo c) : ExprOpsS E lo (compile_argument_list c (.mk e1 next) n).1 := by
  rw [compile_argument_list.eq_def]
  try dsimp only
  repeat' (first
    | with_reducible (first
        | exact h
        | assumption
        | exact ops_mono_e h (fun _ hi => Or.inr hi)
        | exact ops_mono_e h (fun _ hi => Or.inr (Or.inr hi))
        | intro _
        | apply opss_ite_failed_self
        | apply opss_ite_failed
        | apply opss_ite_oom
        | apply opss_fst_ite_failed
        | apply opss_fst_ite_oom
        | exact opss_oom
        | refine ops_push ?_ (by first | assumption | decide | (split <;> decide))
        | refine ops_push_hres ?_ (by first | assumption | decide | (split <;> decide))
        | refine ops_push_exempt ?_ (Or.inl rfl) (by first | exact hop | exact hop.2 | decide)
        | refine ops_push_exempt ?_ (Or.inr (Or.inl rfl)) (by first | exact hop | exact hop.2 | decide)
        | refine ops_push_args ?_ (by first | exact hop.1 | decide | (split <;> decide)) (by first | exact fun hc => absurd hc (by decide) | exact fun hc => absurd hc (not_or.2 hop.2) | (intro _; simp)) (by assumption)
        | refine ops_push_arg_na ?_ (by first | assumption | decide | (split <;> decide)) (by assumption)
        | refine ops_patch ?_ (le_refl _) (le_refl _)
        | apply heap_alloc_ops
        | apply compiler_alloc_string_ops
        | apply compiler_alloc_bstr_ops
        | apply literal_as_bstr_ops
        | apply ih1
        | apply iha
        | apply push_instr_hres_ops
        | apply push_instr_int_ops
        | apply push_instr_str_ops
        | apply push_instr_bstr_ops
        | apply push_instr_bstr_uint_ops
        | apply push_instr_uint_str_ops
        | apply push_instr_double_ops
        | apply push_instr_uint_ops
        | apply push_undefined_loop_ops
        | apply compile_literal_ops
        | apply compile_function_expression_ops
        | apply ops_of_opss (ih1 _)
        | apply ops_of_opss (iha _ _)
        | apply ops_of_opss (push_instr_hres_ops _ _)
        | apply ops_of_opss (push_instr_int_ops _ _ _ _)
        | apply ops_of_opss (push_instr_str_ops _ _ _ _)
        | apply ops_of_opss (push_instr_bstr_ops _ _ _ _)
        | apply ops_of_opss (push_instr_bstr_uint_ops _ _ _ _ _)
        | apply ops_of_opss (push_instr_uint_str_ops _ _ _ _ _)
        | apply ops_of_opss (push_instr_double_ops _ _ _ _)
        | apply ops_of_opss (push_instr_uint_ops _ _ _ _)
        | apply ops_of_opss (push_undefined_loop_ops _ _)
        | apply ops_of_opss (compile_literal_ops _ _)
        | apply ops_of_opss (compile_function_expression_ops _ _)
        | refine ops_of_opss (opss_ite ?_ ?_) (by assumption)
        | apply ops_ite
        | apply opss_ite
        | apply opss_fst_ite)
    | decide
    | split
    | with_reducible (apply opss_ok))

theorem compile_new_expression_ops_aux {E : Nat → Prop} {lo : Nat} {c : compiler_ctx_t} {e1 : expression_t} {args : argument_t}
    (ih1 : (∀ {E : Nat → Prop} {c : compiler_ctx_t}, ExprOps E lo c →
      ExprOpsS E lo (compile_expression_noret c e1 none).1))
    (iha : (∀ (n : Nat) {E : Nat → Prop} {c : compiler_ctx_t}, ExprOps E lo c →
      ExprOpsS E lo (compile_argument_list c args n).1))
    (h : ExprOps E lo c) : ExprOpsS E lo (compile_new_expression c (.mk e1 args)) := by
  rw [compile_new_expression.eq_def]
  try dsimp only
  repeat' (first
    | with_reducible (first
        | exact h
        | assumption
        | exact ops_mono_e h (fun _ hi => Or.inr hi)
        | exact ops_mono_e h (fun _ hi => Or.inr (Or.inr hi))
        | intro _
        | apply opss_ite_failed_self
        | apply opss_ite_failed
        | apply opss_ite_oom
        | apply opss_fst_ite_failed
        | apply opss_fst_ite_oom
        | exact opss_oom
        | refine ops_push ?_ (by first | assumption | decide | (split <;> decide))
        | refine ops_push_hres ?_ (by first | assumption | decide | (split <;> decide))
        | refine ops_push_exempt ?_ (Or.inl rfl) (by first | exact hop | exact hop.2 | decide)
        | refine ops_push_exempt ?_ (Or.inr (Or.inl rfl)) (by first | exact hop | exact hop.2 | decide)
        | refine ops_push_args ?_ (by first | exact hop.1 | decide | (split <;> decide)) (by first | exact fun hc => absurd hc (by decide) | exact fun hc => absurd hc (not_or.2 hop.2) | (intro _; simp)) (by assumption)
        | refine ops_push_arg_na ?_ (by first | assumption | decide | (split <;> decide)) (by assumption)
        | refine ops_patch ?_ (le_refl _) (le_refl _)
        | apply heap_alloc_ops
        | apply compiler_alloc_string_ops
        | apply compiler_alloc_bstr_ops
        | apply literal_as_bstr_ops
        | apply ih1
        | apply iha
        | apply push_instr_hres_ops
        | apply push_instr_int_ops
        | apply push_instr_str_ops
        | apply push_instr_bstr_ops
        | apply push_instr_bstr_uint_ops
        | apply push_instr_uint_str_ops
        | apply push_instr_double_ops
        | apply push_instr_uint_ops
        | apply push_undefined_loop_ops
        | apply compile_literal_ops
        | apply compile_function_expression_ops
        | apply ops_of_opss (ih1 _)
        | apply ops_of_opss (iha _ _)
        | apply ops_of_opss (push_instr_hres_ops _ _)
        | apply ops_of_opss (push_instr_int_ops _ _ _ _)
        | apply ops_of_opss (push_instr_str_ops _ _ _ _)
        | apply ops_of_opss (push_instr_bstr_ops _ _ _ _)
        | apply ops_of_opss (push_instr_bstr_uint_ops _ _ _ _ _)
        | apply ops_of_opss (push_instr_uint_str_ops _ _ _ _ _)
        | apply ops_of_opss (push_instr_double_ops _ _ _ _)
        | apply ops_of_opss (push_instr_uint_ops _ _ _ _)
        | apply ops_of_opss (push_undefined_loop_ops _ _)
        | apply ops_of_opss (compile_literal_ops _ _)
        | apply ops_of_opss (compile_function_expression_ops _ _)
        | refine ops_of_opss (opss_ite ?_ ?_) (by assumption)
        | apply ops_ite
        | apply opss_ite
        | apply opss_fst_ite)
    | decide
    | split
    | with_reducible (apply opss_ok))

theorem compile_call_expression_ops_aux {E : Nat → Prop} {lo : Nat} {c : compiler_ctx_t} {e1 : expression_t} {args : argument_t}
    (ih1 : (∀ {E : Nat → Prop} {c : compiler_ctx_t}, ExprOps E lo c →
      ExprOpsS E lo (compile_expression_noret c e1 none).1))
    (ihm : (∀ (flags : Nat) {E : Nat → Prop} {c : compiler_ctx_t}, ExprOps E lo c →
      ExprOpsS E lo (compile_memberid_expression c e1 flags)))
    (iha : (∀ (n : Nat) {E : Nat → Prop} {c : compiler_ctx_t}, ExprOps E lo c →
      ExprOpsS E lo (compile_argument_list c args n).1))
    (h : ExprOps E lo c) : ExprOpsS E lo (compile_call_expression c (.mk e1 args) none).1 := by
  rw [compile_call_expression.eq_def]
  dsimp only
  by_cases hm : is_memberid_expr e1.type = true
  on_goal 1 => simp only [if_pos hm, Option.isNone_none, Option.isSome_none, ↓reduceIte, Bool.false_eq_true]
  on_goal 2 => simp only [if_neg hm, Option.isNone_none, Option.isSome_none, ↓reduceIte, Bool.false_eq_true]
  all_goals
  repeat' (first
    | with_reducible (first
        | exact h
        | assumption
        | exact ops_mono_e h (fun _ hi => Or.inr hi)
        | exact ops_mono_e h (fun _ hi => Or.inr (Or.inr hi))
        | intro _
        | apply opss_ite_failed_self
        | apply opss_ite_failed
        | apply opss_ite_oom
        | apply opss_fst_ite_failed
        | apply opss_fst_ite_oom
        | exact opss_oom
        | refine ops_push ?_ (by first | assumption | decide | (split <;> decide))
        | refine ops_push_hres ?_ (by first | assumption | decide | (split <;> decide))
        | refine ops_push_exempt ?_ (Or.inl rfl) (by first | exact hop | exact hop.2 | decide)
        | refine ops_push_exempt ?_ (Or.inr (Or.inl rfl)) (by first | exact hop | exact hop.2 | decide)
        | refine ops_push_args ?_ (by first | exact hop.1 | decide | (split <;> decide)) (by first | exact fun hc => absurd hc (by decide) | exact fun hc => absurd hc (not_or.2 hop.2) | (intro _; simp)) (by assumption)
        | refine ops_push_arg_na ?_ (by first | assumption | decide | (split <;> decide)) (by assumption)
        | refine ops_patch ?_ (le_refl _) (le_refl _)
        | apply heap_alloc_ops
        | apply compiler_alloc_string_ops
        | apply compiler_alloc_bstr_ops
        | apply literal_as_bstr_ops
        | apply ih1
        | apply ihm
        | apply iha
        | apply push_instr_hres_ops
        | apply push_instr_int_ops
        | apply push_instr_str_ops
        | apply push_instr_bstr_ops
        | apply push_instr_bstr_uint_ops
        | apply push_instr_uint_str_ops
        | apply push_instr_double_ops
        | apply push_instr_uint_ops
        | apply push_undefined_loop_ops
        | apply compile_literal_ops
        | apply compile_function_expression_ops
        | apply ops_of_opss (ih1 _)
        | apply ops_of_opss (ihm _ _)
        | apply ops_of_opss (iha _ _)
        | apply ops_of_opss (push_instr_hres_ops _ _)
        | apply ops_of_opss (push_instr_int_ops _ _ _ _)
        | apply ops_of_opss (push_instr_str_ops _ _ _ _)
        | apply ops_of_opss (push_instr_bstr_ops _ _ _ _)
        | apply ops_of_opss (push_instr_bstr_uint_ops _ _ _ _ _)
        | apply ops_of_opss (push_instr_uint_str_ops _ _ _ _ _)
        | apply ops_of_opss (push_instr_double_ops _ _ _ _)
        | apply ops_of_opss (push_instr_uint_ops _ _ _ _)
        | apply ops_of_opss (push_undefined_loop_ops _ _)
        | apply ops_of_opss (compile_literal_ops _ _)
        | apply ops_of_opss (compile_function_expression_ops _ _)
        | refine ops_of_opss (opss_ite ?_ ?_) (by assumption)
        | apply ops_ite
        | apply opss_ite
        | apply opss_fst_ite)
    | decide
    | split
    | with_reducible (apply opss_ok))

theorem compile_delete_array_ops_aux {E : Nat → Prop} {lo : Nat} {c : compiler_ctx_t} {e1 e2 : expression_t} (t : binary_type_t)
    (ih1 : (∀ {E : Nat → Prop} {c : compiler_ctx_t}, ExprOps E lo c →
      ExprOpsS E lo (compile_expression_noret c e1 none).1))
    (ih2 : (∀ {E : Nat → Prop} {c : compiler_ctx_t}, ExprOps E lo c →
      ExprOpsS E lo (compile_expression_noret c e2 none).1))
    (ih3 : (∀ {E : Nat → Prop} {c : compiler_ctx_t}, ExprOps E lo c →
      ExprOpsS E lo (compile_expression_noret c (.binary t (.mk e1 e2)) none).1))
    (h : ExprOps E lo c) : ExprOpsS E lo (compile_delete_expression c (.mk (.binary t (.mk e1 e2)))) := by
  rw [compile_delete_expression.eq_def]
  try dsimp only
  repeat' (first
    | with_reducible (first
        | exact h
        | assumption
        | exact ops_mono_e h (fun _ hi => Or.inr hi)
        | exact ops_mono_e h (fun _ hi => Or.inr (Or.inr hi))
        | intro _
        | apply opss_ite_failed_self
        | apply opss_ite_failed
        | apply opss_ite_oom
        | apply opss_fst_ite_failed
        | apply opss_fst_ite_oom
        | exact opss_oom
        | refine ops_push ?_ (by first | assumption | decide | (split <;> decide))
        | refine ops_push_hres ?_ (by first | assumption | decide | (split <;> decide))
        | refine ops_push_exempt ?_ (Or.inl rfl) (by first | exact hop | exact hop.2 | decide)
        | refine ops_push_exempt ?_ (Or.inr (Or.inl rfl)) (by first | exact hop | exact hop.2 | decide)
        | refine ops_push_args ?_ (by first | exact hop.1 | decide | (split <;> decide)) (by first | exact fun hc => absurd hc (by decide) | exact fun hc => absurd hc (not_or.2 hop.2) | (intro _; simp)) (by assumption)
        | refine ops_push_arg_na ?_ (by first | assumption | decide | (split <;> decide)) (by assumption)
        | refine ops_patch ?_ (le_refl _) (le_refl _)
        | apply heap_alloc_ops
        | apply compiler_alloc_string_ops
        | apply compiler_alloc_bstr_ops
        | apply literal_as_bstr_ops
        | apply ih1
        | apply ih2
        | apply ih3
        | apply push_instr_hres_ops
        | apply push_instr_int_ops
        | apply push_instr_str_ops
        | apply push_instr_bstr_ops
        | apply push_instr_bstr_uint_ops
        | apply push_instr_uint_str_ops
        | apply push_instr_double_ops
        | apply push_instr_uint_ops
        | apply push_undefined_loop_ops
        | apply compile_literal_ops
        | apply compile_function_expression_ops
        | apply ops_of_opss (ih1 _)
        | apply ops_of_opss (ih2 _)
        | apply ops_of_opss (ih3 _)
        | apply ops_of_opss (push_instr_hres_ops _ _)
        | apply ops_of_opss (push_instr_int_ops _ _ _ _)
        | apply ops_of_opss (push_instr_str_ops _ _ _ _)
        | apply ops_of_opss (push_instr_bstr_ops _ _ _ _)
        | apply ops_of_opss (push_instr_bstr_uint_ops _ _ _ _ _)
        | apply ops_of_opss (push_instr_uint_str_ops _ _ _ _ _)
        | apply ops_of_opss (push_instr_double_ops _ _ _ _)
        | apply ops_of_opss (push_instr_uint_ops _ _ _ _)
        | apply ops_of_opss (push_undefined_loop_ops _ _)
        | apply ops_of_opss (compile_literal_ops _ _)
        | apply ops_of_opss (compile_function_expression_ops _ _)
        | refine ops_of_opss (opss_ite ?_ ?_) (by assumption)
        | apply ops_ite
        | apply opss_ite
        | apply opss_fst_ite)
    | decide
    | split
    | with_reducible (apply opss_ok))

theorem compile_delete_member_ops_aux {E : Nat → Prop} {lo : Nat} {c : compiler_ctx_t} {e1 : expression_t} (i : String)
    (ih1 : (∀ {E : Nat → Prop} {c : compiler_ctx_t}, ExprOps E lo c →
      ExprOpsS E lo (compile_expression_noret c e1 none).1))
    (ih3 : (∀ {E : Nat → Prop} {c : compiler_ctx_t}, ExprOps E lo c →
      ExprOpsS E lo (compile_expression_noret c (.EXPR_MEMBER (.mk e1 i)) none).1))
    (h : ExprOps E lo c) : ExprOpsS E lo (compile_delete_expression c (.mk (.EXPR_MEMBER (.mk e1 i)))) := by
  rw [compile_delete_expression.eq_def]
  try dsimp only
  repeat' (first
    | with_reducible (first
        | exact h
        | assumption
        | exact ops_mono_e h (fun _ hi => Or.inr hi)
        | exact ops_mono_e h (fun _ hi => Or.inr (Or.inr hi))
        | intro _
        | apply opss_ite_failed_self
        | apply opss_ite_failed
        | apply opss_ite_oom
        | apply opss_fst_ite_failed
        | apply opss_fst_ite_oom
        | exact opss_oom
        | refine ops_push ?_ (by first | assumption | decide | (split <;> decide))
        | refine ops_push_hres ?_ (by first | assumption | decide | (split <;> decide))
        | refine ops_push_exempt ?_ (Or.inl rfl) (by first | exact hop | exact hop.2 | decide)
        | refine ops_push_exempt ?_ (Or.inr (Or.inl rfl)) (by first | exact hop | exact hop.2 | decide)
        | refine ops_push_args ?_ (by first | exact hop.1 | decide | (split <;> decide)) (by first | exact fun hc => absurd hc (by decide) | exact fun hc => absurd hc (not_or.2 hop.2) | (intro _; simp)) (by assumption)
        | refine ops_push_arg_na ?_ (by first | assumption | decide | (split <;> decide)) (by assumption)
        | refine ops_patch ?_ (le_refl _) (le_refl _)
        | apply heap_alloc_ops
        | apply compiler_alloc_string_ops
        | apply compiler_alloc_bstr_ops
        | apply literal_as_bstr_ops
        | apply ih1
        | apply ih3
        | apply push_instr_hres_ops
        | apply push_instr_int_ops
        | apply push_instr_str_ops
        | apply push_instr_bstr_ops
        | apply push_instr_bstr_uint_ops
        | apply push_instr_uint_str_ops
        | apply push_instr_double_ops
        | apply push_instr_uint_ops
        | apply push_undefined_loop_ops
        | apply compile_literal_ops
        | apply compile_function_expression_ops
        | apply ops_of_opss (ih1 _)
        | apply ops_of_opss (ih3 _)
        | apply ops_of_opss (push_instr_hres_ops _ _)
        | apply ops_of_opss (push_instr_int_ops _ _ _ _)
        | apply ops_of_opss (push_instr_str_ops _ _ _ _)
        | apply ops_of_opss (push_instr_bstr_ops _ _ _ _)
        | apply ops_of_opss (push_instr_bstr_uint_ops _ _ _ _ _)
        | apply ops_of_opss (push_instr_uint_str_ops _ _ _ _ _)
        | apply ops_of_opss (push_instr_double_ops _ _ _ _)
        | apply ops_of_opss (push_instr_uint_ops _ _ _ _)
        | apply ops_of_opss (push_undefined_loop_ops _ _)
        | apply ops_of_opss (compile_literal_ops _ _)
        | apply ops_of_opss (compile_function_expression_ops _ _)
        | refine ops_of_opss (opss_ite ?_ ?_) (by assumption)
        | apply ops_ite
        | apply opss_ite
        | apply opss_fst_ite)
    | decide
    | split
    | with_reducible (apply opss_ok))

theorem compile_delete_other_ops_aux {E : Nat → Prop} {lo : Nat} {c : compiler_ctx_t} {e1 : expression_t}
    (ih1 : (∀ {E : Nat → Prop} {c : compiler_ctx_t}, ExprOps E lo c →
      ExprOpsS E lo (compile_expression_noret c e1 none).1))
    (hty : e1.type ≠ .EXPR_ARRAY ∧ e1.type ≠ .EXPR_MEMBER)
    (h : ExprOps E lo c) : ExprOpsS E lo (compile_delete_expression c (.mk e1)) := by
  rw [compile_delete_expression.eq_def]
  dsimp only
  rw [if_neg hty.1, if_neg hty.2]
  repeat' (first
    | with_reducible (first
        | exact h
        | assumption
        | exact ops_mono_e h (fun _ hi => Or.inr hi)
        | exact ops_mono_e h (fun _ hi => Or.inr (Or.inr hi))
        | intro _
        | apply opss_ite_failed_self
        | apply opss_ite_failed
        | apply opss_ite_oom
        | apply opss_fst_ite_failed
        | apply opss_fst_ite_oom
        | exact opss_oom
        | refine ops_push ?_ (by first | assumption | decide | (split <;> decide))
        | refine ops_push_hres ?_ (by first | assumption | decide | (split <;> decide))
        | refine ops_push_exempt ?_ (Or.inl rfl) (by first | exact hop | exact hop.2 | decide)
        | refine ops_push_exempt ?_ (Or.inr (Or.inl rfl)) (by first | exact hop | exact hop.2 | decide)
        | refine ops_push_args ?_ (by first | exact hop.1 | decide | (split <;> decide)) (by first | exact fun hc => absurd hc (by decide) | exact fun hc => absurd hc (not_or.2 hop.2) | (intro _; simp)) (by assumption)
        | refine ops_push_arg_na ?_ (by first | assumption | decide | (split <;> decide)) (by assumption)
        | refine ops_patch ?_ (le_refl _) (le_refl _)
        | apply heap_alloc_ops
        | apply compiler_alloc_string_ops
        | apply compiler_alloc_bstr_ops
        | apply literal_as_bstr_ops
        | apply ih1
        | apply push_instr_hres_ops
        | apply push_instr_int_ops
        | apply push_instr_str_ops
        | apply push_instr_bstr_ops
        | apply push_instr_bstr_uint_ops
        | apply push_instr_uint_str_ops
        | apply push_instr_double_ops
        | apply push_instr_uint_ops
        | apply push_undefined_loop_ops
        | apply compile_literal_ops
        | apply compile_function_expression_ops
        | apply ops_of_opss (ih1 _)
        | apply ops_of_opss (push_instr_hres_ops _ _)
        | apply ops_of_opss (push_instr_int_ops _ _ _ _)
        | apply ops_of_opss (push_instr_str_ops _ _ _ _)
        | apply ops_of_opss (push_instr_bstr_ops _ _ _ _)
        | apply ops_of_opss (push_instr_bstr_uint_ops _ _ _ _ _)
        | apply ops_of_opss (push_instr_uint_str_ops _ _ _ _ _)
        | apply ops_of_opss (push_instr_double_ops _ _ _ _)
        | apply ops_of_opss (push_instr_uint_ops _ _ _ _)
        | apply ops_of_opss (push_undefined_loop_ops _ _)
        | apply ops_of_opss (compile_literal_ops _ _)
        | apply ops_of_opss (compile_function_expression_ops _ _)
        | refine ops_of_opss (opss_ite ?_ ?_) (by assumption)
        | apply ops_ite
        | apply opss_ite
        | apply opss_fst_ite)
    | decide
    | split
    | with_reducible (apply opss_ok))

theorem compile_assign_expression_ops_aux {E : Nat → Prop} {lo : Nat} {c : compiler_ctx_t} {e1 e2 : expression_t} (op : jsop_t)
    (ih1 : (∀ {E : Nat → Prop} {c : compiler_ctx_t}, ExprOps E lo c →
      ExprOpsS E lo (compile_expression_noret c e1 none).1))
    (ihm : (∀ (flags : Nat) {E : Nat → Prop} {c : compiler_ctx_t}, ExprOps E lo c →
      ExprOpsS E lo (compile_memberid_expression c e1 flags)))
    (ih2 : (∀ {E : Nat → Prop} {c : compiler_ctx_t}, ExprOps E lo c →
      ExprOpsS E lo (compile_expression_noret c e2 none).1))
    (hop : instr_info_arg1_type op ≠ ARG_ADDR ∧ op ≠ OP_call ∧ op ≠ OP_call_member)
    (h : ExprOps E lo c) : ExprOpsS E lo (compile_assign_expression c (.mk e1 e2) op) := by
  rw [compile_assign_expression.eq_def]
  dsimp only
  by_cases ho : op ≠ OP_LAST
  on_goal 1 => simp only [if_pos ho]
  on_goal 2 => simp only [if_neg ho]
  all_goals
  repeat' (first
    | with_reducible (first
        | exact h
        | assumption
        | exact ops_mono_e h (fun _ hi => Or.inr hi)
        | exact ops_mono_e h (fun _ hi => Or.inr (Or.inr hi))
        | intro _
        | apply opss_ite_failed_self
        | apply opss_ite_failed
        | apply opss_ite_oom
        | apply opss_fst_ite_failed
        | apply opss_fst_ite_oom
        | exact opss_oom
        | refine ops_push ?_ (by first | assumption | decide | (split <;> decide))
        | refine ops_push_hres ?_ (by first | assumption | decide | (split <;> decide))
        | refine ops_push_exempt ?_ (Or.inl rfl) (by first | exact hop | exact hop.2 | decide)
        | refine ops_push_exempt ?_ (Or.inr (Or.inl rfl)) (by first | exact hop | exact hop.2 | decide)
        | refine ops_push_args ?_ (by first | exact hop.1 | decide | (split <;> decide)) (by first | exact fun hc => absurd hc (by decide) | exact fun hc => absurd hc (not_or.2 hop.2) | (intro _; simp)) (by assumption)
        | refine ops_push_arg_na ?_ (by first | assumption | decide | (split <;> decide)) (by assumption)
        | refine ops_patch ?_ (le_refl _) (le_refl _)
        | apply heap_alloc_ops
        | apply compiler_alloc_string_ops
        | apply compiler_alloc_bstr_ops
        | apply literal_as_bstr_ops
        | apply ih1
        | apply ihm
        | apply ih2
        | apply push_instr_hres_ops
        | apply push_instr_int_ops
        | apply push_instr_str_ops
        | apply push_instr_bstr_ops
        | apply push_instr_bstr_uint_ops
        | apply push_instr_uint_str_ops
        | apply push_instr_double_ops
        | apply push_instr_uint_ops
        | apply push_undefined_loop_ops
        | apply compile_literal_ops
        | apply compile_function_expression_ops
        | apply ops_of_opss (ih1 _)
        | apply ops_of_opss (ihm _ _)
        | apply ops_of_opss (ih2 _)
        | apply ops_of_opss (push_instr_hres_ops _ _)
        | apply ops_of_opss (push_instr_int_ops _ _ _ _)
        | apply ops_of_opss (push_instr_str_ops _ _ _ _)
        | apply ops_of_opss (push_instr_bstr_ops _ _ _ _)
        | apply ops_of_opss (push_instr_bstr_uint_ops _ _ _ _ _)
        | apply ops_of_opss (push_instr_uint_str_ops _ _ _ _ _)
        | apply ops_of_opss (push_instr_double_ops _ _ _ _)
        | apply ops_of_opss (push_instr_uint_ops _ _ _ _)
        | apply ops_of_opss (push_undefined_loop_ops _ _)
        | apply ops_of_opss (compile_literal_ops _ _)
        | apply ops_of_opss (compile_function_expression_ops _ _)
        | refine ops_of_opss (opss_ite ?_ ?_) (by assumption)
        | apply ops_ite
        | apply opss_ite
        | apply opss_fst_ite)
    | decide
    | split
    | with_reducible (apply opss_ok))

theorem compile_typeof_expression_ops_aux {E : Nat → Prop} {lo : Nat} {c : compiler_ctx_t} {e1 : expression_t}
    (ih1 : (∀ {E : Nat → Prop} {c : compiler_ctx_t}, ExprOps E lo c →
      ExprOpsS E lo (compile_expression_noret c e1 none).1))
    (ihm : (∀ (flags : Nat) {E : Nat → Prop} {c : compiler_ctx_t}, ExprOps E lo c →
      ExprOpsS E lo (compile_memberid_expression c e1 flags)))
    (h : ExprOps E lo c) : ExprOpsS E lo (compile_typeof_expression c (.mk e1)) := by
  rw [compile_typeof_expression.eq_def]
  try dsimp only
  repeat' (first
    | with_reducible (first
        | exact h
        | assumption
        | exact ops_mono_e h (fun _ hi => Or.inr hi)
        | exact ops_mono_e h (fun _ hi => Or.inr (Or.inr hi))
        | intro _
        | apply opss_ite_failed_self
        | apply opss_ite_failed
        | apply opss_ite_oom
        | apply opss_fst_ite_failed
        | apply opss_fst_ite_oom
        | exact opss_oom
        | refine ops_push ?_ (by first | assumption | decide | (split <;> decide))
        | refine ops_push_hres ?_ (by first | assumption | decide | (split <;> decide))
        | refine ops_push_exempt ?_ (Or.inl rfl) (by first | exact hop | exact hop.2 | decide)
        | refine ops_push_exempt ?_ (Or.inr (Or.inl rfl)) (by first | exact hop | exact hop.2 | decide)
        | refine ops_push_args ?_ (by first | exact hop.1 | decide | (split <;> decide)) (by first | exact fun hc => absurd hc (by decide) | exact fun hc => absurd hc (not_or.2 hop.2) | (intro _; simp)) (by assumption)
        | refine ops_push_arg_na ?_ (by first | assumption | decide | (split <;> decide)) (by assumption)
        | refine ops_patch ?_ (le_refl _) (le_refl _)
        | apply heap_alloc_ops
        | apply compiler_alloc_string_ops
        | apply compiler_alloc_bstr_ops
        | apply literal_as_bstr_ops
        | apply ih1
        | apply ihm
        | apply push_instr_hres_ops
        | apply push_instr_int_ops
        | apply push_instr_str_ops
        | apply push_instr_bstr_ops
        | apply push_instr_bstr_uint_ops
        | apply push_instr_uint_str_ops
        | apply push_instr_double_ops
        | apply push_instr_uint_ops
        | apply push_undefined_loop_ops
        | apply compile_literal_ops
        | apply compile_function_expression_ops
        | apply ops_of_opss (ih1 _)
        | apply ops_of_opss (ihm _ _)
        | apply ops_of_opss (push_instr_hres_ops _ _)
        | apply ops_of_opss (push_instr_int_ops _ _ _ _)
        | apply ops_of_opss (push_instr_str_ops _ _ _ _)
        | apply ops_of_opss (push_instr_bstr_ops _ _ _ _)
        | apply ops_of_opss (push_instr_bstr_uint_ops _ _ _ _ _)
        | apply ops_of_opss (push_instr_uint_str_ops _ _ _ _ _)
        | apply ops_of_opss (push_instr_double_ops _ _ _ _)
        | apply ops_of_opss (push_instr_uint_ops _ _ _ _)
        | apply ops_of_opss (push_undefined_loop_ops _ _)
        | apply ops_of_opss (compile_literal_ops _ _)
        | apply ops_of_opss (compile_function_expression_ops _ _)
        | refine ops_of_opss (opss_ite ?_ ?_) (by assumption)
        | apply ops_ite
        | apply opss_ite
        | apply opss_fst_ite)
    | decide
    | split
    | with_reducible (apply opss_ok))

theorem compile_array_elements_ops_aux {E : Nat → Prop} {lo : Nat} {c : compiler_ctx_t} {e1 : expression_t} {next : array_element_t} (elision n : Nat)
    (ih1 : (∀ {E : Nat → Prop} {c : compiler_ctx_t}, ExprOps E lo c →
      ExprOpsS E lo (compile_expression_noret c e1 none).1))
    (ihn : (∀ (n : Nat) {E : Nat → Prop} {c : compiler_ctx_t}, ExprOps E lo c →
      ExprOpsS E lo (compile_array_elements c next n).1))
    (h : ExprOps E lo c) : ExprOpsS E lo (compile_array_elements c (.mk elision e1 next) n).1 := by
  rw [compile_array_elements.eq_def]
  try dsimp only
  repeat' (first
    | with_reducible (first
        | exact h
        | assumption
        | exact ops_mono_e h (fun _ hi => Or.inr hi)
        | exact ops_mono_e h (fun _ hi => Or.inr (Or.inr hi))
        | intro _
        | apply opss_ite_failed_self
        | apply opss_ite_failed
        | apply opss_ite_oom
        | apply opss_fst_ite_failed
        | apply opss_fst_ite_oom
        | exact opss_oom
        | refine ops_push ?_ (by first | assumption | decide | (split <;> decide))
        | refine ops_push_hres ?_ (by first | assumption | decide | (split <;> decide))
        | refine ops_push_exempt ?_ (Or.inl rfl) (by first | exact hop | exact hop.2 | decide)
        | refine ops_push_exempt ?_ (Or.inr (Or.inl rfl)) (by first | exact hop | exact hop.2 | decide)
        | refine ops_push_args ?_ (by first | exact hop.1 | decide | (split <;> decide)) (by first | exact fun hc => absurd hc (by decide) | exact fun hc => absurd hc (not_or.2 hop.2) | (intro _; simp)) (by assumption)
        | refine ops_push_arg_na ?_ (by first | assumption | decide | (split <;> decide)) (by assumption)
        | refine ops_patch ?_ (le_refl _) (le_refl _)
        | apply heap_alloc_ops
        | apply compiler_alloc_string_ops
        | apply compiler_alloc_bstr_ops
        | apply literal_as_bstr_ops
        | apply ih1
        | apply ihn
        | apply push_instr_hres_ops
        | apply push_instr_int_ops
        | apply push_instr_str_ops
        | apply push_instr_bstr_ops
        | apply push_instr_bstr_uint_ops
        | apply push_instr_uint_str_ops
        | apply push_instr_double_ops
        | apply push_instr_uint_ops
        | apply push_undefined_loop_ops
        | apply compile_literal_ops
        | apply compile_function_expression_ops
        | apply ops_of_opss (ih1 _)
        | apply ops_of_opss (ihn _ _)
        | apply ops_of_opss (push_instr_hres_ops _ _)
        | apply ops_of_opss (push_instr_int_ops _ _ _ _)
        | apply ops_of_opss (push_instr_str_ops _ _ _ _)
        | apply ops_of_opss (push_instr_bstr_ops _ _ _ _)
        | apply ops_of_opss (push_instr_bstr_uint_ops _ _ _ _ _)
        | apply ops_of_opss (push_instr_uint_str_ops _ _ _ _ _)
        | apply ops_of_opss (push_instr_double_ops _ _ _ _)
        | apply ops_of_opss (push_instr_uint_ops _ _ _ _)
        | apply ops_of_opss (push_undefined_loop_ops _ _)
        | apply ops_of_opss (compile_literal_ops _ _)
        | apply ops_of_opss (compile_function_expression_ops _ _)
        | refine ops_of_opss (opss_ite ?_ ?_) (by assumption)
        | apply ops_ite
        | apply opss_ite
        | apply opss_fst_ite)
    | decide
    | split
    | with_reducible (apply opss_ok))

theorem compile_array_literal_ops_aux {E : Nat → Prop} {lo : Nat} {c : compiler_ctx_t} {l : array_element_t} (n : Nat)
    (ihl : (∀ (n : Nat) {E : Nat → Prop} {c : compiler_ctx_t}, ExprOps E lo c →
      ExprOpsS E lo (compile_array_elements c l n).1))
    (h : ExprOps E lo c) : ExprOpsS E lo (compile_array_literal c (.mk l n)) := by
  rw [compile_array_literal.eq_def]
  try dsimp only
  repeat' (first
    | with_reducible (first
        | exact h
        | assumption
        | exact ops_mono_e h (fun _ hi => Or.inr hi)
        | exact ops_mono_e h (fun _ hi => Or.inr (Or.inr hi))
        | intro _
        | apply opss_ite_failed_self
        | apply opss_ite_failed
        | apply opss_ite_oom
        | apply opss_fst_ite_failed
        | apply opss_fst_ite_oom
        | exact opss_oom
        | refine ops_push ?_ (by first | assumption | decide | (split <;> decide))
        | refine ops_push_hres ?_ (by first | assumption | decide | (split <;> decide))
        | refine ops_push_exempt ?_ (Or.inl rfl) (by first | exact hop | exact hop.2 | decide)
        | refine ops_push_exempt ?_ (Or.inr (Or.inl rfl)) (by first | exact hop | exact hop.2 | decide)
        | refine ops_push_args ?_ (by first | exact hop.1 | decide | (split <;> decide)) (by first | exact fun hc => absurd hc (by decide) | exact fun hc => absurd hc (not_or.2 hop.2) | (intro _; simp)) (by assumption)
        | refine ops_push_arg_na ?_ (by first | assumption | decide | (split <;> decide)) (by assumption)
        | refine ops_patch ?_ (le_refl _) (le_refl _)
        | apply heap_alloc_ops
        | apply compiler_alloc_string_ops
        | apply compiler_alloc_bstr_ops
        | apply literal_as_bstr_ops
        | apply ihl
        | apply push_instr_hres_ops
        | apply push_instr_int_ops
        | apply push_instr_str_ops
        | apply push_instr_bstr_ops
        | apply push_instr_bstr_uint_ops
        | apply push_instr_uint_str_ops
        | apply push_instr_double_ops
        | apply push_instr_uint_ops
        | apply push_undefined_loop_ops
        | apply compile_literal_ops
        | apply compile_function_expression_ops
        | apply ops_of_opss (ihl _ _)
        | apply ops_of_opss (push_instr_hres_ops _ _)
        | apply ops_of_opss (push_instr_int_ops _ _ _ _)
        | apply ops_of_opss (push_instr_str_ops _ _ _ _)
        | apply ops_of_opss (push_instr_bstr_ops _ _ _ _)
        | apply ops_of_opss (push_instr_bstr_uint_ops _ _ _ _ _)
        | apply ops_of_opss (push_instr_uint_str_ops _ _ _ _ _)
        | apply ops_of_opss (push_instr_double_ops _ _ _ _)
        | apply ops_of_opss (push_instr_uint_ops _ _ _ _)
        | apply ops_of_opss (push_undefined_loop_ops _ _)
        | apply ops_of_opss (compile_literal_ops _ _)
        | apply ops_of_opss (compile_function_expression_ops _ _)
        | refine ops_of_opss (opss_ite ?_ ?_) (by assumption)
        | apply ops_ite
        | apply opss_ite
        | apply opss_fst_ite)
    | decide
    | split
    | with_reducible (apply opss_ok))

theorem compile_property_list_ops_aux {E : Nat → Prop} {lo : Nat} {c : compiler_ctx_t} {e1 : expression_t} {next : prop_val_t} (name : literal_t)
    (ih1 : (∀ {E : Nat → Prop} {c : compiler_ctx_t}, ExprOps E lo c →
      ExprOpsS E lo (compile_expression_noret c e1 none).1))
    (ihn : (∀ {E : Nat → Prop} {c : compiler_ctx_t}, ExprOps E lo c →
      ExprOpsS E lo (compile_property_list c next)))
    (h : ExprOps E lo c) : ExprOpsS E lo (compile_property_list c (.mk name e1 next)) := by
  rw [compile_property_list.eq_def]
  try dsimp only
  repeat' (first
    | with_reducible (first
        | exact h
        | assumption
        | exact ops_mono_e h (fun _ hi => Or.inr hi)
        | exact ops_mono_e h (fun _ hi => Or.inr (Or.inr hi))
        | intro _
        | apply opss_ite_failed_self
        | apply opss_ite_failed
        | apply opss_ite_oom
        | apply opss_fst_ite_failed
        | apply opss_fst_ite_oom
        | exact opss_oom
        | refine ops_push ?_ (by first | assumption | decide | (split <;> decide))
        | refine ops_push_hres ?_ (by first | assumption | decide | (split <;> decide))
        | refine ops_push_exempt ?_ (Or.inl rfl) (by first | exact hop | exact hop.2 | decide)
        | refine ops_push_exempt ?_ (Or.inr (Or.inl rfl)) (by first | exact hop | exact hop.2 | decide)
        | refine ops_push_args ?_ (by first | exact hop.1 | decide | (split <;> decide)) (by first | exact fun hc => absurd hc (by decide) | exact fun hc => absurd hc (not_or.2 hop.2) | (intro _; simp)) (by assumption)
        | refine ops_push_arg_na ?_ (by first | assumption | decide | (split <;> decide)) (by assumption)
        | refine ops_patch ?_ (le_refl _) (le_refl _)
        | apply heap_alloc_ops
        | apply compiler_alloc_string_ops
        | apply compiler_alloc_bstr_ops
        | apply literal_as_bstr_ops
        | apply ih1
        | apply ihn
        | apply push_instr_hres_ops
        | apply push_instr_int_ops
        | apply push_instr_str_ops
        | apply push_instr_bstr_ops
        | apply push_instr_bstr_uint_ops
        | apply push_instr_uint_str_ops
        | apply push_instr_double_ops
        | apply push_instr_uint_ops
        | apply push_undefined_loop_ops
        | apply compile_literal_ops
        | apply compile_function_expression_ops
        | apply ops_of_opss (ih1 _)
        | apply ops_of_opss (ihn _)
        | apply ops_of_opss (push_instr_hres_ops _ _)
        | apply ops_of_opss (push_instr_int_ops _ _ _ _)
        | apply ops_of_opss (push_instr_str_ops _ _ _ _)
        | apply ops_of_opss (push_instr_bstr_ops _ _ _ _)
        | apply ops_of_opss (push_instr_bstr_uint_ops _ _ _ _ _)
        | apply ops_of_opss (push_instr_uint_str_ops _ _ _ _ _)
        | apply ops_of_opss (push_instr_double_ops _ _ _ _)
        | apply ops_of_opss (push_instr_uint_ops _ _ _ _)
        | apply ops_of_opss (push_undefined_loop_ops _ _)
        | apply ops_of_opss (compile_literal_ops _ _)
        | apply ops_of_opss (compile_function_expression_ops _ _)
        | refine ops_of_opss (opss_ite ?_ ?_) (by assumption)
        | apply ops_ite
        | apply opss_ite
        | apply opss_fst_ite)
    | decide
    | split
    | with_reducible (apply opss_ok))

theorem compile_object_literal_ops_aux {E : Nat → Prop} {lo : Nat} {c : compiler_ctx_t} {l : prop_val_t}
    (ihn : (∀ {E : Nat → Prop} {c : compiler_ctx_t}, ExprOps E lo c →
      ExprOpsS E lo (compile_property_list c l)))
    (h : ExprOps E lo c) : ExprOpsS E lo (compile_object_literal c (.mk l)) := by
  rw [compile_object_literal.eq_def]
  try dsimp only
  repeat' (first
    | with_reducible (first
        | exact h
        | assumption
        | exact ops_mono_e h (fun _ hi => Or.inr hi)
        | exact ops_mono_e h (fun _ hi => Or.inr (Or.inr hi))
        | intro _
        | apply opss_ite_failed_self
        | apply opss_ite_failed
        | apply opss_ite_oom
        | apply opss_fst_ite_failed
        | apply opss_fst_ite_oom
        | exact opss_oom
        | refine ops_push ?_ (by first | assumption | decide | (split <;> decide))
        | refine ops_push_hres ?_ (by first | assumption | decide | (split <;> decide))
        | refine ops_push_exempt ?_ (Or.inl rfl) (by first | exact hop | exact hop.2 | decide)
        | refine ops_push_exempt ?_ (Or.inr (Or.inl rfl)) (by first | exact hop | exact hop.2 | decide)
        | refine ops_push_args ?_ (by first | exact hop.1 | decide | (split <;> decide)) (by first | exact fun hc => absurd hc (by decide) | exact fun hc => absurd hc (not_or.2 hop.2) | (intro _; simp)) (by assumption)
        | refine ops_push_arg_na ?_ (by first | assumption | decide | (split <;> decide)) (by assumption)
        | refine ops_patch ?_ (le_refl _) (le_refl _)
        | apply heap_alloc_ops
        | apply compiler_alloc_string_ops
        | apply compiler_alloc_bstr_ops
        | apply literal_as_bstr_ops
        | apply ihn
        | apply push_instr_hres_ops
        | apply push_instr_int_ops
        | apply push_instr_str_ops
        | apply push_instr_bstr_ops
        | apply push_instr_bstr_uint_ops
        | apply push_instr_uint_str_ops
        | apply push_instr_double_ops
        | apply push_instr_uint_ops
        | apply push_undefined_loop_ops
        | apply compile_literal_ops
        | apply compile_function_expression_ops
        | apply ops_of_opss (ihn _)
        | apply ops_of_opss (push_instr_hres_ops _ _)
        | apply ops_of_opss (push_instr_int_ops _ _ _ _)
        | apply ops_of_opss (push_instr_str_ops _ _ _ _)
        | apply ops_of_opss (push_instr_bstr_ops _ _ _ _)
        | apply ops_of_opss (push_instr_bstr_uint_ops _ _ _ _ _)
        | apply ops_of_opss (push_instr_uint_str_ops _ _ _ _ _)
        | apply ops_of_opss (push_instr_double_ops _ _ _ _)
        | apply ops_of_opss (push_instr_uint_ops _ _ _ _)
        | apply ops_of_opss (push_undefined_loop_ops _ _)
        | apply ops_of_opss (compile_literal_ops _ _)
        | apply ops_of_opss (compile_function_expression_ops _ _)
        | refine ops_of_opss (opss_ite ?_ ?_) (by assumption)
        | apply ops_ite
        | apply opss_ite
        | apply opss_fst_ite)
    | decide
    | split
    | with_reducible (apply opss_ok))

mutual
theorem compile_expression_noret_ops {lo : Nat} :
    ∀ (e : expression_t) {E : Nat → Prop} {c : compiler_ctx_t},
      ExprOps E lo c → ExprOpsS E lo (compile_expression_noret c e none).1
  | .binary type expr, E, c, h => by
    cases type <;> rw [compile_expression_noret] <;>
    first
      | with_reducible exact compile_binary_expression_ops _ _ (by decide) h
      | with_reducible exact compile_binary_expression_ops _ _ _ (by decide) h
      | with_reducible exact compile_binary_expression_ops _ _ h
      | with_reducible exact compile_binary_expression_ops _ h
      | with_reducible exact compile_logical_expression_ops _ _ (by decide) h
      | with_reducible exact compile_logical_expression_ops _ _ _ (by decide) h
      | with_reducible exact compile_logical_expression_ops _ _ h
      | with_reducible exact compile_logical_expression_ops _ h
      | with_reducible exact compile_assign_expression_ops _ _ (by decide) h
      | with_reducible exact compile_assign_expression_ops _ _ _ (by decide) h
      | with_reducible exact compile_assign_expression_ops _ _ h
      | with_reducible exact compile_assign_expression_ops _ h
      | with_reducible exact compile_comma_expression_ops _ _ (by decide) h
      | with_reducible exact compile_comma_expression_ops _ _ _ (by decide) h
      | with_reducible exact compile_comma_expression_ops _ _ h
      | with_reducible exact compile_comma_expression_ops _ h
      | with_reducible exact compile_unary_expression_ops _ _ (by decide) h
      | with_reducible exact compile_unary_expression_ops _ _ _ (by decide) h
      | with_reducible exact compile_unary_expression_ops _ _ h
      | with_reducible exact compile_unary_expression_ops _ h
      | with_reducible exact compile_delete_expression_ops _ _ (by decide) h
      | with_reducible exact compile_delete_expression_ops _ _ _ (by decide) h
      | with_reducible exact compile_delete_expression_ops _ _ h
      | with_reducible exact compile_delete_expression_ops _ h
      | with_reducible exact compile_increment_expression_ops _ _ (by decide) h
      | with_reducible exact compile_increment_expression_ops _ _ _ (by decide) h
      | with_reducible exact compile_increment_expression_ops _ _ h
      | with_reducible exact compile_increment_expression_ops _ h
      | with_reducible exact compile_typeof_expression_ops _ _ (by decide) h
      | with_reducible exact compile_typeof_expression_ops _ _ _ (by decide) h
      | with_reducible exact compile_typeof_expression_ops _ _ h
      | with_reducible exact compile_typeof_expression_ops _ h
  | .unary type expr, E, c, h => by
    cases type <;> rw [compile_expression_noret] <;>
    first
      | with_reducible exact compile_binary_expression_ops _ _ (by decide) h
      | with_reducible exact compile_binary_expression_ops _ _ _ (by decide) h
      | with_reducible exact compile_binary_expression_ops _ _ h
      | with_reducible exact compile_binary_expression_ops _ h
      | with_reducible exact compile_logical_expression_ops _ _ (by decide) h
      | with_reducible exact compile_logical_expression_ops _ _ _ (by decide) h
      | with_reducible exact compile_logical_expression_ops _ _ h
      | with_reducible exact compile_logical_expression_ops _ h
      | with_reducible exact compile_assign_expression_ops _ _ (by decide) h
      | with_reducible exact compile_assign_expression_ops _ _ _ (by decide) h
      | with_reducible exact compile_assign_expression_ops _ _ h
      | with_reducible exact compile_assign_expression_ops _ h
      | with_reducible exact compile_comma_expression_ops _ _ (by decide) h
      | with_reducible exact compile_comma_expression_ops _ _ _ (by decide) h
      | with_reducible exact compile_comma_expression_ops _ _ h
      | with_reducible exact compile_comma_expression_ops _ h
      | with_reducible exact compile_unary_expression_ops _ _ (by decide) h
      | with_reducible exact compile_unary_expression_ops _ _ _ (by decide) h
      | with_reducible exact compile_unary_expression_ops _ _ h
      | with_reducible exact compile_unary_expression_ops _ h
      | with_reducible exact compile_delete_expression_ops _ _ (by decide) h
      | with_reducible exact compile_delete_expression_ops _ _ _ (by decide) h
      | with_reducible exact compile_delete_expression_ops _ _ h
      | with_reducible exact compile_delete_expression_ops _ h
      | with_reducible exact compile_increment_expression_ops _ _ (by decide) h
      | with_reducible exact compile_increment_expression_ops _ _ _ (by decide) h
      | with_reducible exact compile_increment_expression_ops _ _ h
      | with_reducible exact compile_increment_expression_ops _ h
      | with_reducible exact compile_typeof_expression_ops _ _ (by decide) h
      | with_reducible exact compile_typeof_expression_ops _ _ _ (by decide) h
      | with_reducible exact compile_typeof_expression_ops _ _ h
      | with_reducible exact compile_typeof_expression_ops _ h
  | .EXPR_CALL expr, E, c, h => by
    rw [compile_expression_noret]; exact compile_call_expression_ops expr h
  | .EXPR_COND expr, E, c, h => by
    rw [compile_expression_noret]; exact compile_conditional_expression_ops expr h
  | .EXPR_FUNC expr, E, c, h => by
    rw [compile_expression_noret]; exact compile_function_expression_ops expr h
  | .EXPR_IDENT expr, E, c, h => by
    rw [compile_expression_noret]; exact push_instr_bstr_ops _ _ h (by decide)
  | .EXPR_LITERAL expr, E, c, h => by
    rw [compile_expression_noret]; exact compile_literal_ops _ h
  | .EXPR_MEMBER expr, E, c, h => by
    rw [compile_expression_noret]; exact compile_member_expression_ops expr h
  | .EXPR_NEW expr, E, c, h => by
    rw [compile_expression_noret]; exact compile_new_expression_ops expr h
  | .EXPR_PROPVAL expr, E, c, h => by
    rw [compile_expression_noret]; exact compile_object_literal_ops expr h
  | .EXPR_ARRAYLIT expr, E, c, h => by
    rw [compile_expression_noret]; exact compile_array_literal_ops expr h
  | .EXPR_THIS, E, c, h => by
    rw [compile_expression_noret]; exact push_instr_hres_ops h (by decide)

theorem compile_binary_expression_ops {lo : Nat} :
    ∀ (e : binary_expression_t) (op : jsop_t) (_ : instr_info_arg1_type op ≠ ARG_ADDR ∧ op ≠ OP_call ∧ op ≠ OP_call_member) {E : Nat → Prop} {c : compiler_ctx_t},
      ExprOps E lo c → ExprOpsS E lo (compile_binary_expression c e op)
  | .mk e1 e2, op, hop, E, c, h => compile_binary_expression_ops_aux op (compile_expression_noret_ops e1) (compile_expression_noret_ops e2) hop h

theorem compile_unary_expression_ops {lo : Nat} :
    ∀ (e : unary_expression_t) (op : jsop_t) (_ : instr_info_arg1_type op ≠ ARG_ADDR ∧ op ≠ OP_call ∧ op ≠ OP_call_member) {E : Nat → Prop} {c : compiler_ctx_t},
      ExprOps E lo c → ExprOpsS E lo (compile_unary_expression c e op)
  | .mk e1, op, hop, E, c, h => compile_unary_expression_ops_aux op (compile_expression_noret_ops e1) hop h

theorem compile_member_expression_ops {lo : Nat} :
    ∀ (e : member_expression_t) {E : Nat → Prop} {c : compiler_ctx_t},
      ExprOps E lo c → ExprOpsS E lo (compile_member_expression c e)
  | .mk e1 i, E, c, h => compile_member_expression_ops_aux i (compile_expression_noret_ops e1) h

theorem compile_memberid_expression_ops {lo : Nat} :
    ∀ (e : expression_t) (flags : Nat) {E : Nat → Prop} {c : compiler_ctx_t},
      ExprOps E lo c → ExprOpsS E lo (compile_memberid_expression c e flags)
  | .EXPR_IDENT i, flags, E, c, h => by rw [compile_memberid_expression]; exact push_instr_bstr_uint_ops _ _ _ h (by decide)
  | .binary t (.mk e1 e2), flags, E, c, h => compile_memberid_binary_ops_aux t flags (compile_expression_noret_ops e1) (compile_expression_noret_ops e2) h
  | .EXPR_MEMBER (.mk e1 i), flags, E, c, h => compile_memberid_member_ops_aux i flags (compile_expression_noret_ops e1) h
  | .unary _ _, flags, E, c, h => by
    rw [compile_memberid_expression] <;> first | exact opss_ok h | (intros; contradiction)
  | .EXPR_COND _, flags, E, c, h => by
    rw [compile_memberid_expression] <;> first | exact opss_ok h | (intros; contradiction)
  | .EXPR_NEW _, flags, E, c, h => by
    rw [compile_memberid_expression] <;> first | exact opss_ok h | (intros; contradiction)
  | .EXPR_CALL _, flags, E, c, h => by
    rw [compile_memberid_expression] <;> first | exact opss_ok h | (intros; contradiction)
  | .EXPR_THIS, flags, E, c, h => by
    rw [compile_memberid_expression] <;> first | exact opss_ok h | (intros; contradiction)
  | .EXPR_FUNC _, flags, E, c, h => by
    rw [compile_memberid_expression] <;> first | exact opss_ok h | (intros; contradiction)
  | .EXPR_ARRAYLIT _, flags, E, c, h => by
    rw [compile_memberid_expression] <;> first | exact opss_ok h | (intros; contradiction)
  | .EXPR_PROPVAL _, flags, E, c, h => by
    rw [compile_memberid_expression] <;> first | exact opss_ok h | (intros; contradiction)
  | .EXPR_LITERAL _, flags, E, c, h => by
    rw [compile_memberid_expression] <;> first | exact opss_ok h | (intros; contradiction)

theorem compile_increment_expression_ops {lo : Nat} :
    ∀ (e : unary_expression_t) (op : jsop_t) (n : Int) (_ : instr_info_arg1_type op ≠ ARG_ADDR ∧ op ≠ OP_call ∧ op ≠ OP_call_member) {E : Nat → Prop} {c : compiler_ctx_t},
      ExprOps E lo c → ExprOpsS E lo (compile_increment_expression c e op n)
  | .mk e1, op, n, hop, E, c, h => compile_increment_expression_ops_aux op n (compile_expression_noret_ops e1) (compile_memberid_expression_ops e1) hop h

theorem compile_comma_expression_ops {lo : Nat} :
    ∀ (e : binary_expression_t) {E : Nat → Prop} {c : compiler_ctx_t},
      ExprOps E lo c → ExprOpsS E lo (compile_comma_expression c e)
  | .mk e1 e2, E, c, h => compile_comma_expression_ops_aux (compile_expression_noret_ops e1) (compile_expression_noret_ops e2) h

theorem compile_logical_expression_ops {lo : Nat} :
    ∀ (e : binary_expression_t) (op : jsop_t) (_ : op ≠ OP_call ∧ op ≠ OP_call_member) {E : Nat → Prop} {c : compiler_ctx_t},
      ExprOps E lo c → ExprOpsS E lo (compile_logical_expression c e op)
  | .mk e1 e2, op, hop, E, c, h => compile_logical_expression_ops_aux op (compile_expression_noret_ops e1) (compile_expression_noret_ops e2) hop h

theorem compile_conditional_expression_ops {lo : Nat} :
    ∀ (e : conditional_expression_t) {E : Nat → Prop} {c : compiler_ctx_t},
      ExprOps E lo c → ExprOpsS E lo (compile_conditional_expression c e)
  | .mk e1 e2 e3, E, c, h => compile_conditional_expression_ops_aux (compile_expression_noret_ops e1) (compile_expression_noret_ops e2) (compile_expression_noret_ops e3) h

theorem compile_argument_list_ops {lo : Nat} :
    ∀ (args : argument_t) (n : Nat) {E : Nat → Prop} {c : compiler_ctx_t},
      ExprOps E lo c → ExprOpsS E lo (compile_argument_list c args n).1
  | .NULL, n, E, c, h => by rw [compile_argument_list]; exact opss_ok h
  | .mk e1 next, n, E, c, h => compile_argument_list_ops_aux n (compile_expression_noret_ops e1) (compile_argument_list_ops next) h

theorem compile_new_expression_ops {lo : Nat} :
    ∀ (e : call_expression_t) {E : Nat → Prop} {c : compiler_ctx_t},
      ExprOps E lo c → ExprOpsS E lo (compile_new_expression c e)
  | .mk e1 args, E, c, h => compile_new_expression_ops_aux (compile_expression_noret_ops e1) (compile_argument_list_ops args) h

theorem compile_call_expression_ops {lo : Nat} :
    ∀ (e : call_expression_t) {E : Nat → Prop} {c : compiler_ctx_t},
      ExprOps E lo c → ExprOpsS E lo (compile_call_expression c e none).1
  | .mk e1 args, E, c, h => compile_call_expression_ops_aux (compile_expression_noret_ops e1) (compile_memberid_expression_ops e1) (compile_argument_list_ops args) h

theorem compile_delete_expression_ops {lo : Nat} :
    ∀ (e : unary_expression_t) {E : Nat → Prop} {c : compiler_ctx_t},
      ExprOps E lo c → ExprOpsS E lo (compile_delete_expression c e)
  | .mk (.binary t (.mk e1 e2)), E, c, h => compile_delete_array_ops_aux t (compile_expression_noret_ops e1) (compile_expression_noret_ops e2) (compile_expression_noret_ops (.binary t (.mk e1 e2))) h
  | .mk (.EXPR_MEMBER (.mk e1 i)), E, c, h => compile_delete_member_ops_aux i (compile_expression_noret_ops e1) (compile_expression_noret_ops (.EXPR_MEMBER (.mk e1 i))) h
  | .mk (.unary t u), E, c, h => compile_delete_other_ops_aux (compile_expression_noret_ops (.unary t u)) (by cases t <;> constructor <;> intro h <;> cases h) h
  | .mk (.EXPR_COND u), E, c, h => compile_delete_other_ops_aux (compile_expression_noret_ops (.EXPR_COND u)) (by constructor <;> intro h <;> cases h) h
  | .mk (.EXPR_NEW u), E, c, h => compile_delete_other_ops_aux (compile_expression_noret_ops (.EXPR_NEW u)) (by constructor <;> intro h <;> cases h) h
  | .mk (.EXPR_CALL u), E, c, h => compile_delete_other_ops_aux (compile_expression_noret_ops (.EXPR_CALL u)) (by constructor <;> intro h <;> cases h) h
  | .mk (.EXPR_THIS), E, c, h => compile_delete_other_ops_aux (compile_expression_noret_ops (.EXPR_THIS)) (by constructor <;> intro h <;> cases h) h
  | .mk (.EXPR_FUNC u), E, c, h => compile_delete_other_ops_aux (compile_expression_noret_ops (.EXPR_FUNC u)) (by constructor <;> intro h <;> cases h) h
  | .mk (.EXPR_IDENT u), E, c, h => compile_delete_other_ops_aux (compile_expression_noret_ops (.EXPR_IDENT u)) (by constructor <;> intro h <;> cases h) h
  | .mk (.EXPR_ARRAYLIT u), E, c, h => compile_delete_other_ops_aux (compile_expression_noret_ops (.EXPR_ARRAYLIT u)) (by constructor <;> intro h <;> cases h) h
  | .mk (.EXPR_PROPVAL u), E, c, h => compile_delete_other_ops_aux (compile_expression_noret_ops (.EXPR_PROPVAL u)) (by constructor <;> intro h <;> cases h) h
  | .mk (.EXPR_LITERAL u), E, c, h => compile_delete_other_ops_aux (compile_expression_noret_ops (.EXPR_LITERAL u)) (by constructor <;> intro h <;> cases h) h

theorem compile_assign_expression_ops {lo : Nat} :
    ∀ (e : binary_expression_t) (op : jsop_t) (_ : instr_info_arg1_type op ≠ ARG_ADDR ∧ op ≠ OP_call ∧ op ≠ OP_call_member) {E : Nat → Prop} {c : compiler_ctx_t},
      ExprOps E lo c → ExprOpsS E lo (compile_assign_expression c e op)
  | .mk e1 e2, op, hop, E, c, h => compile_assign_expression_ops_aux op (compile_expression_noret_ops e1) (compile_memberid_expression_ops e1) (compile_expression_noret_ops e2) hop h

theorem compile_typeof_expression_ops {lo : Nat} :
    ∀ (e : unary_expression_t) {E : Nat → Prop} {c : compiler_ctx_t},
      ExprOps E lo c → ExprOpsS E lo (compile_typeof_expression c e)
  | .mk e1, E, c, h => compile_typeof_expression_ops_aux (compile_expression_noret_ops e1) (compile_memberid_expression_ops e1) h

theorem compile_array_elements_ops {lo : Nat} :
    ∀ (l : array_element_t) (n : Nat) {E : Nat → Prop} {c : compiler_ctx_t},
      ExprOps E lo c → ExprOpsS E lo (compile_array_elements c l n).1
  | .NULL, n, E, c, h => by rw [compile_array_elements]; exact opss_ok h
  | .mk elision e1 next, n, E, c, h => compile_array_elements_ops_aux elision n (compile_expression_noret_ops e1) (compile_array_elements_ops next) h

theorem compile_array_literal_ops {lo : Nat} :
    ∀ (e : array_literal_expression_t) {E : Nat → Prop} {c : compiler_ctx_t},
      ExprOps E lo c → ExprOpsS E lo (compile_array_literal c e)
  | .mk l n, E, c, h => compile_array_literal_ops_aux n (compile_array_elements_ops l) h

theorem compile_property_list_ops {lo : Nat} :
    ∀ (l : prop_val_t) {E : Nat → Prop} {c : compiler_ctx_t},
      ExprOps E lo c → ExprOpsS E lo (compile_property_list c l)
  | .NULL, E, c, h => by rw [compile_property_list]; exact opss_ok h
  | .mk name e1 next, E, c, h => compile_property_list_ops_aux name (compile_expression_noret_ops e1) (compile_property_list_ops next) h

theorem compile_object_literal_ops {lo : Nat} :
    ∀ (e : property_value_expression_t) {E : Nat → Prop} {c : compiler_ctx_t},
      ExprOps E lo c → ExprOpsS E lo (compile_object_literal c e)
  | .mk l, E, c, h => compile_object_literal_ops_aux (compile_property_list_ops l) h
end


/-! ## The no-value flag and the second operand of calls -/

theorem ops_init (c : compiler_ctx_t) : ExprOps (fun _ => False) c.code_off c :=
  ⟨fun i h1 h2 => absurd h2 (Nat.not_lt.2 h1), fun i h1 h2 => absurd h2 (Nat.not_lt.2 h1),
    le_refl _⟩

theorem compile_expression_ops {E : Nat → Prop} {lo : Nat} {c : compiler_ctx_t}
    (e : expression_t) (h : ExprOps E lo c) : ExprOpsS E lo (compile_expression c e) :=
  compile_expression_noret_ops e h

theorem call_callee_ops {E : Nat → Prop} {lo : Nat} {c : compiler_ctx_t}
    (e : expression_t) (h : ExprOps E lo c) : ExprOpsS E lo (call_callee c e) := by
  unfold call_callee
  split
  · exact compile_memberid_expression_ops e 0 h
  · exact compile_expression_noret_ops e h

/-- An expression that is no call leaves the no-value cell as it is. -/
theorem noret_other (c : compiler_ctx_t) (e : expression_t) (no_ret : Option Bool)
    (h : e.is_call = false) :
    compile_expression_noret c e no_ret = (compile_expression c e, no_ret) := by
  unfold compile_expression
  cases e with
  | binary type expr => cases type <;> rw [compile_expression_noret, compile_expression_noret]
  | unary type expr => cases type <;> rw [compile_expression_noret, compile_expression_noret]
  | EXPR_CALL expr => exact absurd (show true = false from h) (by decide)
  | _ => rw [compile_expression_noret, compile_expression_noret]

/-- The call instruction of a call expression is the last instruction of its code; the calls
before it, in the code of the callee and of the arguments, have the second operand 1. -/
theorem call_ops_top (ctx : compiler_ctx_t) (expression : expression_t) (args : argument_t)
    (no_ret : Option Bool)
    (hs : ¬ FAILED (compile_call_expression ctx (.mk expression args) no_ret).1.1 = true) :
    ctx.code_off < (compile_call_expression ctx (.mk expression args) no_ret).1.2.code_off ∧
    (((compile_call_expression ctx (.mk expression args) no_ret).1.2.instrs
        ((compile_call_expression ctx (.mk expression args) no_ret).1.2.code_off - 1)).op
        = OP_call ∨
      ((compile_call_expression ctx (.mk expression args) no_ret).1.2.instrs
        ((compile_call_expression ctx (.mk expression args) no_ret).1.2.code_off - 1)).op
        = OP_call_member) ∧
    ∀ i, ctx.code_off ≤ i →
      i < (compile_call_expression ctx (.mk expression args) no_ret).1.2.code_off - 1 →
      (((compile_call_expression ctx (.mk expression args) no_ret).1.2.instrs i).op = OP_call ∨
        ((compile_call_expression ctx (.mk expression args) no_ret).1.2.instrs i).op
          = OP_call_member) →
      ((compile_call_expression ctx (.mk expression args) no_ret).1.2.instrs i).arg2
        = .lng 1 := by
  rw [compile_call_expression_unfold] at hs ⊢
  have hA := call_callee_ops expression (ops_init ctx)
  generalize call_callee ctx expression = A at *
  by_cases h1 : FAILED A.1 = true
  · rw [if_pos h1] at hs
    exact absurd h1 hs
  rw [if_neg h1] at hs ⊢
  have hR := compile_argument_list_ops args 0 (hA h1)
  by_cases h2 : FAILED (compile_argument_list A.2 args 0).1.1 = true
  · rw [if_pos h2] at hs
    exact absurd h2 hs
  rw [if_neg h2] at hs ⊢
  have hR' := hR h2
  clear hR hA
  generalize compile_argument_list A.2 args 0 = R at *
  by_cases h3 : (push_instr R.1.2 (call_op expression)).1 = UINT_MAX
  · rw [if_pos h3] at hs
    exact absurd failed_oom hs
  rw [if_neg h3]
  obtain ⟨p1, p2, p3, p4, _⟩ := push_instr_ok R.1.2 (call_op expression) h3
  rw [p1]
  generalize push_instr R.1.2 (call_op expression) = P at *
  have hoff : (set_arg2 (set_arg1 P.2 R.1.2.code_off (.uint R.2)) R.1.2.code_off
      (.lng (if no_ret.isNone = true then 1 else 0))).code_off = R.1.2.code_off + 1 := p2
  show ctx.code_off < (set_arg2 _ _ _).code_off ∧
    (((set_arg2 _ _ _).instrs ((set_arg2 _ _ _).code_off - 1)).op = OP_call ∨
      ((set_arg2 _ _ _).instrs ((set_arg2 _ _ _).code_off - 1)).op = OP_call_member) ∧
    ∀ i, ctx.code_off ≤ i → i < (set_arg2 _ _ _).code_off - 1 →
      (((set_arg2 _ _ _).instrs i).op = OP_call ∨ ((set_arg2 _ _ _).instrs i).op = OP_call_member) →
      ((set_arg2 _ _ _).instrs i).arg2 = .lng 1
  rw [hoff, Nat.add_sub_cancel]
  refine ⟨Nat.lt_succ_of_le hR'.lo_le, ?_, fun i hi1 hi2 => ?_⟩
  · rw [set_arg2_same, set_arg1_same]
    show (P.2.instrs R.1.2.code_off).op = OP_call ∨ (P.2.instrs R.1.2.code_off).op = OP_call_member
    rw [p3]
    unfold call_op
    split
    · exact Or.inr rfl
    · exact Or.inl rfl
  · rw [set_arg2_other _ _ (Nat.ne_of_lt hi2), set_arg1_other _ _ (Nat.ne_of_lt hi2),
      p4 i (Nat.ne_of_lt hi2)]
    exact hR'.calls i hi1 hi2

/-- C36: the no-value flag. (1) When `compile_expression_noret` succeeds with a cell for the
flag, the cell holds TRUE afterwards if the top-level expression is a call expression, and is
left as it was otherwise: entered with FALSE, as `compile_expression_statement` does, it is
TRUE if and only if the expression is a call. (2) In that case the call instruction is the last
instruction of the code and its second operand is 0, and every other call instruction of the
code has the second operand 1. (3) In the code of an expression lowered with success through
`compile_expression` every call instruction has the second operand 1, the one of a top-level
call, which is the last instruction, and the nested ones. (4) An expression statement that is
lowered with success: when the expression is no call, the stream is the one the expression
left, with no filler; when it is a call and the append of the filler does not fail, exactly one
`OP_undefined` follows the code of the call; when the append fails, the routine returns success
all the same, with the state that the failed append left. -/
theorem no_value_flag (ctx : compiler_ctx_t) (e : expression_t) :
    (∀ b : Bool, ¬ FAILED (compile_expression_noret ctx e (some b)).1.1 = true →
      (e.is_call = true → (compile_expression_noret ctx e (some b)).2 = some true) ∧
      (e.is_call = false → (compile_expression_noret ctx e (some b)).2 = some b)) ∧
    (∀ b : Bool, e.is_call = true →
      ¬ FAILED (compile_expression_noret ctx e (some b)).1.1 = true →
      ctx.code_off < (compile_expression_noret ctx e (some b)).1.2.code_off ∧
      (((compile_expression_noret ctx e (some b)).1.2.instrs
          ((compile_expression_noret ctx e (some b)).1.2.code_off - 1)).op = OP_call ∨
        ((compile_expression_noret ctx e (some b)).1.2.instrs
          ((compile_expression_noret ctx e (some b)).1.2.code_off - 1)).op = OP_call_member) ∧
      ((compile_expression_noret ctx e (some b)).1.2.instrs
        ((compile_expression_noret ctx e (some b)).1.2.code_off - 1)).arg2 = .lng 0 ∧
      ∀ i, ctx.code_off ≤ i → i < (compile_expression_noret ctx e (some b)).1.2.code_off - 1 →
        (((compile_expression_noret ctx e (some b)).1.2.instrs i).op = OP_call ∨
          ((compile_expression_noret ctx e (some b)).1.2.instrs i).op = OP_call_member) →
        ((compile_expression_noret ctx e (some b)).1.2.instrs i).arg2 = .lng 1) ∧
    (¬ FAILED (compile_expression ctx e).1 = true →
      (∀ i, ctx.code_off ≤ i → i < (compile_expression ctx e).2.code_off →
        (((compile_expression ctx e).2.instrs i).op = OP_call ∨
          ((compile_expression ctx e).2.instrs i).op = OP_call_member) →
        ((compile_expression ctx e).2.instrs i).arg2 = .lng 1) ∧
      (e.is_call = true →
        ctx.code_off < (compile_expression ctx e).2.code_off ∧
        (((compile_expression ctx e).2.instrs ((compile_expression ctx e).2.code_off - 1)).op
            = OP_call ∨
          ((compile_expression ctx e).2.instrs ((compile_expression ctx e).2.code_off - 1)).op
            = OP_call_member))) ∧
    (¬ FAILED (compile_expression_statement ctx ⟨e⟩).1 = true →
      ¬ FAILED (compile_expression_noret ctx e (some false)).1.1 = true ∧
      (e.is_call = false →
        (compile_expression_statement ctx ⟨e⟩).2
          = (compile_expression_noret ctx e (some false)).1.2) ∧
      (e.is_call = true →
        ¬ (push_instr (compile_expression_noret ctx e (some false)).1.2 OP_undefined).1
          = UINT_MAX →
        Appends (compile_expression_noret ctx e (some false)).1.2
          (compile_expression_statement ctx ⟨e⟩).2 OP_undefined) ∧
      (e.is_call = true →
        (push_instr (compile_expression_noret ctx e (some false)).1.2 OP_undefined).1
          = UINT_MAX →
        compile_expression_statement ctx ⟨e⟩
          = (S_OK, (push_instr (compile_expression_noret ctx e (some false)).1.2
              OP_undefined).2))) := by
  refine ⟨fun b hs => ⟨fun hc => ?_, fun hc => ?_⟩, fun b hc hs => ?_, fun hs => ⟨?_, fun hc => ?_⟩,
    fun hs => ?_⟩
  · cases e with
    | EXPR_CALL expr =>
      obtain ⟨expression, args⟩ := expr
      rw [compile_expression_noret] at hs ⊢
      exact (call_layout ctx expression args (some b) hs).2.2.2
    | _ => exact absurd (show false = true from hc) (by decide)
  · rw [noret_other ctx e (some b) hc]
  · cases e with
    | EXPR_CALL expr =>
      obtain ⟨expression, args⟩ := expr
      rw [compile_expression_noret] at hs ⊢
      obtain ⟨t1, t2, t3⟩ := call_ops_top ctx expression args (some b) hs
      exact ⟨t1, t2, (call_layout ctx expression args (some b) hs).2.2.1, t3⟩
    | _ => exact absurd (show false = true from hc) (by decide)
  · exact (compile_expression_ops e (ops_init ctx) hs).calls
  · cases e with
    | EXPR_CALL expr =>
      obtain ⟨expression, args⟩ := expr
      unfold compile_expression at hs ⊢
      rw [compile_expression_noret] at hs ⊢
      obtain ⟨t1, t2, _⟩ := call_ops_top ctx expression args none hs
      exact ⟨t1, t2⟩
    | _ => exact absurd (show false = true from hc) (by decide)
  · have hn : ∀ n : Nat, ¬ logical_not n = -1 := by
      intro n
      unfold logical_not
      split <;> decide
    have hf := noret_flag ctx e
    unfold compile_expression_statement at hs ⊢
    dsimp only at hs ⊢
    generalize compile_expression_noret ctx e (some false) = X at *
    by_cases h1 : FAILED X.1.1 = true
    · rw [if_pos h1] at hs
      exact absurd h1 hs
    rw [if_neg h1] at hs ⊢
    have hf' := hf h1
    refine ⟨h1, fun hc => ?_, fun hc hp => ?_, fun hc hp => ?_⟩
    · rw [hc] at hf'
      rw [if_neg (by rw [hf']; simp)]
    · rw [hc] at hf'
      rw [if_pos hf', if_neg (hn _)]
      obtain ⟨_, p2, p3, p4, _⟩ := push_instr_ok X.1.2 OP_undefined hp
      exact ⟨p2, p3, fun i hi => p4 i (Nat.ne_of_lt hi)⟩
    · rw [hc] at hf'
      rw [if_pos hf', if_neg (hn _)]

/-- The statement `f();`. From the empty state the flag is set, the call instruction has the
second operand 0 and exactly one `OP_undefined` follows it. In a buffer of 64 instructions that
holds 62, with an allocator that refuses to grow it, the append of the filler fails: the routine
returns success and the stream ends with the call instruction, at the offset 64. -/
theorem no_value_flag_witness :
    ((compile_expression_noret ctx_empty call_statement_sample.expr (some false)).2 = some true ∧
      ((compile_expression_noret ctx_empty call_statement_sample.expr (some false)).1.2.instrs
        ((compile_expression_noret ctx_empty call_statement_sample.expr
          (some false)).1.2.code_off - 1)).arg2 = .lng 0 ∧
      Appends (compile_expression_noret ctx_empty call_statement_sample.expr (some false)).1.2
        (compile_expression_statement ctx_empty call_statement_sample).2 OP_undefined) ∧
    ((push_instr (compile_expression_noret ctx_nearly_full call_statement_sample.expr
        (some false)).1.2 OP_undefined).1 = UINT_MAX ∧
      compile_expression_statement ctx_nearly_full call_statement_sample
        = (S_OK, (push_instr (compile_expression_noret ctx_nearly_full
            call_statement_sample.expr (some false)).1.2 OP_undefined).2) ∧
      (compile_expression_statement ctx_nearly_full call_statement_sample).2.code_off = 64 ∧
      ((compile_expression_statement ctx_nearly_full call_statement_sample).2.instrs 63).op
        = OP_call_member) :=
  ⟨⟨((no_value_flag ctx_empty call_statement_sample.expr).1 false (by decide)).1 rfl,
      ((no_value_flag ctx_empty call_statement_sample.expr).2.1 false rfl (by decide)).2.2.1,
      ((no_value_flag ctx_empty call_statement_sample.expr).2.2.2 (by decide)).2.2.1 rfl
        (by decide)⟩,
   ⟨by decide,
      ((no_value_flag ctx_nearly_full call_statement_sample.expr).2.2.2 (by decide)).2.2.2 rfl
        (by decide),
      by decide, by decide⟩⟩


/-! ## A `for-in` statement whose target is not assignable -/

theorem flag_le_tok (n : Nat) : LABEL_FLAG ≤ n ||| LABEL_FLAG := by
  have h : (n ||| 2 ^ 31).testBit 31 = true := by
    rw [Nat.testBit_or, Nat.testBit_two_pow_self, Bool.or_true]
  exact Nat.testBit_implies_ge h

theorem forin_illegal_eq (ctx : compiler_ctx_t) (expr in_expr : expression_t)
    (statement : statement_t) (hm : is_memberid_expr expr.type = false) :
    compile_forin_statement ctx (.mk .NULL expr in_expr statement) =
      (if (alloc_label ctx).1 = UINT_MAX then (E_OUTOFMEMORY, (alloc_label ctx).2) else
       if (alloc_label (alloc_label ctx).2).1 = UINT_MAX then
         (E_OUTOFMEMORY, forin_object_entry ctx .NULL) else
       if FAILED (compile_expression (forin_object_entry ctx .NULL) in_expr).1 = true then
         compile_expression (forin_object_entry ctx .NULL) in_expr else
       if FAILED (push_instr_uint (compile_expression (forin_object_entry ctx .NULL) in_expr).2
           OP_throw_ref JS_E_ILLEGAL_ASSIGN).1 = true then
         push_instr_uint (compile_expression (forin_object_entry ctx .NULL) in_expr).2
           OP_throw_ref JS_E_ILLEGAL_ASSIGN else
       (S_OK, (push_instr_uint (compile_expression (forin_object_entry ctx .NULL) in_expr).2
           OP_throw_ref JS_E_ILLEGAL_ASSIGN).2)) := by
  have e0 : forin_object_entry ctx .NULL = (alloc_label (alloc_label ctx).2).2 := rfl
  rw [compile_forin_statement_unfold, e0]
  dsimp only
  rw [if_neg not_failed_ok]
  by_cases h1 : (alloc_label ctx).1 = UINT_MAX
  · rw [if_pos h1, if_pos h1]
  rw [if_neg h1, if_neg h1]
  by_cases h2 : (alloc_label (alloc_label ctx).2).1 = UINT_MAX
  · rw [if_pos h2, if_pos h2]
  rw [if_neg h2, if_neg h2]
  by_cases h3 : FAILED (compile_expression (alloc_label (alloc_label ctx).2).2 in_expr).1 = true
  · rw [if_pos h3, if_pos h3]
  rw [if_neg h3, if_neg h3]
  have hmm : ¬ is_memberid_expr expr.type = true := by rw [hm]; decide
  rw [if_neg hmm]
  by_cases h4 : FAILED (push_instr_uint (compile_expression (alloc_label (alloc_label ctx).2).2
      in_expr).2 OP_throw_ref JS_E_ILLEGAL_ASSIGN).1 = true
  · rw [if_pos h4, if_pos h4]
  rw [if_neg h4, if_neg h4]
  rfl

/-- C40: a `for-in` statement without declared variable whose target is neither an identifier
nor a member access nor an indexed access. `compile_forin_statement` fails only when memory
runs out (for a label or for the append) or when the lowering of the enumerated object fails,
never because of the target. When it returns success, the result is `S_OK`; the stream at entry
is kept and what is appended is the code of the
enumerated object, lowered right after the two labels are allocated, and one `OP_throw_ref`
with the operand `JS_E_ILLEGAL_ASSIGN`, which ends the stream: no body, no `OP_forin`, no jump
is emitted by the routine, and the context stack is as at entry. The break and continue labels
are the two labels allocated; neither is bound by the routine (label count within the range of
label tokens), and no instruction that was appended carries either as an address operand: the
address operands in the code of the object are offsets of the stream, which for a stream
shorter than `LABEL_FLAG` are below every label token. -/
theorem forin_illegal_target (ctx : compiler_ctx_t) (expr in_expr : expression_t)
    (statement : statement_t) (hm : is_memberid_expr expr.type = false) :
    (FAILED (compile_forin_statement ctx (.mk .NULL expr in_expr statement)).1 = true →
      (compile_forin_statement ctx (.mk .NULL expr in_expr statement)).1 = E_OUTOFMEMORY ∨
      (FAILED (compile_expression (forin_object_entry ctx .NULL) in_expr).1 = true ∧
        compile_forin_statement ctx (.mk .NULL expr in_expr statement)
          = compile_expression (forin_object_entry ctx .NULL) in_expr)) ∧
    (SUCCEEDED (compile_forin_statement ctx (.mk .NULL expr in_expr statement)).1 = true →
    (compile_forin_statement ctx (.mk .NULL expr in_expr statement)).1 = S_OK ∧
    Keeps ctx (compile_forin_statement ctx (.mk .NULL expr in_expr statement)).2 ∧
    (forin_object_entry ctx .NULL).code_off = ctx.code_off ∧
    ¬ FAILED (compile_expression (forin_object_entry ctx .NULL) in_expr).1 = true ∧
    (∀ i, i < (compile_expression (forin_object_entry ctx .NULL) in_expr).2.code_off →
      (compile_forin_statement ctx (.mk .NULL expr in_expr statement)).2.instrs i
        = (compile_expression (forin_object_entry ctx .NULL) in_expr).2.instrs i) ∧
    ((compile_forin_statement ctx (.mk .NULL expr in_expr statement)).2.instrs
      (compile_expression (forin_object_entry ctx .NULL) in_expr).2.code_off).op
      = OP_throw_ref ∧
    ((compile_forin_statement ctx (.mk .NULL expr in_expr statement)).2.instrs
      (compile_expression (forin_object_entry ctx .NULL) in_expr).2.code_off).arg1
      = .uint JS_E_ILLEGAL_ASSIGN ∧
    (compile_forin_statement ctx (.mk .NULL expr in_expr statement)).2.code_off
      = (compile_expression (forin_object_entry ctx .NULL) in_expr).2.code_off + 1 ∧
    (compile_forin_statement ctx (.mk .NULL expr in_expr statement)).2.stat_ctx = ctx.stat_ctx ∧
    (alloc_label ctx).1 = ctx.labels_cnt ||| LABEL_FLAG ∧
    (alloc_label (alloc_label ctx).2).1 = (ctx.labels_cnt + 1) ||| LABEL_FLAG ∧
    ((compile_forin_statement ctx (.mk .NULL expr in_expr statement)).2.labels_cnt
        ≤ LABEL_FLAG →
      ∀ l ∈ bound_since ctx (compile_forin_statement ctx (.mk .NULL expr in_expr statement)).2,
        ctx.labels_cnt + 2 ≤ l) ∧
    (∀ i, ctx.code_off ≤ i →
      i < (compile_forin_statement ctx (.mk .NULL expr in_expr statement)).2.code_off →
      instr_info_arg1_type
        ((compile_forin_statement ctx (.mk .NULL expr in_expr statement)).2.instrs i).op
        = ARG_ADDR →
      ∃ v, ((compile_forin_statement ctx (.mk .NULL expr in_expr statement)).2.instrs i).arg1
          = .uint v ∧
        v ≤ (compile_forin_statement ctx (.mk .NULL expr in_expr statement)).2.code_off ∧
        ((compile_forin_statement ctx (.mk .NULL expr in_expr statement)).2.code_off
            < LABEL_FLAG →
          v ≠ (alloc_label ctx).1 ∧ v ≠ (alloc_label (alloc_label ctx).2).1))) := by
  refine ⟨fun hf => ?_, fun hs => ?_⟩
  · rw [forin_illegal_eq ctx expr in_expr statement hm] at hf ⊢
    by_cases h1 : (alloc_label ctx).1 = UINT_MAX
    · rw [if_pos h1]
      exact Or.inl rfl
    rw [if_neg h1] at hf ⊢
    by_cases h2 : (alloc_label (alloc_label ctx).2).1 = UINT_MAX
    · rw [if_pos h2]
      exact Or.inl rfl
    rw [if_neg h2] at hf ⊢
    by_cases h3 : FAILED (compile_expression (forin_object_entry ctx .NULL) in_expr).1 = true
    · rw [if_pos h3]
      exact Or.inr ⟨h3, rfl⟩
    rw [if_neg h3] at hf ⊢
    by_cases h4 : FAILED (push_instr_uint (compile_expression (forin_object_entry ctx .NULL)
        in_expr).2 OP_throw_ref JS_E_ILLEGAL_ASSIGN).1 = true
    · rw [if_pos h4]
      exact Or.inl ((push_instr_uint_ok _ _ _).1 h4)
    · rw [if_neg h4] at hf
      exact absurd hf not_failed_ok
  have hk := compile_forin_statement_rel (.mk .NULL expr in_expr statement) (Rel.refl ctx)
  have hs' := succeeded_not_failed hs
  clear hs
  have hoe : forin_object_entry ctx .NULL = (alloc_label (alloc_label ctx).2).2 := rfl
  have hO := compile_expression_ops in_expr (ops_init (forin_object_entry ctx .NULL))
  have hR := compile_expression_rel in_expr (Rel.refl (forin_object_entry ctx .NULL))
  revert hk hs'
  rw [forin_illegal_eq ctx expr in_expr statement hm]
  intro hk hs'
  by_cases h1 : (alloc_label ctx).1 = UINT_MAX
  · rw [if_pos h1] at hs'
    exact absurd failed_oom hs'
  rw [if_neg h1] at hs' hk ⊢
  by_cases h2 : (alloc_label (alloc_label ctx).2).1 = UINT_MAX
  · rw [if_pos h2] at hs'
    exact absurd failed_oom hs'
  rw [if_neg h2] at hs' hk ⊢
  obtain ⟨a1, a2, a3, a4, _, _, _⟩ := lay_alloc2 ctx h1 h2
  rw [← hoe] at a3 a4
  generalize forin_object_entry ctx .NULL = c0 at *
  by_cases h3 : FAILED (compile_expression c0 in_expr).1 = true
  · rw [if_pos h3] at hs'
    exact absurd h3 hs'
  rw [if_neg h3] at hs' hk ⊢
  have hO' := hO h3
  clear hO
  generalize compile_expression c0 in_expr = O at *
  by_cases h4 : FAILED (push_instr_uint O.2 OP_throw_ref JS_E_ILLEGAL_ASSIGN).1 = true
  · rw [if_pos h4] at hs'
    exact absurd h4 hs'
  rw [if_neg h4] at hk ⊢
  obtain ⟨_, p2, p3, p4, p5⟩ := (push_instr_uint_ok O.2 OP_throw_ref JS_E_ILLEGAL_ASSIGN).2 h4
  have hr : Rel c0.code_off c0.labels_cnt c0
      (push_instr_uint O.2 OP_throw_ref JS_E_ILLEGAL_ASSIGN).2 :=
    push_instr_uint_rel OP_throw_ref JS_E_ILLEGAL_ASSIGN hR
  generalize push_instr_uint O.2 OP_throw_ref JS_E_ILLEGAL_ASSIGN = T at *
  refine ⟨rfl, ⟨hk.off_ge, hk.instrs_eq⟩, a4, h3, fun i hi => p5 i (Nat.ne_of_lt hi), p3, p4, p2,
    hk.stat_ctx_eq, a1, a2, fun hB l hl => ?_, fun i hi1 hi2 ha => ?_⟩
  · obtain ⟨n, e, pn, _⟩ := hr.log_ext hB
    have hlog : c0.label_log = ctx.label_log := by
      rw [hoe]
      exact (alloc_label_log (alloc_label ctx).2).trans (alloc_label_log ctx)
    rw [hlog] at e
    have := bound_since_eq e
    rw [this] at hl
    have := (pn l hl).1
    rw [a3] at this
    exact this
  · have hi2' : i < O.2.code_off + 1 := p2 ▸ hi2
    by_cases hlt : i < O.2.code_off
    · rw [p5 i (Nat.ne_of_lt hlt)] at ha ⊢
      obtain ⟨v, e, _, v2⟩ := hO'.addrs i (a4 ▸ hi1) hlt (fun h => h) ha
      refine ⟨v, e, le_trans v2 (by rw [p2]; exact Nat.le_succ _), fun hF => ?_⟩
      have hF' : O.2.code_off + 1 < LABEL_FLAG := by
        rw [← p2]
        exact hF
      have hv : v < LABEL_FLAG := lt_of_le_of_lt v2 (lt_trans (Nat.lt_succ_self _) hF')
      constructor
      · rw [a1]
        exact Nat.ne_of_lt (lt_of_lt_of_le hv (flag_le_tok _))
      · rw [a2]
        exact Nat.ne_of_lt (lt_of_lt_of_le hv (flag_le_tok _))
    · have e : i = O.2.code_off := Nat.le_antisymm (Nat.le_of_lt_succ hi2') (Nat.le_of_not_lt hlt)
      subst e
      rw [p3] at ha
      exact absurd ha (by decide)

/-- The statement `for(1 in o) b;` from the empty context: the stream is the code of `o` and
one `OP_throw_ref`, two labels are allocated and none is bound. -/
theorem forin_illegal_target_witness :
    (compile_forin_statement ctx_empty forin_illegal_sample).1 = S_OK ∧
    ((compile_forin_statement ctx_empty forin_illegal_sample).2.instrs 1).op = OP_throw_ref ∧
    (compile_forin_statement ctx_empty forin_illegal_sample).2.code_off = 2 ∧
    (compile_forin_statement ctx_empty forin_illegal_sample).2.labels_cnt = 2 ∧
    bound_since ctx_empty (compile_forin_statement ctx_empty forin_illegal_sample).2 = [] :=
  ⟨((forin_illegal_target ctx_empty (.EXPR_LITERAL ⟨.LT_INT 1⟩) (.EXPR_IDENT ⟨"o"⟩)
      (stat_ident "b") rfl).2 (by decide)).1,
   ((forin_illegal_target ctx_empty (.EXPR_LITERAL ⟨.LT_INT 1⟩) (.EXPR_IDENT ⟨"o"⟩)
      (stat_ident "b") rfl).2 (by decide)).2.2.2.2.2.1,
   by decide, by decide, by decide⟩


end JsCompile
